import Mathlib

/-! Arribada tracker firmware: protocol engine and top-level state machine.

A shallow embedding of `src/core/sm_main/sm_main.c`.

* Global variables of the C file are the fields of `State`.
* The state functions take the state machine handle as their parameter: they are
  functions in the monad `SM`, into which the functions of `M` lift and which alone
  can write the handle.
* Every function of the C file is a function in the monad `M`: it reads the
  context (`Ctx`: compile-time constants and wire layout of the absent headers,
  plus the oracles answering calls into other modules), updates the state and
  either returns, or throws a CException (`Res.throw`, the state reached so far
  is kept, as with `Throw` on global variables).
* Calls into other modules are appended to `State.trace`; the value a call
  returns is given by an oracle of `Env` applied to the trace so far, so any
  deterministic environment can be represented.
* `Res.stuck` marks an execution that does not return to its caller: a loop that
  ran out of fuel, a write past the end of a C array, or a reset of the MCU.
-/

namespace SmMain

/-! ## Machine integers -/

/-- Two to the power 32, the modulus of `uint32_t` arithmetic. -/
def U32_MOD : Nat := 4294967296

/-- Truncation to `uint32_t`. -/
def u32 (x : Nat) : Nat := x % U32_MOD

/-- Subtraction `a - b` on `uint32_t` (wraps around). -/
def u32_sub (a b : Nat) : Nat := (a + U32_MOD - b % U32_MOD) % U32_MOD

/-- Truncation to `uint16_t`. -/
def u16 (x : Nat) : Nat := x % 65536

/-- Subtraction on `uint16_t` (wraps around). -/
def u16_sub (a b : Nat) : Nat := (a + 65536 - b % 65536) % 65536

/-- Little-endian value of a byte string (the scalar stored in a tag's contents). -/
def le_value : List Nat → Nat
  | [] => 0
  | b :: bs => b % 256 + 256 * le_value bs

/-- The `MIN(a,b)` helper of sm_main.c. -/
def MIN (a b : Nat) : Nat := if a < b then a else b

/-! ## Enumerations of sm_main.c and of the absent headers -/

/-- Message sub-states: `sm_message_state_t`. -/
inductive sm_message_state_t
  | SM_MESSAGE_STATE_IDLE
  | SM_MESSAGE_STATE_CFG_READ_NEXT
  | SM_MESSAGE_STATE_CFG_WRITE_NEXT
  | SM_MESSAGE_STATE_CFG_WRITE_ERROR
  | SM_MESSAGE_STATE_GPS_WRITE_NEXT
  | SM_MESSAGE_STATE_GPS_READ_NEXT
  | SM_MESSAGE_STATE_BLE_WRITE_NEXT
  | SM_MESSAGE_STATE_BLE_READ_NEXT
  | SM_MESSAGE_STATE_LOG_READ_NEXT
  | SM_MESSAGE_STATE_FW_SEND_IMAGE_NEXT
  deriving DecidableEq, Repr

/-- Top-level states, the indices of `sm_main_states[]`. -/
inductive sm_main_state_t
  | SM_MAIN_BOOT
  | SM_MAIN_BATTERY_CHARGING
  | SM_MAIN_BATTERY_LEVEL_LOW
  | SM_MAIN_LOG_FILE_FULL
  | SM_MAIN_PROVISIONING_NEEDED
  | SM_MAIN_PROVISIONING
  | SM_MAIN_OPERATIONAL
  deriving DecidableEq, Repr

/-- GPS sub-states: `sm_gps_state_t`. -/
inductive sm_gps_state_t
  | SM_GPS_STATE_ASLEEP
  | SM_GPS_STATE_ACQUIRING
  | SM_GPS_STATE_FIXED
  deriving DecidableEq, Repr

/-- Exceptions of `exceptions.h` that sm_main.c throws or names. -/
inductive CEXCEPTION_T
  | EXCEPTION_REQ_WRONG_SIZE
  | EXCEPTION_RESP_TX_PENDING
  | EXCEPTION_TX_BUFFER_FULL
  | EXCEPTION_TX_BUSY
  | EXCEPTION_RX_BUFFER_EMPTY
  | EXCEPTION_RX_BUFFER_FULL
  | EXCEPTION_BAD_SYS_CONFIG_ERROR_CONDITION
  | EXCEPTION_PACKET_WRONG_SIZE
  | EXCEPTION_GPS_SEND_ERROR
  | EXCEPTION_FS_ERROR
  | EXCEPTION_SPI_ERROR
  | EXCEPTION_LOG_BUFFER_FULL
  deriving DecidableEq, Repr

/-- Protocol error codes of `cmd.h` carried in a response (spec section 7). -/
inductive cmd_error_t
  | CMD_NO_ERROR
  | CMD_ERROR_FILE_NOT_FOUND
  | CMD_ERROR_FILE_ALREADY_EXISTS
  | CMD_ERROR_INVALID_CONFIG_TAG
  | CMD_ERROR_GPS_COMMS
  | CMD_ERROR_TIMEOUT
  | CMD_ERROR_CONFIG_PROTECTED
  | CMD_ERROR_CONFIG_TAG_NOT_SET
  | CMD_ERROR_BRIDGING_DISABLED
  | CMD_ERROR_DATA_OVERSIZE
  | CMD_ERROR_INVALID_PARAMETER
  | CMD_ERROR_INVALID_FW_IMAGE_TYPE
  | CMD_ERROR_IMAGE_CRC_MISMATCH
  | CMD_ERROR_FILE_INCOMPATIBLE
  | CMD_ERROR_UNKNOWN
  deriving DecidableEq, Repr

/-- Request commands dispatched by `message_idle_state`. -/
inductive cmd_id_t
  | CMD_CFG_READ_REQ
  | CMD_CFG_WRITE_REQ
  | CMD_CFG_SAVE_REQ
  | CMD_CFG_RESTORE_REQ
  | CMD_CFG_ERASE_REQ
  | CMD_CFG_PROTECT_REQ
  | CMD_CFG_UNPROTECT_REQ
  | CMD_GPS_WRITE_REQ
  | CMD_GPS_READ_REQ
  | CMD_GPS_CONFIG_REQ
  | CMD_BLE_CONFIG_REQ
  | CMD_BLE_WRITE_REQ
  | CMD_BLE_READ_REQ
  | CMD_STATUS_REQ
  | CMD_FW_SEND_IMAGE_REQ
  | CMD_FW_APPLY_IMAGE_REQ
  | CMD_RESET_REQ
  | CMD_BATTERY_STATUS_REQ
  | CMD_LOG_CREATE_REQ
  | CMD_LOG_ERASE_REQ
  | CMD_LOG_READ_REQ
  deriving DecidableEq, Repr

/-- File open modes of `fs.h`. -/
inductive fs_mode_t
  | FS_MODE_CREATE
  | FS_MODE_CREATE_CIRCULAR
  | FS_MODE_WRITEONLY
  | FS_MODE_READONLY
  deriving DecidableEq, Repr

/-- Return codes of the file system (`fs.h`, spec section 4.1.6); `FS_ERROR_OTHER`
stands for any further code, which sm_main.c handles in its `default` branches. -/
inductive fs_error_t
  | FS_NO_ERROR
  | FS_ERROR_BAD_DEVICE
  | FS_ERROR_FILE_NOT_FOUND
  | FS_ERROR_FILE_ALREADY_EXISTS
  | FS_ERROR_FILE_PROTECTED
  | FS_ERROR_NO_FREE_HANDLE
  | FS_ERROR_FILESYSTEM_FULL
  | FS_ERROR_END_OF_FILE
  | FS_ERROR_FILE_VERSION_MISMATCH
  | FS_ERROR_FLASH_MEDIA
  | FS_ERROR_OTHER
  deriving DecidableEq, Repr

/-- The transport backends of `config_if.h`. -/
inductive config_if_backend_t
  | CONFIG_IF_BACKEND_USB
  | CONFIG_IF_BACKEND_BLE
  | CONFIG_IF_BACKEND_NOT_SET
  deriving DecidableEq, Repr

/-- The timer handles declared in sm_main.c. -/
inductive timer_handle_t
  | timer_gps_interval
  | timer_gps_no_fix
  | timer_gps_maximum_acquisition
  | timer_log_flush
  | timer_switch_hysteresis
  | timer_pressure_interval
  | timer_pressure_sampling
  | timer_pressure_maximum_acquisition
  | timer_axl_interval
  | timer_axl_maximum_acquisition
  deriving DecidableEq, Repr

/-- Timer modes of `syshal_timer.h`. -/
inductive timer_mode_t
  | one_shot
  | periodic
  deriving DecidableEq, Repr

/-- The packets sm_main.c puts into the send buffer: a response built with
`CMD_SET_HDR` (sync word and command id implied by the constructor) and its
payload fields, or raw bulk data. -/
inductive tx_packet
  | cmd_generic_resp (error_code : cmd_error_t)
  | cmd_cfg_read_resp (error_code : cmd_error_t) (length : Nat)
  | cmd_cfg_write_cnf (error_code : cmd_error_t)
  | cmd_gps_read_resp (error_code : cmd_error_t) (length : Nat)
  | cmd_status_resp (error_code : cmd_error_t) (stm_firmware_version ble_firmware_version
      configuration_format_version : Nat)
  | cmd_fw_send_image_complete_cnf (error_code : cmd_error_t)
  | cmd_battery_status_resp (error_code : cmd_error_t) (charging_indicator : Bool)
      (charge_level : Int)
  | cmd_log_read_resp (error_code : cmd_error_t) (length : Nat)
  | data (bytes : List Nat)
  deriving DecidableEq, Repr

/-- Configuration-interface events handed to `config_if_callback`. -/
inductive config_if_event_t
  | CONFIG_IF_EVENT_SEND_COMPLETE (size : Nat)
  | CONFIG_IF_EVENT_RECEIVE_COMPLETE (data : List Nat)
  | CONFIG_IF_EVENT_CONNECTED
  | CONFIG_IF_EVENT_DISCONNECTED
  deriving DecidableEq, Repr

/-- GPS events handed to `syshal_gps_callback`. -/
inductive syshal_gps_event_t
  | SYSHAL_GPS_EVENT_STATUS (gpsFix ttff : Nat)
  | SYSHAL_GPS_EVENT_POSLLH (iTOW : Nat) (lon lat height : Int) (hAcc vAcc : Nat)
  | SYSHAL_GPS_EVENT_OTHER
  deriving DecidableEq, Repr

/-- Saltwater-switch events handed to `syshal_switch_callback`. -/
inductive syshal_switch_event_id_t
  | SYSHAL_SWITCH_EVENT_OPEN
  | SYSHAL_SWITCH_EVENT_CLOSED
  | SYSHAL_SWITCH_EVENT_OTHER
  deriving DecidableEq, Repr

/-- Records of `logging.h` built by sm_main.c. -/
inductive log_record
  | LOGGING_DATE_TIME (year month day hours minutes seconds : Nat)
  | LOGGING_AXL_XYZ (x y z : Int)
  | LOGGING_PRESSURE (pressure : Int)
  | LOGGING_GPS_TTFF (ttff : Nat)
  | LOGGING_GPS_POSITION (iTOW : Nat) (lon lat height : Int) (hAcc vAcc : Nat)
  | LOGGING_SURFACED
  | LOGGING_SUBMERGED
  | LOGGING_BATTERY (charge : Int)
  deriving DecidableEq, Repr

/-- Calls into other modules that return nothing sm_main.c looks at. -/
inductive hal_call_t
  | syshal_time_init | syshal_rtc_init | syshal_gpio_init | syshal_uart_init
  | syshal_timer_init | syshal_spi_init | syshal_i2c_init | syshal_flash_init
  | fs_init | fs_mount | syshal_gps_init | syshal_switch_init
  | syshal_gps_shutdown | syshal_gps_wake_up | syshal_gps_tick
  | syshal_pressure_init | syshal_pressure_term | syshal_pressure_tick
  | syshal_pressure_wake | syshal_pressure_sleep
  | syshal_axl_init | syshal_axl_term | syshal_axl_tick | syshal_axl_wake | syshal_axl_sleep
  | syshal_pmu_reset | syshal_pmu_set_level_POWER_STOP | syshal_pmu_set_level_POWER_SLEEP
  | syshal_gpio_set_output_high_LED1_GREEN | syshal_gpio_set_output_low_LED1_GREEN
  | syshal_gpio_set_output_toggle_LED1_GREEN
  | syshal_gpio_set_output_high_LED2_RED | syshal_gpio_set_output_low_LED2_RED
  | syshal_gpio_set_output_high_SPI1_CS_BT | syshal_gpio_enable_interrupt_REED_SW
  | syshal_time_delay_ms | syshal_timer_tick | syshal_timer_cancel_all | config_if_tick
  | config_if_term | fs_format
  | syshal_firmware_prepare | syshal_firmware_flush
  deriving DecidableEq, Repr

/-- One call made by sm_main.c into another module, with the arguments that matter. -/
inductive Ev
  | hal (c : hal_call_t)
  | syshal_time_get_ticks_ms
  | config_if_send (pkt : tx_packet) (length : Nat)
  | config_if_receive
  | config_if_init (backend : config_if_backend_t)
  | config_if_current
  | sys_config_set (tag : Nat) (value : List Nat)
  | sys_config_unset (tag : Nat)
  | fs_open (file_id : Nat) (mode : fs_mode_t)
  | fs_close (handle : Option Nat)
  | fs_read (handle : Option Nat) (size : Nat)
  | fs_write (handle : Option Nat) (data : List Nat)
  | fs_flush (handle : Option Nat)
  | fs_delete (file_id : Nat)
  | fs_stat (file_id : Nat)
  | fs_protect (file_id : Nat)
  | fs_unprotect (file_id : Nat)
  | syshal_gps_send_raw (data : List Nat)
  | syshal_gps_receive_raw (size : Nat)
  | syshal_gps_available_raw
  | syshal_spi_transfer (data : List Nat) (size : Nat)
  | syshal_ble_get_version
  | syshal_ble_config_fw_upgrade (size : Nat)
  | syshal_ble_fw_send (data : List Nat)
  | syshal_firmware_write (data : List Nat)
  | syshal_uart_change_baud (baudrate : Nat)
  | syshal_timer_set (t : timer_handle_t) (mode : timer_mode_t) (seconds : Nat)
  | syshal_timer_set_ms (t : timer_handle_t) (mode : timer_mode_t)
  | syshal_timer_cancel (t : timer_handle_t)
  | syshal_gpio_get_input_VUSB
  | syshal_gpio_get_input_REED_SW
  | syshal_batt_level
  | syshal_switch_get
  | syshal_pressure_awake
  | syshal_axl_awake
  | syshal_rtc_get_date_and_time
  deriving DecidableEq, Repr

/-! ## Context: absent headers and the environment -/

/-- Modelled from the spec: the protocol header `cmd_hdr_t` of the absent `cmd.h`,
`sync: u32` followed by `cmd: u8` (section 6.2; a bare request is 5 bytes, E3). -/
def CMD_SIZE_HDR : Nat := 5

/-- The macro `CMD_SIZE(i)` of `cmd.h`: header plus payload struct. -/
def CMD_SIZE (sizeof_payload : Nat) : Nat := CMD_SIZE_HDR + sizeof_payload

/-- Modelled from the spec: a configuration tag id is a `u16` (section 3.5), the
`SYS_CONFIG_TAG_ID_SIZE` of the absent `sys_config.h`; sm_main.c itself reads the id from
`buffer[0]` and `buffer[1]` and writes it with `sizeof(uint16_t)`. -/
def SYS_CONFIG_TAG_ID_SIZE : Nat := 2

/-- Modelled from the spec: reserved file ids (section 6.4, and the defines of Sm.cpp). -/
def FS_FILE_ID_CONF : Nat := 0

/-- Modelled from the spec: file id of the STM32 firmware image (section 6.4). -/
def FS_FILE_ID_STM32_IMAGE : Nat := 1

/-- Modelled from the spec: file id of the BLE firmware image (section 6.4). -/
def FS_FILE_ID_BLE_IMAGE : Nat := 2

/-- Modelled from the spec: file id of the sensor log (section 6.4). -/
def FS_FILE_ID_LOG : Nat := 4

/-- Return codes of the absent `sys_config.h`; sm_main.c only uses their sign and
compares against the two named error codes. -/
def SYS_CONFIG_NO_ERROR : Int := 0

/-- Error code of `sys_config.h`: the tag is not part of the schema. -/
def SYS_CONFIG_ERROR_INVALID_TAG : Int := -1

/-- Error code of `sys_config.h`: the length passed to `sys_config_set` is wrong. -/
def SYS_CONFIG_ERROR_WRONG_SIZE : Int := -2

/-- Error code of `sys_config.h`: the iterator is past the last tag. -/
def SYS_CONFIG_ERROR_NO_MORE_TAGS : Int := -3

/-- Error code of `sys_config.h`: the tag has not been set. -/
def SYS_CONFIG_ERROR_TAG_NOT_SET : Int := -4

/-- Modelled from the spec: one entry of the configuration store of the absent
`sys_config.c` (section 3.5): the `hdr.set` flag and the bytes of `contents`. -/
structure sys_config_entry where
  set : Bool
  contents : List Nat
  deriving DecidableEq, Repr

/-- The tag ids of `sys_config.h` that sm_main.c names (`SYS_CONFIG_TAG_...`; the two
saltwater-switch tags are spelt `SYS_CONFIG_SALTWATER_SWITCH_...` in the C file). -/
structure sys_config_tag_ids where
  LOGGING_ENABLE : Nat
  LOGGING_FILE_SIZE : Nat
  LOGGING_FILE_TYPE : Nat
  LOGGING_GROUP_SENSOR_READINGS_ENABLE : Nat
  LOGGING_START_END_SYNC_ENABLE : Nat
  LOGGING_DATE_TIME_STAMP_ENABLE : Nat
  LOGGING_HIGH_RESOLUTION_TIMER_ENABLE : Nat
  GPS_LOG_POSITION_ENABLE : Nat
  GPS_LOG_TTFF_ENABLE : Nat
  GPS_TRIGGER_MODE : Nat
  GPS_SCHEDULED_ACQUISITION_INTERVAL : Nat
  GPS_MAXIMUM_ACQUISITION_TIME : Nat
  GPS_SCHEDULED_ACQUISITION_NO_FIX_TIMEOUT : Nat
  GPS_LAST_KNOWN_POSITION : Nat
  GPS_UART_BAUD_RATE : Nat
  SALTWATER_SWITCH_LOG_ENABLE : Nat
  SALTWATER_SWITCH_HYSTERESIS_PERIOD : Nat
  AXL_LOG_ENABLE : Nat
  AXL_CONFIG : Nat
  AXL_G_FORCE_HIGH_THRESHOLD : Nat
  AXL_SAMPLE_RATE : Nat
  AXL_MODE : Nat
  AXL_SCHEDULED_ACQUISITION_INTERVAL : Nat
  AXL_MAXIMUM_ACQUISITION_TIME : Nat
  PRESSURE_SENSOR_LOG_ENABLE : Nat
  PRESSURE_SAMPLE_RATE : Nat
  PRESSURE_LOW_THRESHOLD : Nat
  PRESSURE_HIGH_THRESHOLD : Nat
  PRESSURE_MODE : Nat
  PRESSURE_SCHEDULED_ACQUISITION_INTERVAL : Nat
  PRESSURE_MAXIMUM_ACQUISITION_TIME : Nat
  TEMP_SENSOR_LOG_ENABLE : Nat
  TEMP_SENSOR_SAMPLE_RATE : Nat
  TEMP_SENSOR_LOW_THRESHOLD : Nat
  TEMP_SENSOR_HIGH_THRESHOLD : Nat
  TEMP_SENSOR_MODE : Nat
  RTC_SYNC_TO_GPS_ENABLE : Nat
  BATTERY_LOG_ENABLE : Nat
  BATTERY_LOW_THRESHOLD : Nat
  BLUETOOTH_DEVICE_ADDRESS : Nat
  BLUETOOTH_ADVERTISING_INTERVAL : Nat
  BLUETOOTH_CONNECTION_INTERVAL : Nat
  BLUETOOTH_PHY_MODE : Nat
  BLUETOOTH_TRIGGER_CONTROL : Nat

/-- Constants, wire layout and configuration schema that live in headers absent from the
sources (`cmd.h`, `sys_config.h`, `syshal_usb.h`, `logging.h`, `version.h`, `crc32.h`). -/
structure Params where
  /-- Transport packet size, `SYSHAL_USB_PACKET_SIZE`. -/
  SYSHAL_USB_PACKET_SIZE : Nat
  /-- Size of the carry buffer of CfgWrite, `SYS_CONFIG_TAG_MAX_SIZE`. -/
  SYS_CONFIG_TAG_MAX_SIZE : Nat
  SYS_CONFIG_FORMAT_VERSION : Nat
  STM32_FIRMWARE_VERSION : Nat
  /-- The named tag ids. -/
  tag : sys_config_tag_ids
  SYS_CONFIG_GPS_TRIGGER_MODE_SWITCH_TRIGGERED : Nat
  SYS_CONFIG_GPS_TRIGGER_MODE_SCHEDULED : Nat
  SYS_CONFIG_GPS_TRIGGER_MODE_HYBRID : Nat
  SYS_CONFIG_PRESSURE_MODE_PERIODIC : Nat
  SYS_CONFIG_AXL_MODE_PERIODIC : Nat
  SYS_CONFIG_AXL_MODE_TRIGGER_ABOVE : Nat
  SYS_CONFIG_TAG_BLUETOOTH_TRIGGER_CONTROL_REED_SWITCH : Nat
  /-- The tags of the schema in the order `sys_config_iterate` yields them. -/
  sys_config_tags : List Nat
  /-- Size of the contents of a tag of the schema. -/
  sys_config_tag_size : Nat → Nat
  /-- The function `crc32(crc, data, length)` of `crc32.h`. -/
  crc32 : Nat → List Nat → Nat
  /-- The field `h.cmd` of a received packet, decoded (none: no request command). -/
  hdr_cmd : List Nat → Option cmd_id_t
  sizeof_cmd_cfg_read_req_t : Nat
  sizeof_cmd_cfg_write_req_t : Nat
  sizeof_cmd_cfg_erase_req_t : Nat
  sizeof_cmd_gps_write_req_t : Nat
  sizeof_cmd_gps_read_req_t : Nat
  sizeof_cmd_gps_config_req_t : Nat
  sizeof_cmd_ble_config_req_t : Nat
  sizeof_cmd_ble_write_req_t : Nat
  sizeof_cmd_ble_read_req_t : Nat
  sizeof_cmd_fw_send_image_req_t : Nat
  sizeof_cmd_fw_apply_image_req_t : Nat
  sizeof_cmd_reset_req_t : Nat
  sizeof_cmd_log_create_req_t : Nat
  sizeof_cmd_log_read_req_t : Nat
  sizeof_cmd_generic_resp_t : Nat
  sizeof_cmd_cfg_read_resp_t : Nat
  sizeof_cmd_cfg_write_cnf_t : Nat
  sizeof_cmd_gps_read_resp_t : Nat
  sizeof_cmd_status_resp_t : Nat
  sizeof_cmd_fw_send_image_complete_cnf_t : Nat
  sizeof_cmd_battery_status_resp_t : Nat
  sizeof_cmd_log_read_resp_t : Nat
  /-- Payload fields of the requests, read from the received bytes. -/
  cmd_cfg_read_req_configuration_tag : List Nat → Nat
  cmd_cfg_write_req_length : List Nat → Nat
  cmd_cfg_erase_req_configuration_tag : List Nat → Nat
  cmd_gps_write_req_length : List Nat → Nat
  cmd_gps_read_req_length : List Nat → Nat
  cmd_gps_config_req_enable : List Nat → Bool
  cmd_ble_config_req_enable : List Nat → Bool
  cmd_ble_write_req_address : List Nat → Nat
  cmd_ble_write_req_length : List Nat → Nat
  cmd_ble_read_req_address : List Nat → Nat
  cmd_ble_read_req_length : List Nat → Nat
  cmd_fw_send_image_req_image_type : List Nat → Nat
  cmd_fw_send_image_req_length : List Nat → Nat
  cmd_fw_send_image_req_CRC32 : List Nat → Nat
  cmd_fw_apply_image_req_image_type : List Nat → Nat
  cmd_reset_req_reset_type : List Nat → Nat
  cmd_log_create_req_mode : List Nat → Nat
  cmd_log_create_req_sync_enable : List Nat → Nat
  cmd_log_read_req_start_offset : List Nat → Nat
  cmd_log_read_req_length : List Nat → Nat
  CFG_READ_REQ_READ_ALL : Nat
  CFG_ERASE_REQ_ERASE_ALL : Nat
  RESET_REQ_STM32 : Nat
  RESET_REQ_FLASH_ERASE_ALL : Nat
  CMD_LOG_CREATE_REQ_MODE_FILL : Nat
  CMD_LOG_CREATE_REQ_MODE_CIRCULAR : Nat
  /-- The bytes of a log record, the packed struct of `logging.h` with its header. -/
  log_record_bytes : log_record → List Nat
  /-- Numeric value of a file-system return code (used where the C code ors codes). -/
  fs_code : fs_error_t → Int
  /-- The `sizeof(sys_config)` of the RAM configuration structure. -/
  sizeof_sys_config : Nat
  /-- The bytes of the RAM configuration structure `sys_config`, format version first. -/
  sys_config_image : (Nat → sys_config_entry) → List Nat
  /-- The store after the first bytes of the RAM structure have been overwritten with
  `data` (the effect of `fs_read(file_handle, &sys_config, ...)`). -/
  sys_config_load : (Nat → sys_config_entry) → List Nat → (Nat → sys_config_entry)

/-- Size in bytes of a packet in the send buffer, the length passed to
`buffer_write_advance`: `CMD_SIZE` of the response struct, or the number of data bytes. -/
def tx_packet.size (P : Params) : tx_packet → Nat
  | .cmd_generic_resp _ => CMD_SIZE P.sizeof_cmd_generic_resp_t
  | .cmd_cfg_read_resp _ _ => CMD_SIZE P.sizeof_cmd_cfg_read_resp_t
  | .cmd_cfg_write_cnf _ => CMD_SIZE P.sizeof_cmd_cfg_write_cnf_t
  | .cmd_gps_read_resp _ _ => CMD_SIZE P.sizeof_cmd_gps_read_resp_t
  | .cmd_status_resp _ _ _ _ => CMD_SIZE P.sizeof_cmd_status_resp_t
  | .cmd_fw_send_image_complete_cnf _ => CMD_SIZE P.sizeof_cmd_fw_send_image_complete_cnf_t
  | .cmd_battery_status_resp _ _ _ => CMD_SIZE P.sizeof_cmd_battery_status_resp_t
  | .cmd_log_read_resp _ _ => CMD_SIZE P.sizeof_cmd_log_read_resp_t
  | .data bytes => bytes.length

/-- Accelerometer sample, `syshal_axl_data_t`. -/
structure syshal_axl_data_t where
  x : Int
  y : Int
  z : Int
  deriving DecidableEq, Repr

/-- Date and time of `syshal_rtc.h`, the fields sm_main.c copies into a log record. -/
structure syshal_rtc_data_and_time_t where
  year : Nat
  month : Nat
  day : Nat
  hours : Nat
  minutes : Nat
  seconds : Nat
  deriving DecidableEq, Repr

/-- The environment: for each call into another module whose result sm_main.c uses, the
result as a function of the calls made so far. The `*_tick` oracles give the events a
driver delivers to its callback while it is ticked. -/
structure Env where
  syshal_time_get_ticks_ms : List Ev → Nat
  /-- True when `config_if_receive` returns `CONFIG_IF_NO_ERROR`. -/
  config_if_receive : List Ev → Bool
  config_if_current : List Ev → config_if_backend_t
  config_if_tick : List Ev → List config_if_event_t
  /-- Return code and, on success, the handle stored through the pointer. -/
  fs_open : List Ev → Nat → fs_mode_t → fs_error_t × Nat
  /-- Return code and the bytes read (at most the requested size is used). -/
  fs_read : List Ev → Option Nat → Nat → fs_error_t × List Nat
  /-- Return code and `bytes_written`. -/
  fs_write : List Ev → Option Nat → List Nat → fs_error_t × Nat
  fs_delete : List Ev → Nat → fs_error_t
  /-- Return code and `stat.size`. -/
  fs_stat : List Ev → Nat → fs_error_t × Nat
  fs_protect : List Ev → Nat → fs_error_t
  fs_unprotect : List Ev → Nat → fs_error_t
  syshal_gps_send_raw : List Ev → List Nat → Int
  syshal_gps_receive_raw : List Ev → Nat → List Nat
  syshal_gps_available_raw : List Ev → Nat
  /-- True when `syshal_spi_transfer` reports an error, and the bytes received. -/
  syshal_spi_transfer : List Ev → List Nat → Nat → Bool × List Nat
  syshal_ble_get_version : List Ev → Nat
  syshal_gpio_get_input_VUSB : List Ev → Bool
  syshal_gpio_get_input_REED_SW : List Ev → Bool
  syshal_batt_level : List Ev → Int
  syshal_switch_get : List Ev → Bool
  syshal_pressure_awake : List Ev → Bool
  syshal_axl_awake : List Ev → Bool
  syshal_rtc_get_date_and_time : List Ev → syshal_rtc_data_and_time_t
  syshal_gps_tick : List Ev → List syshal_gps_event_t
  syshal_timer_tick : List Ev → List timer_handle_t
  syshal_pressure_tick : List Ev → List Int
  syshal_axl_tick : List Ev → List syshal_axl_data_t

/-- What every function of the embedding reads: the constants and the environment. -/
structure Ctx where
  P : Params
  env : Env
  /-- Bound on the iterations of the loops whose exit depends on the environment. -/
  loop_fuel : Nat

/-! ## State: the global variables of sm_main.c -/

/-- Modelled from the spec: the bounded ring buffer of the absent `buffer.c`
(section 3.6): `slots` pool slots, `queue` the committed entries, oldest first. -/
structure buffer_t (α : Type) where
  slots : Nat
  queue : List α
  deriving DecidableEq, Repr

/-- Context of CfgWrite, `sm_context.cfg_write`. -/
structure cfg_write_t where
  length : Nat
  error_code : cmd_error_t
  buffer : List Nat
  buffer_occupancy : Nat
  deriving DecidableEq, Repr

/-- Context of CfgRead, `sm_context.cfg_read`; `buffer_base` is the content written so far
into the reserved send slot the C pointer refers to. -/
structure cfg_read_t where
  buffer_base : List Nat
  length : Nat
  buffer_offset : Nat
  last_index : Nat
  deriving DecidableEq, Repr

/-- Context of BleWrite and of BleRead. -/
structure ble_rw_t where
  address : Nat
  length : Nat
  deriving DecidableEq, Repr

/-- Context of LogRead, `sm_context.log_read`. -/
structure log_read_t where
  length : Nat
  start_offset : Nat
  deriving DecidableEq, Repr

/-- Context of FwSendImage, `sm_context.fw_send_image`. -/
structure fw_send_image_t where
  image_type : Nat
  length : Nat
  crc32_supplied : Nat
  crc32_calculated : Nat
  deriving DecidableEq, Repr

/-- The per-command context `sm_context_t`. The C type is a union; the embedding keeps one
record per member, so a member never shows what was written through another one. -/
structure sm_context_t where
  cfg_write : cfg_write_t
  cfg_read : cfg_read_t
  ble_write : ble_rw_t
  ble_read : ble_rw_t
  gps_write_length : Nat
  gps_read_length : Nat
  log_read : log_read_t
  fw_send_image : fw_send_image_t
  deriving DecidableEq, Repr

/-- Modelled from the spec: the state handle of the absent state-machine library `sm.h`
(section 4.4: state objects expose is_first_entry, is_last_entry, current, previous). -/
structure sm_handle_t where
  last_state : sm_main_state_t
  current_state : sm_main_state_t
  next_state : sm_main_state_t
  first_time_running : Bool
  deriving DecidableEq, Repr

/-- The global variables of sm_main.c, the configuration store `sys_config`, and the trace
of calls into other modules. -/
structure State where
  message_state : sm_message_state_t
  sm_context : sm_context_t
  sm_gps_state : sm_gps_state_t
  config_if_tx_pending : Bool
  config_if_rx_queued : Bool
  syshal_gps_bridging : Bool
  syshal_ble_bridging : Bool
  config_if_send_buffer : buffer_t tx_packet
  config_if_receive_buffer : buffer_t (List Nat)
  logging_buffer : buffer_t (List Nat)
  config_if_message_timeout : Nat
  config_if_connected : Bool
  tracker_above_water : Bool
  log_file_created : Bool
  gps_ttff_reading_logged : Bool
  last_battery_reading : Nat
  sensor_logging_enabled : Bool
  ble_state : Nat
  file_handle : Option Nat
  usb_enumeration_timeout : Nat
  blinkTimer : Nat
  sys_config : Nat → sys_config_entry
  trace : List Ev

/-! ## The monad of the embedding -/

/-- Why an execution does not return to its caller. -/
inductive stuck_t
  | out_of_fuel
  | out_of_bounds
  | mcu_reset
  deriving DecidableEq, Repr

/-- Outcome of running a C function: normal return, a thrown CException, or no return. -/
inductive Res (α : Type) where
  | ok (a : α) (s : State)
  | throw (e : CEXCEPTION_T) (s : State)
  | stuck (w : stuck_t) (s : State)

/-- The state in which an execution ended. -/
def Res.state {α : Type} : Res α → State
  | .ok _ s => s
  | .throw _ s => s
  | .stuck _ s => s

/-- The exception an execution ended with, if any. -/
def Res.exc {α : Type} : Res α → Option CEXCEPTION_T
  | .throw e _ => some e
  | _ => none

/-- True when the execution returned normally. -/
def Res.returned {α : Type} : Res α → Bool
  | .ok _ _ => true
  | _ => false

/-- True when the execution did not return (out of fuel, out of bounds, MCU reset). -/
def Res.is_stuck {α : Type} : Res α → Bool
  | .stuck _ _ => true
  | _ => false

/-- Computations of sm_main.c. -/
def M (α : Type) : Type := Ctx → State → Res α

/-- Sequencing: a throw or a stuck execution skips the rest. -/
def M.bind {α β : Type} (m : M α) (f : α → M β) : M β := fun c s =>
  match m c s with
  | .ok a s1 => f a c s1
  | .throw e s1 => .throw e s1
  | .stuck w s1 => .stuck w s1

/-- Return without effect. -/
def M.pure {α : Type} (a : α) : M α := fun _ s => .ok a s

instance : Monad M where
  pure := M.pure
  bind := M.bind

/-- The `Throw(e)` of CException. -/
def Throw {α : Type} (e : CEXCEPTION_T) : M α := fun _ s => .throw e s

/-- Stop without returning. -/
def Stuck {α : Type} (w : stuck_t) : M α := fun _ s => .stuck w s

/-- `Try { m } Catch (e) { h e }`. -/
def TryCatch (m : M Unit) (h : CEXCEPTION_T → M Unit) : M Unit := fun c s =>
  match m c s with
  | .ok a s1 => .ok a s1
  | .throw e s1 => h e c s1
  | .stuck w s1 => .stuck w s1

/-- Read the global variables. -/
def getState : M State := fun _ s => .ok s s

/-- Update the global variables. -/
def modifyState (f : State → State) : M Unit := fun _ s => .ok () (f s)

/-- Read the constants of the absent headers. -/
def getParams : M Params := fun c s => .ok c.P s

/-- The globals after one more call into another module has been recorded. -/
def State.record (s : State) (e : Ev) : State := { s with trace := s.trace ++ [e] }

/-- A call into another module whose result is not used: recorded in the trace. -/
def call (e : Ev) : M Unit := fun _ s => .ok () { s with trace := s.trace ++ [e] }

/-- A call into another module whose result is used: the oracle answers from the calls
made so far, then the call is recorded. -/
def ask {α : Type} (e : Ev) (oracle : Env → List Ev → α) : M α := fun c s =>
  .ok (oracle c.env s.trace) { s with trace := s.trace ++ [e] }

/-! ## Ring buffer (absent `buffer.c`, modelled from spec section 3.6) -/

/-- Modelled from the spec: `buffer_write` (write_reserve), true when a slot is free. -/
def buffer_write {α : Type} (b : buffer_t α) : Bool := decide (b.queue.length < b.slots)

/-- Modelled from the spec: `buffer_write_advance` (write_commit) of the slot content `x`
with `length` bytes; committing zero bytes stores nothing, so that `buffer_read`
returns 0 exactly on an empty buffer. -/
def buffer_write_advance {α : Type} (b : buffer_t α) (x : α) (length : Nat) : buffer_t α :=
  if length = 0 then b else { b with queue := b.queue ++ [x] }

/-- Modelled from the spec: `buffer_read` (read_peek), the oldest committed entry. -/
def buffer_read {α : Type} (b : buffer_t α) : Option α := b.queue.head?

/-- Modelled from the spec: `buffer_read_advance`, drop the oldest committed entry. -/
def buffer_read_advance {α : Type} (b : buffer_t α) (length : Nat) : buffer_t α :=
  if length = 0 then b else { b with queue := b.queue.tail }

/-- Modelled from the spec: `buffer_reset`, forget every entry. -/
def buffer_reset {α : Type} (b : buffer_t α) : buffer_t α := { b with queue := [] }

/-- The `length` that `buffer_read` returns for the send buffer, with the entry. -/
def buffer_read_tx (P : Params) (b : buffer_t tx_packet) : Nat × Option tx_packet :=
  match buffer_read b with
  | none => (0, none)
  | some pkt => (pkt.size P, some pkt)

/-- The `length` that `buffer_read` returns for a buffer of byte strings (the receive
buffer, the logging buffer), with the bytes of the entry. -/
def buffer_read_rx (b : buffer_t (List Nat)) : Nat × List Nat :=
  match buffer_read b with
  | none => (0, [])
  | some pkt => (pkt.length, pkt)

/-! ## Configuration store (absent `sys_config.c`, modelled from spec section 4.2) -/

/-- Modelled from the spec: `sys_config_size`, the size of a tag of the schema or
`SYS_CONFIG_ERROR_INVALID_TAG` (section 4.2). -/
def sys_config_size (P : Params) (tag : Nat) : Int :=
  if tag ∈ P.sys_config_tags then (P.sys_config_tag_size tag : Int)
  else SYS_CONFIG_ERROR_INVALID_TAG

/-- Modelled from the spec: `sys_config_get` (section 4.2): the size and the contents of a
set tag, `InvalidTag` or `NotSet` otherwise. -/
def sys_config_get (P : Params) (sys_config : Nat → sys_config_entry) (tag : Nat) :
    Int × List Nat :=
  if tag ∈ P.sys_config_tags then
    if (sys_config tag).set then ((P.sys_config_tag_size tag : Int), (sys_config tag).contents)
    else (SYS_CONFIG_ERROR_TAG_NOT_SET, [])
  else (SYS_CONFIG_ERROR_INVALID_TAG, [])

/-- Modelled from the spec: `sys_config_set` (section 4.2): stores the bytes and sets the
flag, `InvalidTag` or `WrongSize` otherwise. The call is recorded in the trace. -/
def sys_config_set (tag : Nat) (data : List Nat) (length : Nat) : M Int := fun c s =>
  let s1 := { s with trace := s.trace ++ [Ev.sys_config_set tag (data.take length)] }
  if tag ∈ c.P.sys_config_tags then
    if length = c.P.sys_config_tag_size tag then
      .ok SYS_CONFIG_NO_ERROR { s1 with sys_config := fun t =>
        if t = tag then { set := true, contents := data.take length } else s.sys_config t }
    else .ok SYS_CONFIG_ERROR_WRONG_SIZE s1
  else .ok SYS_CONFIG_ERROR_INVALID_TAG s1

/-- Modelled from the spec: `sys_config_unset` (section 4.2): clears the set flag. -/
def sys_config_unset (tag : Nat) : M Int := fun c s =>
  let s1 := { s with trace := s.trace ++ [Ev.sys_config_unset tag] }
  if tag ∈ c.P.sys_config_tags then
    .ok SYS_CONFIG_NO_ERROR { s1 with sys_config := fun t =>
      if t = tag then { s.sys_config t with set := false } else s.sys_config t }
  else .ok SYS_CONFIG_ERROR_INVALID_TAG s1

/-- Modelled from the spec: `sys_config_iterate(&tag, &last_index)` (section 4.2): yields
the tag at `last_index` and the incremented index, or none past the last tag (the C
function then returns non-zero). -/
def sys_config_iterate (P : Params) (last_index : Nat) : Option (Nat × Nat) :=
  match P.sys_config_tags.get? last_index with
  | some tag => some (tag, u16 (last_index + 1))
  | none => none

/-! ## Helpers for C memory and struct fields -/

/-- The `memcpy` of `bytes` to offset `off` of an array held as a list. -/
def mem_write (buf : List Nat) (off : Nat) (bytes : List Nat) : List Nat :=
  buf.take off ++ List.replicate (off - buf.length) 0 ++ bytes ++ buf.drop (off + bytes.length)

/-- Little-endian bytes of `n` on `width` bytes. -/
def le_bytes : Nat → Nat → List Nat
  | 0, _ => []
  | width + 1, n => (n % 256) :: le_bytes width (n / 256)

/-- The scalar field of the contents of a tag of the store, e.g.
`sys_config.sys_config_logging_enable.contents.enable`. -/
def State.contents_value (s : State) (tag : Nat) : Nat := le_value (s.sys_config tag).contents

/-- The flag `hdr.set` of a tag of the store. -/
def State.hdr_set (s : State) (tag : Nat) : Bool := (s.sys_config tag).set

/-- Assignment to the scalar field of the contents of a tag, the set flag left as it is. -/
def State.set_contents (s : State) (tag : Nat) (bytes : List Nat) : State :=
  { s with sys_config := fun t =>
      if t = tag then { s.sys_config t with contents := bytes } else s.sys_config t }

/-! ## Helper functions of sm_main.c -/

/-- The C function `config_if_timeout_reset`. -/
def config_if_timeout_reset : M Unit := do
  let t ← ask Ev.syshal_time_get_ticks_ms (fun env => env.syshal_time_get_ticks_ms)
  modifyState fun s => { s with config_if_message_timeout := u32 t }

/-- The C function `message_set_state`. -/
def message_set_state (st : sm_message_state_t) : M Unit := do
  config_if_timeout_reset
  modifyState fun s => { s with message_state := st }

/-- The C function `config_if_send_priv` applied to `config_if_send_buffer`. -/
def config_if_send_priv : M Unit := do
  let s ← getState
  if s.config_if_tx_pending then
    Throw .EXCEPTION_TX_BUSY
  let P ← getParams
  let (length, addr) := buffer_read_tx P s.config_if_send_buffer
  match addr with
  | some pkt =>
    if length ≠ 0 then
      modifyState fun s => { s with config_if_tx_pending := true }
      call (Ev.config_if_send pkt length)
    else
      Throw .EXCEPTION_TX_BUFFER_FULL
  | none => Throw .EXCEPTION_TX_BUFFER_FULL

/-- The C function `config_if_receive_priv`. -/
def config_if_receive_priv : M Unit := do
  let s ← getState
  if !s.config_if_rx_queued then
    if !buffer_write s.config_if_receive_buffer then
      Throw .EXCEPTION_RX_BUFFER_FULL
    let no_error ← ask Ev.config_if_receive (fun env => env.config_if_receive)
    if no_error then
      modifyState fun s => { s with config_if_rx_queued := true }

/-- The C function `populate_log_file_size_tag`. -/
def populate_log_file_size_tag : M Unit := do
  let s ← getState
  let P ← getParams
  if s.log_file_created then
    let (ret, size) ← ask (Ev.fs_stat FS_FILE_ID_LOG) (fun env tr => env.fs_stat tr FS_FILE_ID_LOG)
    if ret = .FS_NO_ERROR then
      modifyState fun s => s.set_contents P.tag.LOGGING_FILE_SIZE (le_bytes 4 size)
    else
      modifyState fun s => s.set_contents P.tag.LOGGING_FILE_SIZE (le_bytes 4 0)
  else
    modifyState fun s => s.set_contents P.tag.LOGGING_FILE_SIZE (le_bytes 4 0)

/-- `buffer_write_advance(&config_if_send_buffer, length)` for a slot holding `pkt`. -/
def tx_write_advance (pkt : tx_packet) : M Unit := do
  let P ← getParams
  modifyState fun s => { s with
    config_if_send_buffer := buffer_write_advance s.config_if_send_buffer pkt (pkt.size P) }

/-- Assignment to the fields of a response through the pointer `resp` after its slot
(entry `idx` of the queue) has been committed. -/
def tx_assign (idx : Nat) (pkt : tx_packet) : M Unit :=
  modifyState fun s => { s with
    config_if_send_buffer :=
      { s.config_if_send_buffer with queue := s.config_if_send_buffer.queue.set idx pkt } }

/-- The test `if (!buffer_write(&config_if_send_buffer, ...)) Throw(EXCEPTION_TX_BUFFER_FULL)`. -/
def tx_buffer_write : M Unit := do
  let s ← getState
  if !buffer_write s.config_if_send_buffer then
    Throw .EXCEPTION_TX_BUFFER_FULL

/-! ## CFG_READ -/

/-- The C function `cfg_read_populate_next`. -/
def cfg_read_populate_next (tag : Nat) (src : List Nat) (length : Nat) : M Unit :=
  modifyState fun s =>
    let cr := s.sm_context.cfg_read
    let b1 := mem_write cr.buffer_base cr.buffer_offset [tag % 256]
    let b2 := mem_write b1 (cr.buffer_offset + 1) [(tag / 256) % 256]
    let b3 := mem_write b2 (cr.buffer_offset + 2) (src.take length)
    { s with sm_context := { s.sm_context with cfg_read :=
        { cr with buffer_base := b3, buffer_offset := u32 (cr.buffer_offset + 2 + length) } } }

/-- The loop of the C function `cfg_read_populate_buffer`; `fuel` bounds the number of
iterations. -/
def cfg_read_populate_buffer_loop : Nat → M Unit
  | 0 => Stuck .out_of_fuel
  | fuel + 1 => do
    let s ← getState
    let P ← getParams
    match sys_config_iterate P s.sm_context.cfg_read.last_index with
    | none => pure ()
    | some (tag, last_index) =>
      modifyState fun s => { s with sm_context := { s.sm_context with cfg_read :=
        { s.sm_context.cfg_read with last_index := last_index } } }
      if P.tag.LOGGING_FILE_SIZE = tag then
        populate_log_file_size_tag
      let s ← getState
      let (ret, src) := sys_config_get P s.sys_config tag
      if ret > 0 then
        if s.sm_context.cfg_read.buffer_offset + ret.toNat + 2 > P.SYSHAL_USB_PACKET_SIZE then
          -- Buffer is full so defer this to the next iteration
          modifyState fun s => { s with sm_context := { s.sm_context with cfg_read :=
            { s.sm_context.cfg_read with
              last_index := u16_sub s.sm_context.cfg_read.last_index 1 } } }
        else
          cfg_read_populate_next tag src (u16 ret.toNat)
          cfg_read_populate_buffer_loop fuel
      else
        cfg_read_populate_buffer_loop fuel

/-- The C function `cfg_read_populate_buffer`: every iteration advances `last_index`, so
one more iteration than there are tags is enough fuel. -/
def cfg_read_populate_buffer : M Unit := do
  let P ← getParams
  cfg_read_populate_buffer_loop (P.sys_config_tags.length + 1)

/-- The loop of the C function `cfg_read_all_calc_length`, from `last_index` on. -/
def cfg_read_all_calc_length_loop (P : Params) (sys_config : Nat → sys_config_entry) :
    Nat → Nat → Nat → Nat
  | 0, _, length => length
  | fuel + 1, last_index, length =>
    match sys_config_iterate P last_index with
    | none => length
    | some (tag, last_index1) =>
      let (ret, _) := sys_config_get P sys_config tag
      if ret > 0 then
        cfg_read_all_calc_length_loop P sys_config fuel last_index1 (u32 (length + (ret.toNat + 2)))
      else
        cfg_read_all_calc_length_loop P sys_config fuel last_index1 length

/-- The C function `cfg_read_all_calc_length`. -/
def cfg_read_all_calc_length (P : Params) (sys_config : Nat → sys_config_entry) : Nat :=
  cfg_read_all_calc_length_loop P sys_config (P.sys_config_tags.length + 1) 0 0

/-- Assignment to the fields of `sm_context.cfg_read`. -/
def set_cfg_read (f : cfg_read_t → cfg_read_t) : M Unit :=
  modifyState fun s => { s with sm_context := { s.sm_context with
    cfg_read := f s.sm_context.cfg_read } }

/-- The C function `cfg_read_req`. -/
def cfg_read_req (req : List Nat) (size : Nat) : M Unit := do
  let P ← getParams
  -- Check request size is correct
  if CMD_SIZE P.sizeof_cmd_cfg_read_req_t ≠ size then
    Throw .EXCEPTION_REQ_WRONG_SIZE
  tx_buffer_write
  let s ← getState
  let resp := s.config_if_send_buffer.queue.length
  -- Allocate buffer for following configuration data
  tx_write_advance (.cmd_cfg_read_resp .CMD_NO_ERROR 0)
  tx_buffer_write
  set_cfg_read fun cr => { cr with buffer_base := [] }
  -- Reset buffer offset to head of buffer
  set_cfg_read fun cr => { cr with buffer_offset := 0 }
  let resp_length ←
    if P.CFG_READ_REQ_READ_ALL = P.cmd_cfg_read_req_configuration_tag req then do
      -- Requested all configuration items
      let s ← getState
      let length := cfg_read_all_calc_length P s.sys_config
      tx_assign resp (.cmd_cfg_read_resp .CMD_NO_ERROR length)
      set_cfg_read fun cr => { cr with last_index := 0 }
      set_cfg_read fun cr => { cr with length := length }
      if length > 0 then
        cfg_read_populate_buffer
        let s ← getState
        let cr := s.sm_context.cfg_read
        tx_write_advance (.data (cr.buffer_base.take cr.buffer_offset))
      pure length
    else do
      -- Requested a single configuration tag
      let tag := P.cmd_cfg_read_req_configuration_tag req
      if P.tag.LOGGING_FILE_SIZE = tag then
        populate_log_file_size_tag
      let s ← getState
      let (ret, src) := sys_config_get P s.sys_config tag
      if ret < 0 then
        tx_assign resp (.cmd_cfg_read_resp .CMD_NO_ERROR 0)
        if SYS_CONFIG_ERROR_INVALID_TAG = ret then
          tx_assign resp (.cmd_cfg_read_resp .CMD_ERROR_INVALID_CONFIG_TAG 0)
        else if SYS_CONFIG_ERROR_TAG_NOT_SET = ret then
          tx_assign resp (.cmd_cfg_read_resp .CMD_ERROR_CONFIG_TAG_NOT_SET 0)
        else
          Throw .EXCEPTION_BAD_SYS_CONFIG_ERROR_CONDITION
        pure 0
      else
        cfg_read_populate_next tag src (u16 ret.toNat)
        let s ← getState
        let cr := s.sm_context.cfg_read
        tx_assign resp (.cmd_cfg_read_resp .CMD_NO_ERROR cr.buffer_offset)
        set_cfg_read fun cr => { cr with length := cr.buffer_offset }
        tx_write_advance (.data (cr.buffer_base.take cr.buffer_offset))
        pure cr.buffer_offset
  config_if_send_priv -- Send the response
  if resp_length > 0 then
    -- Another buffer must follow the initial response
    message_set_state .SM_MESSAGE_STATE_CFG_READ_NEXT

/-- The C function `cfg_read_next_state`. -/
def cfg_read_next_state : M Unit := do
  -- Send the pending buffer and prepare a new buffer
  config_if_send_priv
  set_cfg_read fun cr => { cr with length := u32_sub cr.length cr.buffer_offset }
  let s ← getState
  if s.sm_context.cfg_read.length > 0 then
    -- Allocate buffer for following configuration data
    tx_buffer_write
    set_cfg_read fun cr => { cr with buffer_base := [] }
    -- Reset buffer offset to head of buffer
    set_cfg_read fun cr => { cr with buffer_offset := 0 }
    cfg_read_populate_buffer
    -- Advance the buffer
    let s ← getState
    let cr := s.sm_context.cfg_read
    tx_write_advance (.data (cr.buffer_base.take cr.buffer_offset))
  else
    message_set_state .SM_MESSAGE_STATE_IDLE

/-! ## CFG_WRITE -/

/-- Assignment to the fields of `sm_context.cfg_write`. -/
def set_cfg_write (f : cfg_write_t → cfg_write_t) : M Unit :=
  modifyState fun s => { s with sm_context := { s.sm_context with
    cfg_write := f s.sm_context.cfg_write } }

/-- A `memcpy` of `bytes` into `sm_context.cfg_write.buffer` at `buffer_occupancy`; the
array has `SYS_CONFIG_TAG_MAX_SIZE` elements and a copy past its end is stuck. -/
def cfg_write_memcpy (bytes : List Nat) : M Unit := do
  let P ← getParams
  let s ← getState
  let cw := s.sm_context.cfg_write
  if cw.buffer_occupancy + bytes.length > P.SYS_CONFIG_TAG_MAX_SIZE then
    Stuck .out_of_bounds
  set_cfg_write fun cw => { cw with buffer := mem_write cw.buffer cw.buffer_occupancy bytes }

/-- The C function `cfg_write_req`. -/
def cfg_write_req (req : List Nat) (size : Nat) : M Unit := do
  let P ← getParams
  -- Check request size is correct
  if CMD_SIZE P.sizeof_cmd_cfg_write_req_t ≠ size then
    Throw .EXCEPTION_REQ_WRONG_SIZE
  set_cfg_write fun cw => { cw with length := u32 (P.cmd_cfg_write_req_length req) }
  -- Length is zero
  let s ← getState
  if s.sm_context.cfg_write.length = 0 then
    Throw .EXCEPTION_PACKET_WRONG_SIZE
  tx_buffer_write
  tx_write_advance (.cmd_generic_resp .CMD_NO_ERROR)
  config_if_send_priv -- Send response
  config_if_receive_priv -- Queue a receive
  set_cfg_write fun cw => { cw with buffer_occupancy := 0 }
  message_set_state .SM_MESSAGE_STATE_CFG_WRITE_NEXT

/-- The `while (length)` loop of the C function `cfg_write_next_state`, with the locals
`read_buffer_offset` and `length`; `fuel` bounds the number of iterations. -/
def cfg_write_next_state_loop (read_buffer : List Nat) : Nat → Nat → Nat → M Unit
  | 0, _, _ => Stuck .out_of_fuel
  | fuel + 1, read_buffer_offset, length => do
    if length = 0 then
      pure ()
    else
      let P ← getParams
      let s ← getState
      -- Does our temp buffer already contain a tag ID?
      let (read_buffer_offset, length) ←
        if SYS_CONFIG_TAG_ID_SIZE > s.sm_context.cfg_write.buffer_occupancy then do
          -- If not then put as much of our tag ID into our temp buffer as possible
          let bytes_to_copy :=
            MIN length (SYS_CONFIG_TAG_ID_SIZE - s.sm_context.cfg_write.buffer_occupancy)
          cfg_write_memcpy ((read_buffer.drop read_buffer_offset).take bytes_to_copy)
          set_cfg_write fun cw => { cw with
            buffer_occupancy := u32 (cw.buffer_occupancy + bytes_to_copy),
            length := u32_sub cw.length bytes_to_copy }
          pure (read_buffer_offset + bytes_to_copy, length - bytes_to_copy)
        else
          pure (read_buffer_offset, length)
      let s ← getState
      -- If we don't have a full tag ID, then exit and wait for more data
      if s.sm_context.cfg_write.buffer_occupancy < SYS_CONFIG_TAG_ID_SIZE then
        pure ()
      else
        -- Extract the tag ID
        let buffer := s.sm_context.cfg_write.buffer
        let tag := (buffer.getD 0 0) % 256 + ((buffer.getD 1 0) % 256) * 256
        let tag_data_size := sys_config_size P tag
        -- Check tag is valid
        if tag_data_size < 0 then
          -- If it is not we should exit out and return an error
          set_cfg_write fun cw => { cw with error_code := .CMD_ERROR_INVALID_CONFIG_TAG }
          message_set_state .SM_MESSAGE_STATE_CFG_WRITE_ERROR
          Throw .EXCEPTION_BAD_SYS_CONFIG_ERROR_CONDITION
        -- Copy as much of this tags data as we can into our temp buffer
        let bytes_to_copy := MIN length tag_data_size.toNat
        cfg_write_memcpy ((read_buffer.drop read_buffer_offset).take bytes_to_copy)
        set_cfg_write fun cw => { cw with
          length := u32_sub cw.length bytes_to_copy,
          buffer_occupancy := u32 (cw.buffer_occupancy + bytes_to_copy) }
        let read_buffer_offset := read_buffer_offset + bytes_to_copy
        let length := length - bytes_to_copy
        -- Do we have all of the tag data?
        let tag_full_size := tag_data_size.toNat + SYS_CONFIG_TAG_ID_SIZE
        let s ← getState
        if s.sm_context.cfg_write.buffer_occupancy ≥ tag_full_size then
          -- Process the tag
          let ret ← sys_config_set tag
            (s.sm_context.cfg_write.buffer.drop SYS_CONFIG_TAG_ID_SIZE) tag_data_size.toNat
          if ret < 0 then
            message_set_state .SM_MESSAGE_STATE_IDLE
            Throw .EXCEPTION_BAD_SYS_CONFIG_ERROR_CONDITION -- Exit and fail silent
          -- Have we just changed our GPS baudrate
          if P.tag.GPS_UART_BAUD_RATE = tag then
            -- If so update our UART HW baudrate
            let s ← getState
            call (Ev.syshal_uart_change_baud (s.contents_value P.tag.GPS_UART_BAUD_RATE))
          set_cfg_write fun cw => { cw with buffer_occupancy := 0 }
          cfg_write_next_state_loop read_buffer fuel read_buffer_offset length
        else
          pure () -- We don't have a full tag so exit and wait for more data

/-- The C function `cfg_write_next_state`. Every iteration of its loop but the first
consumes at least one byte, so `length + 2` iterations are enough fuel. -/
def cfg_write_next_state : M Unit := do
  let s ← getState
  let (length, read_buffer) := buffer_read_rx s.config_if_receive_buffer
  if length = 0 then
    pure ()
  else
    -- Remove this packet from the receive buffer
    modifyState fun s => { s with
      config_if_receive_buffer := buffer_read_advance s.config_if_receive_buffer length }
    if length > s.sm_context.cfg_write.length then
      -- We've received more data then we were expecting
      set_cfg_write fun cw => { cw with error_code := .CMD_ERROR_DATA_OVERSIZE }
      message_set_state .SM_MESSAGE_STATE_CFG_WRITE_ERROR
      Throw .EXCEPTION_PACKET_WRONG_SIZE
    cfg_write_next_state_loop read_buffer (length + 2) 0 length
    let s ← getState
    if s.sm_context.cfg_write.length ≠ 0 then -- Is there still data to receive?
      config_if_receive_priv -- Queue a receive
      config_if_timeout_reset -- Reset the message timeout counter
    else
      -- We have received all the data
      -- Then send a confirmation
      tx_buffer_write
      tx_write_advance (.cmd_cfg_write_cnf .CMD_NO_ERROR)
      config_if_send_priv -- Send response
      message_set_state .SM_MESSAGE_STATE_IDLE

/-- The C function `cfg_write_error_state`. -/
def cfg_write_error_state : M Unit := do
  -- Return an error code
  tx_buffer_write
  let s ← getState
  tx_write_advance (.cmd_cfg_write_cnf s.sm_context.cfg_write.error_code)
  config_if_send_priv -- Send response
  message_set_state .SM_MESSAGE_STATE_IDLE

/-! ## Calls into the file system and loops that wait for the environment -/

/-- The bound on environment-dependent loops. -/
def getFuel : M Nat := fun c s => .ok c.loop_fuel s

/-- The call `fs_open(file_system, &file_handle, file_id, mode, ...)`: on success the
handle is stored in the global `file_handle`. -/
def fs_open (file_id : Nat) (mode : fs_mode_t) : M fs_error_t := do
  let (ret, handle) ← ask (Ev.fs_open file_id mode) (fun env tr => env.fs_open tr file_id mode)
  if ret = .FS_NO_ERROR then
    modifyState fun s => { s with file_handle := some handle }
  pure ret

/-- The call `fs_close(file_handle)`. -/
def fs_close : M Unit := do
  let s ← getState
  call (Ev.fs_close s.file_handle)

/-- The call `fs_read(file_handle, dest, size, &bytes_read)`: return code and bytes read. -/
def fs_read (size : Nat) : M (fs_error_t × List Nat) := do
  let s ← getState
  let (ret, data) ← ask (Ev.fs_read s.file_handle size)
    (fun env tr => env.fs_read tr s.file_handle size)
  pure (ret, data.take size)

/-- The call `fs_write(file_handle, src, size, &bytes_written)`. -/
def fs_write (data : List Nat) : M (fs_error_t × Nat) := do
  let s ← getState
  ask (Ev.fs_write s.file_handle data) (fun env tr => env.fs_write tr s.file_handle data)

/-- The call `fs_delete(file_system, file_id)`. -/
def fs_delete (file_id : Nat) : M fs_error_t :=
  ask (Ev.fs_delete file_id) (fun env tr => env.fs_delete tr file_id)

/-- The call `fs_stat(file_system, file_id, &stat)`: return code and `stat.size`. -/
def fs_stat (file_id : Nat) : M (fs_error_t × Nat) :=
  ask (Ev.fs_stat file_id) (fun env tr => env.fs_stat tr file_id)

/-- The call `syshal_pmu_reset()`: the MCU restarts. -/
def syshal_pmu_reset : M Unit := do
  call (.hal .syshal_pmu_reset)
  Stuck .mcu_reset

/-- The loop `while (syshal_gps_receive_raw(&flush, 1)) {}`. -/
def syshal_gps_flush_loop : Nat → M Unit
  | 0 => Stuck .out_of_fuel
  | fuel + 1 => do
    let data ← ask (Ev.syshal_gps_receive_raw 1) (fun env tr => env.syshal_gps_receive_raw tr 1)
    if (data.take 1).length ≠ 0 then
      syshal_gps_flush_loop fuel
    else
      pure ()

/-- The C function `fs_create_configuration_data`. -/
def fs_create_configuration_data : M fs_error_t := do
  -- The configuration file does not exist so lets make one
  let ret ← fs_open FS_FILE_ID_CONF .FS_MODE_CREATE
  if ret ≠ .FS_NO_ERROR then
    return ret
  fs_close
  return .FS_NO_ERROR

/-- The C function `fs_delete_configuration_data`. -/
def fs_delete_configuration_data : M fs_error_t :=
  fs_delete FS_FILE_ID_CONF

/-- The C function `fs_set_configuration_data`. -/
def fs_set_configuration_data : M fs_error_t := do
  let ret ← fs_open FS_FILE_ID_CONF .FS_MODE_WRITEONLY
  if ret ≠ .FS_NO_ERROR then
    return ret
  let P ← getParams
  let s ← getState
  let (ret, bytes_written) ← fs_write (P.sys_config_image s.sys_config)
  fs_close
  if ret ≠ .FS_NO_ERROR then
    return ret
  if bytes_written ≠ P.sizeof_sys_config then
    return .FS_ERROR_FLASH_MEDIA
  return .FS_NO_ERROR

/-- The C function `fs_get_configuration_data`; it returns an `int` because it ors two
return codes. -/
def fs_get_configuration_data : M Int := do
  let P ← getParams
  -- Attempt to open the configuration file
  let ret ← fs_open FS_FILE_ID_CONF .FS_MODE_READONLY
  if ret ≠ .FS_NO_ERROR then
    return P.fs_code ret
  -- Check the configuration version number matches our firmware one
  let (ret, data) ← fs_read 1
  let format_version := data.getD 0 0
  if ret ≠ .FS_NO_ERROR then
    return P.fs_code ret
  fs_close
  if P.SYS_CONFIG_FORMAT_VERSION ≠ format_version then
    return P.fs_code .FS_ERROR_FILE_VERSION_MISMATCH
  -- Populate our sys_config RAM struct from the FLASH file
  let ret1 ← fs_open FS_FILE_ID_CONF .FS_MODE_READONLY
  let (ret2, data) ← fs_read P.sizeof_sys_config
  modifyState fun s => { s with sys_config := P.sys_config_load s.sys_config data }
  let ret := Int.lor (P.fs_code ret1) (P.fs_code ret2)
  fs_close
  if P.fs_code .FS_NO_ERROR ≠ ret then
    return ret
  if data.length ≠ P.sizeof_sys_config then
    return P.fs_code .FS_ERROR_FILE_VERSION_MISMATCH
  return P.fs_code .FS_NO_ERROR

/-! ## Request handlers -/

/-- The C function `cfg_save_req`. -/
def cfg_save_req (_req : List Nat) (size : Nat) : M Unit := do
  if size ≠ CMD_SIZE_HDR then
    Throw .EXCEPTION_REQ_WRONG_SIZE
  tx_buffer_write
  let ret ← fs_delete_configuration_data
  let error_code ←
    match ret with
    | .FS_ERROR_FILE_NOT_FOUND | .FS_NO_ERROR => do
      let ret ← fs_create_configuration_data
      if ret ≠ .FS_NO_ERROR then
        Throw .EXCEPTION_FS_ERROR
      let ret ← fs_set_configuration_data
      if ret ≠ .FS_NO_ERROR then
        Throw .EXCEPTION_FS_ERROR
      pure cmd_error_t.CMD_NO_ERROR
    | .FS_ERROR_FILE_PROTECTED => pure cmd_error_t.CMD_ERROR_CONFIG_PROTECTED
    | _ => Throw .EXCEPTION_FS_ERROR
  tx_write_advance (.cmd_generic_resp error_code)
  config_if_send_priv

/-- The C function `cfg_restore_req`. -/
def cfg_restore_req (_req : List Nat) (size : Nat) : M Unit := do
  if size ≠ CMD_SIZE_HDR then
    Throw .EXCEPTION_REQ_WRONG_SIZE
  tx_buffer_write
  let P ← getParams
  let ret ← fs_get_configuration_data
  let error_code ←
    if ret = P.fs_code .FS_NO_ERROR then pure cmd_error_t.CMD_NO_ERROR
    else if ret = P.fs_code .FS_ERROR_FILE_NOT_FOUND then pure cmd_error_t.CMD_ERROR_FILE_NOT_FOUND
    else if ret = P.fs_code .FS_ERROR_FILE_VERSION_MISMATCH then
      pure cmd_error_t.CMD_ERROR_FILE_INCOMPATIBLE
    else Throw .EXCEPTION_FS_ERROR
  tx_write_advance (.cmd_generic_resp error_code)
  config_if_send_priv

/-- The loop `while (!sys_config_iterate(&tag, &last_index)) sys_config_unset(tag);`. -/
def cfg_erase_all_loop : Nat → Nat → M Unit
  | 0, _ => Stuck .out_of_fuel
  | fuel + 1, last_index => do
    let P ← getParams
    match sys_config_iterate P last_index with
    | none => pure ()
    | some (tag, last_index1) =>
      let _ ← sys_config_unset tag
      cfg_erase_all_loop fuel last_index1

/-- The C function `cfg_erase_req`. -/
def cfg_erase_req (req : List Nat) (size : Nat) : M Unit := do
  let P ← getParams
  if CMD_SIZE P.sizeof_cmd_cfg_erase_req_t ≠ size then
    Throw .EXCEPTION_REQ_WRONG_SIZE
  tx_buffer_write
  let error_code ←
    if P.CFG_ERASE_REQ_ERASE_ALL = P.cmd_cfg_erase_req_configuration_tag req then do
      -- Erase all configuration tags
      cfg_erase_all_loop (P.sys_config_tags.length + 1) 0
      pure cmd_error_t.CMD_NO_ERROR
    else do
      -- Erase just one configuration tag
      let return_code ← sys_config_unset (P.cmd_cfg_erase_req_configuration_tag req)
      if return_code = SYS_CONFIG_NO_ERROR then pure cmd_error_t.CMD_NO_ERROR
      else if return_code = SYS_CONFIG_ERROR_INVALID_TAG then
        pure cmd_error_t.CMD_ERROR_INVALID_CONFIG_TAG
      else Throw .EXCEPTION_FS_ERROR
  tx_write_advance (.cmd_generic_resp error_code)
  config_if_send_priv

/-- The C function `cfg_protect_req`. -/
def cfg_protect_req (_req : List Nat) (size : Nat) : M Unit := do
  if size ≠ CMD_SIZE_HDR then
    Throw .EXCEPTION_REQ_WRONG_SIZE
  tx_buffer_write
  let ret ← ask (Ev.fs_protect FS_FILE_ID_CONF) (fun env tr => env.fs_protect tr FS_FILE_ID_CONF)
  let error_code ←
    match ret with
    | .FS_NO_ERROR => pure cmd_error_t.CMD_NO_ERROR
    | .FS_ERROR_FILE_NOT_FOUND => pure cmd_error_t.CMD_ERROR_FILE_NOT_FOUND
    | _ => Throw .EXCEPTION_FS_ERROR
  tx_write_advance (.cmd_generic_resp error_code)
  config_if_send_priv

/-- The C function `cfg_unprotect_req`. -/
def cfg_unprotect_req (_req : List Nat) (size : Nat) : M Unit := do
  if size ≠ CMD_SIZE_HDR then
    Throw .EXCEPTION_REQ_WRONG_SIZE
  tx_buffer_write
  let ret ← ask (Ev.fs_unprotect FS_FILE_ID_CONF)
    (fun env tr => env.fs_unprotect tr FS_FILE_ID_CONF)
  let error_code ←
    match ret with
    | .FS_NO_ERROR => pure cmd_error_t.CMD_NO_ERROR
    | .FS_ERROR_FILE_NOT_FOUND => pure cmd_error_t.CMD_ERROR_FILE_NOT_FOUND
    | _ => Throw .EXCEPTION_FS_ERROR
  tx_write_advance (.cmd_generic_resp error_code)
  config_if_send_priv

/-- The C function `gps_write_req`. -/
def gps_write_req (req : List Nat) (size : Nat) : M Unit := do
  let P ← getParams
  if CMD_SIZE P.sizeof_cmd_gps_write_req_t ≠ size then
    Throw .EXCEPTION_REQ_WRONG_SIZE
  tx_buffer_write
  let s ← getState
  let error_code ←
    if s.syshal_gps_bridging then do
      modifyState fun s => { s with sm_context := { s.sm_context with
        gps_write_length := u32 (P.cmd_gps_write_req_length req) } }
      config_if_receive_priv -- Queue a receive
      message_set_state .SM_MESSAGE_STATE_GPS_WRITE_NEXT
      pure cmd_error_t.CMD_NO_ERROR
    else
      -- Bridging is not enabled so return an error code
      pure cmd_error_t.CMD_ERROR_BRIDGING_DISABLED
  tx_write_advance (.cmd_generic_resp error_code)
  config_if_send_priv

/-- The C function `gps_write_next_state`. -/
def gps_write_next_state : M Unit := do
  let s ← getState
  let (length, read_buffer) := buffer_read_rx s.config_if_receive_buffer
  if length = 0 then
    pure ()
  else
    modifyState fun s => { s with
      config_if_receive_buffer := buffer_read_advance s.config_if_receive_buffer length }
    if length > s.sm_context.gps_write_length then
      message_set_state .SM_MESSAGE_STATE_IDLE
      Throw .EXCEPTION_PACKET_WRONG_SIZE
    let ret ← ask (Ev.syshal_gps_send_raw read_buffer)
      (fun env tr => env.syshal_gps_send_raw tr read_buffer)
    -- Check send worked
    if ret < 0 then
      -- If not we should exit out
      message_set_state .SM_MESSAGE_STATE_IDLE
      Throw .EXCEPTION_GPS_SEND_ERROR
    modifyState fun s => { s with sm_context := { s.sm_context with
      gps_write_length := u32_sub s.sm_context.gps_write_length length } }
    let s ← getState
    if s.sm_context.gps_write_length ≠ 0 then -- Is there still data to receive?
      config_if_receive_priv -- Queue a receive
      config_if_timeout_reset -- Reset the message timeout counter
    else
      -- We have received all the data
      message_set_state .SM_MESSAGE_STATE_IDLE

/-- The C function `gps_read_req`. -/
def gps_read_req (req : List Nat) (size : Nat) : M Unit := do
  let P ← getParams
  if CMD_SIZE P.sizeof_cmd_gps_read_req_t ≠ size then
    Throw .EXCEPTION_REQ_WRONG_SIZE
  tx_buffer_write
  let s ← getState
  let resp ←
    if s.syshal_gps_bridging then do
      -- Try to match the requested length, if not return as close to it as we can
      let available ← ask Ev.syshal_gps_available_raw (fun env => env.syshal_gps_available_raw)
      let length := MIN (u32 available) (u32 (P.cmd_gps_read_req_length req))
      modifyState fun s => { s with sm_context := { s.sm_context with gps_read_length := length } }
      pure (tx_packet.cmd_gps_read_resp .CMD_NO_ERROR length)
    else
      -- Bridging is not enabled so return an error code
      pure (tx_packet.cmd_gps_read_resp .CMD_ERROR_BRIDGING_DISABLED 0)
  -- Send response
  tx_write_advance resp
  config_if_send_priv
  let s ← getState
  if s.sm_context.gps_read_length > 0 then
    message_set_state .SM_MESSAGE_STATE_GPS_READ_NEXT

/-- The C function `gps_read_next_state`. -/
def gps_read_next_state : M Unit := do
  let P ← getParams
  tx_buffer_write
  let s ← getState
  -- Don't read more than the maximum packet size
  let bytes_to_read := MIN s.sm_context.gps_read_length P.SYSHAL_USB_PACKET_SIZE
  -- Receive data from the GPS module
  let data ← ask (Ev.syshal_gps_receive_raw bytes_to_read)
    (fun env tr => env.syshal_gps_receive_raw tr bytes_to_read)
  let resp := data.take bytes_to_read
  let bytes_actually_read := resp.length
  modifyState fun s => { s with sm_context := { s.sm_context with
    gps_read_length := u32_sub s.sm_context.gps_read_length bytes_actually_read } }
  -- Send response
  tx_write_advance (.data resp)
  config_if_send_priv
  let s ← getState
  if s.sm_context.gps_read_length ≠ 0 then -- Is there still data to send?
    config_if_timeout_reset -- Reset the message timeout counter
  else
    -- We have sent all the data
    message_set_state .SM_MESSAGE_STATE_IDLE

/-- The C function `gps_config_req`. -/
def gps_config_req (req : List Nat) (size : Nat) : M Unit := do
  let P ← getParams
  if CMD_SIZE P.sizeof_cmd_gps_config_req_t ≠ size then
    Throw .EXCEPTION_REQ_WRONG_SIZE
  -- Disable or enable GPS bridging
  modifyState fun s => { s with syshal_gps_bridging := P.cmd_gps_config_req_enable req }
  -- If we've just enabled bridging, remove any previous data in the GPS rx buffer
  let s ← getState
  if s.syshal_gps_bridging then
    let fuel ← getFuel
    syshal_gps_flush_loop fuel
  tx_buffer_write
  tx_write_advance (.cmd_generic_resp .CMD_NO_ERROR)
  config_if_send_priv

/-- The C function `ble_config_req`. -/
def ble_config_req (req : List Nat) (size : Nat) : M Unit := do
  let P ← getParams
  if CMD_SIZE P.sizeof_cmd_ble_config_req_t ≠ size then
    Throw .EXCEPTION_REQ_WRONG_SIZE
  -- Disable or enable BLE bridging
  modifyState fun s => { s with syshal_ble_bridging := P.cmd_ble_config_req_enable req }
  tx_buffer_write
  tx_write_advance (.cmd_generic_resp .CMD_NO_ERROR)
  config_if_send_priv

/-- The C function `ble_write_req`. -/
def ble_write_req (req : List Nat) (size : Nat) : M Unit := do
  let P ← getParams
  if CMD_SIZE P.sizeof_cmd_ble_write_req_t ≠ size then
    Throw .EXCEPTION_REQ_WRONG_SIZE
  tx_buffer_write
  let s ← getState
  let error_code ←
    if s.syshal_ble_bridging then do
      modifyState fun s => { s with sm_context := { s.sm_context with
        ble_write := ⟨P.cmd_ble_write_req_address req % 256, u16 (P.cmd_ble_write_req_length req)⟩ } }
      config_if_receive_priv -- Queue a receive
      message_set_state .SM_MESSAGE_STATE_BLE_WRITE_NEXT
      pure cmd_error_t.CMD_NO_ERROR
    else
      pure cmd_error_t.CMD_ERROR_BRIDGING_DISABLED
  tx_write_advance (.cmd_generic_resp error_code)
  config_if_send_priv

/-- The C function `ble_write_next_state`. -/
def ble_write_next_state : M Unit := do
  let s ← getState
  let (length, read_buffer) := buffer_read_rx s.config_if_receive_buffer
  if length = 0 then
    pure ()
  else
    modifyState fun s => { s with
      config_if_receive_buffer := buffer_read_advance s.config_if_receive_buffer length }
    if length > s.sm_context.ble_write.length then
      message_set_state .SM_MESSAGE_STATE_IDLE
      Throw .EXCEPTION_PACKET_WRONG_SIZE
    let spi_bridge_buffer := s.sm_context.ble_write.address :: read_buffer
    -- Check send worked
    let (failed, _) ← ask (Ev.syshal_spi_transfer spi_bridge_buffer (length + 1))
      (fun env tr => env.syshal_spi_transfer tr spi_bridge_buffer (length + 1))
    if failed then
      -- If not we should exit out
      message_set_state .SM_MESSAGE_STATE_IDLE
      Throw .EXCEPTION_SPI_ERROR
    modifyState fun s => { s with sm_context := { s.sm_context with
      ble_write := { s.sm_context.ble_write with
        length := u16_sub s.sm_context.ble_write.length length } } }
    let s ← getState
    if s.sm_context.ble_write.length ≠ 0 then -- Is there still data to receive?
      config_if_receive_priv -- Queue a receive
      config_if_timeout_reset -- Reset the message timeout counter
    else
      -- We have received all the data
      message_set_state .SM_MESSAGE_STATE_IDLE

/-- The C function `ble_read_req`. -/
def ble_read_req (req : List Nat) (size : Nat) : M Unit := do
  let P ← getParams
  if CMD_SIZE P.sizeof_cmd_ble_read_req_t ≠ size then
    Throw .EXCEPTION_REQ_WRONG_SIZE
  tx_buffer_write
  let s ← getState
  let error_code ←
    if s.syshal_ble_bridging then do
      modifyState fun s => { s with sm_context := { s.sm_context with
        ble_read := ⟨P.cmd_ble_read_req_address req % 256, u16 (P.cmd_ble_read_req_length req)⟩ } }
      pure cmd_error_t.CMD_NO_ERROR
    else do
      -- Bridging is not enabled so return an error code
      modifyState fun s => { s with sm_context := { s.sm_context with
        ble_read := { s.sm_context.ble_read with length := 0 } } }
      pure cmd_error_t.CMD_ERROR_BRIDGING_DISABLED
  -- Send response
  tx_write_advance (.cmd_generic_resp error_code)
  config_if_send_priv
  let s ← getState
  if s.sm_context.ble_read.length > 0 then
    message_set_state .SM_MESSAGE_STATE_BLE_READ_NEXT

/-- The C function `ble_read_next_state`. -/
def ble_read_next_state : M Unit := do
  let P ← getParams
  tx_buffer_write
  let s ← getState
  let bytes_to_read := MIN s.sm_context.ble_read.length P.SYSHAL_USB_PACKET_SIZE
  -- Read data from the specified SPI bus address
  let spi_bridge_buffer :=
    s.sm_context.ble_read.address :: List.replicate P.SYSHAL_USB_PACKET_SIZE 0
  let (failed, rx) ← ask (Ev.syshal_spi_transfer spi_bridge_buffer (bytes_to_read + 1))
    (fun env tr => env.syshal_spi_transfer tr spi_bridge_buffer (bytes_to_read + 1))
  if failed then
    -- If not we should exit out
    message_set_state .SM_MESSAGE_STATE_IDLE
    Throw .EXCEPTION_SPI_ERROR
  modifyState fun s => { s with sm_context := { s.sm_context with
    ble_read := { s.sm_context.ble_read with
      length := u16_sub s.sm_context.ble_read.length bytes_to_read } } }
  -- Copy data from bridge buffer into USB buffer
  let resp := ((mem_write spi_bridge_buffer 0 (rx.take (bytes_to_read + 1))).drop 1).take bytes_to_read
  -- Send response
  tx_write_advance (.data resp)
  config_if_send_priv
  let s ← getState
  if s.sm_context.ble_read.length ≠ 0 then -- Is there still data to send?
    config_if_timeout_reset -- Reset the message timeout counter
  else
    -- We have sent all the data
    message_set_state .SM_MESSAGE_STATE_IDLE

/-- The C function `status_req`. -/
def status_req (_req : List Nat) (size : Nat) : M Unit := do
  let P ← getParams
  if size ≠ CMD_SIZE_HDR then
    Throw .EXCEPTION_REQ_WRONG_SIZE
  tx_buffer_write
  let version ← ask Ev.syshal_ble_get_version (fun env => env.syshal_ble_get_version)
  tx_write_advance (.cmd_status_resp .CMD_NO_ERROR P.STM32_FIRMWARE_VERSION (u32 version)
    P.SYS_CONFIG_FORMAT_VERSION)
  config_if_send_priv

/-! ## Session cleanup and the transport callback -/

/-- The C function `config_if_session_cleanup`. -/
def config_if_session_cleanup : M Unit := do
  modifyState fun s => { s with config_if_send_buffer := buffer_reset s.config_if_send_buffer }
  modifyState fun s => { s with
    config_if_receive_buffer := buffer_reset s.config_if_receive_buffer }
  modifyState fun s => { s with config_if_tx_pending := false }
  modifyState fun s => { s with config_if_rx_queued := false }
  -- Close any open files
  let s ← getState
  if s.file_handle.isSome then
    fs_close
  modifyState fun s => { s with file_handle := none }

/-- The C function `config_if_callback`. -/
def config_if_callback (event : config_if_event_t) : M Unit :=
  match event with
  | .CONFIG_IF_EVENT_SEND_COMPLETE size => do
    -- Remove it from the buffer
    modifyState fun s => { s with
      config_if_send_buffer := buffer_read_advance s.config_if_send_buffer size }
    modifyState fun s => { s with config_if_tx_pending := false }
  | .CONFIG_IF_EVENT_RECEIVE_COMPLETE data => do
    -- Store it in the buffer
    modifyState fun s => { s with
      config_if_receive_buffer := buffer_write_advance s.config_if_receive_buffer data data.length }
    modifyState fun s => { s with config_if_rx_queued := false }
  | .CONFIG_IF_EVENT_CONNECTED => do
    config_if_session_cleanup -- Clean up any previous session
    config_if_timeout_reset -- Reset our timeout counter
    modifyState fun s => { s with config_if_connected := true }
  | .CONFIG_IF_EVENT_DISCONNECTED => do
    -- Clear all pending transmissions/receptions
    config_if_session_cleanup
    modifyState fun s => { s with config_if_connected := false }
    modifyState fun s => { s with syshal_gps_bridging := false }

/-- Delivery of a list of transport events to `config_if_callback`. -/
def config_if_deliver : List config_if_event_t → M Unit
  | [] => pure ()
  | event :: events => do
    config_if_callback event
    config_if_deliver events

/-- The call `config_if_tick()`: the transport delivers its pending events to
`config_if_callback`. -/
def config_if_tick : M Unit := do
  let events ← ask (.hal .config_if_tick) (fun env => env.config_if_tick)
  config_if_deliver events

/-- The loop `while (config_if_tx_pending) { config_if_tick(); }`. -/
def wait_tx_loop : Nat → M Unit
  | 0 => Stuck .out_of_fuel
  | fuel + 1 => do
    let s ← getState
    if s.config_if_tx_pending then
      config_if_tick
      wait_tx_loop fuel
    else
      pure ()

/-! ## Firmware upload and the remaining request handlers -/

/-- Assignment to the fields of `sm_context.fw_send_image`. -/
def set_fw_send_image (f : fw_send_image_t → fw_send_image_t) : M Unit :=
  modifyState fun s => { s with sm_context := { s.sm_context with
    fw_send_image := f s.sm_context.fw_send_image } }

/-- The C function `fw_send_image_req`. -/
def fw_send_image_req (req : List Nat) (size : Nat) : M Unit := do
  let P ← getParams
  if CMD_SIZE P.sizeof_cmd_fw_send_image_req_t ≠ size then
    Throw .EXCEPTION_REQ_WRONG_SIZE
  tx_buffer_write
  -- Store variables for use in future
  set_fw_send_image fun fw => { fw with length := u32 (P.cmd_fw_send_image_req_length req) }
  set_fw_send_image fun fw => { fw with crc32_supplied := u32 (P.cmd_fw_send_image_req_CRC32 req) }
  set_fw_send_image fun fw => { fw with crc32_calculated := 0 }
  -- Check the image type is correct
  set_fw_send_image fun fw => { fw with image_type := P.cmd_fw_send_image_req_image_type req % 256 }
  let s ← getState
  let image_type := s.sm_context.fw_send_image.image_type
  let error_code ←
    if image_type = FS_FILE_ID_STM32_IMAGE ∨ image_type = FS_FILE_ID_BLE_IMAGE then do
      let ret ← fs_delete image_type -- Must first delete any current image
      match ret with
      | .FS_ERROR_FILE_NOT_FOUND | .FS_NO_ERROR => do
        let ret ← fs_open image_type .FS_MODE_CREATE
        if ret ≠ .FS_NO_ERROR then
          Throw .EXCEPTION_FS_ERROR -- An unrecoverable error has occured
        config_if_receive_priv -- Queue a receive
        message_set_state .SM_MESSAGE_STATE_FW_SEND_IMAGE_NEXT
        pure cmd_error_t.CMD_NO_ERROR
      | .FS_ERROR_FILE_PROTECTED => pure cmd_error_t.CMD_ERROR_CONFIG_PROTECTED
      | _ => Throw .EXCEPTION_FS_ERROR
    else
      pure cmd_error_t.CMD_ERROR_INVALID_FW_IMAGE_TYPE
  tx_write_advance (.cmd_generic_resp error_code)
  config_if_send_priv

/-- The C function `fw_send_image_next_state`. -/
def fw_send_image_next_state : M Unit := do
  let P ← getParams
  let s ← getState
  let (length, read_buffer) := buffer_read_rx s.config_if_receive_buffer
  if length = 0 then
    pure ()
  else
    -- Remove this packet from the receive buffer
    modifyState fun s => { s with
      config_if_receive_buffer := buffer_read_advance s.config_if_receive_buffer length }
    -- Is this packet larger than we were expecting?
    if length > s.sm_context.fw_send_image.length then
      -- If it is we should exit out
      message_set_state .SM_MESSAGE_STATE_IDLE
      fs_close
      let _ ← fs_delete s.sm_context.fw_send_image.image_type
      Throw .EXCEPTION_PACKET_WRONG_SIZE
    set_fw_send_image fun fw => { fw with
      crc32_calculated := u32 (P.crc32 fw.crc32_calculated read_buffer) }
    let (ret, _) ← fs_write read_buffer
    if ret ≠ .FS_NO_ERROR then
      fs_close
      let _ ← fs_delete s.sm_context.fw_send_image.image_type
      message_set_state .SM_MESSAGE_STATE_IDLE
      Throw .EXCEPTION_FS_ERROR
    set_fw_send_image fun fw => { fw with length := u32_sub fw.length length }
    let s ← getState
    if s.sm_context.fw_send_image.length ≠ 0 then -- Is there still data to receive?
      config_if_receive_priv -- Queue a receive
      config_if_timeout_reset -- Reset the message timeout counter
    else
      -- We have received all the data
      fs_close -- Close the file
      -- Then send a confirmation
      tx_buffer_write
      -- Check the CRC32 is correct
      let error_code ←
        if s.sm_context.fw_send_image.crc32_calculated = s.sm_context.fw_send_image.crc32_supplied
        then
          pure cmd_error_t.CMD_NO_ERROR
        else do
          -- Image is invalid, so delete it
          let _ ← fs_delete s.sm_context.fw_send_image.image_type
          pure cmd_error_t.CMD_ERROR_IMAGE_CRC_MISMATCH
      tx_write_advance (.cmd_fw_send_image_complete_cnf error_code)
      config_if_send_priv -- Send response
      message_set_state .SM_MESSAGE_STATE_IDLE

/-- The `do ... while (FS_ERROR_END_OF_FILE != ret)` loop of
`execute_stm32_firmware_upgrade`. -/
def execute_stm32_firmware_upgrade_loop : Nat → M Unit
  | 0 => Stuck .out_of_fuel
  | fuel + 1 => do
    let (ret, data) ← fs_read 4
    call (Ev.syshal_firmware_write data)
    if ret ≠ .FS_ERROR_END_OF_FILE then
      execute_stm32_firmware_upgrade_loop fuel
    else
      pure ()

/-- The C function `execute_stm32_firmware_upgrade`; it ends in a reset of the MCU. -/
def execute_stm32_firmware_upgrade : M Unit := do
  let _ ← fs_open FS_FILE_ID_STM32_IMAGE .FS_MODE_READONLY
  call (.hal .syshal_firmware_prepare) -- Erase our FLASH
  let fuel ← getFuel
  execute_stm32_firmware_upgrade_loop fuel
  call (.hal .syshal_firmware_flush)
  syshal_pmu_reset

/-- The `do ... while (FS_ERROR_END_OF_FILE != ret)` loop of the BLE branch of
`fw_apply_image_req`. -/
def fw_apply_ble_loop : Nat → M Unit
  | 0 => Stuck .out_of_fuel
  | fuel + 1 => do
    let (ret, data) ← fs_read 50
    call (Ev.syshal_ble_fw_send data)
    if ret ≠ .FS_ERROR_END_OF_FILE then
      fw_apply_ble_loop fuel
    else
      pure ()

/-- The C function `fw_apply_image_req` (firmware build, without `GTEST`). -/
def fw_apply_image_req (req : List Nat) (size : Nat) : M Unit := do
  let P ← getParams
  if CMD_SIZE P.sizeof_cmd_fw_apply_image_req_t ≠ size then
    Throw .EXCEPTION_REQ_WRONG_SIZE
  tx_buffer_write
  -- Check the image type is correct
  let image_type := P.cmd_fw_apply_image_req_image_type req % 256
  let error_code ←
    if image_type = FS_FILE_ID_STM32_IMAGE ∨ image_type = FS_FILE_ID_BLE_IMAGE then do
      -- Check image exists
      let ret ← fs_open image_type .FS_MODE_READONLY
      match ret with
      | .FS_NO_ERROR => do
        if image_type = FS_FILE_ID_STM32_IMAGE then
          fs_close -- Close the file
          -- Respond now as we're about to wipe our FLASH and reset
          tx_write_advance (.cmd_generic_resp .CMD_NO_ERROR)
          config_if_send_priv
          -- Make sure our response is sent before we attempt any FLASH operations
          let fuel ← getFuel
          wait_tx_loop fuel
          execute_stm32_firmware_upgrade
        else if image_type = FS_FILE_ID_BLE_IMAGE then
          let (_, stat_size) ← fs_stat FS_FILE_ID_BLE_IMAGE
          call (Ev.syshal_ble_config_fw_upgrade stat_size)
          let fuel ← getFuel
          fw_apply_ble_loop fuel
          fs_close -- Close the file
          let _ ← fs_delete FS_FILE_ID_BLE_IMAGE
        pure cmd_error_t.CMD_NO_ERROR
      | .FS_ERROR_FILE_NOT_FOUND => pure cmd_error_t.CMD_ERROR_FILE_NOT_FOUND
      | _ => Throw .EXCEPTION_FS_ERROR
    else
      pure cmd_error_t.CMD_ERROR_INVALID_FW_IMAGE_TYPE
  config_if_timeout_reset
  tx_write_advance (.cmd_generic_resp error_code)
  config_if_send_priv

/-- The C function `reset_req` (firmware build, without `GTEST`). -/
def reset_req (req : List Nat) (size : Nat) : M Unit := do
  let P ← getParams
  if CMD_SIZE P.sizeof_cmd_reset_req_t ≠ size then
    Throw .EXCEPTION_REQ_WRONG_SIZE
  tx_buffer_write
  let reset_type := P.cmd_reset_req_reset_type req
  let (error_code, STM32_going_to_reset) ←
    if reset_type = P.RESET_REQ_STM32 then
      pure (cmd_error_t.CMD_NO_ERROR, true)
    else if reset_type = P.RESET_REQ_FLASH_ERASE_ALL then do
      call (.hal .fs_format)
      pure (cmd_error_t.CMD_NO_ERROR, false)
    else
      pure (cmd_error_t.CMD_ERROR_INVALID_PARAMETER, false)
  tx_write_advance (.cmd_generic_resp error_code)
  config_if_send_priv
  if STM32_going_to_reset then
    -- Wait for response to have been sent
    let fuel ← getFuel
    wait_tx_loop fuel
    syshal_pmu_reset

/-- The C function `battery_status_req` (without `DUMMY_BATTERY_MONITOR`). -/
def battery_status_req (_req : List Nat) (size : Nat) : M Unit := do
  if size ≠ CMD_SIZE_HDR then
    Throw .EXCEPTION_REQ_WRONG_SIZE
  tx_buffer_write
  let charging_indicator ← ask Ev.syshal_gpio_get_input_VUSB
    (fun env => env.syshal_gpio_get_input_VUSB)
  let charge_level ← ask Ev.syshal_batt_level (fun env => env.syshal_batt_level)
  tx_write_advance (.cmd_battery_status_resp .CMD_NO_ERROR charging_indicator charge_level)
  config_if_send_priv

/-- The C function `log_create_req`. -/
def log_create_req (req : List Nat) (size : Nat) : M Unit := do
  let P ← getParams
  if CMD_SIZE P.sizeof_cmd_log_create_req_t ≠ size then
    Throw .EXCEPTION_REQ_WRONG_SIZE
  tx_buffer_write
  -- Get request's parameters
  let mode := P.cmd_log_create_req_mode req
  -- Attempt to create the log file
  let error_code ←
    if P.CMD_LOG_CREATE_REQ_MODE_FILL = mode ∨ P.CMD_LOG_CREATE_REQ_MODE_CIRCULAR = mode then do
      -- Convert from create mode to fs_mode_t
      let fs_mode :=
        if P.CMD_LOG_CREATE_REQ_MODE_FILL = mode then fs_mode_t.FS_MODE_CREATE
        else fs_mode_t.FS_MODE_CREATE_CIRCULAR
      let ret ← fs_open FS_FILE_ID_LOG fs_mode
      match ret with
      | .FS_NO_ERROR => do
        modifyState fun s => { s with log_file_created := true }
        fs_close -- Close the file
        -- Set the sys_config log file type
        let _ ← sys_config_set P.tag.LOGGING_FILE_TYPE [mode % 256]
          (P.sys_config_tag_size P.tag.LOGGING_FILE_TYPE)
        -- Set the sys_config log file size
        let _ ← sys_config_set P.tag.LOGGING_FILE_SIZE (le_bytes 4 0)
          (P.sys_config_tag_size P.tag.LOGGING_FILE_SIZE)
        pure cmd_error_t.CMD_NO_ERROR
      | .FS_ERROR_FILE_ALREADY_EXISTS => pure cmd_error_t.CMD_ERROR_FILE_ALREADY_EXISTS
      | _ => Throw .EXCEPTION_FS_ERROR
    else
      pure cmd_error_t.CMD_ERROR_INVALID_PARAMETER
  tx_write_advance (.cmd_generic_resp error_code)
  config_if_send_priv

/-- The C function `log_erase_req`. -/
def log_erase_req (_req : List Nat) (size : Nat) : M Unit := do
  if size ≠ CMD_SIZE_HDR then
    Throw .EXCEPTION_REQ_WRONG_SIZE
  tx_buffer_write
  let ret ← fs_delete FS_FILE_ID_LOG
  let error_code ←
    match ret with
    | .FS_NO_ERROR => do
      modifyState fun s => { s with log_file_created := false }
      pure cmd_error_t.CMD_NO_ERROR
    | .FS_ERROR_FILE_NOT_FOUND => pure cmd_error_t.CMD_ERROR_FILE_NOT_FOUND
    | .FS_ERROR_FILE_PROTECTED => pure cmd_error_t.CMD_ERROR_CONFIG_PROTECTED
    | _ => Throw .EXCEPTION_FS_ERROR
  tx_write_advance (.cmd_generic_resp error_code)
  config_if_send_priv

/-- Assignment to the fields of `sm_context.log_read`. -/
def set_log_read (f : log_read_t → log_read_t) : M Unit :=
  modifyState fun s => { s with sm_context := { s.sm_context with
    log_read := f s.sm_context.log_read } }

/-- The loop `while (sm_context.log_read.start_offset)` of `log_read_req`. -/
def log_read_req_seek_loop : Nat → M Unit
  | 0 => Stuck .out_of_fuel
  | fuel + 1 => do
    let s ← getState
    if s.sm_context.log_read.start_offset = 0 then
      pure ()
    else
      let (ret, data) ← fs_read 1
      if ret ≠ .FS_NO_ERROR then
        Throw .EXCEPTION_FS_ERROR
      set_log_read fun lr => { lr with start_offset := u32_sub lr.start_offset data.length }
      log_read_req_seek_loop fuel

/-- The C function `log_read_req`. -/
def log_read_req (req : List Nat) (size : Nat) : M Unit := do
  let P ← getParams
  if CMD_SIZE P.sizeof_cmd_log_read_req_t ≠ size then
    Throw .EXCEPTION_REQ_WRONG_SIZE
  tx_buffer_write
  set_log_read fun lr => { lr with length := 0 }
  let (ret, stat_size) ← fs_stat FS_FILE_ID_LOG
  let error_code ←
    match ret with
    | .FS_NO_ERROR => do
      set_log_read fun lr => { lr with length := u32 (P.cmd_log_read_req_length req) }
      set_log_read fun lr => { lr with start_offset := u32 (P.cmd_log_read_req_start_offset req) }
      -- Check if both parameters are zero. If they are the client is requesting a full log file
      let s ← getState
      if s.sm_context.log_read.length = 0 ∧ s.sm_context.log_read.start_offset = 0 then
        set_log_read fun lr => { lr with length := u32 stat_size }
      let s ← getState
      if s.sm_context.log_read.start_offset > u32 stat_size then
        -- Is the offset beyond the end of the file?
        pure cmd_error_t.CMD_ERROR_INVALID_PARAMETER
      else do
        -- Do we have this amount of data ready to read?
        if u32 (s.sm_context.log_read.length + s.sm_context.log_read.start_offset) > u32 stat_size
        then
          -- If the length requested is greater than what we have then reduce the length
          set_log_read fun lr => { lr with length := u32_sub (u32 stat_size) lr.start_offset }
        -- Open the file
        let ret ← fs_open FS_FILE_ID_LOG .FS_MODE_READONLY
        if ret = .FS_NO_ERROR then
          let s ← getState
          if s.sm_context.log_read.length ≠ 0 then
            message_set_state .SM_MESSAGE_STATE_LOG_READ_NEXT
            -- Move to the offset position
            let fuel ← getFuel
            log_read_req_seek_loop fuel
          else
            fs_close
          pure cmd_error_t.CMD_NO_ERROR
        else
          Throw .EXCEPTION_FS_ERROR
    | .FS_ERROR_FILE_NOT_FOUND => pure cmd_error_t.CMD_ERROR_FILE_NOT_FOUND
    | _ => Throw .EXCEPTION_FS_ERROR
  let s ← getState
  tx_write_advance (.cmd_log_read_resp error_code s.sm_context.log_read.length)
  config_if_send_priv

/-- The C function `log_read_next_state`. -/
def log_read_next_state : M Unit := do
  let P ← getParams
  -- Get write buffer
  tx_buffer_write
  -- Read data out
  let s ← getState
  let bytes_to_read := MIN s.sm_context.log_read.length P.SYSHAL_USB_PACKET_SIZE
  let (ret, read_buffer) ← fs_read bytes_to_read
  if ret ≠ .FS_NO_ERROR then
    Throw .EXCEPTION_FS_ERROR
  let bytes_actually_read := read_buffer.length
  set_log_read fun lr => { lr with length := u32_sub lr.length bytes_actually_read }
  tx_write_advance (.data read_buffer)
  config_if_send_priv
  let s ← getState
  if s.sm_context.log_read.length ≠ 0 then -- Is there still data to send?
    config_if_timeout_reset -- Reset the message timeout counter
  else
    -- We have sent all the data
    fs_close -- Close the file
    message_set_state .SM_MESSAGE_STATE_IDLE

/-! ## Message state execution code -/

/-- The C function `message_idle_state`. -/
def message_idle_state : M Unit := do
  let P ← getParams
  let s ← getState
  let (length, req) := buffer_read_rx s.config_if_receive_buffer
  if length ≠ 0 then -- Is a message waiting to be processed
    -- Mark this message as received
    modifyState fun s => { s with
      config_if_receive_buffer := buffer_read_advance s.config_if_receive_buffer length }
    match P.hdr_cmd req with
    | some .CMD_CFG_READ_REQ => cfg_read_req req length
    | some .CMD_CFG_WRITE_REQ => cfg_write_req req length
    | some .CMD_CFG_SAVE_REQ => cfg_save_req req length
    | some .CMD_CFG_RESTORE_REQ => cfg_restore_req req length
    | some .CMD_CFG_ERASE_REQ => cfg_erase_req req length
    | some .CMD_CFG_PROTECT_REQ => cfg_protect_req req length
    | some .CMD_CFG_UNPROTECT_REQ => cfg_unprotect_req req length
    | some .CMD_GPS_WRITE_REQ => gps_write_req req length
    | some .CMD_GPS_READ_REQ => gps_read_req req length
    | some .CMD_GPS_CONFIG_REQ => gps_config_req req length
    | some .CMD_BLE_CONFIG_REQ => ble_config_req req length
    | some .CMD_BLE_WRITE_REQ => ble_write_req req length
    | some .CMD_BLE_READ_REQ => ble_read_req req length
    | some .CMD_STATUS_REQ => status_req req length
    | some .CMD_FW_SEND_IMAGE_REQ => fw_send_image_req req length
    | some .CMD_FW_APPLY_IMAGE_REQ => fw_apply_image_req req length
    | some .CMD_RESET_REQ => reset_req req length
    | some .CMD_BATTERY_STATUS_REQ => battery_status_req req length
    | some .CMD_LOG_CREATE_REQ => log_create_req req length
    | some .CMD_LOG_ERASE_REQ => log_erase_req req length
    | some .CMD_LOG_READ_REQ => log_read_req req length
    | none => pure () -- Don't return an error. Fail silent
  else
    config_if_receive_priv

/-- The C function `state_message_exception_handler`: every branch only prints. -/
def state_message_exception_handler (_e : CEXCEPTION_T) : M Unit :=
  pure ()

/-- The constant `SM_MAIN_INACTIVITY_TIMEOUT_MS`. -/
def SM_MAIN_INACTIVITY_TIMEOUT_MS : Nat := 2000

/-- The `switch (message_state)` of `handle_config_if_messages`. -/
def message_state_dispatch : M Unit := do
  let s ← getState
  match s.message_state with
  | .SM_MESSAGE_STATE_IDLE => do -- No message is currently being handled
    message_idle_state
    config_if_timeout_reset -- Reset the timeout counter
  | .SM_MESSAGE_STATE_CFG_READ_NEXT => cfg_read_next_state
  | .SM_MESSAGE_STATE_CFG_WRITE_NEXT => cfg_write_next_state
  | .SM_MESSAGE_STATE_CFG_WRITE_ERROR => cfg_write_error_state
  | .SM_MESSAGE_STATE_GPS_WRITE_NEXT => gps_write_next_state
  | .SM_MESSAGE_STATE_GPS_READ_NEXT => gps_read_next_state
  | .SM_MESSAGE_STATE_BLE_READ_NEXT => ble_read_next_state
  | .SM_MESSAGE_STATE_BLE_WRITE_NEXT => ble_write_next_state
  | .SM_MESSAGE_STATE_LOG_READ_NEXT => log_read_next_state
  | .SM_MESSAGE_STATE_FW_SEND_IMAGE_NEXT => fw_send_image_next_state

/-- The first statement of the C function `handle_config_if_messages`:
`if ((syshal_time_get_ticks_ms() - config_if_message_timeout) >
SM_MAIN_INACTIVITY_TIMEOUT_MS) { ... }`. -/
def message_timeout_check : M Unit := do
  -- Has a message timeout occured?
  let now ← ask Ev.syshal_time_get_ticks_ms (fun env => env.syshal_time_get_ticks_ms)
  let s ← getState
  if u32_sub (u32 now) s.config_if_message_timeout > SM_MAIN_INACTIVITY_TIMEOUT_MS then
    message_set_state .SM_MESSAGE_STATE_IDLE -- Return to the idle state
    config_if_session_cleanup -- Clear any pending messages

/-- The C function `handle_config_if_messages`. -/
def handle_config_if_messages : M Unit := do
  message_timeout_check
  -- Don't allow the processing of anymore messages until we have a free transmit buffer
  let s ← getState
  if s.config_if_tx_pending then
    return
  TryCatch message_state_dispatch state_message_exception_handler

/-! ## Required-tags predicate -/

/-- The statement `if (SYS_CONFIG_ERROR_TAG_NOT_SET == sys_config_get(tag, NULL))
sys_config.<tag>.contents.enable = false;` -/
def default_enable_false (tag : Nat) : M Unit := do
  let P ← getParams
  let s ← getState
  if SYS_CONFIG_ERROR_TAG_NOT_SET = (sys_config_get P s.sys_config tag).1 then
    modifyState fun s => s.set_contents tag (List.replicate (P.sys_config_tag_size tag) 0)

/-- The field `contents.enable` of a tag of the store. -/
def State.enable (s : State) (tag : Nat) : Bool := s.contents_value tag != 0

/-- The part of the loop body of `check_configuration_tags_set` that ends in `continue`:
true when `tag` is ignored. The clauses are those of the C code, in its order. -/
def check_configuration_tags_ignored (P : Params) (s : State) (tag : Nat) : Bool :=
  let T := P.tag
  -- Ignore any non-essential tags
  (!s.enable T.LOGGING_ENABLE &&
    (T.LOGGING_ENABLE == tag ||
     T.LOGGING_FILE_SIZE == tag ||
     T.LOGGING_FILE_TYPE == tag ||
     T.LOGGING_GROUP_SENSOR_READINGS_ENABLE == tag ||
     T.LOGGING_START_END_SYNC_ENABLE == tag ||
     T.LOGGING_DATE_TIME_STAMP_ENABLE == tag ||
     T.LOGGING_HIGH_RESOLUTION_TIMER_ENABLE == tag ||
     T.GPS_LOG_POSITION_ENABLE == tag ||
     T.GPS_LOG_TTFF_ENABLE == tag ||
     T.GPS_TRIGGER_MODE == tag ||
     T.GPS_SCHEDULED_ACQUISITION_INTERVAL == tag ||
     T.GPS_MAXIMUM_ACQUISITION_TIME == tag ||
     T.GPS_SCHEDULED_ACQUISITION_NO_FIX_TIMEOUT == tag ||
     T.SALTWATER_SWITCH_LOG_ENABLE == tag ||
     T.SALTWATER_SWITCH_HYSTERESIS_PERIOD == tag ||
     T.AXL_LOG_ENABLE == tag ||
     T.AXL_CONFIG == tag ||
     T.AXL_G_FORCE_HIGH_THRESHOLD == tag ||
     T.AXL_SAMPLE_RATE == tag ||
     T.AXL_MODE == tag ||
     T.PRESSURE_SENSOR_LOG_ENABLE == tag ||
     T.PRESSURE_SAMPLE_RATE == tag ||
     T.PRESSURE_LOW_THRESHOLD == tag ||
     T.PRESSURE_HIGH_THRESHOLD == tag ||
     T.PRESSURE_MODE == tag ||
     T.TEMP_SENSOR_LOG_ENABLE == tag ||
     T.TEMP_SENSOR_SAMPLE_RATE == tag ||
     T.TEMP_SENSOR_LOW_THRESHOLD == tag ||
     T.TEMP_SENSOR_HIGH_THRESHOLD == tag ||
     T.TEMP_SENSOR_MODE == tag)) ||
  (!s.enable T.GPS_LOG_POSITION_ENABLE &&
    (T.GPS_LOG_POSITION_ENABLE == tag ||
     T.GPS_TRIGGER_MODE == tag ||
     T.GPS_SCHEDULED_ACQUISITION_INTERVAL == tag ||
     T.GPS_MAXIMUM_ACQUISITION_TIME == tag ||
     T.GPS_SCHEDULED_ACQUISITION_NO_FIX_TIMEOUT == tag)) ||
  (!s.enable T.GPS_LOG_TTFF_ENABLE && T.GPS_LOG_TTFF_ENABLE == tag) ||
  (if !s.enable T.SALTWATER_SWITCH_LOG_ENABLE then
     T.SALTWATER_SWITCH_LOG_ENABLE == tag
   else
     -- If we're in switch only trigger mode, then ignore any options meant for SCHEDULED
     -- or HYBRID modes
     (s.hdr_set T.GPS_TRIGGER_MODE &&
      P.SYS_CONFIG_GPS_TRIGGER_MODE_SWITCH_TRIGGERED == s.contents_value T.GPS_TRIGGER_MODE) &&
     (T.GPS_SCHEDULED_ACQUISITION_INTERVAL == tag ||
      T.GPS_MAXIMUM_ACQUISITION_TIME == tag ||
      T.GPS_SCHEDULED_ACQUISITION_NO_FIX_TIMEOUT == tag)) ||
  -- We don't care about our last GPS location
  T.GPS_LAST_KNOWN_POSITION == tag ||
  (!s.enable T.TEMP_SENSOR_LOG_ENABLE &&
    (T.TEMP_SENSOR_LOG_ENABLE == tag ||
     T.TEMP_SENSOR_SAMPLE_RATE == tag ||
     T.TEMP_SENSOR_LOW_THRESHOLD == tag ||
     T.TEMP_SENSOR_HIGH_THRESHOLD == tag ||
     T.TEMP_SENSOR_MODE == tag)) ||
  (if !s.enable T.PRESSURE_SENSOR_LOG_ENABLE then
     (T.PRESSURE_SENSOR_LOG_ENABLE == tag ||
      T.PRESSURE_SAMPLE_RATE == tag ||
      T.PRESSURE_LOW_THRESHOLD == tag ||
      T.PRESSURE_HIGH_THRESHOLD == tag ||
      T.PRESSURE_MODE == tag ||
      T.PRESSURE_SCHEDULED_ACQUISITION_INTERVAL == tag ||
      T.PRESSURE_MAXIMUM_ACQUISITION_TIME == tag)
   else
     -- If we're in periodic mode, then skip the low/high threshold tags
     (s.hdr_set T.PRESSURE_MODE &&
      P.SYS_CONFIG_PRESSURE_MODE_PERIODIC == s.contents_value T.PRESSURE_MODE) &&
     (T.PRESSURE_LOW_THRESHOLD == tag ||
      T.PRESSURE_HIGH_THRESHOLD == tag)) ||
  (if !s.enable T.AXL_LOG_ENABLE then
     (T.AXL_LOG_ENABLE == tag ||
      T.AXL_CONFIG == tag ||
      T.AXL_G_FORCE_HIGH_THRESHOLD == tag ||
      T.AXL_SAMPLE_RATE == tag ||
      T.AXL_MODE == tag ||
      T.AXL_SCHEDULED_ACQUISITION_INTERVAL == tag ||
      T.AXL_MAXIMUM_ACQUISITION_TIME == tag)
   else
     -- If we're in periodic mode, then skip the high threshold tag
     (s.hdr_set T.AXL_MODE &&
      P.SYS_CONFIG_AXL_MODE_PERIODIC == s.contents_value T.AXL_MODE) &&
     T.AXL_G_FORCE_HIGH_THRESHOLD == tag) ||
  (!s.enable T.RTC_SYNC_TO_GPS_ENABLE && T.RTC_SYNC_TO_GPS_ENABLE == tag) ||
  T.LOGGING_GROUP_SENSOR_READINGS_ENABLE == tag ||
  T.LOGGING_START_END_SYNC_ENABLE == tag ||
  T.LOGGING_DATE_TIME_STAMP_ENABLE == tag ||
  T.LOGGING_HIGH_RESOLUTION_TIMER_ENABLE == tag ||
  T.BATTERY_LOG_ENABLE == tag ||
  -- It does not matter if the low battery threshold is set or not
  T.BATTERY_LOW_THRESHOLD == tag ||
  -- We don't care about the bluetooth device address
  T.BLUETOOTH_DEVICE_ADDRESS == tag ||
  -- We let the BLE device choose advertising interval if not set
  T.BLUETOOTH_ADVERTISING_INTERVAL == tag ||
  -- We let the BLE device choose connection interval if not set
  T.BLUETOOTH_CONNECTION_INTERVAL == tag ||
  -- We let the BLE device choose PHY if not set
  T.BLUETOOTH_PHY_MODE == tag

/-- The `while (!sys_config_iterate(&tag, &last_index))` loop of
`check_configuration_tags_set`, with the locals `last_index` and `tag_not_set`. -/
def check_configuration_tags_loop (P : Params) (s : State) : Nat → Nat → Bool → Bool
  | 0, _, tag_not_set => tag_not_set
  | fuel + 1, last_index, tag_not_set =>
    match sys_config_iterate P last_index with
    | none => tag_not_set
    | some (tag, last_index1) =>
      if check_configuration_tags_ignored P s tag then
        check_configuration_tags_loop P s fuel last_index1 tag_not_set
      else if SYS_CONFIG_ERROR_TAG_NOT_SET = (sys_config_get P s.sys_config tag).1 then
        check_configuration_tags_loop P s fuel last_index1 true
      else
        check_configuration_tags_loop P s fuel last_index1 tag_not_set

/-- The C function `check_configuration_tags_set`. -/
def check_configuration_tags_set : M Bool := do
  let P ← getParams
  -- If one of the following tags is not set, default to false
  default_enable_false P.tag.LOGGING_ENABLE
  default_enable_false P.tag.LOGGING_GROUP_SENSOR_READINGS_ENABLE
  default_enable_false P.tag.LOGGING_START_END_SYNC_ENABLE
  default_enable_false P.tag.LOGGING_DATE_TIME_STAMP_ENABLE
  default_enable_false P.tag.LOGGING_HIGH_RESOLUTION_TIMER_ENABLE
  default_enable_false P.tag.GPS_LOG_POSITION_ENABLE
  default_enable_false P.tag.GPS_LOG_TTFF_ENABLE
  default_enable_false P.tag.SALTWATER_SWITCH_LOG_ENABLE
  default_enable_false P.tag.TEMP_SENSOR_LOG_ENABLE
  default_enable_false P.tag.PRESSURE_SENSOR_LOG_ENABLE
  default_enable_false P.tag.AXL_LOG_ENABLE
  default_enable_false P.tag.RTC_SYNC_TO_GPS_ENABLE
  default_enable_false P.tag.BATTERY_LOG_ENABLE
  let s ← getState
  let tag_not_set := check_configuration_tags_loop P s (P.sys_config_tags.length + 1) 0 false
  pure (!tag_not_set)

/-! ## Logging and BLE management -/

/-- The constant `LOGGING_BUFFER_SIZE`. -/
def LOGGING_BUFFER_SIZE : Nat := 32

/-- The constant `LOGGING_FIFO_DEPTH`. -/
def LOGGING_FIFO_DEPTH : Nat := 8

/-- The constant `LOG_FILE_FLUSH_PERIOD_SECONDS`. -/
def LOG_FILE_FLUSH_PERIOD_SECONDS : Nat := (24 * 60 * 60) - 60

/-- The constant `USB_ENUMERATION_TIMEOUT_MS`. -/
def USB_ENUMERATION_TIMEOUT_MS : Nat := 10000

/-- The C function `logging_add_to_buffer`; `data` is the record passed with its `sizeof`.
A slot of the logging pool has `LOGGING_BUFFER_SIZE` bytes, a copy past it is stuck. -/
def logging_add_to_buffer (data : log_record) : M Unit := do
  let P ← getParams
  let s ← getState
  if !buffer_write s.logging_buffer then
    Throw .EXCEPTION_LOG_BUFFER_FULL
  -- Are we supposed to be adding a timestamp with this value?
  let stamp ←
    if s.enable P.tag.LOGGING_DATE_TIME_STAMP_ENABLE then do
      let t ← ask Ev.syshal_rtc_get_date_and_time (fun env => env.syshal_rtc_get_date_and_time)
      pure (P.log_record_bytes
        (.LOGGING_DATE_TIME t.year t.month t.day t.hours t.minutes t.seconds))
    else
      pure []
  -- Add the supplied data to the buffer
  let slot := stamp ++ P.log_record_bytes data
  if slot.length > LOGGING_BUFFER_SIZE then
    Stuck .out_of_bounds
  modifyState fun s => { s with
    logging_buffer := buffer_write_advance s.logging_buffer slot slot.length }

/-- The C function `manage_ble`. -/
def manage_ble : M Unit := do
  let s ← getState
  if s.ble_state ≠ 0 then
    let current ← ask Ev.config_if_current (fun env => env.config_if_current)
    if current = .CONFIG_IF_BACKEND_NOT_SET then
      call (Ev.config_if_init .CONFIG_IF_BACKEND_BLE)
  else
    let current ← ask Ev.config_if_current (fun env => env.config_if_current)
    if current = .CONFIG_IF_BACKEND_BLE then
      call (.hal .config_if_term) -- Terminate the BLE interface
      let s ← getState
      if s.config_if_connected then
        -- If the BLE device was connected, trigger a disconnect event
        config_if_callback .CONFIG_IF_EVENT_DISCONNECTED

/-! ## Callbacks -/

/-- The call `syshal_gps_shutdown()`. -/
def syshal_gps_shutdown : M Unit := call (.hal .syshal_gps_shutdown)

/-- The call `syshal_gps_wake_up()`. -/
def syshal_gps_wake_up : M Unit := call (.hal .syshal_gps_wake_up)

/-- The call `syshal_timer_set(t, mode, seconds)`. -/
def syshal_timer_set (t : timer_handle_t) (mode : timer_mode_t) (seconds : Nat) : M Unit :=
  call (Ev.syshal_timer_set t mode seconds)

/-- The call `syshal_timer_cancel(t)`. -/
def syshal_timer_cancel (t : timer_handle_t) : M Unit := call (Ev.syshal_timer_cancel t)

/-- Assignment to `sm_gps_state`. -/
def set_sm_gps_state (g : sm_gps_state_t) : M Unit :=
  modifyState fun s => { s with sm_gps_state := g }

/-- The condition "scheduled mode, or hybrid mode and underwater" of the GPS timers. -/
def gps_scheduled_or_hybrid_underwater (P : Params) (s : State) : Bool :=
  (P.SYS_CONFIG_GPS_TRIGGER_MODE_SCHEDULED == s.contents_value P.tag.GPS_TRIGGER_MODE) ||
  ((P.SYS_CONFIG_GPS_TRIGGER_MODE_HYBRID == s.contents_value P.tag.GPS_TRIGGER_MODE) &&
    !s.tracker_above_water)

/-- The C function `syshal_axl_callback`. -/
def syshal_axl_callback (data : syshal_axl_data_t) : M Unit := do
  let P ← getParams
  let s ← getState
  -- If accelerometer data logging is disabled
  if !s.enable P.tag.AXL_LOG_ENABLE || !s.sensor_logging_enabled then
    call (.hal .syshal_axl_sleep) -- Sleep the accelerometer device
    return
  if s.contents_value P.tag.AXL_MODE = P.SYS_CONFIG_AXL_MODE_PERIODIC then
    logging_add_to_buffer (.LOGGING_AXL_XYZ data.x data.y data.z)
  else
    pure () -- SYS_CONFIG_AXL_MODE_TRIGGER_ABOVE: nothing is logged (FIXME in the C code)

/-- The C function `syshal_pressure_callback`. -/
def syshal_pressure_callback (pressure : Int) : M Unit := do
  let P ← getParams
  let s ← getState
  if s.sensor_logging_enabled then
    if s.enable P.tag.PRESSURE_SENSOR_LOG_ENABLE then
      logging_add_to_buffer (.LOGGING_PRESSURE pressure)

/-- Two's-complement little-endian bytes of a 32-bit integer. -/
def le_bytes_i32 (x : Int) : List Nat := le_bytes 4 (x % 4294967296).toNat

/-- The C function `syshal_gps_callback`. -/
def syshal_gps_callback (event : syshal_gps_event_t) : M Unit := do
  let P ← getParams
  let s ← getState
  -- If gps data logging is disabled
  if !s.enable P.tag.GPS_LOG_POSITION_ENABLE && !s.enable P.tag.GPS_LOG_TTFF_ENABLE then
    set_sm_gps_state .SM_GPS_STATE_ASLEEP
    syshal_gps_shutdown -- Sleep the gps device
    return
  match event with
  | .SYSHAL_GPS_EVENT_STATUS gpsFix ttff =>
    if gpsFix > 0 then
      if s.sm_gps_state ≠ .SM_GPS_STATE_ASLEEP then -- If we haven't already slept the GPS
        syshal_timer_cancel .timer_gps_interval -- Clear any no fix timer
        set_sm_gps_state .SM_GPS_STATE_FIXED
      -- If TTFF logging is enabled then log this
      if !s.gps_ttff_reading_logged && s.enable P.tag.GPS_LOG_TTFF_ENABLE &&
          s.sensor_logging_enabled then
        logging_add_to_buffer (.LOGGING_GPS_TTFF ttff)
        modifyState fun s => { s with gps_ttff_reading_logged := true }
    else
      if s.sm_gps_state ≠ .SM_GPS_STATE_ASLEEP then -- If we haven't already slept the GPS
        -- Have we just lost GPS fix?
        if s.sm_gps_state = .SM_GPS_STATE_FIXED then
          -- Are we supposed to be scheduling a no fix timer?
          if s.contents_value P.tag.GPS_SCHEDULED_ACQUISITION_INTERVAL ≠ 0 then
            if gps_scheduled_or_hybrid_underwater P s then
              -- Don't set a no fix timeout if it's zero as this is a special case
              if s.contents_value P.tag.GPS_SCHEDULED_ACQUISITION_NO_FIX_TIMEOUT ≠ 0 then
                syshal_timer_set .timer_gps_no_fix .one_shot
                  (s.contents_value P.tag.GPS_SCHEDULED_ACQUISITION_NO_FIX_TIMEOUT)
        set_sm_gps_state .SM_GPS_STATE_ACQUIRING
  | .SYSHAL_GPS_EVENT_POSLLH iTOW lon lat height hAcc vAcc =>
    -- Store this value into our last known location configuration interface tag
    let position := le_bytes 4 iTOW ++ le_bytes_i32 lon ++ le_bytes_i32 lat ++
      le_bytes_i32 height ++ le_bytes 4 hAcc ++ le_bytes 4 vAcc
    modifyState fun s => { s with sys_config := fun t =>
      if t = P.tag.GPS_LAST_KNOWN_POSITION then ⟨true, position⟩ else s.sys_config t }
    -- Add data to be logged
    if s.sm_gps_state = .SM_GPS_STATE_FIXED && s.sensor_logging_enabled then
      logging_add_to_buffer (.LOGGING_GPS_POSITION iTOW lon lat height hAcc vAcc)
  | .SYSHAL_GPS_EVENT_OTHER => pure ()

/-- The C function `timer_switch_hysteresis_callback`. -/
def timer_switch_hysteresis_callback : M Unit := do
  let P ← getParams
  -- The tracker has been underwater for the configured amount of time
  modifyState fun s => { s with tracker_above_water := false }
  let s ← getState
  if s.sensor_logging_enabled then
    if s.enable P.tag.SALTWATER_SWITCH_LOG_ENABLE then
      logging_add_to_buffer .LOGGING_SUBMERGED
    -- Are we supposed to be sleeping the GPS?
    if P.SYS_CONFIG_GPS_TRIGGER_MODE_SWITCH_TRIGGERED = s.contents_value P.tag.GPS_TRIGGER_MODE
        ∨ P.SYS_CONFIG_GPS_TRIGGER_MODE_HYBRID = s.contents_value P.tag.GPS_TRIGGER_MODE then
      if s.sm_gps_state ≠ .SM_GPS_STATE_ASLEEP then
        -- We are no longer aquiring GPS data so cancel any timer for this
        syshal_timer_cancel .timer_gps_maximum_acquisition
        set_sm_gps_state .SM_GPS_STATE_ASLEEP
        syshal_gps_shutdown

/-- The C function `syshal_switch_callback`. -/
def syshal_switch_callback (event : syshal_switch_event_id_t) : M Unit := do
  let P ← getParams
  match event with
  | .SYSHAL_SWITCH_EVENT_OPEN =>
    syshal_timer_cancel .timer_switch_hysteresis
    let s ← getState
    -- If we're in the operational state and we were previously underwater
    if s.sensor_logging_enabled && !s.tracker_above_water then
      if s.enable P.tag.SALTWATER_SWITCH_LOG_ENABLE then
        logging_add_to_buffer .LOGGING_SURFACED
      -- Are we supposed to be waking the GPS?
      if P.SYS_CONFIG_GPS_TRIGGER_MODE_SWITCH_TRIGGERED = s.contents_value P.tag.GPS_TRIGGER_MODE
          ∨ P.SYS_CONFIG_GPS_TRIGGER_MODE_HYBRID = s.contents_value P.tag.GPS_TRIGGER_MODE then
        if s.sm_gps_state = .SM_GPS_STATE_ASLEEP then
          set_sm_gps_state .SM_GPS_STATE_ACQUIRING
          modifyState fun s => { s with gps_ttff_reading_logged := false }
          syshal_gps_wake_up
        -- If our maximum acquisition time is not set to forever (0)
        if s.contents_value P.tag.GPS_MAXIMUM_ACQUISITION_TIME ≠ 0 then
          syshal_timer_set .timer_gps_maximum_acquisition .one_shot
            (s.contents_value P.tag.GPS_MAXIMUM_ACQUISITION_TIME)
      syshal_timer_cancel .timer_gps_no_fix -- We ignore the no fix timeout when on the surface
    modifyState fun s => { s with tracker_above_water := true }
  | .SYSHAL_SWITCH_EVENT_CLOSED =>
    let s ← getState
    if s.contents_value P.tag.SALTWATER_SWITCH_HYSTERESIS_PERIOD ≠ 0 &&
        s.hdr_set P.tag.SALTWATER_SWITCH_HYSTERESIS_PERIOD && s.sensor_logging_enabled then
      syshal_timer_set .timer_switch_hysteresis .one_shot
        (s.contents_value P.tag.SALTWATER_SWITCH_HYSTERESIS_PERIOD)
    else
      timer_switch_hysteresis_callback -- Trigger an instant switch timeout
  | .SYSHAL_SWITCH_EVENT_OTHER => pure ()

/-- The C function `gpio_reed_sw_callback`. The condition ors the flags with the
REED_SWITCH bit, as the C code does. -/
def gpio_reed_sw_callback : M Unit := do
  let P ← getParams
  let s ← getState
  -- Should we be using the reed switch to trigger BLE activation?
  if s.hdr_set P.tag.BLUETOOTH_TRIGGER_CONTROL &&
      (Nat.lor (s.contents_value P.tag.BLUETOOTH_TRIGGER_CONTROL)
        P.SYS_CONFIG_TAG_BLUETOOTH_TRIGGER_CONTROL_REED_SWITCH != 0) then
    let input ← ask Ev.syshal_gpio_get_input_REED_SW (fun env => env.syshal_gpio_get_input_REED_SW)
    let bit := P.SYS_CONFIG_TAG_BLUETOOTH_TRIGGER_CONTROL_REED_SWITCH % 256
    if !input then
      modifyState fun s => { s with ble_state := Nat.lor s.ble_state bit }
    else
      modifyState fun s => { s with ble_state := Nat.land s.ble_state (Nat.xor 255 bit) }

/-- The C function `timer_gps_interval_callback`. -/
def timer_gps_interval_callback : M Unit := do
  let P ← getParams
  let s ← getState
  -- If we are and we are either in scheduled mode or hybrid + underwater
  if gps_scheduled_or_hybrid_underwater P s then
    -- Our scheduled interval has elapsed
    -- So wake up the GPS
    if s.sm_gps_state = .SM_GPS_STATE_ASLEEP then
      set_sm_gps_state .SM_GPS_STATE_ACQUIRING
      modifyState fun s => { s with gps_ttff_reading_logged := false }
      syshal_gps_wake_up
    syshal_timer_set .timer_gps_maximum_acquisition .one_shot
      (s.contents_value P.tag.GPS_MAXIMUM_ACQUISITION_TIME)
    -- Don't set a no fix timeout if it's zero as this is a special case
    if s.contents_value P.tag.GPS_SCHEDULED_ACQUISITION_NO_FIX_TIMEOUT ≠ 0 then
      syshal_timer_set .timer_gps_no_fix .one_shot
        (s.contents_value P.tag.GPS_SCHEDULED_ACQUISITION_NO_FIX_TIMEOUT)

/-- The C function `timer_gps_no_fix_callback`. -/
def timer_gps_no_fix_callback : M Unit := do
  let P ← getParams
  let s ← getState
  -- If we are and we are either in scheduled mode or hybrid + underwater
  if gps_scheduled_or_hybrid_underwater P s then
    syshal_timer_cancel .timer_gps_maximum_acquisition
    -- We have been unable to achieve a GPS fix
    -- So shutdown the GPS
    if s.sm_gps_state ≠ .SM_GPS_STATE_ASLEEP then
      set_sm_gps_state .SM_GPS_STATE_ASLEEP
      syshal_gps_shutdown

/-- The C function `timer_gps_maximum_acquisition_callback`. -/
def timer_gps_maximum_acquisition_callback : M Unit := do
  syshal_timer_cancel .timer_gps_no_fix
  let s ← getState
  -- We have been GPS logging for our maximum allowed time
  -- So shutdown the GPS
  if s.sm_gps_state ≠ .SM_GPS_STATE_ASLEEP then
    set_sm_gps_state .SM_GPS_STATE_ASLEEP
    syshal_gps_shutdown

/-- The C function `timer_log_flush_callback`. -/
def timer_log_flush_callback : M Unit := do
  let s ← getState
  -- Flush and log data to the FLASH
  if s.file_handle.isSome then
    call (Ev.fs_flush s.file_handle)

/-- The C function `timer_pressure_interval_callback`. -/
def timer_pressure_interval_callback : M Unit := do
  let P ← getParams
  let s ← getState
  -- Start the max acquisition timer
  syshal_timer_set .timer_pressure_maximum_acquisition .one_shot
    (s.contents_value P.tag.PRESSURE_MAXIMUM_ACQUISITION_TIME)
  -- Start the sampling timer
  call (.hal .syshal_pressure_wake)

/-- The C function `timer_pressure_maximum_acquisition_callback`. -/
def timer_pressure_maximum_acquisition_callback : M Unit :=
  call (.hal .syshal_pressure_sleep) -- Stop the pressure sensor

/-- The C function `timer_axl_interval_callback`. -/
def timer_axl_interval_callback : M Unit := do
  let P ← getParams
  let s ← getState
  syshal_timer_set .timer_axl_maximum_acquisition .one_shot
    (s.contents_value P.tag.AXL_MAXIMUM_ACQUISITION_TIME)
  call (.hal .syshal_axl_wake)

/-- The C function `timer_axl_maximum_acquisition_callback`. -/
def timer_axl_maximum_acquisition_callback : M Unit :=
  call (.hal .syshal_axl_sleep)

/-- The callback registered for each timer by the `syshal_timer_init` calls of
`sm_main_boot`; `timer_pressure_sampling` is never initialised there. -/
def timer_callback : timer_handle_t → M Unit
  | .timer_gps_interval => timer_gps_interval_callback
  | .timer_gps_no_fix => timer_gps_no_fix_callback
  | .timer_gps_maximum_acquisition => timer_gps_maximum_acquisition_callback
  | .timer_log_flush => timer_log_flush_callback
  | .timer_switch_hysteresis => timer_switch_hysteresis_callback
  | .timer_pressure_interval => timer_pressure_interval_callback
  | .timer_pressure_sampling => pure ()
  | .timer_pressure_maximum_acquisition => timer_pressure_maximum_acquisition_callback
  | .timer_axl_interval => timer_axl_interval_callback
  | .timer_axl_maximum_acquisition => timer_axl_maximum_acquisition_callback

/-- Delivery of a list of events to a callback, one after the other. -/
def deliver {α : Type} (callback : α → M Unit) : List α → M Unit
  | [] => pure ()
  | event :: events => do
    callback event
    deliver callback events

/-- The call `syshal_timer_tick()`: the callbacks of the expired timers run. -/
def syshal_timer_tick : M Unit := do
  let expired ← ask (.hal .syshal_timer_tick) (fun env => env.syshal_timer_tick)
  deliver timer_callback expired

/-- The call `syshal_gps_tick()`: the parsed GPS events reach `syshal_gps_callback`. -/
def syshal_gps_tick : M Unit := do
  let events ← ask (.hal .syshal_gps_tick) (fun env => env.syshal_gps_tick)
  deliver syshal_gps_callback events

/-- The call `syshal_pressure_tick()`: the samples reach `syshal_pressure_callback`. -/
def syshal_pressure_tick : M Unit := do
  let samples ← ask (.hal .syshal_pressure_tick) (fun env => env.syshal_pressure_tick)
  deliver syshal_pressure_callback samples

/-- The call `syshal_axl_tick()`: the samples reach `syshal_axl_callback`. -/
def syshal_axl_tick : M Unit := do
  let samples ← ask (.hal .syshal_axl_tick) (fun env => env.syshal_axl_tick)
  deliver syshal_axl_callback samples

/-! ## State machine library (absent `sm.h`, modelled from spec section 4.4)

The state functions `sm_main_*(sm_handle_t * state_handle)` are the only code that is
passed the handle; what they call (the message engine, the ticks, the callbacks) has no
access to it. -/

/-- Outcome of running a state function: as `Res`, with the content of `*state_handle`. -/
inductive HRes (α : Type) where
  | ok (a : α) (h : sm_handle_t) (s : State)
  | throw (e : CEXCEPTION_T) (h : sm_handle_t) (s : State)
  | stuck (w : stuck_t) (h : sm_handle_t) (s : State)

/-- The globals with which a state function ended. -/
def HRes.state {α : Type} : HRes α → State
  | .ok _ _ s => s
  | .throw _ _ s => s
  | .stuck _ _ s => s

/-- The handle with which a state function ended. -/
def HRes.handle {α : Type} : HRes α → sm_handle_t
  | .ok _ h _ => h
  | .throw _ h _ => h
  | .stuck _ h _ => h

/-- True when the state function returned normally. -/
def HRes.returned {α : Type} : HRes α → Bool
  | .ok _ _ _ => true
  | _ => false

/-- True when the state function did not return. -/
def HRes.is_stuck {α : Type} : HRes α → Bool
  | .stuck _ _ _ => true
  | _ => false

/-- Computations of the state functions, which are passed `state_handle`. -/
def SM (α : Type) : Type := Ctx → sm_handle_t → State → HRes α

/-- Sequencing: a throw or a stuck execution skips the rest. -/
def SM.bind {α β : Type} (m : SM α) (f : α → SM β) : SM β := fun c h s =>
  match m c h s with
  | .ok a h1 s1 => f a c h1 s1
  | .throw e h1 s1 => .throw e h1 s1
  | .stuck w h1 s1 => .stuck w h1 s1

/-- Return without effect. -/
def SM.pure {α : Type} (a : α) : SM α := fun _ h s => .ok a h s

instance : Monad SM where
  pure := SM.pure
  bind := SM.bind

/-- A call of code that is not passed the handle: the handle is left as it is. -/
def SM.lift {α : Type} (m : M α) : SM α := fun c h s =>
  match m c s with
  | .ok a s1 => .ok a h s1
  | .throw e s1 => .throw e h s1
  | .stuck w s1 => .stuck w h s1

instance : MonadLift M SM where
  monadLift := SM.lift

/-- Read `*state_handle`. -/
def getHandle : SM sm_handle_t := fun _ h s => .ok h h s

/-- Modelled from the spec: `sm_set_next_state`, the state the machine runs at the next
tick; the last call of an iteration wins. -/
def sm_set_next_state (st : sm_main_state_t) : SM Unit := fun _ h s =>
  .ok () { h with next_state := st } s

/-- Modelled from the spec: `sm_is_first_entry`, true on the first iteration in a state. -/
def sm_is_first_entry (h : sm_handle_t) : Bool := h.first_time_running

/-- Modelled from the spec: `sm_is_last_entry`, true when the iteration has selected a
next state different from the current one. -/
def sm_is_last_entry (h : sm_handle_t) : Bool := h.current_state != h.next_state

/-- Modelled from the spec: the handle with which the library calls the state function of
`st` after having run that of `last`: the next state is the current one until the state
function selects another. -/
def sm_handle_t.enter (last st : sm_main_state_t) (first_time_running : Bool) : sm_handle_t :=
  ⟨last, st, st, first_time_running⟩

/-! ## Startup -/

/-- The C function `setup_buffers`. -/
def setup_buffers : M Unit := do
  -- Send buffer
  modifyState fun s => { s with config_if_send_buffer := ⟨2, []⟩ }
  -- Receive buffer
  modifyState fun s => { s with config_if_receive_buffer := ⟨1, []⟩ }
  -- Logging buffer
  modifyState fun s => { s with logging_buffer := ⟨LOGGING_FIFO_DEPTH, []⟩ }

/-- The C function `set_default_global_values`. -/
def set_default_global_values : M Unit :=
  modifyState fun s => { s with
    message_state := .SM_MESSAGE_STATE_IDLE
    config_if_tx_pending := false
    config_if_rx_queued := false
    syshal_gps_bridging := false
    syshal_ble_bridging := false
    config_if_message_timeout := 0
    config_if_connected := false
    tracker_above_water := true
    log_file_created := false
    gps_ttff_reading_logged := false
    last_battery_reading := 0
    sensor_logging_enabled := false
    ble_state := 0
    file_handle := none }

/-- A number of consecutive calls of the same function of the hardware layer. -/
def calls (c : hal_call_t) : Nat → M Unit
  | 0 => pure ()
  | n + 1 => do
    call (.hal c)
    calls c n

/-- The test `level <= sys_config.sys_config_battery_low_threshold.contents.threshold`
guarded by `hdr.set`, used by every state that watches the battery. -/
def battery_level_low (P : Params) (s : State) (level : Int) : Bool :=
  s.hdr_set P.tag.BATTERY_LOW_THRESHOLD &&
    decide (level ≤ (s.contents_value P.tag.BATTERY_LOW_THRESHOLD : Int))

/-! ## State execution code -/

/-- The C function `sm_main_boot` up to the comment "Branch to Battery Charging state if
VUSB is present": the initialisation, which does not use `state_handle`. -/
def sm_main_boot_init : M Unit := do
  let P ← getParams
  set_default_global_values -- Set all our global static variables to their default values
  call (.hal .syshal_time_init)
  setup_buffers
  -- Initialize all configured peripherals
  call (.hal .syshal_rtc_init)
  calls .syshal_gpio_init 4
  call (.hal .syshal_gpio_set_output_high_SPI1_CS_BT)
  call (.hal .syshal_gpio_init)
  call (.hal .syshal_gpio_enable_interrupt_REED_SW)
  calls .syshal_uart_init 2
  -- Init timers
  calls .syshal_timer_init 9
  calls .syshal_spi_init 2
  calls .syshal_i2c_init 2
  call (.hal .syshal_flash_init)
  -- Re/Set global vars
  modifyState fun s => { s with syshal_gps_bridging := false }
  modifyState fun s => { s with syshal_ble_bridging := false }
  -- Load the file system
  call (.hal .fs_init)
  call (.hal .fs_mount)
  -- Determine if a log file exists or not
  let ret ← fs_open FS_FILE_ID_LOG .FS_MODE_READONLY
  if ret = .FS_NO_ERROR then
    modifyState fun s => { s with log_file_created := true }
    fs_close
  else
    modifyState fun s => { s with log_file_created := false }
  let ret ← fs_get_configuration_data
  if !(P.fs_code .FS_NO_ERROR = ret ∨ P.fs_code .FS_ERROR_FILE_NOT_FOUND = ret ∨
      P.fs_code .FS_ERROR_FILE_VERSION_MISMATCH = ret) then
    Throw .EXCEPTION_FS_ERROR
  -- Delete any firmware images we may have
  let _ ← fs_delete FS_FILE_ID_STM32_IMAGE
  let _ ← fs_delete FS_FILE_ID_BLE_IMAGE
  -- Init the peripheral devices after configuration data has been collected
  call (.hal .syshal_gps_init)
  set_sm_gps_state .SM_GPS_STATE_ACQUIRING
  call (.hal .syshal_switch_init)
  let switch ← ask Ev.syshal_switch_get (fun env => env.syshal_switch_get)
  modifyState fun s => { s with tracker_above_water := !switch }

/-- The C function `sm_main_boot`. -/
def sm_main_boot : SM Unit := do
  sm_main_boot_init
  -- Branch to Battery Charging state if VUSB is present
  let vusb ← ask Ev.syshal_gpio_get_input_VUSB (fun env => env.syshal_gpio_get_input_VUSB)
  if vusb then
    sm_set_next_state .SM_MAIN_BATTERY_CHARGING
    return
  -- Branch to Operational state if log file exists and configuration tags are set
  let tags_set ← check_configuration_tags_set
  let s ← getState
  if tags_set && s.log_file_created then
    sm_set_next_state .SM_MAIN_OPERATIONAL
    return
  -- Branch to Provisioning Needed state
  sm_set_next_state .SM_MAIN_PROVISIONING_NEEDED

/-- The blink loop of the entry code of `sm_main_operational`. -/
def operational_blink_loop : Nat → M Unit
  | 0 => pure ()
  | n + 1 => do
    call (.hal .syshal_time_delay_ms)
    call (.hal .syshal_gpio_set_output_toggle_LED1_GREEN)
    operational_blink_loop n

/-- "Wake the GPS if it is asleep", then mark the TTFF unread and the GPS acquiring. -/
def operational_gps_wake : M Unit := do
  let s ← getState
  -- Wake the GPS if it is asleep
  if s.sm_gps_state = .SM_GPS_STATE_ASLEEP then
    syshal_gps_wake_up
  modifyState fun s => { s with gps_ttff_reading_logged := false }
  set_sm_gps_state .SM_GPS_STATE_ACQUIRING

/-- "Sleep the GPS if it is awake", then mark the GPS asleep. -/
def operational_gps_sleep : M Unit := do
  let s ← getState
  if s.sm_gps_state ≠ .SM_GPS_STATE_ASLEEP then
    syshal_gps_shutdown
  set_sm_gps_state .SM_GPS_STATE_ASLEEP

/-- The block `if (sm_is_first_entry(state_handle))` of `sm_main_operational`. -/
def sm_main_operational_entry : M Unit := do
  let P ← getParams
  let ret ← fs_open FS_FILE_ID_LOG .FS_MODE_WRITEONLY -- Open the log file
  if ret ≠ .FS_NO_ERROR then
    -- Fatal error
    modifyState fun s => { s with file_handle := none }
    Throw .EXCEPTION_FS_ERROR
  -- Flush any data that we previously may have in the buffers and start fresh
  modifyState fun s => { s with logging_buffer := buffer_reset s.logging_buffer }
  -- Clear any current timers
  call (.hal .syshal_timer_cancel_all)
  -- Ensure the GPS module is off
  operational_gps_sleep
  -- Start the log file flushing timer
  syshal_timer_set .timer_log_flush .periodic LOG_FILE_FLUSH_PERIOD_SECONDS
  modifyState fun s => { s with gps_ttff_reading_logged := false }
  modifyState fun s => { s with last_battery_reading := 255 }
  -- Flash the green LED for 5 seconds to indicate this state
  call (.hal .syshal_gpio_set_output_low_LED2_RED)
  call (.hal .syshal_gpio_set_output_low_LED1_GREEN)
  operational_blink_loop 50
  call (.hal .syshal_gpio_set_output_low_LED1_GREEN)
  let s ← getState
  let mode := s.contents_value P.tag.GPS_TRIGGER_MODE
  let interval := s.contents_value P.tag.GPS_SCHEDULED_ACQUISITION_INTERVAL
  let maximum := s.contents_value P.tag.GPS_MAXIMUM_ACQUISITION_TIME
  if s.enable P.tag.GPS_LOG_POSITION_ENABLE || s.enable P.tag.GPS_LOG_TTFF_ENABLE then
    -- Clear the GPS buffer
    let fuel ← getFuel
    syshal_gps_flush_loop fuel
    -- GPS switch activated trigger mode
    if P.SYS_CONFIG_GPS_TRIGGER_MODE_SWITCH_TRIGGERED = mode then
      if s.tracker_above_water then
        operational_gps_wake
        -- Do we have a maximum acquisition time to adhere to?
        if maximum ≠ 0 then
          syshal_timer_set .timer_gps_maximum_acquisition .one_shot maximum
      else
        operational_gps_sleep
    -- GPS scheduled trigger mode
    if P.SYS_CONFIG_GPS_TRIGGER_MODE_SCHEDULED = mode then
      if interval ≠ 0 then
        -- Sleep the GPS if it is awake
        operational_gps_sleep
        syshal_timer_set .timer_gps_interval .periodic interval
      else
        operational_gps_wake
    -- GPS hybrid trigger mode
    if P.SYS_CONFIG_GPS_TRIGGER_MODE_HYBRID = mode then
      if interval ≠ 0 then
        -- If we're above the surface than turn on the GPS
        if s.tracker_above_water then
          operational_gps_wake
          -- Do we have a maximum acquisition time to adhere to?
          if maximum ≠ 0 then
            syshal_timer_set .timer_gps_maximum_acquisition .one_shot maximum
        else
          operational_gps_sleep
        -- Start our interval timer
        syshal_timer_set .timer_gps_interval .periodic interval
      else
        operational_gps_wake
  else
    operational_gps_sleep
  -- Should we be logging pressure data?
  if s.enable P.tag.PRESSURE_SENSOR_LOG_ENABLE then
    call (.hal .syshal_pressure_init)
    if P.SYS_CONFIG_PRESSURE_MODE_PERIODIC = s.contents_value P.tag.PRESSURE_MODE then
      if s.contents_value P.tag.PRESSURE_SCHEDULED_ACQUISITION_INTERVAL ≠ 0 then
        syshal_timer_set .timer_pressure_interval .periodic
          (s.contents_value P.tag.PRESSURE_SCHEDULED_ACQUISITION_INTERVAL)
      else
        call (Ev.syshal_timer_set_ms .timer_pressure_sampling .periodic)
  -- Should we be logging axl data?
  if s.enable P.tag.AXL_LOG_ENABLE then
    call (.hal .syshal_axl_init)
    if P.SYS_CONFIG_AXL_MODE_PERIODIC = s.contents_value P.tag.AXL_MODE then
      if s.contents_value P.tag.AXL_SCHEDULED_ACQUISITION_INTERVAL ≠ 0 then
        syshal_timer_set .timer_axl_interval .periodic
          (s.contents_value P.tag.AXL_SCHEDULED_ACQUISITION_INTERVAL)
      else
        call (.hal .syshal_axl_wake)

/-- The loop `while (length)` of `sm_main_operational` that writes the logging buffer to
the log file; `fuel` bounds the number of iterations. -/
def sm_main_operational_drain_loop : Nat → SM Unit
  | 0 => Stuck .out_of_fuel
  | fuel + 1 => do
    let s ← getState
    let (length, read_buffer) := buffer_read_rx s.logging_buffer
    if length = 0 then
      pure ()
    else
      let (ret, _) ← fs_write read_buffer
      match ret with
      | .FS_NO_ERROR =>
        modifyState fun s => { s with
          logging_buffer := buffer_read_advance s.logging_buffer length }
      | .FS_ERROR_FILESYSTEM_FULL =>
        -- Branch to Log File Full state if log file is full
        sm_set_next_state .SM_MAIN_LOG_FILE_FULL
      | _ => Throw .EXCEPTION_FS_ERROR
      sm_main_operational_drain_loop fuel

/-- The C function `sm_main_operational` up to the comment "Branch to Battery Charging if
VUSB is present": the entry block, the sensor ticks, the choice of the sleep level, the
writing of the logging buffer to the log file and the timer tick. -/
def sm_main_operational_run : SM Unit := do
  let P ← getParams
  let state_handle ← getHandle
  if sm_is_first_entry state_handle then
    sm_main_operational_entry
  let s ← getState
  -- If GPS bridging is disabled and GPS logging enabled
  if !s.syshal_gps_bridging &&
      (s.enable P.tag.GPS_LOG_POSITION_ENABLE || s.enable P.tag.GPS_LOG_TTFF_ENABLE) then
    syshal_gps_tick -- Process GPS messages
  let s ← getState
  if s.enable P.tag.PRESSURE_SENSOR_LOG_ENABLE then
    syshal_pressure_tick
  let s ← getState
  if s.enable P.tag.AXL_LOG_ENABLE then
    syshal_axl_tick
  -- Determine how deep a sleep we should take
  let pressure_awake ← ask Ev.syshal_pressure_awake (fun env => env.syshal_pressure_awake)
  if !pressure_awake then
    let s ← getState
    if s.sm_gps_state = .SM_GPS_STATE_ASLEEP ∧
        s.contents_value P.tag.AXL_SCHEDULED_ACQUISITION_INTERVAL ≠ 0 then
      let axl_awake ← ask Ev.syshal_axl_awake (fun env => env.syshal_axl_awake)
      if !axl_awake then
        call (.hal .syshal_pmu_set_level_POWER_STOP)
      else
        call (.hal .syshal_pmu_set_level_POWER_SLEEP)
    else
      call (.hal .syshal_pmu_set_level_POWER_SLEEP)
  -- Is global logging enabled?
  let s ← getState
  if s.enable P.tag.LOGGING_ENABLE then
    modifyState fun s => { s with sensor_logging_enabled := true }
    -- Is there any data waiting to be written to the log file?
    let fuel ← getFuel
    sm_main_operational_drain_loop fuel
  syshal_timer_tick

/-- The block `if (sm_is_last_entry(state_handle))` of `sm_main_operational`. -/
def sm_main_operational_exit : M Unit := do
  let s ← getState
  -- Close any open files
  if s.file_handle.isSome then
    fs_close
    modifyState fun s => { s with file_handle := none }
  call (.hal .syshal_axl_term)
  call (.hal .syshal_pressure_term)
  -- Sleep the GPS to save power
  if s.sm_gps_state ≠ .SM_GPS_STATE_ASLEEP then
    set_sm_gps_state .SM_GPS_STATE_ASLEEP
    syshal_gps_shutdown
  -- Prevent any sensors from logging
  modifyState fun s => { s with sensor_logging_enabled := false }

/-- The C function `sm_main_operational`. -/
def sm_main_operational : SM Unit := do
  let P ← getParams
  sm_main_operational_run
  -- Branch to Battery Charging if VUSB is present
  let vusb ← ask Ev.syshal_gpio_get_input_VUSB (fun env => env.syshal_gpio_get_input_VUSB)
  if vusb then
    sm_set_next_state .SM_MAIN_BATTERY_CHARGING
  -- Get the battery level state
  let level ← ask Ev.syshal_batt_level (fun env => env.syshal_batt_level)
  if level ≥ 0 then -- If we've read the battery level successfully
    let s ← getState
    -- Has our battery level decreased
    if (s.last_battery_reading : Int) > level then
      -- Should we log this?
      if s.hdr_set P.tag.BATTERY_LOG_ENABLE && s.enable P.tag.BATTERY_LOG_ENABLE then
        -- Log the battery level
        logging_add_to_buffer (.LOGGING_BATTERY level)
      -- Should we check to see if we should enter a low power state?
      if battery_level_low P s level then
        sm_set_next_state .SM_MAIN_BATTERY_LEVEL_LOW
      modifyState fun s => { s with last_battery_reading := level.toNat % 256 }
  manage_ble
  config_if_tick
  -- Branch to Provisioning state if config_if has connected
  let s ← getState
  if s.config_if_connected then
    sm_set_next_state .SM_MAIN_PROVISIONING
  -- Are we about to leave this state?
  let state_handle ← getHandle
  if sm_is_last_entry state_handle then
    sm_main_operational_exit

/-- The C function `sm_main_log_file_full`. -/
def sm_main_log_file_full : SM Unit := do
  let P ← getParams
  manage_ble
  config_if_tick
  -- Branch to Provisioning state if config_if has connected
  let s ← getState
  if s.config_if_connected then
    sm_set_next_state .SM_MAIN_PROVISIONING
  -- Branch to Battery Charging if VUSB is present
  let vusb ← ask Ev.syshal_gpio_get_input_VUSB (fun env => env.syshal_gpio_get_input_VUSB)
  if vusb then
    sm_set_next_state .SM_MAIN_BATTERY_CHARGING
  -- Branch to Battery Low state if battery is beneath threshold
  let level ← ask Ev.syshal_batt_level (fun env => env.syshal_batt_level)
  if level ≥ 0 then
    let s ← getState
    if battery_level_low P s level then
      sm_set_next_state .SM_MAIN_BATTERY_LEVEL_LOW

/-- The C function `sm_main_battery_charging`. -/
def sm_main_battery_charging : SM Unit := do
  let P ← getParams
  let state_handle ← getHandle
  if sm_is_first_entry state_handle then
    -- If we've just entered the charging state try to enumerate for
    -- USB_ENUMERATION_TIMEOUT seconds
    let current ← ask Ev.config_if_current (fun env => env.config_if_current)
    if current ≠ .CONFIG_IF_BACKEND_USB then
      call (.hal .config_if_term)
      call (Ev.config_if_init .CONFIG_IF_BACKEND_USB)
      let now ← ask Ev.syshal_time_get_ticks_ms (fun env => env.syshal_time_get_ticks_ms)
      modifyState fun s => { s with usb_enumeration_timeout := u32 now }
  manage_ble
  config_if_tick
  syshal_timer_tick
  -- Branch to Provisioning state if config_if has connected
  let s ← getState
  if s.config_if_connected then
    sm_set_next_state .SM_MAIN_PROVISIONING
  -- Has our USB enumeration attempt timed out?
  let now ← ask Ev.syshal_time_get_ticks_ms (fun env => env.syshal_time_get_ticks_ms)
  if u32_sub (u32 now) s.usb_enumeration_timeout ≥ USB_ENUMERATION_TIMEOUT_MS then
    let current ← ask Ev.config_if_current (fun env => env.config_if_current)
    if current = .CONFIG_IF_BACKEND_USB then
      call (.hal .config_if_term)
  let vusb ← ask Ev.syshal_gpio_get_input_VUSB (fun env => env.syshal_gpio_get_input_VUSB)
  if !vusb then
    -- Our charging voltage has been removed
    -- Branch to Operational state if log file exists and configuration tags are set
    let tags_set ← check_configuration_tags_set
    let s ← getState
    if tags_set && s.log_file_created then
      sm_set_next_state .SM_MAIN_OPERATIONAL
    else
      -- Branch to Provisioning Needed state if configuration tags are not set OR log file
      -- doesn't exist
      sm_set_next_state .SM_MAIN_PROVISIONING_NEEDED
    -- Branch to Battery Low state if battery is beneath threshold
    let level ← ask Ev.syshal_batt_level (fun env => env.syshal_batt_level)
    if level ≥ 0 then
      -- If we've read the battery level successfully
      let s ← getState
      if battery_level_low P s level then
        sm_set_next_state .SM_MAIN_BATTERY_LEVEL_LOW
    -- Terminate any attempt to connect over VUSB
    let current ← ask Ev.config_if_current (fun env => env.config_if_current)
    if current = .CONFIG_IF_BACKEND_USB then
      call (.hal .config_if_term)

/-- The C function `sm_main_battery_level_low`. -/
def sm_main_battery_level_low : SM Unit := do
  let s ← getState
  let state_handle ← getHandle
  if sm_is_first_entry state_handle then
    call (.hal .config_if_term)
    -- Sleep the GPS to save power
    if s.sm_gps_state ≠ .SM_GPS_STATE_ASLEEP then
      set_sm_gps_state .SM_GPS_STATE_ASLEEP
      syshal_gps_shutdown
  -- Branch to Battery Charging if VUSB is present
  let vusb ← ask Ev.syshal_gpio_get_input_VUSB (fun env => env.syshal_gpio_get_input_VUSB)
  if vusb then
    sm_set_next_state .SM_MAIN_BATTERY_CHARGING

/-- The C function `sm_main_provisioning_needed`. -/
def sm_main_provisioning_needed : SM Unit := do
  let P ← getParams
  let s ← getState
  let state_handle ← getHandle
  if sm_is_first_entry state_handle then
    -- Sleep the GPS to save power
    if s.sm_gps_state ≠ .SM_GPS_STATE_ASLEEP then
      set_sm_gps_state .SM_GPS_STATE_ASLEEP
      syshal_gps_shutdown
  -- Blink an LED to indicate this state
  let now ← ask Ev.syshal_time_get_ticks_ms (fun env => env.syshal_time_get_ticks_ms)
  let s ← getState
  if u32 now ≥ u32 (300 + s.blinkTimer) then
    call (.hal .syshal_gpio_set_output_high_LED2_RED)
    call (.hal .syshal_time_delay_ms)
    call (.hal .syshal_gpio_set_output_low_LED2_RED)
    let now ← ask Ev.syshal_time_get_ticks_ms (fun env => env.syshal_time_get_ticks_ms)
    modifyState fun s => { s with blinkTimer := u32 now }
  manage_ble
  config_if_tick
  syshal_timer_tick
  -- Branch to Battery Charging if VUSB is present
  let vusb ← ask Ev.syshal_gpio_get_input_VUSB (fun env => env.syshal_gpio_get_input_VUSB)
  if vusb then
    sm_set_next_state .SM_MAIN_BATTERY_CHARGING
  -- Branch to Provisioning state if config_if has connected
  let s ← getState
  if s.config_if_connected then
    sm_set_next_state .SM_MAIN_PROVISIONING
  -- Branch to Battery Low state if battery is beneath threshold
  let level ← ask Ev.syshal_batt_level (fun env => env.syshal_batt_level)
  if level ≥ 0 then
    -- If we've read the battery level successfully
    let s ← getState
    if battery_level_low P s level then
      sm_set_next_state .SM_MAIN_BATTERY_LEVEL_LOW

/-- The C function `sm_main_provisioning` up to the test of `config_if_connected`: the
entry block, the LEDs, `manage_ble` and `config_if_tick`; the result is the local
`ready_for_operational_state`. -/
def sm_main_provisioning_poll : SM Bool := do
  let s ← getState
  let state_handle ← getHandle
  if sm_is_first_entry state_handle then
    -- Wake the GPS so the configuration interface can communicate with it
    if s.sm_gps_state = .SM_GPS_STATE_ASLEEP then
      syshal_gps_wake_up
      set_sm_gps_state .SM_GPS_STATE_ACQUIRING
  let tags_set ← check_configuration_tags_set
  let s ← getState
  let ready_for_operational_state := tags_set && s.log_file_created
  -- Show if device is ready for operation by using GREEN LED for yes and RED LED for no
  if ready_for_operational_state then
    call (.hal .syshal_gpio_set_output_low_LED2_RED)
    call (.hal .syshal_gpio_set_output_high_LED1_GREEN)
  else
    call (.hal .syshal_gpio_set_output_high_LED2_RED)
    call (.hal .syshal_gpio_set_output_low_LED1_GREEN)
  manage_ble
  config_if_tick
  pure ready_for_operational_state

/-- The block `if (sm_is_last_entry(state_handle))` of `sm_main_provisioning`. -/
def sm_main_provisioning_exit : M Unit := do
  message_set_state .SM_MESSAGE_STATE_IDLE -- Return the message handler to the idle state
  config_if_session_cleanup -- Clear any pending messages
  -- Close any open files
  let s ← getState
  if s.file_handle.isSome then
    fs_close
    modifyState fun s => { s with file_handle := none }
  -- Close the configuration interface
  call (.hal .config_if_term)

/-- The C function `sm_main_provisioning`. -/
def sm_main_provisioning : SM Unit := do
  let P ← getParams
  let ready_for_operational_state ← sm_main_provisioning_poll
  let s ← getState
  if s.config_if_connected then
    handle_config_if_messages
  else
    -- Our configuration interface has been disconnected
    if ready_for_operational_state then
      -- Branch to Operational state if log file exists AND configuration tags are set
      sm_set_next_state .SM_MAIN_OPERATIONAL
    else
      -- Branch to Provisioning Needed state if configuration tags are not set OR log file
      -- doesn't exist
      sm_set_next_state .SM_MAIN_PROVISIONING_NEEDED
    -- Branch to Battery Charging if VUSB is present
    let vusb ← ask Ev.syshal_gpio_get_input_VUSB (fun env => env.syshal_gpio_get_input_VUSB)
    if vusb then
      sm_set_next_state .SM_MAIN_BATTERY_CHARGING
  -- Branch to Battery Low state if battery is beneath threshold
  let level ← ask Ev.syshal_batt_level (fun env => env.syshal_batt_level)
  if level ≥ 0 then
    -- If we've read the battery level successfully
    let s ← getState
    if battery_level_low P s level then
      sm_set_next_state .SM_MAIN_BATTERY_LEVEL_LOW
  -- Are we about to leave this state?
  let state_handle ← getHandle
  if sm_is_last_entry state_handle then
    sm_main_provisioning_exit

/-- The table `sm_main_states[]`. -/
def sm_main_states : sm_main_state_t → SM Unit
  | .SM_MAIN_BOOT => sm_main_boot
  | .SM_MAIN_BATTERY_CHARGING => sm_main_battery_charging
  | .SM_MAIN_BATTERY_LEVEL_LOW => sm_main_battery_level_low
  | .SM_MAIN_LOG_FILE_FULL => sm_main_log_file_full
  | .SM_MAIN_PROVISIONING_NEEDED => sm_main_provisioning_needed
  | .SM_MAIN_PROVISIONING => sm_main_provisioning
  | .SM_MAIN_OPERATIONAL => sm_main_operational

/-! ## A concrete instance of the absent headers and of the environment

Used to evaluate the embedding on concrete inputs. The sizes follow the packed
little-endian layout of spec section 6.2; the tag ids are consecutive numbers. -/

/-- A little-endian field of `width` bytes at offset `off` of a received packet. -/
def le_field (off width : Nat) (req : List Nat) : Nat := le_value ((req.drop off).take width)

/-- Tag ids of the demo schema: 1, 2, 3, ... in the order of the structure. -/
def demo_tag_ids : sys_config_tag_ids where
  LOGGING_ENABLE := 1
  LOGGING_FILE_SIZE := 2
  LOGGING_FILE_TYPE := 3
  LOGGING_GROUP_SENSOR_READINGS_ENABLE := 4
  LOGGING_START_END_SYNC_ENABLE := 5
  LOGGING_DATE_TIME_STAMP_ENABLE := 6
  LOGGING_HIGH_RESOLUTION_TIMER_ENABLE := 7
  GPS_LOG_POSITION_ENABLE := 8
  GPS_LOG_TTFF_ENABLE := 9
  GPS_TRIGGER_MODE := 10
  GPS_SCHEDULED_ACQUISITION_INTERVAL := 11
  GPS_MAXIMUM_ACQUISITION_TIME := 12
  GPS_SCHEDULED_ACQUISITION_NO_FIX_TIMEOUT := 13
  GPS_LAST_KNOWN_POSITION := 14
  GPS_UART_BAUD_RATE := 15
  SALTWATER_SWITCH_LOG_ENABLE := 16
  SALTWATER_SWITCH_HYSTERESIS_PERIOD := 17
  AXL_LOG_ENABLE := 18
  AXL_CONFIG := 19
  AXL_G_FORCE_HIGH_THRESHOLD := 20
  AXL_SAMPLE_RATE := 21
  AXL_MODE := 22
  AXL_SCHEDULED_ACQUISITION_INTERVAL := 23
  AXL_MAXIMUM_ACQUISITION_TIME := 24
  PRESSURE_SENSOR_LOG_ENABLE := 25
  PRESSURE_SAMPLE_RATE := 26
  PRESSURE_LOW_THRESHOLD := 27
  PRESSURE_HIGH_THRESHOLD := 28
  PRESSURE_MODE := 29
  PRESSURE_SCHEDULED_ACQUISITION_INTERVAL := 30
  PRESSURE_MAXIMUM_ACQUISITION_TIME := 31
  TEMP_SENSOR_LOG_ENABLE := 32
  TEMP_SENSOR_SAMPLE_RATE := 33
  TEMP_SENSOR_LOW_THRESHOLD := 34
  TEMP_SENSOR_HIGH_THRESHOLD := 35
  TEMP_SENSOR_MODE := 36
  RTC_SYNC_TO_GPS_ENABLE := 37
  BATTERY_LOG_ENABLE := 38
  BATTERY_LOW_THRESHOLD := 39
  BLUETOOTH_DEVICE_ADDRESS := 40
  BLUETOOTH_ADVERTISING_INTERVAL := 41
  BLUETOOTH_CONNECTION_INTERVAL := 42
  BLUETOOTH_PHY_MODE := 43
  BLUETOOTH_TRIGGER_CONTROL := 44

/-- The tags of the demo schema whose contents are four bytes long (a `uint32_t`). -/
def demo_tags_u32 : List Nat :=
  [demo_tag_ids.LOGGING_FILE_SIZE, demo_tag_ids.GPS_SCHEDULED_ACQUISITION_INTERVAL,
   demo_tag_ids.GPS_MAXIMUM_ACQUISITION_TIME, demo_tag_ids.GPS_SCHEDULED_ACQUISITION_NO_FIX_TIMEOUT,
   demo_tag_ids.GPS_UART_BAUD_RATE]

/-- Command id byte of the demo layout. -/
def demo_hdr_cmd (req : List Nat) : Option cmd_id_t :=
  match req.getD 4 255 with
  | 0 => some .CMD_CFG_READ_REQ
  | 1 => some .CMD_CFG_WRITE_REQ
  | 2 => some .CMD_CFG_SAVE_REQ
  | 3 => some .CMD_CFG_RESTORE_REQ
  | 4 => some .CMD_CFG_ERASE_REQ
  | 5 => some .CMD_CFG_PROTECT_REQ
  | 6 => some .CMD_CFG_UNPROTECT_REQ
  | 7 => some .CMD_GPS_WRITE_REQ
  | 8 => some .CMD_GPS_READ_REQ
  | 9 => some .CMD_GPS_CONFIG_REQ
  | 10 => some .CMD_BLE_CONFIG_REQ
  | 11 => some .CMD_BLE_WRITE_REQ
  | 12 => some .CMD_BLE_READ_REQ
  | 13 => some .CMD_STATUS_REQ
  | 14 => some .CMD_FW_SEND_IMAGE_REQ
  | 15 => some .CMD_FW_APPLY_IMAGE_REQ
  | 16 => some .CMD_RESET_REQ
  | 17 => some .CMD_BATTERY_STATUS_REQ
  | 18 => some .CMD_LOG_CREATE_REQ
  | 19 => some .CMD_LOG_ERASE_REQ
  | 20 => some .CMD_LOG_READ_REQ
  | _ => none

/-- Demo numeric values of the file-system return codes. -/
def demo_fs_code : fs_error_t → Int
  | .FS_NO_ERROR => 0
  | .FS_ERROR_FLASH_MEDIA => -1
  | .FS_ERROR_FILE_ALREADY_EXISTS => -2
  | .FS_ERROR_FILE_NOT_FOUND => -3
  | .FS_ERROR_FILE_PROTECTED => -4
  | .FS_ERROR_NO_FREE_HANDLE => -5
  | .FS_ERROR_FILESYSTEM_FULL => -7
  | .FS_ERROR_END_OF_FILE => -8
  | .FS_ERROR_BAD_DEVICE => -9
  | .FS_ERROR_FILE_VERSION_MISMATCH => -11
  | .FS_ERROR_OTHER => -6

/-- Demo encoding of the log records: a one-byte header and zeroed payload bytes. -/
def demo_log_record_bytes : log_record → List Nat
  | .LOGGING_DATE_TIME _ _ _ _ _ _ => 1 :: List.replicate 7 0
  | .LOGGING_AXL_XYZ _ _ _ => 2 :: List.replicate 6 0
  | .LOGGING_PRESSURE _ => 3 :: List.replicate 4 0
  | .LOGGING_GPS_TTFF _ => 4 :: List.replicate 4 0
  | .LOGGING_GPS_POSITION _ _ _ _ _ _ => 5 :: List.replicate 24 0
  | .LOGGING_SURFACED => [6]
  | .LOGGING_SUBMERGED => [7]
  | .LOGGING_BATTERY _ => [8, 0]

/-- The demo instance of the absent headers. -/
def demo_params : Params where
  SYSHAL_USB_PACKET_SIZE := 512
  SYS_CONFIG_TAG_MAX_SIZE := 26
  SYS_CONFIG_FORMAT_VERSION := 1
  STM32_FIRMWARE_VERSION := 1
  tag := demo_tag_ids
  SYS_CONFIG_GPS_TRIGGER_MODE_SWITCH_TRIGGERED := 0
  SYS_CONFIG_GPS_TRIGGER_MODE_SCHEDULED := 1
  SYS_CONFIG_GPS_TRIGGER_MODE_HYBRID := 2
  SYS_CONFIG_PRESSURE_MODE_PERIODIC := 0
  SYS_CONFIG_AXL_MODE_PERIODIC := 0
  SYS_CONFIG_AXL_MODE_TRIGGER_ABOVE := 3
  SYS_CONFIG_TAG_BLUETOOTH_TRIGGER_CONTROL_REED_SWITCH := 1
  sys_config_tags := List.range' 1 44
  sys_config_tag_size := fun tag =>
    if tag = demo_tag_ids.GPS_LAST_KNOWN_POSITION then 24
    else if tag ∈ demo_tags_u32 then 4 else 1
  crc32 := fun crc data => (crc + data.sum) % U32_MOD
  hdr_cmd := demo_hdr_cmd
  sizeof_cmd_cfg_read_req_t := 2
  sizeof_cmd_cfg_write_req_t := 4
  sizeof_cmd_cfg_erase_req_t := 2
  sizeof_cmd_gps_write_req_t := 4
  sizeof_cmd_gps_read_req_t := 4
  sizeof_cmd_gps_config_req_t := 1
  sizeof_cmd_ble_config_req_t := 1
  sizeof_cmd_ble_write_req_t := 3
  sizeof_cmd_ble_read_req_t := 3
  sizeof_cmd_fw_send_image_req_t := 9
  sizeof_cmd_fw_apply_image_req_t := 1
  sizeof_cmd_reset_req_t := 1
  sizeof_cmd_log_create_req_t := 2
  sizeof_cmd_log_read_req_t := 8
  sizeof_cmd_generic_resp_t := 1
  sizeof_cmd_cfg_read_resp_t := 5
  sizeof_cmd_cfg_write_cnf_t := 1
  sizeof_cmd_gps_read_resp_t := 5
  sizeof_cmd_status_resp_t := 12
  sizeof_cmd_fw_send_image_complete_cnf_t := 1
  sizeof_cmd_battery_status_resp_t := 3
  sizeof_cmd_log_read_resp_t := 5
  cmd_cfg_read_req_configuration_tag := le_field 5 2
  cmd_cfg_write_req_length := le_field 5 4
  cmd_cfg_erase_req_configuration_tag := le_field 5 2
  cmd_gps_write_req_length := le_field 5 4
  cmd_gps_read_req_length := le_field 5 4
  cmd_gps_config_req_enable := fun req => le_field 5 1 req != 0
  cmd_ble_config_req_enable := fun req => le_field 5 1 req != 0
  cmd_ble_write_req_address := le_field 5 1
  cmd_ble_write_req_length := le_field 6 2
  cmd_ble_read_req_address := le_field 5 1
  cmd_ble_read_req_length := le_field 6 2
  cmd_fw_send_image_req_image_type := le_field 5 1
  cmd_fw_send_image_req_length := le_field 6 4
  cmd_fw_send_image_req_CRC32 := le_field 10 4
  cmd_fw_apply_image_req_image_type := le_field 5 1
  cmd_reset_req_reset_type := le_field 5 1
  cmd_log_create_req_mode := le_field 5 1
  cmd_log_create_req_sync_enable := le_field 6 1
  cmd_log_read_req_start_offset := le_field 5 4
  cmd_log_read_req_length := le_field 9 4
  CFG_READ_REQ_READ_ALL := 65535
  CFG_ERASE_REQ_ERASE_ALL := 65535
  RESET_REQ_STM32 := 0
  RESET_REQ_FLASH_ERASE_ALL := 1
  CMD_LOG_CREATE_REQ_MODE_FILL := 0
  CMD_LOG_CREATE_REQ_MODE_CIRCULAR := 1
  log_record_bytes := demo_log_record_bytes
  fs_code := demo_fs_code
  sizeof_sys_config := 1
  sys_config_image := fun _ => [1]
  sys_config_load := fun store _ => store

/-- A quiet environment: every call succeeds, nothing is connected, no event arrives, the
clock stands at 0, VUSB is absent and the battery is full. -/
def demo_env : Env where
  syshal_time_get_ticks_ms := fun _ => 0
  config_if_receive := fun _ => true
  config_if_current := fun _ => .CONFIG_IF_BACKEND_NOT_SET
  config_if_tick := fun _ => []
  fs_open := fun _ _ _ => (.FS_NO_ERROR, 1)
  fs_read := fun _ _ size => (.FS_NO_ERROR, List.replicate size 0)
  fs_write := fun _ _ data => (.FS_NO_ERROR, data.length)
  fs_delete := fun _ _ => .FS_NO_ERROR
  fs_stat := fun _ _ => (.FS_NO_ERROR, 0)
  fs_protect := fun _ _ => .FS_NO_ERROR
  fs_unprotect := fun _ _ => .FS_NO_ERROR
  syshal_gps_send_raw := fun _ _ => 0
  syshal_gps_receive_raw := fun _ _ => []
  syshal_gps_available_raw := fun _ => 0
  syshal_spi_transfer := fun _ _ size => (false, List.replicate size 0)
  syshal_ble_get_version := fun _ => 1
  syshal_gpio_get_input_VUSB := fun _ => false
  syshal_gpio_get_input_REED_SW := fun _ => true
  syshal_batt_level := fun _ => 100
  syshal_switch_get := fun _ => false
  syshal_pressure_awake := fun _ => false
  syshal_axl_awake := fun _ => false
  syshal_rtc_get_date_and_time := fun _ => ⟨2018, 1, 1, 0, 0, 0⟩
  syshal_gps_tick := fun _ => []
  syshal_timer_tick := fun _ => []
  syshal_pressure_tick := fun _ => []
  syshal_axl_tick := fun _ => []

/-- The demo context. -/
def demo_ctx : Ctx := ⟨demo_params, demo_env, 1000⟩

/-- The state after `set_default_global_values` and `setup_buffers` with an empty
configuration store. -/
def initial_state : State where
  message_state := .SM_MESSAGE_STATE_IDLE
  sm_context :=
    { cfg_write := ⟨0, .CMD_NO_ERROR, List.replicate 26 0, 0⟩
      cfg_read := ⟨[], 0, 0, 0⟩
      ble_write := ⟨0, 0⟩
      ble_read := ⟨0, 0⟩
      gps_write_length := 0
      gps_read_length := 0
      log_read := ⟨0, 0⟩
      fw_send_image := ⟨0, 0, 0, 0⟩ }
  sm_gps_state := .SM_GPS_STATE_ASLEEP
  config_if_tx_pending := false
  config_if_rx_queued := false
  syshal_gps_bridging := false
  syshal_ble_bridging := false
  config_if_send_buffer := ⟨2, []⟩
  config_if_receive_buffer := ⟨1, []⟩
  logging_buffer := ⟨8, []⟩
  config_if_message_timeout := 0
  config_if_connected := false
  tracker_above_water := true
  log_file_created := false
  gps_ttff_reading_logged := false
  last_battery_reading := 0
  sensor_logging_enabled := false
  ble_state := 0
  file_handle := none
  usb_enumeration_timeout := 0
  blinkTimer := 0
  sys_config := fun _ => ⟨false, []⟩
  trace := []

/-! ## Drivers: the transport seen from the host -/

/-- The sync word and command byte of a request in the demo layout. -/
def demo_hdr (cmd : Nat) : List Nat := [126, 126, 126, 126, cmd]

/-- One exchange with the engine: the transport reports the completion of the pending
send, delivers the packet `pkt` sent by the host, and the main loop runs
`handle_config_if_messages` once. -/
def host_send (pkt : List Nat) : M Unit := do
  let P ← getParams
  let s ← getState
  if s.config_if_tx_pending then
    config_if_callback
      (.CONFIG_IF_EVENT_SEND_COMPLETE (buffer_read_tx P s.config_if_send_buffer).1)
  config_if_callback (.CONFIG_IF_EVENT_RECEIVE_COMPLETE pkt)
  handle_config_if_messages

/-- A sequence of exchanges. -/
def host_send_all : List (List Nat) → M Unit
  | [] => pure ()
  | pkt :: pkts => do
    host_send pkt
    host_send_all pkts

/-- The `sys_config_set(tag, value)` calls of a trace, in order. -/
def sys_config_set_calls : List Ev → List (Nat × List Nat)
  | [] => []
  | .sys_config_set tag value :: tr => (tag, value) :: sys_config_set_calls tr
  | _ :: tr => sys_config_set_calls tr

/-- The packets handed to `config_if_send`, in order. -/
def sent_packets : List Ev → List tx_packet
  | [] => []
  | .config_if_send pkt _ :: tr => pkt :: sent_packets tr
  | _ :: tr => sent_packets tr

/-! ## Concrete inputs -/

/-- A CfgWrite request announcing 12 bytes (demo layout). -/
def cfg_write_demo_request : List Nat := demo_hdr 1 ++ [12, 0, 0, 0]

/-- Two well-formed pairs for the four-byte tag 15 (GPS UART baud rate in the demo schema):
`15 || 1 2 3 4` and `15 || 5 6 7 8`, twelve bytes in all. -/
def cfg_write_demo_stream : List Nat := [15, 0, 1, 2, 3, 4, 15, 0, 5, 6, 7, 8]

/-- The engine after the request and the whole stream as a single packet. -/
def cfg_write_demo_whole : Res Unit :=
  host_send_all [cfg_write_demo_request, cfg_write_demo_stream] demo_ctx
    initial_state

/-- The engine after the request and the same stream cut inside the first value:
`15 0 1 2` then `3 4 15 0 5 6 7 8`. -/
def cfg_write_demo_split : Res Unit :=
  host_send_all [cfg_write_demo_request, cfg_write_demo_stream.take 4,
    cfg_write_demo_stream.drop 4] demo_ctx initial_state

/-- An environment in which the log file is full: every `fs_write` returns
`FS_ERROR_FILESYSTEM_FULL`. -/
def log_full_env : Env :=
  { demo_env with fs_write := fun _ _ _ => (.FS_ERROR_FILESYSTEM_FULL, 0) }

/-- The context of the full log file. -/
def log_full_ctx : Ctx := ⟨demo_params, log_full_env, 1000⟩

/-- Operational, not the first iteration, logging enabled, the log file open and one
battery record waiting in the logging buffer. -/
def log_full_state : State :=
  { initial_state with
    file_handle := some 1
    log_file_created := true
    sensor_logging_enabled := true
    logging_buffer := ⟨LOGGING_FIFO_DEPTH, [[8, 50]]⟩
    sys_config := fun t =>
      if t = demo_tag_ids.LOGGING_ENABLE then ⟨true, [1]⟩ else ⟨false, []⟩ }

/-! ## Request sizes -/

/-- The size each request handler compares the received length with, in its first
statement (`if (CMD_SIZE(cmd_..._req_t) != size)` or `if (size != CMD_SIZE_HDR)`). -/
def request_size (P : Params) : cmd_id_t → Nat
  | .CMD_CFG_READ_REQ => CMD_SIZE P.sizeof_cmd_cfg_read_req_t
  | .CMD_CFG_WRITE_REQ => CMD_SIZE P.sizeof_cmd_cfg_write_req_t
  | .CMD_CFG_SAVE_REQ => CMD_SIZE_HDR
  | .CMD_CFG_RESTORE_REQ => CMD_SIZE_HDR
  | .CMD_CFG_ERASE_REQ => CMD_SIZE P.sizeof_cmd_cfg_erase_req_t
  | .CMD_CFG_PROTECT_REQ => CMD_SIZE_HDR
  | .CMD_CFG_UNPROTECT_REQ => CMD_SIZE_HDR
  | .CMD_GPS_WRITE_REQ => CMD_SIZE P.sizeof_cmd_gps_write_req_t
  | .CMD_GPS_READ_REQ => CMD_SIZE P.sizeof_cmd_gps_read_req_t
  | .CMD_GPS_CONFIG_REQ => CMD_SIZE P.sizeof_cmd_gps_config_req_t
  | .CMD_BLE_CONFIG_REQ => CMD_SIZE P.sizeof_cmd_ble_config_req_t
  | .CMD_BLE_WRITE_REQ => CMD_SIZE P.sizeof_cmd_ble_write_req_t
  | .CMD_BLE_READ_REQ => CMD_SIZE P.sizeof_cmd_ble_read_req_t
  | .CMD_STATUS_REQ => CMD_SIZE_HDR
  | .CMD_FW_SEND_IMAGE_REQ => CMD_SIZE P.sizeof_cmd_fw_send_image_req_t
  | .CMD_FW_APPLY_IMAGE_REQ => CMD_SIZE P.sizeof_cmd_fw_apply_image_req_t
  | .CMD_RESET_REQ => CMD_SIZE P.sizeof_cmd_reset_req_t
  | .CMD_BATTERY_STATUS_REQ => CMD_SIZE_HDR
  | .CMD_LOG_CREATE_REQ => CMD_SIZE P.sizeof_cmd_log_create_req_t
  | .CMD_LOG_ERASE_REQ => CMD_SIZE_HDR
  | .CMD_LOG_READ_REQ => CMD_SIZE P.sizeof_cmd_log_read_req_t

/-- The globals after the oldest received packet has been marked as read and nothing
else has been done. -/
def State.rx_advanced (s : State) : State :=
  { s with config_if_receive_buffer :=
      { s.config_if_receive_buffer with queue := s.config_if_receive_buffer.queue.tail } }

/-- A Status request that is one byte too long, waiting in the receive buffer. -/
def wrong_size_state : State :=
  let s := initial_state
  { s with config_if_receive_buffer :=
      { s.config_if_receive_buffer with queue := [demo_hdr 13 ++ [0]] } }

/-- The engine after a CfgWrite request announcing 2 bytes has been answered, when the
transport has completed the send of the response and delivered a data packet of 3 bytes. -/
def cfg_write_oversize_state : State :=
  ((do
      host_send (demo_hdr 1 ++ [2, 0, 0, 0])
      config_if_callback (.CONFIG_IF_EVENT_SEND_COMPLETE (CMD_SIZE 1))
      config_if_callback (.CONFIG_IF_EVENT_RECEIVE_COMPLETE [15, 0, 1]) : M Unit)
    demo_ctx initial_state).state

/-- A clock that stands at 2001 ms. -/
def late_env : Env := { demo_env with syshal_time_get_ticks_ms := fun _ => 2001 }

/-- The context of the late clock. -/
def late_ctx : Ctx := ⟨demo_params, late_env, 1000⟩

/-- The engine in the middle of a firmware image transfer started at tick 0: sub-state
FwSendImageNext, the image file open, a response waiting in the send buffer. -/
def stalled_transfer_state : State :=
  { initial_state with
    message_state := .SM_MESSAGE_STATE_FW_SEND_IMAGE_NEXT
    file_handle := some 1
    config_if_send_buffer := ⟨2, [.cmd_generic_resp .CMD_NO_ERROR]⟩
    config_if_tx_pending := true }

/-- A FwSendImage request (demo layout) for the STM32 image: 5 bytes, CRC 15 (the demo
`crc32` adds the bytes). -/
def fw_send_image_demo_request : List Nat := demo_hdr 14 ++ [1, 5, 0, 0, 0, 15, 0, 0, 0]

/-- The engine after the request and the data packet `1 2`, when the transport has
delivered `last` as the next data packet. -/
def fw_send_image_last_packet_state (last : List Nat) : State :=
  ((do
      host_send_all [fw_send_image_demo_request, [1, 2]]
      config_if_callback (.CONFIG_IF_EVENT_RECEIVE_COMPLETE last) : M Unit)
    demo_ctx initial_state).state

/-! ## What a fragment leaves unchanged -/

/-- A fragment of the engine that, when it returns, has left the connection flag and the
configuration store as they were. -/
def KeepsM {α : Type} (m : M α) : Prop :=
  ∀ c s a s1, m c s = .ok a s1 →
    s1.config_if_connected = s.config_if_connected ∧ s1.sys_config = s.sys_config

/-- A fragment of a state function that, when it returns, has left the handle, the
connection flag and the configuration store as they were. -/
def Keeps {α : Type} (m : SM α) : Prop :=
  ∀ c h s a h1 s1, m c h s = .ok a h1 s1 →
    h1 = h ∧ s1.config_if_connected = s.config_if_connected ∧ s1.sys_config = s.sys_config

/-- A fragment of a state function that, when it returns, has left the handle as it
was. -/
def KeepsHandle {α : Type} (m : SM α) : Prop :=
  ∀ c h s a h1 s1, m c h s = .ok a h1 s1 → h1 = h

/-- The quiet environment with VUSB asserted and the battery at `level` percent. -/
def power_env (vusb : Bool) (level : Int) : Env :=
  { demo_env with
    syshal_gpio_get_input_VUSB := fun _ => vusb
    syshal_batt_level := fun _ => level }

/-- The context of `power_env`. -/
def power_ctx (vusb : Bool) (level : Int) : Ctx := ⟨demo_params, power_env vusb level, 1000⟩

/-- The initial globals with the low-battery threshold set to 50 percent, the transport
connected or not, and the last battery reading `last_reading`. -/
def threshold_state (connected : Bool) (last_reading : Nat) : State :=
  { initial_state with
    config_if_connected := connected
    last_battery_reading := last_reading
    sys_config := fun t =>
      if t = demo_tag_ids.BATTERY_LOW_THRESHOLD then ⟨true, [50]⟩ else ⟨false, []⟩ }

/-! ## CfgRead(all): the transfer seen from the host -/

/-- True when `sys_config_get` returns a positive size for `tag`. -/
def tag_is_readable (P : Params) (store : Nat → sys_config_entry) (tag : Nat) : Bool :=
  decide (0 < (sys_config_get P store tag).1)

/-- Spec side: the bytes `tag (u16 little-endian) || value` of one tag, the value being
the one `sys_config_get` returns. -/
def tag_value_bytes (P : Params) (store : Nat → sys_config_entry) (tag : Nat) : List Nat :=
  [tag % 256, tag / 256 % 256] ++ (sys_config_get P store tag).2

/-- Spec side: the pairs `tag || value` of every tag of `tags` for which `sys_config_get`
returns a positive size, each once, in the order of `tags`. -/
def tag_value_stream (P : Params) (store : Nat → sys_config_entry) (tags : List Nat) :
    List Nat :=
  ((tags.filter (tag_is_readable P store)).map (tag_value_bytes P store)).flatten

/-- Spec side: the number of bytes `size + sizeof(uint16_t)` of the readable tags of
`tags`. -/
def tag_value_length (P : Params) (store : Nat → sys_config_entry) : List Nat → Nat
  | [] => 0
  | tag :: tags =>
    (if tag_is_readable P store tag then P.sys_config_tag_size tag + 2 else 0) +
      tag_value_length P store tags

/-- The transport and the main loop while a CfgRead transfer is in progress: the pending
send completes, then `cfg_read_next_state` runs, until the engine has left the sub-state
CfgReadNext; `fuel` bounds the number of packets. -/
def cfg_read_transfer : Nat → M Unit
  | 0 => Stuck .out_of_fuel
  | fuel + 1 => do
    let s ← getState
    if s.message_state = .SM_MESSAGE_STATE_CFG_READ_NEXT then
      let P ← getParams
      config_if_callback
        (.CONFIG_IF_EVENT_SEND_COMPLETE (buffer_read_tx P s.config_if_send_buffer).1)
      cfg_read_next_state
      cfg_read_transfer fuel
    else
      pure ()

/-- A CfgRead request handled by `cfg_read_req`, followed by the transfer; one packet per
tag at most, so one more packet than there are tags is enough fuel. -/
def cfg_read_all (req : List Nat) : M Unit := do
  let P ← getParams
  cfg_read_req req req.length
  cfg_read_transfer (P.sys_config_tags.length + 1)

/-- The store invariant: the contents of a set tag of the schema have the size of the
tag. -/
def store_sizes_ok (P : Params) (store : Nat → sys_config_entry) : Prop :=
  ∀ tag, tag ∈ P.sys_config_tags → (store tag).set = true →
    (store tag).contents.length = P.sys_config_tag_size tag

/-- What the filling of a data packet (`cfg_read_populate_buffer`) leaves as it was in the
globals `s`, the result being `s1`: the engine sub-state, the send buffer, the remaining
length, the packets sent, the set flags, and every tag but the refreshed log file size. -/
structure fill_frame (P : Params) (s s1 : State) : Prop where
  message_state : s1.message_state = s.message_state
  send_buffer : s1.config_if_send_buffer = s.config_if_send_buffer
  tx_pending : s1.config_if_tx_pending = s.config_if_tx_pending
  length : s1.sm_context.cfg_read.length = s.sm_context.cfg_read.length
  sent : sent_packets s1.trace = sent_packets s.trace
  set_flags : ∀ t, (s1.sys_config t).set = (s.sys_config t).set
  others : ∀ t, t ≠ P.tag.LOGGING_FILE_SIZE → s1.sys_config t = s.sys_config t

/-- Assumptions on the absent headers under which the CfgRead transfer is studied: the
tags of the schema are distinct `uint16_t` values and fewer than 65535, a USB packet has
at most 65535 bytes and holds any single tag with its id, and the log file size tag is a
`uint32_t`. -/
structure schema_ok (P : Params) : Prop where
  nodup : P.sys_config_tags.Nodup
  tag_u16 : ∀ tag, tag ∈ P.sys_config_tags → tag < 65536
  count : P.sys_config_tags.length < 65535
  packet : P.SYSHAL_USB_PACKET_SIZE ≤ 65535
  fits : ∀ tag, tag ∈ P.sys_config_tags →
    P.sys_config_tag_size tag + 2 ≤ P.SYSHAL_USB_PACKET_SIZE
  log_file_size : P.sys_config_tag_size P.tag.LOGGING_FILE_SIZE = 4

/-- The situation between two iterations of a CfgRead(all) transfer that announced `L`
bytes, `store0` and `sent0` being the store and the packets sent when the request came
in: the engine is in CfgReadNext, a packet is being sent and the next data packet `pend`
waits behind it; the data sent so far and `pend` are the pairs of the tags before
`last_index`, and `length` counts `pend` and the pairs of the tags from `last_index`
on. -/
structure transfer_inv (P : Params) (store0 : Nat → sys_config_entry) (sent0 : List tx_packet)
    (L : Nat) (s : State) : Prop where
  message_state : s.message_state = .SM_MESSAGE_STATE_CFG_READ_NEXT
  tx_pending : s.config_if_tx_pending = true
  slots : 2 ≤ s.config_if_send_buffer.slots
  index : s.sm_context.cfg_read.last_index ≤ P.sys_config_tags.length
  queue : ∃ (head : tx_packet) (chunks : List (List Nat)) (pend : List Nat),
    s.config_if_send_buffer.queue = [head, .data pend] ∧ head.size P ≠ 0 ∧ pend ≠ [] ∧
    pend.length = s.sm_context.cfg_read.buffer_offset ∧
    sent_packets s.trace =
      sent0 ++ .cmd_cfg_read_resp .CMD_NO_ERROR L :: chunks.map tx_packet.data ∧
    chunks.flatten ++ pend =
      tag_value_stream P s.sys_config (P.sys_config_tags.take s.sm_context.cfg_read.last_index)
  length : s.sm_context.cfg_read.length =
    s.sm_context.cfg_read.buffer_offset +
      tag_value_length P s.sys_config (P.sys_config_tags.drop s.sm_context.cfg_read.last_index)
  bound : s.sm_context.cfg_read.length < U32_MOD
  sizes : store_sizes_ok P s.sys_config
  set_flags : ∀ t, (s.sys_config t).set = (store0 t).set
  others : ∀ t, t ≠ P.tag.LOGGING_FILE_SIZE → s.sys_config t = store0 t

/-- The end of a CfgRead(all) transfer that announced `L` bytes: the engine is back in
Idle, and after the packets `sent0` the transport was handed the response and data
packets whose bytes are the pairs of every readable tag of the schema, in order. -/
structure transfer_done (P : Params) (store0 : Nat → sys_config_entry) (sent0 : List tx_packet)
    (L : Nat) (s : State) : Prop where
  message_state : s.message_state = .SM_MESSAGE_STATE_IDLE
  sent : ∃ chunks : List (List Nat),
    sent_packets s.trace =
      sent0 ++ .cmd_cfg_read_resp .CMD_NO_ERROR L :: chunks.map tx_packet.data ∧
    chunks.flatten = tag_value_stream P s.sys_config P.sys_config_tags
  sizes : store_sizes_ok P s.sys_config
  set_flags : ∀ t, (s.sys_config t).set = (store0 t).set
  others : ∀ t, t ≠ P.tag.LOGGING_FILE_SIZE → s.sys_config t = store0 t

/-- Spec side: a host parser of a byte stream as pairs `tag (u16 little-endian) || value`,
the size of a value being the size of its tag in the schema; `none` when the stream is
not such a sequence. One unit of `fuel` per pair. -/
def parse_tag_values_loop (P : Params) : Nat → List Nat → Option (List (Nat × List Nat))
  | 0, _ => none
  | _ + 1, [] => some []
  | _ + 1, [_] => none
  | fuel + 1, b0 :: b1 :: rest =>
    let tag := b0 + 256 * b1
    if tag ∉ P.sys_config_tags ∨ rest.length < P.sys_config_tag_size tag then none
    else
      (parse_tag_values_loop P fuel (rest.drop (P.sys_config_tag_size tag))).map
        (fun pairs => (tag, rest.take (P.sys_config_tag_size tag)) :: pairs)

/-- Spec side: the pairs `(tag, value)` that a byte stream holds. -/
def parse_tag_values (P : Params) (bytes : List Nat) : Option (List (Nat × List Nat)) :=
  parse_tag_values_loop P (bytes.length + 1) bytes

/-- Spec side: what CfgRead(all) has to list, every tag of the schema for which
`sys_config_get` returns a positive size, once, in the order of the schema, with the
value `sys_config_get` returns. -/
def readable_tag_values (P : Params) (store : Nat → sys_config_entry) :
    List (Nat × List Nat) :=
  (P.sys_config_tags.filter (tag_is_readable P store)).map
    (fun tag => (tag, (sys_config_get P store tag).2))

/-- The request CfgRead(all) in the demo layout: the tag field holds
`CFG_READ_REQ_READ_ALL`. -/
def cfg_read_all_demo_request : List Nat := demo_hdr 0 ++ [255, 255]

/-- An idle engine whose store holds the logging enable flag, the GPS acquisition
interval and the GPS UART baud rate. -/
def cfg_read_demo_state : State :=
  { initial_state with
    sys_config := fun tag =>
      if tag = demo_tag_ids.LOGGING_ENABLE then ⟨true, [1]⟩
      else if tag = demo_tag_ids.GPS_SCHEDULED_ACQUISITION_INTERVAL then ⟨true, [60, 0, 0, 0]⟩
      else if tag = demo_tag_ids.GPS_UART_BAUD_RATE then ⟨true, [0, 194, 1, 0]⟩
      else ⟨false, []⟩ }

/-! ## Boot and the required-tags predicate: pure readings -/

/-- The state after `default_enable_false tag`. -/
def State.default_enable_false (P : Params) (s : State) (tag : Nat) : State :=
  if SYS_CONFIG_ERROR_TAG_NOT_SET = (sys_config_get P s.sys_config tag).1 then
    s.set_contents tag (List.replicate (P.sys_config_tag_size tag) 0)
  else s

/-- The tags that `check_configuration_tags_set` defaults to false when they are not set,
in the order of the C code. -/
def default_enable_false_tags (P : Params) : List Nat :=
  [P.tag.LOGGING_ENABLE, P.tag.LOGGING_GROUP_SENSOR_READINGS_ENABLE,
   P.tag.LOGGING_START_END_SYNC_ENABLE, P.tag.LOGGING_DATE_TIME_STAMP_ENABLE,
   P.tag.LOGGING_HIGH_RESOLUTION_TIMER_ENABLE, P.tag.GPS_LOG_POSITION_ENABLE,
   P.tag.GPS_LOG_TTFF_ENABLE, P.tag.SALTWATER_SWITCH_LOG_ENABLE,
   P.tag.TEMP_SENSOR_LOG_ENABLE, P.tag.PRESSURE_SENSOR_LOG_ENABLE, P.tag.AXL_LOG_ENABLE,
   P.tag.RTC_SYNC_TO_GPS_ENABLE, P.tag.BATTERY_LOG_ENABLE]

/-- The state after the thirteen defaulting statements of `check_configuration_tags_set`. -/
def State.defaulted (P : Params) (s : State) : State :=
  (default_enable_false_tags P).foldl (fun s tag => s.default_enable_false P tag) s

/-- The value `check_configuration_tags_set` returns. -/
def configuration_tags_set (P : Params) (s : State) : Bool :=
  !check_configuration_tags_loop P (s.defaulted P) (P.sys_config_tags.length + 1) 0 false

/-- An empty flash: no file can be opened, VUSB is absent. -/
def empty_flash_env : Env :=
  { demo_env with fs_open := fun _ _ _ => (.FS_ERROR_FILE_NOT_FOUND, 0) }

/-- The context of `empty_flash_env`. -/
def empty_flash_ctx : Ctx := ⟨demo_params, empty_flash_env, 1000⟩

/-- A seeded flash: every file exists and the configuration file starts with the format
version of the firmware. -/
def seeded_flash_env : Env :=
  { demo_env with fs_read := fun _ _ size => (.FS_NO_ERROR, List.replicate size 1) }

/-- The context of `seeded_flash_env`. -/
def seeded_flash_ctx : Ctx := ⟨demo_params, seeded_flash_env, 1000⟩

/-- The initial globals with every tag of the demo schema set to the value 1. -/
def all_tags_set_state : State :=
  { initial_state with
    sys_config := fun t => ⟨true, 1 :: List.replicate (demo_params.sys_config_tag_size t - 1) 0⟩ }

/-! ## Leaving Operational -/

/-- The C function `sm_main_operational` up to the comment "Are we about to leave this
state?": everything but the exit block. -/
def sm_main_operational_body : SM Unit := do
  let P ← getParams
  sm_main_operational_run
  -- Branch to Battery Charging if VUSB is present
  let vusb ← ask Ev.syshal_gpio_get_input_VUSB (fun env => env.syshal_gpio_get_input_VUSB)
  if vusb then
    sm_set_next_state .SM_MAIN_BATTERY_CHARGING
  -- Get the battery level state
  let level ← ask Ev.syshal_batt_level (fun env => env.syshal_batt_level)
  if level ≥ 0 then -- If we've read the battery level successfully
    let s ← getState
    -- Has our battery level decreased
    if (s.last_battery_reading : Int) > level then
      -- Should we log this?
      if s.hdr_set P.tag.BATTERY_LOG_ENABLE && s.enable P.tag.BATTERY_LOG_ENABLE then
        -- Log the battery level
        logging_add_to_buffer (.LOGGING_BATTERY level)
      -- Should we check to see if we should enter a low power state?
      if battery_level_low P s level then
        sm_set_next_state .SM_MAIN_BATTERY_LEVEL_LOW
      modifyState fun s => { s with last_battery_reading := level.toNat % 256 }
  manage_ble
  config_if_tick
  -- Branch to Provisioning state if config_if has connected
  let s ← getState
  if s.config_if_connected then
    sm_set_next_state .SM_MAIN_PROVISIONING

/-- The calls into other modules made by the exit block of `sm_main_operational` entered
with the globals `s`, in order. -/
def operational_exit_calls (s : State) : List Ev :=
  (if s.file_handle.isSome then [Ev.fs_close s.file_handle] else []) ++
    [.hal .syshal_axl_term, .hal .syshal_pressure_term] ++
    (if s.sm_gps_state ≠ .SM_GPS_STATE_ASLEEP then [.hal .syshal_gps_shutdown] else [])

/-- Modelled from the spec: the effect of one call on whether the timer `t` is armed:
`syshal_timer_set` and `syshal_timer_set_ms` arm it, `syshal_timer_cancel` and
`syshal_timer_cancel_all` disarm it (the expiry of a one-shot timer is not modelled). -/
def timer_armed_step (t : timer_handle_t) (armed : Bool) : Ev → Bool
  | .syshal_timer_set t1 _ _ => if t1 = t then true else armed
  | .syshal_timer_set_ms t1 _ => if t1 = t then true else armed
  | .syshal_timer_cancel t1 => if t1 = t then false else armed
  | .hal .syshal_timer_cancel_all => false
  | _ => armed

/-- Modelled from the spec: true when, after the calls `tr`, the timer `t` has been set
and not cancelled since. -/
def timer_armed (t : timer_handle_t) (tr : List Ev) : Bool :=
  tr.foldl (timer_armed_step t) false

/-- The tags whose value or set flag the mask of `check_configuration_tags_set` reads:
the eight `*_enable` flags tested by the loop and the three mode selectors. -/
def mask_selector_tags (P : Params) : List Nat :=
  [P.tag.LOGGING_ENABLE, P.tag.GPS_LOG_POSITION_ENABLE, P.tag.GPS_LOG_TTFF_ENABLE,
   P.tag.SALTWATER_SWITCH_LOG_ENABLE, P.tag.TEMP_SENSOR_LOG_ENABLE,
   P.tag.PRESSURE_SENSOR_LOG_ENABLE, P.tag.AXL_LOG_ENABLE, P.tag.RTC_SYNC_TO_GPS_ENABLE,
   P.tag.GPS_TRIGGER_MODE, P.tag.PRESSURE_MODE, P.tag.AXL_MODE]

/-- The entry of tag `t` after `default_enable_false tag`, as a function of the entry
before. -/
def default_entry (P : Params) (t : Nat) (e : sys_config_entry) (tag : Nat) : sys_config_entry :=
  if t = tag ∧ tag ∈ P.sys_config_tags ∧ e.set = false then
    { e with contents := List.replicate (P.sys_config_tag_size tag) 0 }
  else e

/-- Two configurations that differ only in the set flags of the tags of `L`. -/
def differ_only_in_set_flags (L : List Nat) (s1 s2 : State) : Prop :=
  ∀ t, (s1.sys_config t).contents = (s2.sys_config t).contents ∧
    (t ∉ L → (s1.sys_config t).set = (s2.sys_config t).set)

/-- The value a run has returned, if it has returned. -/
def Res.value? {α : Type} : Res α → Option α
  | .ok a _ => some a
  | _ => none

/-- The globals `s` with the entry of `tag` replaced. -/
def State.with_entry (s : State) (tag : Nat) (e : sys_config_entry) : State :=
  { s with sys_config := fun t => if t = tag then e else s.sys_config t }

/-- The globals `s` with the set flag of every tag of `L` replaced, the contents kept. -/
def State.with_set_flags (s : State) (L : List Nat) (flag : Bool) : State :=
  { s with sys_config := fun t =>
      if t ∈ L then { s.sys_config t with set := flag } else s.sys_config t }

/-- Every tag set to 1, but the GPS trigger mode set to SwitchTriggered (0 in the demo
schema): logging, GPS position logging and saltwater switch logging are enabled. -/
def switch_triggered_state : State :=
  all_tags_set_state.with_entry demo_tag_ids.GPS_TRIGGER_MODE ⟨true, [0]⟩

/-- The configuration `switch_triggered_state` with saltwater switch logging set to
false. -/
def switch_triggered_no_switch_log_state : State :=
  switch_triggered_state.with_entry demo_tag_ids.SALTWATER_SWITCH_LOG_ENABLE ⟨true, [0]⟩

/-- The three GPS tags meant for the scheduled and hybrid modes. -/
def gps_scheduled_tags (P : Params) : List Nat :=
  [P.tag.GPS_SCHEDULED_ACQUISITION_INTERVAL, P.tag.GPS_MAXIMUM_ACQUISITION_TIME,
   P.tag.GPS_SCHEDULED_ACQUISITION_NO_FIX_TIMEOUT]

/-- Every tag set to 1, but `logging.enable` not set (its stale contents are 0). -/
def logging_unset_state : State :=
  all_tags_set_state.with_entry demo_tag_ids.LOGGING_ENABLE ⟨false, [0]⟩

/-- Every tag set to 1, but the pressure mode set to Periodic (0 in the demo schema). -/
def pressure_periodic_state : State :=
  all_tags_set_state.with_entry demo_tag_ids.PRESSURE_MODE ⟨true, [0]⟩

/-! ## A host that reads slowly -/

/-- One iteration without a packet from the host: the transport reports the completion
of the pending send, if any, and the main loop runs `handle_config_if_messages` once. -/
def host_wait : M Unit := do
  let P ← getParams
  let s ← getState
  if s.config_if_tx_pending then
    config_if_callback
      (.CONFIG_IF_EVENT_SEND_COMPLETE (buffer_read_tx P s.config_if_send_buffer).1)
  handle_config_if_messages

/-- The demo schema with USB packets of 32 bytes. -/
def small_packet_params : Params := { demo_params with SYSHAL_USB_PACKET_SIZE := 32 }

/-- A transport that takes 1500 ms for each packet: the clock reads 1500 ms times the
number of packets handed to `config_if_send` so far. -/
def slow_reader_env : Env :=
  { demo_env with syshal_time_get_ticks_ms := fun tr => 1500 * (sent_packets tr).length }

/-- The context of the slow reader with small packets. -/
def slow_reader_ctx : Ctx := ⟨small_packet_params, slow_reader_env, 1000⟩

/-- The engine run by the slow reader: a CfgRead(all) request with every tag set, then
`n` iterations. -/
def slow_cfg_read : Nat → Res Unit
  | 0 => host_send cfg_read_all_demo_request slow_reader_ctx all_tags_set_state
  | n + 1 => host_wait slow_reader_ctx (slow_cfg_read n).state

/-! ## LogRead: the transfer seen from the host -/

/-- Modelled from the spec: the effect of one call on the read position of the file
opened last: `fs_open` puts it at 0 and `fs_read` of `size` bytes moves it by `size`. -/
def file_position_step (pos : Nat) : Ev → Nat
  | .fs_open _ _ => 0
  | .fs_read _ size => pos + size
  | _ => pos

/-- Modelled from the spec: the read position of the file opened last, after the calls
`tr`. -/
def file_position (tr : List Ev) : Nat := tr.foldl file_position_step 0

/-- The assumption on the file system under which LogRead is studied: the log file exists
and holds the bytes `content`, it can be opened for reading, and `fs_read` delivers the
bytes that follow the read position, as many as requested while they last. -/
structure log_file (c : Ctx) (content : List Nat) : Prop where
  stat : ∀ tr, c.env.fs_stat tr FS_FILE_ID_LOG = (.FS_NO_ERROR, content.length)
  opens : ∀ tr, (c.env.fs_open tr FS_FILE_ID_LOG .FS_MODE_READONLY).1 = .FS_NO_ERROR
  read : ∀ tr h size,
    c.env.fs_read tr h size = (.FS_NO_ERROR, (content.drop (file_position tr)).take size)

/-- The transport and the main loop while a LogRead transfer is in progress: the pending
send completes, then `log_read_next_state` runs, until the engine has left the sub-state
LogReadNext; `fuel` bounds the number of packets. -/
def log_read_transfer : Nat → M Unit
  | 0 => Stuck .out_of_fuel
  | fuel + 1 => do
    let s ← getState
    if s.message_state = .SM_MESSAGE_STATE_LOG_READ_NEXT then
      let P ← getParams
      config_if_callback
        (.CONFIG_IF_EVENT_SEND_COMPLETE (buffer_read_tx P s.config_if_send_buffer).1)
      log_read_next_state
      log_read_transfer fuel
    else
      pure ()

/-- A LogRead request handled by `log_read_req`, followed by the transfer. -/
def log_read_all (req : List Nat) (fuel : Nat) : M Unit := do
  log_read_req req req.length
  log_read_transfer fuel

/-- The globals after one iteration of the seek loop of `log_read_req` has read the
bytes `data`. -/
def State.seek_one (s : State) (data : List Nat) : State :=
  { s with
    sm_context := { s.sm_context with log_read := { s.sm_context.log_read with
      start_offset := u32_sub s.sm_context.log_read.start_offset data.length } }
    trace := s.trace ++ [Ev.fs_read s.file_handle 1] }


/-- Modelled from the spec: the effect of one call on whether the file opened last is
still open. -/
def file_open_step (is_open : Bool) : Ev → Bool
  | .fs_open _ _ => true
  | .fs_close _ => false
  | _ => is_open

/-- Modelled from the spec: whether a file is open after the calls `tr`. -/
def file_open (tr : List Ev) : Bool := tr.foldl file_open_step false

/-- What holds between two packets of a LogRead transfer of `n` bytes from offset `o`,
after the data packets `chunks` have been handed to the transport: the engine is in
LogReadNext with the bytes still to send, every packet so far is a full one, they hold
the first bytes of the requested range, the file is open at the next byte, and the last
packet is pending in the send buffer. -/
structure log_read_inv (c : Ctx) (content : List Nat) (sent0 : List tx_packet) (o n : Nat)
    (chunks : List (List Nat)) (s : State) : Prop where
  message_state : s.message_state = .SM_MESSAGE_STATE_LOG_READ_NEXT
  positive : 0 < s.sm_context.log_read.length
  remaining : chunks.length * c.P.SYSHAL_USB_PACKET_SIZE + s.sm_context.log_read.length = n
  full : ∀ x ∈ chunks, x.length = c.P.SYSHAL_USB_PACKET_SIZE
  data : chunks.flatten = (content.drop o).take (chunks.length * c.P.SYSHAL_USB_PACKET_SIZE)
  position : file_position s.trace = o + chunks.length * c.P.SYSHAL_USB_PACKET_SIZE
  queue : ∃ pkt, s.config_if_send_buffer.queue = [pkt] ∧ pkt.size c.P ≠ 0
  slots : 0 < s.config_if_send_buffer.slots
  tx_pending : s.config_if_tx_pending = true
  sent : sent_packets s.trace =
    sent0 ++ .cmd_log_read_resp .CMD_NO_ERROR n :: chunks.map tx_packet.data
  is_open : file_open s.trace = true

/-- A log file of 1500 bytes. -/
def log_demo_content : List Nat := (List.range 1500).map fun i => (i * 7 + 3) % 256

/-- A file system whose log file holds `log_demo_content`: `fs_read` delivers the bytes
that follow the read position. -/
def log_demo_env : Env :=
  { demo_env with
    fs_stat := fun _ _ => (.FS_NO_ERROR, log_demo_content.length)
    fs_read := fun tr _ size =>
      (.FS_NO_ERROR, (log_demo_content.drop (file_position tr)).take size) }

/-- The context of `log_demo_env`. -/
def log_demo_ctx : Ctx := ⟨demo_params, log_demo_env, 1000⟩

/-- A LogRead request for 1500 bytes from offset 0 (demo layout). -/
def log_read_demo_request : List Nat := demo_hdr 20 ++ [0, 0, 0, 0] ++ [220, 5, 0, 0]

/-! ## CfgWrite protocol errors -/

/-- Spec side: the wire form `tag(u16) || value_bytes` of a list of tag/value pairs, the
tag id in little-endian order. -/
def pairs_bytes (pairs : List (Nat × List Nat)) : List Nat :=
  (pairs.map fun p => [p.1 % 256, p.1 / 256 % 256] ++ p.2).flatten

/-- The engine after a CfgWrite request announcing 8 bytes has been answered, when the
transport has completed the send of the response and delivered a data packet holding a
pair for the four-byte tag 15 followed by the tag id 200, which is not in the schema. -/
def cfg_write_invalid_tag_state : State :=
  ((do
      host_send (demo_hdr 1 ++ [8, 0, 0, 0])
      config_if_callback (.CONFIG_IF_EVENT_SEND_COMPLETE (CMD_SIZE 1))
      config_if_callback (.CONFIG_IF_EVENT_RECEIVE_COMPLETE [15, 0, 1, 2, 3, 4, 200, 0]) : M Unit)
    demo_ctx initial_state).state

/-- Two iterations of the main loop over the configuration interface. -/
def handle_config_if_messages_twice : M Unit := do
  handle_config_if_messages
  handle_config_if_messages

/-! ## Bridging disabled -/

/-- A GPS receiver that reports 4 bytes available, and a clock that advances by 1000 ms
each time it is read. -/
def gps_available_env : Env :=
  { demo_env with
    syshal_gps_available_raw := fun _ => 4
    syshal_time_get_ticks_ms := fun tr => 1000 * tr.count Ev.syshal_time_get_ticks_ms }

/-- The context of `gps_available_env`. -/
def gps_available_ctx : Ctx := ⟨demo_params, gps_available_env, 1000⟩

/-- The main loop runs `handle_config_if_messages` `n` times while the transport reports
nothing. -/
def idle_iterations : Nat → M Unit
  | 0 => pure ()
  | n + 1 => do
    handle_config_if_messages
    idle_iterations n

/-- A GpsRead transfer that is abandoned: the host enables the GPS bridge and asks for 4
bytes; the response is never taken off the transport, and at the third iteration of the
main loop the inactivity timeout returns the engine to Idle. -/
def gps_read_abandoned : M Unit := do
  host_send (demo_hdr 9 ++ [1])
  host_send (demo_hdr 8 ++ [4, 0, 0, 0])
  idle_iterations 3

/-- The session of `gps_read_abandoned`, after which the host disables the GPS bridge and
sends GpsRead again. -/
def gps_read_stale_session : M Unit := do
  gps_read_abandoned
  host_send (demo_hdr 9 ++ [0])
  host_send (demo_hdr 8 ++ [4, 0, 0, 0])

/-! ## Configuration restore -/

/-- The assumption on the file system under which CfgRestore is studied when the
configuration file exists: it holds the bytes `content`, it can be opened for reading,
and `fs_read` delivers the bytes that follow the read position, as many as requested
while they last. -/
structure conf_file (c : Ctx) (content : List Nat) : Prop where
  opens : ∀ tr, (c.env.fs_open tr FS_FILE_ID_CONF .FS_MODE_READONLY).1 = .FS_NO_ERROR
  read : ∀ tr h size,
    c.env.fs_read tr h size = (.FS_NO_ERROR, (content.drop (file_position tr)).take size)

/-- A configuration file written with another format version: its first byte is 2 where
the demo firmware has `SYS_CONFIG_FORMAT_VERSION` 1. -/
def stale_conf_content : List Nat := [2, 0, 0]

/-- A file system whose configuration file holds `stale_conf_content`. -/
def stale_conf_env : Env :=
  { demo_env with
    fs_read := fun tr _ size =>
      (.FS_NO_ERROR, (stale_conf_content.drop (file_position tr)).take size) }

/-- The context of `stale_conf_env`. -/
def stale_conf_ctx : Ctx := ⟨demo_params, stale_conf_env, 1000⟩

/-! ## GPS timers and the value 0 -/

/-- Every tag set to 1 (so the GPS trigger mode is Scheduled in the demo schema), but the
GPS maximum acquisition time and the no-fix timeout set to 0. -/
def gps_unbounded_state : State :=
  (all_tags_set_state.with_entry demo_tag_ids.GPS_MAXIMUM_ACQUISITION_TIME
    ⟨true, List.replicate (demo_params.sys_config_tag_size
      demo_tag_ids.GPS_MAXIMUM_ACQUISITION_TIME) 0⟩).with_entry
    demo_tag_ids.GPS_SCHEDULED_ACQUISITION_NO_FIX_TIMEOUT
    ⟨true, List.replicate (demo_params.sys_config_tag_size
      demo_tag_ids.GPS_SCHEDULED_ACQUISITION_NO_FIX_TIMEOUT) 0⟩

/-- The configuration `gps_unbounded_state` in Operational (sensor logging enabled), the
tracker under water, with the GPS trigger mode `mode`. -/
def gps_unbounded_underwater_state (mode : Nat) : State :=
  { gps_unbounded_state.with_entry demo_tag_ids.GPS_TRIGGER_MODE ⟨true, [mode]⟩ with
    sensor_logging_enabled := true
    tracker_above_water := false }

/-- The configuration `gps_unbounded_state` with the tracker above water and the GPS
trigger mode `mode`. -/
def gps_unbounded_surfaced_state (mode : Nat) : State :=
  { gps_unbounded_state.with_entry demo_tag_ids.GPS_TRIGGER_MODE ⟨true, [mode]⟩ with
    tracker_above_water := true }

/-! ## The data packets of CfgRead -/

/-- The globals after `cfg_read_next_state` has reserved the next send slot: the statements
`sm_context.cfg_read.buffer_base = ...` (an empty slot) and
`sm_context.cfg_read.buffer_offset = 0`. -/
def State.fresh_buffer (s : State) : State :=
  { s with sm_context := { s.sm_context with cfg_read :=
      { s.sm_context.cfg_read with buffer_base := [], buffer_offset := 0 } } }

/-! ## CfgErase -/

/-- The tags passed to `sys_config_unset` in a trace, in order. -/
def sys_config_unset_calls : List Ev → List Nat
  | [] => []
  | .sys_config_unset tag :: tr => tag :: sys_config_unset_calls tr
  | _ :: tr => sys_config_unset_calls tr

/-- A CfgErase request for the tag `tag` (demo layout). -/
def cfg_erase_demo_request (tag : Nat) : List Nat := demo_hdr 4 ++ [tag % 256, tag / 256]

/-! ## Status -/

/-- A host environment whose BLE module reports firmware version 7. -/
def ble_version_env : Env := { demo_env with syshal_ble_get_version := fun _ => 7 }

/-- The demo context with `ble_version_env`, firmware version 5 and configuration format
version 3. -/
def ble_version_ctx : Ctx :=
  { demo_ctx with
    env := ble_version_env
    P := { demo_params with STM32_FIRMWARE_VERSION := 5, SYS_CONFIG_FORMAT_VERSION := 3 } }

/-- The initial state with a Status request waiting in the receive buffer. -/
def status_request_state : State :=
  { initial_state with
    config_if_receive_buffer :=
      { initial_state.config_if_receive_buffer with queue := [demo_hdr 13] } }

/-! ## LogRead with a wrapping length -/

/-- A LogRead request for start offset 1 and length 4294967295 (demo layout). -/
def log_read_wrapping_request : List Nat := demo_hdr 20 ++ [1, 0, 0, 0] ++ [255, 255, 255, 255]

/-- A LogRead request for start offset 1 and length 2000 (demo layout). -/
def log_read_long_request : List Nat := demo_hdr 20 ++ [1, 0, 0, 0] ++ [208, 7, 0, 0]

/-! # The state machine of `core/sm/sm.c`

The functions of sm.c, kept apart from those of sm_main.c in the namespace `Sm`: the two
files define request handlers of the same names. -/

namespace Sm

/-- The states `sm_state_t` of `sm.h`, as listed in `sm_state_str`. -/
inductive sm_state_t
  | SM_STATE_BOOT
  | SM_STATE_STANDBY_BATTERY_CHARGING
  | SM_STATE_STANDBY_BATTERY_LEVEL_LOW
  | SM_STATE_STANDBY_LOG_FILE_FULL
  | SM_STATE_STANDBY_PROVISIONING_NEEDED
  | SM_STATE_STANDBY_TRIGGER_PENDING
  | SM_STATE_PROVISIONING
  | SM_STATE_OPERATIONAL
  deriving DecidableEq, Repr

/-- The peripherals named in sm.c. -/
inductive periph_t
  | GPIO_LED3
  | GPIO_LED4
  | GPIO_LED5
  | GPIO_LED6
  | UART_1
  | SPI_1
  | SPI_2
  | I2C_1
  | I2C_2
  deriving DecidableEq, Repr

/-- The responses sm.c builds in `tx_buffer` (header implied by the constructor). -/
inductive resp_t
  | cmd_cfg_read_resp (error_code : cmd_error_t) (length : Int) (bytes : List Nat)
  | cmd_generic_resp (error_code : cmd_error_t)
  | cmd_battery_status_resp (error_code : cmd_error_t) (charging_indicator charge_level : Nat)
  deriving DecidableEq, Repr

/-- Calls of sm.c into the other modules, in program order. -/
inductive Ev
  | syshal_gpio_init (pin : periph_t)
  | syshal_uart_init (port : periph_t)
  | syshal_spi_init (port : periph_t)
  | syshal_i2c_init (port : periph_t)
  | config_if_init_usb
  | syshal_gpio_set_output_high (pin : periph_t)
  | syshal_gpio_set_output_low (pin : periph_t)
  | syshal_time_get_ticks_ms
  | syshal_time_delay_ms (ms : Nat)
  | syshal_batt_charging
  | syshal_batt_state
  | config_if_receive
  | config_if_send (resp : resp_t) (size : Nat)
  | sys_config_get (tag : Nat)
  | sys_config_unset (tag : Nat)
  deriving DecidableEq, Repr

/-- The platform around sm.c: what each queried function answers after the calls made so
far. -/
structure Env where
  syshal_batt_charging : List Ev → Bool
  syshal_batt_state : List Ev → Nat
  syshal_time_get_ticks_ms : List Ev → Nat
  sys_config_get : List Ev → Nat → Int × List Nat
  sys_config_unset : List Ev → Nat → Int

/-- Constants of the absent headers and the platform. -/
structure Ctx where
  P : Params
  env : Env

/-- The file-scope variables of sm.c (with the function-local statics `pastState` and
`blinkTimer`) and the calls made so far. -/
structure State where
  state : sm_state_t
  pastState : sm_state_t
  rx_buffer : List Nat
  config_if_tx_pending : Bool
  config_if_rx_pending : Bool
  config_if_rx_size : Nat
  blinkTimer : Nat
  trace : List Ev

/-- Outcome of running a function of sm.c. -/
inductive Res (α : Type) where
  | ok (a : α) (s : State)
  | throw (e : CEXCEPTION_T) (s : State)
  | stuck (w : stuck_t) (s : State)

/-- The state in which an execution ended. -/
def Res.state {α : Type} : Res α → State
  | .ok _ s => s
  | .throw _ s => s
  | .stuck _ s => s

/-- Whether the execution returned normally. -/
def Res.returned {α : Type} : Res α → Bool
  | .ok _ _ => true
  | _ => false

/-- Computations of sm.c. -/
def M (α : Type) : Type := Ctx → State → Res α

/-- Sequencing: a throw or a stuck execution skips the rest. -/
def M.bind {α β : Type} (m : M α) (f : α → M β) : M β := fun c s =>
  match m c s with
  | .ok a s1 => f a c s1
  | .throw e s1 => .throw e s1
  | .stuck w s1 => .stuck w s1

/-- Return without effect. -/
def M.pure {α : Type} (a : α) : M α := fun _ s => .ok a s

instance : Monad M where
  pure := M.pure
  bind := M.bind

/-- The `Throw(e)` of CException. -/
def Throw {α : Type} (e : CEXCEPTION_T) : M α := fun _ s => .throw e s

/-- Stop without returning. -/
def Stuck {α : Type} (w : stuck_t) : M α := fun _ s => .stuck w s

/-- `Try { m } Catch (e) { h e }`. -/
def TryCatch (m : M Unit) (h : CEXCEPTION_T → M Unit) : M Unit := fun c s =>
  match m c s with
  | .ok a s1 => .ok a s1
  | .throw e s1 => h e c s1
  | .stuck w s1 => .stuck w s1

/-- Read the variables. -/
def getState : M State := fun _ s => .ok s s

/-- Read the constants. -/
def getParams : M Params := fun c s => .ok c.P s

/-- Update the variables. -/
def modifyState (f : State → State) : M Unit := fun _ s => .ok () (f s)

/-- A call whose result is not used. -/
def call (e : Ev) : M Unit := fun _ s => .ok () { s with trace := s.trace ++ [e] }

/-- A call whose result is used. -/
def ask {α : Type} (e : Ev) (f : Env → List Ev → α) : M α := fun c s =>
  .ok (f c.env s.trace) { s with trace := s.trace ++ [e] }

/-! ## Request handlers of sm.c -/

/-- The C function `cfg_read_req` of sm.c. -/
def cfg_read_req (req : List Nat) (size : Nat) : M Unit := do
  let P ← getParams
  if CMD_SIZE P.sizeof_cmd_cfg_read_req_t ≠ size then
    Throw .EXCEPTION_REQ_WRONG_SIZE
  -- If we're already currently responding to another request
  let s ← getState
  if s.config_if_tx_pending then
    Throw .EXCEPTION_RESP_TX_PENDING
  if P.CFG_READ_REQ_READ_ALL = P.cmd_cfg_read_req_configuration_tag req then
    pure () -- READ ALL TAGS NOT IMPLEMENTED
  else
    -- Read just one configuration tag
    let (return_code, bytes) ← ask (.sys_config_get (P.cmd_cfg_read_req_configuration_tag req))
      (fun env tr => env.sys_config_get tr (P.cmd_cfg_read_req_configuration_tag req))
    let resp : resp_t :=
      if SYS_CONFIG_ERROR_INVALID_TAG = return_code then
        .cmd_cfg_read_resp .CMD_ERROR_INVALID_CONFIG_TAG 0 bytes
      else if SYS_CONFIG_ERROR_TAG_NOT_SET = return_code then
        .cmd_cfg_read_resp .CMD_ERROR_CONFIG_TAG_NOT_SET 0 bytes
      else if return_code < 0 then
        .cmd_cfg_read_resp .CMD_ERROR_UNKNOWN 0 bytes
      else
        .cmd_cfg_read_resp .CMD_NO_ERROR return_code bytes
    modifyState fun s => { s with config_if_tx_pending := true }
    call (.config_if_send resp (CMD_SIZE P.sizeof_cmd_cfg_read_resp_t))

/-- The C function `cfg_erase_req` of sm.c. -/
def cfg_erase_req (req : List Nat) (size : Nat) : M Unit := do
  let P ← getParams
  if CMD_SIZE P.sizeof_cmd_cfg_erase_req_t ≠ size then
    Throw .EXCEPTION_REQ_WRONG_SIZE
  let s ← getState
  if s.config_if_tx_pending then
    Throw .EXCEPTION_RESP_TX_PENDING
  if P.CFG_READ_REQ_READ_ALL = P.cmd_cfg_erase_req_configuration_tag req then
    pure () -- READ ALL TAGS NOT IMPLEMENTED
  else
    -- Erase just one configuration tag
    let return_code ← ask (.sys_config_unset (P.cmd_cfg_erase_req_configuration_tag req))
      (fun env tr => env.sys_config_unset tr (P.cmd_cfg_erase_req_configuration_tag req))
    let resp : resp_t :=
      if return_code = SYS_CONFIG_ERROR_INVALID_TAG then
        .cmd_generic_resp .CMD_ERROR_INVALID_CONFIG_TAG
      else if return_code = SYS_CONFIG_NO_ERROR then
        .cmd_generic_resp .CMD_ERROR_INVALID_CONFIG_TAG
      else
        .cmd_generic_resp .CMD_ERROR_UNKNOWN
    modifyState fun s => { s with config_if_tx_pending := true }
    call (.config_if_send resp (CMD_SIZE P.sizeof_cmd_generic_resp_t))

/-- The C function `reset_req` of sm.c: after the response it waits for the send to
complete and resets or blocks; it never returns. -/
def reset_req (_req : List Nat) (size : Nat) : M Unit := do
  let P ← getParams
  if CMD_SIZE P.sizeof_cmd_reset_req_t ≠ size then
    Throw .EXCEPTION_REQ_WRONG_SIZE
  let s ← getState
  if s.config_if_tx_pending then
    Throw .EXCEPTION_RESP_TX_PENDING
  modifyState fun s => { s with config_if_tx_pending := true }
  call (.config_if_send (.cmd_generic_resp .CMD_NO_ERROR) (CMD_SIZE P.sizeof_cmd_generic_resp_t))
  Stuck .mcu_reset

/-- The C function `battery_status_req` of sm.c (it answers with fixed data). -/
def battery_status_req (_req : List Nat) (size : Nat) : M Unit := do
  let P ← getParams
  if size ≠ CMD_SIZE_HDR then
    Throw .EXCEPTION_REQ_WRONG_SIZE
  let s ← getState
  if s.config_if_tx_pending then
    Throw .EXCEPTION_RESP_TX_PENDING
  modifyState fun s => { s with config_if_tx_pending := true }
  call (.config_if_send (.cmd_battery_status_resp .CMD_NO_ERROR 1 100)
    (CMD_SIZE P.sizeof_cmd_battery_status_resp_t))

/-- The C function `handle_config_if_requests`; the handlers that only print a warning
leave no trace. -/
def handle_config_if_requests : M Unit := do
  let P ← getParams
  let s ← getState
  -- Process any pending event outside of an interrupt
  if s.config_if_rx_pending then
    match P.hdr_cmd s.rx_buffer with
    | some .CMD_CFG_READ_REQ => cfg_read_req s.rx_buffer s.config_if_rx_size
    | some .CMD_CFG_ERASE_REQ => cfg_erase_req s.rx_buffer s.config_if_rx_size
    | some .CMD_RESET_REQ => reset_req s.rx_buffer s.config_if_rx_size
    | some .CMD_BATTERY_STATUS_REQ => battery_status_req s.rx_buffer s.config_if_rx_size
    | _ => pure ()
    modifyState fun s => { s with config_if_rx_pending := false }

/-! ## State execution code of sm.c -/

/-- The C function `sm_get_state`. -/
def sm_get_state : M sm_state_t := do
  let s ← getState
  pure s.state

/-- The C function `sm_set_state`. -/
def sm_set_state (st : sm_state_t) : M Unit :=
  modifyState fun s => { s with state := st, pastState := st }

/-- The C function `boot_state`. The tests on `syshal_batt_charging`, `syshal_batt_state`
and the detect inputs are commented out in the source, as is the alternative
`sm_set_state(SM_STATE_OPERATIONAL)`. -/
def boot_state : M Unit := do
  -- Initialize all configured peripherals
  call (.syshal_gpio_init .GPIO_LED3)
  call (.syshal_gpio_init .GPIO_LED4)
  call (.syshal_gpio_init .GPIO_LED5)
  call (.syshal_gpio_init .GPIO_LED6)
  call (.syshal_uart_init .UART_1)
  call (.syshal_spi_init .SPI_1)
  call (.syshal_spi_init .SPI_2)
  call (.syshal_i2c_init .I2C_1)
  call (.syshal_i2c_init .I2C_2)
  call .config_if_init_usb
  call (.syshal_gpio_set_output_high .GPIO_LED3) -- Indicate boot passed
  sm_set_state .SM_STATE_STANDBY_PROVISIONING_NEEDED

/-- The C function `standby_provisioning_needed_state`. -/
def standby_provisioning_needed_state : M Unit := do
  -- Blink an LED to indicate this state
  let now ← ask .syshal_time_get_ticks_ms (fun env tr => env.syshal_time_get_ticks_ms tr)
  let s ← getState
  if u32 now ≥ u32 (1000 + s.blinkTimer) then
    call (.syshal_gpio_set_output_high .GPIO_LED4)
    call (.syshal_time_delay_ms 50)
    call (.syshal_gpio_set_output_low .GPIO_LED4)
    let t ← ask .syshal_time_get_ticks_ms (fun env tr => env.syshal_time_get_ticks_ms tr)
    modifyState fun s => { s with blinkTimer := u32 t }
  -- Queue a receive request
  call .config_if_receive
  handle_config_if_requests

/-- The C function `exception_handler`. -/
def exception_handler (e : CEXCEPTION_T) : M Unit :=
  match e with
  | .EXCEPTION_REQ_WRONG_SIZE =>
    -- This req message is erroneous so ignore it
    modifyState fun s => { s with config_if_rx_pending := false }
  | _ => pure ()

/-- The C function `sm_iterate`; the states whose functions have an empty body do
nothing. -/
def sm_iterate : M Unit :=
  TryCatch (do
    let s ← getState
    match s.state with
    | .SM_STATE_BOOT => boot_state
    | .SM_STATE_STANDBY_BATTERY_CHARGING => pure ()
    | .SM_STATE_STANDBY_BATTERY_LEVEL_LOW => pure ()
    | .SM_STATE_STANDBY_LOG_FILE_FULL => pure ()
    | .SM_STATE_STANDBY_PROVISIONING_NEEDED => standby_provisioning_needed_state
    | .SM_STATE_STANDBY_TRIGGER_PENDING => pure ()
    | .SM_STATE_PROVISIONING => pure ()
    | .SM_STATE_OPERATIONAL => pure ()) exception_handler

/-! ## A platform for the boot tests -/

/-- The value `POWER_SUPPLY_CAPACITY_LEVEL_CRITICAL` of the absent `syshal_batt.h`, taken
as 1 here. -/
def POWER_SUPPLY_CAPACITY_LEVEL_CRITICAL : Nat := 1

/-- The value `POWER_SUPPLY_CAPACITY_LEVEL_FULL`, taken as 5 here. -/
def POWER_SUPPLY_CAPACITY_LEVEL_FULL : Nat := 5

/-- A platform with the given battery readings; when `all_set` holds every tag is set (to
one zero byte), otherwise no tag is. -/
def boot_env (charging : Bool) (level : Nat) (all_set : Bool) : Env where
  syshal_batt_charging := fun _ => charging
  syshal_batt_state := fun _ => level
  syshal_time_get_ticks_ms := fun tr => tr.length
  sys_config_get := fun _ _ => if all_set then (1, [0]) else (SYS_CONFIG_ERROR_TAG_NOT_SET, [])
  sys_config_unset := fun _ _ => SYS_CONFIG_NO_ERROR

/-- The context of the boot tests. -/
def boot_ctx (charging : Bool) (level : Nat) (all_set : Bool) : Ctx :=
  ⟨demo_params, boot_env charging level all_set⟩

/-- The variables after `sm_set_state(SM_STATE_BOOT)` at start-up. -/
def boot : State where
  state := .SM_STATE_BOOT
  pastState := .SM_STATE_BOOT
  rx_buffer := []
  config_if_tx_pending := false
  config_if_rx_pending := false
  config_if_rx_size := 0
  blinkTimer := 0
  trace := []

end Sm

/-! # The file system

`fs.c` is not part of the sources at hand (only its tests are); the definitions of the
namespace `Fs` are modelled from sections 3.1 to 3.4, 4.1 and 6.1 of the specification. -/

namespace Fs

/-- Modelled from the spec: the compile-time constants of the absent `fs_priv.h` (sections
3.1, 3.2, 3.4): number of sectors, user bytes per sector, session records per sector and
size of the handle pool. -/
structure Cfg where
  FS_PRIV_MAX_SECTORS : Nat
  FS_PRIV_USABLE_SIZE : Nat
  FS_PRIV_NUM_WRITE_SESSIONS : Nat
  FS_PRIV_MAX_HANDLES : Nat

/-- Modelled from the spec: the file id `0xFF` of a free sector, also "no file" (section
3.1, 3.3); `fs.c` itself is missing. -/
def FS_FILE_ID_NONE : Nat := 255

/-- Modelled from the spec: the `next_sector` value `0xFF` that ends a chain (section
3.1); `fs.c` itself is missing. -/
def FS_PRIV_NOT_ALLOCATED : Nat := 255

/-- Modelled from the spec: a flash sector (sections 3.1, 3.2, 6.1): the header fields,
the session records written so far (each the cumulative length of committed user bytes;
the erased slots are not listed) and the user bytes programmed so far from the start of
the data region. The sector layout of `fs_priv.h` is missing. -/
structure Sector where
  file_id : Nat
  user_flags : Nat
  next_sector : Nat
  allocation_counter : Nat
  session_records : List Nat
  data : List Nat
  deriving DecidableEq, Repr

/-- Modelled from the spec: for the absent `fs.c`, an erased sector, every byte `0xFF`
(section 6.1). -/
def Sector.erased : Sector :=
  { file_id := 255, user_flags := 255, next_sector := 255, allocation_counter := 4294967295,
    session_records := [], data := [] }

/-- Modelled from the spec: for the absent `fs.c`, the fresh header of a free sector that
keeps a wear counter (section 4.1, `format` and `delete`). -/
def Sector.free_header (counter : Nat) : Sector :=
  { Sector.erased with allocation_counter := counter }

/-- Modelled from the spec: for the absent `fs.c`, the live length of the user data of a
sector, the highest valid session record, 0 if none (section 3.2). -/
def Sector.live_length (x : Sector) : Nat := x.session_records.foldl max 0

/-- Modelled from the spec: for the absent `fs.c`, the live user data of a sector, the
prefix of its data region of the live length (section 3.3). -/
def Sector.live_data (x : Sector) : List Nat := x.data.take x.live_length

/-- Modelled from the spec: for the absent `fs.c`, the protected bit (bit 6 of `user_flags`,
section 6.1) is stored so that the normal state is 1 and protected is 0 (section 4.1). -/
def is_protected (user_flags : Nat) : Bool := (user_flags / 64) % 2 == 0

/-- Modelled from the spec: for the absent `fs.c`, the circular bit (bit 7 of `user_flags`,
section 6.1) is set for a circular file (section 4.1.2). -/
def is_circular (user_flags : Nat) : Bool := (user_flags / 128) % 2 == 1

/-- Modelled from the spec: for the absent `fs.c`, the flag byte of a new file: the
application bits 5..0, the protected bit in its normal state and the circular bit (sections
4.1.2, 6.1). -/
def make_flags (user_flags : Nat) (circular : Bool) : Nat :=
  user_flags % 64 + 64 + (if circular then 128 else 0)

/-- Modelled from the spec: for the absent `fs.c`, clearing bit 6 marks the file protected
(section 4.1). -/
def set_protected (user_flags : Nat) : Nat :=
  if is_protected user_flags then user_flags else user_flags - 64

/-- Modelled from the spec: for the absent `fs.c`, bit 6 back in its normal state (section
4.1); on flash this needs a fresh sector. -/
def clear_protected (user_flags : Nat) : Nat :=
  if is_protected user_flags then user_flags + 64 else user_flags

/-- Modelled from the spec: for the absent `fs.c`, an open handle (section 3.4): file id,
mode, root sector, current sector, read/write offset within the current sector, bytes
written since the last flush and the dirty flag. -/
structure Handle where
  file_id : Nat
  mode : fs_mode_t
  root : Nat
  current : Nat
  offset : Nat
  unflushed : Nat
  dirty : Bool
  deriving DecidableEq, Repr

/-- Modelled from the spec: for the absent `fs.c`, the flash device (a fixed array of
sectors, section 3.1) and the pool of handles (section 3.4). The index that `mount` builds
is recomputed from the sector headers where it is needed (`find_root`, `find_free`). -/
structure State where
  sectors : Nat → Sector
  handles : Nat → Option Handle

/-- Replace one sector. -/
def State.set_sector (s : State) (i : Nat) (x : Sector) : State :=
  { s with sectors := fun j => if j = i then x else s.sectors j }

/-- Replace one handle. -/
def State.set_handle (s : State) (h : Nat) (v : Option Handle) : State :=
  { s with handles := fun k => if k = h then v else s.handles k }

/-- Modelled from the spec: for the absent `fs.c`, `mount` (section 4.1) scans the headers
and modifies no sector; no handle is open. -/
def fs_mount (sectors : Nat → Sector) : State :=
  { sectors := sectors, handles := fun _ => none }

/-- Modelled from the spec: for the absent `fs.c`, `format` (section 4.1): for each sector,
read its current `allocation_counter`, erase the sector, and write back a fresh header
marking it free with the counter (a `u32`) incremented by one. -/
def fs_format (cfg : Cfg) (s : State) : fs_error_t × State :=
  (.FS_NO_ERROR,
    { s with sectors := fun i =>
        if i < cfg.FS_PRIV_MAX_SECTORS then
          Sector.free_header (u32 ((s.sectors i).allocation_counter + 1))
        else s.sectors i })

/-- Modelled from the spec: for the absent `fs.c`, the free sector with the smallest
`allocation_counter`, ties broken by lowest index (section 4.1.3); none when no sector is
free. -/
def find_free (cfg : Cfg) (s : State) : Option Nat :=
  (List.range cfg.FS_PRIV_MAX_SECTORS).foldl (fun best i =>
    if (s.sectors i).file_id = FS_FILE_ID_NONE then
      match best with
      | none => some i
      | some b =>
        if (s.sectors i).allocation_counter < (s.sectors b).allocation_counter then some i
        else some b
    else best) none

/-- Modelled from the spec: for the absent `fs.c`, the root of a file, the sector whose
header carries the file id and which is not pointed to by any other sector's `next_sector`
(section 3.3). -/
def find_root (cfg : Cfg) (s : State) (file_id : Nat) : Option Nat :=
  if file_id = FS_FILE_ID_NONE then none
  else
    (List.range cfg.FS_PRIV_MAX_SECTORS).find? fun i =>
      decide ((s.sectors i).file_id = file_id) &&
        (List.range cfg.FS_PRIV_MAX_SECTORS).all fun j =>
          decide (j = i) || decide ((s.sectors j).next_sector ≠ i)

/-- Modelled from the spec: for the absent `fs.c`, the tail of the chain that starts at
sector `i` (section 4.1.2, `WriteOnly`), following at most `fuel` links. -/
def find_tail (sectors : Nat → Sector) : Nat → Nat → Nat
  | 0, i => i
  | fuel + 1, i =>
    if (sectors i).next_sector = FS_PRIV_NOT_ALLOCATED then i
    else find_tail sectors fuel (sectors i).next_sector

/-- Modelled from the spec: for the absent `fs.c`, the first free handle of the pool
(section 3.4). -/
def free_handle (cfg : Cfg) (s : State) : Option Nat :=
  (List.range cfg.FS_PRIV_MAX_HANDLES).find? fun h => (s.handles h).isNone

/-- Modelled from the spec: for the absent `fs.c`, allocation of sector `j` to a file
(sections 4.1.2, 4.1.3): the sector is erased and its header written with the file id, the
flags, the incremented counter and no next sector. -/
def State.allocate (s : State) (j file_id user_flags : Nat) : State :=
  s.set_sector j
    { file_id := file_id, user_flags := user_flags, next_sector := FS_PRIV_NOT_ALLOCATED,
      allocation_counter := u32 ((s.sectors j).allocation_counter + 1),
      session_records := [], data := [] }

end Fs
namespace Fs

/-- Modelled from the spec: for the absent `fs.c`, a handle as `open` leaves it (section
3.4): nothing written since the last flush, not dirty. -/
def Handle.opened (file_id : Nat) (mode : fs_mode_t) (root current offset : Nat) : Handle :=
  { file_id := file_id, mode := mode, root := root, current := current, offset := offset,
    unflushed := 0, dirty := false }

/-- Modelled from the spec: for the absent `fs.c`, `open` (section 4.1.2). `Create` and
`CreateCircular` need the file not to exist and allocate one new sector (the free sector of
least wear) with no session record; `WriteOnly` needs the file to exist unprotected and
positions the write cursor at the live length of the tail sector; `ReadOnly` needs the file
to exist and positions the read cursor at its start. The result holds the error code, the
device, the handle and the user flags of the file. -/
def fs_open (cfg : Cfg) (s : State) (file_id : Nat) (mode : fs_mode_t) (user_flags : Nat) :
    fs_error_t × State × Nat × Nat :=
  match mode with
  | .FS_MODE_READONLY =>
    match find_root cfg s file_id with
    | none => (.FS_ERROR_FILE_NOT_FOUND, s, 0, user_flags)
    | some root =>
      match free_handle cfg s with
      | none => (.FS_ERROR_NO_FREE_HANDLE, s, 0, user_flags)
      | some h =>
        (.FS_NO_ERROR,
          s.set_handle h (some (Handle.opened file_id mode root root 0)),
          h, (s.sectors root).user_flags % 64)
  | .FS_MODE_WRITEONLY =>
    match find_root cfg s file_id with
    | none => (.FS_ERROR_FILE_NOT_FOUND, s, 0, user_flags)
    | some root =>
      if is_protected (s.sectors root).user_flags then
        (.FS_ERROR_FILE_PROTECTED, s, 0, user_flags)
      else
        match free_handle cfg s with
        | none => (.FS_ERROR_NO_FREE_HANDLE, s, 0, user_flags)
        | some h =>
          let tail := find_tail s.sectors cfg.FS_PRIV_MAX_SECTORS root
          (.FS_NO_ERROR,
            s.set_handle h
              (some (Handle.opened file_id mode root tail (s.sectors tail).live_length)),
            h, (s.sectors root).user_flags % 64)
  | _ =>
    match find_root cfg s file_id with
    | some _ => (.FS_ERROR_FILE_ALREADY_EXISTS, s, 0, user_flags)
    | none =>
      if file_id = FS_FILE_ID_NONE then (.FS_ERROR_FILE_NOT_FOUND, s, 0, user_flags)
      else
        match free_handle cfg s with
        | none => (.FS_ERROR_NO_FREE_HANDLE, s, 0, user_flags)
        | some h =>
          match find_free cfg s with
          | none => (.FS_ERROR_FILESYSTEM_FULL, s, 0, user_flags)
          | some j =>
            ((.FS_NO_ERROR : fs_error_t),
              (s.allocate j file_id
                (make_flags user_flags (decide (mode = .FS_MODE_CREATE_CIRCULAR)))).set_handle h
                (some (Handle.opened file_id mode j j 0)),
              h, user_flags % 64)

/-- Modelled from the spec: for the absent `fs.c`, the session record of a flush (sections
3.2, 4.1): the cumulative length of the user bytes of the current sector, written when bytes
are pending and a session slot is free. -/
def write_record (cfg : Cfg) (s : State) (h : Handle) : State × Handle :=
  if h.unflushed ≠ 0 ∧
      (s.sectors h.current).session_records.length < cfg.FS_PRIV_NUM_WRITE_SESSIONS then
    (s.set_sector h.current
      { s.sectors h.current with
        session_records := (s.sectors h.current).session_records ++ [h.offset] },
      { h with unflushed := 0, dirty := false })
  else (s, h)

/-- Modelled from the spec: for the absent `fs.c`, extension of a file by one sector
(section 4.1.3): the free sector with the smallest counter is allocated with the same file
id and the previous sector's header is patched to point at it. With no free sector left, a
circular file of more than one sector reclaims its head sector, which becomes the tail
while the root advances to the former head's `next_sector`; any other file fails (none).
The flags written into a chained sector are not given by the spec; the root's are copied. -/
def extend (cfg : Cfg) (s : State) (h : Handle) : Option (State × Handle) :=
  match find_free cfg s with
  | some j =>
    let s1 := s.allocate j h.file_id (s.sectors h.root).user_flags
    let s2 := s1.set_sector h.current { s1.sectors h.current with next_sector := j }
    some (s2, { h with current := j, offset := 0, unflushed := 0 })
  | none =>
    if is_circular (s.sectors h.root).user_flags ∧ h.root ≠ h.current then
      let head := h.root
      let root1 := (s.sectors head).next_sector
      let s1 := s.allocate head h.file_id (s.sectors head).user_flags
      let s2 := s1.set_sector h.current { s1.sectors h.current with next_sector := head }
      some (s2, { h with root := root1, current := head, offset := 0, unflushed := 0 })
    else none

/-- Modelled from the spec: for the absent `fs.c`, whether the current sector admits one
more byte: it is not byte-full and keeps a free session slot for the flush to come (section
3.2, invariant). -/
def has_room (cfg : Cfg) (s : State) (h : Handle) : Bool :=
  decide (h.offset < cfg.FS_PRIV_USABLE_SIZE) &&
    decide ((s.sectors h.current).session_records.length < cfg.FS_PRIV_NUM_WRITE_SESSIONS)

/-- Modelled from the spec: for the absent `fs.c`, the byte `b` programmed at the write
cursor (section 4.1, `write` appends bytes to the current sector). -/
def put_byte (s : State) (h : Handle) (b : Nat) : State × Handle :=
  (s.set_sector h.current
    { s.sectors h.current with data := (s.sectors h.current).data.take h.offset ++ [b] },
    { h with offset := h.offset + 1, unflushed := h.unflushed + 1, dirty := true })

/-- Modelled from the spec: for the absent `fs.c`, one byte of `write` (section 4.1): it is
appended to the current sector; when that sector is full the pending bytes are committed and
the file is extended by a new sector first. None when the file system is full. -/
def write_byte (cfg : Cfg) (s : State) (h : Handle) (b : Nat) : Option (State × Handle) :=
  if has_room cfg s h then some (put_byte s h b)
  else
    match extend cfg (write_record cfg s h).1 (write_record cfg s h).2 with
    | none => none
    | some (s1, h1) => if has_room cfg s1 h1 then some (put_byte s1 h1 b) else none

/-- Modelled from the spec: for the absent `fs.c`, the bytes of `write` in order; the result
holds the error code, the device, the handle and the number of bytes written. -/
def write_bytes (cfg : Cfg) : List Nat → State → Handle → Nat → fs_error_t × State × Handle × Nat
  | [], s, h, n => (.FS_NO_ERROR, s, h, n)
  | b :: bs, s, h, n =>
    match write_byte cfg s h b with
    | none => (.FS_ERROR_FILESYSTEM_FULL, s, h, n)
    | some (s1, h1) => write_bytes cfg bs s1 h1 (n + 1)

/-- Modelled from the spec: for the absent `fs.c`, `write(h, buf, n) -> (bytes_written,
err)` (section 4.1). The code answered for a handle that is not open for writing is not
given by the spec. -/
def fs_write (cfg : Cfg) (s : State) (handle : Nat) (buf : List Nat) :
    fs_error_t × State × Nat :=
  match s.handles handle with
  | none => (.FS_ERROR_OTHER, s, 0)
  | some h =>
    if h.mode = .FS_MODE_READONLY then (.FS_ERROR_OTHER, s, 0)
    else
      ((write_bytes cfg buf s h 0).1,
        (write_bytes cfg buf s h 0).2.1.set_handle handle (some (write_bytes cfg buf s h 0).2.2.1),
        (write_bytes cfg buf s h 0).2.2.2)

/-- Modelled from the spec: for the absent `fs.c`, `flush` (sections 4.1, 4.1.4): a no-op if
no bytes have been written since the last flush; else a session record capturing the current
length; with no session slot remaining the sector is sealed and a new sector is allocated.
-/
def flush (cfg : Cfg) (s : State) (h : Handle) : fs_error_t × State × Handle :=
  if h.unflushed = 0 then (.FS_NO_ERROR, s, h)
  else if (s.sectors h.current).session_records.length < cfg.FS_PRIV_NUM_WRITE_SESSIONS then
    (.FS_NO_ERROR, (write_record cfg s h).1, (write_record cfg s h).2)
  else
    match extend cfg s h with
    | none => (.FS_ERROR_FILESYSTEM_FULL, s, h)
    | some (s1, h1) => (.FS_NO_ERROR, s1, h1)

/-- Modelled from the spec: for the absent `fs.c`, `flush(h)` on a handle of the pool. -/
def fs_flush (cfg : Cfg) (s : State) (handle : Nat) : fs_error_t × State :=
  match s.handles handle with
  | none => (.FS_ERROR_OTHER, s)
  | some h => ((flush cfg s h).1, (flush cfg s h).2.1.set_handle handle (some (flush cfg s h).2.2))

/-- Modelled from the spec: for the absent `fs.c`, `close(h)`: flushes then releases the
handle (section 4.1). -/
def fs_close (cfg : Cfg) (s : State) (handle : Nat) : fs_error_t × State :=
  match s.handles handle with
  | none => (.FS_ERROR_OTHER, s)
  | some h => ((flush cfg s h).1, (flush cfg s h).2.1.set_handle handle none)

/-- Modelled from the spec: for the absent `fs.c`, the next byte of `read` (section 4.1):
the live byte under the read cursor, advancing along the sector chain as needed (at most
`fuel` sectors); none when the live length is exhausted. -/
def read_byte (sectors : Nat → Sector) : Nat → Handle → Option (Nat × Handle)
  | 0, _ => none
  | fuel + 1, h =>
    match (sectors h.current).live_data.get? h.offset with
    | some b => some (b, { h with offset := h.offset + 1 })
    | none =>
      if (sectors h.current).next_sector = FS_PRIV_NOT_ALLOCATED then none
      else
        read_byte sectors fuel { h with current := (sectors h.current).next_sector, offset := 0 }

/-- Modelled from the spec: for the absent `fs.c`, up to `n` bytes of `read`, in order. -/
def read_bytes (cfg : Cfg) (sectors : Nat → Sector) : Nat → Handle → List Nat × Handle
  | 0, h => ([], h)
  | n + 1, h =>
    match read_byte sectors (cfg.FS_PRIV_MAX_SECTORS + 1) h with
    | none => ([], h)
    | some (b, h1) => (b :: (read_bytes cfg sectors n h1).1, (read_bytes cfg sectors n h1).2)

/-- Modelled from the spec: for the absent `fs.c`, `read(h, buf, n) -> (bytes_read, err)`
(section 4.1): copies up to `n` bytes and returns `EndOfFile` when the live length is
exhausted. -/
def fs_read (cfg : Cfg) (s : State) (handle : Nat) (n : Nat) : fs_error_t × State × List Nat :=
  match s.handles handle with
  | none => (.FS_ERROR_OTHER, s, [])
  | some h =>
    if h.mode ≠ .FS_MODE_READONLY then (.FS_ERROR_OTHER, s, [])
    else
      match read_byte s.sectors (cfg.FS_PRIV_MAX_SECTORS + 1) h with
      | none => (.FS_ERROR_END_OF_FILE, s, [])
      | some _ =>
        (.FS_NO_ERROR, s.set_handle handle (some (read_bytes cfg s.sectors n h).2),
          (read_bytes cfg s.sectors n h).1)

/-- Modelled from the spec: for the absent `fs.c`, `protect` (section 4.1): the protected
bit of the root sector's header is cleared in place. -/
def fs_protect (cfg : Cfg) (s : State) (file_id : Nat) : fs_error_t × State :=
  match find_root cfg s file_id with
  | none => (.FS_ERROR_FILE_NOT_FOUND, s)
  | some root =>
    (.FS_NO_ERROR,
      s.set_sector root
        { s.sectors root with user_flags := set_protected (s.sectors root).user_flags })

/-- Modelled from the spec: for the absent `fs.c`, `unprotect` (section 4.1): as flash bits
cannot be set again, the header is re-written, with the protected bit in its normal state,
into a freshly allocated sector that takes the place of the root (it receives the live data
and the link of the root), and the former root is freed with its counter incremented. -/
def fs_unprotect (cfg : Cfg) (s : State) (file_id : Nat) : fs_error_t × State :=
  match find_root cfg s file_id with
  | none => (.FS_ERROR_FILE_NOT_FOUND, s)
  | some root =>
    if is_protected (s.sectors root).user_flags then
      match find_free cfg s with
      | none => (.FS_ERROR_FILESYSTEM_FULL, s)
      | some j =>
        (.FS_NO_ERROR,
          (s.set_sector j
            { file_id := file_id,
              user_flags := clear_protected (s.sectors root).user_flags,
              next_sector := (s.sectors root).next_sector,
              allocation_counter := u32 ((s.sectors j).allocation_counter + 1),
              session_records :=
                if (s.sectors root).live_data = [] then []
                else [(s.sectors root).live_data.length],
              data := (s.sectors root).live_data }).set_sector root
            (Sector.free_header (u32 ((s.sectors root).allocation_counter + 1))))
    else (.FS_NO_ERROR, s)

/-- Modelled from the spec: for the absent `fs.c`, the sectors of the chain from `i` freed
in turn, each with its counter incremented (section 4.1, `delete`). -/
def free_chain (s : State) : Nat → Nat → State
  | 0, _ => s
  | fuel + 1, i =>
    if i = FS_PRIV_NOT_ALLOCATED then s
    else
      free_chain
        (s.set_sector i (Sector.free_header (u32 ((s.sectors i).allocation_counter + 1))))
        fuel (s.sectors i).next_sector

/-- Modelled from the spec: for the absent `fs.c`, `delete` (section 4.1): fails with
`FileProtected` if the file is protected, else erases every sector of the chain. -/
def fs_delete (cfg : Cfg) (s : State) (file_id : Nat) : fs_error_t × State :=
  match find_root cfg s file_id with
  | none => (.FS_ERROR_FILE_NOT_FOUND, s)
  | some root =>
    if is_protected (s.sectors root).user_flags then (.FS_ERROR_FILE_PROTECTED, s)
    else (.FS_NO_ERROR, free_chain s cfg.FS_PRIV_MAX_SECTORS root)

/-- Modelled from the spec: for the absent `fs.c`, the summed live length of the chain from
`i` (section 3.3, implicit size). -/
def chain_size (sectors : Nat → Sector) : Nat → Nat → Nat
  | 0, _ => 0
  | fuel + 1, i =>
    if i = FS_PRIV_NOT_ALLOCATED then 0
    else (sectors i).live_data.length + chain_size sectors fuel (sectors i).next_sector

/-- Modelled from the spec: for the absent `fs.c`, `stat` (section 4.1): size, user flags,
circular and protected marks of a file; for the file id `NONE` the total free capacity. -/
def fs_stat (cfg : Cfg) (s : State) (file_id : Nat) : fs_error_t × Nat × Nat × Bool × Bool :=
  if file_id = FS_FILE_ID_NONE then
    (.FS_NO_ERROR,
      ((List.range cfg.FS_PRIV_MAX_SECTORS).filter fun i =>
        decide ((s.sectors i).file_id = FS_FILE_ID_NONE)).length * cfg.FS_PRIV_USABLE_SIZE,
      0, false, false)
  else
    match find_root cfg s file_id with
    | none => (.FS_ERROR_FILE_NOT_FOUND, 0, 0, false, false)
    | some root =>
      (.FS_NO_ERROR, chain_size s.sectors cfg.FS_PRIV_MAX_SECTORS root,
        (s.sectors root).user_flags % 64, is_circular (s.sectors root).user_flags,
        is_protected (s.sectors root).user_flags)

end Fs
namespace Fs

/-- A small geometry for the evaluations: 8 sectors of 4 user bytes, 3 session records
per sector, 2 handles. -/
def small_cfg : Cfg :=
  { FS_PRIV_MAX_SECTORS := 8, FS_PRIV_USABLE_SIZE := 4, FS_PRIV_NUM_WRITE_SESSIONS := 3,
    FS_PRIV_MAX_HANDLES := 2 }

/-- An erased flash device, mounted. -/
def erased_device : State := fs_mount fun _ => Sector.erased

/-- A free device whose sectors carry the given wear counters. -/
def worn_device (counters : List Nat) : State :=
  fs_mount fun i => Sector.free_header (counters.getD i 4294967295)

/-- The files `first`, `first + 1`, ... (`count` of them) created and closed in order. -/
def create_files (cfg : Cfg) : Nat → Nat → State → State
  | 0, _, s => s
  | count + 1, first, s =>
    create_files cfg count (first + 1)
      (fs_close cfg (fs_open cfg s first .FS_MODE_CREATE 7).2.1
        (fs_open cfg s first .FS_MODE_CREATE 7).2.2.1).2

/-- The buffers written one after the other through a handle; none as soon as a write
does not return NoError with every byte written. -/
def write_chunks (cfg : Cfg) (handle : Nat) : List (List Nat) → State → Option State
  | [], s => some s
  | buf :: bufs, s =>
    if (fs_write cfg s handle buf).1 = .FS_NO_ERROR ∧
        (fs_write cfg s handle buf).2.2 = buf.length then
      write_chunks cfg handle bufs (fs_write cfg s handle buf).2.1
    else none

/-- Whether sector `k` comes before sector `j` in the order of wear: smaller counter, or
the same counter and a lower index. -/
def wears_before (s : State) (k j : Nat) : Bool :=
  decide ((s.sectors k).allocation_counter < (s.sectors j).allocation_counter ∨
    ((s.sectors k).allocation_counter = (s.sectors j).allocation_counter ∧ k < j))

/-- The number of sectors that come before sector `j` in the order of wear: sector `j`
holds the counter of this rank (0 for the smallest). -/
def wear_rank (cfg : Cfg) (s : State) (j : Nat) : Nat :=
  ((List.range cfg.FS_PRIV_MAX_SECTORS).filter fun k => wears_before s k j).length

/-- The invariant of `create_files` on a device that was free: the sectors of rank below
`first` hold the file of their rank, the others are untouched, no handle is open. -/
structure created_inv (cfg : Cfg) (s0 s : State) (first : Nat) : Prop where
  placed : ∀ j, j < cfg.FS_PRIV_MAX_SECTORS → wear_rank cfg s0 j < first →
    (s.sectors j).file_id = wear_rank cfg s0 j
  untouched : ∀ j, j < cfg.FS_PRIV_MAX_SECTORS → first ≤ wear_rank cfg s0 j →
    s.sectors j = s0.sectors j
  closed : ∀ h, s.handles h = none

/-- The file ids found in the sector headers. -/
def file_ids (cfg : Cfg) (s : State) : List Nat :=
  (List.range cfg.FS_PRIV_MAX_SECTORS).map fun i => (s.sectors i).file_id

/-- The wear counters found in the sector headers. -/
def counters (cfg : Cfg) (s : State) : List Nat :=
  (List.range cfg.FS_PRIV_MAX_SECTORS).map fun i => (s.sectors i).allocation_counter

/-- The sectors of a list are linked in its order and the last one ends the chain. -/
def linked (sectors : Nat → Sector) : List Nat → Prop
  | [] => True
  | [a] => (sectors a).next_sector = FS_PRIV_NOT_ALLOCATED
  | a :: b :: rest => (sectors a).next_sector = b ∧ linked sectors (b :: rest)

/-- The live data of the sectors of a list, in its order. -/
def content (sectors : Nat → Sector) (chain : List Nat) : List Nat :=
  (chain.map fun i => (sectors i).live_data).flatten

/-- The file `f` exists and is made of the sectors `root :: rest` in this order (section
3.3): these sectors are distinct and are exactly those carrying the file id, they are
linked in order, no sector points to the root, and the live length of each lies within the
bytes programmed. -/
structure is_file (cfg : Cfg) (sectors : Nat → Sector) (f root : Nat) (rest : List Nat) :
    Prop where
  nodup : (root :: rest).Nodup
  lt : ∀ i, i ∈ root :: rest → i < cfg.FS_PRIV_MAX_SECTORS
  ids : ∀ i, i ∈ root :: rest → (sectors i).file_id = f
  all : ∀ i, i < cfg.FS_PRIV_MAX_SECTORS → (sectors i).file_id = f → i ∈ root :: rest
  links : linked sectors (root :: rest)
  unpointed : ∀ j, j < cfg.FS_PRIV_MAX_SECTORS → (sectors j).next_sector ≠ root
  live_ok : ∀ i, i ∈ root :: rest → (sectors i).live_length ≤ (sectors i).data.length

/-- No link of the device leads to a free sector. -/
def links_ok (cfg : Cfg) (sectors : Nat → Sector) : Prop :=
  ∀ i j, i < cfg.FS_PRIV_MAX_SECTORS → j < cfg.FS_PRIV_MAX_SECTORS →
    (sectors j).file_id = FS_FILE_ID_NONE → (sectors i).next_sector ≠ j

/-- The number of free sectors. -/
def free_count (cfg : Cfg) (sectors : Nat → Sector) : Nat :=
  ((List.range cfg.FS_PRIV_MAX_SECTORS).filter fun i =>
    decide ((sectors i).file_id = FS_FILE_ID_NONE)).length

/-- The read cursor `h` stands in front of the bytes `bytes`: they are what remains of
the live data of the current sector from the offset on, followed by the live data of the
sectors `post` linked behind it. -/
def at_pos (cfg : Cfg) (sectors : Nat → Sector) (h : Handle) (bytes : List Nat) : Prop :=
  ∃ post, linked sectors (h.current :: post) ∧
    (∀ i, i ∈ h.current :: post → i < 255) ∧ post.length ≤ cfg.FS_PRIV_MAX_SECTORS ∧
    (sectors h.current).live_data.drop h.offset ++ content sectors post = bytes

/-- The state of a file under a write handle `h`: the file is made of the sectors
`root :: rest`, the handle writes at the end of the last of them, and `bytes` is the
content of the file with the bytes still to be committed in the current sector. -/
structure writing (cfg : Cfg) (sectors : Nat → Sector) (f root : Nat) (rest : List Nat)
    (h : Handle) (bytes : List Nat) : Prop where
  file : is_file cfg sectors f root rest
  id : h.file_id = f
  cur : h.current = (root :: rest).getLast (List.cons_ne_nil _ _)
  live_le : (sectors h.current).live_length ≤ h.offset
  clean : h.unflushed = 0 → (sectors h.current).live_length = h.offset
  slot : h.unflushed ≠ 0 →
    (sectors h.current).session_records.length < cfg.FS_PRIV_NUM_WRITE_SESSIONS
  programmed : h.offset ≤ (sectors h.current).data.length
  total : content sectors (root :: rest).dropLast ++ (sectors h.current).data.take h.offset =
    bytes
  writable : h.mode ≠ .FS_MODE_READONLY

/-- The number of bytes that a write handle can still take: the room left in its current
sector and the user bytes of the free sectors. -/
def avail (cfg : Cfg) (s : State) (h : Handle) : Nat :=
  (if has_room cfg s h then cfg.FS_PRIV_USABLE_SIZE - h.offset else 0) +
    free_count cfg s.sectors * cfg.FS_PRIV_USABLE_SIZE

end Fs

namespace Fs

/-- The bytes returned by successive reads of the given sizes through a handle, and the
device after them. -/
def read_sizes (cfg : Cfg) (handle : Nat) : List Nat → State → List Nat × State
  | [], s => ([], s)
  | n :: ns, s =>
    ((fs_read cfg s handle n).2.2 ++ (read_sizes cfg handle ns (fs_read cfg s handle n).2.1).1,
      (read_sizes cfg handle ns (fs_read cfg s handle n).2.1).2)

end Fs

namespace Fs

/-- The device after file 0 was created on erased flash, written with the given buffers
and closed (the device is left as it was if a write fails). -/
def written_device (bufs : List (List Nat)) : State :=
  (fs_close small_cfg
    ((write_chunks small_cfg 0 bufs
      (fs_open small_cfg erased_device 0 .FS_MODE_CREATE 7).2.1).getD erased_device) 0).2

/-- The device `written_device` with file 0 reopened for reading. -/
def reopened_device (bufs : List (List Nat)) : State :=
  (fs_open small_cfg (written_device bufs) 0 .FS_MODE_READONLY 0).2.1

/-- The buffers 1 2 3, 4 5 6 7 8, 9 and 10 11: eleven bytes over three sectors of the small
geometry. -/
def demo_bufs : List (List Nat) := [[1, 2, 3], [4, 5, 6, 7, 8], [9], [10, 11]]

/-- The bytes 0 to 31, one per buffer: the capacity of the small geometry. -/
def full_bufs : List (List Nat) := (List.range 32).map fun b => [b]

end Fs

namespace Fs

/-- The device `written_device demo_bufs` after `fs_protect` of file 0. -/
def protected_device : State := (fs_protect small_cfg (written_device demo_bufs) 0).2

/-- The device `protected_device` after `fs_unprotect` of file 0. -/
def unprotected_device : State := (fs_unprotect small_cfg protected_device 0).2

/-- The device `unprotected_device` after file 0 was opened in WriteOnly mode, extended by
the buffers 12 13 and 14, and closed. -/
def appended_device : State :=
  (fs_close small_cfg
    ((write_chunks small_cfg 0 [[12, 13], [14]]
      (fs_open small_cfg unprotected_device 0 .FS_MODE_WRITEONLY 0).2.1).getD
        unprotected_device) 0).2

end Fs

/-! ## The reed switch and the Bluetooth trigger -/

/-- The initial globals with the Bluetooth trigger-control tag set to `flags` and
`ble_state` holding `ble`. -/
def ble_trigger_state (flags ble : Nat) : State :=
  { initial_state.with_entry demo_tag_ids.BLUETOOTH_TRIGGER_CONTROL ⟨true, [flags]⟩ with
    ble_state := ble }

/-- The quiet environment with the reed switch input reading `level` (the C code takes a
low input as the switch being activated). -/
def reed_env (level : Bool) : Env :=
  { demo_env with syshal_gpio_get_input_REED_SW := fun _ => level }

/-- The context of `reed_env`. -/
def reed_ctx (level : Bool) : Ctx := ⟨demo_params, reed_env level, 1000⟩

/-! ## A GPS fix during a scheduled acquisition -/

/-- The globals during a scheduled acquisition: Operational has been entered with every
tag set to 1 (trigger mode Scheduled, interval, maximum acquisition time and no-fix
timeout of one second) and the interval timer has fired once. -/
def gps_acquiring_state : State :=
  (timer_gps_interval_callback demo_ctx
    (sm_main_operational_entry demo_ctx all_tags_set_state).state).state

/-! ## File handles of the configuration restore -/

/-- The handles passed to `fs_close` in a trace of calls, in order. -/
def fs_close_calls (tr : List Ev) : List (Option Nat) :=
  tr.filterMap fun e =>
    match e with
    | .fs_close h => some h
    | _ => none

/-- A file system whose configuration file exists and is empty: `fs_open` succeeds with
the handle 1 and `fs_read` reports the end of the file without delivering a byte (the
behaviour the test ReadEmptyFileShouldReturnEndOfFileError of Fs.cpp checks). -/
def empty_conf_env : Env :=
  { demo_env with fs_read := fun _ _ _ => (.FS_ERROR_END_OF_FILE, []) }

/-- The context of `empty_conf_env`. -/
def empty_conf_ctx : Ctx := ⟨demo_params, empty_conf_env, 1000⟩

/-! ## The slot of a log record -/

/-- The globals in Operational with every tag set to 1 (so the date-time stamp is
enabled), sensor logging running and the GPS holding a fix. -/
def gps_fixed_logging_state : State :=
  { all_tags_set_state with
    sm_gps_state := .SM_GPS_STATE_FIXED
    sensor_logging_enabled := true }

/-- The same globals with the date-time stamp disabled. -/
def gps_fixed_unstamped_state : State :=
  gps_fixed_logging_state.with_entry demo_tag_ids.LOGGING_DATE_TIME_STAMP_ENABLE ⟨true, [0]⟩

/-! ## The configuration store across a failed restore -/

/-- A layout of one entry of the RAM structure `sys_config`: the byte of `hdr.set`
followed by the contents on `size` bytes. -/
def layout_entry_bytes (size : Nat) (e : sys_config_entry) : List Nat :=
  (if e.set then 1 else 0) :: (e.contents ++ List.replicate size 0).take size

/-- A layout of the RAM structure `sys_config`: the format version, then the entries of
the tags in the order of the schema. -/
def layout_image (P : Params) (store : Nat → sys_config_entry) : List Nat :=
  P.SYS_CONFIG_FORMAT_VERSION ::
    (P.sys_config_tags.map fun t => layout_entry_bytes (P.sys_config_tag_size t) (store t)).flatten

/-- Offset of the entry of `tag` in `layout_image`. -/
def layout_offset (P : Params) (tag : Nat) : Nat :=
  1 + ((P.sys_config_tags.takeWhile fun t => t != tag).map
    fun t => 1 + P.sys_config_tag_size t).sum

/-- The store read back from the bytes of `layout_image`. -/
def layout_decode (P : Params) (bytes : List Nat) (store : Nat → sys_config_entry) :
    Nat → sys_config_entry := fun t =>
  if t ∈ P.sys_config_tags then
    ⟨bytes.getD (layout_offset P t) 0 != 0,
      (bytes.drop (layout_offset P t + 1)).take (P.sys_config_tag_size t)⟩
  else store t

/-- The store after `data` has been copied over the first bytes of the RAM structure laid
out as `layout_image`. -/
def layout_load (P : Params) (store : Nat → sys_config_entry) (data : List Nat) :
    Nat → sys_config_entry :=
  layout_decode P (data ++ (layout_image P store).drop data.length) store

/-- The demo instance of the absent headers with the RAM structure laid out as
`layout_image`. -/
def layout_params : Params :=
  { demo_params with
    sizeof_sys_config := (layout_image demo_params fun _ => ⟨false, []⟩).length
    sys_config_image := layout_image demo_params
    sys_config_load := layout_load demo_params }

/-- A configuration file cut short: the format version of the firmware, then the entry
of the first tag (set, value 7) and nothing more. -/
def truncated_conf_content : List Nat := [1, 1, 7]

/-- A file system whose configuration file holds `truncated_conf_content`. -/
def truncated_conf_env : Env :=
  { demo_env with
    fs_read := fun tr _ size =>
      (.FS_NO_ERROR, (truncated_conf_content.drop (file_position tr)).take size) }

/-- The context of `truncated_conf_env` with the layout `layout_params`. -/
def truncated_conf_ctx : Ctx := ⟨layout_params, truncated_conf_env, 1000⟩

/-! # The GPS driver `devices/gps/M8N/M8N.c`

The UBX receive path of the driver: `syshal_gps_tick` and
`syshal_gps_parse_rx_buffer_priv`. The constants and the packet type come from the absent
`M8N.h`; the UART receive buffer stands for the absent `syshal_uart.c`. -/

namespace M8N

/-- The constants of the absent headers `M8N.h` and `syshal_uart.h` that the receive path
reads. -/
structure Params where
  UBX_PACKET_SYNC_CHAR1 : Nat
  UBX_PACKET_SYNC_CHAR2 : Nat
  UBX_HEADER_LENGTH : Nat
  UBX_CRC_LENGTH : Nat
  UBX_HEADER_AND_CRC_LENGTH : Nat
  UART_RX_BUF_SIZE : Nat
  UBX_MSG_CLASS_NAV : Nat
  UBX_MSG_ID_NAV_STATUS : Nat
  UBX_MSG_ID_NAV_POSLLH : Nat
  deriving DecidableEq, Repr

/-- The return codes of `syshal_gps_parse_rx_buffer_priv`. -/
inductive gps_uart_error_t
  | GPS_UART_NO_ERROR
  | GPS_UART_ERROR_CHECKSUM
  | GPS_UART_ERROR_MSG_TOO_BIG
  | GPS_UART_ERROR_INSUFFICIENT_BYTES
  | GPS_UART_ERROR_MISSING_SYNC1
  | GPS_UART_ERROR_MISSING_SYNC2
  | GPS_UART_ERROR_MSG_PENDING
  deriving DecidableEq, Repr

/-- The type `UBX_Packet_t` as M8N.c uses it: the six header bytes of a UBX frame
(`syncChars[2]`, `msgClass`, `msgId`, `msgLength` little-endian), which the driver also
addresses as `(uint8_t *) packet`, and the array `payloadAndCrc`. -/
structure UBX_Packet_t where
  syncChars0 : Nat
  syncChars1 : Nat
  msgClass : Nat
  msgId : Nat
  msgLength : Nat
  payloadAndCrc : List Nat
  deriving DecidableEq, Repr

/-- The header of a packet as the bytes at `(uint8_t *) packet`. -/
def UBX_Packet_t.header (p : UBX_Packet_t) : List Nat :=
  [p.syncChars0, p.syncChars1, p.msgClass, p.msgId, p.msgLength % 256, p.msgLength / 256]

/-- The packet after `bytes` have been copied to `(uint8_t *) packet`: the leading header
bytes are replaced. -/
def UBX_Packet_t.set_header (p : UBX_Packet_t) (bytes : List Nat) : UBX_Packet_t :=
  let h := bytes.take 6 ++ p.header.drop bytes.length
  { p with
    syncChars0 := h.getD 0 0
    syncChars1 := h.getD 1 0
    msgClass := h.getD 2 0
    msgId := h.getD 3 0
    msgLength := h.getD 4 0 % 256 + 256 * (h.getD 5 0 % 256) }

/-- The events handed to `syshal_gps_callback`, with the payload of the frame they are
copied from. -/
inductive syshal_gps_event_t
  | SYSHAL_GPS_EVENT_STATUS (payload : List Nat)
  | SYSHAL_GPS_EVENT_POSLLH (payload : List Nat)
  deriving DecidableEq, Repr

/-- What the receive path works on: the bytes waiting in the receive buffer of the GPS
UART, oldest first, and the events delivered to `syshal_gps_callback` so far. -/
structure State where
  rx : List Nat
  events : List syshal_gps_event_t
  deriving DecidableEq, Repr

/-- Modelled from the spec: `syshal_uart_available` of the absent `syshal_uart.c`, the
number of bytes waiting in the receive ring buffer (section 5: the UART RX interrupt only
advances the write cursor; no byte arrives during the call studied). -/
def syshal_uart_available (s : State) : Nat := s.rx.length

/-- Modelled from the spec: `syshal_uart_peek_at` of the absent `syshal_uart.c`, the byte
at `location` of the receive buffer, left in place; `none` stands for the return value
false when fewer bytes are waiting. -/
def syshal_uart_peek_at (s : State) (location : Nat) : Option Nat := s.rx.get? location

/-- Modelled from the spec: `syshal_uart_receive` of the absent `syshal_uart.c`: the
oldest bytes, at most `size`, are removed from the receive buffer and returned; their
number is the return value. -/
def syshal_uart_receive (s : State) (size : Nat) : List Nat × State :=
  (s.rx.take size, { s with rx := s.rx.drop size })

/-- The C function `syshal_gps_compute_checksum_priv`: the two running sums of the UBX
checksum over the four header bytes from `msgClass` on and `msgLength` payload bytes. -/
def syshal_gps_compute_checksum_priv (packet : UBX_Packet_t) : Nat × Nat :=
  let step := fun (ck : Nat × Nat) (b : Nat) => ((ck.1 + b) % 256, (ck.2 + (ck.1 + b) % 256) % 256)
  let ck := (packet.header.drop 2).foldl step (0, 0)
  ((List.range packet.msgLength).map fun i => packet.payloadAndCrc.getD i 0).foldl step ck

/-- The C function `syshal_gps_check_checksum_priv`: 0 on a checksum match, -1 otherwise. -/
def syshal_gps_check_checksum_priv (packet : UBX_Packet_t) : Int :=
  let ck := syshal_gps_compute_checksum_priv packet
  if ck.1 = packet.payloadAndCrc.getD packet.msgLength 0 ∧
      ck.2 = packet.payloadAndCrc.getD (packet.msgLength + 1) 0 then 0 else -1

/-- How the loop "Look for SYNC1 byte" of `syshal_gps_parse_rx_buffer_priv` ends. -/
inductive sync1_t
  | label_sync_start
  | insufficient_bytes
  | missing_sync1
  deriving DecidableEq, Repr

/-- The loop `for (i = 0; i < bytesInRxBuffer; ++i)` of `syshal_gps_parse_rx_buffer_priv`
with `n` iterations left: the first byte is peeked into `syncChars[0]` and removed unless
it is SYNC1. -/
def look_for_sync1 (P : Params) : Nat → UBX_Packet_t → State → sync1_t × UBX_Packet_t × State
  | 0, packet, s => (.missing_sync1, packet, s)
  | n + 1, packet, s =>
    match syshal_uart_peek_at s 0 with
    | none => (.insufficient_bytes, packet, s)
    | some b =>
      if P.UBX_PACKET_SYNC_CHAR1 = b then
        (.label_sync_start, { packet with syncChars0 := b }, s)
      else
        -- remove this character
        let r := syshal_uart_receive s 1
        look_for_sync1 P n { packet with syncChars0 := r.1.getD 0 b } r.2

/-- The loop `while (syshal_uart_available(GPS_UART) > 0) syshal_uart_receive(.., 1)`. -/
def throw_it_all_away : Nat → State → State
  | 0, s => s
  | n + 1, s =>
    if syshal_uart_available s > 0 then throw_it_all_away n (syshal_uart_receive s 1).2 else s

end M8N

namespace M8N

/-- The C function `syshal_gps_parse_rx_buffer_priv`: the return code, the packet and the
receive buffer it leaves. -/
def syshal_gps_parse_rx_buffer_priv (P : Params) (packet : UBX_Packet_t) (s : State) :
    gps_uart_error_t × UBX_Packet_t × State :=
  let bytesInRxBuffer := syshal_uart_available s
  -- Check for minimum allowed message size
  if bytesInRxBuffer < P.UBX_HEADER_AND_CRC_LENGTH then
    (.GPS_UART_ERROR_INSUFFICIENT_BYTES, packet, s)
  else
    -- Look for SYNC1 byte
    match look_for_sync1 P bytesInRxBuffer packet s with
    | (.insufficient_bytes, packet, s) => (.GPS_UART_ERROR_INSUFFICIENT_BYTES, packet, s)
    | (.missing_sync1, packet, s) => (.GPS_UART_ERROR_MISSING_SYNC1, packet, s) -- No SYNC1 found
    | (.label_sync_start, packet, s) =>
      -- Get the next character and see if it is the expected SYNC2
      match syshal_uart_peek_at s 1 with
      | none => (.GPS_UART_ERROR_INSUFFICIENT_BYTES, packet, s)
      | some sync2 =>
        let packet := { packet with syncChars1 := sync2 }
        if P.UBX_PACKET_SYNC_CHAR2 ≠ sync2 then
          -- Okay so SYNC1 is valid but SYNC2 is not
          -- We should dispose of both to prevent the program locking
          (.GPS_UART_ERROR_MISSING_SYNC2, packet, (syshal_uart_receive s 2).2) -- Invalid SYNC2
        else
          -- Extract length field and check it is received fully
          match syshal_uart_peek_at s 4 with
          | none => (.GPS_UART_ERROR_INSUFFICIENT_BYTES, packet, s)
          | some lengthLower =>
            match syshal_uart_peek_at s 5 with
            | none => (.GPS_UART_ERROR_INSUFFICIENT_BYTES, packet, s)
            | some lengthUpper =>
              let payloadLength := (lengthLower % 256 + 256 * (lengthUpper % 256)) % 65536
              let totalLength := (payloadLength + P.UBX_HEADER_AND_CRC_LENGTH) % 65536
              if totalLength > P.UART_RX_BUF_SIZE then
                -- Message is too big to store so throw it all away
                (.GPS_UART_ERROR_MSG_TOO_BIG, packet,
                  throw_it_all_away (syshal_uart_available s) s)
              -- Check message is fully received and is in the RX buffer
              else if totalLength > bytesInRxBuffer then
                (.GPS_UART_ERROR_MSG_PENDING, packet, s)
              else
                -- Message is okay, lets grab the lot and remove it from the buffer
                let r := syshal_uart_receive s P.UBX_HEADER_LENGTH
                let packet := packet.set_header r.1
                if P.UBX_HEADER_LENGTH ≠ r.1.length then
                  (.GPS_UART_ERROR_INSUFFICIENT_BYTES, packet, r.2)
                else
                  -- Now lets get the payload
                  let totalToRead := (payloadLength + P.UBX_CRC_LENGTH) % 4294967296
                  let r2 := syshal_uart_receive r.2 totalToRead
                  let packet := { packet with
                    payloadAndCrc := r2.1 ++ packet.payloadAndCrc.drop r2.1.length }
                  if totalToRead ≠ r2.1.length then
                    (.GPS_UART_ERROR_INSUFFICIENT_BYTES, packet, r2.2)
                  -- Compute CRC and return
                  else if syshal_gps_check_checksum_priv packet ≠ 0 then
                    (.GPS_UART_ERROR_CHECKSUM, packet, r2.2)
                  else
                    (.GPS_UART_NO_ERROR, packet, r2.2)

/-- The C function `syshal_gps_process_nav_status_priv`. -/
def syshal_gps_process_nav_status_priv (packet : UBX_Packet_t) (s : State) : State :=
  { s with events := s.events ++
      [.SYSHAL_GPS_EVENT_STATUS (packet.payloadAndCrc.take packet.msgLength)] }

/-- The C function `syshal_gps_process_nav_posllh_priv`. -/
def syshal_gps_process_nav_posllh_priv (packet : UBX_Packet_t) (s : State) : State :=
  { s with events := s.events ++
      [.SYSHAL_GPS_EVENT_POSLLH (packet.payloadAndCrc.take packet.msgLength)] }

/-- The C function `syshal_gps_tick`, a `do ... while (error != GPS_UART_NO_ERROR)` loop
around the parser, with `fuel` iterations allowed; `none` when the loop has not ended by
then. The local `ubx_packet` lives across the iterations. -/
def syshal_gps_tick_loop (P : Params) : Nat → UBX_Packet_t → State → Option State
  | 0, _, _ => none
  | fuel + 1, ubx_packet, s =>
    let r := syshal_gps_parse_rx_buffer_priv P ubx_packet s
    let error := r.1
    let ubx_packet := r.2.1
    let s := r.2.2
    -- Correct packet so process it
    let s :=
      if error = .GPS_UART_NO_ERROR then
        if ubx_packet.msgClass = P.UBX_MSG_CLASS_NAV ∧
            ubx_packet.msgId = P.UBX_MSG_ID_NAV_STATUS then
          syshal_gps_process_nav_status_priv ubx_packet s
        else if ubx_packet.msgClass = P.UBX_MSG_CLASS_NAV ∧
            ubx_packet.msgId = P.UBX_MSG_ID_NAV_POSLLH then
          syshal_gps_process_nav_posllh_priv ubx_packet s
        else s
      else s
    -- Repeat this for every packet correctly received
    if error ≠ .GPS_UART_NO_ERROR then syshal_gps_tick_loop P fuel ubx_packet s else some s

/-- The C function `syshal_gps_tick`; the local `ubx_packet` is not initialised, `packet`
is what the stack holds. -/
def syshal_gps_tick (P : Params) (fuel : Nat) (packet : UBX_Packet_t) (s : State) :
    Option State :=
  syshal_gps_tick_loop P fuel packet s

/-- The constants of the UBX protocol (sync characters 0xB5 0x62, six header bytes, two
checksum bytes, class NAV 0x01 with STATUS 0x03 and POSLLH 0x02) and a receive buffer of
256 bytes. -/
def ubx_params : Params where
  UBX_PACKET_SYNC_CHAR1 := 181
  UBX_PACKET_SYNC_CHAR2 := 98
  UBX_HEADER_LENGTH := 6
  UBX_CRC_LENGTH := 2
  UBX_HEADER_AND_CRC_LENGTH := 8
  UART_RX_BUF_SIZE := 256
  UBX_MSG_CLASS_NAV := 1
  UBX_MSG_ID_NAV_STATUS := 3
  UBX_MSG_ID_NAV_POSLLH := 2

/-- A packet variable holding zeroes. -/
def blank_packet : UBX_Packet_t := ⟨0, 0, 0, 0, 0, []⟩

/-- The receive buffer holding `bytes`, no event delivered yet. -/
def received (bytes : List Nat) : State := ⟨bytes, []⟩

/-- The UBX frame of class `cls`, id `id` and payload `payload` with its checksum. -/
def ubx_frame (P : Params) (cls id : Nat) (payload : List Nat) : List Nat :=
  let body := [cls, id, payload.length % 256, payload.length / 256] ++ payload
  let ck := syshal_gps_compute_checksum_priv
    ⟨0, 0, cls, id, payload.length, payload⟩
  [P.UBX_PACKET_SYNC_CHAR1, P.UBX_PACKET_SYNC_CHAR2] ++ body ++ [ck.1, ck.2]

end M8N

/-! ## The protocol sub-state across the top-level states -/

/-- A computation that leaves `message_state` Idle when it starts with it Idle, however it
ends (return, exception or no return). -/
def StaysIdle {α : Type} (m : M α) : Prop :=
  ∀ c s, s.message_state = .SM_MESSAGE_STATE_IDLE →
    (m c s).state.message_state = .SM_MESSAGE_STATE_IDLE

/-- A fragment of a state function that leaves `message_state` Idle when it starts with it
Idle, however it ends. -/
def StaysIdleSM {α : Type} (m : SM α) : Prop :=
  ∀ c h s, s.message_state = .SM_MESSAGE_STATE_IDLE →
    (m c h s).state.message_state = .SM_MESSAGE_STATE_IDLE
/-- A fragment of a state function that leaves `current_state` of the handle as it is,
however it ends. -/
def KeepsCurrent {α : Type} (m : SM α) : Prop :=
  ∀ c h s, (m c h s).handle.current_state = h.current_state

/-- A fragment of a state function that, when it returns having selected a next state
other than the current one, returns with `message_state` Idle. -/
def LeavesIdle {α : Type} (m : SM α) : Prop :=
  ∀ c h s a h1 s1, m c h s = .ok a h1 s1 → h1.current_state ≠ h1.next_state →
    s1.message_state = .SM_MESSAGE_STATE_IDLE

/-- The C function `sm_main_exception_handler`: every case of its switch only prints. -/
def sm_main_exception_handler (_e : CEXCEPTION_T) : M Unit := pure ()

/-- Modelled from the spec: one iteration of the super-loop of the absent `main.c` around
`sm_tick` of the absent state-machine library (sections 4.4, 5 and 7). The state function
of the current state runs; when it returns, the state it selected becomes the current one
and the first-entry flag tells whether it differs from the state just run. An exception
leaves the state function and `sm_tick`, is caught by the main loop and handed to
`sm_main_exception_handler`; the handle stays as the state function left it. The result
is `none` when the iteration does not reach its end (MCU reset, a loop that does not
terminate). -/
def sm_tick (c : Ctx) (h : sm_handle_t) (s : State) : Option (sm_handle_t × State) :=
  match sm_main_states h.current_state c h s with
  | .ok _ h1 s1 =>
    some (sm_handle_t.enter h1.current_state h1.next_state
      (h1.current_state != h1.next_state), s1)
  | .throw e h1 s1 => some (h1, (sm_main_exception_handler e c s1).state)
  | .stuck _ _ _ => none

/-- Modelled from the spec: `n` iterations of the super-loop, `none` when one of them does
not reach its end. -/
def sm_ticks (c : Ctx) : Nat → sm_handle_t → State → Option (sm_handle_t × State)
  | 0, h, s => some (h, s)
  | n + 1, h, s =>
    match sm_tick c h s with
    | some (h1, s1) => sm_ticks c n h1 s1
    | none => none
/-- Number of `config_if_tick` calls in a trace. -/
def config_if_tick_count (tr : List Ev) : Nat :=
  (tr.filter fun e => e == Ev.hal .config_if_tick).length

/-- A transport that delivers the events of `script`, one list per call of
`config_if_tick`, in the quiet environment otherwise. -/
def scripted_env (script : List (List config_if_event_t)) : Env :=
  { demo_env with config_if_tick := fun tr => script.getD (config_if_tick_count tr) [] }

/-- A session cut short: the host connects, announces a CfgWrite of 12 bytes, sends
nothing more and disconnects. -/
def interrupted_session_ctx : Ctx :=
  ⟨demo_params,
    scripted_env [[.CONFIG_IF_EVENT_CONNECTED],
      [.CONFIG_IF_EVENT_RECEIVE_COMPLETE cfg_write_demo_request],
      [.CONFIG_IF_EVENT_SEND_COMPLETE 0],
      [.CONFIG_IF_EVENT_DISCONNECTED]], 1000⟩

/-- The handle with which the super-loop starts: the state Boot, entered for the first
time. -/
def boot_handle : sm_handle_t := sm_handle_t.enter .SM_MAIN_BOOT .SM_MAIN_BOOT true

/-- Where the super-loop stands after five iterations of the interrupted session. -/
def interrupted_session_end : sm_handle_t × State :=
  (sm_ticks interrupted_session_ctx 5 boot_handle initial_state).getD
    (boot_handle, initial_state)

/-- The exception a state function ended with, if any. -/
def HRes.exc {α : Type} : HRes α → Option CEXCEPTION_T
  | .throw e _ _ => some e
  | _ => none

/-! ## The segments of `sm_main_boot` -/

/-- The C function `sm_main_boot` from its first line to `fs_mount` (l.2967-3020): the
globals are reset and the peripherals, the timers and the file system are initialised. -/
def sm_main_boot_peripherals : M Unit := do
  set_default_global_values -- Set all our global static variables to their default values
  call (.hal .syshal_time_init)
  setup_buffers
  -- Initialize all configured peripherals
  call (.hal .syshal_rtc_init)
  calls .syshal_gpio_init 4
  call (.hal .syshal_gpio_set_output_high_SPI1_CS_BT)
  call (.hal .syshal_gpio_init)
  call (.hal .syshal_gpio_enable_interrupt_REED_SW)
  calls .syshal_uart_init 2
  -- Init timers
  calls .syshal_timer_init 9
  calls .syshal_spi_init 2
  calls .syshal_i2c_init 2
  call (.hal .syshal_flash_init)
  -- Re/Set global vars
  modifyState fun s => { s with syshal_gps_bridging := false }
  modifyState fun s => { s with syshal_ble_bridging := false }
  -- Load the file system
  call (.hal .fs_init)
  call (.hal .fs_mount)

/-- The lines of `sm_main_boot` under "Determine if a log file exists or not"
(l.3022-3033). -/
def sm_main_boot_log_probe : M Unit := do
  let ret ← fs_open FS_FILE_ID_LOG .FS_MODE_READONLY
  if ret = .FS_NO_ERROR then
    modifyState fun s => { s with log_file_created := true }
    fs_close
  else
    modifyState fun s => { s with log_file_created := false }

/-- The lines of `sm_main_boot` after the call of `fs_get_configuration_data`, from the
test of its return value to the reading of the saltwater switch (l.3037-3050), `ret`
being the value the call returned. -/
def sm_main_boot_configured (ret : Int) : M Unit := do
  let P ← getParams
  if !(P.fs_code .FS_NO_ERROR = ret ∨ P.fs_code .FS_ERROR_FILE_NOT_FOUND = ret ∨
      P.fs_code .FS_ERROR_FILE_VERSION_MISMATCH = ret) then
    Throw .EXCEPTION_FS_ERROR
  -- Delete any firmware images we may have
  let _ ← fs_delete FS_FILE_ID_STM32_IMAGE
  let _ ← fs_delete FS_FILE_ID_BLE_IMAGE
  -- Init the peripheral devices after configuration data has been collected
  call (.hal .syshal_gps_init)
  set_sm_gps_state .SM_GPS_STATE_ACQUIRING
  call (.hal .syshal_switch_init)
  let switch ← ask Ev.syshal_switch_get (fun env => env.syshal_switch_get)
  modifyState fun s => { s with tracker_above_water := !switch }

/-! ## A tag put on its charger -/

/-- Number of readings of the VUSB input in a trace. -/
def vusb_read_count (tr : List Ev) : Nat :=
  (tr.filter fun e => e == Ev.syshal_gpio_get_input_VUSB).length

/-- A tag put on its charger after boot: the flash is seeded, VUSB is absent at the first
reading (the one of `sm_main_boot`) and asserted from the second reading on, and the GPS
interval timer, once armed, expires at every `syshal_timer_tick`. -/
def charger_env : Env :=
  { seeded_flash_env with
    syshal_gpio_get_input_VUSB := fun tr => decide (1 ≤ vusb_read_count tr)
    syshal_timer_tick := fun tr =>
      if timer_armed .timer_gps_interval tr then [.timer_gps_interval] else [] }

/-- The context of `charger_env`. -/
def charger_ctx : Ctx := ⟨demo_params, charger_env, 1000⟩

/-! # Theorems -/

/-! ## The monad -/

theorem bind_apply {α β : Type} (m : M α) (f : α → M β) (c : Ctx) (s : State) :
    (m >>= f) c s = match m c s with
      | .ok a s1 => f a c s1
      | .throw e s1 => .throw e s1
      | .stuck w s1 => .stuck w s1 := rfl

theorem sm_bind_apply {α β : Type} (m : SM α) (f : α → SM β) (c : Ctx) (h : sm_handle_t)
    (s : State) :
    (m >>= f) c h s =
      match m c h s with
      | .ok a h1 s1 => f a c h1 s1
      | .throw e h1 s1 => .throw e h1 s1
      | .stuck w h1 s1 => .stuck w h1 s1 := rfl

theorem sm_pure_apply {α : Type} (a : α) (c : Ctx) (h : sm_handle_t) (s : State) :
    (pure a : SM α) c h s = .ok a h s := rfl

theorem lift_apply {α : Type} (m : M α) (c : Ctx) (h : sm_handle_t) (s : State) :
    (liftM m : SM α) c h s =
      match m c s with
      | .ok a s1 => .ok a h s1
      | .throw e s1 => .throw e h s1
      | .stuck w s1 => .stuck w h s1 := rfl

theorem pure_apply {α : Type} (a : α) (c : Ctx) (s : State) :
    (pure a : M α) c s = .ok a s := rfl

/-! ## CfgWrite and packet boundaries (C1) -/

/-- C1 (the code departs from the claim): the stream `15||1 2 3 4, 15||5 6 7 8` of 12
announced bytes, sent as one packet, performs both `sys_config_set` calls, sends
CFG_WRITE_CNF with NoError and ends in Idle; the same stream cut inside the first value
(`15 0 1 2` then `3 4 15 0 5 6 7 8`) performs only the first call: the second packet
copies `MIN(length, tag_data_size)` bytes although two bytes of the value are already in
the carry buffer, so the id of the second pair is swallowed, `5 6` is read as a tag id,
and the engine ends in CfgWriteError without a confirmation. -/
theorem cfg_write_split_inside_value_loses_bytes :
    (sys_config_set_calls cfg_write_demo_whole.state.trace
        = [(15, [1, 2, 3, 4]), (15, [5, 6, 7, 8])] ∧
      cfg_write_demo_whole.state.message_state = .SM_MESSAGE_STATE_IDLE ∧
      sent_packets cfg_write_demo_whole.state.trace
        = [.cmd_generic_resp .CMD_NO_ERROR, .cmd_cfg_write_cnf .CMD_NO_ERROR]) ∧
    (sys_config_set_calls cfg_write_demo_split.state.trace = [(15, [1, 2, 3, 4])] ∧
      cfg_write_demo_split.state.message_state = .SM_MESSAGE_STATE_CFG_WRITE_ERROR ∧
      cfg_write_demo_split.state.sm_context.cfg_write.error_code
        = .CMD_ERROR_INVALID_CONFIG_TAG ∧
      sent_packets cfg_write_demo_split.state.trace = [.cmd_generic_resp .CMD_NO_ERROR]) := by
  decide!

/-! ## The drain loop of Operational (C2) -/

/-- While `fs_write` answers `FS_ERROR_FILESYSTEM_FULL` and the logging buffer is not
empty, the drain loop never leaves: the `break` of the C code leaves the `switch` only,
the entry is not removed and is read again. -/
theorem drain_loop_full (c : Ctx)
    (hfull : ∀ tr h d, (c.env.fs_write tr h d).1 = .FS_ERROR_FILESYSTEM_FULL) :
    ∀ fuel h s, (buffer_read_rx s.logging_buffer).1 ≠ 0 →
      (sm_main_operational_drain_loop fuel c h s).is_stuck = true := by
  intro fuel
  induction fuel with
  | zero => intro h s _; rfl
  | succ n ih =>
    intro h s hs
    unfold sm_main_operational_drain_loop
    simp only [sm_bind_apply, lift_apply, bind_apply, getState, fs_write, ask, if_neg hs, hfull,
      sm_set_next_state, modifyState]
    exact ih _ _ hs

/-- C2 (the code departs from the claim): with one record in the logging buffer and a
full log file, the drain loop of `sm_main_operational` does not terminate, whatever the
number of iterations allowed; the iteration never reaches the code that follows the
loop. -/
theorem operational_drain_loop_never_ends_when_file_system_full :
    ∀ fuel, (sm_main_operational_drain_loop fuel log_full_ctx
      (.enter .SM_MAIN_OPERATIONAL .SM_MAIN_OPERATIONAL false) log_full_state).is_stuck
      = true := by
  intro fuel
  exact drain_loop_full log_full_ctx (fun _ _ _ => rfl) fuel _ log_full_state (by decide)

/-- The whole state function on the same input: after a thousand iterations of the loop
`sm_main_operational` has not returned. -/
theorem operational_does_not_return_when_file_system_full :
    (sm_main_operational log_full_ctx
      (.enter .SM_MAIN_OPERATIONAL .SM_MAIN_OPERATIONAL false) log_full_state).is_stuck
        = true ∧
    (sm_main_operational log_full_ctx
      (.enter .SM_MAIN_OPERATIONAL .SM_MAIN_OPERATIONAL false) log_full_state).handle.next_state
        = .SM_MAIN_LOG_FILE_FULL := by
  decide!

theorem throw_apply {α : Type} (e : CEXCEPTION_T) (c : Ctx) (s : State) :
    (Throw e : M α) c s = .throw e s := rfl

theorem message_idle_state_wrong_size (c : Ctx) (s : State) (req : List Nat)
    (rest : List (List Nat)) (cmd : cmd_id_t)
    (hrx : s.config_if_receive_buffer.queue = req :: rest)
    (hne : req ≠ [])
    (hcmd : c.P.hdr_cmd req = some cmd)
    (hsize : req.length ≠ request_size c.P cmd) :
    message_idle_state c s = .throw .EXCEPTION_REQ_WRONG_SIZE s.rx_advanced := by
  have hlen : req.length ≠ 0 := by
    intro h; exact hne (List.length_eq_zero.mp h)
  unfold message_idle_state
  simp only [bind_apply, getParams, getState, buffer_read_rx, buffer_read, hrx, List.head?_cons,
    hlen, ne_eq, not_false_eq_true, if_true, modifyState, hcmd, buffer_read_advance, if_false,
    ite_true, ite_false, List.tail_cons]
  have hs := Ne.symm hsize
  cases cmd <;>
  simp only [request_size, ne_eq] at hs hsize <;>
  simp only [cfg_read_req, cfg_write_req, cfg_save_req, cfg_restore_req, cfg_erase_req,
    cfg_protect_req, cfg_unprotect_req, gps_write_req, gps_read_req, gps_config_req,
    ble_config_req, ble_write_req, ble_read_req, status_req, fw_send_image_req,
    fw_apply_image_req, reset_req, battery_status_req, log_create_req, log_erase_req,
    log_read_req, bind_apply, getParams, throw_apply, hs, hsize, ne_eq, not_false_eq_true,
    if_true, ite_true, State.rx_advanced, hrx, List.tail_cons]

/-- C4: for each of the 21 request commands dispatched by `message_idle_state`, when the
oldest received packet carries that command and its length differs from the size the
command's handler checks, `message_idle_state` raises `EXCEPTION_REQ_WRONG_SIZE` and
the globals it leaves differ from the ones it found only by the removal of that packet
from the receive buffer: the send buffer (no slot reserved, nothing sent), the
configuration store, the file handle, the record of calls into the other modules (no
store, file system or transport call) and `message_state` are the ones it found. -/
theorem wrong_size_request_is_dropped (c : Ctx) (s : State) (req : List Nat)
    (rest : List (List Nat)) (cmd : cmd_id_t)
    (hrx : s.config_if_receive_buffer.queue = req :: rest)
    (hne : req ≠ [])
    (hcmd : c.P.hdr_cmd req = some cmd)
    (hsize : req.length ≠ request_size c.P cmd) :
    (message_idle_state c s).exc = some .EXCEPTION_REQ_WRONG_SIZE ∧
    (message_idle_state c s).state = s.rx_advanced ∧
    (message_idle_state c s).state.config_if_receive_buffer.queue = rest ∧
    (message_idle_state c s).state.config_if_send_buffer = s.config_if_send_buffer ∧
    (message_idle_state c s).state.config_if_tx_pending = s.config_if_tx_pending ∧
    (message_idle_state c s).state.sys_config = s.sys_config ∧
    (message_idle_state c s).state.file_handle = s.file_handle ∧
    (message_idle_state c s).state.trace = s.trace ∧
    (message_idle_state c s).state.message_state = s.message_state := by
  rw [message_idle_state_wrong_size c s req rest cmd hrx hne hcmd hsize]
  refine ⟨rfl, rfl, ?_, rfl, rfl, rfl, rfl, rfl, rfl⟩
  simp only [Res.state, State.rx_advanced, hrx, List.tail_cons]

theorem wrong_size_request_is_dropped_witness :
    (message_idle_state demo_ctx wrong_size_state).exc = some .EXCEPTION_REQ_WRONG_SIZE ∧
    (message_idle_state demo_ctx wrong_size_state).state = wrong_size_state.rx_advanced ∧
    (message_idle_state demo_ctx wrong_size_state).state.config_if_receive_buffer.queue = [] ∧
    (message_idle_state demo_ctx wrong_size_state).state.config_if_send_buffer =
      wrong_size_state.config_if_send_buffer ∧
    (message_idle_state demo_ctx wrong_size_state).state.config_if_tx_pending =
      wrong_size_state.config_if_tx_pending ∧
    (message_idle_state demo_ctx wrong_size_state).state.sys_config =
      wrong_size_state.sys_config ∧
    (message_idle_state demo_ctx wrong_size_state).state.file_handle =
      wrong_size_state.file_handle ∧
    (message_idle_state demo_ctx wrong_size_state).state.trace = wrong_size_state.trace ∧
    (message_idle_state demo_ctx wrong_size_state).state.message_state =
      wrong_size_state.message_state :=
  wrong_size_request_is_dropped demo_ctx wrong_size_state (demo_hdr 13 ++ [0]) []
    .CMD_STATUS_REQ rfl (by decide) (by decide!) (by decide!)

theorem message_timeout_check_quiet (c : Ctx) (s : State)
    (htime : u32_sub (u32 (c.env.syshal_time_get_ticks_ms s.trace)) s.config_if_message_timeout
      ≤ SM_MAIN_INACTIVITY_TIMEOUT_MS) :
    message_timeout_check c s = .ok () (s.record .syshal_time_get_ticks_ms) := by
  unfold message_timeout_check
  simp only [bind_apply, ask, getState]
  rw [if_neg (Nat.not_lt.mpr htime)]
  rfl

theorem handle_config_if_messages_quiet (c : Ctx) (s : State)
    (hpend : s.config_if_tx_pending = false)
    (htime : u32_sub (u32 (c.env.syshal_time_get_ticks_ms s.trace)) s.config_if_message_timeout
      ≤ SM_MAIN_INACTIVITY_TIMEOUT_MS) :
    handle_config_if_messages c s =
      TryCatch message_state_dispatch state_message_exception_handler c
        (s.record .syshal_time_get_ticks_ms) := by
  unfold handle_config_if_messages
  rw [bind_apply, message_timeout_check_quiet c s htime]
  simp only [bind_apply, getState]
  rw [if_neg (show ¬ (s.record .syshal_time_get_ticks_ms).config_if_tx_pending = true by
    show ¬ s.config_if_tx_pending = true
    rw [hpend]; decide)]
  rfl

theorem message_state_dispatch_idle (c : Ctx) (s : State)
    (hidle : s.message_state = .SM_MESSAGE_STATE_IDLE) :
    message_state_dispatch c s =
      (message_idle_state >>= fun _ => config_if_timeout_reset) c s := by
  unfold message_state_dispatch
  simp only [bind_apply, getState, hidle]

theorem handle_config_if_messages_wrong_size (c : Ctx) (s : State) (req : List Nat)
    (rest : List (List Nat)) (cmd : cmd_id_t)
    (hidle : s.message_state = .SM_MESSAGE_STATE_IDLE)
    (hpend : s.config_if_tx_pending = false)
    (htime : u32_sub (u32 (c.env.syshal_time_get_ticks_ms s.trace)) s.config_if_message_timeout
      ≤ SM_MAIN_INACTIVITY_TIMEOUT_MS)
    (hrx : s.config_if_receive_buffer.queue = req :: rest)
    (hne : req ≠ [])
    (hcmd : c.P.hdr_cmd req = some cmd)
    (hsize : req.length ≠ request_size c.P cmd) :
    handle_config_if_messages c s =
      .ok () (s.record .syshal_time_get_ticks_ms).rx_advanced := by
  have h := message_idle_state_wrong_size c
    (s.record .syshal_time_get_ticks_ms) req rest cmd hrx hne hcmd hsize
  rw [handle_config_if_messages_quiet c s hpend htime]
  unfold TryCatch
  rw [message_state_dispatch_idle c (s.record .syshal_time_get_ticks_ms) hidle, bind_apply, h]
  rfl

theorem message_timeout_check_ok (c : Ctx) (s : State) :
    message_timeout_check c s = .ok () (message_timeout_check c s).state := by
  unfold message_timeout_check
  simp only [bind_apply, ask, getState]
  split
  · simp only [message_set_state, config_if_timeout_reset, config_if_session_cleanup, fs_close,
      bind_apply, ask, call, getState, modifyState, pure_apply]
    split <;> rfl
  · rfl

theorem handle_config_if_messages_apply (c : Ctx) (s : State) :
    handle_config_if_messages c s =
      if (message_timeout_check c s).state.config_if_tx_pending = true then
        .ok () (message_timeout_check c s).state
      else
        TryCatch message_state_dispatch state_message_exception_handler c
          (message_timeout_check c s).state := by
  have h := message_timeout_check_ok c s
  unfold handle_config_if_messages
  rw [bind_apply]
  generalize message_timeout_check c s = r at h
  cases r with
  | ok a s1 =>
    simp only [bind_apply, getState, Res.state]
    split <;> rfl
  | throw e s1 => exact Res.noConfusion h
  | stuck w s1 => exact Res.noConfusion h

theorem message_timeout_check_timeout (c : Ctx) (s : State)
    (htime : u32_sub (u32 (c.env.syshal_time_get_ticks_ms s.trace)) s.config_if_message_timeout
      > SM_MAIN_INACTIVITY_TIMEOUT_MS) :
    ∃ s1, message_timeout_check c s = .ok () s1 ∧
      s1.message_state = .SM_MESSAGE_STATE_IDLE ∧
      s1.config_if_send_buffer.queue = [] ∧
      s1.config_if_receive_buffer.queue = [] ∧
      s1.config_if_tx_pending = false ∧
      s1.file_handle = none ∧
      (∀ h, s.file_handle = some h → Ev.fs_close (some h) ∈ s1.trace) := by
  unfold message_timeout_check
  simp only [bind_apply, ask, getState]
  rw [if_pos htime]
  simp only [message_set_state, config_if_timeout_reset, config_if_session_cleanup, fs_close,
    bind_apply, ask, call, getState, modifyState, pure_apply, buffer_reset]
  split
  · refine ⟨_, rfl, rfl, rfl, rfl, rfl, rfl, ?_⟩
    intro h hh
    simp only [hh, List.mem_append, List.mem_singleton, or_true]
  · rename_i hnone
    refine ⟨_, rfl, rfl, rfl, rfl, rfl, rfl, ?_⟩
    intro h hh
    rw [hh] at hnone
    exact absurd rfl hnone

theorem idle_dispatch_without_request (c : Ctx) (s : State)
    (hidle : s.message_state = .SM_MESSAGE_STATE_IDLE)
    (hrx : s.config_if_receive_buffer.queue = []) :
    ∃ s1, TryCatch message_state_dispatch state_message_exception_handler c s = .ok () s1 ∧
      s1.message_state = .SM_MESSAGE_STATE_IDLE ∧
      s1.config_if_send_buffer = s.config_if_send_buffer ∧
      s1.file_handle = s.file_handle ∧
      (∀ e, e ∈ s.trace → e ∈ s1.trace) := by
  unfold TryCatch
  rw [message_state_dispatch_idle c s hidle]
  unfold message_idle_state
  simp only [bind_apply, getParams, getState, buffer_read_rx, buffer_read, hrx, List.head?_nil,
    ne_eq, not_true_eq_false, if_false, config_if_receive_priv]
  cases hq : s.config_if_rx_queued
  · cases hw : buffer_write s.config_if_receive_buffer
    · simp only [Bool.not_false, Bool.not_true, if_true, if_false, bind_apply, throw_apply,
        state_message_exception_handler, pure_apply, Bool.false_eq_true]
      exact ⟨_, rfl, hidle, rfl, rfl, fun e he => he⟩
    · cases hr : c.env.config_if_receive s.trace
      · simp only [Bool.not_false, Bool.not_true, if_true, if_false, bind_apply, throw_apply,
          state_message_exception_handler, pure_apply, Bool.false_eq_true, ask, hr,
          config_if_timeout_reset, modifyState]
        refine ⟨_, rfl, hidle, rfl, rfl, fun e he => ?_⟩
        simp only [List.mem_append]
        exact Or.inl (Or.inl he)
      · simp only [Bool.not_false, Bool.not_true, if_true, if_false, bind_apply, throw_apply,
          state_message_exception_handler, pure_apply, Bool.false_eq_true, ask, hr,
          config_if_timeout_reset, modifyState]
        refine ⟨_, rfl, hidle, rfl, rfl, fun e he => ?_⟩
        simp only [List.mem_append]
        exact Or.inl (Or.inl he)
  · simp only [Bool.not_false, Bool.not_true, if_true, if_false, bind_apply, throw_apply,
      state_message_exception_handler, pure_apply, Bool.false_eq_true, ask,
      config_if_timeout_reset, modifyState]
    refine ⟨_, rfl, hidle, rfl, rfl, fun e he => ?_⟩
    simp only [List.mem_append]
    exact Or.inl he

/-- C6: for every message sub-state (every state of the globals), if
`handle_config_if_messages` is called when the current tick minus
`config_if_message_timeout`, modulo 2^32, is greater than 2000, it returns with
`message_state` Idle, the send buffer empty and `file_handle` NULL, `fs_close` having
been called on the handle if there was one; when the difference is 2000 or less, the
timeout check changes nothing (it only reads the tick) and the function goes on with
the pending-send test and the dispatch on the unchanged sub-state. -/
theorem inactivity_timeout_forces_idle (c : Ctx) (s : State) :
    (u32_sub (u32 (c.env.syshal_time_get_ticks_ms s.trace)) s.config_if_message_timeout
        > SM_MAIN_INACTIVITY_TIMEOUT_MS →
      (handle_config_if_messages c s).returned = true ∧
      (handle_config_if_messages c s).state.message_state = .SM_MESSAGE_STATE_IDLE ∧
      (handle_config_if_messages c s).state.config_if_send_buffer.queue = [] ∧
      (handle_config_if_messages c s).state.file_handle = none ∧
      (∀ h, s.file_handle = some h →
        Ev.fs_close (some h) ∈ (handle_config_if_messages c s).state.trace)) ∧
    (u32_sub (u32 (c.env.syshal_time_get_ticks_ms s.trace)) s.config_if_message_timeout
        ≤ SM_MAIN_INACTIVITY_TIMEOUT_MS →
      message_timeout_check c s = .ok () (s.record .syshal_time_get_ticks_ms) ∧
      handle_config_if_messages c s =
        if s.config_if_tx_pending = true then .ok () (s.record .syshal_time_get_ticks_ms)
        else TryCatch message_state_dispatch state_message_exception_handler c
          (s.record .syshal_time_get_ticks_ms)) := by
  constructor
  · intro htime
    obtain ⟨s1, h1, hidle, htx, hrx, hpend, hfile, hclose⟩ :=
      message_timeout_check_timeout c s htime
    obtain ⟨s2, h2, hidle2, htx2, hfile2, htrace2⟩ :=
      idle_dispatch_without_request c s1 hidle hrx
    have hrun : handle_config_if_messages c s = .ok () s2 := by
      rw [handle_config_if_messages_apply, h1]
      simp only [Res.state]
      rw [if_neg (by rw [hpend]; decide), h2]
    rw [hrun]
    refine ⟨rfl, hidle2, ?_, ?_, ?_⟩
    · show s2.config_if_send_buffer.queue = []
      rw [htx2, htx]
    · show s2.file_handle = none
      rw [hfile2, hfile]
    · intro h hh
      exact htrace2 _ (hclose h hh)
  · intro htime
    have h1 := message_timeout_check_quiet c s htime
    refine ⟨h1, ?_⟩
    rw [handle_config_if_messages_apply, h1]
    rfl

theorem inactivity_timeout_forces_idle_witness :
    (handle_config_if_messages late_ctx stalled_transfer_state).returned = true ∧
    (handle_config_if_messages late_ctx stalled_transfer_state).state.message_state =
      .SM_MESSAGE_STATE_IDLE ∧
    (handle_config_if_messages late_ctx stalled_transfer_state).state.config_if_send_buffer.queue
      = [] ∧
    (handle_config_if_messages late_ctx stalled_transfer_state).state.file_handle = none ∧
    (∀ h, stalled_transfer_state.file_handle = some h →
      Ev.fs_close (some h) ∈
        (handle_config_if_messages late_ctx stalled_transfer_state).state.trace) :=
  (inactivity_timeout_forces_idle late_ctx stalled_transfer_state).1 (by decide!)

/-- With the clock at 2000 ms the same stalled transfer is left alone: the send is still
pending, so nothing but the tick read happens. -/
theorem no_timeout_at_2000_ms :
    (handle_config_if_messages ⟨demo_params,
        { demo_env with syshal_time_get_ticks_ms := fun _ => 2000 }, 1000⟩
      stalled_transfer_state).state.message_state = .SM_MESSAGE_STATE_FW_SEND_IMAGE_NEXT ∧
    (handle_config_if_messages ⟨demo_params,
        { demo_env with syshal_time_get_ticks_ms := fun _ => 2000 }, 1000⟩
      stalled_transfer_state).state.file_handle = some 1 ∧
    (handle_config_if_messages late_ctx stalled_transfer_state).state.trace =
      [.syshal_time_get_ticks_ms, .syshal_time_get_ticks_ms, .fs_close (some 1),
       .config_if_receive, .syshal_time_get_ticks_ms] := by decide!

theorem u32_sub_self (a : Nat) (h : a < U32_MOD) : u32_sub a a = 0 := by
  unfold u32_sub
  rw [Nat.mod_eq_of_lt h, Nat.add_comm, Nat.add_sub_cancel, Nat.mod_self]

/-- C7: when `fw_send_image_next_state` finds in the receive buffer a packet whose length
is the remaining announced length, `fs_write` succeeds, the send buffer is empty with
at least one slot and no send is pending, then it returns normally, having written the
packet, closed the image file and handed to the transport one
`cmd_fw_send_image_complete_cnf`, whose error code is `CMD_NO_ERROR` when the running
CRC-32 updated with this packet equals the CRC of the request and
`CMD_ERROR_IMAGE_CRC_MISMATCH` otherwise; `fs_delete` of the image file is called in
the mismatch case and only then; `message_state` is Idle. -/
theorem fw_send_image_completion (c : Ctx) (s : State) (pkt : List Nat)
    (rest : List (List Nat))
    (hrx : s.config_if_receive_buffer.queue = pkt :: rest)
    (hne : pkt ≠ [])
    (hlen : pkt.length = s.sm_context.fw_send_image.length)
    (hu32 : s.sm_context.fw_send_image.length < U32_MOD)
    (hwrite : (c.env.fs_write s.trace s.file_handle pkt).1 = .FS_NO_ERROR)
    (htx : s.config_if_send_buffer.queue = [])
    (hslots : 0 < s.config_if_send_buffer.slots)
    (hpend : s.config_if_tx_pending = false) :
    (fw_send_image_next_state c s).returned = true ∧
    (fw_send_image_next_state c s).state.message_state = .SM_MESSAGE_STATE_IDLE ∧
    (fw_send_image_next_state c s).state.config_if_send_buffer.queue =
      [.cmd_fw_send_image_complete_cnf
        (if u32 (c.P.crc32 s.sm_context.fw_send_image.crc32_calculated pkt) =
            s.sm_context.fw_send_image.crc32_supplied then .CMD_NO_ERROR
         else .CMD_ERROR_IMAGE_CRC_MISMATCH)] ∧
    (fw_send_image_next_state c s).state.trace =
      s.trace ++ [Ev.fs_write s.file_handle pkt, Ev.fs_close s.file_handle] ++
        (if u32 (c.P.crc32 s.sm_context.fw_send_image.crc32_calculated pkt) =
            s.sm_context.fw_send_image.crc32_supplied then
          [Ev.config_if_send (.cmd_fw_send_image_complete_cnf .CMD_NO_ERROR)
            (CMD_SIZE c.P.sizeof_cmd_fw_send_image_complete_cnf_t)]
        else
          [Ev.fs_delete s.sm_context.fw_send_image.image_type,
           Ev.config_if_send (.cmd_fw_send_image_complete_cnf .CMD_ERROR_IMAGE_CRC_MISMATCH)
            (CMD_SIZE c.P.sizeof_cmd_fw_send_image_complete_cnf_t)]) ++
        [Ev.syshal_time_get_ticks_ms] := by
  have hl0 : pkt.length ≠ 0 := fun h => hne (List.length_eq_zero.mp h)
  have hsz : CMD_SIZE c.P.sizeof_cmd_fw_send_image_complete_cnf_t ≠ 0 := by
    unfold CMD_SIZE CMD_SIZE_HDR; omega
  have hbw : buffer_write s.config_if_send_buffer = true := by
    unfold buffer_write; rw [htx]; simpa using hslots
  rw [← hlen] at hu32
  unfold fw_send_image_next_state
  simp only [bind_apply, getParams, getState, buffer_read_rx, buffer_read, hrx, List.head?_cons,
    hl0, if_false, modifyState, buffer_read_advance, ← hlen, gt_iff_lt, lt_irrefl, pure_apply,
    set_fw_send_image, fs_write, ask, hwrite, ne_eq, not_true_eq_false, u32_sub_self _ hu32,
    fs_close, call, tx_buffer_write, hbw, Bool.not_true, Bool.false_eq_true, not_false_eq_true,
    if_true]
  by_cases hcrc : u32 (c.P.crc32 s.sm_context.fw_send_image.crc32_calculated pkt) =
      s.sm_context.fw_send_image.crc32_supplied
  · simp only [hcrc, if_true, bind_apply, pure_apply, tx_write_advance, getParams, modifyState,
      buffer_write_advance, tx_packet.size, hsz, if_false, config_if_send_priv, getState, hpend,
      Bool.false_eq_true, buffer_read_tx, buffer_read, htx, List.nil_append, List.head?_cons,
      ne_eq, not_false_eq_true, call, message_set_state, config_if_timeout_reset, ask,
      Res.returned, Res.state, List.append_assoc, List.cons_append, List.nil_append, and_self]
  · simp only [hcrc, if_true, bind_apply, pure_apply, tx_write_advance, getParams, modifyState,
      buffer_write_advance, tx_packet.size, hsz, if_false, config_if_send_priv, getState, hpend,
      Bool.false_eq_true, buffer_read_tx, buffer_read, htx, List.nil_append, List.head?_cons,
      ne_eq, not_false_eq_true, call, message_set_state, config_if_timeout_reset, ask, fs_delete,
      Res.returned, Res.state, List.append_assoc, List.cons_append, List.nil_append, and_self]


theorem fw_send_image_completion_witness :
    (fw_send_image_next_state demo_ctx (fw_send_image_last_packet_state [3, 4, 6])).returned
      = true ∧
    (fw_send_image_next_state demo_ctx
      (fw_send_image_last_packet_state [3, 4, 6])).state.message_state =
        .SM_MESSAGE_STATE_IDLE ∧
    (fw_send_image_next_state demo_ctx
      (fw_send_image_last_packet_state [3, 4, 6])).state.config_if_send_buffer.queue =
      [.cmd_fw_send_image_complete_cnf
        (if u32 (demo_ctx.P.crc32
            (fw_send_image_last_packet_state [3, 4, 6]).sm_context.fw_send_image.crc32_calculated
            [3, 4, 6]) =
            (fw_send_image_last_packet_state [3, 4, 6]).sm_context.fw_send_image.crc32_supplied
         then .CMD_NO_ERROR else .CMD_ERROR_IMAGE_CRC_MISMATCH)] ∧
    (fw_send_image_next_state demo_ctx (fw_send_image_last_packet_state [3, 4, 6])).state.trace =
      (fw_send_image_last_packet_state [3, 4, 6]).trace ++
        [Ev.fs_write (fw_send_image_last_packet_state [3, 4, 6]).file_handle [3, 4, 6],
         Ev.fs_close (fw_send_image_last_packet_state [3, 4, 6]).file_handle] ++
        (if u32 (demo_ctx.P.crc32
            (fw_send_image_last_packet_state [3, 4, 6]).sm_context.fw_send_image.crc32_calculated
            [3, 4, 6]) =
            (fw_send_image_last_packet_state [3, 4, 6]).sm_context.fw_send_image.crc32_supplied
         then
          [Ev.config_if_send (.cmd_fw_send_image_complete_cnf .CMD_NO_ERROR)
            (CMD_SIZE demo_ctx.P.sizeof_cmd_fw_send_image_complete_cnf_t)]
        else
          [Ev.fs_delete
            (fw_send_image_last_packet_state [3, 4, 6]).sm_context.fw_send_image.image_type,
           Ev.config_if_send (.cmd_fw_send_image_complete_cnf .CMD_ERROR_IMAGE_CRC_MISMATCH)
            (CMD_SIZE demo_ctx.P.sizeof_cmd_fw_send_image_complete_cnf_t)]) ++
        [Ev.syshal_time_get_ticks_ms] :=
  fw_send_image_completion demo_ctx (fw_send_image_last_packet_state [3, 4, 6]) [3, 4, 6] []
    (by decide!) (by decide) (by decide!) (by decide!) (by decide!) (by decide!) (by decide!)
    (by decide!)

/-- The whole transfer on the demo input: with the announced CRC the confirmation
carries `CMD_NO_ERROR` and the image is kept; with the last byte changed it carries
`CMD_ERROR_IMAGE_CRC_MISMATCH` and the image file is deleted. -/
theorem fw_send_image_demo_runs :
    sent_packets (fw_send_image_next_state demo_ctx
        (fw_send_image_last_packet_state [3, 4, 5])).state.trace =
      [.cmd_generic_resp .CMD_NO_ERROR, .cmd_fw_send_image_complete_cnf .CMD_NO_ERROR] ∧
    (fw_send_image_next_state demo_ctx (fw_send_image_last_packet_state [3, 4, 5])).state.trace
      = [.syshal_time_get_ticks_ms, .fs_delete 1, .fs_open 1 .FS_MODE_CREATE,
         .config_if_receive, .syshal_time_get_ticks_ms,
         .config_if_send (.cmd_generic_resp .CMD_NO_ERROR) 6, .syshal_time_get_ticks_ms,
         .syshal_time_get_ticks_ms, .fs_write (some 1) [1, 2], .config_if_receive,
         .syshal_time_get_ticks_ms, .fs_write (some 1) [3, 4, 5], .fs_close (some 1),
         .config_if_send (.cmd_fw_send_image_complete_cnf .CMD_NO_ERROR) 6,
         .syshal_time_get_ticks_ms] ∧
    sent_packets (fw_send_image_next_state demo_ctx
        (fw_send_image_last_packet_state [3, 4, 6])).state.trace =
      [.cmd_generic_resp .CMD_NO_ERROR,
       .cmd_fw_send_image_complete_cnf .CMD_ERROR_IMAGE_CRC_MISMATCH] ∧
    Ev.fs_delete 1 ∈ ((fw_send_image_next_state demo_ctx
        (fw_send_image_last_packet_state [3, 4, 6])).state.trace.drop 12) := by decide!

/-! ## State functions: sequencing and the handle -/

theorem sm_lift_bind_returned {α β : Type} (m : M α) (f : α → SM β) (c : Ctx)
    (h : sm_handle_t) (s : State)
    (hret : ((liftM m >>= f : SM β) c h s).returned = true) :
    ∃ a s1, m c s = .ok a s1 ∧ (liftM m >>= f : SM β) c h s = f a c h s1 := by
  rw [sm_bind_apply, lift_apply] at hret ⊢
  cases hm : m c s with
  | ok a s1 => exact ⟨a, s1, rfl, rfl⟩
  | throw e s1 => rw [hm] at hret; exact Bool.noConfusion hret
  | stuck w s1 => rw [hm] at hret; exact Bool.noConfusion hret

theorem sm_bind_returned {α β : Type} (m : SM α) (f : α → SM β) (c : Ctx)
    (h : sm_handle_t) (s : State)
    (hret : ((m >>= f : SM β) c h s).returned = true) :
    ∃ a h1 s1, m c h s = .ok a h1 s1 ∧ (m >>= f : SM β) c h s = f a c h1 s1 := by
  rw [sm_bind_apply] at hret ⊢
  cases hm : m c h s with
  | ok a h1 s1 => exact ⟨a, h1, s1, rfl, rfl⟩
  | throw e h1 s1 => rw [hm] at hret; exact Bool.noConfusion hret
  | stuck w h1 s1 => rw [hm] at hret; exact Bool.noConfusion hret

theorem sm_getParams_bind {β : Type} (f : Params → SM β) (c : Ctx) (h : sm_handle_t)
    (s : State) : (liftM getParams >>= f : SM β) c h s = f c.P c h s := rfl

theorem sm_getState_bind {β : Type} (f : State → SM β) (c : Ctx) (h : sm_handle_t)
    (s : State) : (liftM getState >>= f : SM β) c h s = f s c h s := rfl

theorem sm_getHandle_bind {β : Type} (f : sm_handle_t → SM β) (c : Ctx) (h : sm_handle_t)
    (s : State) : (getHandle >>= f : SM β) c h s = f h c h s := rfl

theorem sm_ask_bind {α β : Type} (e : Ev) (oracle : Env → List Ev → α) (f : α → SM β) (c : Ctx)
    (h : sm_handle_t) (s : State) :
    (liftM (ask e oracle) >>= f : SM β) c h s = f (oracle c.env s.trace) c h (s.record e) := rfl

theorem sm_call_bind {β : Type} (e : Ev) (f : Unit → SM β) (c : Ctx)
    (h : sm_handle_t) (s : State) :
    (liftM (call e) >>= f : SM β) c h s = f () c h (s.record e) := rfl

theorem sm_call_apply (e : Ev) (c : Ctx) (h : sm_handle_t) (s : State) :
    (liftM (call e) : SM Unit) c h s = .ok () h (s.record e) := rfl

theorem sm_set_next_state_bind {β : Type} (st : sm_main_state_t) (f : Unit → SM β) (c : Ctx)
    (h : sm_handle_t) (s : State) :
    (sm_set_next_state st >>= f : SM β) c h s = f () c { h with next_state := st } s := rfl

theorem sm_pure_bind {α β : Type} (a : α) (f : α → SM β) (c : Ctx)
    (h : sm_handle_t) (s : State) :
    (pure a >>= f : SM β) c h s = f a c h s := rfl

theorem sm_set_next_state_apply (st : sm_main_state_t) (c : Ctx)
    (h : sm_handle_t) (s : State) :
    sm_set_next_state st c h s = .ok () { h with next_state := st } s := rfl

theorem sm_ite_bind {α β : Type} (p : Prop) [Decidable p] (a b : SM α) (f : α → SM β) :
    (if p then a >>= f else b >>= f) = ((if p then a else b) >>= f) := by
  split <;> rfl

theorem sm_bind_assoc {α β γ : Type} (m : SM α) (f : α → SM β) (g : β → SM γ) :
    (m >>= f >>= g) = (m >>= fun a => f a >>= g) := by
  funext c h s
  simp only [sm_bind_apply]
  cases m c h s <;> rfl

theorem sm_ite_apply {α : Type} (p : Prop) [Decidable p] (a b : SM α) (c : Ctx)
    (h : sm_handle_t) (s : State) :
    (if p then a else b) c h s = if p then a c h s else b c h s := by
  split <;> rfl

theorem battery_level_low_record (P : Params) (s : State) (e : Ev) (l : Int) :
    battery_level_low P (s.record e) l = battery_level_low P s l := rfl

theorem record_config_if_connected (s : State) (e : Ev) :
    (s.record e).config_if_connected = s.config_if_connected := rfl

theorem record_last_battery_reading (s : State) (e : Ev) :
    (s.record e).last_battery_reading = s.last_battery_reading := rfl

theorem record_log_file_created (s : State) (e : Ev) :
    (s.record e).log_file_created = s.log_file_created := rfl

theorem keepsM_pure {α : Type} (a : α) : KeepsM (pure a : M α) := by
  intro c s a1 s1 h
  injection h with _ h
  subst h
  exact ⟨rfl, rfl⟩

theorem keepsM_throw {α : Type} (e : CEXCEPTION_T) : KeepsM (Throw e : M α) := by
  intro c s a1 s1 h
  exact Res.noConfusion h

theorem keepsM_bind {α β : Type} {m : M α} {f : α → M β} (hm : KeepsM m)
    (hf : ∀ a, KeepsM (f a)) : KeepsM (m >>= f) := by
  intro c s b s2 h
  rw [bind_apply] at h
  cases hr : m c s with
  | ok a s1 =>
    rw [hr] at h
    obtain ⟨h1, h2⟩ := hm c s a s1 hr
    obtain ⟨h3, h4⟩ := hf a c s1 b s2 h
    exact ⟨h3.trans h1, h4.trans h2⟩
  | throw e s1 => rw [hr] at h; exact Res.noConfusion h
  | stuck w s1 => rw [hr] at h; exact Res.noConfusion h

theorem keepsM_ite {α : Type} (p : Prop) [Decidable p] {a b : M α} (ha : KeepsM a)
    (hb : KeepsM b) : KeepsM (if p then a else b) := by
  split
  · exact ha
  · exact hb

theorem keepsM_getState : KeepsM getState := by
  intro c s a s1 h
  injection h with _ h
  subst h
  exact ⟨rfl, rfl⟩

theorem keepsM_getParams : KeepsM getParams := by
  intro c s a s1 h
  injection h with _ h
  subst h
  exact ⟨rfl, rfl⟩

theorem keepsM_modifyState (f : State → State)
    (hf : ∀ s, (f s).config_if_connected = s.config_if_connected ∧
      (f s).sys_config = s.sys_config) : KeepsM (modifyState f) := by
  intro c s a s1 h
  injection h with _ h
  subst h
  exact hf s

theorem keepsM_call (e : Ev) : KeepsM (call e) := by
  intro c s a s1 h
  injection h with _ h
  subst h
  exact ⟨rfl, rfl⟩

theorem keepsM_ask {α : Type} (e : Ev) (oracle : Env → List Ev → α) : KeepsM (ask e oracle) := by
  intro c s a s1 h
  injection h with _ h
  subst h
  exact ⟨rfl, rfl⟩

theorem keeps_lift {α : Type} {m : M α} (hm : KeepsM m) : Keeps (liftM m : SM α) := by
  intro c h s a h1 s1 hr
  rw [lift_apply] at hr
  cases hx : m c s with
  | ok a0 s0 =>
    rw [hx] at hr
    injection hr with ha hh hs
    subst hs
    exact ⟨hh.symm, hm c s a0 s0 hx⟩
  | throw e s0 => rw [hx] at hr; exact HRes.noConfusion hr
  | stuck w s0 => rw [hx] at hr; exact HRes.noConfusion hr

theorem keeps_pure {α : Type} (a : α) : Keeps (pure a : SM α) := by
  intro c h s a1 h1 s1 hr
  injection hr with _ hh hs
  subst hh hs
  exact ⟨rfl, rfl, rfl⟩

theorem keeps_getHandle : Keeps getHandle := by
  intro c h s a1 h1 s1 hr
  injection hr with _ hh hs
  subst hh hs
  exact ⟨rfl, rfl, rfl⟩

theorem keeps_bind {α β : Type} {m : SM α} {f : α → SM β} (hm : Keeps m)
    (hf : ∀ a, Keeps (f a)) : Keeps (m >>= f) := by
  intro c h s b h2 s2 hr
  rw [sm_bind_apply] at hr
  cases hx : m c h s with
  | ok a h1 s1 =>
    rw [hx] at hr
    obtain ⟨e1, e2, e3⟩ := hm c h s a h1 s1 hx
    obtain ⟨e4, e5, e6⟩ := hf a c h1 s1 b h2 s2 hr
    exact ⟨e4.trans e1, e5.trans e2, e6.trans e3⟩
  | throw e h1 s1 => rw [hx] at hr; exact HRes.noConfusion hr
  | stuck w h1 s1 => rw [hx] at hr; exact HRes.noConfusion hr

theorem keeps_ite {α : Type} (p : Prop) [Decidable p] {a b : SM α} (ha : Keeps a)
    (hb : Keeps b) : Keeps (if p then a else b) := by
  split
  · exact ha
  · exact hb

theorem keeps_bind_returned {α β : Type} {m : SM α} (hm : Keeps m) (f : α → SM β) (c : Ctx)
    (h : sm_handle_t) (s : State)
    (hret : ((m >>= f : SM β) c h s).returned = true) :
    ∃ a s1, s1.config_if_connected = s.config_if_connected ∧ s1.sys_config = s.sys_config ∧
      (m >>= f : SM β) c h s = f a c h s1 := by
  obtain ⟨a, h1, s1, hx, e⟩ := sm_bind_returned m f c h s hret
  obtain ⟨e1, e2, e3⟩ := hm c h s a h1 s1 hx
  subst e1
  exact ⟨a, s1, e2, e3, e⟩

theorem keeps_returned {α : Type} {m : SM α} (hm : Keeps m) (c : Ctx)
    (h : sm_handle_t) (s : State) (hret : (m c h s).returned = true) :
    ∃ a s1, s1.config_if_connected = s.config_if_connected ∧ s1.sys_config = s.sys_config ∧
      m c h s = .ok a h s1 := by
  cases hx : m c h s with
  | ok a h1 s1 =>
    obtain ⟨e1, e2, e3⟩ := hm c h s a h1 s1 hx
    subst e1
    exact ⟨a, s1, e2, e3, rfl⟩
  | throw e h1 s1 => rw [hx] at hret; exact Bool.noConfusion hret
  | stuck w h1 s1 => rw [hx] at hret; exact Bool.noConfusion hret

theorem battery_level_low_congr (P : Params) (s1 s : State) (l : Int)
    (h : s1.sys_config = s.sys_config) :
    battery_level_low P s1 l = battery_level_low P s l := by
  unfold battery_level_low State.hdr_set State.contents_value
  rw [h]

theorem keepsM_set_sm_gps_state (g : sm_gps_state_t) : KeepsM (set_sm_gps_state g) :=
  keepsM_modifyState _ (fun _ => ⟨rfl, rfl⟩)

theorem keepsM_syshal_gps_shutdown : KeepsM syshal_gps_shutdown := keepsM_call _

theorem keepsM_syshal_gps_wake_up : KeepsM syshal_gps_wake_up := keepsM_call _

theorem keepsM_fs_close : KeepsM fs_close :=
  keepsM_bind keepsM_getState (fun _ => keepsM_call _)

theorem sm_ite_set_bind {β : Type} (p : Prop) [Decidable p] (st : sm_main_state_t)
    (f : PUnit → SM β) (c : Ctx) (h : sm_handle_t) (s : State) :
    ((if p then sm_set_next_state st else pure PUnit.unit) >>= f) c h s =
      f () c (if p then { h with next_state := st } else h) s := by
  split <;> rfl

theorem sm_ite_set_apply (p : Prop) [Decidable p] (st : sm_main_state_t)
    (c : Ctx) (h : sm_handle_t) (s : State) :
    (if p then sm_set_next_state st else pure PUnit.unit) c h s =
      .ok () (if p then { h with next_state := st } else h) s := by
  split <;> rfl

theorem sm_ite_set_set_bind {β : Type} (p : Prop) [Decidable p] (st1 st2 : sm_main_state_t)
    (f : PUnit → SM β) (c : Ctx) (h : sm_handle_t) (s : State) :
    ((if p then sm_set_next_state st1 else sm_set_next_state st2) >>= f) c h s =
      f () c { h with next_state := if p then st1 else st2 } s := by
  split <;> rfl

theorem sm_ite_bind_apply {α β : Type} (p : Prop) [Decidable p] (a b : SM α) (f : α → SM β)
    (c : Ctx) (h : sm_handle_t) (s : State) :
    ((if p then a else b) >>= f) c h s = if p then (a >>= f) c h s else (b >>= f) c h s := by
  split <;> rfl

theorem battery_charging_next (c : Ctx) (h : sm_handle_t) (s : State) (v : Bool) (l : Int)
    (hv : ∀ tr, c.env.syshal_gpio_get_input_VUSB tr = v)
    (hl : ∀ tr, c.env.syshal_batt_level tr = l)
    (hret : (sm_main_battery_charging c h s).returned = true) :
    ∃ h1 s1, sm_main_battery_charging c h s = .ok () h1 s1 ∧
      (v = true →
        h1.next_state = if s1.config_if_connected = true then .SM_MAIN_PROVISIONING
          else h.next_state) ∧
      (v = false →
        if 0 ≤ l ∧ battery_level_low c.P s1 l = true then
          h1.next_state = .SM_MAIN_BATTERY_LEVEL_LOW
        else
          h1.next_state = .SM_MAIN_OPERATIONAL ∨
          h1.next_state = .SM_MAIN_PROVISIONING_NEEDED) := by
  unfold sm_main_battery_charging at hret ⊢
  rw [sm_getParams_bind, sm_getHandle_bind] at hret ⊢
  simp only [sm_ite_bind, ← sm_bind_assoc] at hret ⊢
  simp only [sm_bind_assoc] at hret ⊢
  -- the entry block
  obtain ⟨_, s1, -, -, e1⟩ := keeps_bind_returned (by
    repeat (first
      | exact keeps_pure _
      | exact keeps_lift (keepsM_ask _ _)
      | exact keeps_lift (keepsM_call _)
      | exact keeps_lift (keepsM_modifyState _ (fun _ => ⟨rfl, rfl⟩))
      | apply keeps_ite
      | apply keeps_bind
      | intro _)) _ c h s hret
  rw [e1] at hret ⊢; clear e1
  -- manage_ble, config_if_tick, syshal_timer_tick
  obtain ⟨_, s2, -, e2⟩ := sm_lift_bind_returned _ _ c h s1 hret
  rw [e2] at hret ⊢; clear e2
  obtain ⟨_, s3, -, e3⟩ := sm_lift_bind_returned _ _ c h s2 hret
  rw [e3] at hret ⊢; clear e3
  obtain ⟨_, s4, -, e4⟩ := sm_lift_bind_returned _ _ c h s3 hret
  rw [e4] at hret ⊢; clear e4
  rw [sm_getState_bind] at hret ⊢
  rw [sm_ite_set_bind, sm_ask_bind] at hret ⊢
  -- the enumeration timeout block
  obtain ⟨_, s5, hc5, hs5, e5⟩ := keeps_bind_returned (by
    repeat (first
      | exact keeps_pure _
      | exact keeps_lift (keepsM_ask _ _)
      | exact keeps_lift (keepsM_call _)
      | apply keeps_ite
      | apply keeps_bind
      | intro _)) _ c _ _ hret
  rw [e5] at hret ⊢; clear e5
  rw [sm_ask_bind, hv] at hret ⊢
  rw [record_config_if_connected] at hc5
  cases v
  · -- VUSB removed
    simp only [Bool.not_false, if_true] at hret ⊢
    obtain ⟨tags_set, s6, -, e6⟩ := sm_lift_bind_returned _ _ c _ _ hret
    rw [e6] at hret ⊢; clear e6
    rw [sm_getState_bind, sm_ite_set_set_bind, sm_ask_bind, hl, sm_ite_bind_apply] at hret ⊢
    by_cases h0 : 0 ≤ l
    · rw [if_pos (ge_iff_le.mpr h0), sm_bind_assoc, sm_getState_bind, battery_level_low_record,
        sm_ite_set_bind] at hret ⊢
      obtain ⟨_, s7, -, hs7, e7⟩ := keeps_returned (by
        repeat (first
          | exact keeps_pure _
          | exact keeps_lift (keepsM_ask _ _)
          | exact keeps_lift (keepsM_call _)
          | apply keeps_ite
          | apply keeps_bind
          | intro _)) c _ _ hret
      refine ⟨_, s7, e7, fun hv => Bool.noConfusion hv, fun _ => ?_⟩
      rw [battery_level_low_congr _ _ _ l hs7, battery_level_low_record]
      by_cases hlow : battery_level_low c.P s6 l = true
      · rw [if_pos ⟨h0, hlow⟩, if_pos hlow]
      · rw [if_neg (fun hn => hlow hn.2), if_neg hlow]
        show (if _ then _ else _) = _ ∨ (if _ then _ else _) = _
        split
        · exact Or.inl rfl
        · exact Or.inr rfl
    · rw [if_neg (fun hn => h0 (ge_iff_le.mp hn)), sm_pure_bind] at hret ⊢
      obtain ⟨_, s7, -, hs7, e7⟩ := keeps_returned (by
        repeat (first
          | exact keeps_pure _
          | exact keeps_lift (keepsM_ask _ _)
          | exact keeps_lift (keepsM_call _)
          | apply keeps_ite
          | apply keeps_bind
          | intro _)) c _ _ hret
      refine ⟨_, s7, e7, fun hv => Bool.noConfusion hv, fun _ => ?_⟩
      rw [if_neg (fun hn => h0 hn.1)]
      show (if _ then _ else _) = _ ∨ (if _ then _ else _) = _
      split
      · exact Or.inl rfl
      · exact Or.inr rfl
  · -- VUSB present
    simp only [Bool.not_true, Bool.false_eq_true, if_false, sm_pure_apply]
    refine ⟨_, _, rfl, fun _ => ?_, fun hv => Bool.noConfusion hv⟩
    rw [record_config_if_connected, hc5]
    split <;> rfl
theorem sm_battery_block_apply (P : Params) (l : Int) (c : Ctx) (h : sm_handle_t) (s : State) :
    (if l ≥ 0 then
        ((liftM getState : SM State) >>= fun s1 =>
          if battery_level_low P s1 l = true then
            sm_set_next_state .SM_MAIN_BATTERY_LEVEL_LOW
          else pure PUnit.unit)
      else pure PUnit.unit) c h s =
      .ok () (if 0 ≤ l ∧ battery_level_low P s l = true then
          { h with next_state := .SM_MAIN_BATTERY_LEVEL_LOW } else h) s := by
  by_cases h0 : 0 ≤ l
  · rw [if_pos (ge_iff_le.mpr h0), sm_getState_bind, sm_ite_set_apply]
    simp only [h0, true_and]
  · rw [if_neg (fun hn => h0 (ge_iff_le.mp hn)), if_neg (fun hn => h0 hn.1)]
    rfl

theorem sm_battery_block_bind {β : Type} (P : Params) (l : Int) (f : PUnit → SM β) (c : Ctx)
    (h : sm_handle_t) (s : State) :
    ((if l ≥ 0 then
        ((liftM getState : SM State) >>= fun s1 =>
          if battery_level_low P s1 l = true then
            sm_set_next_state .SM_MAIN_BATTERY_LEVEL_LOW
          else pure PUnit.unit)
      else pure PUnit.unit) >>= f) c h s =
      f () c (if 0 ≤ l ∧ battery_level_low P s l = true then
          { h with next_state := .SM_MAIN_BATTERY_LEVEL_LOW } else h) s := by
  rw [sm_bind_apply, sm_battery_block_apply]

theorem log_file_full_next (c : Ctx) (h : sm_handle_t) (s : State) (v : Bool) (l : Int)
    (hv : ∀ tr, c.env.syshal_gpio_get_input_VUSB tr = v)
    (hl : ∀ tr, c.env.syshal_batt_level tr = l)
    (hret : (sm_main_log_file_full c h s).returned = true) :
    ∃ h1 s1, sm_main_log_file_full c h s = .ok () h1 s1 ∧
      h1.next_state =
        if 0 ≤ l ∧ battery_level_low c.P s1 l = true then .SM_MAIN_BATTERY_LEVEL_LOW
        else if v = true then .SM_MAIN_BATTERY_CHARGING
        else if s1.config_if_connected = true then .SM_MAIN_PROVISIONING
        else h.next_state := by
  unfold sm_main_log_file_full at hret ⊢
  rw [sm_getParams_bind] at hret ⊢
  simp only [sm_ite_bind, ← sm_bind_assoc] at hret ⊢
  simp only [sm_bind_assoc] at hret ⊢
  obtain ⟨_, s1, -, e1⟩ := sm_lift_bind_returned _ _ c h s hret
  rw [e1] at hret ⊢; clear e1
  obtain ⟨_, s2, -, e2⟩ := sm_lift_bind_returned _ _ c h s1 hret
  rw [e2] at hret ⊢; clear e2 hret
  rw [sm_getState_bind, sm_ite_set_bind, sm_ask_bind, hv, sm_ite_set_bind, sm_ask_bind, hl,
    sm_battery_block_apply]
  refine ⟨_, _, rfl, ?_⟩
  simp only [battery_level_low_record, record_config_if_connected]
  by_cases h0 : 0 ≤ l <;> by_cases hlow : battery_level_low c.P s2 l = true <;>
    by_cases hc : s2.config_if_connected = true <;> cases v <;> simp [h0, hlow, hc]

theorem battery_level_low_next (c : Ctx) (h : sm_handle_t) (s : State) (v : Bool)
    (hv : ∀ tr, c.env.syshal_gpio_get_input_VUSB tr = v)
    (hret : (sm_main_battery_level_low c h s).returned = true) :
    ∃ h1 s1, sm_main_battery_level_low c h s = .ok () h1 s1 ∧
      h1.next_state = if v = true then .SM_MAIN_BATTERY_CHARGING else h.next_state := by
  unfold sm_main_battery_level_low at hret ⊢
  rw [sm_getState_bind, sm_getHandle_bind] at hret ⊢
  simp only [sm_ite_bind, ← sm_bind_assoc] at hret ⊢
  simp only [sm_bind_assoc] at hret ⊢
  obtain ⟨_, s1, -, -, e1⟩ := keeps_bind_returned (by
    repeat (first
      | exact keeps_pure _
      | exact keeps_lift (keepsM_call _)
      | exact keeps_lift (keepsM_set_sm_gps_state _)
      | exact keeps_lift keepsM_syshal_gps_shutdown
      | apply keeps_ite
      | apply keeps_bind
      | intro _)) _ c h s hret
  rw [e1] at hret ⊢; clear e1 hret
  rw [sm_ask_bind, hv, sm_ite_set_apply]
  refine ⟨_, _, rfl, ?_⟩
  cases v <;> rfl

theorem provisioning_needed_next (c : Ctx) (h : sm_handle_t) (s : State) (v : Bool) (l : Int)
    (hv : ∀ tr, c.env.syshal_gpio_get_input_VUSB tr = v)
    (hl : ∀ tr, c.env.syshal_batt_level tr = l)
    (hret : (sm_main_provisioning_needed c h s).returned = true) :
    ∃ h1 s1, sm_main_provisioning_needed c h s = .ok () h1 s1 ∧
      h1.next_state =
        if 0 ≤ l ∧ battery_level_low c.P s1 l = true then .SM_MAIN_BATTERY_LEVEL_LOW
        else if s1.config_if_connected = true then .SM_MAIN_PROVISIONING
        else if v = true then .SM_MAIN_BATTERY_CHARGING
        else h.next_state := by
  unfold sm_main_provisioning_needed at hret ⊢
  rw [sm_getParams_bind, sm_getState_bind, sm_getHandle_bind] at hret ⊢
  simp only [sm_ite_bind, ← sm_bind_assoc] at hret ⊢
  simp only [sm_bind_assoc] at hret ⊢
  -- the entry block
  obtain ⟨_, s1, -, -, e1⟩ := keeps_bind_returned (by
    repeat (first
      | exact keeps_pure _
      | exact keeps_lift (keepsM_set_sm_gps_state _)
      | exact keeps_lift keepsM_syshal_gps_shutdown
      | apply keeps_ite
      | apply keeps_bind
      | intro _)) _ c h s hret
  rw [e1] at hret ⊢; clear e1
  rw [sm_ask_bind, sm_getState_bind] at hret ⊢
  -- the blink block
  obtain ⟨_, s2, -, -, e2⟩ := keeps_bind_returned (by
    repeat (first
      | exact keeps_pure _
      | exact keeps_lift (keepsM_ask _ _)
      | exact keeps_lift (keepsM_call _)
      | exact keeps_lift (keepsM_modifyState _ (fun _ => ⟨rfl, rfl⟩))
      | apply keeps_ite
      | apply keeps_bind
      | intro _)) _ c h _ hret
  rw [e2] at hret ⊢; clear e2
  -- manage_ble, config_if_tick, syshal_timer_tick
  obtain ⟨_, s3, -, e3⟩ := sm_lift_bind_returned _ _ c h s2 hret
  rw [e3] at hret ⊢; clear e3
  obtain ⟨_, s4, -, e4⟩ := sm_lift_bind_returned _ _ c h s3 hret
  rw [e4] at hret ⊢; clear e4
  obtain ⟨_, s5, -, e5⟩ := sm_lift_bind_returned _ _ c h s4 hret
  rw [e5] at hret ⊢; clear e5 hret
  rw [sm_ask_bind, hv, sm_ite_set_bind, sm_getState_bind, sm_ite_set_bind, sm_ask_bind, hl,
    sm_battery_block_apply]
  refine ⟨_, _, rfl, ?_⟩
  simp only [battery_level_low_record, record_config_if_connected]
  by_cases h0 : 0 ≤ l <;> by_cases hlow : battery_level_low c.P s5 l = true <;>
    by_cases hc : s5.config_if_connected = true <;> cases v <;> simp [h0, hlow, hc]

theorem boot_next (c : Ctx) (h : sm_handle_t) (s : State) (v : Bool)
    (hv : ∀ tr, c.env.syshal_gpio_get_input_VUSB tr = v)
    (hret : (sm_main_boot c h s).returned = true) :
    ∃ h1 s1, sm_main_boot c h s = .ok () h1 s1 ∧
      (v = true → h1.next_state = .SM_MAIN_BATTERY_CHARGING) ∧
      (v = false → h1.next_state = .SM_MAIN_OPERATIONAL ∨
        h1.next_state = .SM_MAIN_PROVISIONING_NEEDED) := by
  unfold sm_main_boot at hret ⊢
  simp only [sm_ite_bind, ← sm_bind_assoc] at hret ⊢
  simp only [sm_bind_assoc] at hret ⊢
  obtain ⟨_, s1, -, e1⟩ := sm_lift_bind_returned _ _ c h s hret
  rw [e1] at hret ⊢; clear e1
  rw [sm_ask_bind, hv] at hret ⊢
  cases v
  · rw [sm_ite_apply, if_neg (by decide), sm_pure_bind] at hret ⊢
    obtain ⟨tags_set, s2, -, e2⟩ := sm_lift_bind_returned _ _ c h _ hret
    rw [e2] at hret ⊢; clear e2 hret
    rw [sm_getState_bind, sm_ite_apply]
    split
    · exact ⟨_, _, rfl, fun hv => Bool.noConfusion hv, fun _ => Or.inl rfl⟩
    · exact ⟨_, _, rfl, fun hv => Bool.noConfusion hv, fun _ => Or.inr rfl⟩
  · rw [sm_ite_apply, if_pos rfl]
    exact ⟨_, _, rfl, fun _ => rfl, fun hv => Bool.noConfusion hv⟩
theorem keepsHandle_lift {α : Type} (m : M α) : KeepsHandle (liftM m : SM α) := by
  intro c h s a h1 s1 hr
  rw [lift_apply] at hr
  cases hx : m c s with
  | ok a0 s0 =>
    rw [hx] at hr
    injection hr with _ hh _
    exact hh.symm
  | throw e s0 => rw [hx] at hr; exact HRes.noConfusion hr
  | stuck w s0 => rw [hx] at hr; exact HRes.noConfusion hr

theorem keepsHandle_pure {α : Type} (a : α) : KeepsHandle (pure a : SM α) := by
  intro c h s a1 h1 s1 hr
  injection hr with _ hh _
  exact hh.symm

theorem keepsHandle_getHandle : KeepsHandle getHandle := by
  intro c h s a1 h1 s1 hr
  injection hr with _ hh _
  exact hh.symm

theorem keepsHandle_bind {α β : Type} {m : SM α} {f : α → SM β} (hm : KeepsHandle m)
    (hf : ∀ a, KeepsHandle (f a)) : KeepsHandle (m >>= f) := by
  intro c h s b h2 s2 hr
  rw [sm_bind_apply] at hr
  cases hx : m c h s with
  | ok a h1 s1 =>
    rw [hx] at hr
    exact (hf a c h1 s1 b h2 s2 hr).trans (hm c h s a h1 s1 hx)
  | throw e h1 s1 => rw [hx] at hr; exact HRes.noConfusion hr
  | stuck w h1 s1 => rw [hx] at hr; exact HRes.noConfusion hr

theorem keepsHandle_ite {α : Type} (p : Prop) [Decidable p] {a b : SM α} (ha : KeepsHandle a)
    (hb : KeepsHandle b) : KeepsHandle (if p then a else b) := by
  split
  · exact ha
  · exact hb

theorem keepsHandle_provisioning_poll : KeepsHandle sm_main_provisioning_poll := by
  unfold sm_main_provisioning_poll
  simp only [sm_ite_bind, ← sm_bind_assoc]
  simp only [sm_bind_assoc]
  repeat (first
    | exact keepsHandle_pure _
    | exact keepsHandle_getHandle
    | exact keepsHandle_lift _
    | apply keepsHandle_ite
    | apply keepsHandle_bind
    | intro _)

theorem keepsM_config_if_timeout_reset : KeepsM config_if_timeout_reset :=
  keepsM_bind (keepsM_ask _ _) (fun _ => keepsM_modifyState _ (fun _ => ⟨rfl, rfl⟩))

theorem keepsM_message_set_state (st : sm_message_state_t) : KeepsM (message_set_state st) :=
  keepsM_bind keepsM_config_if_timeout_reset
    (fun _ => keepsM_modifyState _ (fun _ => ⟨rfl, rfl⟩))

theorem keepsM_config_if_session_cleanup : KeepsM config_if_session_cleanup := by
  unfold config_if_session_cleanup
  repeat (first
    | exact keepsM_pure _
    | exact keepsM_getState
    | exact keepsM_fs_close
    | exact keepsM_modifyState _ (fun _ => ⟨rfl, rfl⟩)
    | apply keepsM_ite
    | apply keepsM_bind
    | intro _)

theorem keepsM_provisioning_exit : KeepsM sm_main_provisioning_exit := by
  unfold sm_main_provisioning_exit
  repeat (first
    | exact keepsM_pure _
    | exact keepsM_getState
    | exact keepsM_fs_close
    | exact keepsM_call _
    | exact keepsM_message_set_state _
    | exact keepsM_config_if_session_cleanup
    | exact keepsM_modifyState _ (fun _ => ⟨rfl, rfl⟩)
    | apply keepsM_ite
    | apply keepsM_bind
    | intro _)

theorem keepsM_operational_exit : KeepsM sm_main_operational_exit := by
  unfold sm_main_operational_exit
  repeat (first
    | exact keepsM_pure _
    | exact keepsM_getState
    | exact keepsM_fs_close
    | exact keepsM_call _
    | exact keepsM_set_sm_gps_state _
    | exact keepsM_syshal_gps_shutdown
    | exact keepsM_modifyState _ (fun _ => ⟨rfl, rfl⟩)
    | apply keepsM_ite
    | apply keepsM_bind
    | intro _)

theorem provisioning_next (c : Ctx) (h : sm_handle_t) (s : State) (v : Bool) (l : Int)
    (hv : ∀ tr, c.env.syshal_gpio_get_input_VUSB tr = v)
    (hl : ∀ tr, c.env.syshal_batt_level tr = l)
    (hret : (sm_main_provisioning c h s).returned = true) :
    ∃ ready s0 h1 s1, sm_main_provisioning_poll c h s = .ok ready h s0 ∧
      sm_main_provisioning c h s = .ok () h1 s1 ∧
      h1.next_state =
        if 0 ≤ l ∧ battery_level_low c.P s1 l = true then .SM_MAIN_BATTERY_LEVEL_LOW
        else if s0.config_if_connected = true then h.next_state
        else if v = true then .SM_MAIN_BATTERY_CHARGING
        else if ready = true then .SM_MAIN_OPERATIONAL
        else .SM_MAIN_PROVISIONING_NEEDED := by
  unfold sm_main_provisioning at hret ⊢
  rw [sm_getParams_bind] at hret ⊢
  simp only [sm_ite_bind, ← sm_bind_assoc] at hret ⊢
  simp only [sm_bind_assoc] at hret ⊢
  obtain ⟨ready, h0, s0, hp, e0⟩ := sm_bind_returned _ _ c h s hret
  have hh := keepsHandle_provisioning_poll c h s ready h0 s0 hp
  subst hh
  rw [e0] at hret ⊢; clear e0
  refine ⟨ready, s0, ?_⟩
  rw [sm_getState_bind, sm_ite_bind_apply] at hret ⊢
  by_cases hc : s0.config_if_connected = true
  · rw [if_pos hc] at hret ⊢
    obtain ⟨_, s2, -, e2⟩ := sm_lift_bind_returned _ _ c _ _ hret
    rw [e2] at hret ⊢; clear e2
    rw [sm_ask_bind, hl, sm_battery_block_bind, sm_getHandle_bind] at hret ⊢
    obtain ⟨_, s3, -, hs3, e3⟩ := keeps_returned (by
      repeat (first
        | exact keeps_pure _
        | exact keeps_lift keepsM_provisioning_exit
        | apply keeps_ite)) c _ _ hret
    refine ⟨_, s3, hp, e3, ?_⟩
    rw [battery_level_low_congr _ _ _ l hs3, battery_level_low_record]
    by_cases h0 : 0 ≤ l <;> by_cases hlow : battery_level_low c.P s2 l = true <;>
      simp [h0, hlow, hc]
  · rw [if_neg hc] at hret ⊢
    rw [sm_bind_assoc, sm_ite_set_set_bind, sm_bind_assoc, sm_ask_bind, hv, sm_ite_set_bind,
      sm_ask_bind, hl, sm_battery_block_bind, sm_getHandle_bind] at hret ⊢
    obtain ⟨_, s3, -, hs3, e3⟩ := keeps_returned (by
      repeat (first
        | exact keeps_pure _
        | exact keeps_lift keepsM_provisioning_exit
        | apply keeps_ite)) c _ _ hret
    refine ⟨_, s3, hp, e3, ?_⟩
    rw [battery_level_low_congr _ _ _ l hs3, battery_level_low_record, battery_level_low_record]
    by_cases h0 : 0 ≤ l <;> by_cases hlow : battery_level_low c.P s0 l = true <;>
      cases v <;> cases ready <;> simp [h0, hlow, hc]

theorem keepsHandle_bind_returned {α β : Type} {m : SM α} (hm : KeepsHandle m) (f : α → SM β)
    (c : Ctx) (h : sm_handle_t) (s : State)
    (hret : ((m >>= f : SM β) c h s).returned = true) :
    ∃ a s1, (m >>= f : SM β) c h s = f a c h s1 := by
  obtain ⟨a, h1, s1, hx, e⟩ := sm_bind_returned m f c h s hret
  have e1 := hm c h s a h1 s1 hx
  subst e1
  exact ⟨a, s1, e⟩

theorem operational_next (c : Ctx) (h : sm_handle_t) (s : State) (v : Bool) (l : Int)
    (hv : ∀ tr, c.env.syshal_gpio_get_input_VUSB tr = v)
    (hl : ∀ tr, c.env.syshal_batt_level tr = l)
    (hret : (sm_main_operational c h s).returned = true) :
    ∃ h0 s0 h1 s1, sm_main_operational_run c h s = .ok () h0 s0 ∧
      sm_main_operational c h s = .ok () h1 s1 ∧
      h1.next_state =
        if s1.config_if_connected = true then .SM_MAIN_PROVISIONING
        else if 0 ≤ l ∧ (s0.last_battery_reading : Int) > l ∧
            battery_level_low c.P s0 l = true then .SM_MAIN_BATTERY_LEVEL_LOW
        else if v = true then .SM_MAIN_BATTERY_CHARGING
        else h0.next_state := by
  unfold sm_main_operational at hret ⊢
  rw [sm_getParams_bind] at hret ⊢
  simp only [sm_ite_bind, ← sm_bind_assoc] at hret ⊢
  simp only [sm_bind_assoc] at hret ⊢
  obtain ⟨_, h0, s0, hp, e0⟩ := sm_bind_returned _ _ c h s hret
  rw [e0] at hret ⊢; clear e0
  refine ⟨h0, s0, ?_⟩
  rw [sm_ask_bind, hv, sm_ite_set_bind, sm_ask_bind, hl, sm_ite_bind_apply] at hret ⊢
  by_cases h0l : 0 ≤ l
  · rw [if_pos (ge_iff_le.mpr h0l), sm_bind_assoc, sm_getState_bind, sm_ite_bind_apply]
      at hret ⊢
    simp only [record_last_battery_reading] at hret ⊢
    by_cases hdec : (s0.last_battery_reading : Int) > l
    · rw [if_pos hdec] at hret ⊢
      simp only [sm_bind_assoc] at hret ⊢
      obtain ⟨_, s2, e2⟩ := keepsHandle_bind_returned (by
        repeat (first
          | exact keepsHandle_pure _
          | exact keepsHandle_lift _
          | apply keepsHandle_ite)) _ c _ _ hret
      rw [e2] at hret ⊢; clear e2
      rw [sm_ite_set_bind] at hret ⊢
      obtain ⟨_, s3, -, e3⟩ := sm_lift_bind_returned _ _ c _ _ hret
      rw [e3] at hret ⊢; clear e3
      obtain ⟨_, s4, -, e4⟩ := sm_lift_bind_returned _ _ c _ _ hret
      rw [e4] at hret ⊢; clear e4
      obtain ⟨_, s5, -, e5⟩ := sm_lift_bind_returned _ _ c _ _ hret
      rw [e5] at hret ⊢; clear e5
      rw [sm_getState_bind, sm_ite_set_bind, sm_getHandle_bind] at hret ⊢
      obtain ⟨_, s6, hc6, -, e6⟩ := keeps_returned (by
        repeat (first
          | exact keeps_pure _
          | exact keeps_lift keepsM_operational_exit
          | apply keeps_ite)) c _ _ hret
      refine ⟨_, s6, hp, e6, ?_⟩
      rw [hc6]
      simp only [battery_level_low_record]
      by_cases hc : s5.config_if_connected = true <;>
        by_cases hlow : battery_level_low c.P s0 l = true <;> cases v <;>
        simp [h0l, hdec, hlow, hc]
    · rw [if_neg hdec, sm_pure_bind] at hret ⊢
      obtain ⟨_, s4, -, e4⟩ := sm_lift_bind_returned _ _ c _ _ hret
      rw [e4] at hret ⊢; clear e4
      obtain ⟨_, s5, -, e5⟩ := sm_lift_bind_returned _ _ c _ _ hret
      rw [e5] at hret ⊢; clear e5
      rw [sm_getState_bind, sm_ite_set_bind, sm_getHandle_bind] at hret ⊢
      obtain ⟨_, s6, hc6, -, e6⟩ := keeps_returned (by
        repeat (first
          | exact keeps_pure _
          | exact keeps_lift keepsM_operational_exit
          | apply keeps_ite)) c _ _ hret
      refine ⟨_, s6, hp, e6, ?_⟩
      rw [hc6]
      by_cases hc : s5.config_if_connected = true <;> cases v <;>
        simp [h0l, hdec, hc]
  · rw [if_neg (fun hn => h0l (ge_iff_le.mp hn)), sm_pure_bind] at hret ⊢
    obtain ⟨_, s4, -, e4⟩ := sm_lift_bind_returned _ _ c _ _ hret
    rw [e4] at hret ⊢; clear e4
    obtain ⟨_, s5, -, e5⟩ := sm_lift_bind_returned _ _ c _ _ hret
    rw [e5] at hret ⊢; clear e5
    rw [sm_getState_bind, sm_ite_set_bind, sm_getHandle_bind] at hret ⊢
    obtain ⟨_, s6, hc6, -, e6⟩ := keeps_returned (by
      repeat (first
        | exact keeps_pure _
        | exact keeps_lift keepsM_operational_exit
        | apply keeps_ite)) c _ _ hret
    refine ⟨_, s6, hp, e6, ?_⟩
    rw [hc6]
    by_cases hc : s5.config_if_connected = true <;> cases v <;>
      simp [h0l, hc]

/-- C8 (amended): with VUSB asserted during an iteration that completes, the next state is
Battery Charging from Boot and from Battery Level Low; from Battery Charging it is
Provisioning when the transport is connected and Battery Charging otherwise; from Log
File Full it is Battery Level Low when the battery is low and Battery Charging
otherwise; from Provisioning Needed a low battery, then a connection, come before VUSB;
from Provisioning VUSB is read only when the transport was not connected at the test of
`config_if_connected`, and a low battery comes first; from Operational a connection,
then a battery that is low and under the last reading, come before VUSB. -/
theorem vusb_asserted_next_state (c : Ctx) (s : State) (last st : sm_main_state_t)
    (first : Bool) (l : Int)
    (hv : ∀ tr, c.env.syshal_gpio_get_input_VUSB tr = true)
    (hl : ∀ tr, c.env.syshal_batt_level tr = l)
    (hret : (sm_main_states st c (.enter last st first) s).returned = true) :
    (sm_main_states st c (.enter last st first) s).handle.next_state =
      match st with
      | .SM_MAIN_BOOT => .SM_MAIN_BATTERY_CHARGING
      | .SM_MAIN_BATTERY_LEVEL_LOW => .SM_MAIN_BATTERY_CHARGING
      | .SM_MAIN_BATTERY_CHARGING =>
        if (sm_main_states st c (.enter last st first) s).state.config_if_connected = true then
          .SM_MAIN_PROVISIONING
        else .SM_MAIN_BATTERY_CHARGING
      | .SM_MAIN_LOG_FILE_FULL =>
        if 0 ≤ l ∧ battery_level_low c.P
            (sm_main_states st c (.enter last st first) s).state l = true then
          .SM_MAIN_BATTERY_LEVEL_LOW
        else .SM_MAIN_BATTERY_CHARGING
      | .SM_MAIN_PROVISIONING_NEEDED =>
        if 0 ≤ l ∧ battery_level_low c.P
            (sm_main_states st c (.enter last st first) s).state l = true then
          .SM_MAIN_BATTERY_LEVEL_LOW
        else if (sm_main_states st c (.enter last st first) s).state.config_if_connected = true
        then .SM_MAIN_PROVISIONING
        else .SM_MAIN_BATTERY_CHARGING
      | .SM_MAIN_PROVISIONING =>
        if 0 ≤ l ∧ battery_level_low c.P
            (sm_main_states st c (.enter last st first) s).state l = true then
          .SM_MAIN_BATTERY_LEVEL_LOW
        else if (sm_main_provisioning_poll c (.enter last st first) s).state.config_if_connected
            = true then
          .SM_MAIN_PROVISIONING
        else .SM_MAIN_BATTERY_CHARGING
      | .SM_MAIN_OPERATIONAL =>
        if (sm_main_states st c (.enter last st first) s).state.config_if_connected = true then
          .SM_MAIN_PROVISIONING
        else if 0 ≤ l ∧
            ((sm_main_operational_run c (.enter last st first) s).state.last_battery_reading
              : Int) > l ∧
            battery_level_low c.P (sm_main_operational_run c (.enter last st first) s).state l
              = true then
          .SM_MAIN_BATTERY_LEVEL_LOW
        else .SM_MAIN_BATTERY_CHARGING := by
  cases st
  · obtain ⟨h1, s1, e, hn, -⟩ := boot_next c _ s true hv hret
    show (sm_main_boot c _ s).handle.next_state = _
    rw [e]
    exact hn rfl
  · obtain ⟨h1, s1, e, hn, -⟩ := battery_charging_next c _ s true l hv hl hret
    show (sm_main_battery_charging c _ s).handle.next_state =
      if (sm_main_battery_charging c _ s).state.config_if_connected = true then _ else _
    rw [e]
    exact hn rfl
  · obtain ⟨h1, s1, e, hn⟩ := battery_level_low_next c _ s true hv hret
    show (sm_main_battery_level_low c _ s).handle.next_state = _
    rw [e]
    exact hn
  · obtain ⟨h1, s1, e, hn⟩ := log_file_full_next c _ s true l hv hl hret
    show (sm_main_log_file_full c _ s).handle.next_state =
      if 0 ≤ l ∧ battery_level_low c.P (sm_main_log_file_full c _ s).state l = true then _
      else _
    rw [e]
    simp only [HRes.handle, HRes.state, hn, if_true]
  · obtain ⟨h1, s1, e, hn⟩ := provisioning_needed_next c _ s true l hv hl hret
    show (sm_main_provisioning_needed c _ s).handle.next_state =
      if 0 ≤ l ∧ battery_level_low c.P (sm_main_provisioning_needed c _ s).state l = true
      then _
      else if (sm_main_provisioning_needed c _ s).state.config_if_connected = true then _
      else _
    rw [e]
    simp only [HRes.handle, HRes.state, hn, if_true]
  · obtain ⟨ready, s0, h1, s1, ep, e, hn⟩ := provisioning_next c _ s true l hv hl hret
    show (sm_main_provisioning c _ s).handle.next_state =
      if 0 ≤ l ∧ battery_level_low c.P (sm_main_provisioning c _ s).state l = true then _
      else if (sm_main_provisioning_poll c _ s).state.config_if_connected = true then _
      else _
    rw [e, ep]
    simp only [HRes.handle, HRes.state, hn, if_true, sm_handle_t.enter]
  · obtain ⟨h0, s0, h1, s1, ep, e, hn⟩ := operational_next c _ s true l hv hl hret
    show (sm_main_operational c _ s).handle.next_state =
      if (sm_main_operational c _ s).state.config_if_connected = true then _
      else if 0 ≤ l ∧ ((sm_main_operational_run c _ s).state.last_battery_reading : Int) > l ∧
          battery_level_low c.P (sm_main_operational_run c _ s).state l = true then _
      else _
    rw [e, ep]
    simp only [HRes.handle, HRes.state, hn, if_true]

theorem vusb_asserted_next_state_witness :
    (sm_main_states .SM_MAIN_LOG_FILE_FULL (power_ctx true 10)
        (.enter .SM_MAIN_OPERATIONAL .SM_MAIN_LOG_FILE_FULL true)
        (threshold_state true 255)).handle.next_state =
      if 0 ≤ (10 : Int) ∧ battery_level_low (power_ctx true 10).P
          (sm_main_states .SM_MAIN_LOG_FILE_FULL (power_ctx true 10)
            (.enter .SM_MAIN_OPERATIONAL .SM_MAIN_LOG_FILE_FULL true)
            (threshold_state true 255)).state 10 = true then
        .SM_MAIN_BATTERY_LEVEL_LOW
      else .SM_MAIN_BATTERY_CHARGING :=
  vusb_asserted_next_state (power_ctx true 10) (threshold_state true 255) .SM_MAIN_OPERATIONAL
    .SM_MAIN_LOG_FILE_FULL true 10 (fun _ => rfl) (fun _ => rfl) (by decide!)

/-- C8 (counterexample): with VUSB asserted, Log File Full selects Battery Level Low when
the battery (10 percent) is under the threshold (50 percent); Provisioning stays in
Provisioning while the transport is connected, and Operational selects Provisioning when
the transport is connected. -/
theorem vusb_asserted_but_not_battery_charging :
    ((sm_main_states .SM_MAIN_LOG_FILE_FULL (power_ctx true 10)
        (.enter .SM_MAIN_OPERATIONAL .SM_MAIN_LOG_FILE_FULL true)
        (threshold_state false 255)).returned = true ∧
     (sm_main_states .SM_MAIN_LOG_FILE_FULL (power_ctx true 10)
        (.enter .SM_MAIN_OPERATIONAL .SM_MAIN_LOG_FILE_FULL true)
        (threshold_state false 255)).handle.next_state = .SM_MAIN_BATTERY_LEVEL_LOW) ∧
    ((sm_main_states .SM_MAIN_PROVISIONING (power_ctx true 100)
        (.enter .SM_MAIN_PROVISIONING .SM_MAIN_PROVISIONING false)
        (threshold_state true 255)).returned = true ∧
     (sm_main_states .SM_MAIN_PROVISIONING (power_ctx true 100)
        (.enter .SM_MAIN_PROVISIONING .SM_MAIN_PROVISIONING false)
        (threshold_state true 255)).handle.next_state = .SM_MAIN_PROVISIONING) ∧
    ((sm_main_states .SM_MAIN_OPERATIONAL (power_ctx true 100)
        (.enter .SM_MAIN_OPERATIONAL .SM_MAIN_OPERATIONAL false)
        (threshold_state true 100)).returned = true ∧
     (sm_main_states .SM_MAIN_OPERATIONAL (power_ctx true 100)
        (.enter .SM_MAIN_OPERATIONAL .SM_MAIN_OPERATIONAL false)
        (threshold_state true 100)).handle.next_state = .SM_MAIN_PROVISIONING) := by
  decide!

/-- C9 (amended): with VUSB not asserted and the battery level read successfully, in an
iteration that completes: Battery Level Low stays in Battery Level Low; Battery Charging,
Log File Full, Provisioning Needed and Provisioning select Battery Level Low when the
level is at or under the threshold of a set threshold tag, whatever the connection
status; Operational, when the level found after its sensor and timer ticks is at or
under that threshold, selects Provisioning if the transport is connected, otherwise
Battery Level Low if the level is under the last battery reading, otherwise keeps the
state it had selected (itself, or Log File Full). Nothing is stated for Boot. -/
theorem battery_low_next_state (c : Ctx) (s : State) (last st : sm_main_state_t)
    (first : Bool) (l : Int)
    (hv : ∀ tr, c.env.syshal_gpio_get_input_VUSB tr = false)
    (hl : ∀ tr, c.env.syshal_batt_level tr = l)
    (h0 : 0 ≤ l)
    (hret : (sm_main_states st c (.enter last st first) s).returned = true) :
    match st with
    | .SM_MAIN_BOOT => True
    | .SM_MAIN_BATTERY_LEVEL_LOW =>
      (sm_main_states st c (.enter last st first) s).handle.next_state =
        .SM_MAIN_BATTERY_LEVEL_LOW
    | .SM_MAIN_OPERATIONAL =>
      battery_level_low c.P (sm_main_operational_run c (.enter last st first) s).state l
          = true →
        (sm_main_states st c (.enter last st first) s).handle.next_state =
          if (sm_main_states st c (.enter last st first) s).state.config_if_connected = true
          then .SM_MAIN_PROVISIONING
          else if ((sm_main_operational_run c (.enter last st first) s).state.last_battery_reading
              : Int) > l then
            .SM_MAIN_BATTERY_LEVEL_LOW
          else (sm_main_operational_run c (.enter last st first) s).handle.next_state
    | _ =>
      battery_level_low c.P (sm_main_states st c (.enter last st first) s).state l = true →
        (sm_main_states st c (.enter last st first) s).handle.next_state =
          .SM_MAIN_BATTERY_LEVEL_LOW := by
  cases st
  · trivial
  · obtain ⟨h1, s1, e, -, hn⟩ := battery_charging_next c _ s false l hv hl hret
    show battery_level_low c.P (sm_main_battery_charging c _ s).state l = true →
      (sm_main_battery_charging c _ s).handle.next_state = _
    rw [e]
    intro hlow
    have hn1 := hn rfl
    rw [if_pos ⟨h0, hlow⟩] at hn1
    exact hn1
  · obtain ⟨h1, s1, e, hn⟩ := battery_level_low_next c _ s false hv hret
    show (sm_main_battery_level_low c _ s).handle.next_state = _
    rw [e]
    exact hn
  · obtain ⟨h1, s1, e, hn⟩ := log_file_full_next c _ s false l hv hl hret
    show battery_level_low c.P (sm_main_log_file_full c _ s).state l = true →
      (sm_main_log_file_full c _ s).handle.next_state = _
    rw [e]
    intro hlow
    rw [if_pos ⟨h0, hlow⟩] at hn
    exact hn
  · obtain ⟨h1, s1, e, hn⟩ := provisioning_needed_next c _ s false l hv hl hret
    show battery_level_low c.P (sm_main_provisioning_needed c _ s).state l = true →
      (sm_main_provisioning_needed c _ s).handle.next_state = _
    rw [e]
    intro hlow
    rw [if_pos ⟨h0, hlow⟩] at hn
    exact hn
  · obtain ⟨ready, s0, h1, s1, ep, e, hn⟩ := provisioning_next c _ s false l hv hl hret
    show battery_level_low c.P (sm_main_provisioning c _ s).state l = true →
      (sm_main_provisioning c _ s).handle.next_state = _
    rw [e]
    intro hlow
    rw [if_pos ⟨h0, hlow⟩] at hn
    exact hn
  · obtain ⟨h0', s0, h1, s1, ep, e, hn⟩ := operational_next c _ s false l hv hl hret
    show battery_level_low c.P (sm_main_operational_run c _ s).state l = true →
      (sm_main_operational c _ s).handle.next_state =
        if (sm_main_operational c _ s).state.config_if_connected = true then _
        else if ((sm_main_operational_run c _ s).state.last_battery_reading : Int) > l then _
        else (sm_main_operational_run c _ s).handle.next_state
    rw [e, ep]
    intro hlow
    simp only [HRes.handle, HRes.state] at hlow ⊢
    rw [hn]
    simp only [h0, hlow, true_and, and_true, Bool.false_eq_true, if_false]

theorem battery_low_next_state_witness :
    (sm_main_states .SM_MAIN_PROVISIONING (power_ctx false 10)
        (.enter .SM_MAIN_PROVISIONING .SM_MAIN_PROVISIONING false)
        (threshold_state true 255)).handle.next_state = .SM_MAIN_BATTERY_LEVEL_LOW :=
  battery_low_next_state (power_ctx false 10) (threshold_state true 255) .SM_MAIN_PROVISIONING
    .SM_MAIN_PROVISIONING false 10 (fun _ => rfl) (fun _ => rfl) (by decide) (by decide!)
    (by decide!)

/-- C9 (counterexample): in Operational, with VUSB not asserted, the threshold at 50
percent and the battery read at 10 percent, the next state is not Battery Level Low when
the last reading was already 10 percent (the machine stays in Operational), nor when the
level has just fallen but the transport is connected (Provisioning is selected). -/
theorem battery_low_but_not_battery_level_low :
    ((sm_main_states .SM_MAIN_OPERATIONAL (power_ctx false 10)
        (.enter .SM_MAIN_OPERATIONAL .SM_MAIN_OPERATIONAL false)
        (threshold_state false 10)).returned = true ∧
     battery_level_low (power_ctx false 10).P
        (sm_main_states .SM_MAIN_OPERATIONAL (power_ctx false 10)
          (.enter .SM_MAIN_OPERATIONAL .SM_MAIN_OPERATIONAL false)
          (threshold_state false 10)).state 10 = true ∧
     (sm_main_states .SM_MAIN_OPERATIONAL (power_ctx false 10)
        (.enter .SM_MAIN_OPERATIONAL .SM_MAIN_OPERATIONAL false)
        (threshold_state false 10)).handle.next_state = .SM_MAIN_OPERATIONAL) ∧
    ((sm_main_states .SM_MAIN_OPERATIONAL (power_ctx false 10)
        (.enter .SM_MAIN_OPERATIONAL .SM_MAIN_OPERATIONAL false)
        (threshold_state true 100)).returned = true ∧
     (sm_main_states .SM_MAIN_OPERATIONAL (power_ctx false 10)
        (.enter .SM_MAIN_OPERATIONAL .SM_MAIN_OPERATIONAL false)
        (threshold_state true 100)).handle.next_state = .SM_MAIN_PROVISIONING) := by
  decide!

/-- C10 (amended): with VUSB not asserted, in an iteration that completes: Operational
selects Provisioning whenever the transport is connected at its end, whatever the
battery; Log File Full and Provisioning Needed select Provisioning when the transport is
connected and the battery is not low; Provisioning stays in Provisioning when the
transport was connected at its test of `config_if_connected` and the battery is not low;
Battery Level Low stays in Battery Level Low and Battery Charging never selects
Provisioning (it selects Battery Level Low, Operational or Provisioning Needed),
whatever the connection status. -/
theorem connection_next_state (c : Ctx) (s : State) (last st : sm_main_state_t)
    (first : Bool) (l : Int)
    (hv : ∀ tr, c.env.syshal_gpio_get_input_VUSB tr = false)
    (hl : ∀ tr, c.env.syshal_batt_level tr = l)
    (hret : (sm_main_states st c (.enter last st first) s).returned = true) :
    match st with
    | .SM_MAIN_BOOT => True
    | .SM_MAIN_BATTERY_LEVEL_LOW =>
      (sm_main_states st c (.enter last st first) s).handle.next_state =
        .SM_MAIN_BATTERY_LEVEL_LOW
    | .SM_MAIN_BATTERY_CHARGING =>
      (sm_main_states st c (.enter last st first) s).handle.next_state ≠ .SM_MAIN_PROVISIONING
    | .SM_MAIN_OPERATIONAL =>
      (sm_main_states st c (.enter last st first) s).state.config_if_connected = true →
        (sm_main_states st c (.enter last st first) s).handle.next_state =
          .SM_MAIN_PROVISIONING
    | .SM_MAIN_PROVISIONING =>
      (sm_main_provisioning_poll c (.enter last st first) s).state.config_if_connected = true →
      ¬ (0 ≤ l ∧ battery_level_low c.P
          (sm_main_states st c (.enter last st first) s).state l = true) →
        (sm_main_states st c (.enter last st first) s).handle.next_state =
          .SM_MAIN_PROVISIONING
    | _ =>
      (sm_main_states st c (.enter last st first) s).state.config_if_connected = true →
      ¬ (0 ≤ l ∧ battery_level_low c.P
          (sm_main_states st c (.enter last st first) s).state l = true) →
        (sm_main_states st c (.enter last st first) s).handle.next_state =
          .SM_MAIN_PROVISIONING := by
  cases st
  · trivial
  · obtain ⟨h1, s1, e, -, hn⟩ := battery_charging_next c _ s false l hv hl hret
    show (sm_main_battery_charging c _ s).handle.next_state ≠ _
    rw [e]
    have hn1 := hn rfl
    simp only [HRes.handle]
    intro hp
    rw [hp] at hn1
    split at hn1
    · exact sm_main_state_t.noConfusion hn1
    · rcases hn1 with hn1 | hn1 <;> exact sm_main_state_t.noConfusion hn1
  · obtain ⟨h1, s1, e, hn⟩ := battery_level_low_next c _ s false hv hret
    show (sm_main_battery_level_low c _ s).handle.next_state = _
    rw [e]
    exact hn
  · obtain ⟨h1, s1, e, hn⟩ := log_file_full_next c _ s false l hv hl hret
    show (sm_main_log_file_full c _ s).state.config_if_connected = true →
      ¬ (0 ≤ l ∧ battery_level_low c.P (sm_main_log_file_full c _ s).state l = true) →
      (sm_main_log_file_full c _ s).handle.next_state = _
    rw [e]
    intro hc hlow
    simp only [HRes.state] at hc hlow
    simp only [HRes.handle, hn, if_neg hlow, hc, Bool.false_eq_true, if_false, if_true]
  · obtain ⟨h1, s1, e, hn⟩ := provisioning_needed_next c _ s false l hv hl hret
    show (sm_main_provisioning_needed c _ s).state.config_if_connected = true →
      ¬ (0 ≤ l ∧ battery_level_low c.P (sm_main_provisioning_needed c _ s).state l = true) →
      (sm_main_provisioning_needed c _ s).handle.next_state = _
    rw [e]
    intro hc hlow
    simp only [HRes.state] at hc hlow
    simp only [HRes.handle, hn, if_neg hlow, hc, Bool.false_eq_true, if_false, if_true]
  · obtain ⟨ready, s0, h1, s1, ep, e, hn⟩ := provisioning_next c _ s false l hv hl hret
    show (sm_main_provisioning_poll c _ s).state.config_if_connected = true →
      ¬ (0 ≤ l ∧ battery_level_low c.P (sm_main_provisioning c _ s).state l = true) →
      (sm_main_provisioning c _ s).handle.next_state = _
    rw [e, ep]
    intro hc hlow
    simp only [HRes.state] at hc hlow
    simp only [HRes.handle, hn, if_neg hlow, hc, if_true, sm_handle_t.enter]
  · obtain ⟨h0', s0, h1, s1, ep, e, hn⟩ := operational_next c _ s false l hv hl hret
    show (sm_main_operational c _ s).state.config_if_connected = true →
      (sm_main_operational c _ s).handle.next_state = _
    rw [e]
    intro hc
    simp only [HRes.state] at hc
    simp only [HRes.handle, hn, hc, if_true]

theorem connection_next_state_witness :
    (sm_main_states .SM_MAIN_OPERATIONAL (power_ctx false 100)
        (.enter .SM_MAIN_OPERATIONAL .SM_MAIN_OPERATIONAL false)
        (threshold_state true 100)).handle.next_state = .SM_MAIN_PROVISIONING :=
  connection_next_state (power_ctx false 100) (threshold_state true 100) .SM_MAIN_OPERATIONAL
    .SM_MAIN_OPERATIONAL false 100 (fun _ => rfl) (fun _ => rfl) (by decide!) (by decide!)

/-- C10 (counterexample): with VUSB not asserted, the battery at 100 percent (threshold
50) and the transport connected, Battery Level Low stays in Battery Level Low and
Battery Charging selects Provisioning Needed. -/
theorem connected_but_not_provisioning :
    ((sm_main_states .SM_MAIN_BATTERY_LEVEL_LOW (power_ctx false 100)
        (.enter .SM_MAIN_BATTERY_LEVEL_LOW .SM_MAIN_BATTERY_LEVEL_LOW false)
        (threshold_state true 100)).returned = true ∧
     (sm_main_states .SM_MAIN_BATTERY_LEVEL_LOW (power_ctx false 100)
        (.enter .SM_MAIN_BATTERY_LEVEL_LOW .SM_MAIN_BATTERY_LEVEL_LOW false)
        (threshold_state true 100)).state.config_if_connected = true ∧
     (sm_main_states .SM_MAIN_BATTERY_LEVEL_LOW (power_ctx false 100)
        (.enter .SM_MAIN_BATTERY_LEVEL_LOW .SM_MAIN_BATTERY_LEVEL_LOW false)
        (threshold_state true 100)).handle.next_state = .SM_MAIN_BATTERY_LEVEL_LOW) ∧
    ((sm_main_states .SM_MAIN_BATTERY_CHARGING (power_ctx false 100)
        (.enter .SM_MAIN_BATTERY_CHARGING .SM_MAIN_BATTERY_CHARGING false)
        (threshold_state true 100)).returned = true ∧
     (sm_main_states .SM_MAIN_BATTERY_CHARGING (power_ctx false 100)
        (.enter .SM_MAIN_BATTERY_CHARGING .SM_MAIN_BATTERY_CHARGING false)
        (threshold_state true 100)).state.config_if_connected = true ∧
     (sm_main_states .SM_MAIN_BATTERY_CHARGING (power_ctx false 100)
        (.enter .SM_MAIN_BATTERY_CHARGING .SM_MAIN_BATTERY_CHARGING false)
        (threshold_state true 100)).handle.next_state = .SM_MAIN_PROVISIONING_NEEDED) := by
  decide!

/-! ## CfgRead(all) (C5) -/

theorem tag_value_stream_nil (P : Params) (store : Nat → sys_config_entry) :
    tag_value_stream P store [] = [] := rfl

theorem tag_value_stream_cons (P : Params) (store : Nat → sys_config_entry) (tag : Nat)
    (tags : List Nat) :
    tag_value_stream P store (tag :: tags) =
      (if tag_is_readable P store tag = true then tag_value_bytes P store tag else []) ++
        tag_value_stream P store tags := by
  unfold tag_value_stream
  by_cases h : tag_is_readable P store tag = true
  · simp [List.filter_cons, h]
  · simp [List.filter_cons, h]

theorem tag_value_stream_append (P : Params) (store : Nat → sys_config_entry)
    (l1 l2 : List Nat) :
    tag_value_stream P store (l1 ++ l2) =
      tag_value_stream P store l1 ++ tag_value_stream P store l2 := by
  unfold tag_value_stream
  simp [List.filter_append]

theorem tag_value_stream_congr (P : Params) (store1 store2 : Nat → sys_config_entry)
    (l : List Nat) (h : ∀ t, t ∈ l → store1 t = store2 t) :
    tag_value_stream P store1 l = tag_value_stream P store2 l := by
  induction l with
  | nil => rfl
  | cons t l ih =>
    have ht : store1 t = store2 t := h t (List.mem_cons_self _ _)
    have hr : tag_is_readable P store1 t = tag_is_readable P store2 t := by
      unfold tag_is_readable sys_config_get
      rw [ht]
    have hb : tag_value_bytes P store1 t = tag_value_bytes P store2 t := by
      unfold tag_value_bytes sys_config_get
      rw [ht]
    rw [tag_value_stream_cons, tag_value_stream_cons, hr, hb,
      ih (fun u hu => h u (List.mem_cons_of_mem _ hu))]

theorem tag_is_readable_iff (P : Params) (store : Nat → sys_config_entry) (tag : Nat)
    (hmem : tag ∈ P.sys_config_tags) :
    tag_is_readable P store tag = true ↔
      ((store tag).set = true ∧ 0 < P.sys_config_tag_size tag) := by
  unfold tag_is_readable sys_config_get
  rw [if_pos hmem]
  by_cases hs : (store tag).set = true
  · simp [hs]
  · simp [hs, SYS_CONFIG_ERROR_TAG_NOT_SET]

theorem tag_value_length_cons (P : Params) (store : Nat → sys_config_entry) (tag : Nat)
    (tags : List Nat) :
    tag_value_length P store (tag :: tags) =
      (if tag_is_readable P store tag = true then P.sys_config_tag_size tag + 2 else 0) +
        tag_value_length P store tags := rfl

theorem tag_value_length_congr (P : Params) (store1 store2 : Nat → sys_config_entry)
    (l : List Nat) (h : ∀ t, (store1 t).set = (store2 t).set) :
    tag_value_length P store1 l = tag_value_length P store2 l := by
  induction l with
  | nil => rfl
  | cons t l ih =>
    have hr : tag_is_readable P store1 t = tag_is_readable P store2 t := by
      unfold tag_is_readable sys_config_get
      rw [h t]
      by_cases hm : t ∈ P.sys_config_tags
      · by_cases hs : (store2 t).set = true
        · rw [if_pos hm, if_pos hm, if_pos hs, if_pos hs]
        · rw [if_pos hm, if_pos hm, if_neg hs, if_neg hs]
      · rw [if_neg hm, if_neg hm]
    rw [tag_value_length_cons, tag_value_length_cons, hr, ih]

theorem tag_value_stream_length (P : Params) (store : Nat → sys_config_entry)
    (hok : store_sizes_ok P store) (l : List Nat) (hl : ∀ t, t ∈ l → t ∈ P.sys_config_tags) :
    (tag_value_stream P store l).length = tag_value_length P store l := by
  induction l with
  | nil => rfl
  | cons t l ih =>
    have hmem := hl t (List.mem_cons_self _ _)
    rw [tag_value_stream_cons, List.length_append,
      ih (fun u hu => hl u (List.mem_cons_of_mem _ hu)), tag_value_length_cons]
    by_cases hr : tag_is_readable P store t = true
    · rw [if_pos hr, if_pos hr]
      have hs := ((tag_is_readable_iff P store t hmem).mp hr).1
      unfold tag_value_bytes sys_config_get
      rw [if_pos hmem, if_pos hs]
      simp only [List.length_append, List.length_cons, List.length_nil]
      rw [hok t hmem hs]
      omega
    · rw [if_neg hr, if_neg hr]
      rfl

theorem sent_packets_append (a b : List Ev) :
    sent_packets (a ++ b) = sent_packets a ++ sent_packets b := by
  induction a with
  | nil => rfl
  | cons e a ih =>
    cases e <;> simp only [List.cons_append, sent_packets] <;>
      first | exact ih | exact congrArg _ ih

theorem fill_frame_refl (P : Params) (s : State) : fill_frame P s s :=
  ⟨rfl, rfl, rfl, rfl, rfl, fun _ => rfl, fun _ _ => rfl⟩

theorem fill_frame_trans (P : Params) (s s1 s2 : State) (h1 : fill_frame P s s1)
    (h2 : fill_frame P s1 s2) : fill_frame P s s2 :=
  ⟨h2.message_state.trans h1.message_state, h2.send_buffer.trans h1.send_buffer,
   h2.tx_pending.trans h1.tx_pending, h2.length.trans h1.length, h2.sent.trans h1.sent,
   fun t => (h2.set_flags t).trans (h1.set_flags t),
   fun t ht => (h2.others t ht).trans (h1.others t ht)⟩

theorem le_bytes_length (w n : Nat) : (le_bytes w n).length = w := by
  induction w generalizing n with
  | zero => rfl
  | succ w ih => simp only [le_bytes, List.length_cons, ih]

theorem store_sizes_ok_set_contents (P : Params) (s : State) (bytes : List Nat)
    (hb : bytes.length = P.sys_config_tag_size P.tag.LOGGING_FILE_SIZE)
    (hok : store_sizes_ok P s.sys_config) :
    store_sizes_ok P (s.set_contents P.tag.LOGGING_FILE_SIZE bytes).sys_config := by
  intro tag hmem hset
  unfold State.set_contents at hset ⊢
  simp only at hset ⊢
  by_cases ht : tag = P.tag.LOGGING_FILE_SIZE
  · rw [if_pos ht] at hset ⊢
    simp only
    rw [ht, hb]
  · rw [if_neg ht] at hset ⊢
    exact hok tag hmem hset

theorem set_contents_frame (P : Params) (s : State) (bytes : List Nat) :
    fill_frame P s (s.set_contents P.tag.LOGGING_FILE_SIZE bytes) := by
  refine ⟨rfl, rfl, rfl, rfl, rfl, fun t => ?_, fun t ht => ?_⟩
  · unfold State.set_contents
    simp only
    split <;> rfl
  · unfold State.set_contents
    simp only
    rw [if_neg ht]

theorem populate_log_file_size_tag_spec (c : Ctx) (s : State)
    (hlfs : c.P.sys_config_tag_size c.P.tag.LOGGING_FILE_SIZE = 4)
    (hok : store_sizes_ok c.P s.sys_config) :
    ∃ s1, populate_log_file_size_tag c s = .ok () s1 ∧ fill_frame c.P s s1 ∧
      s1.sm_context = s.sm_context ∧ store_sizes_ok c.P s1.sys_config := by
  unfold populate_log_file_size_tag
  simp only [bind_apply, getState, getParams]
  by_cases hc : s.log_file_created = true
  · rw [if_pos hc]
    simp only [bind_apply, ask]
    by_cases hr : (c.env.fs_stat s.trace FS_FILE_ID_LOG).1 = .FS_NO_ERROR
    · rw [if_pos hr]
      refine ⟨_, rfl, ?_, rfl, ?_⟩
      · have h1 := set_contents_frame c.P (s.record (Ev.fs_stat FS_FILE_ID_LOG))
          (le_bytes 4 (c.env.fs_stat s.trace FS_FILE_ID_LOG).2)
        refine ⟨h1.message_state, h1.send_buffer, h1.tx_pending, h1.length, ?_, h1.set_flags,
          h1.others⟩
        show sent_packets (s.trace ++ [Ev.fs_stat FS_FILE_ID_LOG]) = _
        rw [sent_packets_append]
        exact List.append_nil _
      · exact store_sizes_ok_set_contents c.P (s.record (Ev.fs_stat FS_FILE_ID_LOG)) _
          ((le_bytes_length 4 _).trans hlfs.symm) hok
    · rw [if_neg hr]
      refine ⟨_, rfl, ?_, rfl, ?_⟩
      · have h1 := set_contents_frame c.P (s.record (Ev.fs_stat FS_FILE_ID_LOG)) (le_bytes 4 0)
        refine ⟨h1.message_state, h1.send_buffer, h1.tx_pending, h1.length, ?_, h1.set_flags,
          h1.others⟩
        show sent_packets (s.trace ++ [Ev.fs_stat FS_FILE_ID_LOG]) = _
        rw [sent_packets_append]
        exact List.append_nil _
      · exact store_sizes_ok_set_contents c.P (s.record (Ev.fs_stat FS_FILE_ID_LOG)) _
          ((le_bytes_length 4 _).trans hlfs.symm) hok
  · rw [if_neg hc]
    exact ⟨_, rfl, set_contents_frame c.P s _, rfl,
      store_sizes_ok_set_contents c.P s _ ((le_bytes_length 4 _).trans hlfs.symm) hok⟩

theorem mem_write_at_end (buf bytes : List Nat) : mem_write buf buf.length bytes = buf ++ bytes := by
  unfold mem_write
  simp

theorem populate_loop_step (c : Ctx) (fuel i tag : Nat) (s : State)
    (hget : c.P.sys_config_tags.get? i = some tag)
    (hidx : s.sm_context.cfg_read.last_index = i) :
    cfg_read_populate_buffer_loop (fuel + 1) c s =
      match (if c.P.tag.LOGGING_FILE_SIZE = tag then populate_log_file_size_tag else pure ()) c
          { s with sm_context := { s.sm_context with cfg_read :=
            { s.sm_context.cfg_read with last_index := u16 (i + 1) } } } with
      | .ok _ s1 =>
        if (sys_config_get c.P s1.sys_config tag).1 > 0 then
          if s1.sm_context.cfg_read.buffer_offset + (sys_config_get c.P s1.sys_config tag).1.toNat
              + 2 > c.P.SYSHAL_USB_PACKET_SIZE then
            .ok () { s1 with sm_context := { s1.sm_context with cfg_read :=
              { s1.sm_context.cfg_read with
                last_index := u16_sub s1.sm_context.cfg_read.last_index 1 } } }
          else
            cfg_read_populate_buffer_loop fuel c
              (cfg_read_populate_next tag (sys_config_get c.P s1.sys_config tag).2
                (u16 (sys_config_get c.P s1.sys_config tag).1.toNat) c s1).state
        else cfg_read_populate_buffer_loop fuel c s1
      | .throw e s1 => .throw e s1
      | .stuck w s1 => .stuck w s1 := by
  rw [cfg_read_populate_buffer_loop]
  simp only [bind_apply, getState, getParams, sys_config_iterate, hidx, hget, modifyState]
  by_cases hl : c.P.tag.LOGGING_FILE_SIZE = tag
  · rw [if_pos hl, if_pos hl, bind_apply]
    cases populate_log_file_size_tag c
          { s with sm_context := { s.sm_context with cfg_read :=
            { s.sm_context.cfg_read with last_index := u16 (i + 1) } } } with
    | ok a s1 =>
      simp only [bind_apply, getState]
      split
      · split
        · rfl
        · rfl
      · rfl
    | throw e s1 => rfl
    | stuck w s1 => rfl
  · rw [if_neg hl, if_neg hl]
    simp only [bind_apply, getState, pure_apply]
    split
    · split
      · rfl
      · rfl
    · rfl

theorem refresh_step (c : Ctx) (tag : Nat) (s : State)
    (hlfs : c.P.sys_config_tag_size c.P.tag.LOGGING_FILE_SIZE = 4)
    (hok : store_sizes_ok c.P s.sys_config) :
    ∃ s1, (if c.P.tag.LOGGING_FILE_SIZE = tag then populate_log_file_size_tag else pure ()) c s
        = .ok () s1 ∧
      fill_frame c.P s s1 ∧ s1.sm_context = s.sm_context ∧ store_sizes_ok c.P s1.sys_config ∧
      (c.P.tag.LOGGING_FILE_SIZE ≠ tag → s1.sys_config = s.sys_config) := by
  by_cases hl : c.P.tag.LOGGING_FILE_SIZE = tag
  · rw [if_pos hl]
    obtain ⟨s1, e, hf, hc, hk⟩ := populate_log_file_size_tag_spec c s hlfs hok
    exact ⟨s1, e, hf, hc, hk, fun hn => absurd hl hn⟩
  · rw [if_neg hl]
    exact ⟨s, rfl, fill_frame_refl _ _, rfl, hok, fun _ => rfl⟩

theorem populate_next_spec (c : Ctx) (tag : Nat) (src : List Nat) (len : Nat) (s : State)
    (hb : s.sm_context.cfg_read.buffer_base.length = s.sm_context.cfg_read.buffer_offset) :
    (cfg_read_populate_next tag src len c s).state.sm_context.cfg_read.buffer_base =
        s.sm_context.cfg_read.buffer_base ++ ([tag % 256, tag / 256 % 256] ++ src.take len) ∧
    (cfg_read_populate_next tag src len c s).state.sm_context.cfg_read.buffer_offset =
        u32 (s.sm_context.cfg_read.buffer_offset + 2 + len) ∧
    (cfg_read_populate_next tag src len c s).state.sm_context.cfg_read.last_index =
        s.sm_context.cfg_read.last_index ∧
    (cfg_read_populate_next tag src len c s).state.sys_config = s.sys_config ∧
    fill_frame c.P s (cfg_read_populate_next tag src len c s).state := by
  refine ⟨?_, rfl, rfl, rfl, ⟨rfl, rfl, rfl, rfl, rfl, fun _ => rfl, fun _ _ => rfl⟩⟩
  unfold cfg_read_populate_next
  simp only [modifyState, Res.state]
  rw [← hb, mem_write_at_end]
  have h1 : s.sm_context.cfg_read.buffer_base.length + 1 =
      (s.sm_context.cfg_read.buffer_base ++ [tag % 256]).length := by simp
  rw [h1, mem_write_at_end]
  have h2 : s.sm_context.cfg_read.buffer_base.length + 2 =
      (s.sm_context.cfg_read.buffer_base ++ [tag % 256] ++ [tag / 256 % 256]).length := by simp
  rw [h2, mem_write_at_end]
  simp

theorem u16_of_lt (n : Nat) (h : n < 65536) : u16 n = n := Nat.mod_eq_of_lt h

theorem u16_sub_succ_one (n : Nat) (h : n + 1 < 65536) : u16_sub (n + 1) 1 = n := by
  unfold u16_sub
  omega

theorem u32_of_lt (n : Nat) (h : n < U32_MOD) : u32 n = n := Nat.mod_eq_of_lt h

theorem populate_loop_none (c : Ctx) (fuel : Nat) (s : State)
    (hget : c.P.sys_config_tags.get? s.sm_context.cfg_read.last_index = none) :
    cfg_read_populate_buffer_loop (fuel + 1) c s = .ok () s := by
  rw [cfg_read_populate_buffer_loop]
  simp only [bind_apply, getState, getParams, sys_config_iterate, hget]
  rfl

theorem sys_config_get_readable (P : Params) (store : Nat → sys_config_entry) (tag : Nat)
    (hmem : tag ∈ P.sys_config_tags) (hr : tag_is_readable P store tag = true) :
    sys_config_get P store tag = ((P.sys_config_tag_size tag : Int), (store tag).contents) := by
  have hs := ((tag_is_readable_iff P store tag hmem).mp hr).1
  unfold sys_config_get
  rw [if_pos hmem, if_pos hs]

theorem tag_is_readable_of_set_flags (P : Params) (store1 store2 : Nat → sys_config_entry)
    (tag : Nat) (h : (store1 tag).set = (store2 tag).set) :
    tag_is_readable P store1 tag = tag_is_readable P store2 tag := by
  unfold tag_is_readable sys_config_get
  rw [h]
  by_cases hm : tag ∈ P.sys_config_tags
  · by_cases hs : (store2 tag).set = true
    · rw [if_pos hm, if_pos hm, if_pos hs, if_pos hs]
    · rw [if_pos hm, if_pos hm, if_neg hs, if_neg hs]
  · rw [if_neg hm, if_neg hm]

theorem tag_value_bytes_of_entry (P : Params) (store1 store2 : Nat → sys_config_entry)
    (tag : Nat) (h : store1 tag = store2 tag) :
    tag_value_bytes P store1 tag = tag_value_bytes P store2 tag := by
  unfold tag_value_bytes sys_config_get
  rw [h]

theorem drop_eq_cons_of_get (l : List Nat) (i tag : Nat) (h : l.get? i = some tag) :
    l.drop i = tag :: l.drop (i + 1) := by
  induction l generalizing i with
  | nil => simp at h
  | cons a l ih =>
    cases i with
    | zero =>
      simp only [List.get?_cons_zero, Option.some.injEq] at h
      simp [h]
    | succ i =>
      simp only [List.get?_cons_succ] at h
      simpa using ih i h

theorem not_mem_drop_succ_of_nodup (l : List Nat) (i tag : Nat) (hn : l.Nodup)
    (h : l.get? i = some tag) : tag ∉ l.drop (i + 1) := by
  have h1 : (l.drop i).Nodup := hn.sublist (List.drop_sublist i l)
  rw [drop_eq_cons_of_get l i tag h] at h1
  exact (List.nodup_cons.mp h1).1

theorem populate_loop_spec (c : Ctx) (hP : schema_ok c.P) :
    ∀ n fuel i s, c.P.sys_config_tags.length - i = n → i ≤ c.P.sys_config_tags.length →
      n + 1 ≤ fuel →
      s.sm_context.cfg_read.last_index = i →
      s.sm_context.cfg_read.buffer_base.length = s.sm_context.cfg_read.buffer_offset →
      s.sm_context.cfg_read.buffer_offset ≤ c.P.SYSHAL_USB_PACKET_SIZE →
      store_sizes_ok c.P s.sys_config →
      ∃ s1 j, cfg_read_populate_buffer_loop fuel c s = .ok () s1 ∧
        i ≤ j ∧ j ≤ c.P.sys_config_tags.length ∧
        s1.sm_context.cfg_read.last_index = j ∧
        s1.sm_context.cfg_read.buffer_base = s.sm_context.cfg_read.buffer_base ++
          tag_value_stream c.P s1.sys_config ((c.P.sys_config_tags.drop i).take (j - i)) ∧
        s1.sm_context.cfg_read.buffer_base.length = s1.sm_context.cfg_read.buffer_offset ∧
        s1.sm_context.cfg_read.buffer_offset ≤ c.P.SYSHAL_USB_PACKET_SIZE ∧
        (j < c.P.sys_config_tags.length → ∃ tag, c.P.sys_config_tags.get? j = some tag ∧
          tag_is_readable c.P s1.sys_config tag = true ∧
          c.P.SYSHAL_USB_PACKET_SIZE <
            s1.sm_context.cfg_read.buffer_offset + c.P.sys_config_tag_size tag + 2) ∧
        fill_frame c.P s s1 ∧ store_sizes_ok c.P s1.sys_config ∧
        (c.P.tag.LOGGING_FILE_SIZE ∉ c.P.sys_config_tags.drop i →
          s1.sys_config = s.sys_config) := by
  intro n
  induction n with
  | zero =>
    intro fuel i s hn hi hf hidx hb hoff hok
    have hi' : i = c.P.sys_config_tags.length := by omega
    obtain ⟨f, rfl⟩ : ∃ f, fuel = f + 1 := ⟨fuel - 1, by omega⟩
    have hget : c.P.sys_config_tags.get? s.sm_context.cfg_read.last_index = none := by
      rw [hidx, hi']
      exact List.get?_eq_none.mpr (Nat.le_refl _)
    refine ⟨s, i, populate_loop_none c f s hget, Nat.le_refl _, hi, hidx, ?_, hb, hoff, ?_,
      fill_frame_refl _ _, hok, fun _ => rfl⟩
    · rw [Nat.sub_self, List.take_zero, tag_value_stream_nil, List.append_nil]
    · intro hlt
      omega
  | succ n ih =>
    intro fuel i s hn hi hf hidx hb hoff hok
    have hlt : i < c.P.sys_config_tags.length := by omega
    obtain ⟨f, rfl⟩ : ∃ f, fuel = f + 1 := ⟨fuel - 1, by omega⟩
    have hget : c.P.sys_config_tags.get? i = some (c.P.sys_config_tags.get ⟨i, hlt⟩) :=
      List.get?_eq_get hlt
    generalize c.P.sys_config_tags.get ⟨i, hlt⟩ = tag at hget
    have hmem : tag ∈ c.P.sys_config_tags := List.get?_mem hget
    have hdrop := drop_eq_cons_of_get _ i tag hget
    have hnot := not_mem_drop_succ_of_nodup _ i tag hP.nodup hget
    have hu16 : u16 (i + 1) = i + 1 := u16_of_lt _ (by have := hP.count; omega)
    rw [populate_loop_step c f i tag s hget hidx]
    obtain ⟨s1, e1, hf1, hc1, hok1, hs1⟩ := refresh_step c tag
      { s with sm_context := { s.sm_context with cfg_read :=
        { s.sm_context.cfg_read with last_index := u16 (i + 1) } } } hP.log_file_size hok
    rw [e1]
    simp only
    have hidx1 : s1.sm_context.cfg_read.last_index = i + 1 := by rw [hc1]; exact hu16
    have hbase1 : s1.sm_context.cfg_read.buffer_base = s.sm_context.cfg_read.buffer_base := by
      rw [hc1]
    have hoff1 : s1.sm_context.cfg_read.buffer_offset = s.sm_context.cfg_read.buffer_offset := by
      rw [hc1]
    have hfs1 : fill_frame c.P s s1 :=
      ⟨hf1.message_state, hf1.send_buffer, hf1.tx_pending, by rw [hc1], hf1.sent,
        hf1.set_flags, hf1.others⟩
    have htake : ∀ j, i + 1 ≤ j →
        (c.P.sys_config_tags.drop i).take (j - i) =
          tag :: (c.P.sys_config_tags.drop (i + 1)).take (j - (i + 1)) := by
      intro j hj
      have hji : j - i = (j - (i + 1)) + 1 := by omega
      rw [hdrop, hji, List.take_succ_cons]
    by_cases hr : tag_is_readable c.P s1.sys_config tag = true
    · have hget1 := sys_config_get_readable c.P s1.sys_config tag hmem hr
      have hset1 := ((tag_is_readable_iff c.P s1.sys_config tag hmem).mp hr).1
      have hpos : (sys_config_get c.P s1.sys_config tag).1 > 0 := by
        unfold tag_is_readable at hr
        exact of_decide_eq_true hr
      rw [if_pos hpos, hget1]
      simp only [Int.toNat_ofNat]
      by_cases hfull : s1.sm_context.cfg_read.buffer_offset + c.P.sys_config_tag_size tag + 2 >
          c.P.SYSHAL_USB_PACKET_SIZE
      · -- the tag does not fit: it is left for the next packet
        rw [if_pos hfull]
        refine ⟨_, i, rfl, Nat.le_refl _, hi, ?_, ?_, ?_, ?_, ?_, ?_, hok1, ?_⟩
        · show u16_sub s1.sm_context.cfg_read.last_index 1 = i
          rw [hidx1]
          exact u16_sub_succ_one i (by have := hP.count; omega)
        · show s1.sm_context.cfg_read.buffer_base = _
          rw [hbase1, Nat.sub_self, List.take_zero, tag_value_stream_nil, List.append_nil]
        · show s1.sm_context.cfg_read.buffer_base.length = s1.sm_context.cfg_read.buffer_offset
          rw [hbase1, hoff1]
          exact hb
        · show s1.sm_context.cfg_read.buffer_offset ≤ _
          rw [hoff1]
          exact hoff
        · intro _
          exact ⟨tag, hget, hr, hfull⟩
        · exact ⟨hfs1.message_state, hfs1.send_buffer, hfs1.tx_pending, hfs1.length, hfs1.sent,
            hfs1.set_flags, hfs1.others⟩
        · intro hl
          have hne : c.P.tag.LOGGING_FILE_SIZE ≠ tag := by
            intro he
            apply hl
            rw [hdrop, he]
            exact List.mem_cons_self _ _
          exact hs1 hne
      · -- the tag is copied to the packet
        rw [if_neg hfull]
        have hsize : c.P.sys_config_tag_size tag < 65536 := by
          have h1 := hP.fits tag hmem
          have h2 := hP.packet
          omega
        have hlen : (s1.sys_config tag).contents.length = c.P.sys_config_tag_size tag :=
          hok1 tag hmem hset1
        rw [u16_of_lt _ hsize]
        obtain ⟨hpb, hpo, hpi, hps, hpf⟩ := populate_next_spec c tag (s1.sys_config tag).contents
          (c.P.sys_config_tag_size tag) s1 (by rw [hbase1, hoff1]; exact hb)
        have htk : (s1.sys_config tag).contents.take (c.P.sys_config_tag_size tag) =
            (s1.sys_config tag).contents := by
          rw [← hlen]
          exact List.take_length _
        rw [htk] at hpb
        rw [u32_of_lt _ (by
          have h2 := hP.packet
          unfold U32_MOD
          omega)] at hpo
        obtain ⟨s2, j, e2, hij, hj, hidx2, hb2, hl2, ho2, hd2, hf2, hok2, hs2⟩ :=
          ih f (i + 1)
            (cfg_read_populate_next tag (s1.sys_config tag).contents
              (c.P.sys_config_tag_size tag) c s1).state
            (by omega) (by omega) (by omega) (by rw [hpi]; exact hidx1)
            (by
              rw [hpb, hpo, List.length_append, hbase1, hb, hoff1]
              simp only [List.length_append, List.length_cons, List.length_nil, hlen]
              omega)
            (by rw [hpo]; omega)
            (by rw [hps]; exact hok1)
        have hentry : s2.sys_config tag = s1.sys_config tag := by
          by_cases he : c.P.tag.LOGGING_FILE_SIZE = tag
          · rw [hs2 (by rw [he]; exact hnot), hps]
          · rw [hf2.others tag (fun h => he h.symm), hps]
        have hr2 : tag_is_readable c.P s2.sys_config tag = true := by
          rw [tag_is_readable_of_set_flags c.P s2.sys_config s1.sys_config tag
            (by rw [hentry])]
          exact hr
        refine ⟨s2, j, e2, by omega, hj, hidx2, ?_, hl2, ho2, hd2,
          fill_frame_trans _ _ _ _ hfs1 (fill_frame_trans _ _ _ _ hpf hf2), hok2, ?_⟩
        · rw [hb2, hpb, hbase1, htake j hij, tag_value_stream_cons, if_pos hr2,
            tag_value_bytes_of_entry c.P s2.sys_config s1.sys_config tag hentry]
          unfold tag_value_bytes
          rw [hget1]
          simp only [List.append_assoc]
        · intro hl
          have hne : c.P.tag.LOGGING_FILE_SIZE ≠ tag := by
            intro he
            apply hl
            rw [hdrop, he]
            exact List.mem_cons_self _ _
          have hl' : c.P.tag.LOGGING_FILE_SIZE ∉ c.P.sys_config_tags.drop (i + 1) := by
            intro hm
            apply hl
            rw [hdrop]
            exact List.mem_cons_of_mem _ hm
          rw [hs2 hl', hps]
          exact hs1 hne
    · -- the tag is not readable: it is skipped
      have hnpos : ¬ (sys_config_get c.P s1.sys_config tag).1 > 0 := by
        intro hp
        apply hr
        unfold tag_is_readable
        exact decide_eq_true hp
      rw [if_neg hnpos]
      obtain ⟨s2, j, e2, hij, hj, hidx2, hb2, hl2, ho2, hd2, hf2, hok2, hs2⟩ :=
        ih f (i + 1) s1 (by omega) (by omega) (by omega) hidx1
          (by rw [hbase1, hoff1]; exact hb) (by rw [hoff1]; exact hoff) hok1
      have hr2 : ¬ tag_is_readable c.P s2.sys_config tag = true := by
        rw [tag_is_readable_of_set_flags c.P s2.sys_config s1.sys_config tag
          (hf2.set_flags tag)]
        exact hr
      refine ⟨s2, j, e2, by omega, hj, hidx2, ?_, hl2, ho2, hd2,
        fill_frame_trans _ _ _ _ hfs1 hf2, hok2, ?_⟩
      · rw [hb2, hbase1, htake j hij, tag_value_stream_cons, if_neg hr2, List.nil_append]
      · intro hl
        have hne : c.P.tag.LOGGING_FILE_SIZE ≠ tag := by
          intro he
          apply hl
          rw [hdrop, he]
          exact List.mem_cons_self _ _
        have hl' : c.P.tag.LOGGING_FILE_SIZE ∉ c.P.sys_config_tags.drop (i + 1) := by
          intro hm
          apply hl
          rw [hdrop]
          exact List.mem_cons_of_mem _ hm
        rw [hs2 hl']
        exact hs1 hne

theorem calc_length_loop_spec (P : Params) (store : Nat → sys_config_entry)
    (hcount : P.sys_config_tags.length < 65535) :
    ∀ n fuel i acc, P.sys_config_tags.length - i = n → i ≤ P.sys_config_tags.length →
      n + 1 ≤ fuel →
      acc + tag_value_length P store (P.sys_config_tags.drop i) < U32_MOD →
      cfg_read_all_calc_length_loop P store fuel i acc =
        acc + tag_value_length P store (P.sys_config_tags.drop i) := by
  intro n
  induction n with
  | zero =>
    intro fuel i acc hn hi hf hlt
    have hi' : i = P.sys_config_tags.length := by omega
    obtain ⟨f, rfl⟩ : ∃ f, fuel = f + 1 := ⟨fuel - 1, by omega⟩
    have hget : P.sys_config_tags.get? i = none := by
      rw [hi']
      exact List.get?_eq_none.mpr (Nat.le_refl _)
    rw [cfg_read_all_calc_length_loop]
    simp only [sys_config_iterate, hget]
    rw [hi', List.drop_length]
    rfl
  | succ n ih =>
    intro fuel i acc hn hi hf hlt
    have hlt' : i < P.sys_config_tags.length := by omega
    obtain ⟨f, rfl⟩ : ∃ f, fuel = f + 1 := ⟨fuel - 1, by omega⟩
    have hget : P.sys_config_tags.get? i = some (P.sys_config_tags.get ⟨i, hlt'⟩) :=
      List.get?_eq_get hlt'
    generalize P.sys_config_tags.get ⟨i, hlt'⟩ = tag at hget
    have hmem : tag ∈ P.sys_config_tags := List.get?_mem hget
    have hdrop := drop_eq_cons_of_get _ i tag hget
    have hu16 : u16 (i + 1) = i + 1 := u16_of_lt _ (by omega)
    rw [hdrop, tag_value_length_cons] at hlt ⊢
    rw [cfg_read_all_calc_length_loop]
    simp only [sys_config_iterate, hget, hu16]
    by_cases hr : tag_is_readable P store tag = true
    · have hpos : (sys_config_get P store tag).1 > 0 := by
        unfold tag_is_readable at hr
        exact of_decide_eq_true hr
      rw [if_pos hr] at hlt ⊢
      rw [if_pos hpos, sys_config_get_readable P store tag hmem hr]
      simp only [Int.toNat_ofNat]
      rw [u32_of_lt _ (by omega), ih f (i + 1) _ (by omega) (by omega) (by omega) (by omega)]
      omega
    · have hnpos : ¬ (sys_config_get P store tag).1 > 0 := by
        intro hp
        apply hr
        unfold tag_is_readable
        exact decide_eq_true hp
      rw [if_neg hr] at hlt ⊢
      rw [if_neg hnpos, ih f (i + 1) _ (by omega) (by omega) (by omega) (by omega)]
      omega

theorem calc_length_spec (P : Params) (store : Nat → sys_config_entry)
    (hcount : P.sys_config_tags.length < 65535)
    (htotal : tag_value_length P store P.sys_config_tags < U32_MOD) :
    cfg_read_all_calc_length P store = tag_value_length P store P.sys_config_tags := by
  unfold cfg_read_all_calc_length
  rw [calc_length_loop_spec P store hcount P.sys_config_tags.length _ 0 0 (by omega) (by omega)
    (by omega) (by rw [List.drop_zero]; omega)]
  rw [List.drop_zero, Nat.zero_add]

theorem populate_buffer_spec (c : Ctx) (hP : schema_ok c.P) (s : State)
    (hi : s.sm_context.cfg_read.last_index ≤ c.P.sys_config_tags.length)
    (hb : s.sm_context.cfg_read.buffer_base.length = s.sm_context.cfg_read.buffer_offset)
    (hoff : s.sm_context.cfg_read.buffer_offset ≤ c.P.SYSHAL_USB_PACKET_SIZE)
    (hok : store_sizes_ok c.P s.sys_config) :
    ∃ s1 j, cfg_read_populate_buffer c s = .ok () s1 ∧
      s.sm_context.cfg_read.last_index ≤ j ∧ j ≤ c.P.sys_config_tags.length ∧
      s1.sm_context.cfg_read.last_index = j ∧
      s1.sm_context.cfg_read.buffer_base = s.sm_context.cfg_read.buffer_base ++
        tag_value_stream c.P s1.sys_config
          ((c.P.sys_config_tags.drop s.sm_context.cfg_read.last_index).take
            (j - s.sm_context.cfg_read.last_index)) ∧
      s1.sm_context.cfg_read.buffer_base.length = s1.sm_context.cfg_read.buffer_offset ∧
      s1.sm_context.cfg_read.buffer_offset ≤ c.P.SYSHAL_USB_PACKET_SIZE ∧
      (j < c.P.sys_config_tags.length → ∃ tag, c.P.sys_config_tags.get? j = some tag ∧
        tag_is_readable c.P s1.sys_config tag = true ∧
        c.P.SYSHAL_USB_PACKET_SIZE <
          s1.sm_context.cfg_read.buffer_offset + c.P.sys_config_tag_size tag + 2) ∧
      fill_frame c.P s s1 ∧ store_sizes_ok c.P s1.sys_config ∧
      (c.P.tag.LOGGING_FILE_SIZE ∉ c.P.sys_config_tags.drop s.sm_context.cfg_read.last_index →
        s1.sys_config = s.sys_config) := by
  unfold cfg_read_populate_buffer
  simp only [bind_apply, getParams]
  exact populate_loop_spec c hP _ _ _ s rfl hi (by omega) rfl hb hoff hok

theorem populate_buffer_spec_of_eq (c : Ctx) (hP : schema_ok c.P) (s : State) (r : Res Unit)
    (heq : cfg_read_populate_buffer c s = r)
    (hi : s.sm_context.cfg_read.last_index ≤ c.P.sys_config_tags.length)
    (hb : s.sm_context.cfg_read.buffer_base.length = s.sm_context.cfg_read.buffer_offset)
    (hoff : s.sm_context.cfg_read.buffer_offset ≤ c.P.SYSHAL_USB_PACKET_SIZE)
    (hok : store_sizes_ok c.P s.sys_config) :
    ∃ s1 j, r = .ok () s1 ∧
      s.sm_context.cfg_read.last_index ≤ j ∧ j ≤ c.P.sys_config_tags.length ∧
      s1.sm_context.cfg_read.last_index = j ∧
      s1.sm_context.cfg_read.buffer_base = s.sm_context.cfg_read.buffer_base ++
        tag_value_stream c.P s1.sys_config
          ((c.P.sys_config_tags.drop s.sm_context.cfg_read.last_index).take
            (j - s.sm_context.cfg_read.last_index)) ∧
      s1.sm_context.cfg_read.buffer_base.length = s1.sm_context.cfg_read.buffer_offset ∧
      s1.sm_context.cfg_read.buffer_offset ≤ c.P.SYSHAL_USB_PACKET_SIZE ∧
      (j < c.P.sys_config_tags.length → ∃ tag, c.P.sys_config_tags.get? j = some tag ∧
        tag_is_readable c.P s1.sys_config tag = true ∧
        c.P.SYSHAL_USB_PACKET_SIZE <
          s1.sm_context.cfg_read.buffer_offset + c.P.sys_config_tag_size tag + 2) ∧
      fill_frame c.P s s1 ∧ store_sizes_ok c.P s1.sys_config ∧
      (c.P.tag.LOGGING_FILE_SIZE ∉ c.P.sys_config_tags.drop s.sm_context.cfg_read.last_index →
        s1.sys_config = s.sys_config) := by
  rw [← heq]
  exact populate_buffer_spec c hP s hi hb hoff hok

theorem tag_value_length_append (P : Params) (store : Nat → sys_config_entry)
    (l1 l2 : List Nat) :
    tag_value_length P store (l1 ++ l2) =
      tag_value_length P store l1 + tag_value_length P store l2 := by
  induction l1 with
  | nil => simp [tag_value_length]
  | cons t l ih =>
    rw [List.cons_append, tag_value_length_cons, tag_value_length_cons, ih]
    omega

theorem cmd_size_ne_zero (n : Nat) : CMD_SIZE n ≠ 0 := by
  unfold CMD_SIZE CMD_SIZE_HDR
  omega

theorem drop_split (l : List Nat) (i j : Nat) (hij : i ≤ j) :
    l.drop i = (l.drop i).take (j - i) ++ l.drop j := by
  have h := (List.take_append_drop (j - i) (l.drop i)).symm
  rw [List.drop_drop] at h
  have e : i + (j - i) = j := by omega
  rw [e] at h
  exact h

theorem take_split (l : List Nat) (i j : Nat) (hij : i ≤ j) :
    l.take j = l.take i ++ (l.drop i).take (j - i) := by
  have h := List.take_add l i (j - i)
  have e : i + (j - i) = j := by omega
  rw [e] at h
  exact h

/-- A packet filled from an empty buffer holds the pairs of the tags it went through, and
holds at least one pair when a readable tag is left. -/
theorem populate_buffer_fresh (c : Ctx) (hP : schema_ok c.P) (s : State) (r : Res Unit)
    (heq : cfg_read_populate_buffer c s = r)
    (hi : s.sm_context.cfg_read.last_index ≤ c.P.sys_config_tags.length)
    (hb : s.sm_context.cfg_read.buffer_base = [])
    (hoff : s.sm_context.cfg_read.buffer_offset = 0)
    (hok : store_sizes_ok c.P s.sys_config) :
    ∃ s1, r = .ok () s1 ∧
      s.sm_context.cfg_read.last_index ≤ s1.sm_context.cfg_read.last_index ∧
      s1.sm_context.cfg_read.last_index ≤ c.P.sys_config_tags.length ∧
      s1.sm_context.cfg_read.buffer_base =
        tag_value_stream c.P s1.sys_config
          ((c.P.sys_config_tags.drop s.sm_context.cfg_read.last_index).take
            (s1.sm_context.cfg_read.last_index - s.sm_context.cfg_read.last_index)) ∧
      s1.sm_context.cfg_read.buffer_base.length = s1.sm_context.cfg_read.buffer_offset ∧
      tag_value_length c.P s.sys_config
          (c.P.sys_config_tags.drop s.sm_context.cfg_read.last_index) =
        s1.sm_context.cfg_read.buffer_offset +
          tag_value_length c.P s1.sys_config
            (c.P.sys_config_tags.drop s1.sm_context.cfg_read.last_index) ∧
      (0 < tag_value_length c.P s.sys_config
          (c.P.sys_config_tags.drop s.sm_context.cfg_read.last_index) →
        s1.sm_context.cfg_read.buffer_base ≠ [] ∧
        s.sm_context.cfg_read.last_index < s1.sm_context.cfg_read.last_index) ∧
      fill_frame c.P s s1 ∧ store_sizes_ok c.P s1.sys_config ∧
      (c.P.tag.LOGGING_FILE_SIZE ∉ c.P.sys_config_tags.drop s.sm_context.cfg_read.last_index →
        s1.sys_config = s.sys_config) := by
  obtain ⟨s1, j, e, hij, hj, hidx, hbase, hlen, -, hstop, hfr, hok1, hsame⟩ :=
    populate_buffer_spec_of_eq c hP s r heq hi (by rw [hb, hoff]; rfl) (by rw [hoff]; omega) hok
  rw [hb, List.nil_append] at hbase
  subst hidx
  have hsub : ∀ t, t ∈ (c.P.sys_config_tags.drop s.sm_context.cfg_read.last_index).take
      (s1.sm_context.cfg_read.last_index - s.sm_context.cfg_read.last_index) →
      t ∈ c.P.sys_config_tags :=
    fun t ht => List.mem_of_mem_drop (List.mem_of_mem_take ht)
  have hplen := tag_value_stream_length c.P s1.sys_config hok1 _ hsub
  rw [← hbase, hlen] at hplen
  have htot : tag_value_length c.P s.sys_config
        (c.P.sys_config_tags.drop s.sm_context.cfg_read.last_index) =
      s1.sm_context.cfg_read.buffer_offset +
        tag_value_length c.P s1.sys_config
          (c.P.sys_config_tags.drop s1.sm_context.cfg_read.last_index) := by
    rw [← tag_value_length_congr c.P s1.sys_config s.sys_config _ hfr.set_flags,
      drop_split c.P.sys_config_tags _ _ hij, tag_value_length_append, ← hplen]
  refine ⟨s1, e, hij, hj, hbase, hlen, htot, ?_, hfr, hok1, hsame⟩
  intro hpos
  have hne : s1.sm_context.cfg_read.buffer_base ≠ [] := by
    intro hnil
    rw [hnil, List.length_nil] at hlen
    by_cases hlt : s1.sm_context.cfg_read.last_index < c.P.sys_config_tags.length
    · obtain ⟨tag, hget, -, hbig⟩ := hstop hlt
      have hfit := hP.fits tag (List.mem_iff_get?.mpr ⟨_, hget⟩)
      omega
    · have hjl : s1.sm_context.cfg_read.last_index = c.P.sys_config_tags.length := by omega
      rw [htot, hjl, List.drop_length] at hpos
      simp only [tag_value_length] at hpos
      omega
  refine ⟨hne, ?_⟩
  rcases Nat.lt_or_ge s.sm_context.cfg_read.last_index s1.sm_context.cfg_read.last_index with h | h
  · exact h
  · exfalso
    apply hne
    rw [hbase, Nat.sub_eq_zero_of_le h, List.take_zero]
    rfl

theorem stream_take_stable (P : Params) (hP : schema_ok P) (s s1 : State) (i : Nat)
    (hfr : fill_frame P s s1)
    (hsame : P.tag.LOGGING_FILE_SIZE ∉ P.sys_config_tags.drop i → s1.sys_config = s.sys_config) :
    tag_value_stream P s1.sys_config (P.sys_config_tags.take i) =
      tag_value_stream P s.sys_config (P.sys_config_tags.take i) := by
  by_cases hmem : P.tag.LOGGING_FILE_SIZE ∈ P.sys_config_tags.take i
  · have hnd := hP.nodup
    rw [← List.take_append_drop i P.sys_config_tags] at hnd
    have hdis := (List.nodup_append.mp hnd).2.2
    rw [hsame (fun h => hdis hmem h)]
  · apply tag_value_stream_congr
    intro t ht
    apply hfr.others
    intro e
    exact hmem (e ▸ ht)

theorem config_if_send_priv_spec (c : Ctx) (s : State) (pkt : tx_packet) (rest : List tx_packet)
    (hpend : s.config_if_tx_pending = false)
    (hq : s.config_if_send_buffer.queue = pkt :: rest) (hsz : pkt.size c.P ≠ 0) :
    ∃ s1, config_if_send_priv c s = .ok () s1 ∧
      s1.config_if_tx_pending = true ∧
      s1.trace = s.trace ++ [Ev.config_if_send pkt (pkt.size c.P)] ∧
      s1.message_state = s.message_state ∧ s1.sm_context = s.sm_context ∧
      s1.config_if_send_buffer = s.config_if_send_buffer ∧ s1.sys_config = s.sys_config := by
  unfold config_if_send_priv
  simp only [bind_apply, getState, getParams, hpend, Bool.false_eq_true, if_false, pure_apply,
    buffer_read_tx, buffer_read, hq]
  simp only [List.head?_cons, ne_eq, hsz, not_false_eq_true, if_true, bind_apply, modifyState,
    call]
  exact ⟨_, rfl, rfl, rfl, rfl, rfl, rfl, rfl⟩

theorem sent_packets_ask (tr : List Ev) (e : Ev) (h : sent_packets [e] = []) :
    sent_packets (tr ++ [e]) = sent_packets tr := by
  rw [sent_packets_append, h, List.append_nil]

theorem cfg_read_req_all_spec (c : Ctx) (hP : schema_ok c.P) (s : State) (req : List Nat)
    (hsize : req.length = CMD_SIZE c.P.sizeof_cmd_cfg_read_req_t)
    (hall : c.P.CFG_READ_REQ_READ_ALL = c.P.cmd_cfg_read_req_configuration_tag req)
    (hidle : s.message_state = .SM_MESSAGE_STATE_IDLE)
    (htx : s.config_if_send_buffer.queue = [])
    (hslots : 2 ≤ s.config_if_send_buffer.slots)
    (hpend : s.config_if_tx_pending = false)
    (hok : store_sizes_ok c.P s.sys_config)
    (htotal : tag_value_length c.P s.sys_config c.P.sys_config_tags < U32_MOD) :
    ∃ s1, cfg_read_req req req.length c s = .ok () s1 ∧
      (tag_value_length c.P s.sys_config c.P.sys_config_tags = 0 →
        s1.message_state = .SM_MESSAGE_STATE_IDLE ∧ s1.sys_config = s.sys_config ∧
        sent_packets s1.trace = sent_packets s.trace ++ [.cmd_cfg_read_resp .CMD_NO_ERROR 0]) ∧
      (0 < tag_value_length c.P s.sys_config c.P.sys_config_tags →
        transfer_inv c.P s.sys_config (sent_packets s.trace)
          (tag_value_length c.P s.sys_config c.P.sys_config_tags) s1) := by
  have hL := calc_length_spec c.P s.sys_config hP.count htotal
  have hbw1 : buffer_write s.config_if_send_buffer = true := by
    unfold buffer_write
    rw [htx]
    exact decide_eq_true (by simp only [List.length_nil]; omega)
  have h0 : 0 < s.config_if_send_buffer.slots := by omega
  have h1 : 1 < s.config_if_send_buffer.slots := by omega
  unfold cfg_read_req
  simp only [h0, h1, decide_True, bind_apply, getParams, hsize, ne_eq, not_true_eq_false,
    if_false, pure_apply,
    tx_buffer_write, getState, hbw1, Bool.not_true, Bool.false_eq_true, tx_write_advance,
    modifyState, buffer_write_advance, tx_packet.size, cmd_size_ne_zero, htx, List.nil_append,
    List.length_nil, buffer_write, List.length_singleton, set_cfg_read, ← hall, if_true, hL,
    tx_assign, List.set_cons_zero]
  by_cases hpos : 0 < tag_value_length c.P s.sys_config c.P.sys_config_tags
  · rw [if_pos hpos]
    simp only [bind_apply]
    split
    · rename_i a s1 heq
      obtain ⟨s2, e, -, hj, hbase, hlen, htot, hne, hfr, hok1, -⟩ :=
        populate_buffer_fresh c hP _ _ heq (Nat.zero_le _) rfl rfl hok
      cases e
      have hne1 := (hne hpos).1
      have hsb : s1.config_if_send_buffer = { slots := s.config_if_send_buffer.slots, queue :=
          [.cmd_cfg_read_resp .CMD_NO_ERROR
            (tag_value_length c.P s.sys_config c.P.sys_config_tags)] } := hfr.send_buffer
      have hp1 : s1.config_if_tx_pending = false := hfr.tx_pending.trans hpend
      have hms : s1.message_state = .SM_MESSAGE_STATE_IDLE := hfr.message_state.trans hidle
      have hsent : sent_packets s1.trace = sent_packets s.trace := hfr.sent
      have hlen1 : s1.sm_context.cfg_read.length =
          tag_value_length c.P s.sys_config c.P.sys_config_tags := hfr.length
      have hflags : ∀ t, (s1.sys_config t).set = (s.sys_config t).set := hfr.set_flags
      have htake : List.take s1.sm_context.cfg_read.buffer_offset
          s1.sm_context.cfg_read.buffer_base = s1.sm_context.cfg_read.buffer_base :=
        List.take_of_length_le (by omega)
      have hl0 : s1.sm_context.cfg_read.buffer_base.length ≠ 0 := fun h =>
        hne1 (List.length_eq_zero.mp h)
      dsimp only at hbase htot
      rw [List.drop_zero, Nat.sub_zero] at hbase
      rw [List.drop_zero] at htot
      simp only [getState, getParams, bind_apply, modifyState, pure_apply, htake, hl0, if_false,
        hsb, List.singleton_append, config_if_send_priv, hp1, Bool.false_eq_true,
        buffer_read_tx, buffer_read, List.head?_cons, tx_packet.size, ne_eq, cmd_size_ne_zero,
        not_false_eq_true, if_true, call, hpos, gt_iff_lt, message_set_state,
        config_if_timeout_reset, ask]
      refine ⟨_, rfl, fun h => absurd h (by omega), fun _ => ?_⟩
      refine ⟨rfl, rfl, hslots, hj, ⟨_, [], _, rfl, cmd_size_ne_zero _, hne1, hlen, ?_, ?_⟩, ?_, ?_, hok1, hflags,
        hfr.others⟩
      · show sent_packets ((s1.trace ++ [_]) ++ [_]) = _
        rw [sent_packets_append, sent_packets_append, hsent, List.append_assoc]
        rfl
      · exact hbase
      · show s1.sm_context.cfg_read.length = _
        rw [hlen1, htot]
      · show s1.sm_context.cfg_read.length < _
        rw [hlen1]
        exact htotal
    · rename_i e s1 heq
      obtain ⟨s2, e, -⟩ := populate_buffer_fresh c hP _ _ heq (Nat.zero_le _) rfl rfl hok
      cases e
    · rename_i e s1 heq
      obtain ⟨s2, e, -⟩ := populate_buffer_fresh c hP _ _ heq (Nat.zero_le _) rfl rfl hok
      cases e
  · rw [if_neg hpos]
    have hz : tag_value_length c.P s.sys_config c.P.sys_config_tags = 0 := by omega
    simp only [getState, getParams, bind_apply, modifyState, pure_apply,
      config_if_send_priv, hpend, Bool.false_eq_true, if_false,
      buffer_read_tx, buffer_read, List.head?_cons, tx_packet.size, ne_eq, cmd_size_ne_zero,
      not_false_eq_true, if_true, call, hz, gt_iff_lt, Nat.lt_irrefl]
    refine ⟨_, rfl, fun _ => ⟨hidle, rfl, ?_⟩, ?_⟩
    · show sent_packets (s.trace ++ [_]) = _
      rw [sent_packets_append]
      rfl
    · intro h
      exact h.elim

theorem u32_sub_of_le (a b : Nat) (ha : a < U32_MOD) (hb : b ≤ a) : u32_sub a b = a - b := by
  unfold u32_sub
  have hb2 : b < U32_MOD := by omega
  rw [Nat.mod_eq_of_lt hb2]
  have e : a + U32_MOD - b = (a - b) + U32_MOD := by omega
  rw [e, Nat.add_mod_right]
  exact Nat.mod_eq_of_lt (by omega)

theorem tag_value_stream_of_length_zero (P : Params) (store : Nat → sys_config_entry)
    (hok : store_sizes_ok P store) (l : List Nat) (hl : ∀ t, t ∈ l → t ∈ P.sys_config_tags)
    (h : tag_value_length P store l = 0) : tag_value_stream P store l = [] := by
  apply List.length_eq_zero.mp
  rw [tag_value_stream_length P store hok l hl, h]

theorem cfg_read_next_state_spec (c : Ctx) (hP : schema_ok c.P) (s : State) (r : Res Unit)
    (store0 : Nat → sys_config_entry) (sent0 : List tx_packet) (L : Nat)
    (chunks : List (List Nat)) (pend : List Nat)
    (heq : cfg_read_next_state c s = r)
    (hms : s.message_state = .SM_MESSAGE_STATE_CFG_READ_NEXT)
    (hpend : s.config_if_tx_pending = false)
    (hslots : 2 ≤ s.config_if_send_buffer.slots)
    (hq : s.config_if_send_buffer.queue = [.data pend]) (hne : pend ≠ [])
    (hsent : sent_packets s.trace =
      sent0 ++ .cmd_cfg_read_resp .CMD_NO_ERROR L :: chunks.map tx_packet.data)
    (hstream : chunks.flatten ++ pend =
      tag_value_stream c.P s.sys_config (c.P.sys_config_tags.take s.sm_context.cfg_read.last_index))
    (hlen : s.sm_context.cfg_read.length = s.sm_context.cfg_read.buffer_offset +
      tag_value_length c.P s.sys_config
        (c.P.sys_config_tags.drop s.sm_context.cfg_read.last_index))
    (hbound : s.sm_context.cfg_read.length < U32_MOD)
    (hidx : s.sm_context.cfg_read.last_index ≤ c.P.sys_config_tags.length)
    (hok : store_sizes_ok c.P s.sys_config)
    (hflags : ∀ t, (s.sys_config t).set = (store0 t).set)
    (hothers : ∀ t, t ≠ c.P.tag.LOGGING_FILE_SIZE → s.sys_config t = store0 t) :
    ∃ s1, r = .ok () s1 ∧
      (transfer_done c.P store0 sent0 L s1 ∨
        (transfer_inv c.P store0 sent0 L s1 ∧
          s.sm_context.cfg_read.last_index < s1.sm_context.cfg_read.last_index)) := by
  have hsub : u32_sub s.sm_context.cfg_read.length s.sm_context.cfg_read.buffer_offset =
      tag_value_length c.P s.sys_config
        (c.P.sys_config_tags.drop s.sm_context.cfg_read.last_index) := by
    rw [u32_sub_of_le _ _ hbound (by omega)]
    omega
  have hl0 : pend.length ≠ 0 := fun h => hne (List.length_eq_zero.mp h)
  have h1 : 1 < s.config_if_send_buffer.slots := by omega
  rw [← heq]
  unfold cfg_read_next_state
  simp only [getState, getParams, bind_apply, modifyState, pure_apply,
    config_if_send_priv, hpend, Bool.false_eq_true, if_false,
    buffer_read_tx, buffer_read, hq, List.head?_cons, tx_packet.size, ne_eq, hl0,
    not_false_eq_true, if_true, call, set_cfg_read, hsub, gt_iff_lt]
  by_cases hpos : 0 < tag_value_length c.P s.sys_config
      (c.P.sys_config_tags.drop s.sm_context.cfg_read.last_index)
  · rw [if_pos hpos]
    simp only [bind_apply, tx_buffer_write, getState, buffer_write, hq, List.length_singleton,
      h1, decide_True, Bool.not_true, Bool.false_eq_true, if_false, pure_apply, set_cfg_read,
      modifyState]
    split
    · rename_i a s1 heq1
      obtain ⟨s2, e, -, hj, hbase, hblen, htot, hne1, hfr, hok1, hsame⟩ :=
        populate_buffer_fresh c hP _ _ heq1 hidx rfl rfl hok
      cases e
      obtain ⟨hne2, hlt⟩ := hne1 hpos
      have hsb : s1.config_if_send_buffer = s.config_if_send_buffer := hfr.send_buffer
      have hp1 : s1.config_if_tx_pending = true := hfr.tx_pending
      have hms1 : s1.message_state = .SM_MESSAGE_STATE_CFG_READ_NEXT :=
        hfr.message_state.trans hms
      have hsent1 : sent_packets s1.trace = sent_packets (s.trace ++ [_]) := hfr.sent
      have hlen1 : s1.sm_context.cfg_read.length = tag_value_length c.P s.sys_config
          (c.P.sys_config_tags.drop s.sm_context.cfg_read.last_index) := hfr.length
      have hflags1 : ∀ t, (s1.sys_config t).set = (s.sys_config t).set := hfr.set_flags
      have hstable := stream_take_stable c.P hP _ s1 _ hfr hsame
      dsimp only at hstable
      have htake : List.take s1.sm_context.cfg_read.buffer_offset
          s1.sm_context.cfg_read.buffer_base = s1.sm_context.cfg_read.buffer_base :=
        List.take_of_length_le (by omega)
      have hl1 : s1.sm_context.cfg_read.buffer_base.length ≠ 0 := fun h =>
        hne2 (List.length_eq_zero.mp h)
      dsimp only at hbase htot hlt
      simp only [getState, getParams, bind_apply, modifyState, pure_apply, htake, hl1, if_false,
        tx_write_advance, buffer_write_advance, tx_packet.size, hsb, hq, List.singleton_append]
      refine ⟨_, rfl, Or.inr ⟨⟨hms1, hp1, hslots, hj,
        ⟨_, chunks ++ [pend], _, rfl, hl0, hne2, hblen, ?_, ?_⟩, ?_, ?_, hok1,
        fun t => (hflags1 t).trans (hflags t),
        fun t h => (hfr.others t h).trans (hothers t h)⟩, hlt⟩⟩
      · show sent_packets s1.trace = _
        rw [hsent1, sent_packets_append, hsent, List.map_append, List.append_assoc]
        rfl
      · show _ = tag_value_stream c.P s1.sys_config
          (c.P.sys_config_tags.take s1.sm_context.cfg_read.last_index)
        rw [take_split c.P.sys_config_tags _ _ (Nat.le_of_lt hlt), tag_value_stream_append,
          hstable, ← hstream, ← hbase, List.flatten_append, List.flatten_singleton]
      · show s1.sm_context.cfg_read.length = _
        rw [hlen1, htot]
      · show s1.sm_context.cfg_read.length < _
        rw [hlen1]
        omega
    · rename_i e s1 heq1
      obtain ⟨s2, e, -⟩ := populate_buffer_fresh c hP _ _ heq1 hidx rfl rfl hok
      cases e
    · rename_i e s1 heq1
      obtain ⟨s2, e, -⟩ := populate_buffer_fresh c hP _ _ heq1 hidx rfl rfl hok
      cases e
  · rw [if_neg hpos]
    have hz : tag_value_length c.P s.sys_config
      (c.P.sys_config_tags.drop s.sm_context.cfg_read.last_index) = 0 := by omega
    simp only [message_set_state, config_if_timeout_reset, ask, bind_apply, modifyState]
    refine ⟨_, rfl, Or.inl ⟨rfl, ⟨chunks ++ [pend], ?_, ?_⟩, hok, hflags, hothers⟩⟩
    · show sent_packets ((s.trace ++ [_]) ++ [_]) = _
      rw [sent_packets_append, sent_packets_append, hsent, List.map_append, List.append_assoc,
        List.append_assoc]
      rfl
    · show _ = tag_value_stream c.P s.sys_config c.P.sys_config_tags
      have hd := tag_value_stream_of_length_zero c.P s.sys_config hok _
        (fun t ht => List.mem_of_mem_drop ht) hz
      rw [List.flatten_append, List.flatten_singleton, hstream]
      conv_rhs => rw [← List.take_append_drop s.sm_context.cfg_read.last_index c.P.sys_config_tags]
      rw [tag_value_stream_append, hd, List.append_nil]

theorem cfg_read_transfer_idle (c : Ctx) (fuel : Nat) (s : State)
    (h : s.message_state ≠ .SM_MESSAGE_STATE_CFG_READ_NEXT) :
    cfg_read_transfer (fuel + 1) c s = .ok () s := by
  unfold cfg_read_transfer
  simp only [bind_apply, getState, h, if_false, pure_apply]

theorem cfg_read_transfer_spec (c : Ctx) (hP : schema_ok c.P)
    (store0 : Nat → sys_config_entry) (sent0 : List tx_packet) (L : Nat) :
    ∀ fuel s, c.P.sys_config_tags.length - s.sm_context.cfg_read.last_index + 2 ≤ fuel →
      transfer_inv c.P store0 sent0 L s →
      ∃ s1, cfg_read_transfer fuel c s = .ok () s1 ∧ transfer_done c.P store0 sent0 L s1 := by
  intro fuel
  induction fuel with
  | zero =>
    intro s hf
    omega
  | succ fuel ih =>
    intro s hf hinv
    obtain ⟨head, chunks, pend, hq, hhead, hne, -, hsent, hstream⟩ := hinv.queue
    unfold cfg_read_transfer
    simp only [bind_apply, getState, getParams, hinv.message_state, if_true, config_if_callback,
      modifyState, buffer_read_tx, buffer_read, hq, List.head?_cons, buffer_read_advance,
      List.tail_cons, hhead, if_false]
    split
    · rename_i a s1 heq
      obtain ⟨s2, e, hres⟩ := cfg_read_next_state_spec c hP _ _ store0 sent0 L chunks pend heq
        rfl rfl hinv.slots rfl hne hsent hstream hinv.length hinv.bound hinv.index
        hinv.sizes hinv.set_flags hinv.others
      cases e
      rcases hres with hdone | ⟨hinv1, hlt⟩
      · obtain ⟨k, hk⟩ : ∃ k, fuel = k + 1 := ⟨fuel - 1, by omega⟩
        rw [hk, cfg_read_transfer_idle c k s1 (by rw [hdone.message_state]; decide)]
        exact ⟨s1, rfl, hdone⟩
      · have hj := hinv1.index
        exact ih s1 (by dsimp only at hlt; omega) hinv1
    · rename_i e s1 heq
      obtain ⟨s2, e, -⟩ := cfg_read_next_state_spec c hP _ _ store0 sent0 L chunks pend heq
        rfl rfl hinv.slots rfl hne hsent hstream hinv.length hinv.bound hinv.index
        hinv.sizes hinv.set_flags hinv.others
      cases e
    · rename_i e s1 heq
      obtain ⟨s2, e, -⟩ := cfg_read_next_state_spec c hP _ _ store0 sent0 L chunks pend heq
        rfl rfl hinv.slots rfl hne hsent hstream hinv.length hinv.bound hinv.index
        hinv.sizes hinv.set_flags hinv.others
      cases e

theorem parse_tag_value_stream (P : Params) (store : Nat → sys_config_entry)
    (hok : store_sizes_ok P store) (hu16 : ∀ tag, tag ∈ P.sys_config_tags → tag < 65536) :
    ∀ (l : List Nat) (fuel : Nat), (∀ t, t ∈ l → t ∈ P.sys_config_tags) →
      (tag_value_stream P store l).length + 1 ≤ fuel →
      parse_tag_values_loop P fuel (tag_value_stream P store l) =
        some ((l.filter (tag_is_readable P store)).map
          (fun tag => (tag, (sys_config_get P store tag).2))) := by
  intro l
  induction l with
  | nil =>
    intro fuel _ hf
    obtain ⟨k, rfl⟩ : ∃ k, fuel = k + 1 := ⟨fuel - 1, by omega⟩
    rfl
  | cons t l ih =>
    intro fuel hl hf
    have hmem := hl t (List.mem_cons_self _ _)
    have hl1 : ∀ u, u ∈ l → u ∈ P.sys_config_tags := fun u hu => hl u (List.mem_cons_of_mem _ hu)
    rw [tag_value_stream_cons] at hf ⊢
    by_cases hr : tag_is_readable P store t = true
    · rw [if_pos hr] at hf ⊢
      have hs := ((tag_is_readable_iff P store t hmem).mp hr).1
      have hget := sys_config_get_readable P store t hmem hr
      have hsz := hok t hmem hs
      have ht := hu16 t hmem
      have htag : t % 256 + 256 * (t / 256 % 256) = t := by omega
      obtain ⟨k, rfl⟩ : ∃ k, fuel = k + 1 := ⟨fuel - 1, by omega⟩
      have hb : tag_value_bytes P store t =
          t % 256 :: (t / 256 % 256) :: (store t).contents := by
        unfold tag_value_bytes
        rw [hget]
        rfl
      rw [hb] at hf ⊢
      simp only [List.cons_append, List.length_cons, List.length_append] at hf
      simp only [List.cons_append, parse_tag_values_loop, htag, hmem,
        not_true_eq_false, false_or, List.length_append, ← hsz, List.filter_cons, hr, if_true,
        List.map_cons, hget]
      simp only [List.append_eq]
      rw [List.drop_left, List.take_left, ih k hl1 (by omega),
        if_neg (by rw [List.length_append]; omega)]
      rfl
    · rw [if_neg hr] at hf ⊢
      rw [List.nil_append] at hf ⊢
      rw [List.filter_cons, if_neg hr]
      exact ih fuel hl1 hf

theorem cfg_read_all_done (c : Ctx) (hP : schema_ok c.P) (s : State) (req : List Nat)
    (hsize : req.length = CMD_SIZE c.P.sizeof_cmd_cfg_read_req_t)
    (hall : c.P.CFG_READ_REQ_READ_ALL = c.P.cmd_cfg_read_req_configuration_tag req)
    (hidle : s.message_state = .SM_MESSAGE_STATE_IDLE)
    (htx : s.config_if_send_buffer.queue = [])
    (hslots : 2 ≤ s.config_if_send_buffer.slots)
    (hpend : s.config_if_tx_pending = false)
    (hok : store_sizes_ok c.P s.sys_config)
    (htotal : tag_value_length c.P s.sys_config c.P.sys_config_tags < U32_MOD) :
    ∃ s1, cfg_read_all req c s = .ok () s1 ∧
      transfer_done c.P s.sys_config (sent_packets s.trace)
        (tag_value_length c.P s.sys_config c.P.sys_config_tags) s1 := by
  obtain ⟨s1, e, hz, hpos⟩ :=
    cfg_read_req_all_spec c hP s req hsize hall hidle htx hslots hpend hok htotal
  unfold cfg_read_all
  simp only [bind_apply, getParams, e]
  by_cases h0 : tag_value_length c.P s.sys_config c.P.sys_config_tags = 0
  · obtain ⟨hms, hstore, hsent⟩ := hz h0
    rw [cfg_read_transfer_idle c _ s1 (by rw [hms]; decide)]
    refine ⟨s1, rfl, hms, ⟨[], ?_, ?_⟩, by rw [hstore]; exact hok, fun t => by rw [hstore],
      fun t _ => by rw [hstore]⟩
    · rw [hsent, h0]
      rfl
    · rw [hstore, tag_value_stream_of_length_zero c.P s.sys_config hok _ (fun _ h => h) h0]
      rfl
  · have hinv := hpos (by omega)
    obtain ⟨head, chunks, pend, -, -, hne, -, -, hstream⟩ := hinv.queue
    have hj : 0 < s1.sm_context.cfg_read.last_index := by
      rcases Nat.eq_zero_or_pos s1.sm_context.cfg_read.last_index with h | h
      · exfalso
        rw [h, List.take_zero, tag_value_stream_nil] at hstream
        exact hne (List.append_eq_nil.mp hstream).2
      · exact h
    have hle := hinv.index
    exact cfg_read_transfer_spec c hP s.sys_config (sent_packets s.trace) _ _ s1 (by omega) hinv

/-- C5: a CfgRead(all) request (`cfg_read_req`, then the transfer in which every send
completes before the next `cfg_read_next_state`) received by an idle engine with an empty
send buffer returns with the engine back in Idle. The transport was handed one
`cmd_cfg_read_resp` announcing `cfg_read_all_calc_length` bytes and then data packets
only; their concatenation, parsed as pairs `tag (u16 little-endian) || value`, lists every
tag of the schema for which `sys_config_get` returns a positive size, once, in iterator
order and with the value `sys_config_get` returns, and it has the announced number of
bytes. The set flags are those of the start, and so is every entry but the refreshed log
file size. -/
theorem cfg_read_all_lists_every_readable_tag_once (c : Ctx) (s : State) (req : List Nat)
    (hP : schema_ok c.P)
    (hsize : req.length = CMD_SIZE c.P.sizeof_cmd_cfg_read_req_t)
    (hall : c.P.CFG_READ_REQ_READ_ALL = c.P.cmd_cfg_read_req_configuration_tag req)
    (hidle : s.message_state = .SM_MESSAGE_STATE_IDLE)
    (htx : s.config_if_send_buffer.queue = [])
    (hslots : 2 ≤ s.config_if_send_buffer.slots)
    (hpend : s.config_if_tx_pending = false)
    (hok : store_sizes_ok c.P s.sys_config)
    (htotal : tag_value_length c.P s.sys_config c.P.sys_config_tags < U32_MOD) :
    ∃ (s1 : State) (chunks : List (List Nat)),
      cfg_read_all req c s = .ok () s1 ∧
      s1.message_state = .SM_MESSAGE_STATE_IDLE ∧
      sent_packets s1.trace = sent_packets s.trace ++
        .cmd_cfg_read_resp .CMD_NO_ERROR (cfg_read_all_calc_length c.P s.sys_config) ::
          chunks.map tx_packet.data ∧
      parse_tag_values c.P chunks.flatten = some (readable_tag_values c.P s1.sys_config) ∧
      (readable_tag_values c.P s1.sys_config).map Prod.fst =
        c.P.sys_config_tags.filter (tag_is_readable c.P s.sys_config) ∧
      ((readable_tag_values c.P s1.sys_config).map Prod.fst).Nodup ∧
      chunks.flatten.length = cfg_read_all_calc_length c.P s.sys_config ∧
      (∀ t, (s1.sys_config t).set = (s.sys_config t).set) ∧
      (∀ t, t ≠ c.P.tag.LOGGING_FILE_SIZE → s1.sys_config t = s.sys_config t) := by
  obtain ⟨s1, e, hdone⟩ := cfg_read_all_done c hP s req hsize hall hidle htx hslots hpend hok htotal
  obtain ⟨chunks, hsent, hflat⟩ := hdone.sent
  have hL := calc_length_spec c.P s.sys_config hP.count htotal
  have hfst : (readable_tag_values c.P s1.sys_config).map Prod.fst =
      c.P.sys_config_tags.filter (tag_is_readable c.P s.sys_config) := by
    unfold readable_tag_values
    rw [List.map_map]
    have hf : tag_is_readable c.P s1.sys_config = tag_is_readable c.P s.sys_config :=
      funext fun t => tag_is_readable_of_set_flags c.P _ _ t (hdone.set_flags t)
    rw [hf]
    exact List.map_id _
  refine ⟨s1, chunks, e, hdone.message_state, ?_, ?_, hfst, ?_, ?_, hdone.set_flags,
    hdone.others⟩
  · rw [hsent, hL]
  · unfold parse_tag_values readable_tag_values
    rw [hflat]
    exact parse_tag_value_stream c.P s1.sys_config hdone.sizes hP.tag_u16 _ _ (fun _ h => h)
      (Nat.le_refl _)
  · rw [hfst]
    exact hP.nodup.filter _
  · rw [hflat, tag_value_stream_length c.P s1.sys_config hdone.sizes _ (fun _ h => h),
      tag_value_length_congr c.P s1.sys_config s.sys_config _ hdone.set_flags, hL]

theorem demo_schema_ok : schema_ok demo_params :=
  ⟨by decide!, by decide!, by decide!, by decide!, by decide!, by decide!⟩

theorem cfg_read_demo_store_ok : store_sizes_ok demo_params cfg_read_demo_state.sys_config := by
  unfold store_sizes_ok
  decide!

/-- C5 on the demo schema: the three tags of the store are read back. -/
theorem cfg_read_all_lists_every_readable_tag_once_witness :
    ∃ (s1 : State) (chunks : List (List Nat)),
      cfg_read_all cfg_read_all_demo_request demo_ctx cfg_read_demo_state = .ok () s1 ∧
      s1.message_state = .SM_MESSAGE_STATE_IDLE ∧
      sent_packets s1.trace = sent_packets cfg_read_demo_state.trace ++
        .cmd_cfg_read_resp .CMD_NO_ERROR
            (cfg_read_all_calc_length demo_ctx.P cfg_read_demo_state.sys_config) ::
          chunks.map tx_packet.data ∧
      parse_tag_values demo_ctx.P chunks.flatten =
        some (readable_tag_values demo_ctx.P s1.sys_config) ∧
      (readable_tag_values demo_ctx.P s1.sys_config).map Prod.fst =
        demo_ctx.P.sys_config_tags.filter
          (tag_is_readable demo_ctx.P cfg_read_demo_state.sys_config) ∧
      ((readable_tag_values demo_ctx.P s1.sys_config).map Prod.fst).Nodup ∧
      chunks.flatten.length =
        cfg_read_all_calc_length demo_ctx.P cfg_read_demo_state.sys_config ∧
      (∀ t, (s1.sys_config t).set = (cfg_read_demo_state.sys_config t).set) ∧
      (∀ t, t ≠ demo_ctx.P.tag.LOGGING_FILE_SIZE →
        s1.sys_config t = cfg_read_demo_state.sys_config t) :=
  cfg_read_all_lists_every_readable_tag_once demo_ctx cfg_read_demo_state
    cfg_read_all_demo_request demo_schema_ok (by decide!) (by decide!) rfl rfl (by decide!) rfl
    cfg_read_demo_store_ok (by decide!)

/-- The demo transfer, evaluated: the response announces 15 bytes and one data packet
holds the three pairs. -/
theorem cfg_read_all_demo_runs :
    sent_packets (cfg_read_all cfg_read_all_demo_request demo_ctx cfg_read_demo_state).state.trace =
      [.cmd_cfg_read_resp .CMD_NO_ERROR 15,
       .data [1, 0, 1, 11, 0, 60, 0, 0, 0, 15, 0, 0, 194, 1, 0]] ∧
    (cfg_read_all cfg_read_all_demo_request demo_ctx cfg_read_demo_state).state.message_state =
      .SM_MESSAGE_STATE_IDLE := by
  decide!

theorem ite_apply {α : Type} (p : Prop) [Decidable p] (a b : M α) (c : Ctx) (s : State) :
    (if p then a else b) c s = if p then a c s else b c s := by
  split <;> rfl

/-- The model of `sm_main_boot` up to the VUSB test is its three segments in sequence,
with the call of `fs_get_configuration_data` between the second and the third. -/
theorem sm_main_boot_init_split (c : Ctx) (s : State) :
    sm_main_boot_init c s =
      (sm_main_boot_peripherals >>= fun _ => sm_main_boot_log_probe >>= fun _ =>
        fs_get_configuration_data >>= sm_main_boot_configured) c s := by
  unfold sm_main_boot_init sm_main_boot_peripherals sm_main_boot_log_probe
    sm_main_boot_configured
  simp only [bind_apply, getParams, set_default_global_values, modifyState, call,
    setup_buffers, calls, pure_apply, fs_open, ask, ite_apply, fs_close, getState]
  generalize c.env.fs_open _ FS_FILE_ID_LOG .FS_MODE_READONLY = r
  rcases r with ⟨ret, handle⟩
  by_cases hl : ret = .FS_NO_ERROR
  · simp only [hl, if_true]
  · simp only [hl, if_false]

theorem sm_main_boot_peripherals_returns (c : Ctx) (s : State) :
    ∃ s0, sm_main_boot_peripherals c s = .ok () s0 := by
  unfold sm_main_boot_peripherals
  simp only [bind_apply, set_default_global_values, modifyState, call, setup_buffers, calls,
    pure_apply]
  exact ⟨_, rfl⟩

theorem sm_main_boot_log_probe_spec (c : Ctx) (s : State) :
    ∃ s1, sm_main_boot_log_probe c s = .ok () s1 ∧
      s1.log_file_created =
        decide ((c.env.fs_open s.trace FS_FILE_ID_LOG .FS_MODE_READONLY).1 = .FS_NO_ERROR) := by
  unfold sm_main_boot_log_probe
  simp only [bind_apply, modifyState, call, pure_apply, fs_open, ask, ite_apply, fs_close,
    getState]
  rcases c.env.fs_open s.trace FS_FILE_ID_LOG .FS_MODE_READONLY with ⟨ret, handle⟩
  by_cases hl : ret = .FS_NO_ERROR
  · simp only [hl, if_true, decide_True]
    exact ⟨_, rfl, rfl⟩
  · simp only [hl, if_false, decide_False]
    exact ⟨_, rfl, rfl⟩

theorem fs_get_configuration_data_returns (c : Ctx) (s : State) :
    ∃ ret s1, fs_get_configuration_data c s = .ok ret s1 ∧
      s1.log_file_created = s.log_file_created ∧
      ((c.env.fs_open s.trace FS_FILE_ID_CONF .FS_MODE_READONLY).1 = .FS_ERROR_FILE_NOT_FOUND →
        ret = c.P.fs_code .FS_ERROR_FILE_NOT_FOUND) := by
  unfold fs_get_configuration_data
  rcases hopen : c.env.fs_open s.trace FS_FILE_ID_CONF .FS_MODE_READONLY with ⟨ret1, handle⟩
  by_cases h1 : ret1 = .FS_NO_ERROR
  · subst h1
    have hne : ¬ fs_error_t.FS_NO_ERROR = .FS_ERROR_FILE_NOT_FOUND := by decide
    by_cases h2 : (c.env.fs_read (s.trace ++ [Ev.fs_open FS_FILE_ID_CONF .FS_MODE_READONLY])
        (some handle) 1).1 = .FS_NO_ERROR
    · by_cases hv : c.P.SYS_CONFIG_FORMAT_VERSION =
          ((c.env.fs_read (s.trace ++ [.fs_open FS_FILE_ID_CONF .FS_MODE_READONLY])
            (some handle) 1).2.take 1).getD 0 0
      · simp only [bind_apply, getParams, fs_open, ask, hopen, if_true, modifyState,
          pure_apply, ne_eq, not_true_eq_false, if_false, fs_read, getState, h2, fs_close,
          call, hv]
        rcases hopen2 : c.env.fs_open (s.trace ++
            [.fs_open FS_FILE_ID_CONF .FS_MODE_READONLY] ++
            [.fs_read (some handle) 1] ++ [.fs_close (some handle)]) FS_FILE_ID_CONF
            .FS_MODE_READONLY with ⟨ret2, handle2⟩
        by_cases h3 : ret2 = .FS_NO_ERROR
        · subst h3
          simp only [bind_apply, pure_apply, ask, hopen2, if_true, modifyState, getState,
            call, ite_apply]
          split_ifs <;> exact ⟨_, _, rfl, rfl, fun e => e.elim⟩
        · simp only [bind_apply, pure_apply, ask, hopen2, h3, if_false, modifyState,
            getState, call, ite_apply]
          split_ifs <;> exact ⟨_, _, rfl, rfl, fun e => e.elim⟩
      · simp only [bind_apply, getParams, fs_open, ask, hopen, if_true, modifyState,
          pure_apply, ne_eq, not_true_eq_false, if_false, fs_read, getState, h2, fs_close,
          call, hv, not_false_eq_true]
        exact ⟨_, _, rfl, rfl, fun e => absurd e hne⟩
    · simp only [bind_apply, getParams, fs_open, ask, hopen, if_true, modifyState,
        pure_apply, ne_eq, not_true_eq_false, if_false, fs_read, getState, h2,
        not_false_eq_true]
      exact ⟨_, _, rfl, rfl, fun e => absurd e hne⟩
  · simp only [bind_apply, getParams, fs_open, ask, hopen, h1, if_false, pure_apply, ne_eq,
      not_false_eq_true, if_true]
    exact ⟨_, _, rfl, rfl, fun e => by rw [e]⟩

theorem sm_main_boot_configured_spec (c : Ctx) (s : State) (ret : Int) :
    if c.P.fs_code .FS_NO_ERROR = ret ∨ c.P.fs_code .FS_ERROR_FILE_NOT_FOUND = ret ∨
        c.P.fs_code .FS_ERROR_FILE_VERSION_MISMATCH = ret then
      ∃ s1, sm_main_boot_configured ret c s = .ok () s1 ∧
        s1.log_file_created = s.log_file_created
    else sm_main_boot_configured ret c s = .throw .EXCEPTION_FS_ERROR s := by
  unfold sm_main_boot_configured
  simp only [bind_apply, getParams, ite_apply, throw_apply, pure_apply, fs_delete, ask, call,
    set_sm_gps_state, modifyState]
  split_ifs with h1 h2 h2
  · simp [h1] at h2
  · exact ⟨_, rfl, rfl⟩
  · rfl
  · simp [h1] at h2

theorem default_enable_false_apply (c : Ctx) (s : State) (tag : Nat) :
    default_enable_false tag c s = .ok () (s.default_enable_false c.P tag) := by
  unfold default_enable_false State.default_enable_false
  simp only [bind_apply, getParams, getState, ite_apply, modifyState, pure_apply]
  split <;> rfl

theorem check_configuration_tags_set_apply (c : Ctx) (s : State) :
    check_configuration_tags_set c s =
      .ok (configuration_tags_set c.P s) (s.defaulted c.P) := by
  unfold check_configuration_tags_set
  simp only [bind_apply, getParams, default_enable_false_apply, getState, pure_apply]
  rfl

theorem default_enable_false_log_file_created (P : Params) (s : State) (tag : Nat) :
    (s.default_enable_false P tag).log_file_created = s.log_file_created := by
  unfold State.default_enable_false
  split <;> rfl

theorem foldl_default_enable_false_log_file_created (P : Params) (l : List Nat) :
    ∀ s : State, (l.foldl (fun s tag => s.default_enable_false P tag) s).log_file_created =
      s.log_file_created := by
  induction l with
  | nil => intro s; rfl
  | cons t l ih =>
    intro s
    rw [List.foldl_cons, ih, default_enable_false_log_file_created]

theorem defaulted_log_file_created (P : Params) (s : State) :
    (s.defaulted P).log_file_created = s.log_file_created :=
  foldl_default_enable_false_log_file_created P _ s

/-- C11 (amended): with VUSB not asserted, `sm_main_boot` runs to the call of
`fs_get_configuration_data`, which returns. `log_file_created` then tells whether the log
file could be opened read-only, and a configuration file that is not found gives the
return value FS_ERROR_FILE_NOT_FOUND. When the value returned is FS_NO_ERROR,
FS_ERROR_FILE_NOT_FOUND or FS_ERROR_FILE_VERSION_MISMATCH, `sm_main_boot` returns and has
selected Operational when `check_configuration_tags_set()` returned true and the log file
could be opened, and Provisioning Needed otherwise. For every other value it throws
EXCEPTION_FS_ERROR and the handle is as it was: no state has been selected. -/
theorem sm_main_boot_decision (c : Ctx) (h : sm_handle_t) (s : State)
    (hvusb : ∀ tr, c.env.syshal_gpio_get_input_VUSB tr = false) :
    ∃ (s0 s1 : State) (ret : Int) (s2 : State),
      sm_main_boot_peripherals c s = .ok () s0 ∧
      sm_main_boot_log_probe c s0 = .ok () s1 ∧
      s1.log_file_created =
        decide ((c.env.fs_open s0.trace FS_FILE_ID_LOG .FS_MODE_READONLY).1 = .FS_NO_ERROR) ∧
      fs_get_configuration_data c s1 = .ok ret s2 ∧
      ((c.env.fs_open s1.trace FS_FILE_ID_CONF .FS_MODE_READONLY).1 =
          .FS_ERROR_FILE_NOT_FOUND → ret = c.P.fs_code .FS_ERROR_FILE_NOT_FOUND) ∧
      if c.P.fs_code .FS_NO_ERROR = ret ∨ c.P.fs_code .FS_ERROR_FILE_NOT_FOUND = ret ∨
          c.P.fs_code .FS_ERROR_FILE_VERSION_MISMATCH = ret then
        ∃ (s3 : State) (tags_set : Bool) (s4 : State),
          sm_main_boot_init c s = .ok () s3 ∧
          check_configuration_tags_set c (s3.record .syshal_gpio_get_input_VUSB) =
            .ok tags_set s4 ∧
          sm_main_boot c h s = .ok ()
            { h with next_state :=
                if tags_set = true ∧ s1.log_file_created = true then .SM_MAIN_OPERATIONAL
                else .SM_MAIN_PROVISIONING_NEEDED } s4
      else sm_main_boot c h s = .throw .EXCEPTION_FS_ERROR h s2 := by
  obtain ⟨s0, e0⟩ := sm_main_boot_peripherals_returns c s
  obtain ⟨s1, e1, hlog⟩ := sm_main_boot_log_probe_spec c s0
  obtain ⟨ret, s2, e2, hkeep, hfnf⟩ := fs_get_configuration_data_returns c s1
  refine ⟨s0, s1, ret, s2, e0, e1, hlog, e2, hfnf, ?_⟩
  have hinit : sm_main_boot_init c s = sm_main_boot_configured ret c s2 := by
    rw [sm_main_boot_init_split, bind_apply, e0]
    simp only []
    rw [bind_apply, e1]
    simp only []
    rw [bind_apply, e2]
  have hspec := sm_main_boot_configured_spec c s2 ret
  split_ifs with hacc
  · rw [if_pos hacc] at hspec
    obtain ⟨s3, e3, hkeep3⟩ := hspec
    rw [← hinit] at e3
    refine ⟨s3, _, _, e3, check_configuration_tags_set_apply c _, ?_⟩
    unfold sm_main_boot
    simp only [sm_ite_bind, ← sm_bind_assoc]
    simp only [sm_bind_assoc]
    rw [sm_bind_apply, lift_apply, e3]
    simp only []
    rw [sm_ask_bind, hvusb, sm_ite_apply, if_neg (by decide), sm_pure_bind, sm_bind_apply,
      lift_apply, check_configuration_tags_set_apply]
    simp only []
    rw [sm_getState_bind, sm_ite_apply]
    have hc2 : ((s3.record .syshal_gpio_get_input_VUSB).defaulted c.P).log_file_created =
        s1.log_file_created := by
      rw [defaulted_log_file_created, ← hkeep, ← hkeep3]
      rfl
    rw [hc2]
    by_cases ht : configuration_tags_set c.P (s3.record .syshal_gpio_get_input_VUSB) = true <;>
      by_cases hl : s1.log_file_created = true <;>
      simp only [ht, hl, Bool.and_true, Bool.and_false, Bool.false_eq_true, and_self,
        and_true, and_false, if_true, if_false, Bool.and_self] <;>
      rfl
  · rw [if_neg hacc] at hspec
    rw [← hinit] at hspec
    unfold sm_main_boot
    simp only [sm_ite_bind, ← sm_bind_assoc]
    simp only [sm_bind_assoc]
    rw [sm_bind_apply, lift_apply, hspec]

theorem sm_main_boot_decision_witness :
    ∃ (s0 s1 : State) (ret : Int) (s2 : State),
      sm_main_boot_peripherals empty_flash_ctx initial_state = .ok () s0 ∧
      sm_main_boot_log_probe empty_flash_ctx s0 = .ok () s1 ∧
      s1.log_file_created =
        decide ((empty_flash_ctx.env.fs_open s0.trace FS_FILE_ID_LOG .FS_MODE_READONLY).1 =
          .FS_NO_ERROR) ∧
      fs_get_configuration_data empty_flash_ctx s1 = .ok ret s2 ∧
      ((empty_flash_ctx.env.fs_open s1.trace FS_FILE_ID_CONF .FS_MODE_READONLY).1 =
          .FS_ERROR_FILE_NOT_FOUND → ret = empty_flash_ctx.P.fs_code .FS_ERROR_FILE_NOT_FOUND) ∧
      if empty_flash_ctx.P.fs_code .FS_NO_ERROR = ret ∨
          empty_flash_ctx.P.fs_code .FS_ERROR_FILE_NOT_FOUND = ret ∨
          empty_flash_ctx.P.fs_code .FS_ERROR_FILE_VERSION_MISMATCH = ret then
        ∃ (s3 : State) (tags_set : Bool) (s4 : State),
          sm_main_boot_init empty_flash_ctx initial_state = .ok () s3 ∧
          check_configuration_tags_set empty_flash_ctx
            (s3.record .syshal_gpio_get_input_VUSB) = .ok tags_set s4 ∧
          sm_main_boot empty_flash_ctx boot_handle initial_state = .ok ()
            { boot_handle with next_state :=
                if tags_set = true ∧ s1.log_file_created = true then .SM_MAIN_OPERATIONAL
                else .SM_MAIN_PROVISIONING_NEEDED } s4
      else sm_main_boot empty_flash_ctx boot_handle initial_state =
        .throw .EXCEPTION_FS_ERROR boot_handle s2 :=
  sm_main_boot_decision empty_flash_ctx boot_handle initial_state (fun _ => rfl)

/-- C11 (counterexample): VUSB is not asserted, the log file can be opened, and the
configuration file exists and is empty, so that the first `fs_read` of
`fs_get_configuration_data` reports the end of the file. `sm_main_boot` does not return:
it throws EXCEPTION_FS_ERROR, and the next state of the handle is still Boot, neither
Operational nor Provisioning Needed. -/
theorem sm_main_boot_throws_on_empty_configuration_file :
    (∀ tr, empty_conf_ctx.env.syshal_gpio_get_input_VUSB tr = false) ∧
    (sm_main_boot_init empty_conf_ctx initial_state).exc = some .EXCEPTION_FS_ERROR ∧
    (sm_main_boot empty_conf_ctx boot_handle initial_state).returned = false ∧
    (sm_main_boot empty_conf_ctx boot_handle initial_state).exc =
      some .EXCEPTION_FS_ERROR ∧
    (sm_main_boot empty_conf_ctx boot_handle initial_state).handle.next_state =
      .SM_MAIN_BOOT ∧
    (sm_main_boot empty_conf_ctx boot_handle initial_state).state.log_file_created = true :=
  ⟨fun _ => rfl, by decide!, by decide!, by decide!, by decide!, by decide!⟩

/-- Boot on an empty flash selects Provisioning Needed and leaves `log_file_created`
false; boot on a seeded flash with every tag set selects Operational; with every tag set
but no log file it selects Provisioning Needed. -/
theorem boot_demo_runs :
    (sm_main_boot empty_flash_ctx (.enter .SM_MAIN_BOOT .SM_MAIN_BOOT true)
        initial_state).handle.next_state = .SM_MAIN_PROVISIONING_NEEDED ∧
    (sm_main_boot empty_flash_ctx (.enter .SM_MAIN_BOOT .SM_MAIN_BOOT true)
        initial_state).state.log_file_created = false ∧
    (sm_main_boot seeded_flash_ctx (.enter .SM_MAIN_BOOT .SM_MAIN_BOOT true)
        all_tags_set_state).handle.next_state = .SM_MAIN_OPERATIONAL ∧
    (sm_main_boot empty_flash_ctx (.enter .SM_MAIN_BOOT .SM_MAIN_BOOT true)
        all_tags_set_state).handle.next_state = .SM_MAIN_PROVISIONING_NEEDED := by
  decide!

theorem operational_split :
    sm_main_operational = (sm_main_operational_body >>= fun _ => getHandle >>= fun state_handle =>
      if sm_is_last_entry state_handle = true then (liftM sm_main_operational_exit : SM Unit)
      else pure ()) := by
  unfold sm_main_operational sm_main_operational_body
  funext c h s
  rw [sm_bind_assoc, sm_getParams_bind, sm_getParams_bind]
  simp only [sm_ite_bind, ← sm_bind_assoc]

theorem operational_exit_spec (c : Ctx) (s : State) :
    ∃ s1, sm_main_operational_exit c s = .ok () s1 ∧
      s1.file_handle = none ∧ s1.sm_gps_state = .SM_GPS_STATE_ASLEEP ∧
      s1.sensor_logging_enabled = false ∧
      s1.trace = s.trace ++ operational_exit_calls s := by
  unfold sm_main_operational_exit operational_exit_calls
  simp only [bind_apply, getState, ite_apply, fs_close, call, modifyState, pure_apply,
    set_sm_gps_state, syshal_gps_shutdown]
  by_cases hf : s.file_handle.isSome = true <;>
    by_cases hg : s.sm_gps_state = .SM_GPS_STATE_ASLEEP
  · simp only [hf, hg, if_true, ne_eq, not_true_eq_false, if_false, List.append_nil,
      List.append_assoc]
    exact ⟨_, rfl, rfl, rfl, rfl, rfl⟩
  · simp only [hf, hg, if_true, ne_eq, not_false_eq_true, if_false, List.append_nil,
      List.append_assoc]
    exact ⟨_, rfl, rfl, rfl, rfl, rfl⟩
  · simp only [hf, hg, if_true, ne_eq, not_true_eq_false, if_false, List.append_nil,
      List.append_assoc, Bool.false_eq_true, List.nil_append]
    refine ⟨_, rfl, ?_, rfl, rfl, rfl⟩
    cases hh : s.file_handle with
    | none => rfl
    | some x => rw [hh] at hf; exact absurd rfl hf
  · simp only [hf, hg, if_true, ne_eq, not_false_eq_true, if_false, List.append_nil,
      List.append_assoc, Bool.false_eq_true, List.nil_append]
    refine ⟨_, rfl, ?_, rfl, rfl, rfl⟩
    cases hh : s.file_handle with
    | none => rfl
    | some x => rw [hh] at hf; exact absurd rfl hf

theorem timer_armed_append (t : timer_handle_t) (a b : List Ev) :
    timer_armed t (a ++ b) = b.foldl (timer_armed_step t) (timer_armed t a) := by
  unfold timer_armed
  rw [List.foldl_append]

theorem timer_armed_exit_calls (t : timer_handle_t) (tr : List Ev) (s : State) :
    timer_armed t (tr ++ operational_exit_calls s) = timer_armed t tr := by
  rw [timer_armed_append]
  unfold operational_exit_calls
  by_cases hf : s.file_handle.isSome = true <;>
    by_cases hg : s.sm_gps_state = .SM_GPS_STATE_ASLEEP <;>
    simp only [hf, hg, if_true, if_false, ne_eq, not_true_eq_false, not_false_eq_true,
      List.nil_append, List.append_nil, List.cons_append, List.foldl_cons, List.foldl_nil,
      timer_armed_step, Bool.false_eq_true]

/-- The exit block of `sm_main_operational`, for every input: on an iteration that
returns having selected a next state other than the current one, the exit block runs on
the globals `s5` that the rest of the function has produced: the log file is closed if it
was open and `file_handle` is NULL, the GPS sub-state is Asleep, `sensor_logging_enabled`
is false, and the only calls made are `fs_close`, `syshal_axl_term`,
`syshal_pressure_term` and `syshal_gps_shutdown`; no timer is cancelled: every timer is
armed after the exit block exactly when it was before. -/
theorem operational_exit_actions (c : Ctx) (h : sm_handle_t) (s : State)
    (hret : (sm_main_operational c h s).returned = true)
    (hleave : (sm_main_operational c h s).handle.next_state ≠
      (sm_main_operational c h s).handle.current_state) :
    ∃ (h1 : sm_handle_t) (s5 : State), sm_main_operational_body c h s = .ok () h1 s5 ∧
      (sm_main_operational c h s).handle = h1 ∧
      (sm_main_operational c h s).state.file_handle = none ∧
      (sm_main_operational c h s).state.sm_gps_state = .SM_GPS_STATE_ASLEEP ∧
      (sm_main_operational c h s).state.sensor_logging_enabled = false ∧
      (sm_main_operational c h s).state.trace = s5.trace ++ operational_exit_calls s5 ∧
      ∀ t, timer_armed t (sm_main_operational c h s).state.trace = timer_armed t s5.trace := by
  rw [operational_split] at hret hleave ⊢
  obtain ⟨_, h1, s5, hb, e⟩ := sm_bind_returned _ _ c h s hret
  rw [e] at hret hleave ⊢
  rw [sm_getHandle_bind, sm_ite_apply] at hret hleave ⊢
  refine ⟨h1, s5, hb, ?_⟩
  by_cases hlast : sm_is_last_entry h1 = true
  · rw [if_pos hlast] at hret hleave ⊢
    obtain ⟨s6, e6, hf, hg, hs, htr⟩ := operational_exit_spec c s5
    rw [lift_apply, e6]
    refine ⟨rfl, hf, hg, hs, htr, fun t => ?_⟩
    show timer_armed t s6.trace = _
    rw [htr, timer_armed_exit_calls]
  · rw [if_neg hlast] at hleave
    exfalso
    apply hleave
    unfold sm_is_last_entry at hlast
    simp only [bne_iff_ne, ne_eq, not_not] at hlast
    exact hlast.symm

theorem operational_exit_actions_witness :
    ∃ (h1 : sm_handle_t) (s5 : State),
      sm_main_operational_body (power_ctx true 100)
        (.enter .SM_MAIN_BOOT .SM_MAIN_OPERATIONAL true) initial_state = .ok () h1 s5 ∧
      (sm_main_operational (power_ctx true 100)
        (.enter .SM_MAIN_BOOT .SM_MAIN_OPERATIONAL true) initial_state).handle = h1 ∧
      (sm_main_operational (power_ctx true 100)
        (.enter .SM_MAIN_BOOT .SM_MAIN_OPERATIONAL true) initial_state).state.file_handle = none ∧
      (sm_main_operational (power_ctx true 100)
        (.enter .SM_MAIN_BOOT .SM_MAIN_OPERATIONAL true) initial_state).state.sm_gps_state =
          .SM_GPS_STATE_ASLEEP ∧
      (sm_main_operational (power_ctx true 100)
        (.enter .SM_MAIN_BOOT .SM_MAIN_OPERATIONAL true)
        initial_state).state.sensor_logging_enabled = false ∧
      (sm_main_operational (power_ctx true 100)
        (.enter .SM_MAIN_BOOT .SM_MAIN_OPERATIONAL true) initial_state).state.trace =
          s5.trace ++ operational_exit_calls s5 ∧
      ∀ t, timer_armed t (sm_main_operational (power_ctx true 100)
        (.enter .SM_MAIN_BOOT .SM_MAIN_OPERATIONAL true) initial_state).state.trace =
          timer_armed t s5.trace :=
  operational_exit_actions (power_ctx true 100) (.enter .SM_MAIN_BOOT .SM_MAIN_OPERATIONAL true)
    initial_state (by decide!) (by decide!)

/-- C12 (the code departs from the claim): a tag with every tag of the configuration set
(GPS trigger mode Scheduled) boots into Operational and is then put on its charger. The
iteration of `sm_main_operational` arms the GPS interval, maximum-acquisition, no-fix and
log flush timers, selects Battery Charging and runs the exit block: the log file is
closed, `file_handle` is NULL, the GPS is shut down and Asleep, `sensor_logging_enabled`
is false, and the four timers are still armed, since the exit block cancels none. The
next iteration runs `sm_main_battery_charging`, whose `syshal_timer_tick` delivers the
expiry of the GPS interval timer to `timer_gps_interval_callback`: the GPS is woken up and
Acquiring again while the state is Battery Charging (the calls listed last are those of
this iteration, made after the 171 calls of the first two). -/
theorem operational_exit_leaves_timers_that_wake_gps :
    (sm_ticks charger_ctx 2 boot_handle all_tags_set_state).map (fun r =>
      (r.1.last_state, r.1.current_state, r.2.sm_gps_state)) =
      some (.SM_MAIN_OPERATIONAL, .SM_MAIN_BATTERY_CHARGING, .SM_GPS_STATE_ASLEEP) ∧
    (sm_ticks charger_ctx 2 boot_handle all_tags_set_state).map (fun r =>
      (r.2.file_handle, r.2.sensor_logging_enabled)) = some (none, false) ∧
    (sm_ticks charger_ctx 2 boot_handle all_tags_set_state).map (fun r =>
      r.2.trace.reverse.take 4) =
      some [.hal .syshal_gps_shutdown, .hal .syshal_pressure_term, .hal .syshal_axl_term,
        .fs_close (some 1)] ∧
    (sm_ticks charger_ctx 2 boot_handle all_tags_set_state).map (fun r =>
      (timer_armed .timer_gps_interval r.2.trace, timer_armed .timer_gps_no_fix r.2.trace,
        timer_armed .timer_gps_maximum_acquisition r.2.trace,
        timer_armed .timer_log_flush r.2.trace)) = some (true, true, true, true) ∧
    (sm_ticks charger_ctx 2 boot_handle all_tags_set_state).map (fun r =>
      r.2.trace.length) = some 171 ∧
    (sm_ticks charger_ctx 3 boot_handle all_tags_set_state).map (fun r =>
      (r.1.last_state, r.1.current_state, r.2.sm_gps_state)) =
      some (.SM_MAIN_BATTERY_CHARGING, .SM_MAIN_BATTERY_CHARGING, .SM_GPS_STATE_ACQUIRING) ∧
    (sm_ticks charger_ctx 3 boot_handle all_tags_set_state).map (fun r =>
      r.2.trace.drop 171) =
      some [.config_if_current, .hal .config_if_term,
        .config_if_init .CONFIG_IF_BACKEND_USB, .syshal_time_get_ticks_ms,
        .config_if_current, .hal .config_if_tick, .hal .syshal_timer_tick,
        .hal .syshal_gps_wake_up,
        .syshal_timer_set .timer_gps_maximum_acquisition .one_shot 1,
        .syshal_timer_set .timer_gps_no_fix .one_shot 1, .syshal_time_get_ticks_ms,
        .syshal_gpio_get_input_VUSB] := by
  decide!

theorem sys_config_get_not_set_iff (P : Params) (store : Nat → sys_config_entry) (tag : Nat) :
    SYS_CONFIG_ERROR_TAG_NOT_SET = (sys_config_get P store tag).1 ↔
      (tag ∈ P.sys_config_tags ∧ (store tag).set = false) := by
  unfold sys_config_get
  by_cases hm : tag ∈ P.sys_config_tags
  · by_cases hs : (store tag).set = true
    · rw [if_pos hm, if_pos hs]
      simp only [hm, hs, true_and, Bool.true_eq_false, iff_false]
      unfold SYS_CONFIG_ERROR_TAG_NOT_SET
      omega
    · rw [if_pos hm, if_neg hs]
      simp only [hm, true_and, true_iff]
      exact Bool.eq_false_iff.mpr hs
  · rw [if_neg hm]
    simp only [hm, false_and, iff_false]
    decide

theorem default_enable_false_sys_config (P : Params) (s : State) (tag t : Nat) :
    (s.default_enable_false P tag).sys_config t = default_entry P t (s.sys_config t) tag := by
  unfold State.default_enable_false default_entry
  by_cases hn : SYS_CONFIG_ERROR_TAG_NOT_SET = (sys_config_get P s.sys_config tag).1
  · rw [if_pos hn]
    have h2 := (sys_config_get_not_set_iff P s.sys_config tag).mp hn
    by_cases ht : t = tag
    · subst ht
      rw [if_pos ⟨rfl, h2⟩]
      unfold State.set_contents
      simp only [if_true]
    · rw [if_neg (fun h => ht h.1)]
      unfold State.set_contents
      simp only [ht, if_false]
  · rw [if_neg hn]
    by_cases ht : t = tag
    · subst ht
      rw [if_neg (fun h => hn ((sys_config_get_not_set_iff P s.sys_config t).mpr h.2))]
    · rw [if_neg (fun h => ht h.1)]

theorem foldl_default_enable_false_sys_config (P : Params) (t : Nat) (l : List Nat) :
    ∀ s : State, (l.foldl (fun s tag => s.default_enable_false P tag) s).sys_config t =
      l.foldl (default_entry P t) (s.sys_config t) := by
  induction l with
  | nil => intro s; rfl
  | cons tag l ih =>
    intro s
    rw [List.foldl_cons, List.foldl_cons, ih, default_enable_false_sys_config]

theorem defaulted_sys_config (P : Params) (s : State) (t : Nat) :
    (s.defaulted P).sys_config t =
      (default_enable_false_tags P).foldl (default_entry P t) (s.sys_config t) :=
  foldl_default_enable_false_sys_config P t _ s

theorem foldl_default_entry_set (P : Params) (t : Nat) (l : List Nat) :
    ∀ e : sys_config_entry, (l.foldl (default_entry P t) e).set = e.set := by
  induction l with
  | nil => intro e; rfl
  | cons tag l ih =>
    intro e
    rw [List.foldl_cons, ih]
    unfold default_entry
    split <;> rfl

theorem foldl_default_entry_of_set (P : Params) (t : Nat) (l : List Nat) :
    ∀ e : sys_config_entry, e.set = true → l.foldl (default_entry P t) e = e := by
  induction l with
  | nil => intro e _; rfl
  | cons tag l ih =>
    intro e he
    have h1 : default_entry P t e tag = e := by
      unfold default_entry
      rw [if_neg (fun h => by rw [he] at h; exact Bool.noConfusion h.2.2)]
    rw [List.foldl_cons, h1, ih e he]

theorem defaulted_set (P : Params) (s : State) (t : Nat) :
    ((s.defaulted P).sys_config t).set = (s.sys_config t).set := by
  rw [defaulted_sys_config, foldl_default_entry_set]

theorem defaulted_of_set (P : Params) (s : State) (t : Nat) (h : (s.sys_config t).set = true) :
    (s.defaulted P).sys_config t = s.sys_config t := by
  rw [defaulted_sys_config, foldl_default_entry_of_set P t _ _ h]

theorem defaulted_congr (P : Params) (s1 s2 : State) (t : Nat)
    (h : s1.sys_config t = s2.sys_config t) :
    (s1.defaulted P).sys_config t = (s2.defaulted P).sys_config t := by
  rw [defaulted_sys_config, defaulted_sys_config, h]

theorem check_configuration_tags_ignored_congr (P : Params) (s1 s2 : State)
    (h : ∀ t, t ∈ mask_selector_tags P → s1.sys_config t = s2.sys_config t) (tag : Nat) :
    check_configuration_tags_ignored P s1 tag = check_configuration_tags_ignored P s2 tag := by
  have h1 := h P.tag.LOGGING_ENABLE (by simp [mask_selector_tags])
  have h2 := h P.tag.GPS_LOG_POSITION_ENABLE (by simp [mask_selector_tags])
  have h3 := h P.tag.GPS_LOG_TTFF_ENABLE (by simp [mask_selector_tags])
  have h4 := h P.tag.SALTWATER_SWITCH_LOG_ENABLE (by simp [mask_selector_tags])
  have h5 := h P.tag.TEMP_SENSOR_LOG_ENABLE (by simp [mask_selector_tags])
  have h6 := h P.tag.PRESSURE_SENSOR_LOG_ENABLE (by simp [mask_selector_tags])
  have h7 := h P.tag.AXL_LOG_ENABLE (by simp [mask_selector_tags])
  have h8 := h P.tag.RTC_SYNC_TO_GPS_ENABLE (by simp [mask_selector_tags])
  have h9 := h P.tag.GPS_TRIGGER_MODE (by simp [mask_selector_tags])
  have h10 := h P.tag.PRESSURE_MODE (by simp [mask_selector_tags])
  have h11 := h P.tag.AXL_MODE (by simp [mask_selector_tags])
  unfold check_configuration_tags_ignored State.enable State.hdr_set State.contents_value
  simp only [h1, h2, h3, h4, h5, h6, h7, h8, h9, h10, h11]

theorem check_configuration_tags_loop_congr (P : Params) (s1 s2 : State)
    (hign : ∀ t, check_configuration_tags_ignored P s1 t = check_configuration_tags_ignored P s2 t)
    (hget : ∀ t, check_configuration_tags_ignored P s1 t = false →
      (sys_config_get P s1.sys_config t).1 = (sys_config_get P s2.sys_config t).1) :
    ∀ fuel i acc, check_configuration_tags_loop P s1 fuel i acc =
      check_configuration_tags_loop P s2 fuel i acc := by
  intro fuel
  induction fuel with
  | zero => intro i acc; rfl
  | succ fuel ih =>
    intro i acc
    unfold check_configuration_tags_loop
    cases hit : sys_config_iterate P i with
    | none => rfl
    | some p =>
      obtain ⟨tag, i1⟩ := p
      simp only []
      rw [← hign tag]
      by_cases hi : check_configuration_tags_ignored P s1 tag = true
      · rw [if_pos hi, if_pos hi, ih]
      · rw [if_neg hi, if_neg hi, ← hget tag (Bool.eq_false_iff.mpr hi), ih, ih]

theorem sys_config_get_fst_congr (P : Params) (store1 store2 : Nat → sys_config_entry)
    (tag : Nat) (h : (store1 tag).set = (store2 tag).set) :
    (sys_config_get P store1 tag).1 = (sys_config_get P store2 tag).1 := by
  unfold sys_config_get
  rw [h]
  by_cases hm : tag ∈ P.sys_config_tags
  · rw [if_pos hm, if_pos hm]
    split <;> rfl
  · rw [if_neg hm, if_neg hm]

theorem entry_ext (e1 e2 : sys_config_entry) (hs : e1.set = e2.set)
    (hc : e1.contents = e2.contents) : e1 = e2 := by
  cases e1
  cases e2
  simp only [sys_config_entry.mk.injEq]
  exact ⟨hs, hc⟩

/-- The value of the required-tags predicate is the same for two configurations that
differ only in the set flags of tags that the mask hides and does not read. -/
theorem configuration_tags_set_congr (P : Params) (s1 s2 : State) (L : List Nat)
    (hd : differ_only_in_set_flags L s1 s2)
    (hsel : ∀ t, t ∈ L → t ∉ mask_selector_tags P)
    (hign : ∀ t, t ∈ L → check_configuration_tags_ignored P (s1.defaulted P) t = true) :
    configuration_tags_set P s1 = configuration_tags_set P s2 := by
  have hout : ∀ t, t ∉ L → s1.sys_config t = s2.sys_config t := fun t ht =>
    entry_ext _ _ ((hd t).2 ht) (hd t).1
  have hmask := check_configuration_tags_ignored_congr P (s1.defaulted P) (s2.defaulted P)
    (fun t ht => defaulted_congr P s1 s2 t (hout t (fun hL => hsel t hL ht)))
  unfold configuration_tags_set
  rw [check_configuration_tags_loop_congr P (s1.defaulted P) (s2.defaulted P) hmask]
  intro t ht
  apply sys_config_get_fst_congr
  rw [defaulted_set, defaulted_set]
  by_cases hL : t ∈ L
  · rw [hign t hL] at ht
    exact Bool.noConfusion ht
  · exact (hd t).2 hL

theorem differ_only_with_set_flags (s : State) (L : List Nat) (flag : Bool) :
    differ_only_in_set_flags L s (s.with_set_flags L flag) := by
  intro t
  unfold State.with_set_flags
  by_cases h : t ∈ L
  · simp only [h, if_true, not_true_eq_false, false_implies, and_self]
  · simp only [h, if_false, not_false_eq_true, true_implies, and_self]

theorem defaulted_hdr_set (P : Params) (s : State) (t : Nat) :
    (s.defaulted P).hdr_set t = s.hdr_set t := defaulted_set P s t

theorem defaulted_contents_value_of_set (P : Params) (s : State) (t : Nat)
    (h : s.hdr_set t = true) : (s.defaulted P).contents_value t = s.contents_value t := by
  unfold State.contents_value
  rw [defaulted_of_set P s t h]

theorem gps_scheduled_tags_ignored (P : Params) (s : State) (t : Nat)
    (ht : t ∈ gps_scheduled_tags P)
    (hset : s.hdr_set P.tag.GPS_TRIGGER_MODE = true)
    (hmode : P.SYS_CONFIG_GPS_TRIGGER_MODE_SWITCH_TRIGGERED =
      s.contents_value P.tag.GPS_TRIGGER_MODE)
    (hsw : s.enable P.tag.SALTWATER_SWITCH_LOG_ENABLE = true ∨
      s.enable P.tag.LOGGING_ENABLE = false ∨
      s.enable P.tag.GPS_LOG_POSITION_ENABLE = false) :
    check_configuration_tags_ignored P s t = true := by
  unfold gps_scheduled_tags at ht
  simp only [List.mem_cons, List.mem_singleton, List.not_mem_nil, or_false] at ht
  unfold check_configuration_tags_ignored
  rcases hsw with h | h | h <;> rcases ht with ht | ht | ht <;> subst ht <;>
    simp [h, hset, ← hmode]

/-- Where the mask of `check_configuration_tags_set` does leave the three tags out: two
configurations that differ only in the set flags of the GPS scheduled acquisition
interval, maximum acquisition time and no-fix timeout tags, with `gps.trigger_mode` set
to SwitchTriggered, give the same value of `check_configuration_tags_set` when the
saltwater switch log enable read by the loop is true, or logging or GPS position logging
is disabled (the three tags are not among the tags the mask reads). -/
theorem switch_triggered_hides_gps_scheduled_tags (c : Ctx) (s1 s2 : State)
    (hd : differ_only_in_set_flags (gps_scheduled_tags c.P) s1 s2)
    (hsel : ∀ t, t ∈ gps_scheduled_tags c.P → t ∉ mask_selector_tags c.P)
    (hset : s1.hdr_set c.P.tag.GPS_TRIGGER_MODE = true)
    (hmode : c.P.SYS_CONFIG_GPS_TRIGGER_MODE_SWITCH_TRIGGERED =
      s1.contents_value c.P.tag.GPS_TRIGGER_MODE)
    (hsw : (s1.defaulted c.P).enable c.P.tag.SALTWATER_SWITCH_LOG_ENABLE = true ∨
      (s1.defaulted c.P).enable c.P.tag.LOGGING_ENABLE = false ∨
      (s1.defaulted c.P).enable c.P.tag.GPS_LOG_POSITION_ENABLE = false) :
    ∃ (b : Bool) (r1 r2 : State),
      check_configuration_tags_set c s1 = .ok b r1 ∧
      check_configuration_tags_set c s2 = .ok b r2 := by
  refine ⟨configuration_tags_set c.P s1, s1.defaulted c.P, s2.defaulted c.P,
    check_configuration_tags_set_apply c s1, ?_⟩
  rw [check_configuration_tags_set_apply,
    configuration_tags_set_congr c.P s1 s2 _ hd hsel]
  intro t ht
  apply gps_scheduled_tags_ignored _ _ _ ht
  · rw [defaulted_hdr_set]; exact hset
  · rw [defaulted_contents_value_of_set _ _ _ hset]; exact hmode
  · exact hsw

theorem switch_triggered_hides_gps_scheduled_tags_witness :
    ∃ (b : Bool) (r1 r2 : State),
      check_configuration_tags_set demo_ctx switch_triggered_state = .ok b r1 ∧
      check_configuration_tags_set demo_ctx
        (switch_triggered_state.with_set_flags (gps_scheduled_tags demo_ctx.P) false) =
        .ok b r2 :=
  switch_triggered_hides_gps_scheduled_tags demo_ctx switch_triggered_state _
    (differ_only_with_set_flags _ _ _) (by decide!) (by decide!) (by decide!)
    (Or.inl (by decide!))

/-- C13 (the code departs from the claim): `gps.trigger_mode` is set to SwitchTriggered,
logging and GPS position logging are enabled and every tag is set, saltwater switch
logging being set to false. `check_configuration_tags_set` returns true, and it returns
false for the configurations that differ from this one only in the set flag of the GPS
scheduled acquisition interval, of the maximum acquisition time, of the no-fix timeout, or
of the three together: the result depends on the set flags of the three tags. The test
under the comment "If we're in switch only trigger mode, then ignore any options meant
for SCHEDULED or HYBRID modes" is the else branch of the test of the saltwater switch log
enable: with that flag true and the same three tags not set the function returns true. -/
theorem switch_triggered_still_needs_gps_scheduled_tags :
    switch_triggered_no_switch_log_state.hdr_set demo_tag_ids.GPS_TRIGGER_MODE = true ∧
    demo_params.SYS_CONFIG_GPS_TRIGGER_MODE_SWITCH_TRIGGERED =
      switch_triggered_no_switch_log_state.contents_value demo_tag_ids.GPS_TRIGGER_MODE ∧
    differ_only_in_set_flags (gps_scheduled_tags demo_params)
      switch_triggered_no_switch_log_state
      (switch_triggered_no_switch_log_state.with_set_flags
        (gps_scheduled_tags demo_params) false) ∧
    (check_configuration_tags_set demo_ctx switch_triggered_no_switch_log_state).value? =
      some true ∧
    (check_configuration_tags_set demo_ctx
      (switch_triggered_no_switch_log_state.with_set_flags
        [demo_tag_ids.GPS_SCHEDULED_ACQUISITION_INTERVAL] false)).value? = some false ∧
    (check_configuration_tags_set demo_ctx
      (switch_triggered_no_switch_log_state.with_set_flags
        [demo_tag_ids.GPS_MAXIMUM_ACQUISITION_TIME] false)).value? = some false ∧
    (check_configuration_tags_set demo_ctx
      (switch_triggered_no_switch_log_state.with_set_flags
        [demo_tag_ids.GPS_SCHEDULED_ACQUISITION_NO_FIX_TIMEOUT] false)).value? = some false ∧
    (check_configuration_tags_set demo_ctx
      (switch_triggered_no_switch_log_state.with_set_flags
        (gps_scheduled_tags demo_params) false)).value? = some false ∧
    (check_configuration_tags_set demo_ctx switch_triggered_state).value? = some true ∧
    (check_configuration_tags_set demo_ctx
      (switch_triggered_state.with_set_flags
        (gps_scheduled_tags demo_params) false)).value? = some true :=
  ⟨by decide!, by decide!, differ_only_with_set_flags _ _ _, by decide!, by decide!,
    by decide!, by decide!, by decide!, by decide!, by decide!⟩

/-- C14 (the code departs from the claim): `logging.enable` is not set and every other
tag is set, the accelerometer log enable being true: `check_configuration_tags_set`
returns true, and it returns false once the accelerometer scheduled acquisition interval
tag alone is not set; the same holds for the accelerometer maximum acquisition time and
for the two pressure tags of the same names, which the list of the tags ignored when
logging is disabled leaves out. -/
theorem logging_disabled_still_needs_acquisition_tags :
    (check_configuration_tags_set demo_ctx logging_unset_state).value? = some true ∧
    (check_configuration_tags_set demo_ctx
      (logging_unset_state.with_set_flags
        [demo_tag_ids.AXL_SCHEDULED_ACQUISITION_INTERVAL] false)).value? = some false ∧
    (check_configuration_tags_set demo_ctx
      (logging_unset_state.with_set_flags
        [demo_tag_ids.AXL_MAXIMUM_ACQUISITION_TIME] false)).value? = some false ∧
    (check_configuration_tags_set demo_ctx
      (logging_unset_state.with_set_flags
        [demo_tag_ids.PRESSURE_SCHEDULED_ACQUISITION_INTERVAL] false)).value? = some false ∧
    (check_configuration_tags_set demo_ctx
      (logging_unset_state.with_set_flags
        [demo_tag_ids.PRESSURE_MAXIMUM_ACQUISITION_TIME] false)).value? = some false ∧
    (check_configuration_tags_set demo_ctx
      (logging_unset_state.with_set_flags
        [demo_tag_ids.AXL_MODE, demo_tag_ids.PRESSURE_MODE, demo_tag_ids.LOGGING_FILE_SIZE,
         demo_tag_ids.TEMP_SENSOR_SAMPLE_RATE] false)).value? = some true := by
  decide!

theorem pressure_thresholds_ignored (P : Params) (s : State) (t : Nat)
    (ht : t = P.tag.PRESSURE_LOW_THRESHOLD ∨ t = P.tag.PRESSURE_HIGH_THRESHOLD)
    (hset : s.hdr_set P.tag.PRESSURE_MODE = true)
    (hper : P.SYS_CONFIG_PRESSURE_MODE_PERIODIC = s.contents_value P.tag.PRESSURE_MODE) :
    check_configuration_tags_ignored P s t = true := by
  unfold check_configuration_tags_ignored
  rcases ht with ht | ht <;> subst ht <;>
    by_cases he : s.enable P.tag.PRESSURE_SENSOR_LOG_ENABLE = true <;>
    simp [he, hset, ← hper]

/-- C15: two configurations that differ only in the set flags of the pressure low and
high threshold tags, with `pressure.mode` set to Periodic, give the same value of
`check_configuration_tags_set`, whatever `logging.enable` and
`pressure_sensor_log_enable` are (the two threshold tags are not among the tags the
mask reads). -/
theorem pressure_thresholds_irrelevant_in_periodic_mode (c : Ctx) (s1 s2 : State)
    (hd : differ_only_in_set_flags
      [c.P.tag.PRESSURE_LOW_THRESHOLD, c.P.tag.PRESSURE_HIGH_THRESHOLD] s1 s2)
    (hsel : ∀ t, t ∈ [c.P.tag.PRESSURE_LOW_THRESHOLD, c.P.tag.PRESSURE_HIGH_THRESHOLD] →
      t ∉ mask_selector_tags c.P)
    (hset : s1.hdr_set c.P.tag.PRESSURE_MODE = true)
    (hper : c.P.SYS_CONFIG_PRESSURE_MODE_PERIODIC = s1.contents_value c.P.tag.PRESSURE_MODE) :
    ∃ (b : Bool) (r1 r2 : State),
      check_configuration_tags_set c s1 = .ok b r1 ∧
      check_configuration_tags_set c s2 = .ok b r2 := by
  refine ⟨configuration_tags_set c.P s1, s1.defaulted c.P, s2.defaulted c.P,
    check_configuration_tags_set_apply c s1, ?_⟩
  rw [check_configuration_tags_set_apply,
    configuration_tags_set_congr c.P s1 s2 _ hd hsel]
  intro t ht
  apply pressure_thresholds_ignored
  · simpa using ht
  · rw [defaulted_hdr_set]; exact hset
  · rw [defaulted_contents_value_of_set _ _ _ hset]; exact hper

theorem pressure_thresholds_irrelevant_in_periodic_mode_witness :
    ∃ (b : Bool) (r1 r2 : State),
      check_configuration_tags_set demo_ctx pressure_periodic_state = .ok b r1 ∧
      check_configuration_tags_set demo_ctx
        (pressure_periodic_state.with_set_flags
          [demo_ctx.P.tag.PRESSURE_LOW_THRESHOLD, demo_ctx.P.tag.PRESSURE_HIGH_THRESHOLD] false) =
        .ok b r2 :=
  pressure_thresholds_irrelevant_in_periodic_mode demo_ctx pressure_periodic_state _
    (differ_only_with_set_flags _ _ _) (by decide!) (by decide!) (by decide!)

/-- The demo of C15 evaluated: with the pressure mode set to Periodic the predicate is
true whether the two thresholds are set or not; with the mode set to another value it is
false once a threshold is not set. -/
theorem pressure_thresholds_demo_runs :
    (check_configuration_tags_set demo_ctx pressure_periodic_state).value? = some true ∧
    (check_configuration_tags_set demo_ctx
      (pressure_periodic_state.with_set_flags
        [demo_tag_ids.PRESSURE_LOW_THRESHOLD, demo_tag_ids.PRESSURE_HIGH_THRESHOLD] false)).value?
      = some true ∧
    (check_configuration_tags_set demo_ctx
      (all_tags_set_state.with_set_flags
        [demo_tag_ids.PRESSURE_LOW_THRESHOLD, demo_tag_ids.PRESSURE_HIGH_THRESHOLD] false)).value?
      = some false := by
  decide!

/-- C16 (the code departs from the claim): a CfgRead(all) of 170 bytes is read by a host
that takes 1500 ms for each packet. After the request the engine is in CfgReadNext and
the timestamp is 1500. The next iteration runs `cfg_read_next_state`, which hands a data
packet of 30 bytes to the transport and leaves the transfer unfinished, and the
timestamp is still 1500 while the clock reads 3000. Two iterations later the inactivity
timeout has put the engine back in Idle although a packet was sent 1500 ms before: 51 of
the 170 announced bytes have been sent. -/
theorem cfg_read_next_state_leaves_the_timeout_as_it_was :
    (slow_cfg_read 0).returned = true ∧
    (slow_cfg_read 0).state.message_state = .SM_MESSAGE_STATE_CFG_READ_NEXT ∧
    (slow_cfg_read 0).state.config_if_message_timeout = 1500 ∧
    sent_packets (slow_cfg_read 0).state.trace = [.cmd_cfg_read_resp .CMD_NO_ERROR 170] ∧
    (slow_cfg_read 1).returned = true ∧
    (slow_cfg_read 1).state.message_state = .SM_MESSAGE_STATE_CFG_READ_NEXT ∧
    (sent_packets (slow_cfg_read 1).state.trace).map (tx_packet.size small_packet_params) =
      [10, 30] ∧
    (slow_cfg_read 1).state.config_if_message_timeout = 1500 ∧
    slow_reader_env.syshal_time_get_ticks_ms (slow_cfg_read 1).state.trace = 3000 ∧
    (slow_cfg_read 2).state.message_state = .SM_MESSAGE_STATE_CFG_READ_NEXT ∧
    (slow_cfg_read 3).state.message_state = .SM_MESSAGE_STATE_IDLE ∧
    (sent_packets (slow_cfg_read 3).state.trace).map (tx_packet.size small_packet_params) =
      [10, 30, 21] := by
  decide!

/-! ## LogRead streaming -/

theorem file_open_append (a b : List Ev) :
    file_open (a ++ b) = b.foldl file_open_step (file_open a) := by
  unfold file_open
  rw [List.foldl_append]

theorem file_position_append (a b : List Ev) :
    file_position (a ++ b) = b.foldl file_position_step (file_position a) := by
  unfold file_position
  rw [List.foldl_append]

theorem log_read_seek_step (c : Ctx) (content : List Nat) (hf : log_file c content)
    (fuel : Nat) (s : State) (h0 : s.sm_context.log_read.start_offset ≠ 0) :
    log_read_req_seek_loop (fuel + 1) c s =
      log_read_req_seek_loop fuel c
        (s.seek_one ((content.drop (file_position s.trace)).take 1)) := by
  unfold State.seek_one
  rw [log_read_req_seek_loop]
  simp only [bind_apply, getState, h0, if_false, fs_read, ask, hf.read, pure_apply,
    ne_eq, not_true_eq_false, set_log_read, modifyState, List.take_take, min_self]

theorem seek_one_frame (s : State) (data : List Nat) :
    (s.seek_one data).sm_context.log_read.length = s.sm_context.log_read.length ∧
    (s.seek_one data).message_state = s.message_state ∧
    (s.seek_one data).config_if_send_buffer = s.config_if_send_buffer ∧
    (s.seek_one data).config_if_tx_pending = s.config_if_tx_pending ∧
    (s.seek_one data).trace = s.trace ++ [Ev.fs_read s.file_handle 1] ∧
    (s.seek_one data).sm_context.log_read.start_offset =
      u32_sub s.sm_context.log_read.start_offset data.length := by
  unfold State.seek_one
  exact ⟨rfl, rfl, rfl, rfl, rfl, rfl⟩

theorem log_read_seek_spec (c : Ctx) (content : List Nat) (hf : log_file c content) :
    ∀ fuel s, s.sm_context.log_read.start_offset + 1 ≤ fuel →
      file_position s.trace + s.sm_context.log_read.start_offset ≤ content.length →
      s.sm_context.log_read.start_offset < U32_MOD →
      ∃ s1, log_read_req_seek_loop fuel c s = .ok () s1 ∧
        file_position s1.trace = file_position s.trace + s.sm_context.log_read.start_offset ∧
        s1.sm_context.log_read.length = s.sm_context.log_read.length ∧
        s1.message_state = s.message_state ∧
        s1.config_if_send_buffer = s.config_if_send_buffer ∧
        s1.config_if_tx_pending = s.config_if_tx_pending ∧
        sent_packets s1.trace = sent_packets s.trace ∧
        file_open s1.trace = file_open s.trace := by
  intro fuel
  induction fuel with
  | zero => intro s h; omega
  | succ fuel ih =>
    intro s hfuel hpos hu
    by_cases h0 : s.sm_context.log_read.start_offset = 0
    · unfold log_read_req_seek_loop
      simp only [bind_apply, getState, h0, if_true, pure_apply]
      exact ⟨s, rfl, rfl, rfl, rfl, rfl, rfl, rfl, rfl⟩
    · rw [log_read_seek_step c content hf fuel s h0]
      have hlen : ((content.drop (file_position s.trace)).take 1).length = 1 := by
        rw [List.length_take, List.length_drop]
        omega
      obtain ⟨f1, f2, f3, f4, f5, f6⟩ :=
        seek_one_frame s ((content.drop (file_position s.trace)).take 1)
      rw [hlen, u32_sub_of_le _ _ hu (by omega)] at f6
      have hpos1 : file_position
          (s.seek_one ((content.drop (file_position s.trace)).take 1)).trace =
          file_position s.trace + 1 := by
        rw [f5, file_position_append]
        rfl
      obtain ⟨s1, e, hp, hl, hm, hb, hpd, hs, hop⟩ :=
        ih (s.seek_one ((content.drop (file_position s.trace)).take 1))
          (by rw [f6]; omega) (by rw [f6, hpos1]; omega) (by rw [f6]; omega)
      refine ⟨s1, e, ?_, hl.trans f1, hm.trans f2, hb.trans f3, hpd.trans f4, ?_, ?_⟩
      · rw [hp, f6, hpos1]
        omega
      · rw [hs, f5, sent_packets_append]
        exact List.append_nil _
      · rw [hop, f5, file_open_append]
        rfl

theorem log_read_seek_of_eq (c : Ctx) (content : List Nat) (hf : log_file c content)
    (fuel : Nat) (s : State) (r : Res Unit) (heq : log_read_req_seek_loop fuel c s = r)
    (hfuel : s.sm_context.log_read.start_offset + 1 ≤ fuel)
    (hpos : file_position s.trace + s.sm_context.log_read.start_offset ≤ content.length)
    (hu : s.sm_context.log_read.start_offset < U32_MOD) :
    ∃ s1, r = .ok () s1 ∧
      file_position s1.trace = file_position s.trace + s.sm_context.log_read.start_offset ∧
      s1.sm_context.log_read.length = s.sm_context.log_read.length ∧
      s1.message_state = s.message_state ∧
      s1.config_if_send_buffer = s.config_if_send_buffer ∧
      s1.config_if_tx_pending = s.config_if_tx_pending ∧
      sent_packets s1.trace = sent_packets s.trace ∧
      file_open s1.trace = file_open s.trace := by
  rw [← heq]
  exact log_read_seek_spec c content hf fuel s hfuel hpos hu
theorem log_read_req_spec (c : Ctx) (content : List Nat) (hf : log_file c content)
    (req : List Nat) (s : State) (n : Nat)
    (hsize : CMD_SIZE c.P.sizeof_cmd_log_read_req_t = req.length)
    (hq : s.config_if_send_buffer.queue = []) (hslots : 0 < s.config_if_send_buffer.slots)
    (hpend : s.config_if_tx_pending = false)
    (hlen : content.length < U32_MOD)
    (ho : u32 (c.P.cmd_log_read_req_start_offset req) ≤ content.length)
    (hno : u32 (c.P.cmd_log_read_req_length req) +
      u32 (c.P.cmd_log_read_req_start_offset req) < U32_MOD)
    (hn : n = if u32 (c.P.cmd_log_read_req_length req) = 0 ∧
        u32 (c.P.cmd_log_read_req_start_offset req) = 0 then content.length
      else min (u32 (c.P.cmd_log_read_req_length req))
        (content.length - u32 (c.P.cmd_log_read_req_start_offset req)))
    (hpos : 0 < n)
    (hseek : u32 (c.P.cmd_log_read_req_start_offset req) < c.loop_fuel) :
    ∃ s1, log_read_req req req.length c s = .ok () s1 ∧
      s1.message_state = .SM_MESSAGE_STATE_LOG_READ_NEXT ∧
      s1.sm_context.log_read.length = n ∧
      file_position s1.trace = u32 (c.P.cmd_log_read_req_start_offset req) ∧
      s1.config_if_send_buffer.queue = [.cmd_log_read_resp .CMD_NO_ERROR n] ∧
      s1.config_if_send_buffer.slots = s.config_if_send_buffer.slots ∧
      s1.config_if_tx_pending = true ∧
      sent_packets s1.trace = sent_packets s.trace ++ [.cmd_log_read_resp .CMD_NO_ERROR n] ∧
      file_open s1.trace = true := by
  have hgt : ¬ u32 (c.P.cmd_log_read_req_start_offset req) > content.length := by omega
  have hn0 : ¬ n = 0 := by omega
  have hhdr : ¬ CMD_SIZE c.P.sizeof_cmd_log_read_resp_t = 0 := by
    unfold CMD_SIZE CMD_SIZE_HDR; omega
  have hou : u32 (c.P.cmd_log_read_req_start_offset req) < U32_MOD := by omega
  unfold log_read_req
  simp only [bind_apply, getParams, hsize, ne_eq, not_true_eq_false, if_false, pure_apply,
    tx_buffer_write, getState, buffer_write, hq, List.length_nil, hslots, decide_True,
    Bool.not_true, Bool.false_eq_true, set_log_read, modifyState, fs_stat, ask, hf.stat,
    ite_apply, u32_of_lt _ hlen, hgt]
  have hcase : (u32 (c.P.cmd_log_read_req_length req) = 0 ∧
        u32 (c.P.cmd_log_read_req_start_offset req) = 0 ∧
        ¬ u32 (content.length + u32 (c.P.cmd_log_read_req_start_offset req)) > content.length ∧
        content.length = n) ∨
      (¬ (u32 (c.P.cmd_log_read_req_length req) = 0 ∧
        u32 (c.P.cmd_log_read_req_start_offset req) = 0) ∧
        u32 (u32 (c.P.cmd_log_read_req_length req) +
          u32 (c.P.cmd_log_read_req_start_offset req)) > content.length ∧
        u32_sub content.length (u32 (c.P.cmd_log_read_req_start_offset req)) = n) ∨
      (¬ (u32 (c.P.cmd_log_read_req_length req) = 0 ∧
        u32 (c.P.cmd_log_read_req_start_offset req) = 0) ∧
        ¬ u32 (u32 (c.P.cmd_log_read_req_length req) +
          u32 (c.P.cmd_log_read_req_start_offset req)) > content.length ∧
        u32 (c.P.cmd_log_read_req_length req) = n) := by
    rw [u32_of_lt _ hno, u32_sub_of_le _ _ hlen ho, hn]
    by_cases hA : u32 (c.P.cmd_log_read_req_length req) = 0 ∧
        u32 (c.P.cmd_log_read_req_start_offset req) = 0
    · refine Or.inl ⟨hA.1, hA.2, ?_, ?_⟩
      · rw [hA.2, Nat.add_zero, u32_of_lt _ hlen]
        omega
      · rw [if_pos hA]
    · rw [if_neg hA]
      by_cases hB : u32 (c.P.cmd_log_read_req_length req) +
          u32 (c.P.cmd_log_read_req_start_offset req) > content.length
      · exact Or.inr (Or.inl ⟨hA, hB, by omega⟩)
      · exact Or.inr (Or.inr ⟨hA, hB, by omega⟩)
  rcases hcase with ⟨h1, h2, h3, h4⟩ | ⟨h1, h3, h4⟩ | ⟨h1, h3, h4⟩
  all_goals
    first
    | rw [if_pos ⟨h1, h2⟩, if_neg h3]
    | rw [if_neg h1, if_pos h3]
    | rw [if_neg h1, if_neg h3]
    simp only [h4, fs_open, bind_apply, ask, hf.opens, if_true, modifyState, pure_apply, hn0,
      not_false_eq_true, message_set_state, config_if_timeout_reset, getFuel]
    split
    · rename_i a s1 heq
      obtain ⟨s2, e, hp, hl, hm, hb, hpd, hs, hop⟩ :=
        log_read_seek_of_eq c content hf _ _ _ heq hseek
          (by
            show file_position (((s.trace ++ [_]) ++ [_]) ++ [_]) + _ ≤ _
            rw [file_position_append, file_position_append]
            show 0 + u32 (c.P.cmd_log_read_req_start_offset req) ≤ content.length
            omega) hou
      cases e
      dsimp only at hp hl hm hb hpd hs hop
      rw [file_position_append, file_position_append] at hp
      rw [sent_packets_append, sent_packets_append, sent_packets_append] at hs
      rw [file_open_append, file_open_append] at hop
      have hq1 : s1.config_if_send_buffer.queue = [] := by rw [hb]; exact hq
      have hp1 : s1.config_if_tx_pending = false := by rw [hpd]; exact hpend
      simp only [tx_write_advance, bind_apply, getParams, modifyState, buffer_write_advance,
        tx_packet.size, hhdr, if_false, config_if_send_priv, getState, hp1, Bool.false_eq_true,
        pure_apply, buffer_read_tx, buffer_read, hq1, List.nil_append, List.head?_cons, ne_eq,
        not_false_eq_true, if_true, call, hl]
      refine ⟨_, rfl, hm, hl, ?_, rfl, ?_, rfl, ?_, ?_⟩
      · show file_position (s1.trace ++ [_]) = _
        rw [file_position_append, hp]
        show 0 + _ = _
        omega
      · show s1.config_if_send_buffer.slots = _
        rw [hb]
      · show sent_packets (s1.trace ++ [_]) = _
        rw [sent_packets_append, hs]
        simp only [sent_packets, List.append_nil]
      · show file_open (s1.trace ++ [_]) = _
        rw [file_open_append, hop]
        rfl
    · rename_i e s1 heq
      obtain ⟨s2, e, -⟩ :=
        log_read_seek_of_eq c content hf _ _ _ heq hseek (by
            show file_position (((s.trace ++ [_]) ++ [_]) ++ [_]) + _ ≤ _
            rw [file_position_append, file_position_append]
            show 0 + u32 (c.P.cmd_log_read_req_start_offset req) ≤ content.length
            omega) hou
      cases e
    · rename_i e s1 heq
      obtain ⟨s2, e, -⟩ :=
        log_read_seek_of_eq c content hf _ _ _ heq hseek (by
            show file_position (((s.trace ++ [_]) ++ [_]) ++ [_]) + _ ≤ _
            rw [file_position_append, file_position_append]
            show 0 + u32 (c.P.cmd_log_read_req_start_offset req) ≤ content.length
            omega) hou
      cases e
theorem log_read_next_state_spec (c : Ctx) (content : List Nat) (hf : log_file c content)
    (s : State) (r : Res Unit) (heq : log_read_next_state c s = r)
    (hq : s.config_if_send_buffer.queue = []) (hslots : 0 < s.config_if_send_buffer.slots)
    (hpend : s.config_if_tx_pending = false)
    (hP : 0 < c.P.SYSHAL_USB_PACKET_SIZE)
    (hr : 0 < s.sm_context.log_read.length) (hru : s.sm_context.log_read.length < U32_MOD)
    (hpos : file_position s.trace + s.sm_context.log_read.length ≤ content.length) :
    ∃ s1, r = .ok () s1 ∧
      sent_packets s1.trace = sent_packets s.trace ++
        [.data ((content.drop (file_position s.trace)).take
          (min s.sm_context.log_read.length c.P.SYSHAL_USB_PACKET_SIZE))] ∧
      s1.sm_context.log_read.length = s.sm_context.log_read.length -
        min s.sm_context.log_read.length c.P.SYSHAL_USB_PACKET_SIZE ∧
      file_position s1.trace = file_position s.trace +
        min s.sm_context.log_read.length c.P.SYSHAL_USB_PACKET_SIZE ∧
      s1.config_if_send_buffer.queue = [.data ((content.drop (file_position s.trace)).take
          (min s.sm_context.log_read.length c.P.SYSHAL_USB_PACKET_SIZE))] ∧
      s1.config_if_send_buffer.slots = s.config_if_send_buffer.slots ∧
      s1.config_if_tx_pending = true ∧
      (s.sm_context.log_read.length ≤ c.P.SYSHAL_USB_PACKET_SIZE →
        s1.message_state = .SM_MESSAGE_STATE_IDLE ∧ file_open s1.trace = false) ∧
      (c.P.SYSHAL_USB_PACKET_SIZE < s.sm_context.log_read.length →
        s1.message_state = s.message_state ∧ file_open s1.trace = file_open s.trace) := by
  have hmin : MIN s.sm_context.log_read.length c.P.SYSHAL_USB_PACKET_SIZE =
      min s.sm_context.log_read.length c.P.SYSHAL_USB_PACKET_SIZE := by
    unfold MIN
    split <;> omega
  have hdl : ((content.drop (file_position s.trace)).take
      (min s.sm_context.log_read.length c.P.SYSHAL_USB_PACKET_SIZE)).length =
      min s.sm_context.log_read.length c.P.SYSHAL_USB_PACKET_SIZE := by
    rw [List.length_take, List.length_drop]
    omega
  have hd0 : ¬ min s.sm_context.log_read.length c.P.SYSHAL_USB_PACKET_SIZE = 0 := by omega
  have hsub : u32_sub s.sm_context.log_read.length
      (min s.sm_context.log_read.length c.P.SYSHAL_USB_PACKET_SIZE) =
      s.sm_context.log_read.length -
        min s.sm_context.log_read.length c.P.SYSHAL_USB_PACKET_SIZE :=
    u32_sub_of_le _ _ hru (by omega)
  rw [← heq]
  unfold log_read_next_state
  simp only [bind_apply, getParams, pure_apply, tx_buffer_write, getState, buffer_write, hq,
    List.length_nil, hslots, decide_True, Bool.not_true, Bool.false_eq_true, if_false, fs_read,
    ask, hf.read, hmin, List.take_take, min_self, ne_eq, not_true_eq_false, set_log_read,
    modifyState, hdl, hsub, tx_write_advance, buffer_write_advance, tx_packet.size, hd0,
    config_if_send_priv, hpend, buffer_read_tx, buffer_read, List.nil_append, List.head?_cons,
    not_false_eq_true, if_true, call, ite_apply]
  by_cases hlast : s.sm_context.log_read.length ≤ c.P.SYSHAL_USB_PACKET_SIZE
  · rw [if_neg (by omega)]
    simp only [fs_close, bind_apply, getState, call, message_set_state, config_if_timeout_reset,
      ask, modifyState]
    refine ⟨_, rfl, ?_, rfl, ?_, rfl, rfl, rfl, fun _ => ⟨rfl, ?_⟩, fun h => ?_⟩
    · show sent_packets ((((s.trace ++ [_]) ++ [_]) ++ [_]) ++ [_]) = _
      rw [sent_packets_append, sent_packets_append, sent_packets_append, sent_packets_append]
      simp only [sent_packets, List.append_nil]
    · show file_position ((((s.trace ++ [_]) ++ [_]) ++ [_]) ++ [_]) = _
      rw [file_position_append, file_position_append, file_position_append,
        file_position_append]
      rfl
    · show file_open ((((s.trace ++ [_]) ++ [_]) ++ [_]) ++ [_]) = _
      rw [file_open_append, file_open_append]
      rfl
    · omega
  · rw [if_pos (by omega)]
    simp only [config_if_timeout_reset, ask, bind_apply, modifyState]
    refine ⟨_, rfl, ?_, rfl, ?_, rfl, rfl, rfl, fun h => ?_, fun _ => ⟨rfl, ?_⟩⟩
    · show sent_packets (((s.trace ++ [_]) ++ [_]) ++ [_]) = _
      rw [sent_packets_append, sent_packets_append, sent_packets_append]
      simp only [sent_packets, List.append_nil]
    · show file_position (((s.trace ++ [_]) ++ [_]) ++ [_]) = _
      rw [file_position_append, file_position_append, file_position_append]
      rfl
    · omega
    · show file_open (((s.trace ++ [_]) ++ [_]) ++ [_]) = _
      rw [file_open_append, file_open_append, file_open_append]
      rfl
theorem chunk_sizes (P n r : Nat) (chunks : List (List Nat)) (last : List Nat)
    (hfull : ∀ x ∈ chunks, x.length = P) (hn : chunks.length * P + r = n)
    (hl : last.length = r) (hrP : r ≤ P) :
    ∀ i, i < (chunks ++ [last]).length →
      ((chunks ++ [last]).getD i []).length = min (n - i * P) P := by
  intro i hi
  rw [List.length_append, List.length_singleton] at hi
  by_cases h : i < chunks.length
  · rw [List.getD_append _ _ _ _ h, List.getD_eq_getElem _ _ h, hfull _ (List.getElem_mem h)]
    have hm : (i + 1) * P ≤ chunks.length * P := Nat.mul_le_mul_right P h
    rw [Nat.succ_mul] at hm
    omega
  · have hi1 : i = chunks.length := by omega
    subst hi1
    rw [List.getD_append_right _ _ _ _ (Nat.le_refl _), Nat.sub_self]
    show last.length = _
    omega

theorem chunk_count (P n r m : Nat) (hn : m * P + r = n) (hr : 0 < r) (hrP : r ≤ P) :
    m + 1 = (n + P - 1) / P := by
  symm
  apply Nat.div_eq_of_lt_le
  · rw [Nat.succ_mul]
    omega
  · rw [Nat.succ_mul, Nat.succ_mul]
    omega

theorem chunk_data (content : List Nat) (o d k : Nat) (chunks : List (List Nat))
    (hdata : chunks.flatten = (content.drop o).take d) :
    (chunks ++ [(content.drop (o + d)).take k]).flatten = (content.drop o).take (d + k) := by
  rw [List.flatten_append, List.flatten_singleton, hdata, List.take_add, List.drop_drop]
theorem log_read_transfer_idle (c : Ctx) (fuel : Nat) (s : State)
    (h : s.message_state ≠ .SM_MESSAGE_STATE_LOG_READ_NEXT) :
    log_read_transfer (fuel + 1) c s = .ok () s := by
  unfold log_read_transfer
  simp only [bind_apply, getState, h, if_false, pure_apply]

theorem log_read_transfer_spec (c : Ctx) (content : List Nat) (hf : log_file c content)
    (hP : 0 < c.P.SYSHAL_USB_PACKET_SIZE) (sent0 : List tx_packet) (o n : Nat)
    (hbound : o + n ≤ content.length) (hnu : n < U32_MOD) :
    ∀ fuel chunks s, log_read_inv c content sent0 o n chunks s →
      s.sm_context.log_read.length < fuel →
      ∃ (s1 : State) (chunks1 : List (List Nat)), log_read_transfer fuel c s = .ok () s1 ∧
        s1.message_state = .SM_MESSAGE_STATE_IDLE ∧
        sent_packets s1.trace =
          sent0 ++ .cmd_log_read_resp .CMD_NO_ERROR n :: chunks1.map tx_packet.data ∧
        chunks1.flatten = (content.drop o).take n ∧
        chunks1.length = (n + c.P.SYSHAL_USB_PACKET_SIZE - 1) / c.P.SYSHAL_USB_PACKET_SIZE ∧
        (∀ i, i < chunks1.length → (chunks1.getD i []).length =
          min (n - i * c.P.SYSHAL_USB_PACKET_SIZE) c.P.SYSHAL_USB_PACKET_SIZE) ∧
        file_open s1.trace = false := by
  intro fuel
  induction fuel with
  | zero => intro chunks s _ h; omega
  | succ fuel ih =>
    intro chunks s hinv hfuel
    obtain ⟨pkt, hq, hsz⟩ := hinv.queue
    have hpos := hinv.positive
    have hrem := hinv.remaining
    unfold log_read_transfer
    simp only [bind_apply, getState, hinv.message_state, if_true, getParams, config_if_callback,
      modifyState, buffer_read_tx, buffer_read, hq, List.head?_cons, buffer_read_advance, hsz,
      if_false, List.tail_cons]
    split
    · rename_i a s1 heq
      obtain ⟨s2, e, hs, hl, hp, hq1, hsl, hpd, hlast, hmore⟩ :=
        log_read_next_state_spec c content hf _ _ heq rfl hinv.slots rfl hP hpos
          (by show s.sm_context.log_read.length < _; omega)
          (by
            show file_position s.trace + s.sm_context.log_read.length ≤ _
            rw [hinv.position]
            omega)
      cases e
      dsimp only at hs hl hp hq1 hsl hpd hlast hmore
      have hdl : ((content.drop (file_position s.trace)).take
          (min s.sm_context.log_read.length c.P.SYSHAL_USB_PACKET_SIZE)).length =
          min s.sm_context.log_read.length c.P.SYSHAL_USB_PACKET_SIZE := by
        rw [List.length_take, List.length_drop, hinv.position]
        omega
      have hflat := chunk_data content o (chunks.length * c.P.SYSHAL_USB_PACKET_SIZE)
        (min s.sm_context.log_read.length c.P.SYSHAL_USB_PACKET_SIZE) chunks hinv.data
      rw [← hinv.position] at hflat
      have hsent : sent_packets s1.trace = sent0 ++ .cmd_log_read_resp .CMD_NO_ERROR n ::
          (chunks ++ [(content.drop (file_position s.trace)).take
            (min s.sm_context.log_read.length c.P.SYSHAL_USB_PACKET_SIZE)]).map
              tx_packet.data := by
        rw [hs, hinv.sent]
        simp only [List.map_append, List.map_cons, List.map_nil, List.append_assoc,
          List.cons_append]
      by_cases hcase : s.sm_context.log_read.length ≤ c.P.SYSHAL_USB_PACKET_SIZE
      · obtain ⟨hidle, hclosed⟩ := hlast hcase
        have hk : min s.sm_context.log_read.length c.P.SYSHAL_USB_PACKET_SIZE =
            s.sm_context.log_read.length := by omega
        rw [hk] at hdl hflat
        cases fuel with
        | zero => omega
        | succ f =>
          rw [log_read_transfer_idle c f s1 (by
            rw [hidle]
            simp only [ne_eq, reduceCtorEq, not_false_eq_true])]
          refine ⟨s1, _, rfl, hidle, hsent, ?_, ?_, ?_, hclosed⟩
          · rw [hk, hflat, hrem]
          · rw [hk, List.length_append, List.length_singleton]
            exact chunk_count _ n _ _ hrem hpos hcase
          · rw [hk]
            exact chunk_sizes _ n _ chunks _ hinv.full hrem hdl hcase
      · obtain ⟨hms, hop⟩ := hmore (by omega)
        have hk : min s.sm_context.log_read.length c.P.SYSHAL_USB_PACKET_SIZE =
            c.P.SYSHAL_USB_PACKET_SIZE := by omega
        rw [hk] at hdl hflat hl hp
        rw [hk] at hsent hq1
        refine ih _ s1 ⟨hms, by omega, ?_, ?_, ?_, ?_, ⟨_, hq1, ?_⟩, by rw [hsl]; exact hinv.slots,
          hpd, hsent, hop.trans hinv.is_open⟩ (by omega)
        · rw [List.length_append, List.length_singleton, Nat.succ_mul]
          omega
        · intro x hx
          rcases List.mem_append.mp hx with hx | hx
          · exact hinv.full x hx
          · rw [List.mem_singleton.mp hx]
            exact hdl
        · rw [List.length_append, List.length_singleton, Nat.succ_mul]
          exact hflat
        · rw [List.length_append, List.length_singleton, Nat.succ_mul, hp, hinv.position]
          omega
        · show List.length _ ≠ 0
          rw [hdl]
          omega
    · rename_i e s1 heq
      obtain ⟨s2, e, -⟩ :=
        log_read_next_state_spec c content hf _ _ heq rfl hinv.slots rfl hP hpos
          (by show s.sm_context.log_read.length < _; omega)
          (by
            show file_position s.trace + s.sm_context.log_read.length ≤ _
            rw [hinv.position]
            omega)
      cases e
    · rename_i e s1 heq
      obtain ⟨s2, e, -⟩ :=
        log_read_next_state_spec c content hf _ _ heq rfl hinv.slots rfl hP hpos
          (by show s.sm_context.log_read.length < _; omega)
          (by
            show file_position s.trace + s.sm_context.log_read.length ≤ _
            rw [hinv.position]
            omega)
      cases e

/-- C17: a LogRead request that is answered with NoError and an announced length `n > 0`
(the file holds `content`, `fs_read` delivers the bytes asked for, the requested range
does not overflow 32 bits, the send buffer is free), followed by calls of
`log_read_next_state`, each after the previous send has completed, returns and sends
after the response `⌈n / SYSHAL_USB_PACKET_SIZE⌉` data packets; packet `i` holds
`min (n - i * SYSHAL_USB_PACKET_SIZE) SYSHAL_USB_PACKET_SIZE` bytes, their concatenation
is the content of the file from `start_offset` to `start_offset + n`, and at the end the
file is closed and `message_state` is Idle. -/
theorem log_read_streams_the_announced_bytes (c : Ctx) (content : List Nat) (req : List Nat)
    (s : State) (n fuel : Nat) (hf : log_file c content)
    (hsize : CMD_SIZE c.P.sizeof_cmd_log_read_req_t = req.length)
    (hq : s.config_if_send_buffer.queue = []) (hslots : 0 < s.config_if_send_buffer.slots)
    (hpend : s.config_if_tx_pending = false)
    (hP : 0 < c.P.SYSHAL_USB_PACKET_SIZE)
    (hlen : content.length < U32_MOD)
    (ho : u32 (c.P.cmd_log_read_req_start_offset req) ≤ content.length)
    (hno : u32 (c.P.cmd_log_read_req_length req) +
      u32 (c.P.cmd_log_read_req_start_offset req) < U32_MOD)
    (hn : n = if u32 (c.P.cmd_log_read_req_length req) = 0 ∧
        u32 (c.P.cmd_log_read_req_start_offset req) = 0 then content.length
      else min (u32 (c.P.cmd_log_read_req_length req))
        (content.length - u32 (c.P.cmd_log_read_req_start_offset req)))
    (hpos : 0 < n)
    (hseek : u32 (c.P.cmd_log_read_req_start_offset req) < c.loop_fuel)
    (hfuel : n < fuel) :
    ∃ (s1 : State) (chunks : List (List Nat)),
      log_read_all req fuel c s = .ok () s1 ∧
      sent_packets s1.trace = sent_packets s.trace ++
        .cmd_log_read_resp .CMD_NO_ERROR n :: chunks.map tx_packet.data ∧
      chunks.length = (n + c.P.SYSHAL_USB_PACKET_SIZE - 1) / c.P.SYSHAL_USB_PACKET_SIZE ∧
      (∀ i, i < chunks.length → (chunks.getD i []).length =
        min (n - i * c.P.SYSHAL_USB_PACKET_SIZE) c.P.SYSHAL_USB_PACKET_SIZE) ∧
      chunks.flatten = (content.drop (u32 (c.P.cmd_log_read_req_start_offset req))).take n ∧
      s1.message_state = .SM_MESSAGE_STATE_IDLE ∧
      file_open s1.trace = false := by
  obtain ⟨s0, e0, hms, hl, hp, hq0, hsl, hpd, hs, hop⟩ :=
    log_read_req_spec c content hf req s n hsize hq hslots hpend hlen ho hno hn hpos hseek
  have hbound : u32 (c.P.cmd_log_read_req_start_offset req) + n ≤ content.length := by
    rw [hn]
    split <;> omega
  have hinv : log_read_inv c content (sent_packets s.trace)
      (u32 (c.P.cmd_log_read_req_start_offset req)) n [] s0 :=
    ⟨hms, by rw [hl]; exact hpos, by rw [hl]; simp only [List.length_nil, Nat.zero_mul,
      Nat.zero_add], fun x hx => absurd hx (List.not_mem_nil x), by
      simp only [List.length_nil, Nat.zero_mul, List.take_zero, List.flatten_nil], by
      rw [hp]; simp only [List.length_nil, Nat.zero_mul, Nat.add_zero],
      ⟨_, hq0, by show CMD_SIZE _ ≠ 0; unfold CMD_SIZE CMD_SIZE_HDR; omega⟩, by rw [hsl]; exact hslots,
      hpd, by rw [hs]; rfl, hop⟩
  obtain ⟨s1, chunks, e1, hidle, hsent, hflat, hcount, hsizes, hclosed⟩ :=
    log_read_transfer_spec c content hf hP (sent_packets s.trace)
      (u32 (c.P.cmd_log_read_req_start_offset req)) n hbound (by omega) fuel [] s0 hinv
      (by rw [hl]; exact hfuel)
  refine ⟨s1, chunks, ?_, hsent, hcount, hsizes, hflat, hidle, hclosed⟩
  unfold log_read_all
  rw [bind_apply, e0]
  exact e1

theorem log_read_streams_the_announced_bytes_witness :
    ∃ (s1 : State) (chunks : List (List Nat)),
      log_read_all log_read_demo_request 1501 log_demo_ctx initial_state = .ok () s1 ∧
      sent_packets s1.trace = sent_packets initial_state.trace ++
        .cmd_log_read_resp .CMD_NO_ERROR 1500 :: chunks.map tx_packet.data ∧
      chunks.length = (1500 + log_demo_ctx.P.SYSHAL_USB_PACKET_SIZE - 1) /
        log_demo_ctx.P.SYSHAL_USB_PACKET_SIZE ∧
      (∀ i, i < chunks.length → (chunks.getD i []).length =
        min (1500 - i * log_demo_ctx.P.SYSHAL_USB_PACKET_SIZE)
          log_demo_ctx.P.SYSHAL_USB_PACKET_SIZE) ∧
      chunks.flatten = (log_demo_content.drop
        (u32 (log_demo_ctx.P.cmd_log_read_req_start_offset log_read_demo_request))).take 1500 ∧
      s1.message_state = .SM_MESSAGE_STATE_IDLE ∧
      file_open s1.trace = false :=
  log_read_streams_the_announced_bytes log_demo_ctx log_demo_content log_read_demo_request
    initial_state 1500 1501 ⟨fun _ => rfl, fun _ => rfl, fun _ _ _ => rfl⟩ (by decide!) rfl
    (by decide!) rfl (by decide!) (by decide!) (by decide!) (by decide!) (by decide!)
    (by decide!) (by decide!) (by decide!)

/-- The demo of C17 evaluated: 1500 bytes from offset 0 leave in packets of 512, 512 and
476 bytes after the response of 10 bytes, and the engine is back in Idle. -/
theorem log_read_demo_runs :
    (sent_packets (log_read_all log_read_demo_request 5 log_demo_ctx
      initial_state).state.trace).map (tx_packet.size demo_params) = [10, 512, 512, 476] ∧
    (log_read_all log_read_demo_request 5 log_demo_ctx initial_state).returned = true ∧
    (log_read_all log_read_demo_request 5 log_demo_ctx
      initial_state).state.message_state = .SM_MESSAGE_STATE_IDLE := by
  decide!

/-! ## CfgWrite protocol errors -/

theorem sys_config_set_calls_append (a b : List Ev) :
    sys_config_set_calls (a ++ b) = sys_config_set_calls a ++ sys_config_set_calls b := by
  induction a with
  | nil => rfl
  | cons e a ih =>
    cases e <;> simp only [List.cons_append, sys_config_set_calls] <;>
      first | exact ih | exact congrArg _ ih

theorem cfg_write_error_state_spec (c : Ctx) (s : State)
    (hq : s.config_if_send_buffer.queue = []) (hslots : 0 < s.config_if_send_buffer.slots)
    (hpend : s.config_if_tx_pending = false) :
    ∃ s1, cfg_write_error_state c s = .ok () s1 ∧
      s1.message_state = .SM_MESSAGE_STATE_IDLE ∧
      sent_packets s1.trace =
        sent_packets s.trace ++ [.cmd_cfg_write_cnf s.sm_context.cfg_write.error_code] ∧
      sys_config_set_calls s1.trace = sys_config_set_calls s.trace := by
  have hsz : ¬ CMD_SIZE c.P.sizeof_cmd_cfg_write_cnf_t = 0 := by
    unfold CMD_SIZE CMD_SIZE_HDR; omega
  unfold cfg_write_error_state
  simp only [bind_apply, tx_buffer_write, getState, buffer_write, hq, List.length_nil, hslots,
    decide_True, Bool.not_true, Bool.false_eq_true, if_false, pure_apply, tx_write_advance,
    getParams, modifyState, buffer_write_advance, tx_packet.size, hsz, config_if_send_priv,
    hpend, buffer_read_tx, buffer_read, List.nil_append, List.head?_cons, ne_eq,
    not_false_eq_true, if_true, call, message_set_state, config_if_timeout_reset, ask]
  refine ⟨_, rfl, rfl, ?_, ?_⟩
  · show sent_packets ((s.trace ++ [_]) ++ [_]) = _
    rw [sent_packets_append, sent_packets_append]
    simp only [sent_packets, List.append_nil]
  · show sys_config_set_calls ((s.trace ++ [_]) ++ [_]) = _
    rw [sys_config_set_calls_append, sys_config_set_calls_append]
    simp only [sys_config_set_calls, List.append_nil]

theorem cfg_write_next_state_oversize (c : Ctx) (s : State) (pkt : List Nat)
    (rx : List (List Nat)) (hrx : s.config_if_receive_buffer.queue = pkt :: rx)
    (hover : pkt.length > s.sm_context.cfg_write.length) :
    ∃ s1, cfg_write_next_state c s = .throw .EXCEPTION_PACKET_WRONG_SIZE s1 ∧
      s1.message_state = .SM_MESSAGE_STATE_CFG_WRITE_ERROR ∧
      s1.sm_context.cfg_write.error_code = .CMD_ERROR_DATA_OVERSIZE ∧
      s1.config_if_send_buffer = s.config_if_send_buffer ∧
      s1.config_if_tx_pending = s.config_if_tx_pending ∧
      sent_packets s1.trace = sent_packets s.trace ∧
      sys_config_set_calls s1.trace = sys_config_set_calls s.trace := by
  have hl : ¬ pkt.length = 0 := by omega
  unfold cfg_write_next_state
  simp only [bind_apply, getState, buffer_read_rx, buffer_read, hrx, List.head?_cons, hl,
    if_false, modifyState, hover, if_true, set_cfg_write, message_set_state,
    config_if_timeout_reset, ask, throw_apply]
  refine ⟨_, rfl, rfl, rfl, rfl, rfl, ?_, ?_⟩
  · show sent_packets (s.trace ++ [_]) = _
    rw [sent_packets_append]
    simp only [sent_packets, List.append_nil]
  · show sys_config_set_calls (s.trace ++ [_]) = _
    rw [sys_config_set_calls_append]
    simp only [sys_config_set_calls, List.append_nil]
theorem MIN_eq_min (a b : Nat) : MIN a b = min a b := by
  unfold MIN
  split <;> omega

theorem mem_write_zero (buf bytes : List Nat) :
    mem_write buf 0 bytes = bytes ++ buf.drop bytes.length := by
  unfold mem_write
  simp only [List.take_zero, Nat.zero_sub, List.replicate_zero, List.nil_append, Nat.zero_add]

theorem cfg_write_loop_invalid_tag (c : Ctx) (read_buffer : List Nat) (fuel off len : Nat)
    (s : State) (lo hi : Nat) (rest : List Nat)
    (hdrop : read_buffer.drop off = lo :: hi :: rest)
    (hlen : 2 ≤ len)
    (hocc : s.sm_context.cfg_write.buffer_occupancy = 0)
    (hmax : 2 ≤ c.P.SYS_CONFIG_TAG_MAX_SIZE)
    (hinv : sys_config_size c.P (lo % 256 + hi % 256 * 256) < 0) :
    ∃ s1, cfg_write_next_state_loop read_buffer (fuel + 1) off len c s =
        .throw .EXCEPTION_BAD_SYS_CONFIG_ERROR_CONDITION s1 ∧
      s1.message_state = .SM_MESSAGE_STATE_CFG_WRITE_ERROR ∧
      s1.sm_context.cfg_write.error_code = .CMD_ERROR_INVALID_CONFIG_TAG ∧
      s1.config_if_send_buffer = s.config_if_send_buffer ∧
      s1.config_if_tx_pending = s.config_if_tx_pending ∧
      sent_packets s1.trace = sent_packets s.trace ∧
      sys_config_set_calls s1.trace = sys_config_set_calls s.trace := by
  have hl : ¬ len = 0 := by omega
  obtain ⟨k, hk⟩ : ∃ k, k = min len 2 := ⟨_, rfl⟩
  have hk2 : k = 2 := by omega
  have htake : List.take k (lo :: hi :: rest) = [lo, hi] := by rw [hk2]; rfl
  have hu : u32 k = 2 := by rw [hk2]; rfl
  have hstuck2 : ¬ c.P.SYS_CONFIG_TAG_MAX_SIZE < 1 + 1 := by omega
  rw [cfg_write_next_state_loop]
  simp only [bind_apply, hl, if_false, getParams, getState, hocc, SYS_CONFIG_TAG_ID_SIZE,
    gt_iff_lt, Nat.ofNat_pos, if_true, MIN_eq_min, Nat.sub_zero, ← hk, hdrop, htake,
    cfg_write_memcpy, set_cfg_write, modifyState, pure_apply, List.length_cons,
    List.length_nil, Nat.zero_add, ite_apply, hstuck2, hu, Nat.lt_irrefl, mem_write_zero,
    List.cons_append, List.nil_append, List.getD_cons_zero, List.getD_cons_succ, hinv,
    message_set_state, config_if_timeout_reset, ask, throw_apply]
  refine ⟨_, rfl, rfl, rfl, rfl, rfl, ?_, ?_⟩
  · show sent_packets (s.trace ++ [_]) = _
    rw [sent_packets_append]
    simp only [sent_packets, List.append_nil]
  · show sys_config_set_calls (s.trace ++ [_]) = _
    rw [sys_config_set_calls_append]
    simp only [sys_config_set_calls, List.append_nil]
theorem mem_write_pair_value (a b : Nat) (buf v : List Nat) (n : Nat) (h : v.length = n) :
    ((mem_write (a :: b :: buf) 2 v).drop 2).take n = v := by
  subst h
  unfold mem_write
  simp

theorem cfg_write_loop_valid_pair (c : Ctx) (read_buffer : List Nat) (fuel off len : Nat)
    (s : State) (t : Nat) (v rest : List Nat)
    (hdrop : read_buffer.drop off = (t % 256) :: (t / 256 % 256) :: (v ++ rest))
    (hmem : t ∈ c.P.sys_config_tags) (ht : t < 65536)
    (hv : v.length = c.P.sys_config_tag_size t)
    (hlen : 2 + v.length ≤ len)
    (hocc : s.sm_context.cfg_write.buffer_occupancy = 0)
    (hmax : c.P.sys_config_tag_size t + 2 ≤ c.P.SYS_CONFIG_TAG_MAX_SIZE)
    (hL : len ≤ s.sm_context.cfg_write.length)
    (hLu : s.sm_context.cfg_write.length < U32_MOD) :
    ∃ s1, cfg_write_next_state_loop read_buffer (fuel + 1) off len c s =
        cfg_write_next_state_loop read_buffer fuel (off + 2 + v.length) (len - 2 - v.length)
          c s1 ∧
      s1.sm_context.cfg_write.buffer_occupancy = 0 ∧
      s1.sm_context.cfg_write.length = s.sm_context.cfg_write.length - 2 - v.length ∧
      s1.message_state = s.message_state ∧
      s1.config_if_send_buffer = s.config_if_send_buffer ∧
      s1.config_if_tx_pending = s.config_if_tx_pending ∧
      sent_packets s1.trace = sent_packets s.trace ∧
      sys_config_set_calls s1.trace = sys_config_set_calls s.trace ++ [(t, v)] := by
  have hl : ¬ len = 0 := by omega
  obtain ⟨k, hk⟩ : ∃ k, k = min len 2 := ⟨_, rfl⟩
  have hk2 : k = 2 := by omega
  have htake : List.take k ((t % 256) :: (t / 256 % 256) :: (v ++ rest)) =
      [t % 256, t / 256 % 256] := by rw [hk2]; rfl
  have hu : u32 k = 2 := by rw [hk2]; rfl
  have hstuck2 : ¬ c.P.SYS_CONFIG_TAG_MAX_SIZE < 1 + 1 := by omega
  have htag : t % 256 % 256 + t / 256 % 256 % 256 * 256 = t := by omega
  have hsize : sys_config_size c.P t = (c.P.sys_config_tag_size t : Int) := by
    unfold sys_config_size
    rw [if_pos hmem]
  have hnn : ¬ (c.P.sys_config_tag_size t : Int) < 0 := by omega
  obtain ⟨k2, hk2'⟩ : ∃ k2, k2 = min (len - k) (c.P.sys_config_tag_size t) := ⟨_, rfl⟩
  have hk2v : k2 = v.length := by omega
  have hval : List.take k2 (List.drop (off + k) read_buffer) = v := by
    rw [hk2v, hk2, ← List.drop_drop, hdrop]
    show List.take v.length (v ++ rest) = v
    exact List.take_left _ _
  have hstuck3 : ¬ c.P.SYS_CONFIG_TAG_MAX_SIZE < 2 + v.length := by omega
  have hu2 : u32 (2 + k2) = c.P.sys_config_tag_size t + 2 := by
    rw [hk2v, hv]
    exact (u32_of_lt _ (by omega)).trans (Nat.add_comm _ _)
  rw [cfg_write_next_state_loop]
  simp only [bind_apply, hl, if_false, getParams, getState, hocc, SYS_CONFIG_TAG_ID_SIZE,
    gt_iff_lt, Nat.ofNat_pos, if_true, MIN_eq_min, Nat.sub_zero, ← hk, hdrop, htake,
    cfg_write_memcpy, set_cfg_write, modifyState, pure_apply, List.length_cons,
    List.length_nil, Nat.zero_add, ite_apply, hstuck2, hu, Nat.lt_irrefl, mem_write_zero,
    List.cons_append, List.nil_append, List.getD_cons_zero, List.getD_cons_succ, htag, hsize,
    hnn, Int.toNat_ofNat, ← hk2', hval, hstuck3, hu2, ge_iff_le, Nat.le_refl, sys_config_set,
    hmem, mem_write_pair_value _ _ _ v _ hv, SYS_CONFIG_NO_ERROR, Int.lt_irrefl]
  have e1 : off + k + k2 = off + 2 + v.length := by omega
  have e2 : len - k - k2 = len - 2 - v.length := by omega
  have hsub : u32_sub (u32_sub s.sm_context.cfg_write.length k) k2 =
      s.sm_context.cfg_write.length - 2 - v.length := by
    rw [u32_sub_of_le _ _ hLu (by omega), u32_sub_of_le _ _ (by omega) (by omega)]
    omega
  rw [e1, e2]
  by_cases hb : c.P.tag.GPS_UART_BAUD_RATE = t
  · rw [if_pos hb]
    simp only [call]
    refine ⟨_, rfl, rfl, hsub, rfl, rfl, rfl, ?_, ?_⟩
    · show sent_packets ((s.trace ++ [_]) ++ [_]) = _
      rw [sent_packets_append, sent_packets_append]
      simp only [sent_packets, List.append_nil]
    · show sys_config_set_calls ((s.trace ++ [_]) ++ [_]) = _
      rw [sys_config_set_calls_append, sys_config_set_calls_append]
      simp only [sys_config_set_calls, List.append_nil]
  · rw [if_neg hb]
    refine ⟨_, rfl, rfl, hsub, rfl, rfl, rfl, ?_, ?_⟩
    · show sent_packets (s.trace ++ [_]) = _
      rw [sent_packets_append]
      simp only [sent_packets, List.append_nil]
    · show sys_config_set_calls (s.trace ++ [_]) = _
      rw [sys_config_set_calls_append]
      simp only [sys_config_set_calls, List.append_nil]
theorem pairs_bytes_cons (p : Nat × List Nat) (ps : List (Nat × List Nat)) :
    pairs_bytes (p :: ps) = (p.1 % 256) :: (p.1 / 256 % 256) :: (p.2 ++ pairs_bytes ps) := by
  unfold pairs_bytes
  simp only [List.map_cons, List.flatten_cons, List.cons_append, List.nil_append,
    List.append_assoc]

theorem drop_past_pair (l : List Nat) (off : Nat) (a b : Nat) (v rest : List Nat)
    (h : l.drop off = a :: b :: (v ++ rest)) : l.drop (off + 2 + v.length) = rest := by
  rw [Nat.add_assoc, ← List.drop_drop, h, ← List.drop_drop]
  show List.drop v.length (v ++ rest) = rest
  exact List.drop_left _ _

theorem cfg_write_loop_pairs_then_invalid (c : Ctx) (read_buffer : List Nat) (lo hi : Nat)
    (rest : List Nat) (hmax : 2 ≤ c.P.SYS_CONFIG_TAG_MAX_SIZE)
    (hinv : sys_config_size c.P (lo % 256 + hi % 256 * 256) < 0) :
    ∀ (pairs : List (Nat × List Nat)) (fuel off len : Nat) (s : State),
      read_buffer.drop off = pairs_bytes pairs ++ lo :: hi :: rest →
      (∀ p ∈ pairs, p.1 ∈ c.P.sys_config_tags ∧ p.1 < 65536 ∧
        p.2.length = c.P.sys_config_tag_size p.1 ∧
        c.P.sys_config_tag_size p.1 + 2 ≤ c.P.SYS_CONFIG_TAG_MAX_SIZE) →
      (pairs_bytes pairs).length + 2 ≤ len →
      s.sm_context.cfg_write.buffer_occupancy = 0 →
      len ≤ s.sm_context.cfg_write.length →
      s.sm_context.cfg_write.length < U32_MOD →
      len < fuel →
      ∃ s1, cfg_write_next_state_loop read_buffer fuel off len c s =
          .throw .EXCEPTION_BAD_SYS_CONFIG_ERROR_CONDITION s1 ∧
        s1.message_state = .SM_MESSAGE_STATE_CFG_WRITE_ERROR ∧
        s1.sm_context.cfg_write.error_code = .CMD_ERROR_INVALID_CONFIG_TAG ∧
        s1.config_if_send_buffer = s.config_if_send_buffer ∧
        s1.config_if_tx_pending = s.config_if_tx_pending ∧
        sent_packets s1.trace = sent_packets s.trace ∧
        sys_config_set_calls s1.trace = sys_config_set_calls s.trace ++ pairs := by
  intro pairs
  induction pairs with
  | nil =>
    intro fuel off len s hdrop _ hlen hocc _ _ hfuel
    cases fuel with
    | zero => omega
    | succ fuel =>
      obtain ⟨s1, e, h1, h2, h3, h4, h5, h6⟩ :=
        cfg_write_loop_invalid_tag c read_buffer fuel off len s lo hi rest hdrop
          (by omega) hocc hmax hinv
      exact ⟨s1, e, h1, h2, h3, h4, h5, by rw [h6, List.append_nil]⟩
  | cons p ps ih =>
    intro fuel off len s hdrop hvalid hlen hocc hL hLu hfuel
    obtain ⟨hmem, ht, hv, hfit⟩ := hvalid p (List.mem_cons_self _ _)
    rw [pairs_bytes_cons] at hdrop hlen
    simp only [List.cons_append, List.append_assoc] at hdrop
    simp only [List.length_cons, List.length_append] at hlen
    cases fuel with
    | zero => omega
    | succ fuel =>
      obtain ⟨s0, e0, g1, g2, g3, g4, g5, g6, g7⟩ :=
        cfg_write_loop_valid_pair c read_buffer fuel off len s p.1 p.2 _ hdrop hmem ht hv
          (by omega) hocc hfit hL hLu
      obtain ⟨s1, e, h1, h2, h3, h4, h5, h6⟩ :=
        ih fuel (off + 2 + p.2.length) (len - 2 - p.2.length) s0
          (drop_past_pair _ _ _ _ _ _ hdrop)
          (fun q hq => hvalid q (List.mem_cons_of_mem _ hq)) (by omega) g1
          (by rw [g2]; omega) (by rw [g2]; omega) (by omega)
      refine ⟨s1, e0.trans e, h1, h2, h3.trans g4, h4.trans g5, h5.trans g6, ?_⟩
      rw [h6, g7, List.append_assoc]
      rfl
theorem cfg_write_next_state_invalid_tag (c : Ctx) (s : State) (pkt : List Nat)
    (rx : List (List Nat)) (pairs : List (Nat × List Nat)) (lo hi : Nat) (rest : List Nat)
    (hrx : s.config_if_receive_buffer.queue = pkt :: rx)
    (hpkt : pkt = pairs_bytes pairs ++ lo :: hi :: rest)
    (hvalid : ∀ p ∈ pairs, p.1 ∈ c.P.sys_config_tags ∧ p.1 < 65536 ∧
      p.2.length = c.P.sys_config_tag_size p.1 ∧
      c.P.sys_config_tag_size p.1 + 2 ≤ c.P.SYS_CONFIG_TAG_MAX_SIZE)
    (hinv : sys_config_size c.P (lo % 256 + hi % 256 * 256) < 0)
    (hmax : 2 ≤ c.P.SYS_CONFIG_TAG_MAX_SIZE)
    (hocc : s.sm_context.cfg_write.buffer_occupancy = 0)
    (hL : pkt.length ≤ s.sm_context.cfg_write.length)
    (hLu : s.sm_context.cfg_write.length < U32_MOD) :
    ∃ s1, cfg_write_next_state c s = .throw .EXCEPTION_BAD_SYS_CONFIG_ERROR_CONDITION s1 ∧
      s1.message_state = .SM_MESSAGE_STATE_CFG_WRITE_ERROR ∧
      s1.sm_context.cfg_write.error_code = .CMD_ERROR_INVALID_CONFIG_TAG ∧
      s1.config_if_send_buffer = s.config_if_send_buffer ∧
      s1.config_if_tx_pending = s.config_if_tx_pending ∧
      sent_packets s1.trace = sent_packets s.trace ∧
      sys_config_set_calls s1.trace = sys_config_set_calls s.trace ++ pairs := by
  have hlen2 : (pairs_bytes pairs).length + 2 ≤ pkt.length := by
    rw [hpkt, List.length_append, List.length_cons, List.length_cons]
    omega
  have hl : ¬ pkt.length = 0 := by omega
  have hno : ¬ pkt.length > s.sm_context.cfg_write.length := by omega
  obtain ⟨s1, e, h1, h2, h3, h4, h5, h6⟩ :=
    cfg_write_loop_pairs_then_invalid c pkt lo hi rest hmax hinv pairs (pkt.length + 2) 0
      pkt.length
      { s with config_if_receive_buffer :=
          buffer_read_advance s.config_if_receive_buffer pkt.length }
      hpkt hvalid hlen2 hocc hL hLu (by omega)
  refine ⟨s1, ?_, h1, h2, h3, h4, h5, h6⟩
  unfold cfg_write_next_state
  simp only [bind_apply, getState, buffer_read_rx, buffer_read, hrx, List.head?_cons, hl,
    if_false, modifyState, hno, pure_apply]
  rw [e]
/-- C18: in CfgWriteNext with the send buffer free, a data packet that is longer than the
remaining announced length (error DataOversize), or that holds, after whole pairs of
valid tags, a tag id for which `sys_config_size` is negative (error InvalidConfigTag),
makes `cfg_write_next_state` throw with `message_state` set to CfgWriteError;
`sys_config_set` has been called for the valid pairs before the offending tag only (for
none in the oversize case); `cfg_write_error_state` then sends one CFG_WRITE_CNF with
that error code, makes no `sys_config_set` call, and returns `message_state` to Idle. -/
theorem cfg_write_protocol_errors (c : Ctx) (s : State) (pkt : List Nat)
    (rx : List (List Nat)) (pairs : List (Nat × List Nat)) (lo hi : Nat) (rest : List Nat)
    (error : cmd_error_t)
    (hrx : s.config_if_receive_buffer.queue = pkt :: rx)
    (hq : s.config_if_send_buffer.queue = []) (hslots : 0 < s.config_if_send_buffer.slots)
    (hpend : s.config_if_tx_pending = false)
    (hLu : s.sm_context.cfg_write.length < U32_MOD)
    (hcase :
      (pkt.length > s.sm_context.cfg_write.length ∧ error = .CMD_ERROR_DATA_OVERSIZE ∧
        pairs = []) ∨
      (pkt.length ≤ s.sm_context.cfg_write.length ∧ error = .CMD_ERROR_INVALID_CONFIG_TAG ∧
        pkt = pairs_bytes pairs ++ lo :: hi :: rest ∧
        (∀ p ∈ pairs, p.1 ∈ c.P.sys_config_tags ∧ p.1 < 65536 ∧
          p.2.length = c.P.sys_config_tag_size p.1 ∧
          c.P.sys_config_tag_size p.1 + 2 ≤ c.P.SYS_CONFIG_TAG_MAX_SIZE) ∧
        sys_config_size c.P (lo % 256 + hi % 256 * 256) < 0 ∧
        2 ≤ c.P.SYS_CONFIG_TAG_MAX_SIZE ∧
        s.sm_context.cfg_write.buffer_occupancy = 0)) :
    ∃ (e : CEXCEPTION_T) (s1 s2 : State),
      cfg_write_next_state c s = .throw e s1 ∧
      s1.message_state = .SM_MESSAGE_STATE_CFG_WRITE_ERROR ∧
      s1.sm_context.cfg_write.error_code = error ∧
      sys_config_set_calls s1.trace = sys_config_set_calls s.trace ++ pairs ∧
      cfg_write_error_state c s1 = .ok () s2 ∧
      sent_packets s2.trace = sent_packets s.trace ++ [.cmd_cfg_write_cnf error] ∧
      sys_config_set_calls s2.trace = sys_config_set_calls s1.trace ∧
      s2.message_state = .SM_MESSAGE_STATE_IDLE := by
  rcases hcase with ⟨hover, herr, hnil⟩ | ⟨hL, herr, hpkt, hvalid, hinv, hmax, hocc⟩
  · obtain ⟨s1, e, h1, h2, h3, h4, h5, h6⟩ := cfg_write_next_state_oversize c s pkt rx hrx hover
    obtain ⟨s2, e2, g1, g2, g3⟩ := cfg_write_error_state_spec c s1 (by rw [h3]; exact hq)
      (by rw [h3]; exact hslots) (by rw [h4]; exact hpend)
    refine ⟨_, s1, s2, e, h1, by rw [h2, herr], by rw [h6, hnil, List.append_nil], e2, ?_, g3,
      g1⟩
    rw [g2, h5, h2, herr]
  · obtain ⟨s1, e, h1, h2, h3, h4, h5, h6⟩ :=
      cfg_write_next_state_invalid_tag c s pkt rx pairs lo hi rest hrx hpkt hvalid hinv hmax
        hocc hL hLu
    obtain ⟨s2, e2, g1, g2, g3⟩ := cfg_write_error_state_spec c s1 (by rw [h3]; exact hq)
      (by rw [h3]; exact hslots) (by rw [h4]; exact hpend)
    refine ⟨_, s1, s2, e, h1, by rw [h2, herr], h6, e2, ?_, g3, g1⟩
    rw [g2, h5, h2, herr]

theorem cfg_write_protocol_errors_witness :
    ∃ (e : CEXCEPTION_T) (s1 s2 : State),
      cfg_write_next_state demo_ctx cfg_write_invalid_tag_state = .throw e s1 ∧
      s1.message_state = .SM_MESSAGE_STATE_CFG_WRITE_ERROR ∧
      s1.sm_context.cfg_write.error_code = .CMD_ERROR_INVALID_CONFIG_TAG ∧
      sys_config_set_calls s1.trace =
        sys_config_set_calls cfg_write_invalid_tag_state.trace ++ [(15, [1, 2, 3, 4])] ∧
      cfg_write_error_state demo_ctx s1 = .ok () s2 ∧
      sent_packets s2.trace = sent_packets cfg_write_invalid_tag_state.trace ++
        [.cmd_cfg_write_cnf .CMD_ERROR_INVALID_CONFIG_TAG] ∧
      sys_config_set_calls s2.trace = sys_config_set_calls s1.trace ∧
      s2.message_state = .SM_MESSAGE_STATE_IDLE :=
  cfg_write_protocol_errors demo_ctx cfg_write_invalid_tag_state [15, 0, 1, 2, 3, 4, 200, 0] []
    [(15, [1, 2, 3, 4])] 200 0 [] .CMD_ERROR_INVALID_CONFIG_TAG (by decide!) (by decide!)
    (by decide!) (by decide!) (by decide!)
    (Or.inr ⟨by decide!, rfl, by decide!, by decide!, by decide!, by decide!, by decide!⟩)

/-- The demos of C18 evaluated through `handle_config_if_messages`: after a data packet of
3 bytes where 2 were announced, and after a data packet with the unknown tag id 200, the
first iteration ends in CfgWriteError and the second has sent the response to the request
and one CFG_WRITE_CNF with DataOversize, respectively InvalidConfigTag, and is Idle; the
only `sys_config_set` call is the one for the valid pair (15, 1 2 3 4). -/
theorem cfg_write_error_demo_runs :
    (handle_config_if_messages demo_ctx cfg_write_oversize_state).state.message_state =
      .SM_MESSAGE_STATE_CFG_WRITE_ERROR ∧
    sent_packets (handle_config_if_messages_twice demo_ctx cfg_write_oversize_state).state.trace =
      [.cmd_generic_resp .CMD_NO_ERROR, .cmd_cfg_write_cnf .CMD_ERROR_DATA_OVERSIZE] ∧
    sys_config_set_calls
      (handle_config_if_messages_twice demo_ctx cfg_write_oversize_state).state.trace = [] ∧
    (handle_config_if_messages_twice demo_ctx cfg_write_oversize_state).state.message_state =
      .SM_MESSAGE_STATE_IDLE ∧
    (handle_config_if_messages demo_ctx cfg_write_invalid_tag_state).state.message_state =
      .SM_MESSAGE_STATE_CFG_WRITE_ERROR ∧
    sent_packets
      (handle_config_if_messages_twice demo_ctx cfg_write_invalid_tag_state).state.trace =
      [.cmd_generic_resp .CMD_NO_ERROR, .cmd_cfg_write_cnf .CMD_ERROR_INVALID_CONFIG_TAG] ∧
    sys_config_set_calls
      (handle_config_if_messages_twice demo_ctx cfg_write_invalid_tag_state).state.trace =
      [(15, [1, 2, 3, 4])] ∧
    (handle_config_if_messages_twice demo_ctx cfg_write_invalid_tag_state).state.message_state =
      .SM_MESSAGE_STATE_IDLE := by
  decide!

/-! ## Bridging disabled -/

theorem gps_read_req_bridging_disabled (c : Ctx) (s : State) (req : List Nat)
    (hsize : CMD_SIZE c.P.sizeof_cmd_gps_read_req_t = req.length)
    (hq : s.config_if_send_buffer.queue = []) (hslots : 0 < s.config_if_send_buffer.slots)
    (hpend : s.config_if_tx_pending = false)
    (hb : s.syshal_gps_bridging = false) :
    ∃ s1, gps_read_req req req.length c s = .ok () s1 ∧
      sent_packets s1.trace = sent_packets s.trace ++
        [.cmd_gps_read_resp .CMD_ERROR_BRIDGING_DISABLED 0] ∧
      s1.message_state = (if s.sm_context.gps_read_length > 0
        then .SM_MESSAGE_STATE_GPS_READ_NEXT else s.message_state) := by
  have hsz : ¬ CMD_SIZE c.P.sizeof_cmd_gps_read_resp_t = 0 := by
    unfold CMD_SIZE CMD_SIZE_HDR; omega
  unfold gps_read_req
  simp only [bind_apply, getParams, hsize, ne_eq, not_true_eq_false, if_false, pure_apply,
    tx_buffer_write, getState, buffer_write, hq, List.length_nil, hslots, decide_True,
    Bool.not_true, Bool.false_eq_true, hb, tx_write_advance, modifyState,
    buffer_write_advance, tx_packet.size, hsz, config_if_send_priv, hpend, buffer_read_tx,
    buffer_read, List.nil_append, List.head?_cons, not_false_eq_true, if_true, call, ite_apply]
  by_cases hl : s.sm_context.gps_read_length > 0
  · rw [if_pos hl, if_pos hl]
    simp only [message_set_state, config_if_timeout_reset, ask, bind_apply, modifyState]
    refine ⟨_, rfl, ?_, rfl⟩
    show sent_packets ((s.trace ++ [_]) ++ [_]) = _
    rw [sent_packets_append, sent_packets_append]
    simp only [sent_packets, List.append_nil]
  · rw [if_neg hl, if_neg hl]
    refine ⟨_, rfl, ?_, rfl⟩
    show sent_packets (s.trace ++ [_]) = _
    rw [sent_packets_append]
    simp only [sent_packets, List.append_nil]

theorem bridging_disabled_keeps_message_state (c : Ctx) (s : State) (req : List Nat)
    (hq : s.config_if_send_buffer.queue = []) (hslots : 0 < s.config_if_send_buffer.slots)
    (hpend : s.config_if_tx_pending = false) :
    (CMD_SIZE c.P.sizeof_cmd_gps_write_req_t = req.length → s.syshal_gps_bridging = false →
      ∃ s1, gps_write_req req req.length c s = .ok () s1 ∧
        sent_packets s1.trace = sent_packets s.trace ++
          [.cmd_generic_resp .CMD_ERROR_BRIDGING_DISABLED] ∧
        s1.message_state = s.message_state) ∧
    (CMD_SIZE c.P.sizeof_cmd_ble_write_req_t = req.length → s.syshal_ble_bridging = false →
      ∃ s1, ble_write_req req req.length c s = .ok () s1 ∧
        sent_packets s1.trace = sent_packets s.trace ++
          [.cmd_generic_resp .CMD_ERROR_BRIDGING_DISABLED] ∧
        s1.message_state = s.message_state) ∧
    (CMD_SIZE c.P.sizeof_cmd_ble_read_req_t = req.length → s.syshal_ble_bridging = false →
      ∃ s1, ble_read_req req req.length c s = .ok () s1 ∧
        sent_packets s1.trace = sent_packets s.trace ++
          [.cmd_generic_resp .CMD_ERROR_BRIDGING_DISABLED] ∧
        s1.message_state = s.message_state) := by
  have hsz : ¬ CMD_SIZE c.P.sizeof_cmd_generic_resp_t = 0 := by
    unfold CMD_SIZE CMD_SIZE_HDR; omega
  refine ⟨fun hsize hb => ?_, fun hsize hb => ?_, fun hsize hb => ?_⟩
  · unfold gps_write_req
    simp only [bind_apply, getParams, hsize, ne_eq, not_true_eq_false, if_false, pure_apply,
      tx_buffer_write, getState, buffer_write, hq, List.length_nil, hslots, decide_True,
      Bool.not_true, Bool.false_eq_true, hb, tx_write_advance, modifyState,
      buffer_write_advance, tx_packet.size, hsz, config_if_send_priv, hpend, buffer_read_tx,
      buffer_read, List.nil_append, List.head?_cons, not_false_eq_true, if_true, call]
    refine ⟨_, rfl, ?_, rfl⟩
    show sent_packets (s.trace ++ [_]) = _
    rw [sent_packets_append]
    simp only [sent_packets, List.append_nil]
  · unfold ble_write_req
    simp only [bind_apply, getParams, hsize, ne_eq, not_true_eq_false, if_false, pure_apply,
      tx_buffer_write, getState, buffer_write, hq, List.length_nil, hslots, decide_True,
      Bool.not_true, Bool.false_eq_true, hb, tx_write_advance, modifyState,
      buffer_write_advance, tx_packet.size, hsz, config_if_send_priv, hpend, buffer_read_tx,
      buffer_read, List.nil_append, List.head?_cons, not_false_eq_true, if_true, call]
    refine ⟨_, rfl, ?_, rfl⟩
    show sent_packets (s.trace ++ [_]) = _
    rw [sent_packets_append]
    simp only [sent_packets, List.append_nil]
  · unfold ble_read_req
    simp only [bind_apply, getParams, hsize, ne_eq, not_true_eq_false, if_false, pure_apply,
      tx_buffer_write, getState, buffer_write, hq, List.length_nil, hslots, decide_True,
      Bool.not_true, Bool.false_eq_true, hb, tx_write_advance, modifyState,
      buffer_write_advance, tx_packet.size, hsz, config_if_send_priv, hpend, buffer_read_tx,
      buffer_read, List.nil_append, List.head?_cons, not_false_eq_true, if_true, call,
      gt_iff_lt, Nat.lt_irrefl]
    refine ⟨_, rfl, ?_, rfl⟩
    show sent_packets (s.trace ++ [_]) = _
    rw [sent_packets_append]
    simp only [sent_packets, List.append_nil]

/-- C19 (code defect): a session in which `gps_read_req`, handled with GPS bridging
disabled, leaves Idle. The host enables the bridge and asks for 4 bytes, so that
`sm_context.gps_read.length` is 4; the transfer is abandoned and the inactivity timeout
returns the engine to Idle; the host disables the bridge and sends GpsRead again. The
request is answered with BridgingDisabled and length 0, but `sm_context.gps_read.length`
still holds 4 (the branch for the disabled bridge does not clear it), so
`message_state` becomes GpsReadNext, and at the next iteration `gps_read_next_state`
reads 4 bytes from the GPS receiver. -/
theorem gps_read_with_bridging_disabled_leaves_idle :
    (gps_read_abandoned gps_available_ctx initial_state).state.message_state =
      .SM_MESSAGE_STATE_IDLE ∧
    (gps_read_abandoned gps_available_ctx initial_state).state.sm_context.gps_read_length = 4 ∧
    (gps_read_stale_session gps_available_ctx initial_state).returned = true ∧
    (gps_read_stale_session gps_available_ctx initial_state).state.syshal_gps_bridging = false ∧
    (sent_packets (gps_read_stale_session gps_available_ctx initial_state).state.trace).getLast? =
      some (.cmd_gps_read_resp .CMD_ERROR_BRIDGING_DISABLED 0) ∧
    (gps_read_stale_session gps_available_ctx initial_state).state.message_state =
      .SM_MESSAGE_STATE_GPS_READ_NEXT ∧
    ((do gps_read_stale_session; host_wait : M Unit) gps_available_ctx
      initial_state).state.trace.getLast? = some (.syshal_gps_receive_raw 4) := by
  decide!

/-! ## Configuration restore -/

theorem file_position_after_open (tr : List Ev) (file_id : Nat) (mode : fs_mode_t) :
    file_position (tr ++ [Ev.fs_open file_id mode]) = 0 := by
  rw [file_position_append]
  rfl

theorem getD_take_one (l : List Nat) : (l.take 1).getD 0 0 = l.getD 0 0 := by
  cases l <;> rfl

theorem int_lor_self (x : Int) : Int.lor x x = x := by
  cases x <;> simp [Int.lor]

theorem fs_get_configuration_data_missing (c : Ctx) (s : State)
    (hopen : ∀ tr, (c.env.fs_open tr FS_FILE_ID_CONF .FS_MODE_READONLY).1 =
      .FS_ERROR_FILE_NOT_FOUND) :
    ∃ s1, fs_get_configuration_data c s = .ok (c.P.fs_code .FS_ERROR_FILE_NOT_FOUND) s1 ∧
      s1.config_if_send_buffer = s.config_if_send_buffer ∧
      s1.config_if_tx_pending = s.config_if_tx_pending ∧
      s1.message_state = s.message_state ∧
      sent_packets s1.trace = sent_packets s.trace := by
  unfold fs_get_configuration_data
  simp only [bind_apply, getParams, fs_open, ask, hopen, if_true, modifyState, pure_apply,
    ne_eq, not_true_eq_false, if_false, reduceCtorEq, not_false_eq_true]
  refine ⟨_, rfl, rfl, rfl, rfl, ?_⟩
  show sent_packets (s.trace ++ [_]) = _
  rw [sent_packets_append]
  simp only [sent_packets, List.append_nil]

theorem fs_get_configuration_data_present (c : Ctx) (content : List Nat)
    (hf : conf_file c content) (s : State) :
    ∃ s1, fs_get_configuration_data c s = .ok
        (if c.P.SYS_CONFIG_FORMAT_VERSION ≠ content.getD 0 0 ∨
            content.length < c.P.sizeof_sys_config
          then c.P.fs_code .FS_ERROR_FILE_VERSION_MISMATCH else c.P.fs_code .FS_NO_ERROR) s1 ∧
      s1.config_if_send_buffer = s.config_if_send_buffer ∧
      s1.config_if_tx_pending = s.config_if_tx_pending ∧
      s1.message_state = s.message_state ∧
      sent_packets s1.trace = sent_packets s.trace := by
  unfold fs_get_configuration_data
  simp only [bind_apply, getParams, fs_open, ask, hf.opens, if_true, modifyState, pure_apply,
    ne_eq, not_true_eq_false, if_false, fs_read, getState, hf.read, fs_close, call, ite_apply,
    file_position_after_open, List.drop_zero, List.take_take, min_self, getD_take_one,
    int_lor_self]
  by_cases hv : c.P.SYS_CONFIG_FORMAT_VERSION = content.getD 0 0
  · by_cases hlen : content.length < c.P.sizeof_sys_config
    · have hl : ¬ (List.take c.P.sizeof_sys_config content).length = c.P.sizeof_sys_config := by
        rw [List.length_take]
        omega
      rw [if_neg (not_not_intro hv), if_pos hl, if_pos (Or.inr hlen)]
      refine ⟨_, rfl, rfl, rfl, rfl, ?_⟩
      simp only [sent_packets_append, sent_packets, List.append_nil]
    · have hl : (List.take c.P.sizeof_sys_config content).length = c.P.sizeof_sys_config := by
        rw [List.length_take]
        omega
      rw [if_neg (not_not_intro hv), if_neg (not_not_intro hl),
        if_neg (fun h => h.elim (fun h1 => h1 hv) hlen)]
      refine ⟨_, rfl, rfl, rfl, rfl, ?_⟩
      simp only [sent_packets_append, sent_packets, List.append_nil]
  · rw [if_pos hv, if_pos (Or.inl hv)]
    refine ⟨_, rfl, rfl, rfl, rfl, ?_⟩
    simp only [sent_packets_append, sent_packets, List.append_nil]
theorem cfg_restore_req_spec (c : Ctx) (s : State) (req : List Nat) (ret : Int) (s1 : State)
    (error : cmd_error_t)
    (hsize : req.length = CMD_SIZE_HDR)
    (hq : s.config_if_send_buffer.queue = []) (hslots : 0 < s.config_if_send_buffer.slots)
    (hpend : s.config_if_tx_pending = false)
    (hget : fs_get_configuration_data c s = .ok ret s1)
    (hsb : s1.config_if_send_buffer = s.config_if_send_buffer)
    (hp : s1.config_if_tx_pending = s.config_if_tx_pending)
    (hms : s1.message_state = s.message_state)
    (hsent : sent_packets s1.trace = sent_packets s.trace)
    (herr : (ret = c.P.fs_code .FS_NO_ERROR ∧ error = .CMD_NO_ERROR) ∨
      (ret ≠ c.P.fs_code .FS_NO_ERROR ∧ ret = c.P.fs_code .FS_ERROR_FILE_NOT_FOUND ∧
        error = .CMD_ERROR_FILE_NOT_FOUND) ∨
      (ret ≠ c.P.fs_code .FS_NO_ERROR ∧ ret ≠ c.P.fs_code .FS_ERROR_FILE_NOT_FOUND ∧
        ret = c.P.fs_code .FS_ERROR_FILE_VERSION_MISMATCH ∧
        error = .CMD_ERROR_FILE_INCOMPATIBLE)) :
    ∃ s2, cfg_restore_req req req.length c s = .ok () s2 ∧
      sent_packets s2.trace = sent_packets s.trace ++ [.cmd_generic_resp error] ∧
      s2.message_state = s.message_state := by
  have hsz : ¬ CMD_SIZE c.P.sizeof_cmd_generic_resp_t = 0 := by
    unfold CMD_SIZE CMD_SIZE_HDR; omega
  have hq1 : s1.config_if_send_buffer.queue = [] := by rw [hsb]; exact hq
  have hp1 : s1.config_if_tx_pending = false := by rw [hp]; exact hpend
  have hfin : ∃ s2, (do tx_write_advance (.cmd_generic_resp error); config_if_send_priv : M Unit)
        c s1 = .ok () s2 ∧
      sent_packets s2.trace = sent_packets s.trace ++ [.cmd_generic_resp error] ∧
      s2.message_state = s.message_state := by
    simp only [bind_apply, tx_write_advance, getParams, modifyState, buffer_write_advance,
      tx_packet.size, hsz, if_false, config_if_send_priv, getState, hp1, Bool.false_eq_true,
      pure_apply, buffer_read_tx, buffer_read, hq1, List.nil_append, List.head?_cons, ne_eq,
      not_false_eq_true, if_true, call]
    refine ⟨_, rfl, ?_, hms⟩
    show sent_packets (s1.trace ++ [_]) = _
    rw [sent_packets_append, hsent]
    simp only [sent_packets, List.append_nil]
  obtain ⟨s2, e2, g1, g2⟩ := hfin
  refine ⟨s2, ?_, g1, g2⟩
  rw [← e2]
  unfold cfg_restore_req
  simp only [bind_apply, hsize, ne_eq, not_true_eq_false, if_false, pure_apply,
    tx_buffer_write, getState, buffer_write, hq, List.length_nil, hslots, decide_True,
    Bool.not_true, Bool.false_eq_true, getParams, hget, ite_apply]
  rcases herr with ⟨h1, he⟩ | ⟨h1, h2, he⟩ | ⟨h1, h2, h3, he⟩
  · rw [if_pos h1, he]
  · rw [if_neg h1, if_pos h2, he]
  · rw [if_neg h1, if_neg h2, if_pos h3, he]
/-- C20: with the send buffer free and the three file-system codes distinct, a CfgRestore
request of the right size is answered as follows. When the CONF file cannot be opened
because it is missing, `fs_get_configuration_data` returns FileNotFound and the response
carries FileNotFound. When the file exists and its first byte (0 for an empty file, as
`format_version` is initialised to 0) differs from `SYS_CONFIG_FORMAT_VERSION`,
`fs_get_configuration_data` returns FileVersionMismatch and the response carries
FileIncompatible. When the first byte is the format version and the file holds at least
`sizeof(sys_config)` bytes, `fs_get_configuration_data` returns NoError and the response
carries NoError. In each case `message_state` is unchanged. -/
theorem cfg_restore_responses (c : Ctx) (s : State) (req : List Nat) (content : List Nat)
    (fs_ret : fs_error_t) (error : cmd_error_t)
    (hsize : req.length = CMD_SIZE_HDR)
    (hq : s.config_if_send_buffer.queue = []) (hslots : 0 < s.config_if_send_buffer.slots)
    (hpend : s.config_if_tx_pending = false)
    (hcodes : c.P.fs_code .FS_ERROR_FILE_NOT_FOUND ≠ c.P.fs_code .FS_NO_ERROR ∧
      c.P.fs_code .FS_ERROR_FILE_VERSION_MISMATCH ≠ c.P.fs_code .FS_NO_ERROR ∧
      c.P.fs_code .FS_ERROR_FILE_VERSION_MISMATCH ≠ c.P.fs_code .FS_ERROR_FILE_NOT_FOUND)
    (hcase :
      ((∀ tr, (c.env.fs_open tr FS_FILE_ID_CONF .FS_MODE_READONLY).1 =
          .FS_ERROR_FILE_NOT_FOUND) ∧
        fs_ret = .FS_ERROR_FILE_NOT_FOUND ∧ error = .CMD_ERROR_FILE_NOT_FOUND) ∨
      (conf_file c content ∧ content.getD 0 0 ≠ c.P.SYS_CONFIG_FORMAT_VERSION ∧
        fs_ret = .FS_ERROR_FILE_VERSION_MISMATCH ∧ error = .CMD_ERROR_FILE_INCOMPATIBLE) ∨
      (conf_file c content ∧ content.getD 0 0 = c.P.SYS_CONFIG_FORMAT_VERSION ∧
        c.P.sizeof_sys_config ≤ content.length ∧
        fs_ret = .FS_NO_ERROR ∧ error = .CMD_NO_ERROR)) :
    ∃ (s1 s2 : State),
      fs_get_configuration_data c s = .ok (c.P.fs_code fs_ret) s1 ∧
      cfg_restore_req req req.length c s = .ok () s2 ∧
      sent_packets s2.trace = sent_packets s.trace ++ [.cmd_generic_resp error] ∧
      s2.message_state = s.message_state := by
  obtain ⟨hc1, hc2, hc3⟩ := hcodes
  rcases hcase with ⟨hopen, hr, he⟩ | ⟨hf, hv, hr, he⟩ | ⟨hf, hv, hlen, hr, he⟩
  · obtain ⟨s1, e1, g1, g2, g3, g4⟩ := fs_get_configuration_data_missing c s hopen
    obtain ⟨s2, e2, k1, k2⟩ := cfg_restore_req_spec c s req _ s1 error hsize hq hslots hpend e1
      g1 g2 g3 g4 (Or.inr (Or.inl ⟨hc1, rfl, he⟩))
    exact ⟨s1, s2, by rw [hr]; exact e1, e2, k1, k2⟩
  · obtain ⟨s1, e1, g1, g2, g3, g4⟩ := fs_get_configuration_data_present c content hf s
    rw [if_pos (Or.inl (fun h => hv h.symm))] at e1
    obtain ⟨s2, e2, k1, k2⟩ := cfg_restore_req_spec c s req _ s1 error hsize hq hslots hpend e1
      g1 g2 g3 g4 (Or.inr (Or.inr ⟨hc2, hc3, rfl, he⟩))
    exact ⟨s1, s2, by rw [hr]; exact e1, e2, k1, k2⟩
  · obtain ⟨s1, e1, g1, g2, g3, g4⟩ := fs_get_configuration_data_present c content hf s
    rw [if_neg (fun h => h.elim (fun h1 => h1 hv.symm) (fun h2 => by omega))] at e1
    obtain ⟨s2, e2, k1, k2⟩ := cfg_restore_req_spec c s req _ s1 error hsize hq hslots hpend e1
      g1 g2 g3 g4 (Or.inl ⟨rfl, he⟩)
    exact ⟨s1, s2, by rw [hr]; exact e1, e2, k1, k2⟩

theorem cfg_restore_responses_witness :
    ∃ (s1 s2 : State),
      fs_get_configuration_data stale_conf_ctx initial_state =
        .ok (stale_conf_ctx.P.fs_code .FS_ERROR_FILE_VERSION_MISMATCH) s1 ∧
      cfg_restore_req (demo_hdr 3) (demo_hdr 3).length stale_conf_ctx initial_state =
        .ok () s2 ∧
      sent_packets s2.trace = sent_packets initial_state.trace ++
        [.cmd_generic_resp .CMD_ERROR_FILE_INCOMPATIBLE] ∧
      s2.message_state = initial_state.message_state :=
  cfg_restore_responses stale_conf_ctx initial_state (demo_hdr 3) stale_conf_content
    .FS_ERROR_FILE_VERSION_MISMATCH .CMD_ERROR_FILE_INCOMPATIBLE (by decide!) rfl (by decide!)
    rfl (by decide!)
    (Or.inr (Or.inl ⟨⟨fun _ => rfl, fun _ _ _ => rfl⟩, by decide!, rfl, rfl⟩))

/-- The demos of C20 evaluated through `handle_config_if_messages`: a CfgRestore request
is answered with FileNotFound on an empty flash, with FileIncompatible when the
configuration file starts with another format version, and with NoError when it starts
with the format version of the firmware; the engine stays in Idle. -/
theorem cfg_restore_demo_runs :
    sent_packets (host_send (demo_hdr 3) empty_flash_ctx initial_state).state.trace =
      [.cmd_generic_resp .CMD_ERROR_FILE_NOT_FOUND] ∧
    sent_packets (host_send (demo_hdr 3) stale_conf_ctx initial_state).state.trace =
      [.cmd_generic_resp .CMD_ERROR_FILE_INCOMPATIBLE] ∧
    sent_packets (host_send (demo_hdr 3) seeded_flash_ctx initial_state).state.trace =
      [.cmd_generic_resp .CMD_NO_ERROR] ∧
    (host_send (demo_hdr 3) stale_conf_ctx initial_state).state.message_state =
      .SM_MESSAGE_STATE_IDLE ∧
    (fs_get_configuration_data stale_conf_ctx initial_state).value? =
      some (demo_fs_code .FS_ERROR_FILE_VERSION_MISMATCH) := by
  decide!

/-! ## GPS timers and the value 0 -/

theorem timer_gps_interval_callback_arms (c : Ctx) (s : State)
    (hmode : gps_scheduled_or_hybrid_underwater c.P s = true) :
    ∃ s1, timer_gps_interval_callback c s = .ok () s1 ∧
      Ev.syshal_timer_set .timer_gps_maximum_acquisition .one_shot
        (s.contents_value c.P.tag.GPS_MAXIMUM_ACQUISITION_TIME) ∈ s1.trace ∧
      (s.contents_value c.P.tag.GPS_SCHEDULED_ACQUISITION_NO_FIX_TIMEOUT = 0 →
        timer_armed .timer_gps_maximum_acquisition s1.trace = true ∧
        timer_armed .timer_gps_no_fix s1.trace = timer_armed .timer_gps_no_fix s.trace) := by
  unfold timer_gps_interval_callback
  simp only [bind_apply, getParams, getState, hmode, if_true, pure_apply, ite_apply,
    set_sm_gps_state, modifyState, syshal_gps_wake_up, syshal_timer_set, call]
  by_cases hg : s.sm_gps_state = .SM_GPS_STATE_ASLEEP
  · by_cases hn : s.contents_value c.P.tag.GPS_SCHEDULED_ACQUISITION_NO_FIX_TIMEOUT = 0
    · simp only [hg, hn, if_true, ne_eq, not_true_eq_false, if_false]
      refine ⟨_, rfl, ?_, fun _ => ⟨?_, ?_⟩⟩
      · simp only [List.mem_append, List.mem_singleton, or_true]
      · show timer_armed _ ((s.trace ++ [_]) ++ [_]) = _
        rw [timer_armed_append]
        rfl
      · show timer_armed _ ((s.trace ++ [_]) ++ [_]) = _
        rw [timer_armed_append, timer_armed_append]
        rfl
    · simp only [hg, hn, if_true, ne_eq, not_false_eq_true]
      refine ⟨_, rfl, ?_, fun h => False.elim h⟩
      simp only [List.mem_append, List.mem_singleton, or_true, true_or]
  · by_cases hn : s.contents_value c.P.tag.GPS_SCHEDULED_ACQUISITION_NO_FIX_TIMEOUT = 0
    · simp only [hg, hn, if_false, ne_eq, not_true_eq_false]
      refine ⟨_, rfl, ?_, fun _ => ⟨?_, ?_⟩⟩
      · simp only [List.mem_append, List.mem_singleton, or_true]
      · show timer_armed _ (s.trace ++ [_]) = _
        rw [timer_armed_append]
        rfl
      · show timer_armed _ (s.trace ++ [_]) = _
        rw [timer_armed_append]
        rfl
    · simp only [hg, hn, if_false, ne_eq, not_false_eq_true, if_true]
      refine ⟨_, rfl, ?_, fun h => False.elim h⟩
      simp only [List.mem_append, List.mem_singleton, or_true, true_or]

/-- C21 (code defect): the GPS maximum acquisition time and the no-fix timeout are
configured as 0 and the trigger mode is Scheduled. `timer_gps_interval_callback` wakes
the GPS and calls `syshal_timer_set(timer_gps_maximum_acquisition, one_shot, 0)`: the
timer that the value 0 is meant to switch off is armed (the no-fix timer is not). The
same holds in Hybrid mode under water. With the same configuration the saltwater-switch
open event and the entry block of Operational, which test the value first, leave the
timer as it was. -/
theorem timer_gps_interval_callback_arms_maximum_acquisition_with_zero :
    gps_unbounded_state.contents_value demo_tag_ids.GPS_MAXIMUM_ACQUISITION_TIME = 0 ∧
    gps_unbounded_state.contents_value demo_tag_ids.GPS_SCHEDULED_ACQUISITION_NO_FIX_TIMEOUT
      = 0 ∧
    demo_params.SYS_CONFIG_GPS_TRIGGER_MODE_SCHEDULED =
      gps_unbounded_state.contents_value demo_tag_ids.GPS_TRIGGER_MODE ∧
    (timer_gps_interval_callback demo_ctx gps_unbounded_state).state.trace =
      [.hal .syshal_gps_wake_up,
       .syshal_timer_set .timer_gps_maximum_acquisition .one_shot 0] ∧
    timer_armed .timer_gps_maximum_acquisition
      (timer_gps_interval_callback demo_ctx gps_unbounded_state).state.trace = true ∧
    timer_armed .timer_gps_no_fix
      (timer_gps_interval_callback demo_ctx gps_unbounded_state).state.trace = false ∧
    timer_armed .timer_gps_maximum_acquisition
      (timer_gps_interval_callback demo_ctx (gps_unbounded_underwater_state
        demo_params.SYS_CONFIG_GPS_TRIGGER_MODE_HYBRID)).state.trace = true ∧
    (syshal_switch_callback .SYSHAL_SWITCH_EVENT_OPEN demo_ctx (gps_unbounded_underwater_state
      demo_params.SYS_CONFIG_GPS_TRIGGER_MODE_HYBRID)).state.sm_gps_state =
        .SM_GPS_STATE_ACQUIRING ∧
    timer_armed .timer_gps_maximum_acquisition
      (syshal_switch_callback .SYSHAL_SWITCH_EVENT_OPEN demo_ctx (gps_unbounded_underwater_state
        demo_params.SYS_CONFIG_GPS_TRIGGER_MODE_HYBRID)).state.trace = false ∧
    (sm_main_operational_entry demo_ctx (gps_unbounded_surfaced_state
      demo_params.SYS_CONFIG_GPS_TRIGGER_MODE_SWITCH_TRIGGERED)).state.sm_gps_state =
        .SM_GPS_STATE_ACQUIRING ∧
    timer_armed .timer_gps_maximum_acquisition
      (sm_main_operational_entry demo_ctx (gps_unbounded_surfaced_state
        demo_params.SYS_CONFIG_GPS_TRIGGER_MODE_SWITCH_TRIGGERED)).state.trace = false := by
  decide!

/-! ## The data packets of CfgRead -/

theorem tag_value_length_pos_of_readable (P : Params) (store : Nat → sys_config_entry)
    (tags : List Nat) (j tag : Nat) (hget : tags.get? j = some tag)
    (hr : tag_is_readable P store tag = true) :
    0 < tag_value_length P store (tags.drop j) := by
  rw [drop_eq_cons_of_get tags j tag hget, tag_value_length_cons, if_pos hr]
  omega

/-- C22: from an empty send slot, `cfg_read_populate_buffer` returns with a packet of at
most `SYSHAL_USB_PACKET_SIZE` bytes that is the concatenation of the whole pairs
`tag || value` of the readable tags from the index it started at up to the index `j` it
stops at, in order. When it stops before the end of the schema, the tag at `j` is a
readable one whose pair did not fit (`buffer_offset + size + 2` exceeds the packet size)
and `last_index` is back on it: the next call, on a fresh slot, advances past `j` and
builds a packet that starts with the pair of that very tag, followed by the pairs of the
tags after it. -/
theorem cfg_read_packets_hold_whole_pairs (c : Ctx) (hP : schema_ok c.P) (s : State)
    (hi : s.sm_context.cfg_read.last_index ≤ c.P.sys_config_tags.length)
    (hb : s.sm_context.cfg_read.buffer_base = [])
    (hoff : s.sm_context.cfg_read.buffer_offset = 0)
    (hok : store_sizes_ok c.P s.sys_config) :
    ∃ (s1 : State) (j : Nat), cfg_read_populate_buffer c s = .ok () s1 ∧
      s1.sm_context.cfg_read.last_index = j ∧
      s.sm_context.cfg_read.last_index ≤ j ∧ j ≤ c.P.sys_config_tags.length ∧
      s1.sm_context.cfg_read.buffer_base = tag_value_stream c.P s1.sys_config
        ((c.P.sys_config_tags.drop s.sm_context.cfg_read.last_index).take
          (j - s.sm_context.cfg_read.last_index)) ∧
      s1.sm_context.cfg_read.buffer_base.length = s1.sm_context.cfg_read.buffer_offset ∧
      s1.sm_context.cfg_read.buffer_offset ≤ c.P.SYSHAL_USB_PACKET_SIZE ∧
      (j < c.P.sys_config_tags.length →
        ∃ (tag : Nat) (s2 : State), c.P.sys_config_tags.get? j = some tag ∧
          tag_is_readable c.P s1.sys_config tag = true ∧
          c.P.SYSHAL_USB_PACKET_SIZE <
            s1.sm_context.cfg_read.buffer_offset + c.P.sys_config_tag_size tag + 2 ∧
          cfg_read_populate_buffer c s1.fresh_buffer = .ok () s2 ∧
          j < s2.sm_context.cfg_read.last_index ∧
          s2.sm_context.cfg_read.buffer_base.length ≤ c.P.SYSHAL_USB_PACKET_SIZE ∧
          s2.sm_context.cfg_read.buffer_base = tag_value_bytes c.P s2.sys_config tag ++
            tag_value_stream c.P s2.sys_config
              ((c.P.sys_config_tags.drop (j + 1)).take
                (s2.sm_context.cfg_read.last_index - (j + 1)))) := by
  obtain ⟨s1, j, e1, h1, h2, h3, h4, h5, h6, h7, -, hok1, -⟩ :=
    populate_buffer_spec c hP s hi (by rw [hb, hoff]; rfl) (by rw [hoff]; omega) hok
  rw [hb, List.nil_append] at h4
  refine ⟨s1, j, e1, h3, h1, h2, h4, h5, h6, fun hj => ?_⟩
  obtain ⟨tag, hget, hr, hfit⟩ := h7 hj
  have hidx : s1.fresh_buffer.sm_context.cfg_read.last_index = j := h3
  obtain ⟨s2, k, e2, g1, g2, g3, g4, g5, g6, -, hfr, -, -⟩ :=
    populate_buffer_spec c hP s1.fresh_buffer (by rw [hidx]; exact h2) rfl (Nat.zero_le _) hok1
  obtain ⟨s2', e2', -, -, -, -, -, hpos, -⟩ :=
    populate_buffer_fresh c hP s1.fresh_buffer _ e2 (by rw [hidx]; exact h2) rfl rfl hok1
  cases e2'
  have hlt : j < s2.sm_context.cfg_read.last_index := by
    have := (hpos (by
      rw [hidx]
      exact tag_value_length_pos_of_readable c.P _ _ j tag hget hr)).2
    rw [hidx] at this
    exact this
  have hr2 : tag_is_readable c.P s2.sys_config tag = true := by
    rw [tag_is_readable_of_set_flags c.P s2.sys_config s1.sys_config tag (hfr.set_flags tag)]
    exact hr
  have g4' : s2.sm_context.cfg_read.buffer_base = tag_value_stream c.P s2.sys_config
      ((c.P.sys_config_tags.drop j).take (s2.sm_context.cfg_read.last_index - j)) := by
    rw [g4, hidx, g3]
    rfl
  refine ⟨tag, s2, hget, hr, hfit, e2, hlt, by rw [g5]; exact g6, ?_⟩
  have hk : s2.sm_context.cfg_read.last_index - j =
      (s2.sm_context.cfg_read.last_index - (j + 1)) + 1 := by omega
  rw [g4', drop_eq_cons_of_get _ j tag hget, hk, List.take_succ_cons, tag_value_stream_cons,
    if_pos hr2]

theorem small_packet_schema_ok : schema_ok small_packet_params :=
  ⟨by decide!, by decide!, by decide!, by decide!, by decide!, by decide!⟩

theorem all_tags_set_store_ok :
    store_sizes_ok small_packet_params all_tags_set_state.sys_config := by
  unfold store_sizes_ok
  decide!

theorem cfg_read_packets_hold_whole_pairs_witness :
    ∃ (s1 : State) (j : Nat), cfg_read_populate_buffer slow_reader_ctx all_tags_set_state =
        .ok () s1 ∧
      s1.sm_context.cfg_read.last_index = j ∧
      all_tags_set_state.sm_context.cfg_read.last_index ≤ j ∧
      j ≤ slow_reader_ctx.P.sys_config_tags.length ∧
      s1.sm_context.cfg_read.buffer_base = tag_value_stream slow_reader_ctx.P s1.sys_config
        ((slow_reader_ctx.P.sys_config_tags.drop
          all_tags_set_state.sm_context.cfg_read.last_index).take
          (j - all_tags_set_state.sm_context.cfg_read.last_index)) ∧
      s1.sm_context.cfg_read.buffer_base.length = s1.sm_context.cfg_read.buffer_offset ∧
      s1.sm_context.cfg_read.buffer_offset ≤ slow_reader_ctx.P.SYSHAL_USB_PACKET_SIZE ∧
      (j < slow_reader_ctx.P.sys_config_tags.length →
        ∃ (tag : Nat) (s2 : State), slow_reader_ctx.P.sys_config_tags.get? j = some tag ∧
          tag_is_readable slow_reader_ctx.P s1.sys_config tag = true ∧
          slow_reader_ctx.P.SYSHAL_USB_PACKET_SIZE <
            s1.sm_context.cfg_read.buffer_offset +
              slow_reader_ctx.P.sys_config_tag_size tag + 2 ∧
          cfg_read_populate_buffer slow_reader_ctx s1.fresh_buffer = .ok () s2 ∧
          j < s2.sm_context.cfg_read.last_index ∧
          s2.sm_context.cfg_read.buffer_base.length ≤
            slow_reader_ctx.P.SYSHAL_USB_PACKET_SIZE ∧
          s2.sm_context.cfg_read.buffer_base =
            tag_value_bytes slow_reader_ctx.P s2.sys_config tag ++
              tag_value_stream slow_reader_ctx.P s2.sys_config
                ((slow_reader_ctx.P.sys_config_tags.drop (j + 1)).take
                  (s2.sm_context.cfg_read.last_index - (j + 1)))) :=
  cfg_read_packets_hold_whole_pairs slow_reader_ctx small_packet_schema_ok all_tags_set_state
    (by decide!) rfl rfl all_tags_set_store_ok

/-- The demo of C22 evaluated: with every tag set and packets of 32 bytes, the first packet
holds the pairs of the tags 1 to 9 (30 bytes); the pair of tag 10 needs 3 bytes where 2
are left, `last_index` stays at 9, and the second packet starts with the pair of tag 10
and holds the pairs of the tags 10 to 13 (21 bytes). -/
theorem cfg_read_packets_demo_runs :
    (cfg_read_populate_buffer slow_reader_ctx all_tags_set_state).state.sm_context.cfg_read.buffer_base
      = [1, 0, 1, 2, 0, 0, 0, 0, 0, 3, 0, 1, 4, 0, 1, 5, 0, 1, 6, 0, 1, 7, 0, 1, 8, 0, 1,
         9, 0, 1] ∧
    (cfg_read_populate_buffer slow_reader_ctx
      all_tags_set_state).state.sm_context.cfg_read.last_index = 9 ∧
    (cfg_read_populate_buffer slow_reader_ctx (cfg_read_populate_buffer slow_reader_ctx
      all_tags_set_state).state.fresh_buffer).state.sm_context.cfg_read.buffer_base =
      [10, 0, 1, 11, 0, 1, 0, 0, 0, 12, 0, 1, 0, 0, 0, 13, 0, 1, 0, 0, 0] ∧
    (cfg_read_populate_buffer slow_reader_ctx (cfg_read_populate_buffer slow_reader_ctx
      all_tags_set_state).state.fresh_buffer).state.sm_context.cfg_read.last_index = 13 := by
  decide!

/-! ## CfgErase -/

theorem sys_config_unset_calls_append (a b : List Ev) :
    sys_config_unset_calls (a ++ b) = sys_config_unset_calls a ++ sys_config_unset_calls b := by
  induction a with
  | nil => rfl
  | cons e a ih =>
    cases e <;> simp only [List.cons_append, sys_config_unset_calls] <;>
      first | exact ih | exact congrArg _ ih

theorem sys_config_unset_spec (c : Ctx) (s : State) (tag : Nat) :
    ∃ s1, sys_config_unset tag c s =
        .ok (if tag ∈ c.P.sys_config_tags then SYS_CONFIG_NO_ERROR
          else SYS_CONFIG_ERROR_INVALID_TAG) s1 ∧
      sys_config_unset_calls s1.trace = sys_config_unset_calls s.trace ++ [tag] ∧
      sent_packets s1.trace = sent_packets s.trace ∧
      s1.message_state = s.message_state ∧
      s1.config_if_send_buffer = s.config_if_send_buffer ∧
      s1.config_if_tx_pending = s.config_if_tx_pending ∧
      (tag ∈ c.P.sys_config_tags → (s1.sys_config tag).set = false) ∧
      (∀ t, (s.sys_config t).set = false → (s1.sys_config t).set = false) := by
  unfold sys_config_unset
  by_cases hmem : tag ∈ c.P.sys_config_tags
  · simp only [hmem, if_true]
    refine ⟨_, rfl, ?_, ?_, rfl, rfl, rfl, fun _ => ?_, fun t ht => ?_⟩
    · show sys_config_unset_calls (s.trace ++ [_]) = _
      rw [sys_config_unset_calls_append]
      rfl
    · show sent_packets (s.trace ++ [_]) = _
      rw [sent_packets_append]
      exact List.append_nil _
    · show (if tag = tag then _ else _ : sys_config_entry).set = false
      rw [if_pos rfl]
    · show (if t = tag then _ else _ : sys_config_entry).set = false
      by_cases h : t = tag
      · rw [if_pos h]
      · rw [if_neg h]
        exact ht
  · simp only [hmem, if_false]
    refine ⟨_, rfl, ?_, ?_, rfl, rfl, rfl, fun h => False.elim h, fun t ht => ht⟩
    · show sys_config_unset_calls (s.trace ++ [_]) = _
      rw [sys_config_unset_calls_append]
      rfl
    · show sent_packets (s.trace ++ [_]) = _
      rw [sent_packets_append]
      exact List.append_nil _

theorem cfg_erase_all_loop_spec (c : Ctx) (hcount : c.P.sys_config_tags.length < 65536) :
    ∀ n fuel i s, c.P.sys_config_tags.length - i = n → i ≤ c.P.sys_config_tags.length →
      n + 1 ≤ fuel →
      ∃ s1, cfg_erase_all_loop fuel i c s = .ok () s1 ∧
        sys_config_unset_calls s1.trace =
          sys_config_unset_calls s.trace ++ c.P.sys_config_tags.drop i ∧
        sent_packets s1.trace = sent_packets s.trace ∧
        s1.message_state = s.message_state ∧
        s1.config_if_send_buffer = s.config_if_send_buffer ∧
        s1.config_if_tx_pending = s.config_if_tx_pending ∧
        (∀ t, t ∈ c.P.sys_config_tags.drop i → (s1.sys_config t).set = false) ∧
        (∀ t, (s.sys_config t).set = false → (s1.sys_config t).set = false) := by
  intro n
  induction n with
  | zero =>
    intro fuel i s hn hi hfuel
    have hi2 : i = c.P.sys_config_tags.length := by omega
    cases fuel with
    | zero => omega
    | succ fuel =>
      have hget : c.P.sys_config_tags.get? i = none := by
        rw [List.get?_eq_none]
        omega
      unfold cfg_erase_all_loop
      simp only [bind_apply, getParams, sys_config_iterate, hget, pure_apply]
      refine ⟨s, rfl, ?_, rfl, rfl, rfl, rfl, ?_, fun _ h => h⟩
      · rw [List.drop_eq_nil_of_le (by omega), List.append_nil]
      · intro t ht
        rw [List.drop_eq_nil_of_le (by omega)] at ht
        exact absurd ht (List.not_mem_nil t)
  | succ n ih =>
    intro fuel i s hn hi hfuel
    have hlt : i < c.P.sys_config_tags.length := by omega
    cases fuel with
    | zero => omega
    | succ fuel =>
      obtain ⟨tag, hget⟩ : ∃ tag, c.P.sys_config_tags.get? i = some tag :=
        ⟨_, List.get?_eq_get hlt⟩
      have hdrop := drop_eq_cons_of_get _ i tag hget
      have hmem : tag ∈ c.P.sys_config_tags := List.mem_of_mem_drop (by
        rw [hdrop]
        exact List.mem_cons_self _ _)
      obtain ⟨s0, e0, g1, g2, g3, g4, g5, g6, g7⟩ := sys_config_unset_spec c s tag
      obtain ⟨s1, e1, h1, h2, h3, h4, h5, h6, h7⟩ :=
        ih fuel (i + 1) s0 (by omega) (by omega) (by omega)
      unfold cfg_erase_all_loop
      simp only [bind_apply, getParams, sys_config_iterate, hget, e0, u16_of_lt _ (show
        i + 1 < 65536 by omega), e1]
      refine ⟨s1, rfl, ?_, h2.trans g2, h3.trans g3, h4.trans g4, h5.trans g5, ?_,
        fun t ht => h7 t (g7 t ht)⟩
      · rw [h1, g1, hdrop, List.append_assoc]
        rfl
      · intro t ht
        rw [hdrop] at ht
        rcases List.mem_cons.mp ht with h | h
        · rw [h]
          exact h7 tag (g6 hmem)
        · exact h6 t h

theorem generic_resp_send_spec (c : Ctx) (s : State) (error : cmd_error_t)
    (hq : s.config_if_send_buffer.queue = []) (hpend : s.config_if_tx_pending = false) :
    ∃ s1, (do tx_write_advance (.cmd_generic_resp error); config_if_send_priv : M Unit) c s =
        .ok () s1 ∧
      sent_packets s1.trace = sent_packets s.trace ++ [.cmd_generic_resp error] ∧
      sys_config_unset_calls s1.trace = sys_config_unset_calls s.trace ∧
      s1.message_state = s.message_state ∧ s1.sys_config = s.sys_config := by
  have hsz : ¬ CMD_SIZE c.P.sizeof_cmd_generic_resp_t = 0 := by
    unfold CMD_SIZE CMD_SIZE_HDR; omega
  simp only [bind_apply, tx_write_advance, getParams, modifyState, buffer_write_advance,
    tx_packet.size, hsz, if_false, config_if_send_priv, getState, hpend, Bool.false_eq_true,
    pure_apply, buffer_read_tx, buffer_read, hq, List.nil_append, List.head?_cons, ne_eq,
    not_false_eq_true, if_true, call]
  refine ⟨_, rfl, ?_, ?_, rfl, rfl⟩
  · show sent_packets (s.trace ++ [_]) = _
    rw [sent_packets_append]
    simp only [sent_packets, List.append_nil]
  · show sys_config_unset_calls (s.trace ++ [_]) = _
    rw [sys_config_unset_calls_append]
    exact List.append_nil _

/-- C23: `cfg_erase_req` of sm_main.c, for a request of the right size with the send buffer
free (and fewer than 65536 tags, the range of the 16-bit iteration index). The call
returns and leaves `message_state` as it was (Idle when it was Idle). With the erase-all
tag, `sys_config_unset` is called exactly once for every tag of the configuration, in the
order of `sys_config_iterate`, every tag ends unset and the one response carries NoError.
With any other tag, `sys_config_unset` is called once with that tag; the one response
carries NoError when the tag is known (and the tag ends unset) and InvalidConfigTag when
it is unknown (and the configuration is untouched). -/
theorem cfg_erase_responses (c : Ctx) (s : State) (req : List Nat)
    (hsize : req.length = CMD_SIZE c.P.sizeof_cmd_cfg_erase_req_t)
    (hq : s.config_if_send_buffer.queue = []) (hslots : 0 < s.config_if_send_buffer.slots)
    (hpend : s.config_if_tx_pending = false)
    (hcount : c.P.sys_config_tags.length < 65536) :
    ∃ s1, cfg_erase_req req req.length c s = .ok () s1 ∧
      s1.message_state = s.message_state ∧
      (c.P.CFG_ERASE_REQ_ERASE_ALL = c.P.cmd_cfg_erase_req_configuration_tag req →
        sys_config_unset_calls s1.trace =
          sys_config_unset_calls s.trace ++ c.P.sys_config_tags ∧
        sent_packets s1.trace = sent_packets s.trace ++ [.cmd_generic_resp .CMD_NO_ERROR] ∧
        ∀ t, t ∈ c.P.sys_config_tags → (s1.sys_config t).set = false) ∧
      (c.P.CFG_ERASE_REQ_ERASE_ALL ≠ c.P.cmd_cfg_erase_req_configuration_tag req →
        sys_config_unset_calls s1.trace = sys_config_unset_calls s.trace ++
          [c.P.cmd_cfg_erase_req_configuration_tag req] ∧
        (c.P.cmd_cfg_erase_req_configuration_tag req ∈ c.P.sys_config_tags →
          sent_packets s1.trace =
            sent_packets s.trace ++ [.cmd_generic_resp .CMD_NO_ERROR] ∧
          (s1.sys_config (c.P.cmd_cfg_erase_req_configuration_tag req)).set = false) ∧
        (c.P.cmd_cfg_erase_req_configuration_tag req ∉ c.P.sys_config_tags →
          sent_packets s1.trace =
            sent_packets s.trace ++ [.cmd_generic_resp .CMD_ERROR_INVALID_CONFIG_TAG] ∧
          s1.sys_config = s.sys_config)) := by
  by_cases hall : c.P.CFG_ERASE_REQ_ERASE_ALL = c.P.cmd_cfg_erase_req_configuration_tag req
  · obtain ⟨s0, e0, g1, g2, g3, g4, g5, g6, _⟩ :=
      cfg_erase_all_loop_spec c hcount _ (c.P.sys_config_tags.length + 1) 0 s rfl
        (Nat.zero_le _) (by omega)
    obtain ⟨s1, e1, k1, k2, k3, k4⟩ := generic_resp_send_spec c s0 .CMD_NO_ERROR
      (by rw [g4]; exact hq) (by rw [g5]; exact hpend)
    refine ⟨s1, ?_, k3.trans g3, fun _ => ⟨?_, ?_, ?_⟩, fun h => absurd hall h⟩
    · rw [← e1]
      unfold cfg_erase_req
      simp only [bind_apply, hsize, ne_eq, not_true_eq_false, if_false, pure_apply,
        tx_buffer_write, getState, buffer_write, hq, List.length_nil, hslots, decide_True,
        Bool.not_true, Bool.false_eq_true, getParams, hall, if_true, e0]
    · rw [k2, g1]
      rfl
    · rw [k1, g2]
    · intro t ht
      rw [k4]
      exact g6 t ht
  · obtain ⟨s0, e0, g1, g2, g3, g4, g5, g6, _⟩ :=
      sys_config_unset_spec c s (c.P.cmd_cfg_erase_req_configuration_tag req)
    by_cases hmem : c.P.cmd_cfg_erase_req_configuration_tag req ∈ c.P.sys_config_tags
    · rw [if_pos hmem] at e0
      obtain ⟨s1, e1, k1, k2, k3, k4⟩ := generic_resp_send_spec c s0 .CMD_NO_ERROR
        (by rw [g4]; exact hq) (by rw [g5]; exact hpend)
      refine ⟨s1, ?_, k3.trans g3, fun h => absurd h hall,
        fun _ => ⟨by rw [k2, g1], fun _ => ⟨by rw [k1, g2], ?_⟩, fun h => absurd hmem h⟩⟩
      · rw [← e1]
        unfold cfg_erase_req
        simp only [bind_apply, hsize, ne_eq, not_true_eq_false, if_false, pure_apply,
          tx_buffer_write, getState, buffer_write, hq, List.length_nil, hslots, decide_True,
          Bool.not_true, Bool.false_eq_true, getParams, hall, e0, if_true]
      · rw [k4]
        exact g6 hmem
    · rw [if_neg hmem] at e0
      obtain ⟨s1, e1, k1, k2, k3, k4⟩ :=
        generic_resp_send_spec c s0 .CMD_ERROR_INVALID_CONFIG_TAG
          (by rw [g4]; exact hq) (by rw [g5]; exact hpend)
      have hsc : s0.sys_config = s.sys_config := by
        unfold sys_config_unset at e0
        simp only [hmem, if_false] at e0
        cases e0
        rfl
      refine ⟨s1, ?_, k3.trans g3, fun h => absurd h hall,
        fun _ => ⟨by rw [k2, g1], fun h => absurd h hmem, fun _ => ⟨by rw [k1, g2], ?_⟩⟩⟩
      · rw [← e1]
        unfold cfg_erase_req
        have hne : SYS_CONFIG_ERROR_INVALID_TAG ≠ SYS_CONFIG_NO_ERROR := by decide
        simp only [bind_apply, hsize, ne_eq, not_true_eq_false, if_false, pure_apply,
          tx_buffer_write, getState, buffer_write, hq, List.length_nil, hslots, decide_True,
          Bool.not_true, Bool.false_eq_true, getParams, hall, e0, hne, if_true]
      · rw [k4, hsc]

theorem cfg_erase_responses_witness :
    ∃ s1, cfg_erase_req (cfg_erase_demo_request 65535) (cfg_erase_demo_request 65535).length
        demo_ctx all_tags_set_state = .ok () s1 ∧
      s1.message_state = all_tags_set_state.message_state ∧
      (demo_ctx.P.CFG_ERASE_REQ_ERASE_ALL =
          demo_ctx.P.cmd_cfg_erase_req_configuration_tag (cfg_erase_demo_request 65535) →
        sys_config_unset_calls s1.trace =
          sys_config_unset_calls all_tags_set_state.trace ++ demo_ctx.P.sys_config_tags ∧
        sent_packets s1.trace =
          sent_packets all_tags_set_state.trace ++ [.cmd_generic_resp .CMD_NO_ERROR] ∧
        ∀ t, t ∈ demo_ctx.P.sys_config_tags → (s1.sys_config t).set = false) ∧
      (demo_ctx.P.CFG_ERASE_REQ_ERASE_ALL ≠
          demo_ctx.P.cmd_cfg_erase_req_configuration_tag (cfg_erase_demo_request 65535) →
        sys_config_unset_calls s1.trace = sys_config_unset_calls all_tags_set_state.trace ++
          [demo_ctx.P.cmd_cfg_erase_req_configuration_tag (cfg_erase_demo_request 65535)] ∧
        (demo_ctx.P.cmd_cfg_erase_req_configuration_tag (cfg_erase_demo_request 65535) ∈
            demo_ctx.P.sys_config_tags →
          sent_packets s1.trace =
            sent_packets all_tags_set_state.trace ++ [.cmd_generic_resp .CMD_NO_ERROR] ∧
          (s1.sys_config (demo_ctx.P.cmd_cfg_erase_req_configuration_tag
            (cfg_erase_demo_request 65535))).set = false) ∧
        (demo_ctx.P.cmd_cfg_erase_req_configuration_tag (cfg_erase_demo_request 65535) ∉
            demo_ctx.P.sys_config_tags →
          sent_packets s1.trace = sent_packets all_tags_set_state.trace ++
            [.cmd_generic_resp .CMD_ERROR_INVALID_CONFIG_TAG] ∧
          s1.sys_config = all_tags_set_state.sys_config)) :=
  cfg_erase_responses demo_ctx all_tags_set_state (cfg_erase_demo_request 65535)
    (by decide!) rfl (by decide!) rfl (by decide!)

/-- The three cases of C23 evaluated through `handle_config_if_messages` on a tag whose
configuration is entirely set: erase-all unsets the 44 tags in order and answers NoError;
erasing tag 7 unsets that tag alone and answers NoError; erasing the unknown tag 999
answers InvalidConfigTag; the engine stays in Idle. -/
theorem cfg_erase_demo_runs :
    sent_packets (host_send (cfg_erase_demo_request 65535) demo_ctx
        all_tags_set_state).state.trace = [.cmd_generic_resp .CMD_NO_ERROR] ∧
    sys_config_unset_calls (host_send (cfg_erase_demo_request 65535) demo_ctx
        all_tags_set_state).state.trace = List.range' 1 44 ∧
    (host_send (cfg_erase_demo_request 65535) demo_ctx
        all_tags_set_state).state.message_state = .SM_MESSAGE_STATE_IDLE ∧
    sent_packets (host_send (cfg_erase_demo_request 7) demo_ctx
        all_tags_set_state).state.trace = [.cmd_generic_resp .CMD_NO_ERROR] ∧
    sys_config_unset_calls (host_send (cfg_erase_demo_request 7) demo_ctx
        all_tags_set_state).state.trace = [7] ∧
    ((host_send (cfg_erase_demo_request 7) demo_ctx
        all_tags_set_state).state.sys_config 7).set = false ∧
    ((host_send (cfg_erase_demo_request 7) demo_ctx
        all_tags_set_state).state.sys_config 8).set = true ∧
    sent_packets (host_send (cfg_erase_demo_request 999) demo_ctx
        all_tags_set_state).state.trace = [.cmd_generic_resp .CMD_ERROR_INVALID_CONFIG_TAG] ∧
    sys_config_unset_calls (host_send (cfg_erase_demo_request 999) demo_ctx
        all_tags_set_state).state.trace = [999] ∧
    (host_send (cfg_erase_demo_request 999) demo_ctx
        all_tags_set_state).state.message_state = .SM_MESSAGE_STATE_IDLE := by
  decide!

/-! ## Status -/

/-- C24: a packet of exactly the header size whose command is STATUS_REQ, received in Idle
with the send buffer free, is answered by `status_req` with exactly one packet: the
STATUS_RESP response (its constructor stands for the header written by `CMD_SET_HDR`:
sync word and command id) with error code NoError, the constant
`STM32_FIRMWARE_VERSION`, the 32-bit value returned by `syshal_ble_get_version` and the
constant `SYS_CONFIG_FORMAT_VERSION`; its length is that of the status response; the
request is consumed and `message_state` stays Idle. -/
theorem status_request_response (c : Ctx) (s : State) (req : List Nat)
    (rest : List (List Nat))
    (hrx : s.config_if_receive_buffer.queue = req :: rest)
    (hsize : req.length = CMD_SIZE_HDR)
    (hcmd : c.P.hdr_cmd req = some .CMD_STATUS_REQ)
    (hidle : s.message_state = .SM_MESSAGE_STATE_IDLE)
    (hq : s.config_if_send_buffer.queue = []) (hslots : 0 < s.config_if_send_buffer.slots)
    (hpend : s.config_if_tx_pending = false) :
    ∃ s1, message_idle_state c s = .ok () s1 ∧
      s1.trace = s.trace ++ [Ev.syshal_ble_get_version,
        Ev.config_if_send (.cmd_status_resp .CMD_NO_ERROR c.P.STM32_FIRMWARE_VERSION
          (u32 (c.env.syshal_ble_get_version s.trace)) c.P.SYS_CONFIG_FORMAT_VERSION)
          (CMD_SIZE c.P.sizeof_cmd_status_resp_t)] ∧
      sent_packets s1.trace = sent_packets s.trace ++
        [.cmd_status_resp .CMD_NO_ERROR c.P.STM32_FIRMWARE_VERSION
          (u32 (c.env.syshal_ble_get_version s.trace)) c.P.SYS_CONFIG_FORMAT_VERSION] ∧
      s1.config_if_receive_buffer.queue = rest ∧
      s1.message_state = .SM_MESSAGE_STATE_IDLE := by
  have hsz : ¬ CMD_SIZE c.P.sizeof_cmd_status_resp_t = 0 := by
    unfold CMD_SIZE CMD_SIZE_HDR; omega
  have hlen : ¬ CMD_SIZE_HDR = 0 := by
    unfold CMD_SIZE_HDR; omega
  unfold message_idle_state
  simp only [bind_apply, getParams, getState, buffer_read_rx, buffer_read, hrx, List.head?_cons,
    hlen, ne_eq, not_false_eq_true, if_true, modifyState, hcmd, buffer_read_advance, if_false,
    List.tail_cons, status_req, hsize, not_true_eq_false, pure_apply, tx_buffer_write,
    buffer_write, hq, List.length_nil, hslots, decide_True, Bool.not_true, Bool.false_eq_true,
    ask, tx_write_advance, buffer_write_advance, tx_packet.size, hsz, config_if_send_priv,
    hpend, buffer_read_tx, List.nil_append, call]
  refine ⟨_, rfl, ?_, ?_, rfl, hidle⟩
  · show (s.trace ++ [_]) ++ [_] = _
    rw [List.append_assoc]
    rfl
  · show sent_packets ((s.trace ++ [_]) ++ [_]) = _
    rw [sent_packets_append, sent_packets_append]
    simp only [sent_packets, List.append_nil]

theorem status_request_response_witness :
    ∃ s1, message_idle_state ble_version_ctx status_request_state = .ok () s1 ∧
      s1.trace = status_request_state.trace ++ [Ev.syshal_ble_get_version,
        Ev.config_if_send (.cmd_status_resp .CMD_NO_ERROR ble_version_ctx.P.STM32_FIRMWARE_VERSION
          (u32 (ble_version_ctx.env.syshal_ble_get_version status_request_state.trace))
          ble_version_ctx.P.SYS_CONFIG_FORMAT_VERSION)
          (CMD_SIZE ble_version_ctx.P.sizeof_cmd_status_resp_t)] ∧
      sent_packets s1.trace = sent_packets status_request_state.trace ++
        [.cmd_status_resp .CMD_NO_ERROR ble_version_ctx.P.STM32_FIRMWARE_VERSION
          (u32 (ble_version_ctx.env.syshal_ble_get_version status_request_state.trace))
          ble_version_ctx.P.SYS_CONFIG_FORMAT_VERSION] ∧
      s1.config_if_receive_buffer.queue = [] ∧
      s1.message_state = .SM_MESSAGE_STATE_IDLE :=
  status_request_response ble_version_ctx status_request_state (demo_hdr 13) [] rfl
    (by decide!) (by decide!) rfl rfl (by decide!) rfl

/-- The exchange of C24 evaluated through `handle_config_if_messages`: the 5-byte Status
request is answered with one 17-byte response carrying NoError, firmware version 5, BLE
version 7 and format version 3, and the engine stays in Idle. -/
theorem status_demo_runs :
    (host_send (demo_hdr 13) ble_version_ctx initial_state).state.trace =
      [.syshal_time_get_ticks_ms, .syshal_ble_get_version,
        .config_if_send (.cmd_status_resp .CMD_NO_ERROR 5 7 3) 17,
        .syshal_time_get_ticks_ms] ∧
    (host_send (demo_hdr 13) ble_version_ctx initial_state).state.message_state =
      .SM_MESSAGE_STATE_IDLE ∧
    (demo_hdr 13).length = CMD_SIZE_HDR := by
  decide!

/-! ## LogRead with a wrapping length -/

/-- C30 (code defect): `log_read_req` evaluated against a log file of 1500 bytes. A request
for start offset 1 and length 2000 is clamped: the response carries NoError and announces
1499 bytes. A request with both fields 0 announces the 1500 bytes of the file. A request
for start offset 1 and length 4294967295 makes the 32-bit sum `length + start_offset` wrap
to 0, the test `(length + start_offset) > stat.size` fails and nothing is clamped: the
response carries NoError and announces 4294967295 bytes, so that start offset plus
announced length exceeds the size of the file, and the engine enters LogReadNext with
that length left to send. -/
theorem log_read_req_length_wraps :
    (fs_stat FS_FILE_ID_LOG log_demo_ctx initial_state).value? = some (.FS_NO_ERROR, 1500) ∧
    log_demo_ctx.P.cmd_log_read_req_start_offset log_read_long_request = 1 ∧
    log_demo_ctx.P.cmd_log_read_req_length log_read_long_request = 2000 ∧
    sent_packets (log_read_req log_read_long_request log_read_long_request.length
        log_demo_ctx initial_state).state.trace =
      [.cmd_log_read_resp .CMD_NO_ERROR 1499] ∧
    sent_packets (log_read_req log_read_demo_request log_read_demo_request.length
        log_demo_ctx initial_state).state.trace =
      [.cmd_log_read_resp .CMD_NO_ERROR 1500] ∧
    log_demo_ctx.P.cmd_log_read_req_start_offset log_read_wrapping_request = 1 ∧
    log_demo_ctx.P.cmd_log_read_req_length log_read_wrapping_request = 4294967295 ∧
    sent_packets (log_read_req log_read_wrapping_request log_read_wrapping_request.length
        log_demo_ctx initial_state).state.trace =
      [.cmd_log_read_resp .CMD_NO_ERROR 4294967295] ∧
    1500 < 1 + 4294967295 ∧
    (log_read_req log_read_wrapping_request log_read_wrapping_request.length
        log_demo_ctx initial_state).state.message_state = .SM_MESSAGE_STATE_LOG_READ_NEXT ∧
    (log_read_req log_read_wrapping_request log_read_wrapping_request.length
        log_demo_ctx initial_state).state.sm_context.log_read.length = 4294967295 ∧
    sent_packets (host_send log_read_wrapping_request log_demo_ctx initial_state).state.trace =
      [.cmd_log_read_resp .CMD_NO_ERROR 4294967295] := by
  decide!

/-! ## The boot transition of sm.c -/

theorem sm_iterate_boot_spec (c : Sm.Ctx) (s : Sm.State) (hboot : s.state = .SM_STATE_BOOT) :
    Sm.sm_iterate c s = .ok ()
      { s with
        state := .SM_STATE_STANDBY_PROVISIONING_NEEDED
        pastState := .SM_STATE_STANDBY_PROVISIONING_NEEDED
        trace := s.trace ++ [.syshal_gpio_init .GPIO_LED3, .syshal_gpio_init .GPIO_LED4,
          .syshal_gpio_init .GPIO_LED5, .syshal_gpio_init .GPIO_LED6, .syshal_uart_init .UART_1,
          .syshal_spi_init .SPI_1, .syshal_spi_init .SPI_2, .syshal_i2c_init .I2C_1,
          .syshal_i2c_init .I2C_2, .config_if_init_usb,
          .syshal_gpio_set_output_high .GPIO_LED3] } := by
  unfold Sm.sm_iterate Sm.TryCatch
  have h : (do
      let s ← Sm.getState
      match s.state with
      | .SM_STATE_BOOT => Sm.boot_state
      | .SM_STATE_STANDBY_BATTERY_CHARGING => pure ()
      | .SM_STATE_STANDBY_BATTERY_LEVEL_LOW => pure ()
      | .SM_STATE_STANDBY_LOG_FILE_FULL => pure ()
      | .SM_STATE_STANDBY_PROVISIONING_NEEDED => Sm.standby_provisioning_needed_state
      | .SM_STATE_STANDBY_TRIGGER_PENDING => pure ()
      | .SM_STATE_PROVISIONING => pure ()
      | .SM_STATE_OPERATIONAL => pure () : Sm.M Unit) c s = Sm.boot_state c s := by
    show Sm.M.bind _ _ c s = _
    unfold Sm.M.bind Sm.getState
    simp only [hboot]
  rw [h]
  simp only [Sm.boot_state, Sm.sm_set_state, Sm.call, Sm.modifyState, bind, Sm.M.bind,
    List.append_assoc, List.cons_append, List.nil_append]

/-- C29 (code defect): one `sm_iterate` of sm.c from SM_STATE_BOOT, evaluated on the four
set-ups of the boot tests. With the battery charging the state becomes
STANDBY_PROVISIONING_NEEDED, not STANDBY_BATTERY_CHARGING; with the battery level critical
it becomes STANDBY_PROVISIONING_NEEDED, not STANDBY_BATTERY_LEVEL_LOW; with the battery
full and every tag set it becomes STANDBY_PROVISIONING_NEEDED, not OPERATIONAL; with the
battery full and no tag set it becomes STANDBY_PROVISIONING_NEEDED. In each run the call
returns and the calls made are the eleven of `boot_state`: neither
`syshal_batt_charging` nor `syshal_batt_state` nor the configuration is queried. -/
theorem sm_iterate_from_boot_always_provisioning_needed :
    (Sm.sm_iterate (Sm.boot_ctx true Sm.POWER_SUPPLY_CAPACITY_LEVEL_FULL true)
        Sm.boot).state.state = .SM_STATE_STANDBY_PROVISIONING_NEEDED ∧
    (Sm.sm_iterate (Sm.boot_ctx false Sm.POWER_SUPPLY_CAPACITY_LEVEL_CRITICAL true)
        Sm.boot).state.state = .SM_STATE_STANDBY_PROVISIONING_NEEDED ∧
    (Sm.sm_iterate (Sm.boot_ctx false Sm.POWER_SUPPLY_CAPACITY_LEVEL_FULL true)
        Sm.boot).state.state = .SM_STATE_STANDBY_PROVISIONING_NEEDED ∧
    (Sm.sm_iterate (Sm.boot_ctx false Sm.POWER_SUPPLY_CAPACITY_LEVEL_FULL false)
        Sm.boot).state.state = .SM_STATE_STANDBY_PROVISIONING_NEEDED ∧
    (Sm.sm_iterate (Sm.boot_ctx true Sm.POWER_SUPPLY_CAPACITY_LEVEL_FULL true)
        Sm.boot).returned = true ∧
    (Sm.sm_iterate (Sm.boot_ctx true Sm.POWER_SUPPLY_CAPACITY_LEVEL_FULL true)
        Sm.boot).state.trace =
      [.syshal_gpio_init .GPIO_LED3, .syshal_gpio_init .GPIO_LED4,
        .syshal_gpio_init .GPIO_LED5, .syshal_gpio_init .GPIO_LED6, .syshal_uart_init .UART_1,
        .syshal_spi_init .SPI_1, .syshal_spi_init .SPI_2, .syshal_i2c_init .I2C_1,
        .syshal_i2c_init .I2C_2, .config_if_init_usb,
        .syshal_gpio_set_output_high .GPIO_LED3] ∧
    (Sm.boot_ctx true Sm.POWER_SUPPLY_CAPACITY_LEVEL_FULL true).env.syshal_batt_charging
      [] = true ∧
    (Sm.boot_ctx false Sm.POWER_SUPPLY_CAPACITY_LEVEL_CRITICAL true).env.syshal_batt_state
      [] = Sm.POWER_SUPPLY_CAPACITY_LEVEL_CRITICAL := by
  decide!

/-! # The file system -/

namespace Fs

theorem fs_format_sector (cfg : Cfg) (s : State) (i : Nat)
    (hi : i < cfg.FS_PRIV_MAX_SECTORS) :
    (fs_format cfg s).2.sectors i =
      Sector.free_header (u32 ((s.sectors i).allocation_counter + 1)) := by
  show (if i < cfg.FS_PRIV_MAX_SECTORS then _ else _) = _
  rw [if_pos hi]

/-- C26: `fs_format` returns NoError and, for every sector of the device, leaves the sector
free (file id `0xFF`, no next sector, no session record, no data) with an allocation
counter equal to its previous value plus 1 modulo 2^32; so a sector of erased flash, whose
counter reads `0xFFFFFFFF`, has the counter 0 after one format, 1 after two and 2 after
three. -/
theorem fs_format_preserves_wear (cfg : Cfg) (s : State) (i : Nat)
    (hi : i < cfg.FS_PRIV_MAX_SECTORS) :
    (fs_format cfg s).1 = .FS_NO_ERROR ∧
    ((fs_format cfg s).2.sectors i).file_id = FS_FILE_ID_NONE ∧
    ((fs_format cfg s).2.sectors i).allocation_counter =
      ((s.sectors i).allocation_counter + 1) % 2 ^ 32 ∧
    ((fs_format cfg s).2.sectors i).next_sector = FS_PRIV_NOT_ALLOCATED ∧
    ((fs_format cfg s).2.sectors i).session_records = [] ∧
    ((fs_format cfg s).2.sectors i).data = [] ∧
    ((s.sectors i).allocation_counter = 4294967295 →
      ((fs_format cfg s).2.sectors i).allocation_counter = 0 ∧
      ((fs_format cfg (fs_format cfg s).2).2.sectors i).allocation_counter = 1 ∧
      ((fs_format cfg (fs_format cfg (fs_format cfg s).2).2).2.sectors i).allocation_counter
        = 2) := by
  have h1 := fs_format_sector cfg s i hi
  have h2 := fs_format_sector cfg (fs_format cfg s).2 i hi
  have h3 := fs_format_sector cfg (fs_format cfg (fs_format cfg s).2).2 i hi
  have e0 : ∀ c, (Sector.free_header c).allocation_counter = c := fun _ => rfl
  refine ⟨rfl, by rw [h1]; rfl, by rw [h1, e0]; rfl, by rw [h1]; rfl, by rw [h1]; rfl,
    by rw [h1]; rfl, fun h => ?_⟩
  rw [h3, h2, h1, e0, e0, e0, h]
  unfold u32 U32_MOD
  norm_num

theorem fs_format_preserves_wear_witness :
    (fs_format small_cfg erased_device).1 = .FS_NO_ERROR ∧
    ((fs_format small_cfg erased_device).2.sectors 3).file_id = FS_FILE_ID_NONE ∧
    ((fs_format small_cfg erased_device).2.sectors 3).allocation_counter =
      ((erased_device.sectors 3).allocation_counter + 1) % 2 ^ 32 ∧
    ((fs_format small_cfg erased_device).2.sectors 3).next_sector = FS_PRIV_NOT_ALLOCATED ∧
    ((fs_format small_cfg erased_device).2.sectors 3).session_records = [] ∧
    ((fs_format small_cfg erased_device).2.sectors 3).data = [] ∧
    ((erased_device.sectors 3).allocation_counter = 4294967295 →
      ((fs_format small_cfg erased_device).2.sectors 3).allocation_counter = 0 ∧
      ((fs_format small_cfg (fs_format small_cfg erased_device).2).2.sectors
        3).allocation_counter = 1 ∧
      ((fs_format small_cfg (fs_format small_cfg (fs_format small_cfg
        erased_device).2).2).2.sectors 3).allocation_counter = 2) :=
  fs_format_preserves_wear small_cfg erased_device 3 (by decide)

/-- The test FormatPreservesAllocationCounter on the small geometry: three successive
formats of erased flash leave every counter at 0, then 1, then 2, and a worn counter of
4294967294 goes to 4294967295 and then wraps to 0. -/
theorem fs_format_demo_runs :
    counters small_cfg (fs_format small_cfg erased_device).2 = [0, 0, 0, 0, 0, 0, 0, 0] ∧
    counters small_cfg (fs_format small_cfg (fs_format small_cfg erased_device).2).2 =
      [1, 1, 1, 1, 1, 1, 1, 1] ∧
    counters small_cfg (fs_format small_cfg (fs_format small_cfg (fs_format small_cfg
      erased_device).2).2).2 = [2, 2, 2, 2, 2, 2, 2, 2] ∧
    counters small_cfg (fs_format small_cfg (worn_device [4294967294, 7])).2 =
      [4294967295, 8, 0, 0, 0, 0, 0, 0] ∧
    counters small_cfg (fs_format small_cfg (fs_format small_cfg
      (worn_device [4294967294, 7])).2).2 = [0, 9, 1, 1, 1, 1, 1, 1] := by
  decide!

end Fs

namespace Fs

/-- The step of `find_free`. -/
theorem find_free_fold (s : State) (n : Nat) :
    let r := (List.range n).foldl (fun best i =>
      if (s.sectors i).file_id = FS_FILE_ID_NONE then
        match best with
        | none => some i
        | some b =>
          if (s.sectors i).allocation_counter < (s.sectors b).allocation_counter then some i
          else some b
      else best) none
    (r = none → ∀ i, i < n → (s.sectors i).file_id ≠ FS_FILE_ID_NONE) ∧
    (∀ j, r = some j → j < n ∧ (s.sectors j).file_id = FS_FILE_ID_NONE ∧
      ∀ i, i < n → (s.sectors i).file_id = FS_FILE_ID_NONE →
        (s.sectors j).allocation_counter < (s.sectors i).allocation_counter ∨
        ((s.sectors j).allocation_counter = (s.sectors i).allocation_counter ∧ j ≤ i)) := by
  induction n with
  | zero =>
    intro r
    refine ⟨fun _ i hi => absurd hi (Nat.not_lt_zero i), fun j hj => ?_⟩
    simp only [r, List.range_zero, List.foldl_nil] at hj
    cases hj
  | succ n ih =>
    intro r
    obtain ⟨ih1, ih2⟩ := ih
    simp only [r, List.range_succ, List.foldl_append, List.foldl_cons, List.foldl_nil]
    generalize (List.range n).foldl (fun best i =>
      if (s.sectors i).file_id = FS_FILE_ID_NONE then
        match best with
        | none => some i
        | some b =>
          if (s.sectors i).allocation_counter < (s.sectors b).allocation_counter then some i
          else some b
      else best) none = r0 at ih1 ih2
    by_cases hfree : (s.sectors n).file_id = FS_FILE_ID_NONE
    · rw [if_pos hfree]
      cases r0 with
      | none =>
        refine ⟨fun h => (by cases h), fun j hj => ?_⟩
        simp only [Option.some.injEq] at hj
        subst hj
        refine ⟨Nat.lt_succ_self _, hfree, fun i hi hfi => ?_⟩
        rcases Nat.lt_succ_iff_lt_or_eq.mp hi with h | h
        · exact absurd hfi (ih1 rfl i h)
        · subst h
          exact Or.inr ⟨rfl, Nat.le_refl _⟩
      | some b =>
        obtain ⟨hb1, hb2, hb3⟩ := ih2 b rfl
        by_cases hlt : (s.sectors n).allocation_counter < (s.sectors b).allocation_counter
        · simp only [hlt, if_true]
          refine ⟨fun h => (by cases h), fun j hj => ?_⟩
          simp only [Option.some.injEq] at hj
          subst hj
          refine ⟨Nat.lt_succ_self _, hfree, fun i hi hfi => ?_⟩
          rcases Nat.lt_succ_iff_lt_or_eq.mp hi with h | h
          · rcases hb3 i h hfi with h3 | ⟨h3, _⟩
            · exact Or.inl (Nat.lt_trans hlt h3)
            · exact Or.inl (h3 ▸ hlt)
          · subst h
            exact Or.inr ⟨rfl, Nat.le_refl _⟩
        · simp only [hlt, if_false]
          refine ⟨fun h => (by cases h), fun j hj => ?_⟩
          simp only [Option.some.injEq] at hj
          subst hj
          refine ⟨Nat.lt_succ_of_lt hb1, hb2, fun i hi hfi => ?_⟩
          rcases Nat.lt_succ_iff_lt_or_eq.mp hi with h | h
          · exact hb3 i h hfi
          · subst h
            rcases Nat.lt_or_ge (s.sectors b).allocation_counter
              (s.sectors i).allocation_counter with h4 | h4
            · exact Or.inl h4
            · exact Or.inr ⟨by omega, Nat.le_of_lt hb1⟩
    · rw [if_neg hfree]
      refine ⟨fun h i hi => ?_, fun j hj => ?_⟩
      · rcases Nat.lt_succ_iff_lt_or_eq.mp hi with h1 | h1
        · exact ih1 h i h1
        · subst h1
          exact hfree
      · obtain ⟨hb1, hb2, hb3⟩ := ih2 j hj
        refine ⟨Nat.lt_succ_of_lt hb1, hb2, fun i hi hfi => ?_⟩
        rcases Nat.lt_succ_iff_lt_or_eq.mp hi with h | h
        · exact hb3 i h hfi
        · subst h
          exact absurd hfi hfree

/-- The sector `find_free` returns is free and has the least wear counter among the free
sectors, with the lowest index among those of that counter. -/
theorem find_free_some (cfg : Cfg) (s : State) (j : Nat) (h : find_free cfg s = some j) :
    j < cfg.FS_PRIV_MAX_SECTORS ∧ (s.sectors j).file_id = FS_FILE_ID_NONE ∧
      ∀ i, i < cfg.FS_PRIV_MAX_SECTORS → (s.sectors i).file_id = FS_FILE_ID_NONE →
        (s.sectors j).allocation_counter < (s.sectors i).allocation_counter ∨
        ((s.sectors j).allocation_counter = (s.sectors i).allocation_counter ∧ j ≤ i) :=
  (find_free_fold s cfg.FS_PRIV_MAX_SECTORS).2 j h

theorem find_free_none (cfg : Cfg) (s : State) (h : find_free cfg s = none) :
    ∀ i, i < cfg.FS_PRIV_MAX_SECTORS → (s.sectors i).file_id ≠ FS_FILE_ID_NONE :=
  (find_free_fold s cfg.FS_PRIV_MAX_SECTORS).1 h

theorem find_free_exists (cfg : Cfg) (s : State) (i : Nat) (hi : i < cfg.FS_PRIV_MAX_SECTORS)
    (hfree : (s.sectors i).file_id = FS_FILE_ID_NONE) :
    ∃ j, find_free cfg s = some j := by
  cases h : find_free cfg s with
  | none => exact absurd hfree (find_free_none cfg s h i hi)
  | some j => exact ⟨j, rfl⟩

end Fs

namespace Fs

theorem wear_rank_eq_card (cfg : Cfg) (s : State) (j : Nat) :
    wear_rank cfg s j =
      ((Finset.range cfg.FS_PRIV_MAX_SECTORS).filter fun k => wears_before s k j = true).card := by
  unfold wear_rank
  have h : ((Finset.range cfg.FS_PRIV_MAX_SECTORS).filter fun k => wears_before s k j = true) =
      ((List.range cfg.FS_PRIV_MAX_SECTORS).filter fun k => wears_before s k j).toFinset := by
    ext x
    simp only [Finset.mem_filter, Finset.mem_range, List.mem_toFinset, List.mem_filter,
      List.mem_range]
  rw [h, List.toFinset_card_of_nodup]
  exact (List.nodup_range _).filter _

theorem wears_before_trans (s : State) (a b c : Nat) (h1 : wears_before s a b = true)
    (h2 : wears_before s b c = true) : wears_before s a c = true := by
  unfold wears_before at *
  simp only [decide_eq_true_eq] at *
  omega

theorem wears_before_irrefl (s : State) (a : Nat) : wears_before s a a = false := by
  unfold wears_before
  simp only [decide_eq_false_iff_not]
  omega

theorem wears_before_total (s : State) (a b : Nat) (h : a ≠ b) :
    wears_before s a b = true ∨ wears_before s b a = true := by
  unfold wears_before
  simp only [decide_eq_true_eq]
  omega

theorem wear_rank_lt_of_before (cfg : Cfg) (s : State) (k j : Nat)
    (hk : k < cfg.FS_PRIV_MAX_SECTORS) (h : wears_before s k j = true) :
    wear_rank cfg s k < wear_rank cfg s j := by
  rw [wear_rank_eq_card, wear_rank_eq_card]
  apply Finset.card_lt_card
  rw [Finset.ssubset_iff_of_subset]
  · refine ⟨k, ?_, ?_⟩
    · rw [Finset.mem_filter, Finset.mem_range]
      exact ⟨hk, h⟩
    · rw [Finset.mem_filter, wears_before_irrefl]
      intro h2
      cases h2.2
  · intro x hx
    rw [Finset.mem_filter] at hx ⊢
    exact ⟨hx.1, wears_before_trans s x k j hx.2 h⟩

theorem wear_rank_injective (cfg : Cfg) (s : State) (a b : Nat)
    (ha : a < cfg.FS_PRIV_MAX_SECTORS) (hb : b < cfg.FS_PRIV_MAX_SECTORS)
    (h : wear_rank cfg s a = wear_rank cfg s b) : a = b := by
  by_contra hne
  rcases wears_before_total s a b hne with h1 | h1
  · have := wear_rank_lt_of_before cfg s a b ha h1
    omega
  · have := wear_rank_lt_of_before cfg s b a hb h1
    omega

/-- A set of sectors whose ranks all lie below `m` has at most `m` members. -/
theorem card_le_of_rank_lt (cfg : Cfg) (s : State) (S : Finset Nat) (m : Nat)
    (hS : ∀ x, x ∈ S → x < cfg.FS_PRIV_MAX_SECTORS ∧ wear_rank cfg s x < m) :
    S.card ≤ m := by
  have h := Finset.card_le_card_of_injOn (s := S) (t := Finset.range m) (wear_rank cfg s)
    (fun x hx => Finset.mem_range.mpr (hS x hx).2)
    (fun a ha b hb hab => wear_rank_injective cfg s a b (hS a ha).1 (hS b hb).1 hab)
  rwa [Finset.card_range] at h

theorem wear_rank_lt (cfg : Cfg) (s : State) (j : Nat) (hj : j < cfg.FS_PRIV_MAX_SECTORS) :
    wear_rank cfg s j < cfg.FS_PRIV_MAX_SECTORS := by
  rw [wear_rank_eq_card]
  have h : ((Finset.range cfg.FS_PRIV_MAX_SECTORS).filter fun k => wears_before s k j = true) ⊂
      Finset.range cfg.FS_PRIV_MAX_SECTORS := by
    rw [Finset.ssubset_iff_of_subset (Finset.filter_subset _ _)]
    refine ⟨j, Finset.mem_range.mpr hj, ?_⟩
    rw [Finset.mem_filter, wears_before_irrefl]
    intro h2
    cases h2.2
  have h2 := Finset.card_lt_card h
  rwa [Finset.card_range] at h2

/-- Some sector has a rank of at least `m`, for every `m` below the number of sectors. -/
theorem exists_rank_ge (cfg : Cfg) (s : State) (m : Nat) (hm : m < cfg.FS_PRIV_MAX_SECTORS) :
    ∃ x, x < cfg.FS_PRIV_MAX_SECTORS ∧ m ≤ wear_rank cfg s x := by
  by_contra hcon
  have h := card_le_of_rank_lt cfg s (Finset.range cfg.FS_PRIV_MAX_SECTORS) m (fun x hx => by
    have hx2 := Finset.mem_range.mp hx
    refine ⟨hx2, ?_⟩
    by_contra h3
    exact hcon ⟨x, hx2, by omega⟩)
  rw [Finset.card_range] at h
  omega

end Fs

namespace Fs

theorem find_root_none (cfg : Cfg) (s : State) (f : Nat)
    (h : ∀ i, i < cfg.FS_PRIV_MAX_SECTORS → (s.sectors i).file_id ≠ f) :
    find_root cfg s f = none := by
  unfold find_root
  split
  · rfl
  · rw [List.find?_eq_none]
    intro i hi
    have hi2 := List.mem_range.mp hi
    simp only [Bool.and_eq_true, decide_eq_true_eq, not_and]
    intro h2
    exact absurd h2 (h i hi2)

theorem free_handle_spec (cfg : Cfg) (s : State) (h0 : Nat)
    (h0lt : h0 < cfg.FS_PRIV_MAX_HANDLES) (hnone : s.handles h0 = none) :
    ∃ h, free_handle cfg s = some h ∧ h < cfg.FS_PRIV_MAX_HANDLES ∧ s.handles h = none := by
  unfold free_handle
  cases hf : (List.range cfg.FS_PRIV_MAX_HANDLES).find? fun h => (s.handles h).isNone with
  | none =>
    rw [List.find?_eq_none] at hf
    have := hf h0 (List.mem_range.mpr h0lt)
    rw [hnone] at this
    exact absurd rfl this
  | some h =>
    refine ⟨h, rfl, List.mem_range.mp (List.mem_of_find?_eq_some hf), ?_⟩
    have := List.find?_some hf
    exact Option.isNone_iff_eq_none.mp this

theorem fs_open_create_spec (cfg : Cfg) (s : State) (f uf h j : Nat)
    (hf : f ≠ FS_FILE_ID_NONE) (hroot : find_root cfg s f = none)
    (hh : free_handle cfg s = some h) (hj : find_free cfg s = some j) :
    fs_open cfg s f .FS_MODE_CREATE uf =
      (.FS_NO_ERROR,
        (s.allocate j f (make_flags uf false)).set_handle h
          (some (Handle.opened f .FS_MODE_CREATE j j 0)),
        h, uf % 64) := by
  unfold fs_open
  simp only [hroot, hf, if_false, hh, hj]
  rfl

/-- Every successful `fs_open` in Create mode takes a sector that was free and that has the
least counter among the free sectors (lowest index among equals); that sector receives
the file id and the incremented counter and no other sector changes. -/
theorem fs_open_create_allocates (cfg : Cfg) (s s1 : State) (f uf h fl : Nat)
    (hopen : fs_open cfg s f .FS_MODE_CREATE uf = (.FS_NO_ERROR, s1, h, fl)) :
    ∃ j, j < cfg.FS_PRIV_MAX_SECTORS ∧ (s.sectors j).file_id = FS_FILE_ID_NONE ∧
      (∀ i, i < cfg.FS_PRIV_MAX_SECTORS → (s.sectors i).file_id = FS_FILE_ID_NONE →
        (s.sectors j).allocation_counter < (s.sectors i).allocation_counter ∨
        ((s.sectors j).allocation_counter = (s.sectors i).allocation_counter ∧ j ≤ i)) ∧
      (s1.sectors j).file_id = f ∧
      (s1.sectors j).allocation_counter = u32 ((s.sectors j).allocation_counter + 1) ∧
      (∀ i, i ≠ j → s1.sectors i = s.sectors i) ∧
      ∃ hd, s1.handles h = some hd ∧ hd.root = j ∧ hd.current = j := by
  unfold fs_open at hopen
  simp only at hopen
  cases hroot : find_root cfg s f with
  | some r =>
    rw [hroot] at hopen
    cases hopen
  | none =>
    rw [hroot] at hopen
    simp only at hopen
    by_cases hf : f = FS_FILE_ID_NONE
    · rw [if_pos hf] at hopen
      cases hopen
    · rw [if_neg hf] at hopen
      cases hh : free_handle cfg s with
      | none =>
        rw [hh] at hopen
        cases hopen
      | some h1 =>
        rw [hh] at hopen
        simp only at hopen
        cases hj : find_free cfg s with
        | none =>
          rw [hj] at hopen
          cases hopen
        | some j =>
          rw [hj] at hopen
          simp only [Prod.mk.injEq, true_and] at hopen
          obtain ⟨e1, e2, _⟩ := hopen
          obtain ⟨g1, g2, g3⟩ := find_free_some cfg s j hj
          subst e1 e2
          refine ⟨j, g1, g2, g3, ?_, ?_, fun i hi => ?_,
            Handle.opened f .FS_MODE_CREATE j j 0, ?_, rfl, rfl⟩
          · show (if j = j then _ else _ : Sector).file_id = f
            rw [if_pos rfl]
          · show (if j = j then _ else _ : Sector).allocation_counter = _
            rw [if_pos rfl]
          · show (if i = j then _ else _ : Sector) = _
            rw [if_neg hi]
          · show (if h1 = h1 then _ else _ : Option Handle) = _
            rw [if_pos rfl]

end Fs

namespace Fs

theorem fs_close_clean (cfg : Cfg) (s : State) (h : Nat) (hd : Handle)
    (hh : s.handles h = some hd) (hu : hd.unflushed = 0) :
    fs_close cfg s h = (.FS_NO_ERROR, s.set_handle h none) := by
  unfold fs_close flush
  simp only [hh, hu, if_true]

theorem create_files_step (cfg : Cfg) (s0 s : State) (first : Nat)
    (hN : cfg.FS_PRIV_MAX_SECTORS ≤ 255) (hH : 0 < cfg.FS_PRIV_MAX_HANDLES)
    (hfree0 : ∀ i, i < cfg.FS_PRIV_MAX_SECTORS → (s0.sectors i).file_id = FS_FILE_ID_NONE)
    (hfirst : first < cfg.FS_PRIV_MAX_SECTORS) (inv : created_inv cfg s0 s first) :
    (fs_open cfg s first .FS_MODE_CREATE 7).1 = .FS_NO_ERROR ∧
    created_inv cfg s0
      (fs_close cfg (fs_open cfg s first .FS_MODE_CREATE 7).2.1
        (fs_open cfg s first .FS_MODE_CREATE 7).2.2.1).2 (first + 1) := by
  have hrank_free : ∀ x, x < cfg.FS_PRIV_MAX_SECTORS →
      ((s.sectors x).file_id = FS_FILE_ID_NONE ↔ first ≤ wear_rank cfg s0 x) := by
    intro x hx
    constructor
    · intro hfx
      by_contra hlt
      have := inv.placed x hx (by omega)
      rw [hfx] at this
      have := wear_rank_lt cfg s0 x hx
      unfold FS_FILE_ID_NONE at *
      omega
    · intro hge
      rw [inv.untouched x hx hge]
      exact hfree0 x hx
  have hf : first ≠ FS_FILE_ID_NONE := by
    unfold FS_FILE_ID_NONE; omega
  have hroot : find_root cfg s first = none := by
    apply find_root_none
    intro i hi
    by_cases hlt : wear_rank cfg s0 i < first
    · rw [inv.placed i hi hlt]
      omega
    · rw [inv.untouched i hi (by omega), hfree0 i hi]
      exact Ne.symm hf
  obtain ⟨h, hh, _, _⟩ := free_handle_spec cfg s 0 hH (inv.closed 0)
  obtain ⟨x, hx, hxr⟩ := exists_rank_ge cfg s0 first hfirst
  obtain ⟨j, hj⟩ := find_free_exists cfg s x hx ((hrank_free x hx).mpr hxr)
  obtain ⟨g1, g2, g3⟩ := find_free_some cfg s j hj
  have hjge : first ≤ wear_rank cfg s0 j := (hrank_free j g1).mp g2
  have hjle : wear_rank cfg s0 j ≤ first := by
    rw [wear_rank_eq_card]
    apply card_le_of_rank_lt cfg s0
    intro k hk
    rw [Finset.mem_filter, Finset.mem_range] at hk
    refine ⟨hk.1, ?_⟩
    by_contra hge
    have hkfree : (s.sectors k).file_id = FS_FILE_ID_NONE := (hrank_free k hk.1).mpr (by omega)
    have hmin := g3 k hk.1 hkfree
    rw [inv.untouched j g1 hjge, inv.untouched k hk.1 (by omega)] at hmin
    have hb := hk.2
    unfold wears_before at hb
    simp only [decide_eq_true_eq] at hb
    omega
  have hjr : wear_rank cfg s0 j = first := by omega
  rw [fs_open_create_spec cfg s first 7 h j hf hroot hh hj]
  refine ⟨rfl, ?_⟩
  rw [fs_close_clean cfg _ h (Handle.opened first .FS_MODE_CREATE j j 0)
    (by show (if h = h then _ else _ : Option Handle) = _; rw [if_pos rfl]) rfl]
  refine ⟨fun i hi hlt => ?_, fun i hi hge => ?_, fun k => ?_⟩
  · show (if i = j then _ else _ : Sector).file_id = _
    by_cases hij : i = j
    · rw [if_pos hij, hij, hjr]
    · rw [if_neg hij]
      apply inv.placed i hi
      have : wear_rank cfg s0 i ≠ wear_rank cfg s0 j :=
        fun e => hij (wear_rank_injective cfg s0 i j hi g1 e)
      omega
  · show (if i = j then _ else _ : Sector) = _
    have hij : i ≠ j := by
      intro e
      rw [e] at hge
      omega
    rw [if_neg hij]
    exact inv.untouched i hi (by omega)
  · show (if k = h then _ else (if k = h then _ else _) : Option Handle) = none
    by_cases hk : k = h
    · rw [if_pos hk]
    · rw [if_neg hk, if_neg hk]
      exact inv.closed k

theorem create_files_spec (cfg : Cfg) (s0 : State)
    (hN : cfg.FS_PRIV_MAX_SECTORS ≤ 255) (hH : 0 < cfg.FS_PRIV_MAX_HANDLES)
    (hfree0 : ∀ i, i < cfg.FS_PRIV_MAX_SECTORS → (s0.sectors i).file_id = FS_FILE_ID_NONE) :
    ∀ count first s, first + count = cfg.FS_PRIV_MAX_SECTORS → created_inv cfg s0 s first →
      created_inv cfg s0 (create_files cfg count first s) cfg.FS_PRIV_MAX_SECTORS := by
  intro count
  induction count with
  | zero =>
    intro first s hsum inv
    have e : first = cfg.FS_PRIV_MAX_SECTORS := by omega
    rw [← e]
    exact inv
  | succ count ih =>
    intro first s hsum inv
    unfold create_files
    exact ih (first + 1) _ (by omega)
      (create_files_step cfg s0 s first hN hH hfree0 (by omega) inv).2

end Fs

namespace Fs

/-- C25: wear-levelled allocation. Every `fs_open` in Create mode that returns NoError has
taken a sector that was free and whose allocation counter is the smallest among the free
sectors, the lowest index winning ties; that sector carries the file id afterwards, its
counter is incremented and no other sector is changed. So on a device of at most 255
sectors that are all free, with arbitrary counters, and with no handle open, creating
(and closing) the files 0, 1, ... up to the number of sectors, in order, leaves in every
sector the file whose number is the rank of the sector's counter: the number of sectors
with a smaller counter, or with the same counter and a lower index. -/
theorem wear_levelled_allocation (cfg : Cfg) (s0 : State)
    (hN : cfg.FS_PRIV_MAX_SECTORS ≤ 255) (hH : 0 < cfg.FS_PRIV_MAX_HANDLES)
    (hfree0 : ∀ i, i < cfg.FS_PRIV_MAX_SECTORS → (s0.sectors i).file_id = FS_FILE_ID_NONE)
    (hclosed : ∀ h, s0.handles h = none) :
    (∀ (s s1 : State) (f uf h fl : Nat),
      fs_open cfg s f .FS_MODE_CREATE uf = (.FS_NO_ERROR, s1, h, fl) →
      ∃ j, j < cfg.FS_PRIV_MAX_SECTORS ∧ (s.sectors j).file_id = FS_FILE_ID_NONE ∧
        (∀ i, i < cfg.FS_PRIV_MAX_SECTORS → (s.sectors i).file_id = FS_FILE_ID_NONE →
          (s.sectors j).allocation_counter < (s.sectors i).allocation_counter ∨
          ((s.sectors j).allocation_counter = (s.sectors i).allocation_counter ∧ j ≤ i)) ∧
        (s1.sectors j).file_id = f ∧
        (s1.sectors j).allocation_counter = u32 ((s.sectors j).allocation_counter + 1) ∧
        (∀ i, i ≠ j → s1.sectors i = s.sectors i) ∧
        ∃ hd, s1.handles h = some hd ∧ hd.root = j ∧ hd.current = j) ∧
    (∀ j, j < cfg.FS_PRIV_MAX_SECTORS →
      ((create_files cfg cfg.FS_PRIV_MAX_SECTORS 0 s0).sectors j).file_id =
        wear_rank cfg s0 j) := by
  refine ⟨fun s s1 f uf h fl hopen => fs_open_create_allocates cfg s s1 f uf h fl hopen,
    fun j hj => ?_⟩
  have inv0 : created_inv cfg s0 s0 0 :=
    ⟨fun _ _ h => absurd h (Nat.not_lt_zero _), fun _ _ _ => rfl, hclosed⟩
  have inv := create_files_spec cfg s0 hN hH hfree0 cfg.FS_PRIV_MAX_SECTORS 0 s0
    (Nat.zero_add _) inv0
  exact inv.placed j hj (wear_rank_lt cfg s0 j hj)

theorem wear_levelled_allocation_witness :
    ((create_files small_cfg small_cfg.FS_PRIV_MAX_SECTORS 0
        (worn_device [10, 3, 7, 1, 5, 12, 0, 9])).sectors 6).file_id =
      wear_rank small_cfg (worn_device [10, 3, 7, 1, 5, 12, 0, 9]) 6 :=
  (wear_levelled_allocation small_cfg (worn_device [10, 3, 7, 1, 5, 12, 0, 9]) (by decide)
    (by decide) (fun _ _ => rfl) (fun _ => rfl)).2 6 (by decide)

/-- Scenario E5 evaluated: with the counters 10, 3, 7, 1, 5, 12, 0, 9 the eight files
created in order land in the sectors 6, 3, 1, 4, 2, 7, 0, 5 (sector 0 holds file 6, sector
1 file 2, ...), and each sector taken has its counter incremented; with equal counters the
files fill the sectors in index order. -/
theorem wear_levelling_demo_runs :
    file_ids small_cfg (create_files small_cfg 8 0 (worn_device [10, 3, 7, 1, 5, 12, 0, 9])) =
      [6, 2, 4, 1, 3, 7, 0, 5] ∧
    (List.range 8).map (wear_rank small_cfg (worn_device [10, 3, 7, 1, 5, 12, 0, 9])) =
      [6, 2, 4, 1, 3, 7, 0, 5] ∧
    counters small_cfg (create_files small_cfg 8 0 (worn_device [10, 3, 7, 1, 5, 12, 0, 9])) =
      [11, 4, 8, 2, 6, 13, 1, 10] ∧
    file_ids small_cfg (create_files small_cfg 3 0 (worn_device [4, 4, 2, 4, 2, 4, 4, 4])) =
      [2, 255, 0, 255, 1, 255, 255, 255] ∧
    file_ids small_cfg (create_files small_cfg 8 0 (fs_format small_cfg erased_device).2) =
      [0, 1, 2, 3, 4, 5, 6, 7] ∧
    (fs_open small_cfg (create_files small_cfg 8 0 (fs_format small_cfg erased_device).2) 65
      .FS_MODE_CREATE 7).1 = .FS_ERROR_FILESYSTEM_FULL := by
  decide!

end Fs
namespace Fs

theorem content_nil (sec : Nat → Sector) : content sec [] = [] := rfl

theorem content_cons (sec : Nat → Sector) (a : Nat) (l : List Nat) :
    content sec (a :: l) = (sec a).live_data ++ content sec l := by
  unfold content
  rw [List.map_cons, List.flatten_cons]

theorem content_append (sec : Nat → Sector) (l1 l2 : List Nat) :
    content sec (l1 ++ l2) = content sec l1 ++ content sec l2 := by
  unfold content
  rw [List.map_append, List.flatten_append]

theorem content_congr (sec1 sec2 : Nat → Sector) (l : List Nat)
    (h : ∀ i, i ∈ l → (sec1 i).live_data = (sec2 i).live_data) :
    content sec1 l = content sec2 l := by
  induction l with
  | nil => rfl
  | cons a l ih =>
    rw [content_cons, content_cons, h a (List.mem_cons_self _ _),
      ih (fun i hi => h i (List.mem_cons_of_mem _ hi))]

theorem linked_congr (sec1 sec2 : Nat → Sector) (l : List Nat)
    (h : ∀ i, i ∈ l → (sec1 i).next_sector = (sec2 i).next_sector)
    (hl : linked sec1 l) : linked sec2 l := by
  induction l with
  | nil => trivial
  | cons a l ih =>
    cases l with
    | nil =>
      show (sec2 a).next_sector = _
      rw [← h a (List.mem_cons_self _ _)]
      exact hl
    | cons b l =>
      obtain ⟨h1, h2⟩ := hl
      refine ⟨?_, ih (fun i hi => h i (List.mem_cons_of_mem _ hi)) h2⟩
      rw [← h a (List.mem_cons_self _ _)]
      exact h1

theorem linked_tail (sec : Nat → Sector) (a : Nat) (l : List Nat) (hl : linked sec (a :: l)) :
    linked sec l := by
  cases l with
  | nil => trivial
  | cons b l => exact hl.2

theorem read_byte_core (sec : Nat → Sector) :
    ∀ (post : List Nat) (h : Handle) (fuel : Nat), linked sec (h.current :: post) →
      (∀ i, i ∈ h.current :: post → i < 255) → post.length < fuel →
      ((sec h.current).live_data.drop h.offset ++ content sec post = [] →
        read_byte sec fuel h = none) ∧
      (∀ b r, (sec h.current).live_data.drop h.offset ++ content sec post = b :: r →
        ∃ h1, read_byte sec fuel h = some (b, h1) ∧ h1.mode = h.mode ∧
          h1.file_id = h.file_id ∧
          ∃ post1, linked sec (h1.current :: post1) ∧ (∀ i, i ∈ h1.current :: post1 → i < 255) ∧
            post1.length ≤ post.length ∧
            (sec h1.current).live_data.drop h1.offset ++ content sec post1 = r) := by
  intro post
  induction post with
  | nil =>
    intro h fuel hl hlt hfuel
    cases fuel with
    | zero => omega
    | succ fuel =>
      unfold read_byte
      cases hget : (sec h.current).live_data.get? h.offset with
      | some b0 =>
        rw [drop_eq_cons_of_get _ _ _ hget]
        refine ⟨fun e => (by cases e), fun b r e => ?_⟩
        simp only [List.cons_append, List.cons.injEq] at e
        obtain ⟨e1, e2⟩ := e
        subst e1
        exact ⟨_, rfl, rfl, rfl, [], hl, hlt, Nat.le_refl _, e2⟩
      | none =>
        have hd : (sec h.current).live_data.drop h.offset = [] :=
          List.drop_eq_nil_of_le (List.get?_eq_none.mp hget)
        rw [hd]
        have hn : (sec h.current).next_sector = FS_PRIV_NOT_ALLOCATED := hl
        simp only [hn, if_true]
        refine ⟨fun _ => trivial, fun b r e => ?_⟩
        rw [content_nil] at e
        cases e
  | cons p post ih =>
    intro h fuel hl hlt hfuel
    cases fuel with
    | zero => omega
    | succ fuel =>
      unfold read_byte
      cases hget : (sec h.current).live_data.get? h.offset with
      | some b0 =>
        rw [drop_eq_cons_of_get _ _ _ hget]
        refine ⟨fun e => (by cases e), fun b r e => ?_⟩
        simp only [List.cons_append, List.cons.injEq] at e
        obtain ⟨e1, e2⟩ := e
        subst e1
        exact ⟨_, rfl, rfl, rfl, p :: post, hl, hlt, Nat.le_refl _, e2⟩
      | none =>
        have hd : (sec h.current).live_data.drop h.offset = [] :=
          List.drop_eq_nil_of_le (List.get?_eq_none.mp hget)
        rw [hd]
        have hn : (sec h.current).next_sector = p := hl.1
        have hp : p < 255 := hlt p (List.mem_cons_of_mem _ (List.mem_cons_self _ _))
        have hne : ¬ p = FS_PRIV_NOT_ALLOCATED := by
          unfold FS_PRIV_NOT_ALLOCATED; omega
        simp only [hn, hne, if_false]
        have hfuel2 : post.length < fuel := by
          simp only [List.length_cons] at hfuel; omega
        obtain ⟨i1, i2⟩ := ih { h with current := p, offset := 0 } fuel hl.2
          (fun i hi => hlt i (List.mem_cons_of_mem _ hi)) hfuel2
        simp only [List.drop_zero, List.nil_append] at i1 i2 ⊢
        rw [content_cons]
        refine ⟨i1, fun b r e => ?_⟩
        obtain ⟨h1, g1, g2, g3, post1, g4, g5, g6, g7⟩ := i2 b r e
        exact ⟨h1, g1, g2, g3, post1, g4, g5, Nat.le_succ_of_le g6, g7⟩

end Fs
namespace Fs

theorem read_byte_at (cfg : Cfg) (sec : Nat → Sector) (h : Handle) (bytes : List Nat)
    (hp : at_pos cfg sec h bytes) :
    (bytes = [] → read_byte sec (cfg.FS_PRIV_MAX_SECTORS + 1) h = none) ∧
    (∀ b r, bytes = b :: r →
      ∃ h1, read_byte sec (cfg.FS_PRIV_MAX_SECTORS + 1) h = some (b, h1) ∧ h1.mode = h.mode ∧
        h1.file_id = h.file_id ∧ at_pos cfg sec h1 r) := by
  obtain ⟨post, hl, hlt, hlen, hb⟩ := hp
  obtain ⟨c1, c2⟩ := read_byte_core sec post h (cfg.FS_PRIV_MAX_SECTORS + 1) hl hlt (by omega)
  rw [hb] at c1 c2
  refine ⟨c1, fun b r e => ?_⟩
  obtain ⟨h1, g1, g2, g3, post1, g4, g5, g6, g7⟩ := c2 b r e
  exact ⟨h1, g1, g2, g3, post1, g4, g5, by omega, g7⟩

theorem read_bytes_at (cfg : Cfg) (sec : Nat → Sector) :
    ∀ (n : Nat) (h : Handle) (bytes : List Nat), at_pos cfg sec h bytes →
      (read_bytes cfg sec n h).1 = bytes.take n ∧
      (read_bytes cfg sec n h).2.mode = h.mode ∧
      at_pos cfg sec (read_bytes cfg sec n h).2 (bytes.drop n) := by
  intro n
  induction n with
  | zero =>
    intro h bytes hp
    exact ⟨rfl, rfl, hp⟩
  | succ n ih =>
    intro h bytes hp
    obtain ⟨c1, c2⟩ := read_byte_at cfg sec h bytes hp
    unfold read_bytes
    cases bytes with
    | nil =>
      rw [c1 rfl]
      exact ⟨rfl, rfl, hp⟩
    | cons b r =>
      obtain ⟨h1, g1, g2, _, g4⟩ := c2 b r rfl
      rw [g1]
      obtain ⟨i1, i2, i3⟩ := ih h1 r g4
      refine ⟨?_, i2.trans g2, ?_⟩
      · show b :: (read_bytes cfg sec n h1).1 = _
        rw [i1]
        rfl
      · exact i3

theorem fs_read_spec (cfg : Cfg) (s : State) (handle n : Nat) (h : Handle) (bytes : List Nat)
    (hh : s.handles handle = some h) (hm : h.mode = .FS_MODE_READONLY)
    (hp : at_pos cfg s.sectors h bytes) :
    (bytes = [] → fs_read cfg s handle n = (.FS_ERROR_END_OF_FILE, s, [])) ∧
    (bytes ≠ [] →
      ∃ h1, fs_read cfg s handle n =
          (.FS_NO_ERROR, s.set_handle handle (some h1), bytes.take n) ∧
        h1.mode = .FS_MODE_READONLY ∧ at_pos cfg s.sectors h1 (bytes.drop n)) := by
  obtain ⟨c1, c2⟩ := read_byte_at cfg s.sectors h bytes hp
  obtain ⟨i1, i2, i3⟩ := read_bytes_at cfg s.sectors n h bytes hp
  unfold fs_read
  simp only [hh, hm, ne_eq, not_true_eq_false, if_false]
  refine ⟨fun e => ?_, fun hne => ?_⟩
  · rw [c1 e]
  · cases bytes with
    | nil => exact absurd rfl hne
    | cons b r =>
      obtain ⟨h1, g1, _⟩ := c2 b r rfl
      rw [g1]
      simp only
      rw [i1]
      exact ⟨_, rfl, i2.trans hm, i3⟩

end Fs
namespace Fs

theorem nodup_length_le (l : List Nat) (n : Nat) (hnd : l.Nodup) (hlt : ∀ i, i ∈ l → i < n) :
    l.length ≤ n := by
  rw [← List.toFinset_card_of_nodup hnd, ← Finset.card_range n]
  apply Finset.card_le_card
  intro x hx
  rw [List.mem_toFinset] at hx
  exact Finset.mem_range.mpr (hlt x hx)

/-- Every sector of a chain but its first is pointed to by another sector of the chain. -/
theorem linked_pointed (sec : Nat → Sector) :
    ∀ (l : List Nat) (a i : Nat), linked sec (a :: l) → i ∈ l →
      ∃ j, j ∈ a :: l ∧ (sec j).next_sector = i := by
  intro l
  induction l with
  | nil =>
    intro a i _ hi
    cases hi
  | cons b l ih =>
    intro a i hl hi
    rcases List.mem_cons.mp hi with h | h
    · exact ⟨a, List.mem_cons_self _ _, h ▸ hl.1⟩
    · obtain ⟨j, hj, hn⟩ := ih b i hl.2 h
      exact ⟨j, List.mem_cons_of_mem _ hj, hn⟩

theorem linked_no_self (sec : Nat → Sector) :
    ∀ (l : List Nat) (a : Nat), linked sec (a :: l) → (a :: l).Nodup →
      (∀ i, i ∈ a :: l → i < 255) → ∀ x, x ∈ a :: l → (sec x).next_sector ≠ x := by
  intro l
  induction l with
  | nil =>
    intro a hl _ hlt x hx e
    have hxa : x = a := List.mem_singleton.mp hx
    subst hxa
    have h5 : (sec x).next_sector = 255 := hl
    have := hlt x hx
    omega
  | cons b l ih =>
    intro a hl hnd hlt x hx e
    rcases List.mem_cons.mp hx with h6 | h6
    · subst h6
      have h7 : (sec x).next_sector = b := hl.1
      have hxb : x ≠ b := by
        intro e3
        rw [e3] at hnd
        exact (List.nodup_cons.mp hnd).1 (List.mem_cons_self _ _)
      exact hxb (by rw [← e, h7])
    · exact ih b hl.2 (List.nodup_cons.mp hnd).2
        (fun i hi => hlt i (List.mem_cons_of_mem _ hi)) x h6 e

theorem find_root_of_file (cfg : Cfg) (s : State) (f root : Nat) (rest : List Nat)
    (hN : cfg.FS_PRIV_MAX_SECTORS ≤ 255)
    (hf : f ≠ FS_FILE_ID_NONE) (hfile : is_file cfg s.sectors f root rest) :
    find_root cfg s f = some root := by
  have hroot : root < cfg.FS_PRIV_MAX_SECTORS := hfile.lt root (List.mem_cons_self _ _)
  have hpred : ∀ i, i < cfg.FS_PRIV_MAX_SECTORS →
      ((decide ((s.sectors i).file_id = f) &&
        (List.range cfg.FS_PRIV_MAX_SECTORS).all fun j =>
          decide (j = i) || decide ((s.sectors j).next_sector ≠ i)) = true ↔ i = root) := by
    intro i hi
    simp only [Bool.and_eq_true, decide_eq_true_eq, List.all_eq_true, List.mem_range,
      Bool.or_eq_true, ne_eq, decide_not, Bool.not_eq_true', decide_eq_false_iff_not]
    constructor
    · rintro ⟨h1, h2⟩
      by_contra hne
      have hmem := hfile.all i hi h1
      rcases List.mem_cons.mp hmem with h | h
      · exact hne h
      · obtain ⟨j, hj, hn⟩ := linked_pointed s.sectors rest root i hfile.links h
        rcases h2 j (hfile.lt j hj) with h3 | h3
        · subst h3
          rcases List.mem_cons.mp hj with h4 | h4
          · exact hne h4
          · exact linked_no_self s.sectors rest root hfile.links hfile.nodup
              (fun x hx => Nat.lt_of_lt_of_le (hfile.lt x hx) hN) j (List.mem_cons_of_mem _ h4) hn
        · exact h3 hn
    · intro e
      subst e
      exact ⟨hfile.ids i (List.mem_cons_self _ _), fun j hj => Or.inr (hfile.unpointed j hj)⟩
  unfold find_root
  rw [if_neg hf]
  cases hfind : (List.range cfg.FS_PRIV_MAX_SECTORS).find? fun i =>
      decide ((s.sectors i).file_id = f) &&
        (List.range cfg.FS_PRIV_MAX_SECTORS).all fun j =>
          decide (j = i) || decide ((s.sectors j).next_sector ≠ i) with
  | none =>
    rw [List.find?_eq_none] at hfind
    exact absurd ((hpred root hroot).mpr rfl) (hfind root (List.mem_range.mpr hroot))
  | some i =>
    have h1 := List.find?_some hfind
    have h2 := List.mem_range.mp (List.mem_of_find?_eq_some hfind)
    rw [(hpred i h2).mp h1]

end Fs
namespace Fs

theorem find_tail_spec (sec : Nat → Sector) :
    ∀ (l : List Nat) (a fuel : Nat), linked sec (a :: l) → (∀ i, i ∈ a :: l → i < 255) →
      l.length ≤ fuel → find_tail sec fuel a = (a :: l).getLast (List.cons_ne_nil _ _) := by
  intro l
  induction l with
  | nil =>
    intro a fuel hl _ _
    cases fuel with
    | zero => rfl
    | succ fuel =>
      unfold find_tail
      have h5 : (sec a).next_sector = FS_PRIV_NOT_ALLOCATED := hl
      rw [if_pos h5]
      rfl
  | cons b l ih =>
    intro a fuel hl hlt hfuel
    cases fuel with
    | zero => simp only [List.length_cons] at hfuel; omega
    | succ fuel =>
      unfold find_tail
      have h7 : (sec a).next_sector = b := hl.1
      have hb := hlt b (List.mem_cons_of_mem _ (List.mem_cons_self _ _))
      have hne : ¬ (sec a).next_sector = FS_PRIV_NOT_ALLOCATED := by
        rw [h7]; unfold FS_PRIV_NOT_ALLOCATED; omega
      rw [if_neg hne, h7, ih b fuel hl.2 (fun i hi => hlt i (List.mem_cons_of_mem _ hi))
        (by simp only [List.length_cons] at hfuel; omega)]
      rw [List.getLast_cons (List.cons_ne_nil _ _)]

theorem is_file_length (cfg : Cfg) (sec : Nat → Sector) (f root : Nat) (rest : List Nat)
    (hfile : is_file cfg sec f root rest) : rest.length < cfg.FS_PRIV_MAX_SECTORS := by
  have := nodup_length_le (root :: rest) cfg.FS_PRIV_MAX_SECTORS hfile.nodup hfile.lt
  simp only [List.length_cons] at this
  omega

theorem fs_open_readonly_spec (cfg : Cfg) (s : State) (f uf root h : Nat) (rest : List Nat)
    (hN : cfg.FS_PRIV_MAX_SECTORS ≤ 255) (hf : f ≠ FS_FILE_ID_NONE)
    (hfile : is_file cfg s.sectors f root rest) (hh : free_handle cfg s = some h) :
    fs_open cfg s f .FS_MODE_READONLY uf =
      (.FS_NO_ERROR, s.set_handle h (some (Handle.opened f .FS_MODE_READONLY root root 0)), h,
        (s.sectors root).user_flags % 64) ∧
    at_pos cfg s.sectors (Handle.opened f .FS_MODE_READONLY root root 0)
      (content s.sectors (root :: rest)) := by
  constructor
  · unfold fs_open
    simp only [find_root_of_file cfg s f root rest hN hf hfile, hh]
  · refine ⟨rest, hfile.links, fun i hi => Nat.lt_of_lt_of_le (hfile.lt i hi) hN,
      Nat.le_of_lt (is_file_length cfg _ f root rest hfile), ?_⟩
    show List.drop 0 _ ++ _ = _
    rw [List.drop_zero, content_cons]
    rfl

theorem fs_open_writeonly_protected (cfg : Cfg) (s : State) (f uf root : Nat) (rest : List Nat)
    (hN : cfg.FS_PRIV_MAX_SECTORS ≤ 255) (hf : f ≠ FS_FILE_ID_NONE)
    (hfile : is_file cfg s.sectors f root rest)
    (hprot : is_protected (s.sectors root).user_flags = true) :
    fs_open cfg s f .FS_MODE_WRITEONLY uf = (.FS_ERROR_FILE_PROTECTED, s, 0, uf) := by
  unfold fs_open
  simp only [find_root_of_file cfg s f root rest hN hf hfile, hprot, if_true]

theorem fs_open_writeonly_spec (cfg : Cfg) (s : State) (f uf root h : Nat) (rest : List Nat)
    (hN : cfg.FS_PRIV_MAX_SECTORS ≤ 255) (hf : f ≠ FS_FILE_ID_NONE)
    (hfile : is_file cfg s.sectors f root rest)
    (hprot : is_protected (s.sectors root).user_flags = false)
    (hh : free_handle cfg s = some h) :
    ∃ hd, fs_open cfg s f .FS_MODE_WRITEONLY uf =
        (.FS_NO_ERROR, s.set_handle h (some hd), h, (s.sectors root).user_flags % 64) ∧
      hd.unflushed = 0 ∧
      writing cfg s.sectors f root rest hd (content s.sectors (root :: rest)) := by
  have htail := find_tail_spec s.sectors rest root cfg.FS_PRIV_MAX_SECTORS hfile.links
    (fun i hi => Nat.lt_of_lt_of_le (hfile.lt i hi) hN)
    (Nat.le_of_lt (is_file_length cfg _ f root rest hfile))
  refine ⟨Handle.opened f .FS_MODE_WRITEONLY root
    ((root :: rest).getLast (List.cons_ne_nil _ _))
    (s.sectors ((root :: rest).getLast (List.cons_ne_nil _ _))).live_length, ?_, rfl, ?_⟩
  · unfold fs_open
    simp only [find_root_of_file cfg s f root rest hN hf hfile, hprot, hh, htail]
    rfl
  · refine ⟨hfile, rfl, rfl, Nat.le_refl _, fun _ => rfl, fun h0 => absurd rfl h0,
      hfile.live_ok _ (List.getLast_mem _), ?_, fun e => fs_mode_t.noConfusion e⟩
    show _ ++ (s.sectors ((root :: rest).getLast _)).live_data = _
    have e := List.dropLast_append_getLast (List.cons_ne_nil root rest)
    conv => rhs; rw [← e]
    rw [content_append, content_cons, content_nil, List.append_nil]

end Fs
namespace Fs

theorem getLast_not_mem_dropLast (l : List Nat) (hne : l ≠ []) (hnd : l.Nodup) :
    l.getLast hne ∉ l.dropLast := by
  have e := List.dropLast_append_getLast hne
  rw [← e] at hnd
  intro hmem
  exact (List.nodup_append.mp hnd).2.2 hmem (List.mem_singleton_self _)

theorem mem_dropLast_ne_getLast (l : List Nat) (hne : l ≠ []) (hnd : l.Nodup) (i : Nat)
    (hi : i ∈ l.dropLast) : i ≠ l.getLast hne := by
  intro e
  exact getLast_not_mem_dropLast l hne hnd (e ▸ hi)

theorem foldl_max_snoc (l : List Nat) (x : Nat) :
    (l ++ [x]).foldl max 0 = max (l.foldl max 0) x := by
  rw [List.foldl_append]
  rfl

theorem is_file_update (cfg : Cfg) (sec sec1 : Nat → Sector) (f root : Nat) (rest : List Nat)
    (hfile : is_file cfg sec f root rest)
    (hid : ∀ i, (sec1 i).file_id = (sec i).file_id)
    (hnext : ∀ i, (sec1 i).next_sector = (sec i).next_sector)
    (hlive : ∀ i, i ∈ root :: rest → (sec1 i).live_length ≤ (sec1 i).data.length) :
    is_file cfg sec1 f root rest :=
  { nodup := hfile.nodup
    lt := hfile.lt
    ids := fun i hi => (hid i).trans (hfile.ids i hi)
    all := fun i hi h => hfile.all i hi ((hid i).symm.trans h)
    links := linked_congr sec sec1 _ (fun i _ => (hnext i).symm) hfile.links
    unpointed := fun j hj => by rw [hnext j]; exact hfile.unpointed j hj
    live_ok := hlive }

theorem put_byte_spec (cfg : Cfg) (s : State) (f root : Nat) (rest : List Nat) (h : Handle)
    (bytes : List Nat) (b : Nat) (hw : writing cfg s.sectors f root rest h bytes)
    (hroom : has_room cfg s h = true) :
    writing cfg (put_byte s h b).1.sectors f root rest (put_byte s h b).2 (bytes ++ [b]) ∧
    (put_byte s h b).2.unflushed ≠ 0 ∧
    (put_byte s h b).2.offset = h.offset + 1 ∧
    (put_byte s h b).2.current = h.current ∧
    (∀ i, ((put_byte s h b).1.sectors i).file_id = (s.sectors i).file_id) ∧
    ((put_byte s h b).1.sectors h.current).session_records =
      (s.sectors h.current).session_records ∧
    (put_byte s h b).1.handles = s.handles := by
  have hsec : ∀ i, (put_byte s h b).1.sectors i =
      if i = h.current then
        { s.sectors h.current with data := (s.sectors h.current).data.take h.offset ++ [b] }
      else s.sectors i := fun _ => rfl
  have hlen : ((s.sectors h.current).data.take h.offset).length = h.offset :=
    List.length_take_of_le hw.programmed
  unfold has_room at hroom
  simp only [Bool.and_eq_true, decide_eq_true_eq] at hroom
  refine ⟨?_, Nat.succ_ne_zero _, rfl, rfl, fun i => ?_, ?_, rfl⟩
  · refine
      { file := is_file_update cfg s.sectors _ f root rest hw.file (fun i => ?_) (fun i => ?_)
          (fun i hi => ?_)
        id := hw.id
        cur := hw.cur
        live_le := ?_
        clean := fun h0 => absurd h0 (Nat.succ_ne_zero _)
        slot := fun _ => ?_
        programmed := ?_
        total := ?_
        writable := hw.writable }
    · rw [hsec]; split
      · rename_i e; rw [e]
      · rfl
    · rw [hsec]; split
      · rename_i e; rw [e]
      · rfl
    · rw [hsec]; split
      · show (s.sectors h.current).live_length ≤ (_ ++ [b]).length
        rw [List.length_append, hlen]
        have := hw.live_le
        simp only [List.length_singleton]
        omega
      · exact hw.file.live_ok i hi
    · show ((put_byte s h b).1.sectors h.current).live_length ≤ h.offset + 1
      rw [hsec, if_pos rfl]
      exact Nat.le_succ_of_le hw.live_le
    · show ((put_byte s h b).1.sectors h.current).session_records.length < _
      rw [hsec, if_pos rfl]
      exact hroom.2
    · show h.offset + 1 ≤ ((put_byte s h b).1.sectors h.current).data.length
      rw [hsec, if_pos rfl]
      show _ ≤ (_ ++ [b]).length
      rw [List.length_append, hlen]
      simp only [List.length_singleton, Nat.le_refl]
    · show content (put_byte s h b).1.sectors _ ++
        ((put_byte s h b).1.sectors h.current).data.take (h.offset + 1) = _
      rw [hsec h.current, if_pos rfl]
      have e1 : content (put_byte s h b).1.sectors (root :: rest).dropLast =
          content s.sectors (root :: rest).dropLast := by
        apply content_congr
        intro i hi
        have hne := mem_dropLast_ne_getLast _ (List.cons_ne_nil _ _) hw.file.nodup i hi
        rw [← hw.cur] at hne
        rw [hsec, if_neg hne]
      rw [e1, ← hw.total, List.append_assoc]
      congr 1
      show List.take (h.offset + 1) (_ ++ [b]) = _
      rw [List.take_of_length_le]
      rw [List.length_append, hlen]
      simp only [List.length_singleton, Nat.le_refl]
  · rw [hsec]; split
    · rename_i e; rw [e]
    · rfl
  · rw [hsec, if_pos rfl]

end Fs

namespace Fs

theorem write_record_spec (cfg : Cfg) (s : State) (f root : Nat) (rest : List Nat) (h : Handle)
    (bytes : List Nat) (hw : writing cfg s.sectors f root rest h bytes) :
    writing cfg (write_record cfg s h).1.sectors f root rest (write_record cfg s h).2 bytes ∧
    (write_record cfg s h).2.unflushed = 0 ∧
    (write_record cfg s h).2.offset = h.offset ∧
    (write_record cfg s h).2.current = h.current ∧
    (write_record cfg s h).2.file_id = h.file_id ∧
    (write_record cfg s h).2.root = h.root ∧
    (∀ i, ((write_record cfg s h).1.sectors i).file_id = (s.sectors i).file_id) ∧
    (∀ i, ((write_record cfg s h).1.sectors i).next_sector = (s.sectors i).next_sector) ∧
    (∀ i, ((write_record cfg s h).1.sectors i).user_flags = (s.sectors i).user_flags) ∧
    (∀ i, ((write_record cfg s h).1.sectors i).allocation_counter =
      (s.sectors i).allocation_counter) ∧
    (write_record cfg s h).1.handles = s.handles := by
  by_cases hu : h.unflushed = 0
  · have e : write_record cfg s h = (s, h) := by
      unfold write_record
      rw [if_neg (fun hc => hc.1 hu)]
    rw [e]
    exact ⟨hw, hu, rfl, rfl, rfl, rfl, fun _ => rfl, fun _ => rfl, fun _ => rfl, fun _ => rfl,
      rfl⟩
  · have hslot := hw.slot hu
    have e : write_record cfg s h =
        (s.set_sector h.current
          { s.sectors h.current with
            session_records := (s.sectors h.current).session_records ++ [h.offset] },
          { h with unflushed := 0, dirty := false }) := by
      unfold write_record
      rw [if_pos ⟨hu, hslot⟩]
    rw [e]
    have hsec : ∀ i, (s.set_sector h.current
          { s.sectors h.current with
            session_records := (s.sectors h.current).session_records ++ [h.offset] }).sectors i =
        if i = h.current then
          { s.sectors h.current with
            session_records := (s.sectors h.current).session_records ++ [h.offset] }
        else s.sectors i := fun _ => rfl
    have hlive : ({ s.sectors h.current with
          session_records := (s.sectors h.current).session_records ++ [h.offset] } :
          Sector).live_length = h.offset := by
      show ((s.sectors h.current).session_records ++ [h.offset]).foldl max 0 = h.offset
      rw [foldl_max_snoc]
      exact Nat.max_eq_right hw.live_le
    have hfield : ∀ i, ((s.set_sector h.current
          { s.sectors h.current with
            session_records := (s.sectors h.current).session_records ++ [h.offset] }).sectors
            i).file_id = (s.sectors i).file_id ∧
        ((s.set_sector h.current
          { s.sectors h.current with
            session_records := (s.sectors h.current).session_records ++ [h.offset] }).sectors
            i).next_sector = (s.sectors i).next_sector ∧
        ((s.set_sector h.current
          { s.sectors h.current with
            session_records := (s.sectors h.current).session_records ++ [h.offset] }).sectors
            i).user_flags = (s.sectors i).user_flags ∧
        ((s.set_sector h.current
          { s.sectors h.current with
            session_records := (s.sectors h.current).session_records ++ [h.offset] }).sectors
            i).allocation_counter = (s.sectors i).allocation_counter ∧
        ((s.set_sector h.current
          { s.sectors h.current with
            session_records := (s.sectors h.current).session_records ++ [h.offset] }).sectors
            i).data = (s.sectors i).data := by
      intro i
      rw [hsec]
      split
      · rename_i e2
        rw [e2]
        exact ⟨rfl, rfl, rfl, rfl, rfl⟩
      · exact ⟨rfl, rfl, rfl, rfl, rfl⟩
    refine ⟨?_, rfl, rfl, rfl, rfl, rfl, fun i => (hfield i).1, fun i => (hfield i).2.1,
      fun i => (hfield i).2.2.1, fun i => (hfield i).2.2.2.1, rfl⟩
    refine
      { file := is_file_update cfg s.sectors _ f root rest hw.file (fun i => (hfield i).1)
          (fun i => (hfield i).2.1) (fun i hi => ?_)
        id := hw.id
        cur := hw.cur
        live_le := ?_
        clean := fun _ => ?_
        slot := fun h0 => absurd rfl h0
        programmed := ?_
        total := ?_
        writable := hw.writable }
    · rw [hsec]
      split
      · rw [hlive]
        exact hw.programmed
      · exact hw.file.live_ok i hi
    · show (_ : Sector).live_length ≤ h.offset
      rw [hsec, if_pos rfl, hlive]
    · show (_ : Sector).live_length = h.offset
      rw [hsec, if_pos rfl, hlive]
    · show h.offset ≤ (_ : Sector).data.length
      rw [(hfield h.current).2.2.2.2]
      exact hw.programmed
    · show content _ _ ++ (_ : Sector).data.take h.offset = _
      rw [(hfield h.current).2.2.2.2, ← hw.total]
      congr 1
      apply content_congr
      intro i hi
      have hne := mem_dropLast_ne_getLast _ (List.cons_ne_nil _ _) hw.file.nodup i hi
      rw [← hw.cur] at hne
      rw [hsec, if_neg hne]

/-- With nothing pending, the bytes of a file under a write handle are its live content. -/
theorem writing_clean_content (cfg : Cfg) (sec : Nat → Sector) (f root : Nat)
    (rest : List Nat) (h : Handle) (bytes : List Nat)
    (hw : writing cfg sec f root rest h bytes) (hu : h.unflushed = 0) :
    content sec (root :: rest) = bytes := by
  have e := List.dropLast_append_getLast (List.cons_ne_nil root rest)
  conv => lhs; rw [← e]
  rw [content_append, content_cons, content_nil, List.append_nil, ← hw.total, ← hw.cur]
  congr 1
  show (sec h.current).data.take (sec h.current).live_length = _
  rw [hw.clean hu]

end Fs
namespace Fs

theorem free_count_eq_card (cfg : Cfg) (sec : Nat → Sector) :
    free_count cfg sec =
      ((Finset.range cfg.FS_PRIV_MAX_SECTORS).filter fun i =>
        (sec i).file_id = FS_FILE_ID_NONE).card := by
  unfold free_count
  have h : ((Finset.range cfg.FS_PRIV_MAX_SECTORS).filter fun i =>
        (sec i).file_id = FS_FILE_ID_NONE) =
      ((List.range cfg.FS_PRIV_MAX_SECTORS).filter fun i =>
        decide ((sec i).file_id = FS_FILE_ID_NONE)).toFinset := by
    ext x
    simp only [Finset.mem_filter, Finset.mem_range, List.mem_toFinset, List.mem_filter,
      List.mem_range, decide_eq_true_eq]
  rw [h, List.toFinset_card_of_nodup]
  exact (List.nodup_range _).filter _

theorem exists_free_of_pos (cfg : Cfg) (sec : Nat → Sector) (h : 0 < free_count cfg sec) :
    ∃ i, i < cfg.FS_PRIV_MAX_SECTORS ∧ (sec i).file_id = FS_FILE_ID_NONE := by
  unfold free_count at h
  obtain ⟨i, hi⟩ := List.exists_mem_of_length_pos h
  rw [List.mem_filter, List.mem_range, decide_eq_true_eq] at hi
  exact ⟨i, hi⟩

theorem free_count_congr (cfg : Cfg) (sec sec1 : Nat → Sector)
    (h : ∀ i, (sec1 i).file_id = (sec i).file_id) :
    free_count cfg sec1 = free_count cfg sec := by
  unfold free_count
  congr 1
  apply List.filter_congr
  intro i _
  rw [h i]

theorem free_count_alloc (cfg : Cfg) (sec sec1 : Nat → Sector) (j : Nat)
    (hj : j < cfg.FS_PRIV_MAX_SECTORS) (hfree : (sec j).file_id = FS_FILE_ID_NONE)
    (hused : (sec1 j).file_id ≠ FS_FILE_ID_NONE)
    (hsame : ∀ i, i ≠ j → (sec1 i).file_id = (sec i).file_id) :
    free_count cfg sec1 + 1 = free_count cfg sec := by
  rw [free_count_eq_card, free_count_eq_card]
  have hmem : j ∈ (Finset.range cfg.FS_PRIV_MAX_SECTORS).filter fun i =>
      (sec i).file_id = FS_FILE_ID_NONE := by
    rw [Finset.mem_filter, Finset.mem_range]
    exact ⟨hj, hfree⟩
  have he : ((Finset.range cfg.FS_PRIV_MAX_SECTORS).filter fun i =>
      (sec1 i).file_id = FS_FILE_ID_NONE) =
      ((Finset.range cfg.FS_PRIV_MAX_SECTORS).filter fun i =>
        (sec i).file_id = FS_FILE_ID_NONE).erase j := by
    ext x
    rw [Finset.mem_erase, Finset.mem_filter, Finset.mem_filter]
    constructor
    · rintro ⟨h1, h2⟩
      have hx : x ≠ j := fun e => hused (e ▸ h2)
      exact ⟨hx, h1, (hsame x hx) ▸ h2⟩
    · rintro ⟨hx, h1, h2⟩
      exact ⟨h1, (hsame x hx).symm ▸ h2⟩
  rw [he, Finset.card_erase_of_mem hmem]
  have := Finset.card_pos.mpr ⟨j, hmem⟩
  omega

theorem linked_snoc (sec sec1 : Nat → Sector) (j : Nat) :
    ∀ (l : List Nat) (a : Nat), linked sec (a :: l) → j ∉ a :: l →
      (∀ i, i ∈ (a :: l).dropLast → (sec1 i).next_sector = (sec i).next_sector) →
      (sec1 ((a :: l).getLast (List.cons_ne_nil _ _))).next_sector = j →
      (sec1 j).next_sector = FS_PRIV_NOT_ALLOCATED →
      linked sec1 (a :: (l ++ [j])) := by
  intro l
  induction l with
  | nil =>
    intro a _ _ _ hlast hj
    exact ⟨hlast, hj⟩
  | cons b l ih =>
    intro a hl hnot hsame hlast hj
    refine ⟨?_, ih b hl.2 (fun hmem => hnot (List.mem_cons_of_mem _ hmem))
      (fun i hi => hsame i ?_) ?_ hj⟩
    · rw [hsame a (by rw [List.dropLast_cons₂]; exact List.mem_cons_self _ _)]
      exact hl.1
    · rw [List.dropLast_cons₂]
      exact List.mem_cons_of_mem _ hi
    · rw [List.getLast_cons (List.cons_ne_nil _ _)] at hlast
      exact hlast

end Fs
namespace Fs

theorem extend_spec (cfg : Cfg) (s : State) (f root j : Nat) (rest : List Nat) (h : Handle)
    (bytes : List Nat) (hN : cfg.FS_PRIV_MAX_SECTORS ≤ 255) (hf : f ≠ FS_FILE_ID_NONE)
    (hw : writing cfg s.sectors f root rest h bytes) (hu : h.unflushed = 0)
    (hj : find_free cfg s = some j) :
    ∃ s2 h2, extend cfg s h = some (s2, h2) ∧
      writing cfg s2.sectors f root (rest ++ [j]) h2 bytes ∧
      h2.offset = 0 ∧ h2.unflushed = 0 ∧ h2.current = j ∧
      (s2.sectors j).session_records = [] ∧
      free_count cfg s2.sectors + 1 = free_count cfg s.sectors ∧
      s2.handles = s.handles := by
  obtain ⟨hjlt, hjfree, _⟩ := find_free_some cfg s j hj
  have hcurmem : h.current ∈ root :: rest := by
    rw [hw.cur]
    exact List.getLast_mem _
  have hjnot : j ∉ root :: rest := by
    intro hmem
    have := hw.file.ids j hmem
    rw [hjfree] at this
    exact hf this.symm
  have hcj : h.current ≠ j := fun e => hjnot (e ▸ hcurmem)
  have hsec : ∀ i, ((s.allocate j h.file_id (s.sectors h.root).user_flags).set_sector h.current
        { (s.allocate j h.file_id (s.sectors h.root).user_flags).sectors h.current with
          next_sector := j }).sectors i =
      if i = h.current then { s.sectors h.current with next_sector := j }
      else if i = j then
        { file_id := h.file_id, user_flags := (s.sectors h.root).user_flags,
          next_sector := FS_PRIV_NOT_ALLOCATED,
          allocation_counter := u32 ((s.sectors j).allocation_counter + 1),
          session_records := [], data := [] }
      else s.sectors i := by
    intro i
    show (if i = h.current then
        { (if h.current = j then _ else s.sectors h.current : Sector) with next_sector := j }
      else (if i = j then _ else s.sectors i)) = _
    rw [if_neg hcj]
  have hs_cur := hsec h.current
  rw [if_pos rfl] at hs_cur
  have hs_j := hsec j
  rw [if_neg (Ne.symm hcj), if_pos rfl] at hs_j
  have hs_other : ∀ i, i ≠ h.current → i ≠ j →
      ((s.allocate j h.file_id (s.sectors h.root).user_flags).set_sector h.current
        { (s.allocate j h.file_id (s.sectors h.root).user_flags).sectors h.current with
          next_sector := j }).sectors i = s.sectors i := by
    intro i h1 h2
    rw [hsec, if_neg h1, if_neg h2]
  refine ⟨(s.allocate j h.file_id (s.sectors h.root).user_flags).set_sector h.current
      { (s.allocate j h.file_id (s.sectors h.root).user_flags).sectors h.current with
        next_sector := j },
    { h with current := j, offset := 0, unflushed := 0 }, ?_, ?_, rfl, rfl, rfl, ?_, ?_, rfl⟩
  · unfold extend
    rw [hj]
  · have hsame : ∀ i, i ∈ root :: rest →
        (((s.allocate j h.file_id (s.sectors h.root).user_flags).set_sector h.current
          { (s.allocate j h.file_id (s.sectors h.root).user_flags).sectors h.current with
            next_sector := j }).sectors i).live_data = (s.sectors i).live_data ∧
        (((s.allocate j h.file_id (s.sectors h.root).user_flags).set_sector h.current
          { (s.allocate j h.file_id (s.sectors h.root).user_flags).sectors h.current with
            next_sector := j }).sectors i).file_id = (s.sectors i).file_id ∧
        (((s.allocate j h.file_id (s.sectors h.root).user_flags).set_sector h.current
          { (s.allocate j h.file_id (s.sectors h.root).user_flags).sectors h.current with
            next_sector := j }).sectors i).live_length = (s.sectors i).live_length ∧
        (((s.allocate j h.file_id (s.sectors h.root).user_flags).set_sector h.current
          { (s.allocate j h.file_id (s.sectors h.root).user_flags).sectors h.current with
            next_sector := j }).sectors i).data = (s.sectors i).data := by
      intro i hi
      have hij : i ≠ j := fun e => hjnot (e ▸ hi)
      by_cases hic : i = h.current
      · rw [hic, hs_cur]
        exact ⟨rfl, rfl, rfl, rfl⟩
      · rw [hs_other i hic hij]
        exact ⟨rfl, rfl, rfl, rfl⟩
    have hlast : (root :: (rest ++ [j])).getLast (List.cons_ne_nil _ _) = j := by
      simp
    have hdrop : (root :: (rest ++ [j])).dropLast = root :: rest := by
      rw [← List.cons_append, List.dropLast_concat]
    refine
      { file :=
          { nodup := ?_
            lt := ?_
            ids := ?_
            all := ?_
            links := ?_
            unpointed := ?_
            live_ok := ?_ }
        id := hw.id
        cur := hlast.symm
        live_le := ?_
        clean := fun _ => ?_
        slot := fun h0 => absurd rfl h0
        programmed := Nat.zero_le _
        total := ?_
        writable := hw.writable }
    · rw [← List.cons_append]
      exact List.nodup_append.mpr ⟨hw.file.nodup, List.nodup_singleton j,
        fun a ha hb => hjnot ((List.mem_singleton.mp hb) ▸ ha)⟩
    · intro i hi
      rw [← List.cons_append, List.mem_append] at hi
      rcases hi with h1 | h1
      · exact hw.file.lt i h1
      · rw [List.mem_singleton.mp h1]
        exact hjlt
    · intro i hi
      rw [← List.cons_append, List.mem_append] at hi
      rcases hi with h1 | h1
      · rw [(hsame i h1).2.1]
        exact hw.file.ids i h1
      · rw [List.mem_singleton.mp h1, hs_j]
        exact hw.id
    · intro i hi hfi
      rw [← List.cons_append, List.mem_append]
      by_cases hij : i = j
      · exact Or.inr (List.mem_singleton.mpr hij)
      · left
        apply hw.file.all i hi
        by_cases hic : i = h.current
        · rw [hic, hs_cur] at hfi
          rw [hic]
          exact hfi
        · rw [hs_other i hic hij] at hfi
          exact hfi
    · apply linked_snoc s.sectors _ j rest root hw.file.links hjnot
      · intro i hi
        have hne := mem_dropLast_ne_getLast _ (List.cons_ne_nil _ _) hw.file.nodup i hi
        rw [← hw.cur] at hne
        have hij : i ≠ j := fun e => hjnot (e ▸ List.mem_of_mem_dropLast hi)
        rw [hs_other i hne hij]
      · rw [← hw.cur, hs_cur]
      · rw [hs_j]
    · intro i hi
      have hroot : root ∈ root :: rest := List.mem_cons_self _ _
      have hrlt : root < 255 := Nat.lt_of_lt_of_le (hw.file.lt root hroot) hN
      have hrj : root ≠ j := fun e => hjnot (e ▸ hroot)
      by_cases hic : i = h.current
      · rw [hic, hs_cur]
        exact Ne.symm hrj
      · by_cases hij : i = j
        · rw [hij, hs_j]
          show FS_PRIV_NOT_ALLOCATED ≠ root
          unfold FS_PRIV_NOT_ALLOCATED
          omega
        · rw [hs_other i hic hij]
          exact hw.file.unpointed i hi
    · intro i hi
      rw [← List.cons_append, List.mem_append] at hi
      rcases hi with h1 | h1
      · rw [(hsame i h1).2.2.1, (hsame i h1).2.2.2]
        exact hw.file.live_ok i h1
      · rw [List.mem_singleton.mp h1, hs_j]
        exact Nat.zero_le _
    · show (_ : Sector).live_length ≤ 0
      rw [hs_j]
      exact Nat.le_refl _
    · show (_ : Sector).live_length = 0
      rw [hs_j]
      rfl
    · show content _ _ ++ List.take 0 _ = _
      rw [List.take_zero, List.append_nil, hdrop,
        content_congr _ s.sectors _ (fun i hi => (hsame i hi).1)]
      exact writing_clean_content cfg s.sectors f root rest h bytes hw hu
  · rw [hs_j]
  · apply free_count_alloc cfg s.sectors _ j hjlt hjfree
    · rw [hs_j]
      show h.file_id ≠ _
      rw [hw.id]
      exact hf
    · intro i hi
      by_cases hic : i = h.current
      · rw [hic, hs_cur]
      · rw [hs_other i hic hi]

end Fs
namespace Fs

theorem has_room_iff (cfg : Cfg) (s : State) (h : Handle) :
    has_room cfg s h = true ↔ h.offset < cfg.FS_PRIV_USABLE_SIZE ∧
      (s.sectors h.current).session_records.length < cfg.FS_PRIV_NUM_WRITE_SESSIONS := by
  unfold has_room
  simp only [Bool.and_eq_true, decide_eq_true_eq]

theorem avail_of_room (cfg : Cfg) (s : State) (h : Handle) (hr : has_room cfg s h = true) :
    avail cfg s h = cfg.FS_PRIV_USABLE_SIZE - h.offset +
      free_count cfg s.sectors * cfg.FS_PRIV_USABLE_SIZE := by
  unfold avail
  rw [if_pos hr]

theorem avail_of_no_room (cfg : Cfg) (s : State) (h : Handle) (hr : ¬ has_room cfg s h = true) :
    avail cfg s h = free_count cfg s.sectors * cfg.FS_PRIV_USABLE_SIZE := by
  unfold avail
  rw [if_neg hr, Nat.zero_add]

/-- The room after a byte was put with the session slot still free. -/
theorem avail_after_put (cfg : Cfg) (s : State) (h : Handle) (off fc : Nat)
    (hoff : h.offset = off + 1) (hle : off < cfg.FS_PRIV_USABLE_SIZE)
    (hslot : (s.sectors h.current).session_records.length < cfg.FS_PRIV_NUM_WRITE_SESSIONS)
    (hfc : free_count cfg s.sectors = fc) :
    avail cfg s h + 1 = cfg.FS_PRIV_USABLE_SIZE - off + fc * cfg.FS_PRIV_USABLE_SIZE := by
  by_cases hr : has_room cfg s h = true
  · rw [avail_of_room cfg s h hr, hoff, hfc]
    have := ((has_room_iff cfg s h).mp hr).1
    omega
  · rw [avail_of_no_room cfg s h hr, hfc]
    have : ¬ h.offset < cfg.FS_PRIV_USABLE_SIZE := fun h1 => hr ((has_room_iff cfg s h).mpr ⟨h1, hslot⟩)
    omega

theorem write_byte_spec (cfg : Cfg) (s : State) (f root b : Nat) (rest : List Nat) (h : Handle)
    (bytes : List Nat) (hN : cfg.FS_PRIV_MAX_SECTORS ≤ 255) (hf : f ≠ FS_FILE_ID_NONE)
    (hU : 0 < cfg.FS_PRIV_USABLE_SIZE) (hS : 0 < cfg.FS_PRIV_NUM_WRITE_SESSIONS)
    (hw : writing cfg s.sectors f root rest h bytes) (hav : 1 ≤ avail cfg s h) :
    ∃ s1 h1 rest1, write_byte cfg s h b = some (s1, h1) ∧
      writing cfg s1.sectors f root rest1 h1 (bytes ++ [b]) ∧
      avail cfg s1 h1 + 1 = avail cfg s h ∧ s1.handles = s.handles := by
  by_cases hr : has_room cfg s h = true
  · obtain ⟨p1, _, p3, p4, p5, p6, p7⟩ := put_byte_spec cfg s f root rest h bytes b hw hr
    refine ⟨_, _, rest, by unfold write_byte; rw [if_pos hr], p1, ?_, p7⟩
    rw [avail_of_room cfg s h hr]
    apply avail_after_put cfg _ _ h.offset _ p3 ((has_room_iff cfg s h).mp hr).1
    · rw [p4, p6]
      exact ((has_room_iff cfg s h).mp hr).2
    · exact free_count_congr cfg _ _ p5
  · rw [avail_of_no_room cfg s h hr] at hav ⊢
    have hfc : 0 < free_count cfg s.sectors := by
      by_contra h0
      have e : free_count cfg s.sectors = 0 := by omega
      rw [e, Nat.zero_mul] at hav
      omega
    obtain ⟨r1, r2, r3, r4, r5, r6, r7, r8, r9, r10, r11⟩ :=
      write_record_spec cfg s f root rest h bytes hw
    obtain ⟨x, hx, hxfree⟩ := exists_free_of_pos cfg s.sectors hfc
    obtain ⟨j, hj⟩ := find_free_exists cfg (write_record cfg s h).1 x hx
      ((r7 x).trans hxfree)
    obtain ⟨s2, h2, e1, e2, e3, e4, e5, e6, e7, e8⟩ :=
      extend_spec cfg (write_record cfg s h).1 f root j rest (write_record cfg s h).2 bytes hN hf
        r1 r2 hj
    have hr2 : has_room cfg s2 h2 = true := by
      rw [has_room_iff, e3, e5, e6]
      exact ⟨hU, hS⟩
    obtain ⟨p1, _, p3, p4, p5, p6, p7⟩ := put_byte_spec cfg s2 f root (rest ++ [j]) h2 bytes b e2
      hr2
    refine ⟨_, _, rest ++ [j], ?_, p1, ?_, ?_⟩
    · unfold write_byte
      rw [if_neg hr, e1]
      simp only [hr2, if_true]
    · have hfc2 : free_count cfg (put_byte s2 h2 b).1.sectors + 1 = free_count cfg s.sectors := by
        rw [free_count_congr cfg _ _ p5, e7, free_count_congr cfg _ _ r7]
      have key := avail_after_put cfg (put_byte s2 h2 b).1 (put_byte s2 h2 b).2 0
        (free_count cfg (put_byte s2 h2 b).1.sectors) (by rw [p3, e3]) hU
        (by rw [p4, p6, e5, e6]; exact hS) rfl
      rw [key, ← hfc2, Nat.succ_mul]
      omega
    · rw [p7, e8, r11]

theorem write_bytes_spec (cfg : Cfg) (f root : Nat)
    (hN : cfg.FS_PRIV_MAX_SECTORS ≤ 255) (hf : f ≠ FS_FILE_ID_NONE)
    (hU : 0 < cfg.FS_PRIV_USABLE_SIZE) (hS : 0 < cfg.FS_PRIV_NUM_WRITE_SESSIONS) :
    ∀ (buf : List Nat) (s : State) (h : Handle) (rest : List Nat) (bytes : List Nat) (n : Nat),
      writing cfg s.sectors f root rest h bytes → buf.length ≤ avail cfg s h →
      ∃ s1 h1 rest1, write_bytes cfg buf s h n = (.FS_NO_ERROR, s1, h1, n + buf.length) ∧
        writing cfg s1.sectors f root rest1 h1 (bytes ++ buf) ∧
        avail cfg s1 h1 + buf.length = avail cfg s h ∧ s1.handles = s.handles := by
  intro buf
  induction buf with
  | nil =>
    intro s h rest bytes n hw _
    exact ⟨s, h, rest, rfl, by rw [List.append_nil]; exact hw, rfl, rfl⟩
  | cons b buf ih =>
    intro s h rest bytes n hw hav
    simp only [List.length_cons] at hav
    obtain ⟨s1, h1, rest1, e1, w1, a1, k1⟩ :=
      write_byte_spec cfg s f root b rest h bytes hN hf hU hS hw (by omega)
    obtain ⟨s2, h2, rest2, e2, w2, a2, k2⟩ := ih s1 h1 rest1 (bytes ++ [b]) (n + 1) w1 (by omega)
    refine ⟨s2, h2, rest2, ?_, ?_, ?_, k2.trans k1⟩
    · unfold write_bytes
      rw [e1]
      simp only
      rw [e2, List.length_cons]
      congr 3
      omega
    · rw [List.append_assoc] at w2
      exact w2
    · rw [List.length_cons]
      omega

end Fs
namespace Fs

theorem fs_write_spec (cfg : Cfg) (s : State) (handle f root : Nat) (rest : List Nat)
    (h : Handle) (bytes buf : List Nat)
    (hN : cfg.FS_PRIV_MAX_SECTORS ≤ 255) (hf : f ≠ FS_FILE_ID_NONE)
    (hU : 0 < cfg.FS_PRIV_USABLE_SIZE) (hS : 0 < cfg.FS_PRIV_NUM_WRITE_SESSIONS)
    (hh : s.handles handle = some h) (hw : writing cfg s.sectors f root rest h bytes)
    (hav : buf.length ≤ avail cfg s h) :
    ∃ s1 h1 rest1, fs_write cfg s handle buf = (.FS_NO_ERROR, s1, buf.length) ∧
      s1.handles handle = some h1 ∧
      writing cfg s1.sectors f root rest1 h1 (bytes ++ buf) ∧
      avail cfg s1 h1 + buf.length = avail cfg s h ∧
      (∀ k, k ≠ handle → s1.handles k = s.handles k) := by
  obtain ⟨s1, h1, rest1, e1, w1, a1, k1⟩ :=
    write_bytes_spec cfg f root hN hf hU hS buf s h rest bytes 0 hw hav
  refine ⟨s1.set_handle handle (some h1), h1, rest1, ?_, ?_, w1, a1, fun k hk => ?_⟩
  · unfold fs_write
    simp only [hh, hw.writable, if_false, e1, Nat.zero_add]
  · show (if handle = handle then _ else _ : Option Handle) = _
    rw [if_pos rfl]
  · show (if k = handle then _ else _ : Option Handle) = _
    rw [if_neg hk, k1]

theorem write_chunks_spec (cfg : Cfg) (handle f root : Nat)
    (hN : cfg.FS_PRIV_MAX_SECTORS ≤ 255) (hf : f ≠ FS_FILE_ID_NONE)
    (hU : 0 < cfg.FS_PRIV_USABLE_SIZE) (hS : 0 < cfg.FS_PRIV_NUM_WRITE_SESSIONS) :
    ∀ (bufs : List (List Nat)) (s : State) (h : Handle) (rest : List Nat) (bytes : List Nat),
      s.handles handle = some h → writing cfg s.sectors f root rest h bytes →
      bufs.flatten.length ≤ avail cfg s h →
      ∃ s1 h1 rest1, write_chunks cfg handle bufs s = some s1 ∧
        s1.handles handle = some h1 ∧
        writing cfg s1.sectors f root rest1 h1 (bytes ++ bufs.flatten) ∧
        (∀ k, k ≠ handle → s1.handles k = s.handles k) := by
  intro bufs
  induction bufs with
  | nil =>
    intro s h rest bytes hh hw _
    exact ⟨s, h, rest, rfl, hh, by rw [List.flatten_nil, List.append_nil]; exact hw,
      fun _ _ => rfl⟩
  | cons buf bufs ih =>
    intro s h rest bytes hh hw hav
    rw [List.flatten_cons, List.length_append] at hav
    obtain ⟨s1, h1, rest1, e1, g1, w1, a1, k1⟩ :=
      fs_write_spec cfg s handle f root rest h bytes buf hN hf hU hS hh hw (by omega)
    obtain ⟨s2, h2, rest2, e2, g2, w2, k2⟩ := ih s1 h1 rest1 (bytes ++ buf) g1 w1 (by omega)
    refine ⟨s2, h2, rest2, ?_, g2, ?_, fun k hk => (k2 k hk).trans (k1 k hk)⟩
    · unfold write_chunks
      rw [e1]
      simp only [and_self, if_true]
      exact e2
    · rw [List.flatten_cons, ← List.append_assoc]
      exact w2

theorem fs_close_spec (cfg : Cfg) (s : State) (handle f root : Nat) (rest : List Nat)
    (h : Handle) (bytes : List Nat)
    (hh : s.handles handle = some h) (hw : writing cfg s.sectors f root rest h bytes) :
    ∃ s1, fs_close cfg s handle = (.FS_NO_ERROR, s1) ∧
      is_file cfg s1.sectors f root rest ∧ content s1.sectors (root :: rest) = bytes ∧
      s1.handles handle = none ∧ (∀ k, k ≠ handle → s1.handles k = s.handles k) ∧
      (∀ i, (s1.sectors i).file_id = (s.sectors i).file_id) ∧
      (∀ i, (s1.sectors i).next_sector = (s.sectors i).next_sector) ∧
      (∀ i, (s1.sectors i).user_flags = (s.sectors i).user_flags) := by
  obtain ⟨r1, r2, r3, r4, r5, r6, r7, r8, r9, r10, r11⟩ :=
    write_record_spec cfg s f root rest h bytes hw
  have hflush : flush cfg s h =
      (.FS_NO_ERROR, (write_record cfg s h).1, (write_record cfg s h).2) := by
    unfold flush
    by_cases hu : h.unflushed = 0
    · rw [if_pos hu]
      have e : write_record cfg s h = (s, h) := by
        unfold write_record
        rw [if_neg (fun hc => hc.1 hu)]
      rw [e]
    · rw [if_neg hu, if_pos (hw.slot hu)]
  refine ⟨(write_record cfg s h).1.set_handle handle none, ?_, r1.file,
    writing_clean_content cfg _ f root rest _ bytes r1 r2, ?_, fun k hk => ?_, r7, r8, r9⟩
  · unfold fs_close
    simp only [hh, hflush]
  · show (if handle = handle then _ else _ : Option Handle) = _
    rw [if_pos rfl]
  · show (if k = handle then _ else _ : Option Handle) = _
    rw [if_neg hk, r11]

end Fs
namespace Fs

theorem fs_open_create_writing (cfg : Cfg) (s : State) (f uf handle : Nat)
    (hN : cfg.FS_PRIV_MAX_SECTORS ≤ 255) (hf : f ≠ FS_FILE_ID_NONE)
    (hU : 0 < cfg.FS_PRIV_USABLE_SIZE) (hS : 0 < cfg.FS_PRIV_NUM_WRITE_SESSIONS)
    (hnew : ∀ i, i < cfg.FS_PRIV_MAX_SECTORS → (s.sectors i).file_id ≠ f)
    (hlinks : links_ok cfg s.sectors) (hfree : 0 < free_count cfg s.sectors)
    (hh : free_handle cfg s = some handle) :
    ∃ s1 hd j, fs_open cfg s f .FS_MODE_CREATE uf = (.FS_NO_ERROR, s1, handle, uf % 64) ∧
      s1.handles handle = some hd ∧ writing cfg s1.sectors f j [] hd [] ∧
      avail cfg s1 hd = free_count cfg s.sectors * cfg.FS_PRIV_USABLE_SIZE ∧
      (∀ k, k ≠ handle → s1.handles k = s.handles k) := by
  obtain ⟨x, hx, hxfree⟩ := exists_free_of_pos cfg s.sectors hfree
  obtain ⟨j, hj⟩ := find_free_exists cfg s x hx hxfree
  obtain ⟨hjlt, hjfree, _⟩ := find_free_some cfg s j hj
  have hroot := find_root_none cfg s f hnew
  have hj255 : j < 255 := Nat.lt_of_lt_of_le hjlt hN
  have hsec : ∀ i, ((s.allocate j f (make_flags uf false)).set_handle handle
        (some (Handle.opened f .FS_MODE_CREATE j j 0))).sectors i =
      if i = j then
        { file_id := f, user_flags := make_flags uf false, next_sector := FS_PRIV_NOT_ALLOCATED,
          allocation_counter := u32 ((s.sectors j).allocation_counter + 1),
          session_records := [], data := [] }
      else s.sectors i := fun _ => rfl
  have hs_j := hsec j
  rw [if_pos rfl] at hs_j
  have hs_other : ∀ i, i ≠ j → ((s.allocate j f (make_flags uf false)).set_handle handle
        (some (Handle.opened f .FS_MODE_CREATE j j 0))).sectors i = s.sectors i := by
    intro i hi
    rw [hsec, if_neg hi]
  have hc : (Handle.opened f .FS_MODE_CREATE j j 0).current = j := rfl
  have hw : writing cfg ((s.allocate j f (make_flags uf false)).set_handle handle
      (some (Handle.opened f .FS_MODE_CREATE j j 0))).sectors f j []
      (Handle.opened f .FS_MODE_CREATE j j 0) [] := by
    refine
      { file :=
          { nodup := List.nodup_singleton j
            lt := fun i hi => (List.mem_singleton.mp hi) ▸ hjlt
            ids := fun i hi => ?_
            all := fun i hi hfi => ?_
            links := ?_
            unpointed := fun i hi => ?_
            live_ok := fun i hi => ?_ }
        id := rfl
        cur := rfl
        live_le := ?_
        clean := fun _ => ?_
        slot := fun h0 => absurd rfl h0
        programmed := Nat.zero_le _
        total := ?_
        writable := fun e => fs_mode_t.noConfusion e }
    · rw [List.mem_singleton.mp hi, hs_j]
    · by_cases hij : i = j
      · exact List.mem_singleton.mpr hij
      · rw [hs_other i hij] at hfi
        exact absurd hfi (hnew i hi)
    · show (_ : Sector).next_sector = FS_PRIV_NOT_ALLOCATED
      rw [hs_j]
    · by_cases hij : i = j
      · rw [hij, hs_j]
        show FS_PRIV_NOT_ALLOCATED ≠ j
        unfold FS_PRIV_NOT_ALLOCATED
        omega
      · rw [hs_other i hij]
        exact hlinks i j hi hjlt hjfree
    · rw [List.mem_singleton.mp hi, hs_j]
      exact Nat.zero_le _
    · show (_ : Sector).live_length ≤ 0
      rw [hc, hs_j]
      exact Nat.le_refl _
    · show (_ : Sector).live_length = 0
      rw [hc, hs_j]
      rfl
    · rfl
  refine ⟨_, _, j, fs_open_create_spec cfg s f uf handle j hf hroot hh hj, ?_, hw, ?_,
    fun k hk => ?_⟩
  · show (if handle = handle then _ else _ : Option Handle) = _
    rw [if_pos rfl]
  · have hr : has_room cfg ((s.allocate j f (make_flags uf false)).set_handle handle
        (some (Handle.opened f .FS_MODE_CREATE j j 0)))
        (Handle.opened f .FS_MODE_CREATE j j 0) = true := by
      rw [has_room_iff]
      refine ⟨hU, ?_⟩
      show (_ : Sector).session_records.length < _
      rw [hc, hs_j]
      exact hS
    rw [avail_of_room cfg _ _ hr]
    have hfc : free_count cfg ((s.allocate j f (make_flags uf false)).set_handle handle
        (some (Handle.opened f .FS_MODE_CREATE j j 0))).sectors + 1 =
        free_count cfg s.sectors := by
      apply free_count_alloc cfg s.sectors _ j hjlt hjfree
      · rw [hs_j]
        exact hf
      · intro i hi
        rw [hs_other i hi]
    rw [← hfc, Nat.succ_mul]
    show cfg.FS_PRIV_USABLE_SIZE - 0 + _ = _
    omega
  · show (if k = handle then _ else _ : Option Handle) = _
    rw [if_neg hk]
    rfl

theorem read_sizes_spec (cfg : Cfg) (handle : Nat) :
    ∀ (sizes : List Nat) (s : State) (h : Handle) (bytes : List Nat),
      s.handles handle = some h → h.mode = .FS_MODE_READONLY →
      at_pos cfg s.sectors h bytes →
      (read_sizes cfg handle sizes s).1 = bytes.take sizes.sum ∧
      ∃ h1, (read_sizes cfg handle sizes s).2.handles handle = some h1 ∧
        h1.mode = .FS_MODE_READONLY ∧
        at_pos cfg (read_sizes cfg handle sizes s).2.sectors h1 (bytes.drop sizes.sum) := by
  intro sizes
  induction sizes with
  | nil =>
    intro s h bytes hh hm hp
    exact ⟨rfl, h, hh, hm, hp⟩
  | cons n sizes ih =>
    intro s h bytes hh hm hp
    obtain ⟨c1, c2⟩ := fs_read_spec cfg s handle n h bytes hh hm hp
    unfold read_sizes
    rw [List.sum_cons]
    by_cases hb : bytes = []
    · rw [c1 hb]
      obtain ⟨i1, h1, i2, i3, i4⟩ := ih s h bytes hh hm hp
      refine ⟨?_, h1, i2, i3, ?_⟩
      · show [] ++ (read_sizes cfg handle sizes s).1 = _
        rw [List.nil_append, i1, hb]
        simp only [List.take_nil]
      · rw [hb] at i4 ⊢
        simp only [List.drop_nil] at i4 ⊢
        exact i4
    · obtain ⟨h1, e1, g1, g2⟩ := c2 hb
      rw [e1]
      obtain ⟨i1, h2, i2, i3, i4⟩ := ih (s.set_handle handle (some h1)) h1 (bytes.drop n)
        (by show (if handle = handle then _ else _ : Option Handle) = _; rw [if_pos rfl]) g1 g2
      refine ⟨?_, h2, i2, i3, ?_⟩
      · show bytes.take n ++ (read_sizes cfg handle sizes (s.set_handle handle (some h1))).1 = _
        rw [i1, List.take_add]
      · rw [List.drop_drop] at i4
        exact i4

end Fs
namespace Fs

/-- C27: file write/read round trip. On a device of at most 255 sectors with a non-empty
data region and at least one session slot per sector, in which no link leads to a free
sector, the file `f` does not exist, a handle is free and at least one sector is free,
take any buffers whose total length `k` does not exceed the user bytes of the free
sectors (the whole capacity on a free device). Then `fs_open` in Create mode returns
NoError, every `fs_write` of a buffer returns NoError with the whole buffer written
(whatever the cut into buffers, also byte by byte across sector boundaries), `fs_close`
returns NoError, `fs_open` in ReadOnly mode returns NoError, a read of `n >= k` bytes
returns exactly the `k` bytes written, in order (with NoError, or EndOfFile when `k = 0`),
every further read returns EndOfFile with no byte, and successive reads of any sizes
return the bytes written up to the sum of the sizes. -/
theorem file_round_trip (cfg : Cfg) (s : State) (f uf n : Nat) (bufs : List (List Nat))
    (sizes : List Nat)
    (hN : cfg.FS_PRIV_MAX_SECTORS ≤ 255) (hU : 0 < cfg.FS_PRIV_USABLE_SIZE)
    (hS : 0 < cfg.FS_PRIV_NUM_WRITE_SESSIONS) (hf : f < 255)
    (hnew : ∀ i, i < cfg.FS_PRIV_MAX_SECTORS → (s.sectors i).file_id ≠ f)
    (hlinks : links_ok cfg s.sectors)
    (hhandle : ∃ h, h < cfg.FS_PRIV_MAX_HANDLES ∧ s.handles h = none)
    (hfree : 0 < free_count cfg s.sectors)
    (hcap : bufs.flatten.length ≤ free_count cfg s.sectors * cfg.FS_PRIV_USABLE_SIZE)
    (hn : bufs.flatten.length ≤ n) :
    ∃ (s1 : State) (hw : Nat) (s2 s3 s4 : State) (hr : Nat) (s5 : State) (fl : Nat),
      fs_open cfg s f .FS_MODE_CREATE uf = (.FS_NO_ERROR, s1, hw, uf % 64) ∧
      write_chunks cfg hw bufs s1 = some s2 ∧
      fs_close cfg s2 hw = (.FS_NO_ERROR, s3) ∧
      fs_open cfg s3 f .FS_MODE_READONLY 0 = (.FS_NO_ERROR, s4, hr, fl) ∧
      fs_read cfg s4 hr n =
        (if bufs.flatten = [] then .FS_ERROR_END_OF_FILE else .FS_NO_ERROR, s5, bufs.flatten) ∧
      (∀ m, fs_read cfg s5 hr m = (.FS_ERROR_END_OF_FILE, s5, [])) ∧
      (read_sizes cfg hr sizes s4).1 = bufs.flatten.take sizes.sum := by
  have hf2 : f ≠ FS_FILE_ID_NONE := by
    unfold FS_FILE_ID_NONE; omega
  obtain ⟨h0, h0lt, h0none⟩ := hhandle
  obtain ⟨hw, hh, hwlt, _⟩ := free_handle_spec cfg s h0 h0lt h0none
  obtain ⟨s1, hd, j, e1, g1, w1, a1, _⟩ :=
    fs_open_create_writing cfg s f uf hw hN hf2 hU hS hnew hlinks hfree hh
  obtain ⟨s2, h2, rest2, e2, g2, w2, _⟩ :=
    write_chunks_spec cfg hw f j hN hf2 hU hS bufs s1 hd [] [] g1 w1 (by rw [a1]; exact hcap)
  rw [List.nil_append] at w2
  obtain ⟨s3, e3, hfile, hcontent, g3, _⟩ := fs_close_spec cfg s2 hw f j rest2 h2 _ g2 w2
  obtain ⟨hr, hh3, _, _⟩ := free_handle_spec cfg s3 hw hwlt g3
  obtain ⟨e4, hp⟩ := fs_open_readonly_spec cfg s3 f 0 j hr rest2 hN hf2 hfile hh3
  rw [hcontent] at hp
  have g4 : (s3.set_handle hr (some (Handle.opened f .FS_MODE_READONLY j j 0))).handles hr =
      some (Handle.opened f .FS_MODE_READONLY j j 0) := by
    show (if hr = hr then _ else _ : Option Handle) = _
    rw [if_pos rfl]
  have hp4 : at_pos cfg (s3.set_handle hr
      (some (Handle.opened f .FS_MODE_READONLY j j 0))).sectors
      (Handle.opened f .FS_MODE_READONLY j j 0) bufs.flatten := hp
  obtain ⟨c1, c2⟩ := fs_read_spec cfg _ hr n _ bufs.flatten g4 rfl hp4
  obtain ⟨r1, _⟩ := read_sizes_spec cfg hr sizes _ _ bufs.flatten g4 rfl hp4
  by_cases hb : bufs.flatten = []
  · refine ⟨s1, hw, s2, s3, _, hr,
      s3.set_handle hr (some (Handle.opened f .FS_MODE_READONLY j j 0)), _, e1, e2, e3, e4, ?_,
      fun m => ?_, r1⟩
    · rw [if_pos hb, c1 hb, hb]
    · exact (fs_read_spec cfg _ hr m _ bufs.flatten g4 rfl hp4).1 hb
  · obtain ⟨h5, e5, m5, p5⟩ := c2 hb
    rw [List.take_of_length_le hn] at e5
    rw [List.drop_eq_nil_of_le hn] at p5
    refine ⟨s1, hw, s2, s3, _, hr,
      (s3.set_handle hr (some (Handle.opened f .FS_MODE_READONLY j j 0))).set_handle hr
        (some h5), _, e1, e2, e3, e4, ?_, fun m => ?_, r1⟩
    · rw [if_neg hb, e5]
    · exact (fs_read_spec cfg
        ((s3.set_handle hr (some (Handle.opened f .FS_MODE_READONLY j j 0))).set_handle hr
          (some h5)) hr m h5 []
        (by show (if hr = hr then some h5 else _ : Option Handle) = _; rw [if_pos rfl]) m5 p5).1
        rfl

end Fs
namespace Fs

theorem erased_device_links_ok (cfg : Cfg) (hN : cfg.FS_PRIV_MAX_SECTORS ≤ 255) :
    links_ok cfg erased_device.sectors := by
  intro i j _ hj _ e
  have e2 : (255 : Nat) = j := e
  omega

theorem file_round_trip_witness :
    ∃ (s1 : State) (hw : Nat) (s2 s3 s4 : State) (hr : Nat) (s5 : State) (fl : Nat),
      fs_open small_cfg erased_device 0 .FS_MODE_CREATE 7 = (.FS_NO_ERROR, s1, hw, 7 % 64) ∧
      write_chunks small_cfg hw demo_bufs s1 = some s2 ∧
      fs_close small_cfg s2 hw = (.FS_NO_ERROR, s3) ∧
      fs_open small_cfg s3 0 .FS_MODE_READONLY 0 = (.FS_NO_ERROR, s4, hr, fl) ∧
      fs_read small_cfg s4 hr 256 =
        (if demo_bufs.flatten = [] then .FS_ERROR_END_OF_FILE else .FS_NO_ERROR, s5,
          demo_bufs.flatten) ∧
      (∀ m, fs_read small_cfg s5 hr m = (.FS_ERROR_END_OF_FILE, s5, [])) ∧
      (read_sizes small_cfg hr [1, 1, 2, 3] s4).1 = demo_bufs.flatten.take [1, 1, 2, 3].sum :=
  file_round_trip small_cfg erased_device 0 7 256 demo_bufs [1, 1, 2, 3] (by decide) (by decide)
    (by decide) (by decide) (fun _ _ => (by decide : (255 : Nat) ≠ 0)) (erased_device_links_ok small_cfg (by decide))
    ⟨0, by decide, rfl⟩ (by decide!) (by decide!) (by decide!)

/-- The round trip evaluated on the small geometry (8 sectors of 4 bytes). Eleven bytes
written in four buffers over three sectors are read back in one read, and the next read
returns EndOfFile; read byte by byte they come back in order; 32 bytes written one at a
time fill the eight sectors and are read back whole, and a 33rd byte is refused with
FileSystemFull; an empty file reads EndOfFile at once. -/
theorem file_round_trip_demo_runs :
    (fs_read small_cfg (reopened_device demo_bufs) 0 256).1 = .FS_NO_ERROR ∧
    (fs_read small_cfg (reopened_device demo_bufs) 0 256).2.2 =
      [1, 2, 3, 4, 5, 6, 7, 8, 9, 10, 11] ∧
    (fs_read small_cfg (fs_read small_cfg (reopened_device demo_bufs) 0 256).2.1 0 256).1 =
      .FS_ERROR_END_OF_FILE ∧
    (read_sizes small_cfg 0 (List.replicate 11 1) (reopened_device demo_bufs)).1 =
      [1, 2, 3, 4, 5, 6, 7, 8, 9, 10, 11] ∧
    file_ids small_cfg (written_device demo_bufs) = [0, 0, 0, 255, 255, 255, 255, 255] ∧
    (fs_read small_cfg (reopened_device full_bufs) 0 32).2.2 = List.range 32 ∧
    file_ids small_cfg (written_device full_bufs) = [0, 0, 0, 0, 0, 0, 0, 0] ∧
    (write_chunks small_cfg 0 (full_bufs ++ [[32]])
      (fs_open small_cfg erased_device 0 .FS_MODE_CREATE 7).2.1).isNone = true ∧
    (fs_read small_cfg (reopened_device []) 0 256).1 = .FS_ERROR_END_OF_FILE := by
  decide!

end Fs

namespace Fs

theorem is_protected_set (x : Nat) : is_protected (set_protected x) = true := by
  unfold set_protected
  by_cases h : is_protected x = true
  · rw [if_pos h]
    exact h
  · rw [if_neg h]
    unfold is_protected at h ⊢
    simp only [beq_iff_eq] at h ⊢
    omega

theorem is_protected_clear (x : Nat) (h : is_protected x = true) :
    is_protected (clear_protected x) = false := by
  unfold clear_protected
  rw [if_pos h]
  unfold is_protected at h ⊢
  simp only [beq_iff_eq, beq_eq_false_iff_ne, ne_eq] at h ⊢
  omega

theorem fs_protect_spec (cfg : Cfg) (s : State) (f root : Nat) (rest : List Nat)
    (hN : cfg.FS_PRIV_MAX_SECTORS ≤ 255) (hf : f ≠ FS_FILE_ID_NONE)
    (hfile : is_file cfg s.sectors f root rest) (hlinks : links_ok cfg s.sectors) :
    ∃ s1, fs_protect cfg s f = (.FS_NO_ERROR, s1) ∧
      is_file cfg s1.sectors f root rest ∧
      content s1.sectors (root :: rest) = content s.sectors (root :: rest) ∧
      is_protected (s1.sectors root).user_flags = true ∧
      links_ok cfg s1.sectors ∧ s1.handles = s.handles ∧
      free_count cfg s1.sectors = free_count cfg s.sectors := by
  have hsec : ∀ i, (s.set_sector root
        { s.sectors root with user_flags := set_protected (s.sectors root).user_flags }).sectors i =
      if i = root then
        { s.sectors root with user_flags := set_protected (s.sectors root).user_flags }
      else s.sectors i := fun _ => rfl
  have hfield : ∀ i, ((s.set_sector root
        { s.sectors root with user_flags := set_protected (s.sectors root).user_flags }).sectors
          i).file_id = (s.sectors i).file_id ∧
      ((s.set_sector root
        { s.sectors root with user_flags := set_protected (s.sectors root).user_flags }).sectors
          i).next_sector = (s.sectors i).next_sector ∧
      ((s.set_sector root
        { s.sectors root with user_flags := set_protected (s.sectors root).user_flags }).sectors
          i).live_data = (s.sectors i).live_data ∧
      ((s.set_sector root
        { s.sectors root with user_flags := set_protected (s.sectors root).user_flags }).sectors
          i).live_length = (s.sectors i).live_length ∧
      ((s.set_sector root
        { s.sectors root with user_flags := set_protected (s.sectors root).user_flags }).sectors
          i).data = (s.sectors i).data := by
    intro i
    by_cases hi : i = root
    · rw [hsec, if_pos hi, hi]
      exact ⟨rfl, rfl, rfl, rfl, rfl⟩
    · rw [hsec, if_neg hi]
      exact ⟨rfl, rfl, rfl, rfl, rfl⟩
  refine ⟨s.set_sector root
      { s.sectors root with user_flags := set_protected (s.sectors root).user_flags },
    by unfold fs_protect; rw [find_root_of_file cfg s f root rest hN hf hfile], ?_, ?_,
    ?_, ?_, rfl, free_count_congr cfg _ _ (fun i => (hfield i).1)⟩
  · exact is_file_update cfg s.sectors _ f root rest hfile (fun i => (hfield i).1)
      (fun i => (hfield i).2.1) (fun i hi => by
        rw [(hfield i).2.2.2.1, (hfield i).2.2.2.2]
        exact hfile.live_ok i hi)
  · exact content_congr _ _ _ (fun i _ => (hfield i).2.2.1)
  · rw [hsec, if_pos rfl]
    exact is_protected_set _
  · intro i j hi hj hfree
    rw [(hfield i).2.1]
    rw [(hfield j).1] at hfree
    exact hlinks i j hi hj hfree

end Fs
namespace Fs

theorem live_data_rewritten (L : List Nat) :
    ({ file_id := 0, user_flags := 0, next_sector := 0, allocation_counter := 0,
       session_records := if L = [] then [] else [L.length], data := L } : Sector).live_data = L ∧
    ({ file_id := 0, user_flags := 0, next_sector := 0, allocation_counter := 0,
       session_records := if L = [] then [] else [L.length], data := L } :
        Sector).live_length ≤ L.length := by
  by_cases h : L = []
  · subst h
    exact ⟨rfl, Nat.le_refl _⟩
  · constructor
    · show List.take (List.foldl max 0 (if L = [] then [] else [L.length])) L = L
      rw [if_neg h]
      show List.take (max 0 L.length) L = L
      rw [Nat.zero_max, List.take_length]
    · show List.foldl max 0 (if L = [] then [] else [L.length]) ≤ L.length
      rw [if_neg h]
      show max 0 L.length ≤ L.length
      rw [Nat.zero_max]

theorem fs_unprotect_spec (cfg : Cfg) (s : State) (f root j : Nat) (rest : List Nat)
    (hN : cfg.FS_PRIV_MAX_SECTORS ≤ 255) (hf : f ≠ FS_FILE_ID_NONE)
    (hfile : is_file cfg s.sectors f root rest) (hlinks : links_ok cfg s.sectors)
    (hprot : is_protected (s.sectors root).user_flags = true)
    (hj : find_free cfg s = some j) :
    ∃ s2, fs_unprotect cfg s f = (.FS_NO_ERROR, s2) ∧
      is_file cfg s2.sectors f j rest ∧
      content s2.sectors (j :: rest) = content s.sectors (root :: rest) ∧
      is_protected (s2.sectors j).user_flags = false ∧
      s2.handles = s.handles ∧
      free_count cfg s2.sectors = free_count cfg s.sectors := by
  obtain ⟨hjlt, hjfree, _⟩ := find_free_some cfg s j hj
  have hrootmem : root ∈ root :: rest := List.mem_cons_self _ _
  have hjnot : j ∉ root :: rest := by
    intro hmem
    have := hfile.ids j hmem
    rw [hjfree] at this
    exact hf this.symm
  have hrj : root ≠ j := fun e => hjnot (e ▸ hrootmem)
  have hrnot : root ∉ rest := (List.nodup_cons.mp hfile.nodup).1
  obtain ⟨s2, hs2⟩ : ∃ s2 : State, s2 =
      (s.set_sector j
        { file_id := f,
          user_flags := clear_protected (s.sectors root).user_flags,
          next_sector := (s.sectors root).next_sector,
          allocation_counter := u32 ((s.sectors j).allocation_counter + 1),
          session_records :=
            if (s.sectors root).live_data = [] then []
            else [(s.sectors root).live_data.length],
          data := (s.sectors root).live_data }).set_sector root
        (Sector.free_header (u32 ((s.sectors root).allocation_counter + 1))) := ⟨_, rfl⟩
  have hs_root : s2.sectors root =
      Sector.free_header (u32 ((s.sectors root).allocation_counter + 1)) := by
    rw [hs2]
    show (if root = root then _ else _ : Sector) = _
    rw [if_pos rfl]
  have hs_j : s2.sectors j =
      { file_id := f,
        user_flags := clear_protected (s.sectors root).user_flags,
        next_sector := (s.sectors root).next_sector,
        allocation_counter := u32 ((s.sectors j).allocation_counter + 1),
        session_records :=
          if (s.sectors root).live_data = [] then []
          else [(s.sectors root).live_data.length],
        data := (s.sectors root).live_data } := by
    rw [hs2]
    show (if j = root then _ else (if j = j then _ else _) : Sector) = _
    rw [if_neg (Ne.symm hrj), if_pos rfl]
  have hs_other : ∀ i, i ≠ root → i ≠ j → s2.sectors i = s.sectors i := by
    intro i h1 h2
    rw [hs2]
    show (if i = root then _ else (if i = j then _ else _) : Sector) = _
    rw [if_neg h1, if_neg h2]
  have hrest : ∀ i, i ∈ rest → s2.sectors i = s.sectors i := by
    intro i hi
    exact hs_other i (fun e => hrnot (e ▸ hi))
      (fun e => hjnot (List.mem_cons_of_mem _ (e ▸ hi)))
  have hlive := live_data_rewritten (s.sectors root).live_data
  have hlj : (s2.sectors j).live_data = (s.sectors root).live_data := by
    rw [hs_j]
    exact hlive.1
  refine ⟨s2, ?_, ?_, ?_, ?_, ?_, ?_⟩
  · unfold fs_unprotect
    rw [find_root_of_file cfg s f root rest hN hf hfile]
    simp only [hprot, if_true, hj]
    rw [hs2]
  · refine
      { nodup := List.nodup_cons.mpr
          ⟨fun hmem => hjnot (List.mem_cons_of_mem _ hmem), (List.nodup_cons.mp hfile.nodup).2⟩
        lt := fun i hi => ?_
        ids := fun i hi => ?_
        all := fun i hi hfi => ?_
        links := ?_
        unpointed := fun i hi => ?_
        live_ok := fun i hi => ?_ }
    · rcases List.mem_cons.mp hi with h1 | h1
      · rw [h1]
        exact hjlt
      · exact hfile.lt i (List.mem_cons_of_mem _ h1)
    · rcases List.mem_cons.mp hi with h1 | h1
      · rw [h1, hs_j]
      · rw [hrest i h1]
        exact hfile.ids i (List.mem_cons_of_mem _ h1)
    · by_cases hij : i = j
      · rw [hij]
        exact List.mem_cons_self _ _
      · by_cases hir : i = root
        · rw [hir, hs_root] at hfi
          exact absurd hfi.symm hf
        · rw [hs_other i hir hij] at hfi
          rcases List.mem_cons.mp (hfile.all i hi hfi) with h1 | h1
          · exact absurd h1 hir
          · exact List.mem_cons_of_mem _ h1
    · have hl := hfile.links
      cases rest with
      | nil =>
        show (s2.sectors j).next_sector = FS_PRIV_NOT_ALLOCATED
        rw [hs_j]
        exact hl
      | cons b l =>
        refine ⟨?_, linked_congr s.sectors s2.sectors _ (fun i hi => ?_) hl.2⟩
        · rw [hs_j]
          exact hl.1
        · rw [hrest i hi]
    · have hj255 : j < 255 := Nat.lt_of_lt_of_le hjlt hN
      by_cases hir : i = root
      · rw [hir, hs_root]
        show (255 : Nat) ≠ j
        omega
      · by_cases hij : i = j
        · rw [hij, hs_j]
          exact hlinks root j (hfile.lt root hrootmem) hjlt hjfree
        · rw [hs_other i hir hij]
          exact hlinks i j hi hjlt hjfree
    · rcases List.mem_cons.mp hi with h1 | h1
      · rw [h1, hs_j]
        exact hlive.2
      · rw [hrest i h1]
        exact hfile.live_ok i (List.mem_cons_of_mem _ h1)
  · rw [content_cons, content_cons, hlj]
    congr 1
    exact content_congr _ _ _ (fun i hi => by rw [hrest i hi])
  · rw [hs_j]
    exact is_protected_clear _ hprot
  · rw [hs2]
    rfl
  · -- one sector taken, one sector released
    have h1 : free_count cfg (s.set_sector j (s2.sectors j)).sectors + 1 =
        free_count cfg s.sectors := by
      apply free_count_alloc cfg s.sectors _ j hjlt hjfree
      · show (if j = j then s2.sectors j else _ : Sector).file_id ≠ _
        rw [if_pos rfl, hs_j]
        exact hf
      · intro i hi
        show (if i = j then _ else _ : Sector).file_id = _
        rw [if_neg hi]
    have h2 : free_count cfg (s.set_sector j (s2.sectors j)).sectors + 1 =
        free_count cfg s2.sectors := by
      apply free_count_alloc cfg s2.sectors _ root (hfile.lt root hrootmem)
      · rw [hs_root]
        rfl
      · show (if root = j then _ else s.sectors root : Sector).file_id ≠ _
        rw [if_neg hrj, hfile.ids root hrootmem]
        exact hf
      · intro i hi
        show (if i = j then s2.sectors j else s.sectors i : Sector).file_id = _
        by_cases hij : i = j
        · rw [if_pos hij, hij]
        · rw [if_neg hij, hs_other i hi hij]
    omega

end Fs
namespace Fs

theorem avail_ge (cfg : Cfg) (s : State) (h : Handle) :
    free_count cfg s.sectors * cfg.FS_PRIV_USABLE_SIZE ≤ avail cfg s h := by
  unfold avail
  exact Nat.le_add_left _ _

theorem fs_delete_protected (cfg : Cfg) (s : State) (f root : Nat) (rest : List Nat)
    (hN : cfg.FS_PRIV_MAX_SECTORS ≤ 255) (hf : f ≠ FS_FILE_ID_NONE)
    (hfile : is_file cfg s.sectors f root rest)
    (hprot : is_protected (s.sectors root).user_flags = true) :
    fs_delete cfg s f = (.FS_ERROR_FILE_PROTECTED, s) := by
  unfold fs_delete
  simp only [find_root_of_file cfg s f root rest hN hf hfile, hprot, if_true]

/-- The read of a whole file through a fresh ReadOnly handle. -/
theorem read_whole_file (cfg : Cfg) (s : State) (f root n : Nat) (rest : List Nat)
    (hN : cfg.FS_PRIV_MAX_SECTORS ≤ 255) (hf : f ≠ FS_FILE_ID_NONE)
    (hfile : is_file cfg s.sectors f root rest)
    (hhandle : ∃ h, h < cfg.FS_PRIV_MAX_HANDLES ∧ s.handles h = none)
    (hn : (content s.sectors (root :: rest)).length ≤ n) :
    ∃ (s1 : State) (hr : Nat) (fl : Nat) (s2 : State),
      fs_open cfg s f .FS_MODE_READONLY 0 = (.FS_NO_ERROR, s1, hr, fl) ∧
      fs_read cfg s1 hr n =
        (if content s.sectors (root :: rest) = [] then .FS_ERROR_END_OF_FILE
          else .FS_NO_ERROR, s2, content s.sectors (root :: rest)) := by
  obtain ⟨h0, h0lt, h0none⟩ := hhandle
  obtain ⟨hr, hh, _, _⟩ := free_handle_spec cfg s h0 h0lt h0none
  obtain ⟨e4, hp⟩ := fs_open_readonly_spec cfg s f 0 root hr rest hN hf hfile hh
  have g4 : (s.set_handle hr (some (Handle.opened f .FS_MODE_READONLY root root 0))).handles hr =
      some (Handle.opened f .FS_MODE_READONLY root root 0) := by
    show (if hr = hr then _ else _ : Option Handle) = _
    rw [if_pos rfl]
  have hp4 : at_pos cfg (s.set_handle hr
      (some (Handle.opened f .FS_MODE_READONLY root root 0))).sectors
      (Handle.opened f .FS_MODE_READONLY root root 0) (content s.sectors (root :: rest)) := hp
  obtain ⟨c1, c2⟩ := fs_read_spec cfg _ hr n _ _ g4 rfl hp4
  by_cases hb : content s.sectors (root :: rest) = []
  · refine ⟨_, hr, _, s.set_handle hr (some (Handle.opened f .FS_MODE_READONLY root root 0)),
      e4, ?_⟩
    rw [if_pos hb, c1 hb, hb]
  · obtain ⟨h5, e5, _, _⟩ := c2 hb
    rw [List.take_of_length_le hn] at e5
    refine ⟨_, hr, _,
      (s.set_handle hr (some (Handle.opened f .FS_MODE_READONLY root root 0))).set_handle hr
        (some h5), e4, ?_⟩
    rw [if_neg hb, e5]

/-- C28: file protection. Let the file `f` exist (it is made of a chain of sectors) on a
device of at most 255 sectors in which no link leads to a free sector, with a free handle
and a free sector. `fs_protect` returns NoError; afterwards `fs_open` in WriteOnly mode
fails with FileProtected (as does `fs_delete`), while `fs_open` in ReadOnly mode returns
NoError and a read of at least the size of the file returns its whole content.
`fs_unprotect` then returns NoError, `fs_open` in WriteOnly mode returns NoError, buffers
whose total length fits the free sectors are written with NoError, and after `fs_close`
the file read back holds the original content followed by the appended bytes. -/
theorem file_protection (cfg : Cfg) (s : State) (f root n m : Nat) (rest : List Nat)
    (more : List (List Nat))
    (hN : cfg.FS_PRIV_MAX_SECTORS ≤ 255) (hU : 0 < cfg.FS_PRIV_USABLE_SIZE)
    (hS : 0 < cfg.FS_PRIV_NUM_WRITE_SESSIONS) (hf : f < 255)
    (hfile : is_file cfg s.sectors f root rest) (hlinks : links_ok cfg s.sectors)
    (hhandle : ∃ h, h < cfg.FS_PRIV_MAX_HANDLES ∧ s.handles h = none)
    (hfree : 0 < free_count cfg s.sectors)
    (hcap : more.flatten.length ≤ free_count cfg s.sectors * cfg.FS_PRIV_USABLE_SIZE)
    (hn : (content s.sectors (root :: rest)).length ≤ n)
    (hm : (content s.sectors (root :: rest)).length + more.flatten.length ≤ m) :
    ∃ (s1 : State),
      fs_protect cfg s f = (.FS_NO_ERROR, s1) ∧
      fs_open cfg s1 f .FS_MODE_WRITEONLY 0 = (.FS_ERROR_FILE_PROTECTED, s1, 0, 0) ∧
      fs_delete cfg s1 f = (.FS_ERROR_FILE_PROTECTED, s1) ∧
      (∃ (sr : State) (hr : Nat) (fl : Nat) (sr2 : State),
        fs_open cfg s1 f .FS_MODE_READONLY 0 = (.FS_NO_ERROR, sr, hr, fl) ∧
        fs_read cfg sr hr n =
          (if content s.sectors (root :: rest) = [] then .FS_ERROR_END_OF_FILE
            else .FS_NO_ERROR, sr2, content s.sectors (root :: rest))) ∧
      ∃ (s2 s3 : State) (hw fl : Nat) (s4 s5 s6 : State) (hr fl2 : Nat) (s7 : State),
        fs_unprotect cfg s1 f = (.FS_NO_ERROR, s2) ∧
        fs_open cfg s2 f .FS_MODE_WRITEONLY 0 = (.FS_NO_ERROR, s3, hw, fl) ∧
        write_chunks cfg hw more s3 = some s4 ∧
        fs_close cfg s4 hw = (.FS_NO_ERROR, s5) ∧
        fs_open cfg s5 f .FS_MODE_READONLY 0 = (.FS_NO_ERROR, s6, hr, fl2) ∧
        fs_read cfg s6 hr m =
          (if content s.sectors (root :: rest) ++ more.flatten = [] then .FS_ERROR_END_OF_FILE
            else .FS_NO_ERROR, s7, content s.sectors (root :: rest) ++ more.flatten) := by
  have hf2 : f ≠ FS_FILE_ID_NONE := by
    unfold FS_FILE_ID_NONE; omega
  obtain ⟨h0, h0lt, h0none⟩ := hhandle
  obtain ⟨s1, e1, file1, c1, p1, links1, k1, fc1⟩ :=
    fs_protect_spec cfg s f root rest hN hf2 hfile hlinks
  have hh1 : ∃ h, h < cfg.FS_PRIV_MAX_HANDLES ∧ s1.handles h = none :=
    ⟨h0, h0lt, by rw [k1]; exact h0none⟩
  obtain ⟨sr, hr, fl, sr2, r1, r2⟩ :=
    read_whole_file cfg s1 f root n rest hN hf2 file1 hh1 (by rw [c1]; exact hn)
  rw [c1] at r2
  obtain ⟨x, hx, hxfree⟩ := exists_free_of_pos cfg s1.sectors (by rw [fc1]; exact hfree)
  obtain ⟨j, hj⟩ := find_free_exists cfg s1 x hx hxfree
  obtain ⟨s2, e2, file2, c2, p2, k2, fc2⟩ :=
    fs_unprotect_spec cfg s1 f root j rest hN hf2 file1 links1 p1 hj
  obtain ⟨hw, hhw, hwlt, _⟩ := free_handle_spec cfg s2 h0 h0lt (by rw [k2, k1]; exact h0none)
  obtain ⟨hd, e3, _, w3⟩ := fs_open_writeonly_spec cfg s2 f 0 j hw rest hN hf2 file2 p2 hhw
  have g3 : (s2.set_handle hw (some hd)).handles hw = some hd := by
    show (if hw = hw then _ else _ : Option Handle) = _
    rw [if_pos rfl]
  have w3b : writing cfg (s2.set_handle hw (some hd)).sectors f j rest hd
      (content s2.sectors (j :: rest)) := w3
  have hav : more.flatten.length ≤ avail cfg (s2.set_handle hw (some hd)) hd := by
    have h1 := avail_ge cfg (s2.set_handle hw (some hd)) hd
    have h2 : free_count cfg (s2.set_handle hw (some hd)).sectors =
        free_count cfg s.sectors := by
      show free_count cfg s2.sectors = _
      rw [fc2, fc1]
    rw [h2] at h1
    exact Nat.le_trans hcap h1
  obtain ⟨s4, h4, rest4, e4, g4, w4, k4⟩ :=
    write_chunks_spec cfg hw f j hN hf2 hU hS more _ hd rest _ g3 w3b hav
  obtain ⟨s5, e5, file5, c5, g5, k5, _⟩ := fs_close_spec cfg s4 hw f j rest4 h4 _ g4 w4
  rw [c2, c1] at c5
  obtain ⟨s6, hr2, fl2, s7, r3, r4⟩ :=
    read_whole_file cfg s5 f j m rest4 hN hf2 file5 ⟨hw, hwlt, g5⟩ (by
      rw [c5, List.length_append]; exact hm)
  rw [c5] at r4
  exact ⟨s1, e1, fs_open_writeonly_protected cfg s1 f 0 root rest hN hf2 file1 p1,
    fs_delete_protected cfg s1 f root rest hN hf2 file1 p1, ⟨sr, hr, fl, sr2, r1, r2⟩,
    s2, _, hw, _, s4, s5, s6, hr2, fl2, s7, e2, e3, e4, e5, r3, r4⟩

end Fs
namespace Fs

theorem written_device_is_file :
    is_file small_cfg (written_device demo_bufs).sectors 0 0 [1, 2] :=
  { nodup := by decide
    lt := by decide
    ids := by decide!
    all := by decide!
    links := by
      show _ = 1 ∧ _ = 2 ∧ _ = FS_PRIV_NOT_ALLOCATED
      decide!
    unpointed := by decide!
    live_ok := by decide! }

theorem written_device_links_ok : links_ok small_cfg (written_device demo_bufs).sectors :=
  fun i j hi hj =>
    (by decide! : ∀ i, i < 8 → ∀ j, j < 8 →
      ((written_device demo_bufs).sectors j).file_id = FS_FILE_ID_NONE →
      ((written_device demo_bufs).sectors i).next_sector ≠ j) i hi j hj

theorem file_protection_witness :
    ∃ (s1 : State),
      fs_protect small_cfg (written_device demo_bufs) 0 = (.FS_NO_ERROR, s1) ∧
      fs_open small_cfg s1 0 .FS_MODE_WRITEONLY 0 = (.FS_ERROR_FILE_PROTECTED, s1, 0, 0) ∧
      fs_delete small_cfg s1 0 = (.FS_ERROR_FILE_PROTECTED, s1) ∧
      (∃ (sr : State) (hr : Nat) (fl : Nat) (sr2 : State),
        fs_open small_cfg s1 0 .FS_MODE_READONLY 0 = (.FS_NO_ERROR, sr, hr, fl) ∧
        fs_read small_cfg sr hr 256 =
          (if content (written_device demo_bufs).sectors (0 :: [1, 2]) = [] then
              .FS_ERROR_END_OF_FILE
            else .FS_NO_ERROR, sr2, content (written_device demo_bufs).sectors (0 :: [1, 2]))) ∧
      ∃ (s2 s3 : State) (hw fl : Nat) (s4 s5 s6 : State) (hr fl2 : Nat) (s7 : State),
        fs_unprotect small_cfg s1 0 = (.FS_NO_ERROR, s2) ∧
        fs_open small_cfg s2 0 .FS_MODE_WRITEONLY 0 = (.FS_NO_ERROR, s3, hw, fl) ∧
        write_chunks small_cfg hw [[12, 13], [14]] s3 = some s4 ∧
        fs_close small_cfg s4 hw = (.FS_NO_ERROR, s5) ∧
        fs_open small_cfg s5 0 .FS_MODE_READONLY 0 = (.FS_NO_ERROR, s6, hr, fl2) ∧
        fs_read small_cfg s6 hr 256 =
          (if content (written_device demo_bufs).sectors (0 :: [1, 2]) ++
                [[12, 13], [14]].flatten = [] then .FS_ERROR_END_OF_FILE
            else .FS_NO_ERROR, s7,
            content (written_device demo_bufs).sectors (0 :: [1, 2]) ++
              [[12, 13], [14]].flatten) :=
  file_protection small_cfg (written_device demo_bufs) 0 0 256 256 [1, 2] [[12, 13], [14]]
    (by decide) (by decide) (by decide) (by decide) written_device_is_file
    written_device_links_ok ⟨0, by decide, by decide!⟩ (by decide!) (by decide!) (by decide!) (by decide!)

end Fs
namespace Fs

/-- The protection tests evaluated on the small geometry, with file 0 holding the bytes 1
to 11: after `fs_protect` the file reads as protected, opening it in WriteOnly mode and
deleting it fail with FileProtected, and it is read back whole; after `fs_unprotect` it
reads as unprotected, it is opened in WriteOnly mode, the bytes 12, 13, 14 are appended,
and the file read back holds 1 to 14; it can then be deleted. -/
theorem file_protection_demo_runs :
    (fs_protect small_cfg (written_device demo_bufs) 0).1 = .FS_NO_ERROR ∧
    (fs_stat small_cfg protected_device 0).2.2.2.2 = true ∧
    (fs_open small_cfg protected_device 0 .FS_MODE_WRITEONLY 0).1 = .FS_ERROR_FILE_PROTECTED ∧
    (fs_delete small_cfg protected_device 0).1 = .FS_ERROR_FILE_PROTECTED ∧
    (fs_open small_cfg protected_device 0 .FS_MODE_READONLY 0).1 = .FS_NO_ERROR ∧
    (fs_read small_cfg (fs_open small_cfg protected_device 0 .FS_MODE_READONLY 0).2.1 0 256).2.2 =
      [1, 2, 3, 4, 5, 6, 7, 8, 9, 10, 11] ∧
    (fs_unprotect small_cfg protected_device 0).1 = .FS_NO_ERROR ∧
    (fs_stat small_cfg unprotected_device 0).2.2.2.2 = false ∧
    (fs_stat small_cfg unprotected_device 0).2.1 = 11 ∧
    file_ids small_cfg unprotected_device = [255, 0, 0, 0, 255, 255, 255, 255] ∧
    (fs_open small_cfg unprotected_device 0 .FS_MODE_WRITEONLY 0).1 = .FS_NO_ERROR ∧
    (fs_read small_cfg (fs_open small_cfg appended_device 0 .FS_MODE_READONLY 0).2.1 0 256).2.2 =
      [1, 2, 3, 4, 5, 6, 7, 8, 9, 10, 11, 12, 13, 14] ∧
    (fs_delete small_cfg appended_device 0).1 = .FS_NO_ERROR ∧
    file_ids small_cfg (fs_delete small_cfg appended_device 0).2 =
      [255, 255, 255, 255, 255, 255, 255, 255] := by
  decide!

end Fs

/-! ## The reed switch and the Bluetooth trigger (C36) -/

theorem lor_ne_zero (x b : Nat) (h : b ≠ 0) : Nat.lor x b ≠ 0 := by
  intro h0
  obtain ⟨i, hi⟩ := Nat.ne_zero_implies_bit_true h
  have h1 : (x ||| b).testBit i = true := by
    rw [Nat.testBit_or, hi, Bool.or_true]
  have h2 : (x ||| b) = 0 := h0
  rw [h2, Nat.zero_testBit] at h1
  exact Bool.noConfusion h1

/-- With the trigger-control tag set, `gpio_reed_sw_callback` reads the reed switch and
sets or clears the REED_SWITCH bit of `ble_state` whatever the flags of the tag are: the
condition ors the flags with the non-zero constant. -/
theorem gpio_reed_sw_callback_tag_set (c : Ctx) (s : State)
    (hset : s.hdr_set c.P.tag.BLUETOOTH_TRIGGER_CONTROL = true)
    (hbit : c.P.SYS_CONFIG_TAG_BLUETOOTH_TRIGGER_CONTROL_REED_SWITCH ≠ 0) :
    gpio_reed_sw_callback c s = .ok ()
      { s.record .syshal_gpio_get_input_REED_SW with
        ble_state :=
          if c.env.syshal_gpio_get_input_REED_SW s.trace then
            Nat.land s.ble_state
              (Nat.xor 255 (c.P.SYS_CONFIG_TAG_BLUETOOTH_TRIGGER_CONTROL_REED_SWITCH % 256))
          else
            Nat.lor s.ble_state
              (c.P.SYS_CONFIG_TAG_BLUETOOTH_TRIGGER_CONTROL_REED_SWITCH % 256) } := by
  have hne : (Nat.lor (s.contents_value c.P.tag.BLUETOOTH_TRIGGER_CONTROL)
      c.P.SYS_CONFIG_TAG_BLUETOOTH_TRIGGER_CONTROL_REED_SWITCH != 0) = true := by
    rw [bne_iff_ne]
    exact lor_ne_zero _ _ hbit
  unfold gpio_reed_sw_callback
  simp only [bind_apply, getParams, getState, hset, hne, Bool.and_self, if_true, ask,
    ite_apply, modifyState, State.record]
  cases c.env.syshal_gpio_get_input_REED_SW s.trace <;> rfl

/-- With the trigger-control tag not set, `gpio_reed_sw_callback` changes nothing. -/
theorem gpio_reed_sw_callback_tag_unset (c : Ctx) (s : State)
    (hset : s.hdr_set c.P.tag.BLUETOOTH_TRIGGER_CONTROL = false) :
    gpio_reed_sw_callback c s = .ok () s := by
  unfold gpio_reed_sw_callback
  simp only [bind_apply, getParams, getState, hset, Bool.false_and, Bool.false_eq_true,
    if_false, pure_apply]

/-- C36 (code defect): the Bluetooth trigger-control tag is set with flags that do not
hold the REED_SWITCH bit (0, and 2 for another trigger alone). With the reed switch
input low `gpio_reed_sw_callback` sets the REED_SWITCH bit of `ble_state`, and with the
input high it clears it, although the claim requires `ble_state` to stay as it was: the
condition is `flags | REED_SWITCH`, which is non-zero for every flags value. Only the
first half of the claim holds: with the tag not set `ble_state` is unchanged. -/
theorem gpio_reed_sw_callback_ignores_trigger_flags :
    Nat.land 0 demo_params.SYS_CONFIG_TAG_BLUETOOTH_TRIGGER_CONTROL_REED_SWITCH = 0 ∧
    Nat.land 2 demo_params.SYS_CONFIG_TAG_BLUETOOTH_TRIGGER_CONTROL_REED_SWITCH = 0 ∧
    (ble_trigger_state 0 0).contents_value demo_tag_ids.BLUETOOTH_TRIGGER_CONTROL = 0 ∧
    (ble_trigger_state 2 0).contents_value demo_tag_ids.BLUETOOTH_TRIGGER_CONTROL = 2 ∧
    (gpio_reed_sw_callback (reed_ctx false) (ble_trigger_state 0 0)).state.ble_state = 1 ∧
    (gpio_reed_sw_callback (reed_ctx false) (ble_trigger_state 2 0)).state.ble_state = 1 ∧
    (gpio_reed_sw_callback (reed_ctx true) (ble_trigger_state 2 1)).state.ble_state = 0 ∧
    (gpio_reed_sw_callback (reed_ctx false) (ble_trigger_state 1 0)).state.ble_state = 1 ∧
    (gpio_reed_sw_callback (reed_ctx false) initial_state).state.ble_state = 0 := by
  decide!

/-! ## A GPS fix during a scheduled acquisition (C35) -/

/-- A status event reporting a fix, with GPS logging enabled, the GPS not asleep and no
time-to-first-fix record to log: `syshal_gps_callback` returns, the only call it makes is
`syshal_timer_cancel(timer_gps_interval)`, and the sub-state is Fixed. -/
theorem syshal_gps_callback_fix (c : Ctx) (s : State) (gpsFix ttff : Nat)
    (hen : (!s.enable c.P.tag.GPS_LOG_POSITION_ENABLE &&
      !s.enable c.P.tag.GPS_LOG_TTFF_ENABLE) = false)
    (hfix : gpsFix > 0) (hna : s.sm_gps_state ≠ .SM_GPS_STATE_ASLEEP)
    (hlog : (!s.gps_ttff_reading_logged && s.enable c.P.tag.GPS_LOG_TTFF_ENABLE &&
      s.sensor_logging_enabled) = false) :
    syshal_gps_callback (.SYSHAL_GPS_EVENT_STATUS gpsFix ttff) c s = .ok ()
      { s.record (.syshal_timer_cancel .timer_gps_interval) with
        sm_gps_state := .SM_GPS_STATE_FIXED } := by
  unfold syshal_gps_callback
  simp only [bind_apply, getParams, getState, hen, Bool.false_eq_true, if_false, hfix,
    if_true, hna, ne_eq, not_false_eq_true, hlog, syshal_timer_cancel, call,
    set_sm_gps_state, modifyState, pure_apply, State.record]

/-- C35 (code defect): a scheduled acquisition is running (interval timer periodic,
maximum-acquisition and no-fix timers armed, GPS Acquiring) and a status event reports a
fix. `syshal_gps_callback` sets the sub-state to Fixed, but the one timer it cancels is
`timer_gps_interval`, under the comment "Clear any no fix timer": the periodic interval
timer is no longer armed and the no-fix timer still is. When the no-fix timer then fires,
`timer_gps_no_fix_callback` shuts the GPS down although a fix had been obtained. -/
theorem syshal_gps_callback_fix_cancels_interval_timer :
    gps_acquiring_state.sm_gps_state = .SM_GPS_STATE_ACQUIRING ∧
    timer_armed .timer_gps_interval gps_acquiring_state.trace = true ∧
    timer_armed .timer_gps_no_fix gps_acquiring_state.trace = true ∧
    (syshal_gps_callback (.SYSHAL_GPS_EVENT_STATUS 1 5) demo_ctx
      gps_acquiring_state).returned = true ∧
    (syshal_gps_callback (.SYSHAL_GPS_EVENT_STATUS 1 5) demo_ctx
      gps_acquiring_state).state.sm_gps_state = .SM_GPS_STATE_FIXED ∧
    (syshal_gps_callback (.SYSHAL_GPS_EVENT_STATUS 1 5) demo_ctx
      gps_acquiring_state).state.trace =
        gps_acquiring_state.trace ++ [.syshal_timer_cancel .timer_gps_interval] ∧
    timer_armed .timer_gps_no_fix (syshal_gps_callback (.SYSHAL_GPS_EVENT_STATUS 1 5)
      demo_ctx gps_acquiring_state).state.trace = true ∧
    timer_armed .timer_gps_interval (syshal_gps_callback (.SYSHAL_GPS_EVENT_STATUS 1 5)
      demo_ctx gps_acquiring_state).state.trace = false ∧
    (timer_gps_no_fix_callback demo_ctx (syshal_gps_callback (.SYSHAL_GPS_EVENT_STATUS 1 5)
      demo_ctx gps_acquiring_state).state).state.sm_gps_state = .SM_GPS_STATE_ASLEEP := by
  decide!

/-! ## File handles of the configuration restore (C33) -/

/-- The path of `fs_get_configuration_data` on which the first `fs_read` fails: the
function returns the error code of the read right after it; the handle `fs_open` stored
in `file_handle` stays there and no `fs_close` is called. -/
theorem fs_get_configuration_data_read_error (c : Ctx) (s : State) (handle : Nat)
    (err : fs_error_t)
    (hopen : c.env.fs_open s.trace FS_FILE_ID_CONF .FS_MODE_READONLY =
      (.FS_NO_ERROR, handle))
    (hread : (c.env.fs_read (s.trace ++ [.fs_open FS_FILE_ID_CONF .FS_MODE_READONLY])
      (some handle) 1).1 = err)
    (herr : err ≠ .FS_NO_ERROR) :
    fs_get_configuration_data c s = .ok (c.P.fs_code err)
      { s with
        file_handle := some handle
        trace := s.trace ++ [.fs_open FS_FILE_ID_CONF .FS_MODE_READONLY,
          .fs_read (some handle) 1] } := by
  unfold fs_get_configuration_data
  simp only [bind_apply, getParams, fs_open, ask, hopen, if_true, modifyState, pure_apply,
    ne_eq, not_true_eq_false, if_false, fs_read, getState, hread, herr, not_false_eq_true,
    List.append_assoc, List.singleton_append]

/-- The paths of `fs_get_configuration_data` on which the first `fs_read` succeeds: the
handle is closed after the read, and when the format version matches the file is opened,
read and closed a second time (with the handle of the first open when the second open
fails). -/
theorem fs_get_configuration_data_closes (c : Ctx) (s : State) (handle : Nat)
    (hopen : c.env.fs_open s.trace FS_FILE_ID_CONF .FS_MODE_READONLY =
      (.FS_NO_ERROR, handle))
    (hread : (c.env.fs_read (s.trace ++ [.fs_open FS_FILE_ID_CONF .FS_MODE_READONLY])
      (some handle) 1).1 = .FS_NO_ERROR) :
    ∃ ret s1, fs_get_configuration_data c s = .ok ret s1 ∧
      ∃ handle2, s1.file_handle = some handle2 ∧
        (s1.trace = s.trace ++ [.fs_open FS_FILE_ID_CONF .FS_MODE_READONLY,
          .fs_read (some handle) 1, .fs_close (some handle)] ∨
        s1.trace = s.trace ++ [.fs_open FS_FILE_ID_CONF .FS_MODE_READONLY,
          .fs_read (some handle) 1, .fs_close (some handle),
          .fs_open FS_FILE_ID_CONF .FS_MODE_READONLY,
          .fs_read (some handle2) c.P.sizeof_sys_config, .fs_close (some handle2)]) := by
  unfold fs_get_configuration_data
  simp only [bind_apply, getParams, fs_open, ask, hopen, if_true, modifyState, pure_apply,
    ne_eq, not_true_eq_false, if_false, fs_read, getState, hread, fs_close, call]
  by_cases hv : c.P.SYS_CONFIG_FORMAT_VERSION =
      ((c.env.fs_read (s.trace ++ [.fs_open FS_FILE_ID_CONF .FS_MODE_READONLY])
        (some handle) 1).2.take 1).getD 0 0
  · simp only [hv, not_true_eq_false, if_false]
    rcases hopen2 : c.env.fs_open (s.trace ++ [.fs_open FS_FILE_ID_CONF .FS_MODE_READONLY] ++
        [.fs_read (some handle) 1] ++ [.fs_close (some handle)]) FS_FILE_ID_CONF
        .FS_MODE_READONLY with ⟨ret2, handle2⟩
    by_cases h2 : ret2 = .FS_NO_ERROR
    · subst h2
      simp only [bind_apply, pure_apply, ask, hopen2, if_true, modifyState, getState, call,
        ite_apply]
      split_ifs <;> exact ⟨_, _, rfl, handle2, rfl, Or.inr (by simp)⟩
    · simp only [bind_apply, pure_apply, ask, hopen2, h2, if_false, modifyState, getState,
        call, ite_apply]
      split_ifs <;> exact ⟨_, _, rfl, handle, rfl, Or.inr (by simp)⟩
  · simp only [hv, not_false_eq_true, if_true]
    exact ⟨_, _, rfl, handle, rfl, Or.inl (by simp)⟩

/-- C33 (code defect): the configuration file exists and is empty, so that `fs_open`
succeeds (handle 1) and the first `fs_read` reports the end of the file.
`fs_get_configuration_data` returns the error of the read at once: the trace of the call
is the open and the read, no `fs_close` is made and `file_handle` still holds the open
handle. The same happens when the function is reached through a CfgRestore request and
through `sm_main_boot`. On the paths where the first read succeeds (a file starting with
another format version, a valid file) every open is followed by a close, as it is in
`fs_set_configuration_data` when the write fails. -/
theorem fs_get_configuration_data_leaks_handle_on_read_error :
    (fs_get_configuration_data empty_conf_ctx initial_state).value? =
      some (demo_fs_code .FS_ERROR_END_OF_FILE) ∧
    (fs_get_configuration_data empty_conf_ctx initial_state).state.trace =
      [.fs_open FS_FILE_ID_CONF .FS_MODE_READONLY, .fs_read (some 1) 1] ∧
    fs_close_calls (fs_get_configuration_data empty_conf_ctx initial_state).state.trace = [] ∧
    (fs_get_configuration_data empty_conf_ctx initial_state).state.file_handle = some 1 ∧
    fs_close_calls (host_send (demo_hdr 3) empty_conf_ctx initial_state).state.trace = [] ∧
    (host_send (demo_hdr 3) empty_conf_ctx initial_state).state.file_handle = some 1 ∧
    (sm_main_boot empty_conf_ctx (sm_handle_t.enter .SM_MAIN_BOOT .SM_MAIN_BOOT true)
      initial_state).state.file_handle = some 1 ∧
    (fs_get_configuration_data stale_conf_ctx initial_state).state.trace =
      [.fs_open FS_FILE_ID_CONF .FS_MODE_READONLY, .fs_read (some 1) 1,
       .fs_close (some 1)] ∧
    fs_close_calls (fs_get_configuration_data seeded_flash_ctx initial_state).state.trace =
      [some 1, some 1] ∧
    (fs_set_configuration_data ⟨demo_params, { demo_env with
        fs_write := fun _ _ _ => (.FS_ERROR_FILESYSTEM_FULL, 0) }, 1000⟩
      initial_state).state.trace =
      [.fs_open FS_FILE_ID_CONF .FS_MODE_WRITEONLY, .fs_write (some 1) [1],
       .fs_close (some 1)] := by
  decide!

/-! ## The slot of a log record (C32) -/

/-- What `logging_add_to_buffer` does when a slot is free: the slot receives the
DateTime record, if the date-time stamp is enabled, followed by the record; the call
returns with that length committed when it is at most `LOGGING_BUFFER_SIZE`, and writes
past the slot otherwise. No statement of the function compares a length with
`LOGGING_BUFFER_SIZE`. -/
theorem logging_add_to_buffer_spec (c : Ctx) (s : State) (data : log_record)
    (hfree : buffer_write s.logging_buffer = true) :
    (s.enable c.P.tag.LOGGING_DATE_TIME_STAMP_ENABLE = false →
      logging_add_to_buffer data c s =
        if (c.P.log_record_bytes data).length > LOGGING_BUFFER_SIZE then
          .stuck .out_of_bounds s
        else
          .ok () { s with
            logging_buffer := buffer_write_advance s.logging_buffer
                                (c.P.log_record_bytes data)
                                (c.P.log_record_bytes data).length }) ∧
    (s.enable c.P.tag.LOGGING_DATE_TIME_STAMP_ENABLE = true →
      ∀ stamp, stamp = c.P.log_record_bytes (.LOGGING_DATE_TIME
          (c.env.syshal_rtc_get_date_and_time s.trace).year
          (c.env.syshal_rtc_get_date_and_time s.trace).month
          (c.env.syshal_rtc_get_date_and_time s.trace).day
          (c.env.syshal_rtc_get_date_and_time s.trace).hours
          (c.env.syshal_rtc_get_date_and_time s.trace).minutes
          (c.env.syshal_rtc_get_date_and_time s.trace).seconds) →
      logging_add_to_buffer data c s =
        if stamp.length + (c.P.log_record_bytes data).length > LOGGING_BUFFER_SIZE then
          .stuck .out_of_bounds (s.record .syshal_rtc_get_date_and_time)
        else
          .ok () { s.record .syshal_rtc_get_date_and_time with
            logging_buffer := buffer_write_advance s.logging_buffer
                                (stamp ++ c.P.log_record_bytes data)
                                (stamp.length + (c.P.log_record_bytes data).length) }) := by
  constructor
  · intro hst
    unfold logging_add_to_buffer
    simp only [bind_apply, getParams, getState, hfree, Bool.not_true, Bool.false_eq_true,
      if_false, pure_apply, hst, List.nil_append, ite_apply, Stuck, modifyState]
  · intro hst stamp hstamp
    subst hstamp
    unfold logging_add_to_buffer
    simp only [bind_apply, getParams, getState, hfree, Bool.not_true, Bool.false_eq_true,
      if_false, pure_apply, hst, if_true, ask, List.length_append, ite_apply, Stuck,
      modifyState, State.record]

/-- C32 (code defect): the date-time stamp is enabled and the GPS position record of 25
bytes (at most `LOGGING_BUFFER_SIZE`) is logged: the DateTime record of 8 bytes comes
first, which makes 33 bytes for a slot of 32, and `logging_add_to_buffer` writes past the
slot; so does `syshal_gps_callback` on a position event received while Fixed with logging
on. With the stamp disabled the same record is committed with 25 bytes, and with the stamp
enabled a shorter record (accelerometer, 7 + 8 bytes) fits. -/
theorem logging_add_to_buffer_overruns_slot_with_date_time_stamp :
    (demo_params.log_record_bytes (.LOGGING_GPS_POSITION 1 2 3 4 5 6)).length = 25 ∧
    25 ≤ LOGGING_BUFFER_SIZE ∧
    (demo_params.log_record_bytes (.LOGGING_DATE_TIME 2018 1 1 0 0 0)).length = 8 ∧
    gps_fixed_logging_state.enable demo_tag_ids.LOGGING_DATE_TIME_STAMP_ENABLE = true ∧
    buffer_write gps_fixed_logging_state.logging_buffer = true ∧
    logging_add_to_buffer (.LOGGING_GPS_POSITION 1 2 3 4 5 6) demo_ctx
        gps_fixed_logging_state =
      .stuck .out_of_bounds (gps_fixed_logging_state.record .syshal_rtc_get_date_and_time) ∧
    (syshal_gps_callback (.SYSHAL_GPS_EVENT_POSLLH 1 2 3 4 5 6) demo_ctx
      gps_fixed_logging_state).is_stuck = true ∧
    (logging_add_to_buffer (.LOGGING_GPS_POSITION 1 2 3 4 5 6) demo_ctx
      gps_fixed_unstamped_state).returned = true ∧
    (logging_add_to_buffer (.LOGGING_GPS_POSITION 1 2 3 4 5 6) demo_ctx
      gps_fixed_unstamped_state).state.logging_buffer.queue.map List.length = [25] ∧
    (logging_add_to_buffer (.LOGGING_AXL_XYZ 1 2 3) demo_ctx
      gps_fixed_logging_state).state.logging_buffer.queue.map List.length = [15] := by
  refine ⟨by decide!, by decide!, by decide!, by decide!, by decide!, ?_, by decide!,
    by decide!, by decide!, by decide!⟩
  rw [((logging_add_to_buffer_spec demo_ctx gps_fixed_logging_state _ (by decide!)).2
    (by decide!) _ rfl)]
  rfl

/-! ## The configuration store across a failed restore (C34) -/

/-- C34 (amended): `fs_get_configuration_data` always returns, and the configuration
store it leaves is determined by how far it got. When the first `fs_open` fails (file
not found), the first `fs_read` fails, or the format version read differs from
`SYS_CONFIG_FORMAT_VERSION`, the function returns the corresponding error and
`sys_config` is what it was before the call. Otherwise the second `fs_read` has copied
the bytes it delivered over `sys_config` before its return code and `bytes_read` are
looked at: `sys_config` is the store loaded with these bytes also when the function
returns an error (second open or read failed, size mismatch). -/
theorem fs_get_configuration_data_store (c : Ctx) (s : State) :
    ∃ ret s1, fs_get_configuration_data c s = .ok ret s1 ∧
      let open1 := c.env.fs_open s.trace FS_FILE_ID_CONF .FS_MODE_READONLY
      let tr1 := s.trace ++ [Ev.fs_open FS_FILE_ID_CONF .FS_MODE_READONLY]
      let read1 := c.env.fs_read tr1 (some open1.2) 1
      let tr2 := tr1 ++ [Ev.fs_read (some open1.2) 1] ++ [Ev.fs_close (some open1.2)]
      let open2 := c.env.fs_open tr2 FS_FILE_ID_CONF .FS_MODE_READONLY
      let handle2 := if open2.1 = .FS_NO_ERROR then open2.2 else open1.2
      let read2 := c.env.fs_read (tr2 ++ [Ev.fs_open FS_FILE_ID_CONF .FS_MODE_READONLY])
        (some handle2) c.P.sizeof_sys_config
      let data := read2.2.take c.P.sizeof_sys_config
      if open1.1 ≠ .FS_NO_ERROR then
        ret = c.P.fs_code open1.1 ∧ s1.sys_config = s.sys_config
      else if read1.1 ≠ .FS_NO_ERROR then
        ret = c.P.fs_code read1.1 ∧ s1.sys_config = s.sys_config
      else if c.P.SYS_CONFIG_FORMAT_VERSION ≠ (read1.2.take 1).getD 0 0 then
        ret = c.P.fs_code .FS_ERROR_FILE_VERSION_MISMATCH ∧ s1.sys_config = s.sys_config
      else
        s1.sys_config = c.P.sys_config_load s.sys_config data ∧
        ret =
          if c.P.fs_code .FS_NO_ERROR ≠ Int.lor (c.P.fs_code open2.1) (c.P.fs_code read2.1)
          then Int.lor (c.P.fs_code open2.1) (c.P.fs_code read2.1)
          else if data.length ≠ c.P.sizeof_sys_config
          then c.P.fs_code .FS_ERROR_FILE_VERSION_MISMATCH
          else c.P.fs_code .FS_NO_ERROR := by
  unfold fs_get_configuration_data
  rcases hopen : c.env.fs_open s.trace FS_FILE_ID_CONF .FS_MODE_READONLY with ⟨ret1, handle⟩
  by_cases h1 : ret1 = .FS_NO_ERROR
  · subst h1
    by_cases h2 : (c.env.fs_read (s.trace ++ [Ev.fs_open FS_FILE_ID_CONF .FS_MODE_READONLY])
        (some handle) 1).1 = .FS_NO_ERROR
    · by_cases hv : c.P.SYS_CONFIG_FORMAT_VERSION =
          ((c.env.fs_read (s.trace ++ [.fs_open FS_FILE_ID_CONF .FS_MODE_READONLY])
            (some handle) 1).2.take 1).getD 0 0
      · simp only [bind_apply, getParams, fs_open, ask, hopen, if_true, modifyState,
          pure_apply, ne_eq, not_true_eq_false, if_false, fs_read, getState, h2, fs_close,
          call, hv]
        rcases hopen2 : c.env.fs_open (s.trace ++
            [.fs_open FS_FILE_ID_CONF .FS_MODE_READONLY] ++
            [.fs_read (some handle) 1] ++ [.fs_close (some handle)]) FS_FILE_ID_CONF
            .FS_MODE_READONLY with ⟨ret2, handle2⟩
        by_cases h3 : ret2 = .FS_NO_ERROR
        · subst h3
          simp only [bind_apply, pure_apply, ask, hopen2, if_true, modifyState, getState,
            call, ite_apply]
          split_ifs <;> exact ⟨_, _, rfl, rfl, rfl⟩
        · simp only [bind_apply, pure_apply, ask, hopen2, h3, if_false, modifyState,
            getState, call, ite_apply]
          split_ifs <;> exact ⟨_, _, rfl, rfl, rfl⟩
      · simp only [bind_apply, getParams, fs_open, ask, hopen, if_true, modifyState,
          pure_apply, ne_eq, not_true_eq_false, if_false, fs_read, getState, h2, fs_close,
          call, hv, not_false_eq_true]
        exact ⟨_, _, rfl, rfl, rfl⟩
    · simp only [bind_apply, getParams, fs_open, ask, hopen, if_true, modifyState,
        pure_apply, ne_eq, not_true_eq_false, if_false, fs_read, getState, h2,
        not_false_eq_true]
      exact ⟨_, _, rfl, rfl, rfl⟩
  · simp only [bind_apply, getParams, fs_open, ask, hopen, h1, if_false, pure_apply, ne_eq,
      not_false_eq_true, if_true]
    exact ⟨_, _, rfl, rfl, rfl⟩

/-- C34 (counterexample): the configuration file starts with the format version of the
firmware and is cut short after the entry of the first tag. `fs_get_configuration_data`
returns FS_ERROR_FILE_VERSION_MISMATCH (size mismatch), which is not FS_NO_ERROR, and the
entry of the logging-enable tag, which held the value 1 before the call, holds the value
7 of the file after it. With a file of another format version the same entry is left as
it was. -/
theorem fs_get_configuration_data_failure_overwrites_store :
    (fs_get_configuration_data truncated_conf_ctx all_tags_set_state).value? =
      some (layout_params.fs_code .FS_ERROR_FILE_VERSION_MISMATCH) ∧
    layout_params.fs_code .FS_ERROR_FILE_VERSION_MISMATCH ≠
      layout_params.fs_code .FS_NO_ERROR ∧
    all_tags_set_state.sys_config demo_tag_ids.LOGGING_ENABLE = ⟨true, [1]⟩ ∧
    (fs_get_configuration_data truncated_conf_ctx all_tags_set_state).state.sys_config
      demo_tag_ids.LOGGING_ENABLE = ⟨true, [7]⟩ ∧
    (fs_get_configuration_data ⟨layout_params, stale_conf_env, 1000⟩
      all_tags_set_state).state.sys_config demo_tag_ids.LOGGING_ENABLE = ⟨true, [1]⟩ := by
  decide!

/-! # The GPS driver M8N.c (C31, C37) -/

namespace M8N

/-- An iteration of the loop of `syshal_gps_tick` in which the parser reports an error is
followed by another iteration: the loop condition is `error != GPS_UART_NO_ERROR`. -/
theorem syshal_gps_tick_loop_error (P : Params) (fuel : Nat) (packet : UBX_Packet_t)
    (s : State)
    (h : (syshal_gps_parse_rx_buffer_priv P packet s).1 ≠ .GPS_UART_NO_ERROR) :
    syshal_gps_tick_loop P (fuel + 1) packet s =
      syshal_gps_tick_loop P fuel (syshal_gps_parse_rx_buffer_priv P packet s).2.1
        (syshal_gps_parse_rx_buffer_priv P packet s).2.2 := by
  rw [syshal_gps_tick_loop]
  simp only [h, if_false, ne_eq, not_false_eq_true, if_true]

/-- With fewer bytes waiting than the shortest frame the parser reports
INSUFFICIENT_BYTES and removes nothing. -/
theorem syshal_gps_parse_rx_buffer_priv_short (P : Params) (packet : UBX_Packet_t)
    (s : State) (h : s.rx.length < P.UBX_HEADER_AND_CRC_LENGTH) :
    syshal_gps_parse_rx_buffer_priv P packet s =
      (.GPS_UART_ERROR_INSUFFICIENT_BYTES, packet, s) := by
  unfold syshal_gps_parse_rx_buffer_priv
  simp only [syshal_uart_available, h, if_true]

/-- With fewer bytes waiting than the shortest frame, and none arriving, the loop of
`syshal_gps_tick` has not ended after any number of iterations. -/
theorem syshal_gps_tick_loop_short (P : Params) (packet : UBX_Packet_t) (s : State)
    (h : s.rx.length < P.UBX_HEADER_AND_CRC_LENGTH) :
    ∀ fuel, syshal_gps_tick_loop P fuel packet s = none := by
  intro fuel
  induction fuel with
  | zero => rfl
  | succ n ih =>
    rw [syshal_gps_tick_loop_error P n packet s
      (by rw [syshal_gps_parse_rx_buffer_priv_short P packet s h]
          exact fun e => gps_uart_error_t.noConfusion e),
      syshal_gps_parse_rx_buffer_priv_short P packet s h]
    exact ih

/-- C31 (code defect): `syshal_gps_tick` repeats its loop while the parser reports an
error, so it returns only once a frame has been accepted. With an empty receive buffer,
with three bytes of a frame, with nine bytes that hold no sync character, with a frame
whose checksum is wrong and with a frame still being received, and no further byte
arriving, the loop has not ended after any number of iterations. With a valid frame
waiting it returns after that frame and leaves a second valid frame in the buffer. -/
theorem syshal_gps_tick_never_returns_without_valid_frame :
    (∀ fuel, syshal_gps_tick ubx_params fuel blank_packet (received []) = none) ∧
    (∀ fuel, syshal_gps_tick ubx_params fuel blank_packet (received [181, 98, 1]) = none) ∧
    (∀ fuel, syshal_gps_tick ubx_params fuel blank_packet
      (received [1, 2, 3, 4, 5, 6, 7, 8, 9]) = none) ∧
    (∀ fuel, syshal_gps_tick ubx_params fuel blank_packet
      (received [181, 98, 1, 3, 4, 0, 1, 2, 3, 4, 0, 0]) = none) ∧
    (∀ fuel, syshal_gps_tick ubx_params fuel blank_packet
      (received [181, 98, 1, 3, 4, 0, 1, 2, 3, 4]) = none) ∧
    syshal_gps_tick ubx_params 1 blank_packet
      (received (ubx_frame ubx_params 1 3 [1, 2, 3, 4] ++ ubx_frame ubx_params 1 2 [5, 6])) =
      some ⟨ubx_frame ubx_params 1 2 [5, 6], [.SYSHAL_GPS_EVENT_STATUS [1, 2, 3, 4]]⟩ := by
  refine ⟨?_, ?_, ?_, ?_, ?_, by decide!⟩
  · exact syshal_gps_tick_loop_short ubx_params _ _ (by decide)
  · exact syshal_gps_tick_loop_short ubx_params _ _ (by decide)
  · intro fuel
    cases fuel with
    | zero => rfl
    | succ n =>
      unfold syshal_gps_tick
      rw [syshal_gps_tick_loop_error ubx_params n _ _ (by decide!)]
      exact syshal_gps_tick_loop_short ubx_params _ _ (by decide!) n
  · intro fuel
    cases fuel with
    | zero => rfl
    | succ n =>
      unfold syshal_gps_tick
      rw [syshal_gps_tick_loop_error ubx_params n _ _ (by decide!)]
      exact syshal_gps_tick_loop_short ubx_params _ _ (by decide!) n
  · intro fuel
    unfold syshal_gps_tick
    have hp : syshal_gps_parse_rx_buffer_priv ubx_params ⟨181, 98, 0, 0, 0, []⟩
        (received [181, 98, 1, 3, 4, 0, 1, 2, 3, 4]) =
        (.GPS_UART_ERROR_MSG_PENDING, ⟨181, 98, 0, 0, 0, []⟩,
          received [181, 98, 1, 3, 4, 0, 1, 2, 3, 4]) := by decide!
    have hloop : ∀ n, syshal_gps_tick_loop ubx_params n ⟨181, 98, 0, 0, 0, []⟩
        (received [181, 98, 1, 3, 4, 0, 1, 2, 3, 4]) = none := by
      intro n
      induction n with
      | zero => rfl
      | succ n ih =>
        rw [syshal_gps_tick_loop_error ubx_params n _ _ (by rw [hp]; decide), hp]
        exact ih
    cases fuel with
    | zero => rfl
    | succ n =>
      rw [syshal_gps_tick_loop_error ubx_params n _ _ (by decide!)]
      have hp0 : syshal_gps_parse_rx_buffer_priv ubx_params blank_packet
          (received [181, 98, 1, 3, 4, 0, 1, 2, 3, 4]) =
          (.GPS_UART_ERROR_MSG_PENDING, ⟨181, 98, 0, 0, 0, []⟩,
            received [181, 98, 1, 3, 4, 0, 1, 2, 3, 4]) := by decide!
      rw [hp0]
      exact hloop n

end M8N

namespace M8N

theorem look_for_sync1_found (P : Params) (n : Nat) (packet : UBX_Packet_t) (s : State)
    (rest : List Nat) (hrx : s.rx = P.UBX_PACKET_SYNC_CHAR1 :: rest) :
    look_for_sync1 P (n + 1) packet s =
      (.label_sync_start, { packet with syncChars0 := P.UBX_PACKET_SYNC_CHAR1 }, s) := by
  rw [look_for_sync1]
  simp only [syshal_uart_peek_at, hrx, List.get?_cons_zero, if_true]

theorem throw_it_all_away_spec (n : Nat) :
    ∀ s : State, s.rx.length ≤ n → throw_it_all_away n s = { s with rx := [] } := by
  induction n with
  | zero =>
    intro s h
    have h0 : s.rx = [] := List.length_eq_zero.mp (Nat.le_zero.mp h)
    cases s
    simp only at h0
    subst h0
    rfl
  | succ n ih =>
    intro s h
    rw [throw_it_all_away]
    by_cases hpos : syshal_uart_available s > 0
    · rw [if_pos hpos, ih]
      · rfl
      · show (s.rx.drop 1).length ≤ n
        rw [List.length_drop]
        omega
    · rw [if_neg hpos]
      have h0 : s.rx = [] := List.length_eq_zero.mp (by
        unfold syshal_uart_available at hpos
        omega)
      cases s
      simp only at h0
      subst h0
      rfl

/-- The part of the length check that holds: a frame header whose payload length plus
`UBX_HEADER_AND_CRC_LENGTH` exceeds `UART_RX_BUF_SIZE` and stays below 65536 makes the
parser return MSG_TOO_BIG with the receive buffer emptied and `payloadAndCrc` untouched. -/
theorem syshal_gps_parse_rx_buffer_priv_too_big (P : Params) (packet : UBX_Packet_t)
    (s : State) (cls id lo hi : Nat) (rest : List Nat)
    (hrx : s.rx = P.UBX_PACKET_SYNC_CHAR1 :: P.UBX_PACKET_SYNC_CHAR2 :: cls :: id :: lo ::
      hi :: rest)
    (hlen : P.UBX_HEADER_AND_CRC_LENGTH ≤ s.rx.length)
    (hlo : lo < 256) (hhi : hi < 256)
    (hfit : lo + 256 * hi + P.UBX_HEADER_AND_CRC_LENGTH < 65536)
    (hbig : P.UART_RX_BUF_SIZE < lo + 256 * hi + P.UBX_HEADER_AND_CRC_LENGTH) :
    syshal_gps_parse_rx_buffer_priv P packet s =
      (.GPS_UART_ERROR_MSG_TOO_BIG,
        { packet with
          syncChars0 := P.UBX_PACKET_SYNC_CHAR1
          syncChars1 := P.UBX_PACKET_SYNC_CHAR2 },
        { s with rx := [] }) := by
  have havail : syshal_uart_available s = rest.length + 5 + 1 := by
    unfold syshal_uart_available
    rw [hrx]
    simp only [List.length_cons]
  have hp : (lo % 256 + 256 * (hi % 256)) % 65536 = lo + 256 * hi := by
    rw [Nat.mod_eq_of_lt hlo, Nat.mod_eq_of_lt hhi, Nat.mod_eq_of_lt (by omega)]
  unfold syshal_gps_parse_rx_buffer_priv
  rw [if_neg (by unfold syshal_uart_available; omega), havail,
    look_for_sync1_found P _ packet s _ hrx]
  simp only [syshal_uart_peek_at, hrx, List.get?_cons_succ, List.get?_cons_zero, ne_eq,
    not_true_eq_false, if_false, hp, Nat.mod_eq_of_lt hfit, gt_iff_lt, hbig, if_true]
  show (_, _, throw_it_all_away s.rx.length s) = _
  rw [throw_it_all_away_spec _ s (le_refl _)]

/-- The length check with a payload length close to 65535: when payload length plus
`UBX_HEADER_AND_CRC_LENGTH` reaches 65536 the 16-bit total wraps to a small value, the
test against `UART_RX_BUF_SIZE` does not fire, the parser does not return MSG_TOO_BIG, and
the bytes that follow the header are copied into `payloadAndCrc`. -/
theorem syshal_gps_parse_rx_buffer_priv_wraps (P : Params) (packet : UBX_Packet_t)
    (s : State) (cls id lo hi : Nat) (rest : List Nat)
    (hrx : s.rx = P.UBX_PACKET_SYNC_CHAR1 :: P.UBX_PACKET_SYNC_CHAR2 :: cls :: id :: lo ::
      hi :: rest)
    (hhdr : P.UBX_HEADER_LENGTH = 6)
    (hlen : P.UBX_HEADER_AND_CRC_LENGTH ≤ s.rx.length)
    (hlo : lo < 256) (hhi : hi < 256)
    (hwrap : 65536 ≤ lo + 256 * hi + P.UBX_HEADER_AND_CRC_LENGTH)
    (hsmall : lo + 256 * hi + P.UBX_HEADER_AND_CRC_LENGTH - 65536 ≤ P.UART_RX_BUF_SIZE)
    (hhc : P.UBX_HEADER_AND_CRC_LENGTH < 65536) (hcrc : P.UBX_CRC_LENGTH < 65536) :
    (syshal_gps_parse_rx_buffer_priv P packet s).1 ≠ .GPS_UART_ERROR_MSG_TOO_BIG ∧
    (syshal_gps_parse_rx_buffer_priv P packet s).2.1.payloadAndCrc =
      rest.take (lo + 256 * hi + P.UBX_CRC_LENGTH) ++
        packet.payloadAndCrc.drop (rest.take (lo + 256 * hi + P.UBX_CRC_LENGTH)).length ∧
    (syshal_gps_parse_rx_buffer_priv P packet s).2.2.rx =
      rest.drop (lo + 256 * hi + P.UBX_CRC_LENGTH) := by
  have havail : syshal_uart_available s = rest.length + 5 + 1 := by
    unfold syshal_uart_available
    rw [hrx]
    simp only [List.length_cons]
  have hp : (lo % 256 + 256 * (hi % 256)) % 65536 = lo + 256 * hi := by
    rw [Nat.mod_eq_of_lt hlo, Nat.mod_eq_of_lt hhi, Nat.mod_eq_of_lt (by omega)]
  have ht : (lo + 256 * hi + P.UBX_HEADER_AND_CRC_LENGTH) % 65536 =
      lo + 256 * hi + P.UBX_HEADER_AND_CRC_LENGTH - 65536 := by
    omega
  have hr : (lo + 256 * hi + P.UBX_CRC_LENGTH) % 4294967296 =
      lo + 256 * hi + P.UBX_CRC_LENGTH := Nat.mod_eq_of_lt (by omega)
  have hnb : ¬ (rest.length + 5 + 1 <
      lo + 256 * hi + P.UBX_HEADER_AND_CRC_LENGTH - 65536) := by
    have : s.rx.length = rest.length + 5 + 1 := havail
    omega
  unfold syshal_gps_parse_rx_buffer_priv
  rw [if_neg (by unfold syshal_uart_available; omega), havail,
    look_for_sync1_found P _ packet s _ hrx]
  simp only [syshal_uart_peek_at, hrx, List.get?_cons_succ, List.get?_cons_zero, ne_eq,
    not_true_eq_false, if_false, hp, ht, gt_iff_lt, not_lt.mpr hsmall, hnb,
    syshal_uart_receive, hhdr, hr, List.take_succ_cons, List.take_zero, List.length_cons,
    List.length_nil, List.drop_succ_cons, List.drop_zero, Nat.reduceAdd]
  split_ifs <;> refine ⟨?_, rfl, rfl⟩ <;> intro e <;> cases e

/-- C37 (code defect): a UBX header declaring a payload of 65535 bytes arrives, followed
by four bytes. Payload length plus `UBX_HEADER_AND_CRC_LENGTH` is 65543, far above
`UART_RX_BUF_SIZE`, but the 16-bit `totalLength` wraps to 7: the parser does not return
MSG_TOO_BIG, it removes the header, copies the four bytes that follow into
`payloadAndCrc` and returns INSUFFICIENT_BYTES. The same happens from the declared length
65528 on; a declared length of 65527, whose total 65535 does not wrap, is rejected with
MSG_TOO_BIG and nothing copied. -/
theorem syshal_gps_parse_rx_buffer_priv_total_length_wraps :
    ubx_params.UART_RX_BUF_SIZE < 65535 + ubx_params.UBX_HEADER_AND_CRC_LENGTH ∧
    syshal_gps_parse_rx_buffer_priv ubx_params blank_packet
        (received [181, 98, 1, 3, 255, 255, 1, 2, 3, 4]) =
      (.GPS_UART_ERROR_INSUFFICIENT_BYTES, ⟨181, 98, 1, 3, 65535, [1, 2, 3, 4]⟩,
        received []) ∧
    syshal_gps_parse_rx_buffer_priv ubx_params blank_packet
        (received [181, 98, 1, 3, 248, 255, 1, 2, 3, 4]) =
      (.GPS_UART_ERROR_INSUFFICIENT_BYTES, ⟨181, 98, 1, 3, 65528, [1, 2, 3, 4]⟩,
        received []) ∧
    syshal_gps_parse_rx_buffer_priv ubx_params blank_packet
        (received [181, 98, 1, 3, 247, 255, 1, 2, 3, 4]) =
      (.GPS_UART_ERROR_MSG_TOO_BIG, ⟨181, 98, 0, 0, 0, []⟩, received []) := by
  decide!

end M8N

/-! ## The protocol sub-state across the top-level states (C38) -/

theorem staysIdle_pure {α : Type} (a : α) : StaysIdle (pure a : M α) := fun _ _ h => h

theorem staysIdle_throw {α : Type} (e : CEXCEPTION_T) : StaysIdle (Throw e : M α) :=
  fun _ _ h => h

theorem staysIdle_stuck {α : Type} (w : stuck_t) : StaysIdle (Stuck w : M α) :=
  fun _ _ h => h

theorem staysIdle_getState : StaysIdle getState := fun _ _ h => h

theorem staysIdle_getParams : StaysIdle getParams := fun _ _ h => h

theorem staysIdle_getFuel : StaysIdle getFuel := fun _ _ h => h

theorem staysIdle_call (e : Ev) : StaysIdle (call e) := fun _ _ h => h

theorem staysIdle_ask {α : Type} (e : Ev) (oracle : Env → List Ev → α) :
    StaysIdle (ask e oracle) := fun _ _ h => h

theorem staysIdle_modifyState (f : State → State)
    (hf : ∀ s, s.message_state = .SM_MESSAGE_STATE_IDLE →
      (f s).message_state = .SM_MESSAGE_STATE_IDLE) : StaysIdle (modifyState f) :=
  fun _ s h => hf s h

theorem staysIdle_bind {α β : Type} {m : M α} {f : α → M β} (hm : StaysIdle m)
    (hf : ∀ a, StaysIdle (f a)) : StaysIdle (m >>= f) := by
  intro c s h
  have h1 := hm c s h
  rw [bind_apply]
  cases hx : m c s with
  | ok a s1 =>
    rw [hx] at h1
    exact hf a c s1 h1
  | throw e s1 => rw [hx] at h1; exact h1
  | stuck w s1 => rw [hx] at h1; exact h1

theorem staysIdle_ite {α : Type} (p : Prop) [Decidable p] {a b : M α} (ha : StaysIdle a)
    (hb : StaysIdle b) : StaysIdle (if p then a else b) := by
  split
  · exact ha
  · exact hb

theorem staysIdle_tryCatch {m : M Unit} {h : CEXCEPTION_T → M Unit} (hm : StaysIdle m)
    (hh : ∀ e, StaysIdle (h e)) : StaysIdle (TryCatch m h) := by
  intro c s hs
  have h1 := hm c s hs
  unfold TryCatch
  cases hx : m c s with
  | ok a s1 => rw [hx] at h1; exact h1
  | throw e s1 =>
    rw [hx] at h1
    exact hh e c s1 h1
  | stuck w s1 => rw [hx] at h1; exact h1

theorem staysIdleSM_lift {α : Type} {m : M α} (hm : StaysIdle m) :
    StaysIdleSM (liftM m : SM α) := by
  intro c h s hs
  have h1 := hm c s hs
  rw [lift_apply]
  cases hx : m c s with
  | ok a s1 => rw [hx] at h1; exact h1
  | throw e s1 => rw [hx] at h1; exact h1
  | stuck w s1 => rw [hx] at h1; exact h1

theorem staysIdleSM_pure {α : Type} (a : α) : StaysIdleSM (pure a : SM α) :=
  fun _ _ _ h => h

theorem staysIdleSM_getHandle : StaysIdleSM getHandle := fun _ _ _ h => h

theorem staysIdleSM_sm_set_next_state (st : sm_main_state_t) :
    StaysIdleSM (sm_set_next_state st) := fun _ _ _ h => h

theorem staysIdleSM_bind {α β : Type} {m : SM α} {f : α → SM β} (hm : StaysIdleSM m)
    (hf : ∀ a, StaysIdleSM (f a)) : StaysIdleSM (m >>= f) := by
  intro c h s hs
  have h1 := hm c h s hs
  rw [sm_bind_apply]
  cases hx : m c h s with
  | ok a h2 s1 =>
    rw [hx] at h1
    exact hf a c h2 s1 h1
  | throw e h2 s1 => rw [hx] at h1; exact h1
  | stuck w h2 s1 => rw [hx] at h1; exact h1

theorem staysIdleSM_ite {α : Type} (p : Prop) [Decidable p] {a b : SM α}
    (ha : StaysIdleSM a) (hb : StaysIdleSM b) : StaysIdleSM (if p then a else b) := by
  split
  · exact ha
  · exact hb

theorem m_ite_bind {α β : Type} (p : Prop) [Decidable p] (a b : M α) (f : α → M β) :
    (if p then a >>= f else b >>= f) = ((if p then a else b) >>= f) := by
  split <;> rfl

theorem m_bind_assoc {α β γ : Type} (m : M α) (f : α → M β) (g : β → M γ) :
    (m >>= f >>= g) = (m >>= fun a => f a >>= g) := by
  funext c s
  simp only [bind_apply]
  cases m c s <;> rfl
theorem staysIdle_default_enable_false (tag : Nat) : StaysIdle (default_enable_false tag) := by
  unfold default_enable_false
  repeat (first
    | with_reducible (first
        | exact staysIdle_pure _ | exact staysIdle_throw _ | exact staysIdle_stuck _
        | exact staysIdle_getState | exact staysIdle_getParams | exact staysIdle_getFuel
        | exact staysIdle_call _ | exact staysIdle_ask _ _
        | apply staysIdle_ite | apply staysIdle_bind
        | (apply staysIdle_modifyState; with_unfolding_all exact fun _ h => h) | intro _)
    | split | dsimp only)

set_option maxRecDepth 8000 in
theorem staysIdle_check_configuration_tags_set : StaysIdle check_configuration_tags_set := by
  unfold check_configuration_tags_set
  repeat (first
    | with_reducible (first
        | exact staysIdle_pure _ | exact staysIdle_throw _ | exact staysIdle_stuck _
        | exact staysIdle_getState | exact staysIdle_getParams | exact staysIdle_getFuel
        | exact staysIdle_call _ | exact staysIdle_ask _ _
        | apply staysIdle_default_enable_false
        | apply staysIdle_ite | apply staysIdle_bind | intro _)
    | split | dsimp only)

theorem staysIdle_fs_open (file_id : Nat) (mode : fs_mode_t) :
    StaysIdle (fs_open file_id mode) := by
  unfold fs_open
  repeat (first
    | with_reducible (first
        | exact staysIdle_pure _ | exact staysIdle_throw _ | exact staysIdle_stuck _
        | exact staysIdle_getState | exact staysIdle_getParams | exact staysIdle_getFuel
        | exact staysIdle_call _ | exact staysIdle_ask _ _
        | apply staysIdle_ite | apply staysIdle_bind
        | (apply staysIdle_modifyState; with_unfolding_all exact fun _ h => h) | intro _)
    | split | dsimp only)

theorem staysIdle_fs_close : StaysIdle fs_close := by
  unfold fs_close
  repeat (first
    | with_reducible (first
        | exact staysIdle_pure _ | exact staysIdle_throw _ | exact staysIdle_stuck _
        | exact staysIdle_getState | exact staysIdle_getParams | exact staysIdle_getFuel
        | exact staysIdle_call _ | exact staysIdle_ask _ _
        | apply staysIdle_ite | apply staysIdle_bind | intro _)
    | split | dsimp only)

theorem staysIdle_fs_delete (file_id : Nat) : StaysIdle (fs_delete file_id) := by
  unfold fs_delete
  repeat (first
    | with_reducible (first
        | exact staysIdle_pure _ | exact staysIdle_throw _ | exact staysIdle_stuck _
        | exact staysIdle_getState | exact staysIdle_getParams | exact staysIdle_getFuel
        | exact staysIdle_call _ | exact staysIdle_ask _ _
        | apply staysIdle_ite | apply staysIdle_bind | intro _)
    | split | dsimp only)

theorem staysIdle_fs_read (size : Nat) : StaysIdle (fs_read size) := by
  unfold fs_read
  repeat (first
    | with_reducible (first
        | exact staysIdle_pure _ | exact staysIdle_throw _ | exact staysIdle_stuck _
        | exact staysIdle_getState | exact staysIdle_getParams | exact staysIdle_getFuel
        | exact staysIdle_call _ | exact staysIdle_ask _ _
        | apply staysIdle_ite | apply staysIdle_bind | intro _)
    | split | dsimp only)

set_option maxRecDepth 8000 in
theorem staysIdle_fs_get_configuration_data : StaysIdle fs_get_configuration_data := by
  unfold fs_get_configuration_data
  repeat (first
    | with_reducible (first
        | exact staysIdle_pure _ | exact staysIdle_throw _ | exact staysIdle_stuck _
        | exact staysIdle_getState | exact staysIdle_getParams | exact staysIdle_getFuel
        | exact staysIdle_call _ | exact staysIdle_ask _ _
        | apply staysIdle_fs_open | apply staysIdle_fs_close | apply staysIdle_fs_read
        | apply staysIdle_ite | apply staysIdle_bind
        | (apply staysIdle_modifyState; with_unfolding_all exact fun _ h => h) | intro _)
    | split | dsimp only)

theorem staysIdle_set_sm_gps_state (g : sm_gps_state_t) : StaysIdle (set_sm_gps_state g) := by
  unfold set_sm_gps_state
  repeat (first
    | with_reducible (first
        | exact staysIdle_pure _ | exact staysIdle_throw _ | exact staysIdle_stuck _
        | exact staysIdle_getState | exact staysIdle_getParams | exact staysIdle_getFuel
        | exact staysIdle_call _ | exact staysIdle_ask _ _
        | apply staysIdle_ite | apply staysIdle_bind
        | (apply staysIdle_modifyState; with_unfolding_all exact fun _ h => h) | intro _)
    | split | dsimp only)

theorem staysIdle_setup_buffers : StaysIdle setup_buffers := by
  unfold setup_buffers
  repeat (first
    | with_reducible (first
        | exact staysIdle_pure _ | exact staysIdle_throw _ | exact staysIdle_stuck _
        | exact staysIdle_getState | exact staysIdle_getParams | exact staysIdle_getFuel
        | exact staysIdle_call _ | exact staysIdle_ask _ _
        | apply staysIdle_ite | apply staysIdle_bind
        | (apply staysIdle_modifyState; with_unfolding_all exact fun _ h => h) | intro _)
    | split | dsimp only)

theorem staysIdle_set_default_global_values : StaysIdle set_default_global_values :=
  staysIdle_modifyState _ (fun _ _ => rfl)

theorem staysIdle_calls (c : hal_call_t) (n : Nat) : StaysIdle (calls c n) := by
  induction n with
  | zero => exact staysIdle_pure _
  | succ n ih => exact staysIdle_bind (staysIdle_call _) (fun _ => ih)

set_option maxRecDepth 8000 in
theorem staysIdle_sm_main_boot_init : StaysIdle sm_main_boot_init := by
  unfold sm_main_boot_init
  repeat (first
    | with_reducible (first
        | exact staysIdle_pure _ | exact staysIdle_throw _ | exact staysIdle_stuck _
        | exact staysIdle_getState | exact staysIdle_getParams | exact staysIdle_getFuel
        | exact staysIdle_call _ | exact staysIdle_ask _ _
        | apply staysIdle_fs_open | apply staysIdle_fs_close | apply staysIdle_fs_delete
        | apply staysIdle_fs_get_configuration_data | apply staysIdle_set_sm_gps_state
        | apply staysIdle_setup_buffers | apply staysIdle_set_default_global_values
        | apply staysIdle_calls
        | apply staysIdle_ite | apply staysIdle_bind
        | (apply staysIdle_modifyState; with_unfolding_all exact fun _ h => h) | intro _)
    | split | dsimp only)

set_option maxRecDepth 8000 in
theorem staysIdleSM_sm_main_boot : StaysIdleSM sm_main_boot := by
  unfold sm_main_boot
  simp only [sm_ite_bind, ← sm_bind_assoc]
  simp only [sm_bind_assoc]
  repeat (first
    | with_reducible (first
        | exact staysIdleSM_pure _ | exact staysIdleSM_getHandle
        | exact staysIdleSM_sm_set_next_state _ | apply staysIdleSM_lift
        | exact staysIdle_pure _ | exact staysIdle_throw _ | exact staysIdle_stuck _
        | exact staysIdle_getState | exact staysIdle_getParams | exact staysIdle_getFuel
        | exact staysIdle_call _ | exact staysIdle_ask _ _
        | apply staysIdle_check_configuration_tags_set | apply staysIdle_sm_main_boot_init
        | apply staysIdleSM_ite | apply staysIdleSM_bind
        | apply staysIdle_ite | apply staysIdle_bind | intro _)
    | split | dsimp only)

theorem staysIdle_config_if_timeout_reset : StaysIdle config_if_timeout_reset := by
  unfold config_if_timeout_reset
  repeat (first
    | with_reducible (first
        | exact staysIdle_pure _ | exact staysIdle_throw _ | exact staysIdle_stuck _
        | exact staysIdle_getState | exact staysIdle_getParams | exact staysIdle_getFuel
        | exact staysIdle_call _ | exact staysIdle_ask _ _
        | apply staysIdle_ite | apply staysIdle_bind
        | (apply staysIdle_modifyState; with_unfolding_all exact fun _ h => h) | intro _)
    | split | dsimp only)

theorem staysIdle_config_if_session_cleanup : StaysIdle config_if_session_cleanup := by
  unfold config_if_session_cleanup
  repeat (first
    | with_reducible (first
        | exact staysIdle_pure _ | exact staysIdle_throw _ | exact staysIdle_stuck _
        | exact staysIdle_getState | exact staysIdle_getParams | exact staysIdle_getFuel
        | exact staysIdle_call _ | exact staysIdle_ask _ _
        | apply staysIdle_fs_close
        | apply staysIdle_ite | apply staysIdle_bind
        | (apply staysIdle_modifyState; with_unfolding_all exact fun _ h => h) | intro _)
    | split | dsimp only)

set_option maxRecDepth 8000 in
theorem staysIdle_config_if_callback (event : config_if_event_t) :
    StaysIdle (config_if_callback event) := by
  unfold config_if_callback
  cases event <;>
  repeat (first
    | with_reducible (first
        | exact staysIdle_pure _ | exact staysIdle_throw _ | exact staysIdle_stuck _
        | exact staysIdle_getState | exact staysIdle_getParams | exact staysIdle_getFuel
        | exact staysIdle_call _ | exact staysIdle_ask _ _
        | apply staysIdle_config_if_timeout_reset | apply staysIdle_config_if_session_cleanup
        | apply staysIdle_ite | apply staysIdle_bind
        | (apply staysIdle_modifyState; with_unfolding_all exact fun _ h => h) | intro _)
    | split | dsimp only)

theorem staysIdle_config_if_deliver (events : List config_if_event_t) :
    StaysIdle (config_if_deliver events) := by
  induction events with
  | nil => exact staysIdle_pure _
  | cons event events ih =>
    exact staysIdle_bind (staysIdle_config_if_callback event) (fun _ => ih)

theorem staysIdle_config_if_tick : StaysIdle config_if_tick := by
  unfold config_if_tick
  repeat (first
    | with_reducible (first
        | exact staysIdle_pure _ | exact staysIdle_throw _ | exact staysIdle_stuck _
        | exact staysIdle_getState | exact staysIdle_getParams | exact staysIdle_getFuel
        | exact staysIdle_call _ | exact staysIdle_ask _ _
        | apply staysIdle_config_if_deliver
        | apply staysIdle_ite | apply staysIdle_bind | intro _)
    | split | dsimp only)

set_option maxRecDepth 8000 in
theorem staysIdle_logging_add_to_buffer (data : log_record) :
    StaysIdle (logging_add_to_buffer data) := by
  unfold logging_add_to_buffer
  repeat (first
    | with_reducible (first
        | exact staysIdle_pure _ | exact staysIdle_throw _ | exact staysIdle_stuck _
        | exact staysIdle_getState | exact staysIdle_getParams | exact staysIdle_getFuel
        | exact staysIdle_call _ | exact staysIdle_ask _ _
        | apply staysIdle_ite | apply staysIdle_bind
        | (apply staysIdle_modifyState; with_unfolding_all exact fun _ h => h) | intro _)
    | split | dsimp only)

theorem staysIdle_manage_ble : StaysIdle manage_ble := by
  unfold manage_ble
  repeat (first
    | with_reducible (first
        | exact staysIdle_pure _ | exact staysIdle_throw _ | exact staysIdle_stuck _
        | exact staysIdle_getState | exact staysIdle_getParams | exact staysIdle_getFuel
        | exact staysIdle_call _ | exact staysIdle_ask _ _
        | apply staysIdle_config_if_callback
        | apply staysIdle_ite | apply staysIdle_bind | intro _)
    | split | dsimp only)

theorem staysIdle_syshal_gps_shutdown : StaysIdle syshal_gps_shutdown := by
  unfold syshal_gps_shutdown
  repeat (first
    | with_reducible (first
        | exact staysIdle_pure _ | exact staysIdle_throw _ | exact staysIdle_stuck _
        | exact staysIdle_getState | exact staysIdle_getParams | exact staysIdle_getFuel
        | exact staysIdle_call _ | exact staysIdle_ask _ _
        | apply staysIdle_ite | apply staysIdle_bind | intro _)
    | split | dsimp only)

theorem staysIdle_syshal_timer_cancel (t : timer_handle_t) : StaysIdle (syshal_timer_cancel t) := by
  unfold syshal_timer_cancel
  repeat (first
    | with_reducible (first
        | exact staysIdle_pure _ | exact staysIdle_throw _ | exact staysIdle_stuck _
        | exact staysIdle_getState | exact staysIdle_getParams | exact staysIdle_getFuel
        | exact staysIdle_call _ | exact staysIdle_ask _ _
        | apply staysIdle_ite | apply staysIdle_bind | intro _)
    | split | dsimp only)

set_option maxRecDepth 8000 in
theorem staysIdle_timer_switch_hysteresis_callback :
    StaysIdle timer_switch_hysteresis_callback := by
  unfold timer_switch_hysteresis_callback
  repeat (first
    | with_reducible (first
        | exact staysIdle_pure _ | exact staysIdle_throw _ | exact staysIdle_stuck _
        | exact staysIdle_getState | exact staysIdle_getParams | exact staysIdle_getFuel
        | exact staysIdle_call _ | exact staysIdle_ask _ _
        | apply staysIdle_logging_add_to_buffer | apply staysIdle_syshal_gps_shutdown
        | apply staysIdle_syshal_timer_cancel | apply staysIdle_set_sm_gps_state
        | apply staysIdle_ite | apply staysIdle_bind
        | (apply staysIdle_modifyState; with_unfolding_all exact fun _ h => h) | intro _)
    | split | dsimp only)

theorem staysIdle_syshal_gps_wake_up : StaysIdle syshal_gps_wake_up := by
  unfold syshal_gps_wake_up
  repeat (first
    | with_reducible (first
        | exact staysIdle_pure _ | exact staysIdle_throw _ | exact staysIdle_stuck _
        | exact staysIdle_getState | exact staysIdle_getParams | exact staysIdle_getFuel
        | exact staysIdle_call _ | exact staysIdle_ask _ _
        | apply staysIdle_ite | apply staysIdle_bind | intro _)
    | split | dsimp only)

theorem staysIdle_syshal_timer_set (t : timer_handle_t) (mode : timer_mode_t) (seconds : Nat) :
    StaysIdle (syshal_timer_set t mode seconds) := by
  unfold syshal_timer_set
  repeat (first
    | with_reducible (first
        | exact staysIdle_pure _ | exact staysIdle_throw _ | exact staysIdle_stuck _
        | exact staysIdle_getState | exact staysIdle_getParams | exact staysIdle_getFuel
        | exact staysIdle_call _ | exact staysIdle_ask _ _
        | apply staysIdle_ite | apply staysIdle_bind | intro _)
    | split | dsimp only)

set_option maxRecDepth 8000 in
theorem staysIdle_timer_gps_interval_callback : StaysIdle timer_gps_interval_callback := by
  unfold timer_gps_interval_callback
  repeat (first
    | with_reducible (first
        | exact staysIdle_pure _ | exact staysIdle_throw _ | exact staysIdle_stuck _
        | exact staysIdle_getState | exact staysIdle_getParams | exact staysIdle_getFuel
        | exact staysIdle_call _ | exact staysIdle_ask _ _
        | apply staysIdle_syshal_gps_wake_up | apply staysIdle_syshal_timer_set
        | apply staysIdle_set_sm_gps_state
        | apply staysIdle_ite | apply staysIdle_bind
        | (apply staysIdle_modifyState; with_unfolding_all exact fun _ h => h) | intro _)
    | split | dsimp only)

theorem staysIdle_timer_gps_no_fix_callback : StaysIdle timer_gps_no_fix_callback := by
  unfold timer_gps_no_fix_callback
  repeat (first
    | with_reducible (first
        | exact staysIdle_pure _ | exact staysIdle_throw _ | exact staysIdle_stuck _
        | exact staysIdle_getState | exact staysIdle_getParams | exact staysIdle_getFuel
        | exact staysIdle_call _ | exact staysIdle_ask _ _
        | apply staysIdle_syshal_gps_shutdown | apply staysIdle_syshal_timer_cancel
        | apply staysIdle_set_sm_gps_state
        | apply staysIdle_ite | apply staysIdle_bind | intro _)
    | split | dsimp only)

theorem staysIdle_timer_gps_maximum_acquisition_callback :
    StaysIdle timer_gps_maximum_acquisition_callback := by
  unfold timer_gps_maximum_acquisition_callback
  repeat (first
    | with_reducible (first
        | exact staysIdle_pure _ | exact staysIdle_throw _ | exact staysIdle_stuck _
        | exact staysIdle_getState | exact staysIdle_getParams | exact staysIdle_getFuel
        | exact staysIdle_call _ | exact staysIdle_ask _ _
        | apply staysIdle_syshal_gps_shutdown | apply staysIdle_syshal_timer_cancel
        | apply staysIdle_set_sm_gps_state
        | apply staysIdle_ite | apply staysIdle_bind | intro _)
    | split | dsimp only)

theorem staysIdle_timer_log_flush_callback : StaysIdle timer_log_flush_callback := by
  unfold timer_log_flush_callback
  repeat (first
    | with_reducible (first
        | exact staysIdle_pure _ | exact staysIdle_throw _ | exact staysIdle_stuck _
        | exact staysIdle_getState | exact staysIdle_getParams | exact staysIdle_getFuel
        | exact staysIdle_call _ | exact staysIdle_ask _ _
        | apply staysIdle_ite | apply staysIdle_bind | intro _)
    | split | dsimp only)

theorem staysIdle_timer_pressure_interval_callback :
    StaysIdle timer_pressure_interval_callback := by
  unfold timer_pressure_interval_callback
  repeat (first
    | with_reducible (first
        | exact staysIdle_pure _ | exact staysIdle_throw _ | exact staysIdle_stuck _
        | exact staysIdle_getState | exact staysIdle_getParams | exact staysIdle_getFuel
        | exact staysIdle_call _ | exact staysIdle_ask _ _
        | apply staysIdle_syshal_timer_set
        | apply staysIdle_ite | apply staysIdle_bind | intro _)
    | split | dsimp only)

theorem staysIdle_timer_pressure_maximum_acquisition_callback :
    StaysIdle timer_pressure_maximum_acquisition_callback := by
  unfold timer_pressure_maximum_acquisition_callback
  repeat (first
    | with_reducible (first
        | exact staysIdle_pure _ | exact staysIdle_throw _ | exact staysIdle_stuck _
        | exact staysIdle_getState | exact staysIdle_getParams | exact staysIdle_getFuel
        | exact staysIdle_call _ | exact staysIdle_ask _ _
        | apply staysIdle_ite | apply staysIdle_bind | intro _)
    | split | dsimp only)

theorem staysIdle_timer_axl_interval_callback : StaysIdle timer_axl_interval_callback := by
  unfold timer_axl_interval_callback
  repeat (first
    | with_reducible (first
        | exact staysIdle_pure _ | exact staysIdle_throw _ | exact staysIdle_stuck _
        | exact staysIdle_getState | exact staysIdle_getParams | exact staysIdle_getFuel
        | exact staysIdle_call _ | exact staysIdle_ask _ _
        | apply staysIdle_syshal_timer_set
        | apply staysIdle_ite | apply staysIdle_bind | intro _)
    | split | dsimp only)

theorem staysIdle_timer_axl_maximum_acquisition_callback :
    StaysIdle timer_axl_maximum_acquisition_callback := by
  unfold timer_axl_maximum_acquisition_callback
  repeat (first
    | with_reducible (first
        | exact staysIdle_pure _ | exact staysIdle_throw _ | exact staysIdle_stuck _
        | exact staysIdle_getState | exact staysIdle_getParams | exact staysIdle_getFuel
        | exact staysIdle_call _ | exact staysIdle_ask _ _
        | apply staysIdle_ite | apply staysIdle_bind | intro _)
    | split | dsimp only)

theorem staysIdle_timer_callback (t : timer_handle_t) : StaysIdle (timer_callback t) := by
  cases t
  · exact staysIdle_timer_gps_interval_callback
  · exact staysIdle_timer_gps_no_fix_callback
  · exact staysIdle_timer_gps_maximum_acquisition_callback
  · exact staysIdle_timer_log_flush_callback
  · exact staysIdle_timer_switch_hysteresis_callback
  · exact staysIdle_timer_pressure_interval_callback
  · exact staysIdle_pure _
  · exact staysIdle_timer_pressure_maximum_acquisition_callback
  · exact staysIdle_timer_axl_interval_callback
  · exact staysIdle_timer_axl_maximum_acquisition_callback

theorem staysIdle_deliver {α : Type} (callback : α → M Unit)
    (h : ∀ a, StaysIdle (callback a)) (events : List α) :
    StaysIdle (deliver callback events) := by
  induction events with
  | nil => exact staysIdle_pure _
  | cons event events ih => exact staysIdle_bind (h event) (fun _ => ih)

theorem staysIdle_syshal_timer_tick : StaysIdle syshal_timer_tick :=
  staysIdle_bind (staysIdle_ask _ _)
    (fun _ => staysIdle_deliver _ staysIdle_timer_callback _)

set_option maxRecDepth 8000 in
theorem staysIdle_syshal_gps_callback (event : syshal_gps_event_t) :
    StaysIdle (syshal_gps_callback event) := by
  unfold syshal_gps_callback
  repeat (first
    | with_reducible (first
        | exact staysIdle_pure _ | exact staysIdle_throw _ | exact staysIdle_stuck _
        | exact staysIdle_getState | exact staysIdle_getParams | exact staysIdle_getFuel
        | exact staysIdle_call _ | exact staysIdle_ask _ _
        | apply staysIdle_logging_add_to_buffer | apply staysIdle_syshal_gps_shutdown
        | apply staysIdle_syshal_timer_set | apply staysIdle_syshal_timer_cancel
        | apply staysIdle_set_sm_gps_state
        | apply staysIdle_ite | apply staysIdle_bind
        | (apply staysIdle_modifyState; with_unfolding_all exact fun _ h => h) | intro _)
    | split | dsimp only)

theorem staysIdle_syshal_gps_tick : StaysIdle syshal_gps_tick :=
  staysIdle_bind (staysIdle_ask _ _)
    (fun _ => staysIdle_deliver _ staysIdle_syshal_gps_callback _)

theorem staysIdle_syshal_pressure_callback (pressure : Int) :
    StaysIdle (syshal_pressure_callback pressure) := by
  unfold syshal_pressure_callback
  repeat (first
    | with_reducible (first
        | exact staysIdle_pure _ | exact staysIdle_throw _ | exact staysIdle_stuck _
        | exact staysIdle_getState | exact staysIdle_getParams | exact staysIdle_getFuel
        | exact staysIdle_call _ | exact staysIdle_ask _ _
        | apply staysIdle_logging_add_to_buffer
        | apply staysIdle_ite | apply staysIdle_bind | intro _)
    | split | dsimp only)

theorem staysIdle_syshal_pressure_tick : StaysIdle syshal_pressure_tick :=
  staysIdle_bind (staysIdle_ask _ _)
    (fun _ => staysIdle_deliver _ staysIdle_syshal_pressure_callback _)

theorem staysIdle_syshal_axl_callback (data : syshal_axl_data_t) :
    StaysIdle (syshal_axl_callback data) := by
  unfold syshal_axl_callback
  repeat (first
    | with_reducible (first
        | exact staysIdle_pure _ | exact staysIdle_throw _ | exact staysIdle_stuck _
        | exact staysIdle_getState | exact staysIdle_getParams | exact staysIdle_getFuel
        | exact staysIdle_call _ | exact staysIdle_ask _ _
        | apply staysIdle_logging_add_to_buffer
        | apply staysIdle_ite | apply staysIdle_bind | intro _)
    | split | dsimp only)

theorem staysIdle_syshal_axl_tick : StaysIdle syshal_axl_tick :=
  staysIdle_bind (staysIdle_ask _ _)
    (fun _ => staysIdle_deliver _ staysIdle_syshal_axl_callback _)

theorem staysIdle_syshal_gps_flush_loop (fuel : Nat) :
    StaysIdle (syshal_gps_flush_loop fuel) := by
  induction fuel with
  | zero => exact staysIdle_stuck _
  | succ n ih =>
    unfold syshal_gps_flush_loop
    exact staysIdle_bind (staysIdle_ask _ _)
      (fun _ => staysIdle_ite _ ih (staysIdle_pure _))

theorem staysIdle_operational_blink_loop (n : Nat) :
    StaysIdle (operational_blink_loop n) := by
  induction n with
  | zero => exact staysIdle_pure _
  | succ n ih =>
    exact staysIdle_bind (staysIdle_call _)
      (fun _ => staysIdle_bind (staysIdle_call _) (fun _ => ih))

theorem staysIdle_operational_gps_wake : StaysIdle operational_gps_wake := by
  unfold operational_gps_wake
  repeat (first
    | with_reducible (first
        | exact staysIdle_pure _ | exact staysIdle_throw _ | exact staysIdle_stuck _
        | exact staysIdle_getState | exact staysIdle_getParams | exact staysIdle_getFuel
        | exact staysIdle_call _ | exact staysIdle_ask _ _
        | apply staysIdle_syshal_gps_wake_up | apply staysIdle_set_sm_gps_state
        | apply staysIdle_ite | apply staysIdle_bind
        | (apply staysIdle_modifyState; with_unfolding_all exact fun _ h => h) | intro _)
    | split | dsimp only)

theorem staysIdle_operational_gps_sleep : StaysIdle operational_gps_sleep := by
  unfold operational_gps_sleep
  repeat (first
    | with_reducible (first
        | exact staysIdle_pure _ | exact staysIdle_throw _ | exact staysIdle_stuck _
        | exact staysIdle_getState | exact staysIdle_getParams | exact staysIdle_getFuel
        | exact staysIdle_call _ | exact staysIdle_ask _ _
        | apply staysIdle_syshal_gps_shutdown | apply staysIdle_set_sm_gps_state
        | apply staysIdle_ite | apply staysIdle_bind | intro _)
    | split | dsimp only)

set_option maxRecDepth 8000 in
theorem staysIdle_sm_main_operational_entry : StaysIdle sm_main_operational_entry := by
  unfold sm_main_operational_entry
  simp only [m_ite_bind, ← m_bind_assoc]
  simp only [m_bind_assoc]
  repeat (first
    | with_reducible (first
        | exact staysIdle_pure _ | exact staysIdle_throw _ | exact staysIdle_stuck _
        | exact staysIdle_getState | exact staysIdle_getParams | exact staysIdle_getFuel
        | exact staysIdle_call _ | exact staysIdle_ask _ _
        | apply staysIdle_fs_open | apply staysIdle_syshal_gps_flush_loop
        | apply staysIdle_syshal_timer_set | apply staysIdle_operational_blink_loop
        | apply staysIdle_operational_gps_wake | apply staysIdle_operational_gps_sleep
        | apply staysIdle_ite | apply staysIdle_bind
        | (apply staysIdle_modifyState; with_unfolding_all exact fun _ h => h) | intro _)
    | split | dsimp only)

theorem staysIdle_fs_write (data : List Nat) : StaysIdle (fs_write data) := by
  unfold fs_write
  repeat (first
    | with_reducible (first
        | exact staysIdle_pure _ | exact staysIdle_throw _ | exact staysIdle_stuck _
        | exact staysIdle_getState | exact staysIdle_getParams | exact staysIdle_getFuel
        | exact staysIdle_call _ | exact staysIdle_ask _ _
        | apply staysIdle_ite | apply staysIdle_bind | intro _)
    | split | dsimp only)

theorem staysIdleSM_sm_main_operational_drain_loop (fuel : Nat) :
    StaysIdleSM (sm_main_operational_drain_loop fuel) := by
  induction fuel with
  | zero => exact staysIdleSM_lift (staysIdle_stuck _)
  | succ n ih =>
    unfold sm_main_operational_drain_loop
    repeat (first
      | exact ih
      | with_reducible (first
          | exact staysIdleSM_pure _ | exact staysIdleSM_getHandle
          | exact staysIdleSM_sm_set_next_state _ | apply staysIdleSM_lift
          | exact staysIdle_pure _ | exact staysIdle_throw _ | exact staysIdle_stuck _
          | exact staysIdle_getState | exact staysIdle_getParams | exact staysIdle_getFuel
          | exact staysIdle_call _ | exact staysIdle_ask _ _
          | apply staysIdle_fs_write
          | apply staysIdleSM_ite | apply staysIdleSM_bind
          | apply staysIdle_ite | apply staysIdle_bind
          | (apply staysIdle_modifyState; with_unfolding_all exact fun _ h => h) | intro _)
      | split | dsimp only)

set_option maxRecDepth 8000 in
theorem staysIdleSM_sm_main_operational_run : StaysIdleSM sm_main_operational_run := by
  unfold sm_main_operational_run
  simp only [sm_ite_bind, ← sm_bind_assoc]
  simp only [sm_bind_assoc]
  repeat (first
    | with_reducible (first
        | exact staysIdleSM_pure _ | exact staysIdleSM_getHandle
        | exact staysIdleSM_sm_set_next_state _ | apply staysIdleSM_lift
        | exact staysIdle_pure _ | exact staysIdle_throw _ | exact staysIdle_stuck _
        | exact staysIdle_getState | exact staysIdle_getParams | exact staysIdle_getFuel
        | exact staysIdle_call _ | exact staysIdle_ask _ _
        | apply staysIdle_syshal_timer_tick | apply staysIdle_syshal_gps_tick
        | apply staysIdle_syshal_pressure_tick | apply staysIdle_syshal_axl_tick
        | apply staysIdle_sm_main_operational_entry
        | apply staysIdleSM_sm_main_operational_drain_loop
        | apply staysIdleSM_ite | apply staysIdleSM_bind
        | apply staysIdle_ite | apply staysIdle_bind
        | (apply staysIdle_modifyState; with_unfolding_all exact fun _ h => h) | intro _)
    | split | dsimp only)

theorem staysIdle_sm_main_operational_exit : StaysIdle sm_main_operational_exit := by
  unfold sm_main_operational_exit
  repeat (first
    | with_reducible (first
        | exact staysIdle_pure _ | exact staysIdle_throw _ | exact staysIdle_stuck _
        | exact staysIdle_getState | exact staysIdle_getParams | exact staysIdle_getFuel
        | exact staysIdle_call _ | exact staysIdle_ask _ _
        | apply staysIdle_fs_close | apply staysIdle_syshal_gps_shutdown
        | apply staysIdle_set_sm_gps_state
        | apply staysIdle_ite | apply staysIdle_bind
        | (apply staysIdle_modifyState; with_unfolding_all exact fun _ h => h) | intro _)
    | split | dsimp only)

set_option maxRecDepth 8000 in
theorem staysIdleSM_sm_main_operational : StaysIdleSM sm_main_operational := by
  unfold sm_main_operational
  simp only [sm_ite_bind, ← sm_bind_assoc]
  simp only [sm_bind_assoc]
  repeat (first
    | with_reducible (first
        | exact staysIdleSM_pure _ | exact staysIdleSM_getHandle
        | exact staysIdleSM_sm_set_next_state _ | apply staysIdleSM_lift
        | exact staysIdle_pure _ | exact staysIdle_throw _ | exact staysIdle_stuck _
        | exact staysIdle_getState | exact staysIdle_getParams | exact staysIdle_getFuel
        | exact staysIdle_call _ | exact staysIdle_ask _ _
        | apply staysIdle_config_if_tick | apply staysIdle_logging_add_to_buffer
        | apply staysIdle_manage_ble | apply staysIdleSM_sm_main_operational_run
        | apply staysIdle_sm_main_operational_exit
        | apply staysIdleSM_ite | apply staysIdleSM_bind
        | apply staysIdle_ite | apply staysIdle_bind
        | (apply staysIdle_modifyState; with_unfolding_all exact fun _ h => h) | intro _)
    | split | dsimp only)

set_option maxRecDepth 8000 in
theorem staysIdleSM_sm_main_log_file_full : StaysIdleSM sm_main_log_file_full := by
  unfold sm_main_log_file_full
  simp only [sm_ite_bind, ← sm_bind_assoc]
  simp only [sm_bind_assoc]
  repeat (first
    | with_reducible (first
        | exact staysIdleSM_pure _ | exact staysIdleSM_getHandle
        | exact staysIdleSM_sm_set_next_state _ | apply staysIdleSM_lift
        | exact staysIdle_pure _ | exact staysIdle_throw _ | exact staysIdle_stuck _
        | exact staysIdle_getState | exact staysIdle_getParams | exact staysIdle_getFuel
        | exact staysIdle_call _ | exact staysIdle_ask _ _
        | apply staysIdle_config_if_tick | apply staysIdle_manage_ble
        | apply staysIdleSM_ite | apply staysIdleSM_bind
        | apply staysIdle_ite | apply staysIdle_bind | intro _)
    | split | dsimp only)

set_option maxRecDepth 8000 in
theorem staysIdleSM_sm_main_battery_charging : StaysIdleSM sm_main_battery_charging := by
  unfold sm_main_battery_charging
  simp only [sm_ite_bind, ← sm_bind_assoc]
  simp only [sm_bind_assoc]
  repeat (first
    | with_reducible (first
        | exact staysIdleSM_pure _ | exact staysIdleSM_getHandle
        | exact staysIdleSM_sm_set_next_state _ | apply staysIdleSM_lift
        | exact staysIdle_pure _ | exact staysIdle_throw _ | exact staysIdle_stuck _
        | exact staysIdle_getState | exact staysIdle_getParams | exact staysIdle_getFuel
        | exact staysIdle_call _ | exact staysIdle_ask _ _
        | apply staysIdle_config_if_tick | apply staysIdle_check_configuration_tags_set
        | apply staysIdle_manage_ble | apply staysIdle_syshal_timer_tick
        | apply staysIdleSM_ite | apply staysIdleSM_bind
        | apply staysIdle_ite | apply staysIdle_bind
        | (apply staysIdle_modifyState; with_unfolding_all exact fun _ h => h) | intro _)
    | split | dsimp only)

theorem staysIdleSM_sm_main_battery_level_low : StaysIdleSM sm_main_battery_level_low := by
  unfold sm_main_battery_level_low
  repeat (first
    | with_reducible (first
        | exact staysIdleSM_pure _ | exact staysIdleSM_getHandle
        | exact staysIdleSM_sm_set_next_state _ | apply staysIdleSM_lift
        | exact staysIdle_pure _ | exact staysIdle_throw _ | exact staysIdle_stuck _
        | exact staysIdle_getState | exact staysIdle_getParams | exact staysIdle_getFuel
        | exact staysIdle_call _ | exact staysIdle_ask _ _
        | apply staysIdle_syshal_gps_shutdown | apply staysIdle_set_sm_gps_state
        | apply staysIdleSM_ite | apply staysIdleSM_bind
        | apply staysIdle_ite | apply staysIdle_bind | intro _)
    | split | dsimp only)

set_option maxRecDepth 8000 in
theorem staysIdleSM_sm_main_provisioning_needed : StaysIdleSM sm_main_provisioning_needed := by
  unfold sm_main_provisioning_needed
  simp only [sm_ite_bind, ← sm_bind_assoc]
  simp only [sm_bind_assoc]
  repeat (first
    | with_reducible (first
        | exact staysIdleSM_pure _ | exact staysIdleSM_getHandle
        | exact staysIdleSM_sm_set_next_state _ | apply staysIdleSM_lift
        | exact staysIdle_pure _ | exact staysIdle_throw _ | exact staysIdle_stuck _
        | exact staysIdle_getState | exact staysIdle_getParams | exact staysIdle_getFuel
        | exact staysIdle_call _ | exact staysIdle_ask _ _
        | apply staysIdle_config_if_tick | apply staysIdle_manage_ble
        | apply staysIdle_syshal_gps_shutdown | apply staysIdle_set_sm_gps_state
        | apply staysIdle_syshal_timer_tick
        | apply staysIdleSM_ite | apply staysIdleSM_bind
        | apply staysIdle_ite | apply staysIdle_bind
        | (apply staysIdle_modifyState; with_unfolding_all exact fun _ h => h) | intro _)
    | split | dsimp only)

theorem staysIdle_message_set_state_idle :
    StaysIdle (message_set_state .SM_MESSAGE_STATE_IDLE) :=
  staysIdle_bind staysIdle_config_if_timeout_reset
    (fun _ => staysIdle_modifyState _ (fun _ _ => rfl))

theorem staysIdle_sm_main_provisioning_exit : StaysIdle sm_main_provisioning_exit := by
  unfold sm_main_provisioning_exit
  repeat (first
    | with_reducible (first
        | exact staysIdle_pure _ | exact staysIdle_throw _ | exact staysIdle_stuck _
        | exact staysIdle_getState | exact staysIdle_getParams | exact staysIdle_getFuel
        | exact staysIdle_call _ | exact staysIdle_ask _ _
        | apply staysIdle_message_set_state_idle | apply staysIdle_fs_close
        | apply staysIdle_config_if_session_cleanup
        | apply staysIdle_ite | apply staysIdle_bind
        | (apply staysIdle_modifyState; with_unfolding_all exact fun _ h => h) | intro _)
    | split | dsimp only)
theorem keepsCurrent_lift {α : Type} (m : M α) : KeepsCurrent (liftM m : SM α) := by
  intro c h s
  rw [lift_apply]
  cases m c s <;> rfl

theorem keepsCurrent_pure {α : Type} (a : α) : KeepsCurrent (pure a : SM α) :=
  fun _ _ _ => rfl

theorem keepsCurrent_getHandle : KeepsCurrent getHandle := fun _ _ _ => rfl

theorem keepsCurrent_sm_set_next_state (st : sm_main_state_t) :
    KeepsCurrent (sm_set_next_state st) := fun _ _ _ => rfl

theorem keepsCurrent_bind {α β : Type} {m : SM α} {f : α → SM β} (hm : KeepsCurrent m)
    (hf : ∀ a, KeepsCurrent (f a)) : KeepsCurrent (m >>= f) := by
  intro c h s
  have h1 := hm c h s
  rw [sm_bind_apply]
  cases hx : m c h s with
  | ok a h2 s1 =>
    rw [hx] at h1
    exact (hf a c h2 s1).trans h1
  | throw e h2 s1 => rw [hx] at h1; exact h1
  | stuck w h2 s1 => rw [hx] at h1; exact h1

theorem keepsCurrent_ite {α : Type} (p : Prop) [Decidable p] {a b : SM α}
    (ha : KeepsCurrent a) (hb : KeepsCurrent b) : KeepsCurrent (if p then a else b) := by
  split
  · exact ha
  · exact hb

theorem keepsCurrent_sm_main_provisioning_poll : KeepsCurrent sm_main_provisioning_poll := by
  unfold sm_main_provisioning_poll
  simp only [sm_ite_bind, ← sm_bind_assoc]
  simp only [sm_bind_assoc]
  repeat (first
    | with_reducible (first
        | exact keepsCurrent_pure _ | exact keepsCurrent_getHandle
        | exact keepsCurrent_sm_set_next_state _ | exact keepsCurrent_lift _
        | apply keepsCurrent_ite | apply keepsCurrent_bind | intro _)
    | split | dsimp only)

theorem keepsCurrent_sm_main_provisioning : KeepsCurrent sm_main_provisioning := by
  unfold sm_main_provisioning
  simp only [sm_ite_bind, ← sm_bind_assoc]
  simp only [sm_bind_assoc]
  repeat (first
    | with_reducible (first
        | exact keepsCurrent_pure _ | exact keepsCurrent_getHandle
        | exact keepsCurrent_sm_set_next_state _ | exact keepsCurrent_lift _
        | exact keepsCurrent_sm_main_provisioning_poll
        | apply keepsCurrent_ite | apply keepsCurrent_bind | intro _)
    | split | dsimp only)

theorem leavesIdle_bind {α β : Type} (m : SM α) {f : α → SM β}
    (hf : ∀ a, LeavesIdle (f a)) : LeavesIdle (m >>= f) := by
  intro c h s b h2 s2 hr
  rw [sm_bind_apply] at hr
  cases hx : m c h s with
  | ok a h1 s1 =>
    rw [hx] at hr
    exact hf a c h1 s1 b h2 s2 hr
  | throw e h1 s1 => rw [hx] at hr; exact HRes.noConfusion hr
  | stuck w h1 s1 => rw [hx] at hr; exact HRes.noConfusion hr

theorem sets_idle_bind {α β : Type} (m : M α) (f : α → M β)
    (hm : ∀ c s, ∃ a s1, m c s = .ok a s1 ∧ s1.message_state = .SM_MESSAGE_STATE_IDLE)
    (hf : ∀ a, StaysIdle (f a)) (c : Ctx) (s : State) :
    ((m >>= f) c s).state.message_state = .SM_MESSAGE_STATE_IDLE := by
  obtain ⟨a, s1, e, hs⟩ := hm c s
  rw [bind_apply, e]
  exact hf a c s1 hs

/-- The exit block of `sm_main_provisioning` ends with `message_state` Idle: it starts
with `message_set_state(SM_MESSAGE_STATE_IDLE)` and nothing after it leaves Idle. -/
theorem sm_main_provisioning_exit_idle (c : Ctx) (s : State) :
    (sm_main_provisioning_exit c s).state.message_state = .SM_MESSAGE_STATE_IDLE := by
  unfold sm_main_provisioning_exit
  apply sets_idle_bind
  · exact fun c s => ⟨_, _, rfl, rfl⟩
  · repeat (first
      | with_reducible (first
          | exact staysIdle_pure _ | exact staysIdle_getState | exact staysIdle_call _
          | apply staysIdle_fs_close | apply staysIdle_config_if_session_cleanup
          | apply staysIdle_ite | apply staysIdle_bind
          | (apply staysIdle_modifyState; with_unfolding_all exact fun _ h => h) | intro _)
      | split | dsimp only)

/-- The test that ends `sm_main_provisioning`: when the next state differs from the
current one the exit block has run. -/
theorem leavesIdle_provisioning_tail :
    LeavesIdle (do
      let state_handle ← getHandle
      if sm_is_last_entry state_handle then
        (liftM sm_main_provisioning_exit : SM Unit)
      else pure ()) := by
  intro c h s a h1 s1 hr hne
  rw [sm_bind_apply] at hr
  simp only [getHandle, sm_ite_apply] at hr
  have hlast : sm_is_last_entry h = true := by
    by_cases hl : sm_is_last_entry h = true
    · exact hl
    · rw [if_neg hl] at hr
      injection hr with _ hh _
      subst hh
      unfold sm_is_last_entry at hl
      rw [bne_iff_ne] at hl
      exact absurd hne hl
  rw [if_pos hlast, lift_apply] at hr
  have hidle := sm_main_provisioning_exit_idle c s
  cases hx : sm_main_provisioning_exit c s with
  | ok a0 s0 =>
    rw [hx] at hr hidle
    injection hr with _ _ hs
    subst hs
    exact hidle
  | throw e s0 => rw [hx] at hr; exact HRes.noConfusion hr
  | stuck w s0 => rw [hx] at hr; exact HRes.noConfusion hr

theorem leavesIdle_sm_main_provisioning : LeavesIdle sm_main_provisioning := by
  unfold sm_main_provisioning
  simp only [sm_ite_bind, ← sm_bind_assoc]
  simp only [sm_bind_assoc]
  repeat (first
    | exact leavesIdle_provisioning_tail
    | apply leavesIdle_bind
    | intro _)

/-- One iteration of the super-loop keeps the invariant: outside Provisioning the protocol
sub-state is Idle. -/
theorem sm_tick_idle (c : Ctx) (h h1 : sm_handle_t) (s s1 : State)
    (hinv : h.current_state ≠ .SM_MAIN_PROVISIONING →
      s.message_state = .SM_MESSAGE_STATE_IDLE)
    (hrun : sm_tick c h s = some (h1, s1)) :
    h1.current_state ≠ .SM_MAIN_PROVISIONING →
      s1.message_state = .SM_MESSAGE_STATE_IDLE := by
  intro hcur
  unfold sm_tick at hrun
  by_cases hp : h.current_state = .SM_MAIN_PROVISIONING
  · -- the state function of Provisioning
    have hk := keepsCurrent_sm_main_provisioning c h s
    rw [hp] at hrun
    simp only [sm_main_states] at hrun
    cases hx : sm_main_provisioning c h s with
    | ok a h2 s2 =>
      rw [hx] at hrun hk
      simp only [Option.some.injEq, Prod.mk.injEq] at hrun
      obtain ⟨e1, e2⟩ := hrun
      rw [← e2]
      have hc1 : h1.current_state = h2.next_state := by rw [← e1]; rfl
      have hk2 : h2.current_state = .SM_MAIN_PROVISIONING := hk.trans hp
      apply leavesIdle_sm_main_provisioning c h s a h2 s2 hx
      rw [hk2]
      exact fun e => hcur (hc1.trans e.symm)
    | throw e h2 s2 =>
      rw [hx] at hrun hk
      simp only [Option.some.injEq, Prod.mk.injEq] at hrun
      obtain ⟨e1, _⟩ := hrun
      rw [← e1] at hcur
      exact absurd (hk.trans hp) hcur
    | stuck w h2 s2 =>
      rw [hx] at hrun
      exact Option.noConfusion hrun
  · -- the other state functions keep Idle
    have hidle : (sm_main_states h.current_state c h s).state.message_state =
        .SM_MESSAGE_STATE_IDLE := by
      have hs := hinv hp
      cases hc : h.current_state with
      | SM_MAIN_BOOT => exact staysIdleSM_sm_main_boot c h s hs
      | SM_MAIN_BATTERY_CHARGING => exact staysIdleSM_sm_main_battery_charging c h s hs
      | SM_MAIN_BATTERY_LEVEL_LOW => exact staysIdleSM_sm_main_battery_level_low c h s hs
      | SM_MAIN_LOG_FILE_FULL => exact staysIdleSM_sm_main_log_file_full c h s hs
      | SM_MAIN_PROVISIONING_NEEDED => exact staysIdleSM_sm_main_provisioning_needed c h s hs
      | SM_MAIN_PROVISIONING => exact absurd hc hp
      | SM_MAIN_OPERATIONAL => exact staysIdleSM_sm_main_operational c h s hs
    cases hx : sm_main_states h.current_state c h s with
    | ok a h2 s2 =>
      rw [hx] at hrun hidle
      simp only [Option.some.injEq, Prod.mk.injEq] at hrun
      obtain ⟨_, e2⟩ := hrun
      rw [← e2]
      exact hidle
    | throw e h2 s2 =>
      rw [hx] at hrun hidle
      simp only [Option.some.injEq, Prod.mk.injEq] at hrun
      obtain ⟨_, e2⟩ := hrun
      rw [← e2]
      exact hidle
    | stuck w h2 s2 =>
      rw [hx] at hrun
      exact Option.noConfusion hrun

theorem eq_some_getD {α : Type} (o : Option α) (d : α) (h : o.isSome = true) :
    o = some (o.getD d) := by
  cases o with
  | none => exact Bool.noConfusion h
  | some a => rfl

/-- C38: the super-loop is started with `message_state` Idle (its static initialiser;
`sm_main_boot` sets it again through `set_default_global_values`). At every iteration
boundary reached after any number of iterations, if the current state of the top-level
state machine is not Provisioning then `message_state` is Idle: the state functions other
than `sm_main_provisioning` never assign it, and `sm_main_provisioning` sets it to Idle in
its exit block, which runs on the iteration that selects another state. -/
theorem message_state_idle_outside_provisioning (c : Ctx) (n : Nat) (h0 : sm_handle_t)
    (s0 : State) (r : sm_handle_t × State)
    (hinit : s0.message_state = .SM_MESSAGE_STATE_IDLE)
    (hrun : sm_ticks c n h0 s0 = some r)
    (hcur : r.1.current_state ≠ .SM_MAIN_PROVISIONING) :
    r.2.message_state = .SM_MESSAGE_STATE_IDLE := by
  have key : ∀ (n : Nat) (h0 h : sm_handle_t) (s0 s : State),
      (h0.current_state ≠ .SM_MAIN_PROVISIONING →
        s0.message_state = .SM_MESSAGE_STATE_IDLE) →
      sm_ticks c n h0 s0 = some (h, s) →
      h.current_state ≠ .SM_MAIN_PROVISIONING →
      s.message_state = .SM_MESSAGE_STATE_IDLE := by
    intro n
    induction n with
    | zero =>
      intro h0 h s0 s hinv hrun
      simp only [sm_ticks, Option.some.injEq, Prod.mk.injEq] at hrun
      obtain ⟨e1, e2⟩ := hrun
      rw [← e1, ← e2]
      exact hinv
    | succ n ih =>
      intro h0 h s0 s hinv hrun
      rw [sm_ticks] at hrun
      cases hx : sm_tick c h0 s0 with
      | none => rw [hx] at hrun; exact Option.noConfusion hrun
      | some r =>
        obtain ⟨h1, s1⟩ := r
        rw [hx] at hrun
        exact ih h1 h s1 s (sm_tick_idle c h0 h1 s0 s1 hinv hx) hrun
  exact key n h0 r.1 s0 r.2 (fun _ => hinit) hrun hcur

theorem message_state_idle_outside_provisioning_witness :
    sm_ticks interrupted_session_ctx 5 boot_handle initial_state =
      some interrupted_session_end ∧
    interrupted_session_end.1.current_state = .SM_MAIN_PROVISIONING_NEEDED ∧
    interrupted_session_end.2.message_state = .SM_MESSAGE_STATE_IDLE :=
  ⟨eq_some_getD _ _ (by decide!), by decide!,
    message_state_idle_outside_provisioning interrupted_session_ctx 5 boot_handle
      initial_state interrupted_session_end rfl (eq_some_getD _ _ (by decide!))
      (by decide!)⟩

/-- The run of the witness of C38, boundary by boundary: Boot, ProvisioningNeeded, then
Provisioning once the host has connected; the CfgWrite request puts the engine in
CfgWriteNext, where it stays while the host is silent; on the iteration in which the
disconnection is seen the machine selects ProvisioningNeeded and `message_state` is Idle
again. Started with a `message_state` other than Idle, Boot sets it to Idle. -/
theorem interrupted_session_demo_runs :
    ((List.range 7).map fun n =>
      (sm_ticks interrupted_session_ctx n boot_handle initial_state).map fun r =>
        (r.1.current_state, r.2.message_state)) =
      [some (.SM_MAIN_BOOT, .SM_MESSAGE_STATE_IDLE),
       some (.SM_MAIN_PROVISIONING_NEEDED, .SM_MESSAGE_STATE_IDLE),
       some (.SM_MAIN_PROVISIONING, .SM_MESSAGE_STATE_IDLE),
       some (.SM_MAIN_PROVISIONING, .SM_MESSAGE_STATE_CFG_WRITE_NEXT),
       some (.SM_MAIN_PROVISIONING, .SM_MESSAGE_STATE_CFG_WRITE_NEXT),
       some (.SM_MAIN_PROVISIONING_NEEDED, .SM_MESSAGE_STATE_IDLE),
       some (.SM_MAIN_PROVISIONING_NEEDED, .SM_MESSAGE_STATE_IDLE)] ∧
    (sm_ticks interrupted_session_ctx 1 boot_handle
      { initial_state with message_state := .SM_MESSAGE_STATE_CFG_WRITE_NEXT }).map
        (fun r => (r.1.current_state, r.2.message_state)) =
      some (.SM_MAIN_PROVISIONING_NEEDED, .SM_MESSAGE_STATE_IDLE) := by
  decide!

end SmMain
